import Mathlib

/-!
# Rouleaux front-end: lexer, peek queue, parser and type resolution

A shallow embedding of `librouleaux` (lexer/token.c, lexer/peek_queue.c,
lexer/lexer.c, parser/abstract_syntax_tree.c, parser/parser.c,
typing/symbol_table.c, typing/type_info.c) followed by theorems about it.

Conventions of the embedding.

* A byte (`char`) is a `Nat`.  The classification functions only compare a
  byte with ASCII constants, so a signed or unsigned `char` gives the same
  answers.
* A pointer into the source buffer is the offset from `file_content`.
  `head`, `file_end` and the `text` of a token are such offsets.
* The buffer holds exactly the bytes read from the file; it has no
  terminating NUL (`malloc(file_content_length)` in `lexer_create`).  A read
  of `*lexer->head` or `*(lexer->head + 1)` at or after `file_end` is a read
  outside the bytes of the file: the operation has no result (`none`).  A
  failed `assert` has no result either.
* `u64` counters that count objects held in memory (`size`, `capacity`,
  `length`, rows and columns) are `Nat`: they cannot wrap before the
  address space is exhausted.  Allocation is taken to succeed.  The one
  place where `u64` wrap-around decides the control flow, the loop of
  `peek_queue_push`, is modelled with the wrap-around.
* Freed memory is not modelled: `free`, `parse_result_destroy` and
  `parser_destroy_ast_node` have no effect on the values computed.  The one
  exception is the block of the symbol table: a read through a pointer that
  `symbol_table_find` returned, made after `reallocate_buffer` has freed the
  block, has no result.
* A null pointer that is dereferenced has no result: a null child of a
  node, the null `filename` of a zero-initialised token in
  `location_printable_text`.
-/

namespace Rouleaux

/-! ## token.h -/

/-- The enum `token_type`; single character tokens have their ASCII value. -/
abbrev token_type := Nat

abbrev TOKEN_INVALID : token_type := 0
abbrev TOKEN_KEYWORD_FOR : token_type := 1
abbrev TOKEN_KEYWORD_WHILE : token_type := 2
abbrev TOKEN_KEYWORD_DO : token_type := 3
abbrev TOKEN_KEYWORD_IF : token_type := 4
abbrev TOKEN_KEYWORD_ELSE : token_type := 5
abbrev TOKEN_KEYWORD_NULL : token_type := 6
abbrev TOKEN_KEYWORD_CALL : token_type := 7
abbrev TOKEN_IDENTIFIER : token_type := 8
abbrev TOKEN_EXCLAMATION : token_type := 33
abbrev TOKEN_DOUBLE_QUOTE : token_type := 34
abbrev TOKEN_POUND : token_type := 35
abbrev TOKEN_DOLLAR_SIGN : token_type := 36
abbrev TOKEN_PERCENT : token_type := 37
abbrev TOKEN_AMPERSAND : token_type := 38
abbrev TOKEN_SINGLE_QUOTE : token_type := 39
abbrev TOKEN_LEFT_PAREN : token_type := 40
abbrev TOKEN_RIGHT_PAREN : token_type := 41
abbrev TOKEN_ASTERISK : token_type := 42
abbrev TOKEN_PLUS : token_type := 43
abbrev TOKEN_COMMA : token_type := 44
abbrev TOKEN_MINUS : token_type := 45
abbrev TOKEN_PERIOD : token_type := 46
abbrev TOKEN_FORWARD_SLASH : token_type := 47
abbrev TOKEN_COLON : token_type := 58
abbrev TOKEN_SEMICOLON : token_type := 59
abbrev TOKEN_LESS_THAN : token_type := 60
abbrev TOKEN_EQUALS : token_type := 61
abbrev TOKEN_GREATER_THAN : token_type := 62
abbrev TOKEN_QUESTION_MARK : token_type := 63
abbrev TOKEN_AT_SIGN : token_type := 64
abbrev TOKEN_LEFT_BRACKET : token_type := 91
abbrev TOKEN_BACK_SLASH : token_type := 92
abbrev TOKEN_RIGHT_BRACKET : token_type := 93
abbrev TOKEN_CARET : token_type := 94
abbrev TOKEN_UNDERSCORE : token_type := 95
abbrev TOKEN_GRAVE : token_type := 96
abbrev TOKEN_LEFT_CURLY : token_type := 123
abbrev TOKEN_VERTICAL_BAR : token_type := 124
abbrev TOKEN_RIGHT_CURLY : token_type := 125
abbrev TOKEN_TILDE : token_type := 126
abbrev TOKEN_ARROW : token_type := 127
abbrev TOKEN_INTEGER_LITERAL : token_type := 128
abbrev TOKEN_FLOAT_LITERAL : token_type := 129
abbrev TOKEN_STRING_LITERAL : token_type := 130
abbrev TOKEN_LINE_COMMENT : token_type := 131
abbrev TOKEN_BLOCK_COMMENT : token_type := 132
abbrev TOKEN_EOF : token_type := 133

/-- The struct `location`: row and column of the first byte of a token, and
the `const char* filename` (none is the null pointer of a zero-initialised
token). -/
structure location where
  row : Nat
  column : Nat
  filename : Option String
  deriving DecidableEq, Repr

/-- A `const char*`: null, a pointer into the source buffer (its offset from
`file_content`), or a pointer to a string literal of the program. -/
inductive text_ptr where
  | null
  | file (offset : Nat)
  | literal (bytes : List Nat)
  deriving DecidableEq, Repr

/-- The union `value` of a token.  `zero` is the zero-initialised union,
`unsigned64 v` is the result of `strtoull`, and `float64 bytes` stands for
the double `strtold` returns for the literal text `bytes` (the rounding to
binary64 is not modelled). -/
inductive token_value where
  | zero
  | unsigned64 (v : Nat)
  | float64 (bytes : List Nat)
  deriving DecidableEq, Repr

/-- The struct `token`. -/
structure token where
  type : token_type
  text : text_ptr
  length : Nat
  value : token_value
  location : location
  typing_information : Int
  deriving DecidableEq, Repr

/-- The zero-initialised token of `token t = {};`. -/
def token_zero : token :=
  { type := TOKEN_INVALID, text := text_ptr.null, length := 0, value := token_value.zero,
    location := { row := 0, column := 0, filename := none }, typing_information := 0 }

instance : Inhabited token := ⟨token_zero⟩

/-- The global `keywords` of token.c, as byte strings (without the NUL):
"invalid~~ignored~~", "for", "while", "do", "if", "else", "null", "call". -/
def keywords : List (List Nat) :=
  [ [105, 110, 118, 97, 108, 105, 100, 126, 126, 105, 103, 110, 111, 114, 101, 100, 126, 126],
    [102, 111, 114],
    [119, 104, 105, 108, 101],
    [100, 111],
    [105, 102],
    [101, 108, 115, 101],
    [110, 117, 108, 108],
    [99, 97, 108, 108] ]

def keywords_array_length : Nat := keywords.length

/-- The bytes found at a pointer: the rest of the source buffer, or the
literal with its terminating NUL. -/
def deref (mem : List Nat) : text_ptr → List Nat
  | text_ptr.null => []
  | text_ptr.file offset => mem.drop offset
  | text_ptr.literal bytes => bytes ++ [0]

/-- The text of a token: `t.length` bytes at `t.text`. -/
def token_text (mem : List Nat) (t : token) : List Nat :=
  (deref mem t.text).take t.length

/-- The test `memcmp(a, b, n) == 0`. -/
def memcmp_eq (a b : List Nat) (n : Nat) : Bool :=
  decide (a.take n = b.take n)

/-! ## peek_queue.c -/

/-- The struct `peek_queue`: `buffer` is the allocated block of `capacity`
tokens, of which the first `size` are in use. -/
structure peek_queue where
  buffer : List token
  size : Nat
  capacity : Nat
  deriving DecidableEq, Repr

abbrev DEFAULT_PEEK_QUEUE_RESIZE_FACTOR : Nat := 2

/-- `peek_queue_create`: a block of `capacity` tokens (its content is
indeterminate; the model fills it with zero tokens). -/
def peek_queue_create (capacity : Nat) : peek_queue :=
  { buffer := List.replicate capacity token_zero, size := 0, capacity := capacity }

def peek_queue_empty (queue : peek_queue) : peek_queue :=
  { queue with size := 0 }

/-- `reallocate_buffer`: a new block of `capacity * resize_factor` tokens
receives the `capacity` tokens of the old one.  `memcpy_s` reports an error
when the new block is smaller than what is copied. -/
def reallocate_buffer (queue : peek_queue) (resize_factor : Nat) : Bool × peek_queue :=
  let new_capacity := queue.capacity * resize_factor
  if new_capacity < queue.capacity then
    (false, queue)
  else
    (true, { queue with
      buffer := queue.buffer.take queue.capacity ++
        List.replicate (new_capacity - queue.capacity) token_zero,
      capacity := new_capacity })

/-- `peek_queue_front`: none is a read outside the block. -/
def peek_queue_front (queue : peek_queue) : Option (Bool × Option token) :=
  if queue.size = 0 then
    some (false, none)
  else
    match queue.buffer[queue.size - 1]? with
    | none => none
    | some t => some (true, some t)

def peek_queue_pop (queue : peek_queue) : Option (Bool × Option token × peek_queue) :=
  match peek_queue_front queue with
  | none => none
  | some (did_get_token, out_token) =>
    if did_get_token then
      some (did_get_token, out_token, { queue with size := queue.size - 1 })
    else
      some (did_get_token, out_token, queue)

/-- `peek_queue_push_front`: none is a write outside the block. -/
def peek_queue_push_front (queue : peek_queue) (t : token) : Option (Bool × peek_queue) :=
  let r := if queue.size + 1 ≥ queue.capacity then
      reallocate_buffer queue DEFAULT_PEEK_QUEUE_RESIZE_FACTOR
    else (true, queue)
  if r.1 = false then
    some (false, r.2)
  else if r.2.size < r.2.capacity ∧ r.2.size < r.2.buffer.length then
    some (true, { r.2 with buffer := r.2.buffer.set r.2.size t, size := r.2.size + 1 })
  else
    none

/-- The loop `for (u64 i = queue->size; i >= 0; --i) buffer[i + 1] = buffer[i];`
of `peek_queue_push`, started at `i`.  The test `i >= 0` holds for every
`u64`, so the loop has no exit: after the pass with `i = 0` the counter
wraps to `2^64 - 1` and `buffer[i]` is read outside the block. -/
def peek_queue_push_shift (capacity : Nat) : Nat → List token → Option (List token)
  | 0, _ =>
    -- the pass with i = 0 copies buffer[0] to buffer[1]; then i = 2^64 - 1, an index
    -- no block of `capacity` tokens has
    none
  | i + 1, buffer =>
    match buffer[i + 1]? with
    | none => none
    | some b =>
      if i + 2 < capacity ∧ i + 2 < buffer.length then
        peek_queue_push_shift capacity i (buffer.set (i + 2) b)
      else none

/-- `peek_queue_push`: none is an access outside the block. -/
def peek_queue_push (queue : peek_queue) (t : token) : Option (Bool × peek_queue) :=
  let r := if queue.size + 1 ≥ queue.capacity then
      reallocate_buffer queue DEFAULT_PEEK_QUEUE_RESIZE_FACTOR
    else (true, queue)
  if r.1 = false then
    some (false, r.2)
  else
    let shifted := if r.2.size > 0 then
        peek_queue_push_shift r.2.capacity r.2.size r.2.buffer
      else some r.2.buffer
    match shifted with
    | none => none
    | some buffer =>
      if 0 < r.2.capacity ∧ 0 < buffer.length then
        some (true, { r.2 with buffer := buffer.set 0 t, size := r.2.size + 1 })
      else none

/-! ## lexer.c -/

/-- The struct `rouleaux_lexer`.  `file_content` is the buffer
`[file_content, file_end)`, `head` the offset of the read pointer. -/
structure rouleaux_lexer where
  filename : String
  file_content : List Nat
  head : Nat
  peek_buffer : peek_queue
  current_row : Nat
  current_column : Nat
  has_error : Bool
  deriving DecidableEq, Repr

def file_content_length (lexer : rouleaux_lexer) : Nat := lexer.file_content.length

/-- `lexer_create`, given the bytes `file_read` delivers for `filename`
(none read: the error path, which leaves the peek queue zeroed). -/
def lexer_create (filename : String) (bytes_read : List Nat) : rouleaux_lexer :=
  if bytes_read.length = 0 then
    { filename := filename, file_content := [], head := 0,
      peek_buffer := { buffer := [], size := 0, capacity := 0 },
      current_row := 1, current_column := 1, has_error := true }
  else
    { filename := filename, file_content := bytes_read, head := 0,
      peek_buffer := peek_queue_create 32,
      current_row := 1, current_column := 1, has_error := false }

def lexer_reset (lexer : rouleaux_lexer) : Bool × rouleaux_lexer :=
  (true, { lexer with head := 0, current_column := 1, current_row := 1, has_error := false,
                      peek_buffer := peek_queue_empty lexer.peek_buffer })

def current_location (lexer : rouleaux_lexer) : location :=
  { row := lexer.current_row, column := lexer.current_column,
    filename := some lexer.filename }

def head_is_at_eof (lexer : rouleaux_lexer) : Bool :=
  decide (lexer.head ≥ lexer.file_content.length)

/-- The read `*(lexer->head + k)`. -/
def peek_byte (lexer : rouleaux_lexer) (k : Nat) : Option Nat :=
  lexer.file_content[lexer.head + k]?

/-- The body of the `for` loop of `skip_char`, run `n` times. -/
def skip_char_loop : Nat → rouleaux_lexer → Option rouleaux_lexer
  | 0, lexer => some lexer
  | n + 1, lexer =>
    match peek_byte lexer 0 with
    | none => none
    | some c =>
      if c = 10 then
        skip_char_loop n { lexer with current_row := lexer.current_row + 1, current_column := 1,
                                      head := lexer.head + 1 }
      else
        skip_char_loop n { lexer with current_column := lexer.current_column + 1,
                                      head := lexer.head + 1 }

/-- `skip_char`, with its `assert(!head_is_at_eof(lexer))`. -/
def skip_char (lexer : rouleaux_lexer) (n : Nat) : Option rouleaux_lexer :=
  if head_is_at_eof lexer then none else skip_char_loop n lexer

def is_whitespace (c : Nat) : Bool :=
  let is_space_or_tab := c == 32 || c == 9
  let is_newline_or_carriage_return := c == 10 || c == 13
  let is_vertical_tab_or_formfeed := c == 11 || c == 12
  is_space_or_tab || is_newline_or_carriage_return || is_vertical_tab_or_formfeed

def is_single_char_token (c : Nat) : Bool :=
  decide (c ∈ [TOKEN_EXCLAMATION, TOKEN_DOUBLE_QUOTE, TOKEN_POUND, TOKEN_DOLLAR_SIGN,
    TOKEN_PERCENT, TOKEN_AMPERSAND, TOKEN_SINGLE_QUOTE, TOKEN_LEFT_PAREN, TOKEN_RIGHT_PAREN,
    TOKEN_ASTERISK, TOKEN_PLUS, TOKEN_COMMA, TOKEN_MINUS, TOKEN_PERIOD, TOKEN_FORWARD_SLASH,
    TOKEN_COLON, TOKEN_SEMICOLON, TOKEN_LESS_THAN, TOKEN_EQUALS, TOKEN_GREATER_THAN,
    TOKEN_QUESTION_MARK, TOKEN_AT_SIGN, TOKEN_LEFT_BRACKET, TOKEN_BACK_SLASH,
    TOKEN_RIGHT_BRACKET, TOKEN_CARET, TOKEN_UNDERSCORE, TOKEN_GRAVE, TOKEN_LEFT_CURLY,
    TOKEN_VERTICAL_BAR, TOKEN_RIGHT_CURLY, TOKEN_TILDE])

def is_identifier_character (c : Nat) (include_numerics : Bool) : Bool :=
  let is_uppercase := decide (c ≥ 65) && decide (c ≤ 90)
  let is_lowercase := decide (c ≥ 97) && decide (c ≤ 122)
  let is_underscore := c == 95
  let is_numeric := if include_numerics then decide (c ≥ 48) && decide (c ≤ 57) else false
  is_uppercase || is_lowercase || is_underscore || is_numeric

def is_numeric_character (c : Nat) : Bool :=
  decide (c ≥ 48) && decide (c ≤ 57)

/-- The loop of `check_for_keyword` from index `i`, with `n` entries left. -/
def check_for_keyword_from (mem : List Nat) (t : token) : Nat → Nat → Bool × token
  | 0, _ => (false, t)
  | n + 1, i =>
    if memcmp_eq (deref mem t.text) (deref mem (text_ptr.literal (keywords.getD i []))) t.length then
      (true, { t with type := i })
    else
      check_for_keyword_from mem t n (i + 1)

/-- `check_for_keyword`: the index runs from 1 to `keywords_array_length() - 1`. -/
def check_for_keyword (mem : List Nat) (t : token) : Bool × token :=
  check_for_keyword_from mem t (keywords_array_length - 1) 1

/-- `strtoull(text, _, 10)` on a text that starts with digits: the value of
the leading digits, `ULLONG_MAX` when it does not fit. -/
def strtoull (text : List Nat) : Nat :=
  min ((text.takeWhile is_numeric_character).foldl (fun acc c => acc * 10 + (c - 48)) 0)
    (2 ^ 64 - 1)

/-- A loop `while (cond) { skip_char(lexer, 1); t.length++; }`.  `cond` sees
the buffer and the offset of `head`; it has no value when it reads outside the
buffer.  Every pass moves `head` by one byte inside the buffer, so
`file_content_length + 1` passes always suffice; the first argument counts
the passes left. -/
def scan_while (cond : List Nat → Nat → Option Bool) :
    Nat → rouleaux_lexer → Nat → Option (rouleaux_lexer × Nat)
  | 0, _, _ => none
  | fuel + 1, lexer, length =>
    match cond lexer.file_content lexer.head with
    | none => none
    | some false => some (lexer, length)
    | some true =>
      match skip_char lexer 1 with
      | none => none
      | some lexer1 => scan_while cond fuel lexer1 (length + 1)

/-- `!head_is_at_eof(lexer) && is_whitespace(*lexer->head)`. -/
def cond_whitespace (mem : List Nat) (head : Nat) : Option Bool :=
  match mem[head]? with
  | none => some false
  | some c => some (is_whitespace c)

/-- `is_identifier_character(*lexer->head, true)`. -/
def cond_identifier (mem : List Nat) (head : Nat) : Option Bool :=
  match mem[head]? with
  | none => none
  | some c => some (is_identifier_character c true)

/-- `is_numeric_character(*lexer->head)`. -/
def cond_numeric (mem : List Nat) (head : Nat) : Option Bool :=
  match mem[head]? with
  | none => none
  | some c => some (is_numeric_character c)

/-- `!head_is_at_eof(lexer) && *lexer->head != '"'`. -/
def cond_string (mem : List Nat) (head : Nat) : Option Bool :=
  match mem[head]? with
  | none => some false
  | some c => some (c != 34)

/-- `!head_is_at_eof(lexer) && *lexer->head != '\n'`. -/
def cond_line_comment (mem : List Nat) (head : Nat) : Option Bool :=
  match mem[head]? with
  | none => some false
  | some c => some (c != 10)

/-- `!head_is_at_eof(lexer) && !(*lexer->head == '*' && *(lexer->head + 1) == '/')`. -/
def cond_block_comment (mem : List Nat) (head : Nat) : Option Bool :=
  match mem[head]? with
  | none => some false
  | some c =>
    if c = 42 then
      match mem[head + 1]? with
      | none => none
      | some d => some (d != 47)
    else some true

def trim_left (lexer : rouleaux_lexer) : Option rouleaux_lexer :=
  (scan_while cond_whitespace (lexer.file_content.length + 1) lexer 0).map Prod.fst

/-- The identifier branch of `lexer_next_token_internal`, entered with
`head` on a byte of `[A-Za-z_]`. -/
def lex_identifier (lexer : rouleaux_lexer) (t : token) : Option (token × rouleaux_lexer) :=
  -- do { skip_char(lexer, 1); t.length++; } while (is_identifier_character(*lexer->head, true));
  match skip_char lexer 1 with
  | none => none
  | some lexer1 =>
    match scan_while cond_identifier (lexer1.file_content.length + 1) lexer1 (t.length + 1) with
    | none => none
    | some (lexer2, length) =>
      let t1 := { t with length := length, type := TOKEN_IDENTIFIER }
      some ((check_for_keyword lexer2.file_content t1).2, lexer2)

/-- The number branch, entered with `head` on a digit. -/
def lex_number (lexer : rouleaux_lexer) (t : token) : Option (token × rouleaux_lexer) :=
  match skip_char lexer 1 with
  | none => none
  | some lexer1 =>
    match scan_while cond_numeric (lexer1.file_content.length + 1) lexer1 (t.length + 1) with
    | none => none
    | some (lexer2, length) =>
      let t1 := { t with length := length, type := TOKEN_INTEGER_LITERAL }
      let t2 := { t1 with value := token_value.unsigned64 (strtoull (token_text lexer2.file_content t1)) }
      -- if (*lexer->head == '.' && is_numeric_character(*(lexer->head + 1)))
      match peek_byte lexer2 0 with
      | none => none
      | some c =>
        if c = 46 then
          match peek_byte lexer2 1 with
          | none => none
          | some d =>
            if is_numeric_character d then
              match skip_char lexer2 1 with
              | none => none
              | some lexer3 =>
                match scan_while cond_numeric (lexer3.file_content.length + 1) lexer3 (length + 1) with
                | none => none
                | some (lexer4, length4) =>
                  let t3 := { t2 with type := TOKEN_FLOAT_LITERAL, length := length4 }
                  some ({ t3 with value := token_value.float64 (token_text lexer4.file_content t3) },
                        lexer4)
            else some (t2, lexer2)
        else some (t2, lexer2)

/-- The string literal branch, entered with `head` on a double quote. -/
def lex_string (lexer : rouleaux_lexer) (t : token) : Option (token × rouleaux_lexer) :=
  match skip_char lexer 1 with
  | none => none
  | some lexer1 =>
    match scan_while cond_string (lexer1.file_content.length + 1) lexer1 (t.length + 1) with
    | none => none
    | some (lexer2, length) =>
      let t1 := { t with type := TOKEN_STRING_LITERAL, length := length }
      if head_is_at_eof lexer2 then
        some ({ t1 with type := TOKEN_INVALID }, { lexer2 with has_error := true })
      else
        match skip_char lexer2 1 with
        | none => none
        | some lexer3 => some ({ t1 with length := length + 1 }, lexer3)

/-- The line comment branch, entered with `head` on "//". -/
def lex_line_comment (lexer : rouleaux_lexer) (t : token) : Option (token × rouleaux_lexer) :=
  match skip_char lexer 2 with
  | none => none
  | some lexer1 =>
    match scan_while cond_line_comment (lexer1.file_content.length + 1) lexer1 (t.length + 2) with
    | none => none
    | some (lexer2, length) =>
      some ({ t with type := TOKEN_LINE_COMMENT, length := length }, lexer2)

/-- The block comment branch, entered with `head` on "/*". -/
def lex_block_comment (lexer : rouleaux_lexer) (t : token) : Option (token × rouleaux_lexer) :=
  match skip_char lexer 2 with
  | none => none
  | some lexer1 =>
    match scan_while cond_block_comment (lexer1.file_content.length + 1) lexer1 (t.length + 2) with
    | none => none
    | some (lexer2, length) =>
      let t1 := { t with type := TOKEN_BLOCK_COMMENT, length := length }
      if head_is_at_eof lexer2 then
        some ({ t1 with type := TOKEN_INVALID }, { lexer2 with has_error := true })
      else
        match skip_char lexer2 2 with
        | none => none
        | some lexer3 => some ({ t1 with length := length + 2 }, lexer3)

/-- The end of `lexer_next_token_internal`: single character tokens and the
arrow.  A byte that is no single character token leaves `t` as it was
zero-initialised. -/
def lex_punctuation (lexer : rouleaux_lexer) (t : token) (c : Nat) :
    Option (token × rouleaux_lexer) :=
  let r : Option (token × rouleaux_lexer) :=
    if is_single_char_token c then
      match skip_char lexer 1 with
      | none => none
      | some lexer1 => some ({ t with type := c, length := t.length + 1 }, lexer1)
    else some (t, lexer)
  match r with
  | none => none
  | some (t1, lexer1) =>
    -- if (t.type == TOKEN_MINUS && *lexer->head == '>')
    if t1.type = TOKEN_MINUS then
      match peek_byte lexer1 0 with
      | none => none
      | some d =>
        if d = 62 then
          match skip_char lexer1 1 with
          | none => none
          | some lexer2 => some ({ t1 with length := t1.length + 1, type := TOKEN_ARROW }, lexer2)
        else some (t1, lexer1)
    else some (t1, lexer1)

/-- `lexer_next_token_internal`: lexes the next token from the buffer, not
looking at the peek queue. -/
def lexer_next_token_internal (lexer0 : rouleaux_lexer) : Option (token × rouleaux_lexer) :=
  match trim_left lexer0 with
  | none => none
  | some lexer =>
    let t : token := { token_zero with location := current_location lexer,
                                       text := text_ptr.file lexer.head, length := 0 }
    if head_is_at_eof lexer then
      some ({ t with type := TOKEN_EOF }, lexer)
    else
      match peek_byte lexer 0 with
      | none => none
      | some c =>
        if is_identifier_character c false then lex_identifier lexer t
        else if is_numeric_character c then lex_number lexer t
        else if c = 34 then lex_string lexer t
        else if c = 47 then
          match peek_byte lexer 1 with
          | none => none
          | some d =>
            if d = 47 then lex_line_comment lexer t
            else if d = 42 then lex_block_comment lexer t
            else lex_punctuation lexer t c
        else lex_punctuation lexer t c

/-- `lexer_next_token`. -/
def lexer_next_token (lexer : rouleaux_lexer) : Option (token × rouleaux_lexer) :=
  if lexer.peek_buffer.size > 0 then
    match peek_queue_pop lexer.peek_buffer with
    | none => none
    | some (_, none, _) => none
    | some (_, some t, queue) => some (t, { lexer with peek_buffer := queue })
  else
    lexer_next_token_internal lexer

/-- `lexer_peek_token`. -/
def lexer_peek_token (lexer : rouleaux_lexer) : Option (token × rouleaux_lexer) :=
  if lexer.peek_buffer.size > 0 then
    match peek_queue_front lexer.peek_buffer with
    | none => none
    | some (_, none) => none
    | some (_, some t) => some (t, lexer)
  else
    match lexer_next_token lexer with
    | none => none
    | some (t, lexer1) =>
      match peek_queue_push lexer1.peek_buffer t with
      | none => none
      | some (_, queue) => some (t, { lexer1 with peek_buffer := queue })

/-- `lexer_put_back_token`. -/
def lexer_put_back_token (lexer : rouleaux_lexer) (t : token) : Option (Bool × rouleaux_lexer) :=
  match peek_queue_push_front lexer.peek_buffer t with
  | none => none
  | some (ok, queue) => some (ok, { lexer with peek_buffer := queue })

/-- The tokens of `n` successive calls of `lexer_next_token`, with the lexer
they leave. -/
def lexer_next_tokens : Nat → rouleaux_lexer → Option (List token × rouleaux_lexer)
  | 0, lexer => some ([], lexer)
  | n + 1, lexer =>
    match lexer_next_token lexer with
    | none => none
    | some (t, lexer1) =>
      match lexer_next_tokens n lexer1 with
      | none => none
      | some (ts, lexer2) => some (t :: ts, lexer2)

/-- The calls `lexer_put_back_token(t1); ...; lexer_put_back_token(tn)`, with
the value each one returned. -/
def lexer_put_back_tokens : List token → rouleaux_lexer → Option (List Bool × rouleaux_lexer)
  | [], lexer => some ([], lexer)
  | t :: ts, lexer =>
    match lexer_put_back_token lexer t with
    | none => none
    | some (ok, lexer1) =>
      match lexer_put_back_tokens ts lexer1 with
      | none => none
      | some (oks, lexer2) => some (ok :: oks, lexer2)

/-- The bytes of a source text. -/
def bytes (s : String) : List Nat := s.toList.map Char.toNat

/-! ## abstract_syntax_tree.h, node_list.h -/

/-- The enum `ast_node_type`. -/
inductive ast_node_type where
  | AST_INVALID
  | AST_IDENTIFIER
  | AST_BINARY_OPERATOR_PLUS
  | AST_BINARY_OPERATOR_MINUS
  | AST_BINARY_OPERATOR_MULTIPLY
  | AST_BINARY_OPERATOR_DIVIDE
  | AST_BINARY_OPERATOR_MODULUS
  | AST_BINARY_OPERATOR_GREATER_THAN
  | AST_BINARY_OPERATOR_LESS_THAN
  | AST_VALUE_ASSIGNMENT
  | AST_CONST_ASSIGNMENT
  | AST_TYPE_ASSIGNMENT
  | AST_INTEGER_LITERAL
  | AST_FLOAT_LITERAL
  | AST_STRING_LITERAL
  | AST_FUNCTION_DECLARATION
  | AST_FUNCTION_CALL
  | AST_PARAMETER_LIST
  | AST_CALL_OPERATOR
  | AST_IF_STATEMENT
  | AST_WHILE_STATEMENT
  | AST_STATEMENT_END
  | AST_COMMENT
  | AST_SCOPE
  | AST_EOF
  | AST_MAX_TYPES
  deriving DecidableEq, Repr

open ast_node_type

/-- The enum `ast_node_child_strategy`. -/
inductive ast_node_child_strategy where
  | CHILD_STRATEGY_NONE
  | CHILD_STRATEGY_UNARY
  | CHILD_STRATEGY_BINARY
  | CHILD_STRATEGY_TERNARY
  | CHILD_STRATEGY_MANY
  deriving DecidableEq, Repr

open ast_node_child_strategy

mutual
/-- A pointer to an `ast_node`: `null`, or a node with its type, its token,
the three pointer slots of the union after the token, the node list of a
node with many children, and the flag `enclosed_in_parens`.  The union arms
share the slots: `child0` is `unary.child`, `binary.left_child` and
`ternary.left_child`; `child1` is `binary.right_child` and
`ternary.center_child`; `child2` is `ternary.right_child`. -/
inductive ast_node where
  | null : ast_node
  | node (type : ast_node_type) (t : token) (child0 child1 child2 : ast_node)
      (children : node_list) (enclosed_in_parens : Bool) : ast_node
  deriving DecidableEq, Repr
/-- The struct `node_list`, as the sequence of the node pointers it holds. -/
inductive node_list where
  | nil : node_list
  | cons (first : ast_node) (rest : node_list) : node_list
  deriving DecidableEq, Repr
end

/-- `ast_node_create` on freshly allocated memory (`parser_create_ast_node`). -/
def ast_node_create (type : ast_node_type) : ast_node :=
  ast_node.node type token_zero ast_node.null ast_node.null ast_node.null node_list.nil false

def node_list_create : node_list := node_list.nil

/-- `node_list_push_back`. -/
def node_list_push_back : node_list → ast_node → node_list
  | node_list.nil, n => node_list.cons n node_list.nil
  | node_list.cons first rest, n => node_list.cons first (node_list_push_back rest n)

def ast_node_child_strategy_from_node_type : ast_node_type → ast_node_child_strategy
  | AST_COMMENT => CHILD_STRATEGY_NONE
  | AST_IDENTIFIER => CHILD_STRATEGY_NONE
  | AST_INTEGER_LITERAL => CHILD_STRATEGY_NONE
  | AST_FLOAT_LITERAL => CHILD_STRATEGY_NONE
  | AST_STRING_LITERAL => CHILD_STRATEGY_NONE
  | AST_STATEMENT_END => CHILD_STRATEGY_NONE
  | AST_EOF => CHILD_STRATEGY_NONE
  | AST_INVALID => CHILD_STRATEGY_NONE
  | AST_MAX_TYPES => CHILD_STRATEGY_NONE
  | AST_CALL_OPERATOR => CHILD_STRATEGY_UNARY
  | AST_BINARY_OPERATOR_PLUS => CHILD_STRATEGY_BINARY
  | AST_BINARY_OPERATOR_MINUS => CHILD_STRATEGY_BINARY
  | AST_BINARY_OPERATOR_MULTIPLY => CHILD_STRATEGY_BINARY
  | AST_BINARY_OPERATOR_DIVIDE => CHILD_STRATEGY_BINARY
  | AST_BINARY_OPERATOR_MODULUS => CHILD_STRATEGY_BINARY
  | AST_BINARY_OPERATOR_GREATER_THAN => CHILD_STRATEGY_BINARY
  | AST_BINARY_OPERATOR_LESS_THAN => CHILD_STRATEGY_BINARY
  | AST_VALUE_ASSIGNMENT => CHILD_STRATEGY_BINARY
  | AST_TYPE_ASSIGNMENT => CHILD_STRATEGY_BINARY
  | AST_CONST_ASSIGNMENT => CHILD_STRATEGY_BINARY
  | AST_WHILE_STATEMENT => CHILD_STRATEGY_BINARY
  | AST_FUNCTION_CALL => CHILD_STRATEGY_BINARY
  | AST_IF_STATEMENT => CHILD_STRATEGY_TERNARY
  | AST_FUNCTION_DECLARATION => CHILD_STRATEGY_TERNARY
  | AST_SCOPE => CHILD_STRATEGY_MANY
  | AST_PARAMETER_LIST => CHILD_STRATEGY_MANY

/-- `precedence_from_node_type`: a higher number binds tighter, -1 for a
node type that is no binary operator. -/
def precedence_from_node_type : ast_node_type → Int
  | AST_BINARY_OPERATOR_GREATER_THAN => 1
  | AST_BINARY_OPERATOR_LESS_THAN => 1
  | AST_BINARY_OPERATOR_PLUS => 2
  | AST_BINARY_OPERATOR_MINUS => 2
  | AST_BINARY_OPERATOR_MULTIPLY => 3
  | AST_BINARY_OPERATOR_DIVIDE => 3
  | AST_BINARY_OPERATOR_MODULUS => 3
  | _ => -1

/-- The write `n->node.leaf.t = t` (the token is at the same place in every
arm of the union); none for a null pointer. -/
def set_token : ast_node → token → Option ast_node
  | ast_node.null, _ => none
  | ast_node.node type _ c0 c1 c2 children parens, t =>
    some (ast_node.node type t c0 c1 c2 children parens)

/-- The write `n->node.binary.left_child = c`. -/
def set_left_child : ast_node → ast_node → Option ast_node
  | ast_node.null, _ => none
  | ast_node.node type t _ c1 c2 children parens, c =>
    some (ast_node.node type t c c1 c2 children parens)

/-- The write `n->node.binary.right_child = c`. -/
def set_right_child : ast_node → ast_node → Option ast_node
  | ast_node.null, _ => none
  | ast_node.node type t c0 _ c2 children parens, c =>
    some (ast_node.node type t c0 c c2 children parens)

/-- The write `n->node.many.children = list`. -/
def set_children : ast_node → node_list → Option ast_node
  | ast_node.null, _ => none
  | ast_node.node type t c0 c1 c2 _ parens, list =>
    some (ast_node.node type t c0 c1 c2 list parens)

/-- The write `n->enclosed_in_parens = b`. -/
def set_enclosed_in_parens : ast_node → Bool → Option ast_node
  | ast_node.null, _ => none
  | ast_node.node type t c0 c1 c2 children _, b =>
    some (ast_node.node type t c0 c1 c2 children b)

/-! ## error_report.h, parse_result.c -/

/-- The struct `error_report`; the zeroed report has a null message. -/
structure error_report where
  message : Option String
  faulted_token : token
  deriving DecidableEq, Repr

/-- The struct `parse_result`. -/
structure parse_result where
  success : Bool
  resulting_tree : ast_node
  error : error_report
  deriving DecidableEq, Repr

def parse_result_success (resulting_tree : ast_node) : parse_result :=
  { success := true, resulting_tree := resulting_tree,
    error := { message := none, faulted_token := token_zero } }

/-- `parse_result_error`, given the message that `format_error_message`
builds from the format and its arguments. -/
def parse_result_error (t : token) (message : String) : parse_result :=
  { success := false, resulting_tree := ast_node.null,
    error := { message := some message, faulted_token := t } }

/-- The characters `printf` writes for `%.*s` with `t.length` and `t.text`. -/
def printable (mem : List Nat) (t : token) : String :=
  String.mk ((token_text mem t).map Char.ofNat)

/-- `location_printable_text`: "file:row:column".  None where `filename` is
the null pointer, which `strlen(loc.filename)` dereferences. -/
def location_printable_text (loc : location) : Option String :=
  match loc.filename with
  | none => none
  | some filename => some (filename ++ ":" ++ toString loc.row ++ ":" ++ toString loc.column)

/-! ## parser.c: expressions -/

/-- The struct that parser.h names rouleaux-parser (with an underscore), without the
allocator hooks. -/
structure rouleaux_parser_t where
  lexer : rouleaux_lexer
  ast_head : ast_node
  has_error : Bool
  done : Bool
  deriving DecidableEq, Repr

/-- `fix_precedence(&root)`: whether the nodes were rearranged, and the root
afterwards.  None is a null pointer dereference. -/
def fix_precedence (original : ast_node) : Option (Bool × ast_node) :=
  match original with
  | ast_node.null => none
  | ast_node.node type t left right c2 children parens =>
    match right with
    | ast_node.null => none
    | ast_node.node rtype rt rleft rright rc2 rchildren rparens =>
      let original_root_precedence := precedence_from_node_type type
      let original_right_child_precedence := precedence_from_node_type rtype
      if original_right_child_precedence < 0 then
        some (false, original)
      else if parens ∨
          (original_root_precedence > original_right_child_precedence ∧ rparens = false) then
        -- original->right_child = right_child->left_child; right_child->left_child = original
        some (true, ast_node.node rtype rt
          (ast_node.node type t left rleft c2 children parens) rright rc2 rchildren rparens)
      else
        some (false, original)

/-- The node type `parser_parse_expression` passes to `parse_binary_operator`
for the token kind it peeked; none in the default case. -/
def binary_operator_type (t : token_type) : Option ast_node_type :=
  if t = TOKEN_PLUS then some AST_BINARY_OPERATOR_PLUS
  else if t = TOKEN_MINUS then some AST_BINARY_OPERATOR_MINUS
  else if t = TOKEN_ASTERISK then some AST_BINARY_OPERATOR_MULTIPLY
  else if t = TOKEN_FORWARD_SLASH then some AST_BINARY_OPERATOR_DIVIDE
  else if t = TOKEN_PERCENT then some AST_BINARY_OPERATOR_MODULUS
  else if t = TOKEN_GREATER_THAN then some AST_BINARY_OPERATOR_GREATER_THAN
  else if t = TOKEN_LESS_THAN then some AST_BINARY_OPERATOR_LESS_THAN
  else none

/-- The node type of the leaf `parser_parse_expression_beginning` makes for a
literal token; none for every other token kind. -/
def literal_node_type (t : token_type) : Option ast_node_type :=
  if t = TOKEN_INTEGER_LITERAL then some AST_INTEGER_LITERAL
  else if t = TOKEN_FLOAT_LITERAL then some AST_FLOAT_LITERAL
  else if t = TOKEN_STRING_LITERAL then some AST_STRING_LITERAL
  else none

/-- The end of every primary case of `parser_parse_expression_beginning`,
given what `parser_parse_expression` returned: on failure the error is
dropped and `fallback` is returned; otherwise `expression` becomes the left
child of the operator node, and `fix_precedence` is run on it. -/
def attach_left_operand (expression : ast_node) (fallback : parse_result)
    (r : parse_result × rouleaux_parser_t) : Option (parse_result × rouleaux_parser_t) :=
  if r.1.success = false then
    some (fallback, r.2)
  else
    match set_left_child r.1.resulting_tree expression with
    | none => none
    | some tree =>
      match fix_precedence tree with
      | none => none
      | some (_, tree1) => some ({ r.1 with resulting_tree := tree1 }, r.2)

mutual
/-- `parser_parse_expression_beginning`; the first argument bounds the depth
of the calls. -/
def parser_parse_expression_beginning :
    Nat → rouleaux_parser_t → Option (parse_result × rouleaux_parser_t)
  | 0, _ => none
  | fuel + 1, parser =>
    match lexer_peek_token parser.lexer with
    | none => none
    | some (t, lexer1) =>
      if t.type = TOKEN_LEFT_PAREN then
        match lexer_next_token lexer1 with
        | none => none
        | some (open_paren, lexer2) =>
          match parser_parse_expression_beginning fuel { parser with lexer := lexer2 } with
          | none => none
          | some (result, parser3) =>
            if result.success = false then some (result, parser3)
            else
              match lexer_peek_token parser3.lexer with
              | none => none
              | some (maybe_close_paren, lexer4) =>
                if maybe_close_paren.type ≠ TOKEN_RIGHT_PAREN then
                  match location_printable_text open_paren.location with
                  | none => none
                  | some location_text =>
                    some (parse_result_error maybe_close_paren
                      ("Expected a closing parenthesis, but got '" ++
                        printable lexer4.file_content maybe_close_paren ++
                        "'. Expecting a closing parenthesis for opening found here [" ++
                        location_text ++ "]"),
                      { parser3 with lexer := lexer4 })
                else
                  match set_enclosed_in_parens result.resulting_tree true with
                  | none => none
                  | some tree =>
                    match lexer_next_token lexer4 with
                    | none => none
                    | some (_, lexer5) =>
                      match parser_parse_expression fuel { parser3 with lexer := lexer5 } with
                      | none => none
                      | some r =>
                        attach_left_operand tree { result with resulting_tree := tree } r
      else if t.type = TOKEN_IDENTIFIER then
        match lexer_next_token lexer1 with
        | none => none
        | some (identifier, lexer2) =>
          match set_token (ast_node_create AST_IDENTIFIER) identifier with
          | none => none
          | some identifier_node =>
            match lexer_peek_token lexer2 with
            | none => none
            | some (after, lexer3) =>
              if after.type = TOKEN_LEFT_PAREN then
                match parser_parse_function_call_list fuel { parser with lexer := lexer3 } with
                | none => none
                | some (parameters_result, parser4) =>
                  if parameters_result.success = false then some (parameters_result, parser4)
                  else
                    let expression := ast_node.node AST_FUNCTION_CALL token_zero identifier_node
                      parameters_result.resulting_tree ast_node.null node_list.nil false
                    match parser_parse_expression fuel parser4 with
                    | none => none
                    | some r => attach_left_operand expression (parse_result_success expression) r
              else
                match parser_parse_expression fuel { parser with lexer := lexer3 } with
                | none => none
                | some r =>
                  attach_left_operand identifier_node (parse_result_success identifier_node) r
      else
        match literal_node_type t.type with
        | some node_type =>
          match lexer_next_token lexer1 with
          | none => none
          | some (literal, lexer2) =>
            match set_token (ast_node_create node_type) literal with
            | none => none
            | some expression =>
              match parser_parse_expression fuel { parser with lexer := lexer2 } with
              | none => none
              | some r => attach_left_operand expression (parse_result_success expression) r
        | none =>
          some (parse_result_error t
            ("Expected the start of an expression, but instead got '" ++
              printable lexer1.file_content t ++ "'"),
            { parser with lexer := lexer1 })
/-- `parser_parse_expression`. -/
def parser_parse_expression :
    Nat → rouleaux_parser_t → Option (parse_result × rouleaux_parser_t)
  | 0, _ => none
  | fuel + 1, parser =>
    match lexer_peek_token parser.lexer with
    | none => none
    | some (t, lexer1) =>
      match binary_operator_type t.type with
      | some type => parse_binary_operator fuel { parser with lexer := lexer1 } type
      | none =>
        some (parse_result_error t
          ("Unexpected token '" ++ printable lexer1.file_content t ++ "', in expression"),
          { parser with lexer := lexer1 })
/-- `parse_binary_operator`. -/
def parse_binary_operator :
    Nat → rouleaux_parser_t → ast_node_type → Option (parse_result × rouleaux_parser_t)
  | 0, _, _ => none
  | fuel + 1, parser, type =>
    match lexer_next_token parser.lexer with
    | none => none
    | some (operator_token, lexer1) =>
      match parser_parse_expression_beginning fuel { parser with lexer := lexer1 } with
      | none => none
      | some (expr_result, parser2) =>
        if expr_result.success = false then
          match lexer_put_back_token parser2.lexer operator_token with
          | none => none
          | some (_, lexer3) => some (expr_result, { parser2 with lexer := lexer3 })
        else
          some (parse_result_success (ast_node.node type operator_token ast_node.null
            expr_result.resulting_tree ast_node.null node_list.nil false), parser2)
/-- `parser_parse_function_call_list`. -/
def parser_parse_function_call_list :
    Nat → rouleaux_parser_t → Option (parse_result × rouleaux_parser_t)
  | 0, _ => none
  | fuel + 1, parser =>
    match lexer_next_token parser.lexer with
    | none => none
    | some (open_paren, lexer1) =>
      if open_paren.type ≠ TOKEN_LEFT_PAREN then
        some (parse_result_error open_paren "Expected start of function call list",
          { parser with lexer := lexer1 })
      else
        match lexer_peek_token lexer1 with
        | none => none
        | some (t, lexer2) =>
          function_call_list_loop fuel { parser with lexer := lexer2 } node_list_create t
/-- The `while (t.type != TOKEN_RIGHT_PAREN)` loop of
`parser_parse_function_call_list` with what follows it; `children` is the
node list of `param_list_node`. -/
def function_call_list_loop :
    Nat → rouleaux_parser_t → node_list → token → Option (parse_result × rouleaux_parser_t)
  | 0, _, _, _ => none
  | fuel + 1, parser, children, t =>
    if t.type ≠ TOKEN_RIGHT_PAREN then
      match parser_parse_expression_beginning fuel parser with
      | none => none
      | some (expr_result, parser1) =>
        if expr_result.success = false then some (expr_result, parser1)
        else
          let children1 := node_list_push_back children expr_result.resulting_tree
          match lexer_peek_token parser1.lexer with
          | none => none
          | some (comma_or_paren_token, lexer2) =>
            if comma_or_paren_token.type = TOKEN_RIGHT_PAREN then
              -- break; then the closing parenthesis is taken off the lexer
              match lexer_next_token lexer2 with
              | none => none
              | some (_, lexer3) =>
                some (parse_result_success (ast_node.node AST_PARAMETER_LIST token_zero
                  ast_node.null ast_node.null ast_node.null children1 false),
                  { parser1 with lexer := lexer3 })
            else if comma_or_paren_token.type = TOKEN_EOF then
              some (parse_result_error comma_or_paren_token
                "Reached end of file before completing the function call list",
                { parser1 with lexer := lexer2 })
            else if comma_or_paren_token.type = TOKEN_COMMA then
              match lexer_next_token lexer2 with
              | none => none
              | some (t1, lexer3) =>
                function_call_list_loop fuel { parser1 with lexer := lexer3 } children1 t1
            else
              some (parse_result_error comma_or_paren_token
                "Unexpected token in function call list", { parser1 with lexer := lexer2 })
    else
      match lexer_next_token parser.lexer with
      | none => none
      | some (_, lexer1) =>
        some (parse_result_success (ast_node.node AST_PARAMETER_LIST token_zero
          ast_node.null ast_node.null ast_node.null children false),
          { parser with lexer := lexer1 })
end

/-- `parser_create`, given the bytes `file_read` delivers for `filename`. -/
def parser_create (filename : String) (bytes_read : List Nat) : rouleaux_parser_t :=
  { lexer := lexer_create filename bytes_read, ast_head := ast_node_create AST_INVALID,
    has_error := false, done := false }

/-! ## Well-formed queues and what they hold -/

/-- The invariant of a peek queue: the block has `capacity` tokens and is
never full. -/
def peek_queue_wf (queue : peek_queue) : Prop :=
  queue.buffer.length = queue.capacity ∧ queue.size < queue.capacity

instance (queue : peek_queue) : Decidable (peek_queue_wf queue) := by
  unfold peek_queue_wf; infer_instance

/-- The tokens a queue holds, in the order of the block: the last one is the
front of the queue. -/
def peek_queue_contents (queue : peek_queue) : List token :=
  queue.buffer.take queue.size

/-- The lexer with another peek queue. -/
def with_queue (lexer : rouleaux_lexer) (queue : peek_queue) : rouleaux_lexer :=
  { lexer with peek_buffer := queue }

/-- The invariant of a lexer: its peek queue is well formed. -/
def lexer_wf (lexer : rouleaux_lexer) : Prop := peek_queue_wf lexer.peek_buffer

instance (lexer : rouleaux_lexer) : Decidable (lexer_wf lexer) := by
  unfold lexer_wf; infer_instance

/-- The tokens waiting in the peek queue, the front of the queue first. -/
def pending (lexer : rouleaux_lexer) : List token :=
  (peek_queue_contents lexer.peek_buffer).reverse

/-- Two lexers that differ at most in the block of their peek queues: same
scanner state, same waiting tokens. -/
def lexer_equiv (a b : rouleaux_lexer) : Prop :=
  lexer_wf a ∧ lexer_wf b ∧ pending a = pending b ∧ with_queue a b.peek_buffer = b

/-! ## Positions in the source -/

/-- One plus the number of LF bytes before offset `p`. -/
def row_at (mem : List Nat) (p : Nat) : Nat :=
  1 + (mem.take p).count 10

/-- One plus the number of bytes between the last LF before offset `p` (or
the start of the source) and offset `p`. -/
def column_at (mem : List Nat) (p : Nat) : Nat :=
  1 + ((mem.take p).reverse.takeWhile (fun c => c != 10)).length

/-- The lexer `lexer` reads the source of `base` at offset `p ≤ file_end`,
with the row and column of that offset.  The error flag is left free. -/
def at_pos (base lexer : rouleaux_lexer) (p : Nat) : Prop :=
  lexer.filename = base.filename ∧ lexer.file_content = base.file_content ∧
  lexer.peek_buffer = base.peek_buffer ∧ lexer.head = p ∧
  p ≤ base.file_content.length ∧
  lexer.current_row = row_at base.file_content p ∧
  lexer.current_column = column_at base.file_content p

/-- The location of offset `p` of the source of `base`. -/
def location_at (base : rouleaux_lexer) (p : Nat) : location :=
  { row := row_at base.file_content p, column := column_at base.file_content p,
    filename := some base.filename }

/-- The outcome of lexing one token that starts at offset `q`: the lexer has
moved over the `t.length` bytes of the token, `t` keeps the text pointer and
the location it was given, and its kind is not EOF. -/
def token_after (base lexer1 : rouleaux_lexer) (q : Nat) (t0 t : token) : Prop :=
  at_pos base lexer1 (q + t.length) ∧ t.text = t0.text ∧ t.location = t0.location ∧
    t.type ≠ TOKEN_EOF

/-- The tokens `ts` were lexed one after the other from offset `p` of the
source of `base`, ending at offset `p1`: each token starts after a run of
whitespace, carries the location of its first byte, and lies inside the
source; a token of kind EOF sits at the end of the source and is empty. -/
def spans_from (base : rouleaux_lexer) : Nat → List token → Nat → Prop
  | p, [], p1 => p1 = p
  | p, t :: ts, p1 =>
    ∃ k, (∀ i, i < k → ∃ c, base.file_content[p + i]? = some c ∧ is_whitespace c = true) ∧
      t.text = text_ptr.file (p + k) ∧
      t.location = location_at base (p + k) ∧
      p + k + t.length ≤ base.file_content.length ∧
      (t.type = TOKEN_EOF → p + k = base.file_content.length ∧ t.length = 0) ∧
      spans_from base (p + k + t.length) ts p1

/-- The offset of the first byte of a token of the source. -/
def token_offset (t : token) : Nat :=
  match t.text with
  | text_ptr.file offset => offset
  | _ => 0

/-- The lexer is well formed and its next calls of `lexer_next_token` return
the tokens `ts`, in that order. -/
def lexer_yields (lexer : rouleaux_lexer) (ts : List token) : Prop :=
  lexer_wf lexer ∧ ∃ lexer1, lexer_next_tokens ts.length lexer = some (ts, lexer1)

/-- The node type of the leaf `parser_parse_expression_beginning` makes for
an identifier or a literal token. -/
def primary_node_type (t : token_type) : Option ast_node_type :=
  if t = TOKEN_IDENTIFIER then some AST_IDENTIFIER else literal_node_type t

/-- The leaf node of a primary with token `t`. -/
def leaf_node (type : ast_node_type) (t : token) : ast_node :=
  ast_node.node type t ast_node.null ast_node.null ast_node.null node_list.nil false

/-- The node of a binary operator with token `t`, not enclosed in parentheses. -/
def binary_node (type : ast_node_type) (t : token) (left right : ast_node) : ast_node :=
  ast_node.node type t left right ast_node.null node_list.nil false

/-- A token of the source of `filename` with the given kind, span, location
and value. -/
def source_token (filename : String) (type : token_type) (offset length row column : Nat)
    (value : token_value) : token :=
  { type := type, text := text_ptr.file offset, length := length, value := value,
    location := { row := row, column := column, filename := some filename },
    typing_information := 0 }

/-! ## parser.c: statements -/

/-- The zero-initialised `parse_result result = {};`. -/
def parse_result_zero : parse_result :=
  { success := false, resulting_tree := ast_node.null,
    error := { message := none, faulted_token := token_zero } }

/-- `parse_terminal`. -/
def parse_terminal (parser : rouleaux_parser_t) (t_type : token_type)
    (node_type : ast_node_type) (token_type_string : String) :
    Option (parse_result × rouleaux_parser_t) :=
  match lexer_peek_token parser.lexer with
  | none => none
  | some (t, lexer1) =>
    if t.type = t_type then
      match lexer_next_token lexer1 with
      | none => none
      | some (t1, lexer2) =>
        match set_token (ast_node_create node_type) t1 with
        | none => none
        | some node => some (parse_result_success node, { parser with lexer := lexer2 })
    else
      some (parse_result_error t
        ("Expected a " ++ token_type_string ++ ", but got '" ++
          printable lexer1.file_content t ++ "'"),
        { parser with lexer := lexer1 })

/-- `check_statement_end`. -/
def check_statement_end (parser : rouleaux_parser_t) : Option (Bool × rouleaux_parser_t) :=
  match lexer_peek_token parser.lexer with
  | none => none
  | some (end_token, lexer1) =>
    if end_token.type = TOKEN_SEMICOLON then
      match lexer_next_token lexer1 with
      | none => none
      | some (_, lexer2) => some (true, { parser with lexer := lexer2 })
    else
      some (false, { parser with lexer := lexer1 })

def parser_parse_identifier (parser : rouleaux_parser_t) :
    Option (parse_result × rouleaux_parser_t) :=
  parse_terminal parser TOKEN_IDENTIFIER AST_IDENTIFIER "identifier"

def parser_parse_value_assignment_operator (parser : rouleaux_parser_t) :
    Option (parse_result × rouleaux_parser_t) :=
  parse_terminal parser TOKEN_EQUALS AST_VALUE_ASSIGNMENT "value assignment operator('=')"

def parser_parse_constant_assignment_operator (parser : rouleaux_parser_t) :
    Option (parse_result × rouleaux_parser_t) :=
  parse_terminal parser TOKEN_COLON AST_CONST_ASSIGNMENT "constant assignment operator(':')"

def parser_parse_type_assignment_operator (parser : rouleaux_parser_t) :
    Option (parse_result × rouleaux_parser_t) :=
  parse_terminal parser TOKEN_COLON AST_TYPE_ASSIGNMENT "type assignment operator(':')"

def parser_parse_keyword_if (parser : rouleaux_parser_t) :
    Option (parse_result × rouleaux_parser_t) :=
  parse_terminal parser TOKEN_KEYWORD_IF AST_IF_STATEMENT "if statement"

def parser_parse_keyword_while (parser : rouleaux_parser_t) :
    Option (parse_result × rouleaux_parser_t) :=
  parse_terminal parser TOKEN_KEYWORD_WHILE AST_WHILE_STATEMENT "while statement"

/-- `parser_parse_comment`. -/
def parser_parse_comment (parser : rouleaux_parser_t) :
    Option (parse_result × rouleaux_parser_t) :=
  match parse_terminal parser TOKEN_LINE_COMMENT AST_COMMENT "comment" with
  | none => none
  | some (line_comment_result, parser1) =>
    if line_comment_result.success then some (line_comment_result, parser1)
    else parse_terminal parser1 TOKEN_BLOCK_COMMENT AST_COMMENT "comment"

/-- `parser_parse_return_type`. -/
def parser_parse_return_type (parser : rouleaux_parser_t) :
    Option (parse_result × rouleaux_parser_t) :=
  match lexer_next_token parser.lexer with
  | none => none
  | some (arrow, lexer1) =>
    if arrow.type ≠ TOKEN_ARROW then
      some (parse_result_error arrow
        ("Expected start of function return type ('->'), but got '" ++
          printable lexer1.file_content arrow ++ "'"),
        { parser with lexer := lexer1 })
    else
      match lexer_next_token lexer1 with
      | none => none
      | some (identifier, lexer2) =>
        if identifier.type ≠ TOKEN_IDENTIFIER then
          some (parse_result_error identifier
            ("Expected a function return type, but got '" ++
              printable lexer2.file_content identifier ++ "'"),
            { parser with lexer := lexer2 })
        else
          match set_token (ast_node_create AST_IDENTIFIER) identifier with
          | none => none
          | some return_type_node =>
            some (parse_result_success return_type_node, { parser with lexer := lexer2 })

/-- `parser_parse_function_declaration_parameter`. -/
def parser_parse_function_declaration_parameter (parser : rouleaux_parser_t) :
    Option (parse_result × rouleaux_parser_t) :=
  match parser_parse_identifier parser with
  | none => none
  | some (name_result, parser1) =>
    if name_result.success = false then some (name_result, parser1)
    else
      match parser_parse_type_assignment_operator parser1 with
      | none => none
      | some (type_assign_result, parser2) =>
        if type_assign_result.success = false then some (type_assign_result, parser2)
        else
          match parser_parse_identifier parser2 with
          | none => none
          | some (type_result, parser3) =>
            if type_result.success = false then some (type_result, parser3)
            else
              match set_left_child type_assign_result.resulting_tree
                  name_result.resulting_tree with
              | none => none
              | some tree1 =>
                match set_right_child tree1 type_result.resulting_tree with
                | none => none
                | some tree2 =>
                  some ({ type_assign_result with resulting_tree := tree2 }, parser3)

/-- The `while (t.type != TOKEN_RIGHT_PAREN && t.type != TOKEN_EOF)` loop of
`parser_parse_parameter_list` with what follows it; `children` is the node
list of `param_list_node`, and the first argument bounds the number of turns. -/
def parameter_list_loop :
    Nat → rouleaux_parser_t → node_list → token → token →
      Option (parse_result × rouleaux_parser_t)
  | 0, _, _, _, _ => none
  | fuel + 1, parser, children, open_paren, t =>
    if t.type ≠ TOKEN_RIGHT_PAREN ∧ t.type ≠ TOKEN_EOF then
      match parser_parse_function_declaration_parameter parser with
      | none => none
      | some (type_assign_result, parser1) =>
        if type_assign_result.success = false then some (type_assign_result, parser1)
        else
          let children1 := node_list_push_back children type_assign_result.resulting_tree
          match lexer_next_token parser1.lexer with
          | none => none
          | some (t1, lexer2) =>
            if t1.type ≠ TOKEN_COMMA ∧ t1.type ≠ TOKEN_RIGHT_PAREN then
              some (parse_result_error t1
                "Expected comma separated parameters in function or parameter list end",
                { parser1 with lexer := lexer2 })
            else
              match (if t1.type = TOKEN_RIGHT_PAREN then
                      (lexer_put_back_token lexer2 t1).map (fun r => r.2)
                    else some lexer2) with
              | none => none
              | some lexer3 =>
                match lexer_peek_token lexer3 with
                | none => none
                | some (t2, lexer4) =>
                  parameter_list_loop fuel { parser1 with lexer := lexer4 } children1
                    open_paren t2
    else if t.type = TOKEN_EOF then
      match location_printable_text open_paren.location with
      | none => none
      | some open_paren_location_text =>
        some (parse_result_error t
          ("Reached end of file before finishing function parameter list. " ++
            "Did you forget a closing parenthesis around [" ++
            open_paren_location_text ++ "]?"), parser)
    else
      match lexer_next_token parser.lexer with
      | none => none
      | some (close_paren, lexer1) =>
        if close_paren.type ≠ TOKEN_RIGHT_PAREN then
          some (parse_result_error close_paren "Expected closing of function parameter list",
            { parser with lexer := lexer1 })
        else
          some (parse_result_success (ast_node.node AST_PARAMETER_LIST token_zero
            ast_node.null ast_node.null ast_node.null children false),
            { parser with lexer := lexer1 })

/-- `parser_parse_parameter_list`. -/
def parser_parse_parameter_list (fuel : Nat) (parser : rouleaux_parser_t) :
    Option (parse_result × rouleaux_parser_t) :=
  match lexer_next_token parser.lexer with
  | none => none
  | some (open_paren, lexer1) =>
    if open_paren.type ≠ TOKEN_LEFT_PAREN then
      some (parse_result_error open_paren "Expected start of function parameter list ('(')",
        { parser with lexer := lexer1 })
    else
      match lexer_peek_token lexer1 with
      | none => none
      | some (t, lexer2) =>
        parameter_list_loop fuel { parser with lexer := lexer2 } node_list_create open_paren t

/-- What the `do ... while (!found_declaration)` loop of
`parser_parse_declaration_or_assignment` ends in. -/
inductive declaration_loop_exit where
  | returned (result : parse_result)
  | found (identifier_result declaration_result : parse_result)
  deriving DecidableEq, Repr

/-- The `do ... while (!found_declaration)` loop of
`parser_parse_declaration_or_assignment`: it returns an error from inside the
loop, or leaves with `identifier_result` and `declaration_result`. -/
def declaration_loop :
    Nat → rouleaux_parser_t → parse_result → Option (declaration_loop_exit × rouleaux_parser_t)
  | 0, _, _ => none
  | fuel + 1, parser, identifier_result =>
    match lexer_peek_token parser.lexer with
    | none => none
    | some (current_token, lexer1) =>
      if current_token.type = TOKEN_IDENTIFIER then
        match parser_parse_identifier { parser with lexer := lexer1 } with
        | none => none
        | some (identifier_result1, parser2) => declaration_loop fuel parser2 identifier_result1
      else if current_token.type = TOKEN_COLON then
        match parser_parse_constant_assignment_operator { parser with lexer := lexer1 } with
        | none => none
        | some (declaration_result, parser2) =>
          some (declaration_loop_exit.found identifier_result declaration_result, parser2)
      else if current_token.type = TOKEN_EQUALS then
        match parser_parse_value_assignment_operator { parser with lexer := lexer1 } with
        | none => none
        | some (declaration_result, parser2) =>
          some (declaration_loop_exit.found identifier_result declaration_result, parser2)
      else
        some (declaration_loop_exit.returned (parse_result_error current_token
          ("Invalid variable declaration, expected a const assignment (':') " ++
            "or a value assignment ('=')")),
          { parser with lexer := lexer1 })

/-- The write `n->node.ternary.center_child = c` (the slot of
`binary.right_child`). -/
def set_center_child (n c : ast_node) : Option ast_node := set_right_child n c

/-- The write `n->node.ternary.right_child = c`. -/
def set_third_child : ast_node → ast_node → Option ast_node
  | ast_node.null, _ => none
  | ast_node.node type t c0 c1 _ children parens, c =>
    some (ast_node.node type t c0 c1 c children parens)

/-- The read `n->type`; none for a null pointer. -/
def node_type_of : ast_node → Option ast_node_type
  | ast_node.null => none
  | ast_node.node type _ _ _ _ _ _ => some type

/-- The end of both paths of `parser_parse_declaration_or_assignment`:
`check_statement_end`, then the error on the token found instead, or the
result built so far. -/
def statement_end (result : parse_result) (parser : rouleaux_parser_t) :
    Option (parse_result × rouleaux_parser_t) :=
  match check_statement_end parser with
  | none => none
  | some (true, parser1) => some (result, parser1)
  | some (false, parser1) =>
    match lexer_peek_token parser1.lexer with
    | none => none
    | some (not_end_token, lexer2) =>
      some (parse_result_error not_end_token
        ("Expected end of statement, but got ('" ++
          printable lexer2.file_content not_end_token ++ "')"),
        { parser1 with lexer := lexer2 })

mutual
/-- `parser_parse_statement`; the first argument bounds the depth of the calls
and the turns of the loops. -/
def parser_parse_statement :
    Nat → rouleaux_parser_t → Option (parse_result × rouleaux_parser_t)
  | 0, _ => none
  | fuel + 1, parser0 =>
    match lexer_peek_token parser0.lexer with
    | none => none
    | some (t, lexer1) =>
      let parser : rouleaux_parser_t := { parser0 with lexer := lexer1 }
      if t.type = TOKEN_IDENTIFIER then
        parser_parse_declaration_or_assignment fuel parser
      else if t.type = TOKEN_KEYWORD_CALL then
        match lexer_next_token parser.lexer with
        | none => none
        | some (call_token, lexer2) =>
          match set_token (ast_node_create AST_CALL_OPERATOR) call_token with
          | none => none
          | some call_node =>
            match parser_parse_identifier { parser with lexer := lexer2 } with
            | none => none
            | some (function_name_result, parser3) =>
              if function_name_result.success = false then some (function_name_result, parser3)
              else
                match parser_parse_function_call_list fuel parser3 with
                | none => none
                | some (function_call_list_result, parser4) =>
                  if function_call_list_result.success = false then
                    some (function_call_list_result, parser4)
                  else
                    match check_statement_end parser4 with
                    | none => none
                    | some (false, parser5) =>
                      match lexer_peek_token parser5.lexer with
                      | none => none
                      | some (not_end, lexer6) =>
                        some (parse_result_error not_end "Expected end of statement ';'",
                          { parser5 with lexer := lexer6 })
                    | some (true, parser5) =>
                      let function_call_node := ast_node.node AST_FUNCTION_CALL token_zero
                        function_name_result.resulting_tree
                        function_call_list_result.resulting_tree ast_node.null node_list.nil
                        false
                      match set_left_child call_node function_call_node with
                      | none => none
                      | some tree => some (parse_result_success tree, parser5)
      else if t.type = TOKEN_KEYWORD_IF then
        match parser_parse_keyword_if parser with
        | none => none
        | some (if_result, parser2) =>
          if if_result.success = false then some (if_result, parser2)
          else
            match parser_parse_expression_beginning fuel parser2 with
            | none => none
            | some (expression_result, parser3) =>
              if expression_result.success = false then some (expression_result, parser3)
              else
                match parser_parse_statement fuel parser3 with
                | none => none
                | some (statement_result, parser4) =>
                  if statement_result.success = false then some (statement_result, parser4)
                  else
                    match set_left_child if_result.resulting_tree
                        expression_result.resulting_tree with
                    | none => none
                    | some tree1 =>
                      match set_center_child tree1 statement_result.resulting_tree with
                      | none => none
                      | some tree2 =>
                        match lexer_peek_token parser4.lexer with
                        | none => none
                        | some (else_token, lexer5) =>
                          if else_token.type ≠ TOKEN_KEYWORD_ELSE then
                            some ({ if_result with resulting_tree := tree2 },
                              { parser4 with lexer := lexer5 })
                          else
                            match lexer_next_token lexer5 with
                            | none => none
                            | some (_, lexer6) =>
                              match parser_parse_statement fuel
                                  { parser4 with lexer := lexer6 } with
                              | none => none
                              | some (else_block_result, parser7) =>
                                if else_block_result.success = false then
                                  some (else_block_result, parser7)
                                else
                                  match set_third_child tree2
                                      else_block_result.resulting_tree with
                                  | none => none
                                  | some tree3 =>
                                    some ({ if_result with resulting_tree := tree3 }, parser7)
      else if t.type = TOKEN_KEYWORD_WHILE then
        match parser_parse_keyword_while parser with
        | none => none
        | some (while_result, parser2) =>
          if while_result.success = false then some (while_result, parser2)
          else
            match parser_parse_expression_beginning fuel parser2 with
            | none => none
            | some (expr_result, parser3) =>
              if expr_result.success = false then some (expr_result, parser3)
              else
                match parser_parse_statement fuel parser3 with
                | none => none
                | some (statement_result, parser4) =>
                  if statement_result.success = false then some (statement_result, parser4)
                  else
                    -- left_child = expr_result.resulting_tree;
                    -- right_child = expr_result.resulting_tree
                    match set_left_child while_result.resulting_tree
                        expr_result.resulting_tree with
                    | none => none
                    | some tree1 =>
                      match set_right_child tree1 expr_result.resulting_tree with
                      | none => none
                      | some tree2 =>
                        some ({ while_result with resulting_tree := tree2 }, parser4)
      else if t.type = TOKEN_LEFT_CURLY then
        match lexer_next_token parser.lexer with
        | none => none
        | some (open_curly_token, lexer2) =>
          if open_curly_token.type ≠ TOKEN_LEFT_CURLY then
            some (parse_result_error open_curly_token
              "*Compiler Bug* Impossible wrong token at start of scope!",
              { parser with lexer := lexer2 })
          else
            match lexer_peek_token lexer2 with
            | none => none
            | some (peeked_token, lexer3) =>
              scope_loop fuel { parser with lexer := lexer3 } node_list_create peeked_token
      else if t.type = TOKEN_LINE_COMMENT ∨ t.type = TOKEN_BLOCK_COMMENT then
        parser_parse_comment parser
      else if t.type = TOKEN_EOF then
        some (parse_result_success (ast_node_create AST_EOF), { parser with done := true })
      else if t.type = TOKEN_INVALID then
        some (parse_result_error t "Invalid token found", parser)
      else
        some (parse_result_error t
          ("Expected the start of a statement, but instead got '" ++
            printable parser.lexer.file_content t ++ "'"), parser)
/-- The `while (peeked_token.type != TOKEN_RIGHT_CURLY && ... != TOKEN_EOF)`
loop of the scope case of `parser_parse_statement` with what follows it;
`children` is the node list of `scope_node`. -/
def scope_loop :
    Nat → rouleaux_parser_t → node_list → token → Option (parse_result × rouleaux_parser_t)
  | 0, _, _, _ => none
  | fuel + 1, parser, children, peeked_token =>
    if peeked_token.type ≠ TOKEN_RIGHT_CURLY ∧ peeked_token.type ≠ TOKEN_EOF then
      match parser_parse_statement fuel parser with
      | none => none
      | some (statement_result, parser1) =>
        if statement_result.success = false then some (statement_result, parser1)
        else
          match lexer_peek_token parser1.lexer with
          | none => none
          | some (peeked_token1, lexer2) =>
            scope_loop fuel { parser1 with lexer := lexer2 }
              (node_list_push_back children statement_result.resulting_tree) peeked_token1
    else if peeked_token.type ≠ TOKEN_RIGHT_CURLY then
      some (parse_result_error peeked_token "Expected end of scope '\x7d'", parser)
    else
      match lexer_next_token parser.lexer with
      | none => none
      | some (close_curly, lexer1) =>
        if close_curly.type ≠ TOKEN_RIGHT_CURLY then
          some (parse_result_error close_curly "Expected a  closing curly bracket '\x7d'",
            { parser with lexer := lexer1 })
        else
          some (parse_result_success (ast_node.node AST_SCOPE token_zero ast_node.null
            ast_node.null ast_node.null children false), { parser with lexer := lexer1 })
/-- `parser_parse_declaration_or_assignment`. -/
def parser_parse_declaration_or_assignment :
    Nat → rouleaux_parser_t → Option (parse_result × rouleaux_parser_t)
  | 0, _ => none
  | fuel + 1, parser =>
    match lexer_next_token parser.lexer with
    | none => none
    | some (identifier, lexer1) =>
      match lexer_peek_token lexer1 with
      | none => none
      | some (token_after_identifier, lexer2) =>
        let parser2 : rouleaux_parser_t := { parser with lexer := lexer2 }
        if token_after_identifier.type ≠ TOKEN_EQUALS ∧
            token_after_identifier.type ≠ TOKEN_COLON then
          some (parse_result_error token_after_identifier
            ("Invalid Statement, a identifier must be followed by either a value " ++
              "assignment ('=') or type assignment (':')"), parser2)
        else
        match (if token_after_identifier.type = TOKEN_EQUALS then
                parser_parse_value_assignment_operator parser2
              else parser_parse_type_assignment_operator parser2) with
        | none => none
        | some (assignment_result, parser3) =>
          match set_token (ast_node_create AST_IDENTIFIER) identifier with
          | none => none
          | some identifier_node =>
            match set_left_child assignment_result.resulting_tree identifier_node with
            | none => none
            | some assignment_tree =>
              if node_type_of assignment_tree = some AST_VALUE_ASSIGNMENT then
                match parser_parse_expression_beginning fuel parser3 with
                | none => none
                | some (expr_result, parser4) =>
                  if expr_result.success = false then some (expr_result, parser4)
                  else
                    match set_right_child assignment_tree expr_result.resulting_tree with
                    | none => none
                    | some tree =>
                      statement_end { assignment_result with resulting_tree := tree } parser4
              else
                match declaration_loop fuel parser3 parse_result_zero with
                | none => none
                | some (declaration_loop_exit.returned result, parser4) =>
                  some (result, parser4)
                | some (declaration_loop_exit.found identifier_result declaration_result,
                    parser4) =>
                  match (if identifier_result.success then
                          set_right_child assignment_tree identifier_result.resulting_tree
                        else some assignment_tree) with
                  | none => none
                  | some type_assignment_tree =>
                    match set_left_child declaration_result.resulting_tree
                        type_assignment_tree with
                    | none => none
                    | some declaration_tree =>
                      match parser_parse_function_or_expression fuel parser4 with
                      | none => none
                      | some (expr_result, parser5) =>
                        if expr_result.success = false then some (expr_result, parser5)
                        else
                          match set_right_child declaration_tree
                              expr_result.resulting_tree with
                          | none => none
                          | some tree =>
                            statement_end { declaration_result with resulting_tree := tree } parser5
/-- `parser_parse_function_or_expression`. -/
def parser_parse_function_or_expression :
    Nat → rouleaux_parser_t → Option (parse_result × rouleaux_parser_t)
  | 0, _ => none
  | fuel + 1, parser =>
    match lexer_peek_token parser.lexer with
    | none => none
    | some (t, lexer1) =>
      if t.type ≠ TOKEN_LEFT_PAREN then
        parser_parse_expression_beginning fuel { parser with lexer := lexer1 }
      else
        match lexer_next_token lexer1 with
        | none => none
        | some (open_paren_token, lexer2) =>
          match lexer_peek_token lexer2 with
          | none => none
          | some (after_paren, lexer3) =>
            if after_paren.type = TOKEN_RIGHT_PAREN then
              match lexer_put_back_token lexer3 open_paren_token with
              | none => none
              | some (_, lexer4) =>
                parser_parse_function_declaration fuel { parser with lexer := lexer4 }
            else if after_paren.type ≠ TOKEN_IDENTIFIER then
              match lexer_put_back_token lexer3 open_paren_token with
              | none => none
              | some (_, lexer4) =>
                parser_parse_expression_beginning fuel { parser with lexer := lexer4 }
            else
              match lexer_next_token lexer3 with
              | none => none
              | some (identifier_token, lexer4) =>
                match lexer_peek_token lexer4 with
                | none => none
                | some (after_identifier, lexer5) =>
                  match lexer_put_back_token lexer5 identifier_token with
                  | none => none
                  | some (_, lexer6) =>
                    match lexer_put_back_token lexer6 open_paren_token with
                    | none => none
                    | some (_, lexer7) =>
                      if after_identifier.type ≠ TOKEN_COLON then
                        parser_parse_expression_beginning fuel { parser with lexer := lexer7 }
                      else
                        parser_parse_function_declaration fuel { parser with lexer := lexer7 }
/-- `parser_parse_function_declaration`. -/
def parser_parse_function_declaration :
    Nat → rouleaux_parser_t → Option (parse_result × rouleaux_parser_t)
  | 0, _ => none
  | fuel + 1, parser =>
    match parser_parse_parameter_list fuel parser with
    | none => none
    | some (parameter_list_result, parser1) =>
      if parameter_list_result.success = false then some (parameter_list_result, parser1)
      else
        match parser_parse_return_type parser1 with
        | none => none
        | some (return_type_result, parser2) =>
          if return_type_result.success = false then some (return_type_result, parser2)
          else
            match parser_parse_statement fuel parser2 with
            | none => none
            | some (function_block_result, parser3) =>
              if function_block_result.success = false then
                -- return return_type_result; (its tree was destroyed just before: the
                -- pointer is returned as it is)
                some (return_type_result, parser3)
              else
                some (parse_result_success (ast_node.node AST_FUNCTION_DECLARATION token_zero
                  parameter_list_result.resulting_tree return_type_result.resulting_tree
                  function_block_result.resulting_tree node_list.nil false), parser3)
end

/-- The `do ... while (result.success && !parser->done)` loop of
`parser_parse_file` with what follows it; `children` is the node list of
`file_node`, `depth` bounds the calls of each statement, and the second
argument bounds the turns. -/
def parse_file_loop (depth : Nat) :
    Nat → rouleaux_parser_t → node_list → Option (parse_result × rouleaux_parser_t)
  | 0, _, _ => none
  | fuel + 1, parser, children =>
    match parser_parse_statement depth parser with
    | none => none
    | some (result, parser1) =>
      if result.success = false then some (result, parser1)
      else
        let children1 := node_list_push_back children result.resulting_tree
        if parser1.done = false then parse_file_loop depth fuel parser1 children1
        else
          some (parse_result_success (ast_node.node AST_SCOPE token_zero ast_node.null
            ast_node.null ast_node.null children1 false), parser1)

/-- `parser_parse_file`; `fuel` bounds the number of statements of the file
and the depth of the calls of each. -/
def parser_parse_file (fuel : Nat) (parser : rouleaux_parser_t) :
    Option (parse_result × rouleaux_parser_t) :=
  parse_file_loop fuel fuel parser node_list_create

/-! ## Shapes of expression trees -/

/-- Whether `child` is an operator node, not enclosed in parentheses, whose
precedence is strictly lower than that of a parent of type `parent`. -/
def lower_operator_child (parent : ast_node_type) (child : ast_node) : Bool :=
  match child with
  | ast_node.null => false
  | ast_node.node type _ _ _ _ _ parens =>
    decide (0 ≤ precedence_from_node_type type) && !parens &&
      decide (precedence_from_node_type type < precedence_from_node_type parent)

/-- No node of the tree has, as left or right child, an unparenthesized
operator node of strictly lower precedence. -/
def precedence_ordered : ast_node → Bool
  | ast_node.null => true
  | ast_node.node type _ left right _ _ _ =>
    !lower_operator_child type left && !lower_operator_child type right &&
      precedence_ordered left && precedence_ordered right

/-- The nodes of a binary tree in order (left subtree, node, right subtree),
each with its type, its token and its flag `enclosed_in_parens`. -/
def in_order : ast_node → List (ast_node_type × token × Bool)
  | ast_node.null => []
  | ast_node.node type t left right _ _ parens =>
    in_order left ++ [(type, t, parens)] ++ in_order right

/-- The tokens of the nodes of a binary tree, in order. -/
def in_order_tokens (n : ast_node) : List token :=
  (in_order n).map (fun x => x.2.1)

/-- The node types of the binary operators `+ - * / % > <`. -/
def is_binary_operator (type : ast_node_type) : Bool :=
  type = AST_BINARY_OPERATOR_PLUS || type = AST_BINARY_OPERATOR_MINUS ||
  type = AST_BINARY_OPERATOR_MULTIPLY || type = AST_BINARY_OPERATOR_DIVIDE ||
  type = AST_BINARY_OPERATOR_MODULUS || type = AST_BINARY_OPERATOR_GREATER_THAN ||
  type = AST_BINARY_OPERATOR_LESS_THAN

/-- The rotation of the specification on `R = (L op_R C)`, `C = (X op_C Y)`:
`R.right := X`, `C.left := R`, and `C` is the new root. -/
def rotate (type : ast_node_type) (t : token) (l : ast_node) (c2 : ast_node)
    (children : node_list) (parens : Bool) (ctype : ast_node_type) (ct : token)
    (x y : ast_node) (cc2 : ast_node) (cchildren : node_list) (cparens : Bool) : ast_node :=
  ast_node.node ctype ct (ast_node.node type t l x c2 children parens) y cc2 cchildren cparens

/-- The rule of the specification for fix-precedence, in its words: rotate if
`op_C` is a binary operator and `C` is not parenthesized and (`R` is
parenthesized or `precedence(op_R) > precedence(op_C)`); otherwise return
false and leave the tree as it is.  None where `R` or `C` is null. -/
def fix_precedence_rule : ast_node → Option (Bool × ast_node)
  | ast_node.null => none
  | ast_node.node _ _ _ ast_node.null _ _ _ => none
  | ast_node.node type t l (ast_node.node ctype ct x y cc2 cchildren cparens) c2 children
      parens =>
    if is_binary_operator ctype = true ∧ cparens = false ∧
        (parens = true ∨ precedence_from_node_type type > precedence_from_node_type ctype) then
      some (true, rotate type t l c2 children parens ctype ct x y cc2 cchildren cparens)
    else
      some (false, ast_node.node type t l (ast_node.node ctype ct x y cc2 cchildren cparens)
        c2 children parens)

/-- The rule with the test of the parentheses of `C` moved next to the
comparison of the precedences: rotate if `op_C` is a binary operator and (`R`
is parenthesized or (`precedence(op_R) > precedence(op_C)` and `C` is not
parenthesized)). -/
def fix_precedence_rule_amended : ast_node → Option (Bool × ast_node)
  | ast_node.null => none
  | ast_node.node _ _ _ ast_node.null _ _ _ => none
  | ast_node.node type t l (ast_node.node ctype ct x y cc2 cchildren cparens) c2 children
      parens =>
    if is_binary_operator ctype = true ∧
        (parens = true ∨
          (precedence_from_node_type type > precedence_from_node_type ctype ∧
            cparens = false)) then
      some (true, rotate type t l c2 children parens ctype ct x y cc2 cchildren cparens)
    else
      some (false, ast_node.node type t l (ast_node.node ctype ct x y cc2 cchildren cparens)
        c2 children parens)

/-- The node of a binary operator that is enclosed in parentheses. -/
def parenthesized_node (type : ast_node_type) (t : token) (left right : ast_node) : ast_node :=
  ast_node.node type t left right ast_node.null node_list.nil true

/-! ## Parsing a token stream -/

/-- On every lexer that yields the tokens `ts`, the parser function `F`
returns the result `r` and leaves a lexer that yields the tokens `rest`; the
other fields of the parser are as before. -/
def parses (F : rouleaux_parser_t → Option (parse_result × rouleaux_parser_t))
    (parser : rouleaux_parser_t) (ts : List token) (r : parse_result) (rest : List token) :
    Prop :=
  ∀ lexer, lexer_yields lexer ts →
    ∃ lexer1, F { parser with lexer := lexer } = some (r, { parser with lexer := lexer1 }) ∧
      lexer_yields lexer1 rest

/-- On every lexer that yields the tokens `ts`, the parser function `F`
returns a failure whose offending token is `t`. -/
def fails_at (F : rouleaux_parser_t → Option (parse_result × rouleaux_parser_t))
    (parser : rouleaux_parser_t) (ts : List token) (t : token) : Prop :=
  ∀ lexer, lexer_yields lexer ts →
    ∃ r parser1, F { parser with lexer := lexer } = some (r, parser1) ∧
      r.success = false ∧ r.error.faulted_token = t

/-- A node with many children (a SCOPE or a PARAMETER_LIST), as the parser
makes it. -/
def many_node (type : ast_node_type) (children : node_list) : ast_node :=
  ast_node.node type token_zero ast_node.null ast_node.null ast_node.null children false

/-- The stream begins with `(` `)` or with `(` IDENT `:`: the lookahead of the
specification for a function declaration. -/
def starts_function_declaration (t1 t2 t3 : token) : Bool :=
  t1.type = TOKEN_LEFT_PAREN &&
    (t2.type = TOKEN_RIGHT_PAREN || (t2.type = TOKEN_IDENTIFIER && t3.type = TOKEN_COLON))

/-! ## type_info.h, symbol_table.c -/

/-- The enum `type_info`, as the integer a token stores in `typing_information`. -/
abbrev type_info := Int

abbrev TYPE_INFO_UNKNOWN : type_info := 0
abbrev TYPE_INFO_INTEGER : type_info := 1
abbrev TYPE_INFO_FLOAT : type_info := 2
abbrev TYPE_INFO_STRING : type_info := 3
abbrev TYPE_INFO_FUNCTION : type_info := 4
abbrev MAX_TYPE_INFOS : type_info := 5

/-- The struct `typing_result`. -/
structure typing_result where
  success : Bool
  error : error_report
  type : type_info
  deriving DecidableEq, Repr

def typing_result_success (tinfo : type_info) : typing_result :=
  { success := true, error := { message := none, faulted_token := token_zero }, type := tinfo }

/-- `typing_result_error`, given the message that `format_error_message`
builds from the format and its arguments. -/
def typing_result_error (t : token) (message : String) : typing_result :=
  { success := false, error := { message := some message, faulted_token := t },
    type := TYPE_INFO_UNKNOWN }

/-- The struct `symbol`.  `function_decl_node` is none while the field has
never been written (`symbol_table_add` leaves it as `malloc` delivered it);
otherwise it holds the node the pointer refers to, as it was when the pointer
was stored. -/
structure symbol where
  t : token
  type : type_info
  is_constant : Bool
  function_decl_node : Option ast_node
  deriving DecidableEq, Repr

/-- The struct `symbol_table`; `buffer` lists the symbols that have been
written, `buffer[0]` to `buffer[size - 1]` (the rest of the block is
uninitialised memory). -/
structure symbol_table where
  buffer : List symbol
  size : Nat
  capacity : Nat
  deriving DecidableEq, Repr

abbrev DEFAULT_SYMBOL_TABLE_CAPACITY : Nat := 1
abbrev DEFAULT_SYMBOL_TABLE_RESIZE_FACTOR : Nat := 2

/-- The test `strncmp(a, b, n) == 0` on the bytes found at two pointers; none
when a byte past the end of what a pointer addresses is read. -/
def strncmp_eq : List Nat → List Nat → Nat → Option Bool
  | _, _, 0 => some true
  | [], _, _ + 1 => none
  | _ :: _, [], _ + 1 => none
  | x :: xs, y :: ys, n + 1 =>
    if x ≠ y then some false
    else if x = 0 then some true
    else strncmp_eq xs ys n

/-- The loop of `symbol_table_find` from index `i`, with `n` entries left:
the index of the first symbol whose token has the length of `t` and the same
text, or none (the null pointer). -/
def symbol_table_find_from (mem : List Nat) (table : symbol_table) (t : token) :
    Nat → Nat → Option (Option Nat)
  | 0, _ => some none
  | n + 1, i =>
    match table.buffer[i]? with
    | none => none
    | some s =>
      if s.t.length ≠ t.length then symbol_table_find_from mem table t n (i + 1)
      else
        match strncmp_eq (deref mem s.t.text) (deref mem t.text) t.length with
        | none => none
        | some true => some (some i)
        | some false => symbol_table_find_from mem table t n (i + 1)

/-- `symbol_table_find`: the index of the symbol found, as the pointer
`&(table->buffer[i])`; `mem` is the source buffer the token texts point into. -/
def symbol_table_find (mem : List Nat) (table : symbol_table) (t : token) :
    Option (Option Nat) :=
  symbol_table_find_from mem table t table.size 0

/-- The static `reallocate_buffer` of symbol_table.c (the copy succeeds). -/
def symbol_table_reallocate_buffer (table : symbol_table) (resize_factor : Nat) :
    Bool × symbol_table :=
  (true, { table with capacity := table.capacity * resize_factor })

/-- Whether `symbol_table_add` on this table calls `reallocate_buffer`, which
frees the block of the table: pointers that `symbol_table_find` returned
before are dangling afterwards. -/
def symbol_table_add_reallocates (table : symbol_table) : Bool :=
  decide (table.size + 1 ≥ table.capacity)

/-- `symbol_table_add`. -/
def symbol_table_add (mem : List Nat) (table : symbol_table) (t : token) (type : type_info)
    (is_constant : Bool) : Option (Bool × symbol_table) :=
  match (if table.size + 1 ≥ table.capacity then
          symbol_table_reallocate_buffer table DEFAULT_SYMBOL_TABLE_RESIZE_FACTOR
        else (true, table)) with
  | (false, table1) => some (false, table1)
  | (true, table1) =>
    match symbol_table_find mem table1 t with
    | none => none
    | some (some _) => some (false, table1)
    | some none =>
      some (true, { table1 with
        buffer := table1.buffer.take table1.size ++
          [{ t := t, type := type, is_constant := is_constant, function_decl_node := none }],
        size := table1.size + 1 })

/-- `create_base_type_token`. -/
def create_base_type_token (text : List Nat) (ttype : token_type) (tinfo : type_info) : token :=
  { token_zero with text := text_ptr.literal text, length := text.length, type := ttype,
                    typing_information := tinfo }

/-- `populate_builtin_types`. -/
def populate_builtin_types (table : symbol_table) : Option symbol_table :=
  match symbol_table_add [] table
      (create_base_type_token (bytes "float") TOKEN_FLOAT_LITERAL TYPE_INFO_FLOAT)
      TYPE_INFO_FLOAT true with
  | none => none
  | some (_, table1) =>
    match symbol_table_add [] table1
        (create_base_type_token (bytes "int") TOKEN_INTEGER_LITERAL TYPE_INFO_INTEGER)
        TYPE_INFO_INTEGER true with
    | none => none
    | some (_, table2) => some table2

/-- `symbol_table_create`. -/
def symbol_table_create : Option symbol_table :=
  populate_builtin_types { buffer := [], size := 0, capacity := DEFAULT_SYMBOL_TABLE_CAPACITY }

/-! ## type_info.c -/

/-- The read `n->node.leaf.t` (the token is at the same place in every arm of
the union); none for a null pointer. -/
def node_token : ast_node → Option token
  | ast_node.null => none
  | ast_node.node _ t _ _ _ _ _ => some t

/-- The write `n->node.leaf.t.typing_information = type`. -/
def set_typing_information : ast_node → type_info → Option ast_node
  | ast_node.null, _ => none
  | ast_node.node type t c0 c1 c2 children parens, tinfo =>
    some (ast_node.node type { t with typing_information := tinfo } c0 c1 c2 children parens)

/-- The left (or only) child, `n->node.binary.left_child`. -/
def left_child_of : ast_node → Option ast_node
  | ast_node.null => none
  | ast_node.node _ _ c0 _ _ _ _ => some c0

/-- The children `n->node.many.children` of a node. -/
def children_of : ast_node → Option node_list
  | ast_node.null => none
  | ast_node.node _ _ _ _ _ children _ => some children

/-- The field `number_of_nodes` of a node list. -/
def number_of_nodes : node_list → Nat
  | node_list.nil => 0
  | node_list.cons _ rest => number_of_nodes rest + 1

/-- The value of an `i32` that is assigned the integer `x` (two's complement
wrap-around). -/
def to_i32 (x : Int) : Int :=
  if x % 4294967296 ≥ 2147483648 then x % 4294967296 - 4294967296 else x % 4294967296

/-- The write `table->buffer[i].function_decl_node = node`. -/
def set_function_decl_node (table : symbol_table) (i : Nat) (node : ast_node) : symbol_table :=
  { table with buffer := table.buffer.modify (fun s => { s with function_decl_node := some node }) i }

/-- The deduction both `AST_VALUE_ASSIGNMENT` and `AST_CONST_ASSIGNMENT` make
when the type assignment on the left has the type UNKNOWN: the name must be
new; the type assignment node and the identifier get the type of the right
side; the name is added to the table; for a FUNCTION the symbol gets the right
child as its `function_decl_node`; the assignment node gets the type.
`ast` is the assignment node with its children already resolved. -/
def deduce_declaration (mem : List Nat) (ast : ast_node) (table : symbol_table)
    (right_type : type_info) (is_constant : Bool) :
    Option (typing_result × ast_node × symbol_table) :=
  match ast with
  | ast_node.node type t
      (ast_node.node ltype lt (ast_node.node itype identifier_token i0 i1 i2 ichildren iparens)
        l1 l2 lchildren lparens)
      right c2 children parens =>
    match symbol_table_find mem table identifier_token with
    | none => none
    | some (some j) =>
      match table.buffer[j]? with
      | none => none
      | some sym =>
        match location_printable_text sym.t.location with
        | none => none
        | some original_symbol_location_text =>
          some (typing_result_error identifier_token
            ("A variable named '" ++ printable mem identifier_token ++
              "' already exists! The original was declared here [" ++
              original_symbol_location_text ++ "]"), ast, table)
    | some none =>
      let identifier_token1 : token :=
        { identifier_token with typing_information := right_type }
      let left1 := ast_node.node ltype { lt with typing_information := right_type }
        (ast_node.node itype identifier_token1 i0 i1 i2 ichildren iparens)
        l1 l2 lchildren lparens
      let ast1 := ast_node.node type t left1 right c2 children parens
      match symbol_table_add mem table identifier_token1 right_type is_constant with
      | none => none
      | some (false, table1) =>
        some (typing_result_error identifier_token1
          "Unable to allocate memory for the symbol table! *This is a compiler bug*",
          ast1, table1)
      | some (true, table1) =>
        let ast2 := ast_node.node type { t with typing_information := right_type } left1 right
          c2 children parens
        if right_type = TYPE_INFO_FUNCTION then
          match symbol_table_find mem table1 identifier_token1 with
          | none => none
          | some none =>
            some (typing_result_error identifier_token1
              "Unable to find added token in symbol table! *Compiler Bug*", ast1, table1)
          | some (some k) =>
            some (typing_result_success right_type, ast2,
              set_function_decl_node table1 k right)
        else
          some (typing_result_success right_type, ast2, table1)
  | _ => none

/-- The case `AST_IDENTIFIER` of `resolve_types` (the case
`AST_CONST_ASSIGNMENT` falls through into it). -/
def resolve_identifier (mem : List Nat) (ast : ast_node) (table : symbol_table) :
    Option (typing_result × ast_node × symbol_table) :=
  match ast with
  | ast_node.null => none
  | ast_node.node _ t _ _ _ _ _ =>
    match symbol_table_find mem table t with
    | none => none
    | some none =>
      some (typing_result_error t ("Undeclared symbol '" ++ printable mem t ++ "'"), ast, table)
    | some (some i) =>
      match table.buffer[i]? with
      | none => none
      | some sym =>
        match set_typing_information ast sym.type with
        | none => none
        | some ast1 => some (typing_result_success sym.type, ast1, table)

/-- The case `AST_TYPE_ASSIGNMENT` of `resolve_types`. -/
def resolve_type_assignment (mem : List Nat) (ast : ast_node) (table : symbol_table) :
    Option (typing_result × ast_node × symbol_table) :=
  match ast with
  | ast_node.null => none
  | ast_node.node type t left right c2 children parens =>
    match right with
    | ast_node.null => some (typing_result_success TYPE_INFO_UNKNOWN, ast, table)
    | ast_node.node _ type_token _ _ _ _ _ =>
      match symbol_table_find mem table type_token with
      | none => none
      | some none =>
        some (typing_result_error type_token
          ("Unknown type '" ++ printable mem type_token ++
            "' being used in variable declaration"), ast, table)
      | some (some i) =>
        match table.buffer[i]?, left with
        | some sym, ast_node.node ltype identifier_token l0 l1 l2 lchildren lparens =>
          match symbol_table_find mem table identifier_token with
          | none => none
          | some (some j) =>
            match table.buffer[j]? with
            | none => none
            | some identifier_symbol =>
              match location_printable_text identifier_symbol.t.location with
              | none => none
              | some original_declaration_location_text =>
                some (typing_result_error identifier_token
                  ("A variable with the name '" ++ printable mem identifier_token ++
                    "' already exists! It was declared here [" ++
                    original_declaration_location_text ++ "]"), ast, table)
          | some none =>
            match symbol_table_add mem table identifier_token sym.type false with
            | none => none
            | some (_, table1) =>
              -- `sym->type` is read again after the call: `sym` points into the
              -- block that `reallocate_buffer` has freed
              if symbol_table_add_reallocates table then none
              else
                some (typing_result_success sym.type,
                  ast_node.node type { t with typing_information := sym.type }
                    (ast_node.node ltype
                      { identifier_token with typing_information := sym.type }
                      l0 l1 l2 lchildren lparens)
                    right c2 children parens,
                  table1)
        | _, _ => none

/-- What `AST_VALUE_ASSIGNMENT` does after both children are resolved; `ast`
is the assignment node with the resolved children. -/
def resolve_value_assignment_end (mem : List Nat) (ast : ast_node) (table : symbol_table)
    (left_result right_result : typing_result) :
    Option (typing_result × ast_node × symbol_table) :=
  match ast with
  | ast_node.null => none
  | ast_node.node type t left right c2 children parens =>
    match left with
    | ast_node.null => none
    | ast_node.node ltype lt l0 _ _ _ _ =>
      if ltype = AST_IDENTIFIER then
        match symbol_table_find mem table lt with
        | none => none
        | some none =>
          some (typing_result_error lt ("Undeclared variable '" ++ printable mem lt ++ "'"),
            ast, table)
        | some (some i) =>
          match table.buffer[i]? with
          | none => none
          | some sym =>
            if sym.is_constant then
              match location_printable_text sym.t.location with
              | none => none
              | some orig_location =>
                some (typing_result_error lt
                  ("Cannot assign to variable '" ++ printable mem lt ++
                    "' because it was defined as a constant. Original declaration was made " ++
                    "here [" ++ orig_location ++ "]"), ast, table)
            else if sym.type ≠ right_result.type then
              some (typing_result_error lt
                ("Type mismatch: the type of '" ++ printable mem lt ++
                  "' does not match that of the assigned expression."), ast, table)
            else
              some (typing_result_success sym.type,
                ast_node.node type { t with typing_information := sym.type } left right c2
                  children parens, table)
      else if ltype = AST_TYPE_ASSIGNMENT then
        if left_result.type = TYPE_INFO_UNKNOWN then
          deduce_declaration mem ast table right_result.type false
        else if left_result.type = right_result.type then
          some (typing_result_success right_result.type, ast, table)
        else
          match l0 with
          | ast_node.null => none
          | ast_node.node _ identifier_token _ _ _ _ _ =>
            some (typing_result_error t
              ("Attempting to assign incorrect type to variable '" ++
                printable mem identifier_token ++ "'"), ast, table)
      else
        some (typing_result_error t
          "Unimplemented typing event for assignment operator! *aka. Compiler Bug*", ast, table)

/-- What `AST_CONST_ASSIGNMENT` does after both children are resolved; where
the type on the left is known, control falls through into the case
`AST_IDENTIFIER`. -/
def resolve_const_assignment_end (mem : List Nat) (ast : ast_node) (table : symbol_table)
    (left_result right_result : typing_result) :
    Option (typing_result × ast_node × symbol_table) :=
  match ast with
  | ast_node.null => none
  | ast_node.node _ _ left _ _ _ _ =>
    match left with
    | ast_node.null => none
    | ast_node.node ltype lt _ _ _ _ _ =>
      if ltype ≠ AST_TYPE_ASSIGNMENT then
        some (typing_result_error lt
          "Unexpected token to the left of const-assignment operator!", ast, table)
      else if left_result.type = TYPE_INFO_UNKNOWN then
        deduce_declaration mem ast table right_result.type true
      else
        resolve_identifier mem ast table

mutual
/-- `resolve_types`: the result, the tree as the call leaves it, and the
symbol table as the call leaves it.  `mem` is the source buffer the token
texts point into; the second argument bounds the depth of the calls and the
turns of the loops.  None is a null pointer dereference, a read outside a
buffer or through a dangling pointer. -/
def resolve_types (mem : List Nat) :
    Nat → ast_node → symbol_table → Option (typing_result × ast_node × symbol_table)
  | 0, _, _ => none
  | _ + 1, ast_node.null, _ => none
  | fuel + 1, ast_node.node type t c0 c1 c2 children parens, table =>
    let ast := ast_node.node type t c0 c1 c2 children parens
    match type with
    | AST_INTEGER_LITERAL =>
      some (typing_result_success TYPE_INFO_INTEGER,
        ast_node.node type { t with typing_information := TYPE_INFO_INTEGER } c0 c1 c2 children
          parens, table)
    | AST_FLOAT_LITERAL =>
      some (typing_result_success TYPE_INFO_FLOAT,
        ast_node.node type { t with typing_information := TYPE_INFO_FLOAT } c0 c1 c2 children
          parens, table)
    | AST_STRING_LITERAL =>
      some (typing_result_success TYPE_INFO_STRING,
        ast_node.node type { t with typing_information := TYPE_INFO_STRING } c0 c1 c2 children
          parens, table)
    | AST_BINARY_OPERATOR_PLUS | AST_BINARY_OPERATOR_MINUS | AST_BINARY_OPERATOR_MULTIPLY
    | AST_BINARY_OPERATOR_DIVIDE | AST_BINARY_OPERATOR_MODULUS
    | AST_BINARY_OPERATOR_GREATER_THAN | AST_BINARY_OPERATOR_LESS_THAN =>
      match resolve_types mem fuel c0 table with
      | none => none
      | some (left_result, left, table1) =>
        if left_result.success = false then
          some (left_result, ast_node.node type t left c1 c2 children parens, table1)
        else
          match resolve_types mem fuel c1 table1 with
          | none => none
          | some (right_result, right, table2) =>
            let ast1 := ast_node.node type t left right c2 children parens
            if right_result.success = false then some (right_result, ast1, table2)
            else if left_result.type = right_result.type then
              some (typing_result_success left_result.type, ast1, table2)
            else
              some (typing_result_error t "Left and right operand types do not match!",
                ast1, table2)
    | AST_TYPE_ASSIGNMENT => resolve_type_assignment mem ast table
    | AST_VALUE_ASSIGNMENT =>
      match resolve_types mem fuel c1 table with
      | none => none
      | some (right_result, right, table1) =>
        if right_result.success = false then
          some (right_result, ast_node.node type t c0 right c2 children parens, table1)
        else
          match resolve_types mem fuel c0 table1 with
          | none => none
          | some (left_result, left, table2) =>
            let ast1 := ast_node.node type t left right c2 children parens
            if left_result.success = false then some (left_result, ast1, table2)
            else resolve_value_assignment_end mem ast1 table2 left_result right_result
    | AST_CONST_ASSIGNMENT =>
      match resolve_types mem fuel c1 table with
      | none => none
      | some (right_result, right, table1) =>
        if right_result.success = false then
          some (right_result, ast_node.node type t c0 right c2 children parens, table1)
        else
          match resolve_types mem fuel c0 table1 with
          | none => none
          | some (left_result, left, table2) =>
            let ast1 := ast_node.node type t left right c2 children parens
            if left_result.success = false then some (left_result, ast1, table2)
            else resolve_const_assignment_end mem ast1 table2 left_result right_result
    | AST_IDENTIFIER => resolve_identifier mem ast table
    | AST_FUNCTION_DECLARATION =>
      match resolve_types mem fuel c0 table with
      | none => none
      | some (params_result, left, table1) =>
        if params_result.success = false then
          some (params_result, ast_node.node type t left c1 c2 children parens, table1)
        else
          match resolve_types mem fuel c1 table1 with
          | none => none
          | some (return_type_result, center, table2) =>
            if return_type_result.success = false then
              -- return params_result;
              some (params_result, ast_node.node type t left center c2 children parens, table2)
            else
              match resolve_types mem fuel c2 table2 with
              | none => none
              | some (block_result, right, table3) =>
                if block_result.success = false then
                  some (block_result, ast_node.node type t left center right children parens,
                    table3)
                else
                  some (typing_result_success TYPE_INFO_FUNCTION,
                    ast_node.node type { t with typing_information := TYPE_INFO_FUNCTION }
                      left center right children parens, table3)
    | AST_FUNCTION_CALL =>
      match resolve_types mem fuel c0 table with
      | none => none
      | some (function_name_result, left, table1) =>
        let ast1 := ast_node.node type t left c1 c2 children parens
        if function_name_result.success = false then some (function_name_result, ast1, table1)
        else
          match node_token left with
          | none => none
          | some name =>
            match symbol_table_find mem table1 name with
            | none => none
            | some none => none
            | some (some i) =>
              match table1.buffer[i]? with
              | none => none
              | some function_symbol =>
                if function_symbol.type ≠ TYPE_INFO_FUNCTION then
                  some (typing_result_error name
                    "Cannot call something that is not a function", ast1, table1)
                else
                  match function_symbol.function_decl_node with
                  | none => none
                  | some ast_node.null =>
                    some (typing_result_error name
                      "No parameter list found for this symbol! *Compiler Bug*", ast1, table1)
                  | some (ast_node.node _ _ declared_list declared_return _ _ _) =>
                    match children_of declared_list, children_of c1 with
                    | some declared, some passed =>
                      let param_length_difference :=
                        to_i32 (Int.ofNat (number_of_nodes declared) -
                          Int.ofNat (number_of_nodes passed))
                      if param_length_difference ≠ 0 then
                        some (typing_result_error name
                          ((if param_length_difference > 0 then "Too few" else "Too many") ++
                            " parameters for function call, got " ++
                            toString (number_of_nodes passed) ++ ", but expected " ++
                            toString (number_of_nodes declared)), ast1, table1)
                      else
                        match resolve_call_parameters mem fuel declared passed table1 with
                        | none => none
                        | some (early, passed1, table2) =>
                          match set_children c1 passed1 with
                          | none => none
                          | some right =>
                            let ast2 := ast_node.node type t left right c2 children parens
                            match early with
                            | some result => some (result, ast2, table2)
                            | none =>
                              match node_token declared_return with
                              | none => none
                              | some return_token =>
                                some (typing_result_success return_token.typing_information,
                                  ast2, table2)
                    | _, _ => none
    | AST_PARAMETER_LIST | AST_SCOPE =>
      match resolve_types_children mem fuel children table with
      | none => none
      | some (result, children1, table1) =>
        some (result, ast_node.node type t c0 c1 c2 children1 parens, table1)
    | AST_CALL_OPERATOR =>
      match resolve_types mem fuel c0 table with
      | none => none
      | some (function_call_result, child, table1) =>
        if function_call_result.success = false then
          some (function_call_result, ast_node.node type t child c1 c2 children parens, table1)
        else
          some (function_call_result,
            ast_node.node type { t with typing_information := function_call_result.type }
              child c1 c2 children parens, table1)
    | AST_COMMENT | AST_STATEMENT_END | AST_EOF | AST_INVALID | AST_MAX_TYPES =>
      some (typing_result_success TYPE_INFO_UNKNOWN, ast, table)
    | AST_IF_STATEMENT =>
      match resolve_types mem fuel c0 table with
      | none => none
      | some (expr_result, left, table1) =>
        if expr_result.success = false then
          some (expr_result, ast_node.node type t left c1 c2 children parens, table1)
        else
          match resolve_types mem fuel c1 table1 with
          | none => none
          | some (block_result, center, table2) =>
            if block_result.success = false then
              some (block_result, ast_node.node type t left center c2 children parens, table2)
            else
              match c2 with
              | ast_node.null =>
                some (typing_result_success TYPE_INFO_UNKNOWN,
                  ast_node.node type t left center c2 children parens, table2)
              | ast_node.node _ _ _ _ _ _ _ =>
                match resolve_types mem fuel c2 table2 with
                | none => none
                | some (else_result, right, table3) =>
                  let ast3 := ast_node.node type t left center right children parens
                  if else_result.success = false then some (else_result, ast3, table3)
                  else some (typing_result_success TYPE_INFO_UNKNOWN, ast3, table3)
    | AST_WHILE_STATEMENT =>
      match resolve_types mem fuel c0 table with
      | none => none
      | some (expr_result, left, table1) =>
        if expr_result.success = false then
          some (expr_result, ast_node.node type t left c1 c2 children parens, table1)
        else
          match resolve_types mem fuel c1 table1 with
          | none => none
          | some (block_result, right, table2) =>
            let ast2 := ast_node.node type t left right c2 children parens
            if block_result.success = false then some (block_result, ast2, table2)
            else some (typing_result_success TYPE_INFO_UNKNOWN, ast2, table2)
/-- The loop of the cases `AST_PARAMETER_LIST` and `AST_SCOPE`: the children
are resolved in order; the first failure is returned, otherwise the success
with the type UNKNOWN. -/
def resolve_types_children (mem : List Nat) :
    Nat → node_list → symbol_table → Option (typing_result × node_list × symbol_table)
  | 0, _, _ => none
  | _ + 1, node_list.nil, table =>
    some (typing_result_success TYPE_INFO_UNKNOWN, node_list.nil, table)
  | fuel + 1, node_list.cons first rest, table =>
    match resolve_types mem fuel first table with
    | none => none
    | some (result, first1, table1) =>
      if result.success = false then some (result, node_list.cons first1 rest, table1)
      else
        match resolve_types_children mem fuel rest table1 with
        | none => none
        | some (result1, rest1, table2) => some (result1, node_list.cons first1 rest1, table2)
/-- The loop over the parameters of the case `AST_FUNCTION_CALL`: `declared`
are the parameters of the declaration from index `i` on, `passed` those of the
call.  The first component is the result the loop returns with, or none when the
loop runs to its end. -/
def resolve_call_parameters (mem : List Nat) :
    Nat → node_list → node_list → symbol_table →
      Option (Option typing_result × node_list × symbol_table)
  | 0, _, _, _ => none
  | _ + 1, node_list.nil, passed, table => some (none, passed, table)
  | _ + 1, node_list.cons _ _, node_list.nil, _ => none
  | fuel + 1, node_list.cons function_decl_param declared,
      node_list.cons function_call_param passed, table =>
    match resolve_types mem fuel function_call_param table with
    | none => none
    | some (function_call_param_result, param1, table1) =>
      if function_call_param_result.success = false then
        some (some function_call_param_result, node_list.cons param1 passed, table1)
      else
        match node_token function_decl_param, node_token param1 with
        | some declared_token, some passed_token =>
          if declared_token.typing_information ≠ passed_token.typing_information then
            some (some (typing_result_error passed_token
              "Parameter's type does not match that of function declaration"),
              node_list.cons param1 passed, table1)
          else
            match resolve_call_parameters mem fuel declared passed table1 with
            | none => none
            | some (early, passed1, table2) => some (early, node_list.cons param1 passed1, table2)
        | _, _ => none
end

/-! ## Scenario 4 of the specification -/

/-- The tree of `(a: int, b: int) -> int { x : int = a + b; }` at offset 7 of
the file "f". -/
def scenario_four_function : ast_node :=
  ast_node.node AST_FUNCTION_DECLARATION token_zero
    (many_node AST_PARAMETER_LIST
      (node_list.cons
        (binary_node AST_TYPE_ASSIGNMENT (source_token "f" TOKEN_COLON 9 1 1 10 token_value.zero)
          (leaf_node AST_IDENTIFIER (source_token "f" TOKEN_IDENTIFIER 8 1 1 9 token_value.zero))
          (leaf_node AST_IDENTIFIER (source_token "f" TOKEN_IDENTIFIER 11 3 1 12 token_value.zero)))
        (node_list.cons
          (binary_node AST_TYPE_ASSIGNMENT (source_token "f" TOKEN_COLON 17 1 1 18 token_value.zero)
            (leaf_node AST_IDENTIFIER (source_token "f" TOKEN_IDENTIFIER 16 1 1 17 token_value.zero))
            (leaf_node AST_IDENTIFIER (source_token "f" TOKEN_IDENTIFIER 19 3 1 20 token_value.zero)))
          node_list.nil)))
    (leaf_node AST_IDENTIFIER (source_token "f" TOKEN_IDENTIFIER 27 3 1 28 token_value.zero))
    (many_node AST_SCOPE
      (node_list.cons
        (binary_node AST_VALUE_ASSIGNMENT (source_token "f" TOKEN_EQUALS 41 1 1 42 token_value.zero)
          (binary_node AST_TYPE_ASSIGNMENT (source_token "f" TOKEN_COLON 35 1 1 36 token_value.zero)
            (leaf_node AST_IDENTIFIER (source_token "f" TOKEN_IDENTIFIER 33 1 1 34 token_value.zero))
            (leaf_node AST_IDENTIFIER (source_token "f" TOKEN_IDENTIFIER 37 3 1 38 token_value.zero)))
          (binary_node AST_BINARY_OPERATOR_PLUS (source_token "f" TOKEN_PLUS 45 1 1 46 token_value.zero)
            (leaf_node AST_IDENTIFIER (source_token "f" TOKEN_IDENTIFIER 43 1 1 44 token_value.zero))
            (leaf_node AST_IDENTIFIER (source_token "f" TOKEN_IDENTIFIER 47 1 1 48 token_value.zero))))
        node_list.nil))
    node_list.nil false

/-- The tree of the declaration `add :: (a: int, b: int) -> int { ... }`. -/
def scenario_four_declaration : ast_node :=
  binary_node AST_CONST_ASSIGNMENT (source_token "f" TOKEN_COLON 5 1 1 6 token_value.zero)
    (binary_node AST_TYPE_ASSIGNMENT (source_token "f" TOKEN_COLON 4 1 1 5 token_value.zero)
      (leaf_node AST_IDENTIFIER (source_token "f" TOKEN_IDENTIFIER 0 3 1 1 token_value.zero)) ast_node.null)
    scenario_four_function

/-- The tree of the statement `call add(1, 2);` at offset 53 of the file "f". -/
def scenario_four_call : ast_node :=
  ast_node.node AST_CALL_OPERATOR (source_token "f" TOKEN_KEYWORD_CALL 53 4 1 54 token_value.zero)
    (binary_node AST_FUNCTION_CALL token_zero
      (leaf_node AST_IDENTIFIER (source_token "f" TOKEN_IDENTIFIER 58 3 1 59 token_value.zero))
      (many_node AST_PARAMETER_LIST
        (node_list.cons
          (leaf_node AST_INTEGER_LITERAL
            (source_token "f" TOKEN_INTEGER_LITERAL 62 1 1 63 (token_value.unsigned64 1)))
          (node_list.cons
            (leaf_node AST_INTEGER_LITERAL
              (source_token "f" TOKEN_INTEGER_LITERAL 65 1 1 66 (token_value.unsigned64 2)))
            node_list.nil))))
    ast_node.null ast_node.null node_list.nil false

/-! ## Declarations with an explicit type -/

/-- The tree `VALUE_ASSIGN(TYPE_ASSIGN(name, type), e)` of the declaration
`name : type = e;`. -/
def typed_declaration (name type colon eq : token) (e : ast_node) : ast_node :=
  binary_node AST_VALUE_ASSIGNMENT eq
    (binary_node AST_TYPE_ASSIGNMENT colon (leaf_node AST_IDENTIFIER name)
      (leaf_node AST_IDENTIFIER type)) e

/-- The table with one more entry: `name` with the type `type`, not constant. -/
def with_variable (table : symbol_table) (name : token) (type : type_info) : symbol_table :=
  { table with
    buffer := table.buffer.take table.size ++
      [{ t := name, type := type, is_constant := false, function_decl_node := none }],
    size := table.size + 1 }

/-- The symbol `int` that `populate_builtin_types` adds. -/
def builtin_int : symbol :=
  { t := create_base_type_token (bytes "int") TOKEN_INTEGER_LITERAL TYPE_INFO_INTEGER,
    type := TYPE_INFO_INTEGER, is_constant := true, function_decl_node := none }

/-- The symbol `float` that `populate_builtin_types` adds. -/
def builtin_float : symbol :=
  { t := create_base_type_token (bytes "float") TOKEN_FLOAT_LITERAL TYPE_INFO_FLOAT,
    type := TYPE_INFO_FLOAT, is_constant := true, function_decl_node := none }

/-- The table that `symbol_table_create` returns: the two built-in types in a
block of four symbols. -/
def fresh_symbol_table : symbol_table :=
  { buffer := [builtin_float, builtin_int], size := 2, capacity := 4 }

/-- The tree of the declaration `x : int = 1;` at offset 0 of the file "f". -/
def first_typed_declaration : ast_node :=
  typed_declaration
    (source_token "f" TOKEN_IDENTIFIER 0 1 1 1 token_value.zero)
    (source_token "f" TOKEN_IDENTIFIER 4 3 1 5 token_value.zero)
    (source_token "f" TOKEN_COLON 2 1 1 3 token_value.zero)
    (source_token "f" TOKEN_EQUALS 8 1 1 9 token_value.zero)
    (leaf_node AST_INTEGER_LITERAL
      (source_token "f" TOKEN_INTEGER_LITERAL 10 1 1 11 (token_value.unsigned64 1)))

/-- The tree of the declaration `y : int = 2;` at offset 13 of the file "f". -/
def second_typed_declaration : ast_node :=
  typed_declaration
    (source_token "f" TOKEN_IDENTIFIER 13 1 1 14 token_value.zero)
    (source_token "f" TOKEN_IDENTIFIER 17 3 1 18 token_value.zero)
    (source_token "f" TOKEN_COLON 15 1 1 16 token_value.zero)
    (source_token "f" TOKEN_EQUALS 21 1 1 22 token_value.zero)
    (leaf_node AST_INTEGER_LITERAL
      (source_token "f" TOKEN_INTEGER_LITERAL 23 1 1 24 (token_value.unsigned64 2)))

/-- The tree of the file `x : int = 1; y : int = 2;`. -/
def two_typed_declarations : ast_node :=
  many_node AST_SCOPE
    (node_list.cons first_typed_declaration
      (node_list.cons second_typed_declaration
        (node_list.cons (leaf_node AST_EOF token_zero) node_list.nil)))

/-! ## Statements about the symbol table -/

/-- The bytes of the name of a token can be read: `length` bytes lie at
`text` (in the source buffer, or in a string literal with its NUL). -/
def readable (mem : List Nat) (t : token) : Prop :=
  t.length ≤ (deref mem t.text).length

instance (mem : List Nat) (t : token) : Decidable (readable mem t) := by
  unfold readable; infer_instance

/-- Two tokens carry the same name: equal length and equal bytes. -/
def same_name (mem : List Nat) (a b : token) : Prop :=
  a.length = b.length ∧ token_text mem a = token_text mem b

instance (mem : List Nat) (a b : token) : Decidable (same_name mem a b) := by
  unfold same_name; infer_instance

/-- The invariant of a symbol table: `buffer[0]` to `buffer[size - 1]` are
the symbols written, the name of each can be read, and no two of them carry
the same name. -/
def symbol_table_wf (mem : List Nat) (table : symbol_table) : Prop :=
  table.buffer.length = table.size ∧
  (∀ s, s ∈ table.buffer → readable mem s.t) ∧
  table.buffer.Pairwise (fun a b => ¬ same_name mem a.t b.t)

/-- The calls `symbol_table_add(table, t1, type1, c1); ...` one after the
other, whatever each returns. -/
def symbol_table_add_all (mem : List Nat) :
    symbol_table → List (token × type_info × Bool) → Option symbol_table
  | table, [] => some table
  | table, (t, type, is_constant) :: rest =>
    match symbol_table_add mem table t type is_constant with
    | none => none
    | some (_, table1) => symbol_table_add_all mem table1 rest

/-- The table after a successful `symbol_table_add` of `sym`: the block is
doubled when `size + 1 >= capacity`, and `sym` is written behind the symbols
present. -/
def with_symbol (table : symbol_table) (sym : symbol) : symbol_table :=
  { buffer := table.buffer.take table.size ++ [sym],
    size := table.size + 1,
    capacity := if table.size + 1 ≥ table.capacity
      then table.capacity * DEFAULT_SYMBOL_TABLE_RESIZE_FACTOR else table.capacity }

/-! ## Example files -/

/-- The tree of the file `x = 1;`. -/
def undeclared_assignment_file : ast_node :=
  many_node AST_SCOPE
    (node_list.cons
      (binary_node AST_VALUE_ASSIGNMENT
        (source_token "f" TOKEN_EQUALS 2 1 1 3 token_value.zero)
        (leaf_node AST_IDENTIFIER
          (source_token "f" TOKEN_IDENTIFIER 0 1 1 1 token_value.zero))
        (leaf_node AST_INTEGER_LITERAL
          (source_token "f" TOKEN_INTEGER_LITERAL 4 1 1 5 (token_value.unsigned64 1))))
      (node_list.cons (leaf_node AST_EOF token_zero) node_list.nil))

/-- The tree of the file `int = 1;`. -/
def builtin_assignment_file : ast_node :=
  many_node AST_SCOPE
    (node_list.cons
      (binary_node AST_VALUE_ASSIGNMENT
        (source_token "f" TOKEN_EQUALS 4 1 1 5 token_value.zero)
        (leaf_node AST_IDENTIFIER
          (source_token "f" TOKEN_IDENTIFIER 0 3 1 1 token_value.zero))
        (leaf_node AST_INTEGER_LITERAL
          (source_token "f" TOKEN_INTEGER_LITERAL 6 1 1 7 (token_value.unsigned64 1))))
      (node_list.cons (leaf_node AST_EOF token_zero) node_list.nil))

/-- The tree of the declaration `y : int : 1;` at offset 0 of the file "f". -/
def typed_constant_declaration : ast_node :=
  binary_node AST_CONST_ASSIGNMENT
    (source_token "f" TOKEN_COLON 8 1 1 9 token_value.zero)
    (binary_node AST_TYPE_ASSIGNMENT
      (source_token "f" TOKEN_COLON 2 1 1 3 token_value.zero)
      (leaf_node AST_IDENTIFIER
        (source_token "f" TOKEN_IDENTIFIER 0 1 1 1 token_value.zero))
      (leaf_node AST_IDENTIFIER
        (source_token "f" TOKEN_IDENTIFIER 4 3 1 5 token_value.zero)))
    (leaf_node AST_INTEGER_LITERAL
      (source_token "f" TOKEN_INTEGER_LITERAL 10 1 1 11 (token_value.unsigned64 1)))

/-- The tree of the file `y : int : 1;`. -/
def typed_constant_file : ast_node :=
  many_node AST_SCOPE
    (node_list.cons typed_constant_declaration
      (node_list.cons (leaf_node AST_EOF token_zero) node_list.nil))

/-- The tree of the declaration `int :: 1;` at offset 0 of the file "f". -/
def builtin_redeclaration : ast_node :=
  binary_node AST_CONST_ASSIGNMENT
    (source_token "f" TOKEN_COLON 5 1 1 6 token_value.zero)
    (binary_node AST_TYPE_ASSIGNMENT
      (source_token "f" TOKEN_COLON 4 1 1 5 token_value.zero)
      (leaf_node AST_IDENTIFIER
        (source_token "f" TOKEN_IDENTIFIER 0 3 1 1 token_value.zero))
      ast_node.null)
    (leaf_node AST_INTEGER_LITERAL
      (source_token "f" TOKEN_INTEGER_LITERAL 7 1 1 8 (token_value.unsigned64 1)))

/-- The tree of the file `int :: 1;`. -/
def builtin_redeclaration_file : ast_node :=
  many_node AST_SCOPE
    (node_list.cons builtin_redeclaration
      (node_list.cons (leaf_node AST_EOF token_zero) node_list.nil))
/-- The bytes of the file `g :: (a: int) -> int {}; call g(1 + 2);`. -/
def operator_argument_source : List Nat := bytes "g :: (a: int) -> int {}; call g(1 + 2);"

/-- The tree of `(a: int) -> int {}` at offset 5 of the file "f". -/
def one_parameter_function : ast_node :=
  ast_node.node AST_FUNCTION_DECLARATION token_zero
    (many_node AST_PARAMETER_LIST
      (node_list.cons
        (binary_node AST_TYPE_ASSIGNMENT (source_token "f" TOKEN_COLON 7 1 1 8 token_value.zero)
          (leaf_node AST_IDENTIFIER (source_token "f" TOKEN_IDENTIFIER 6 1 1 7 token_value.zero))
          (leaf_node AST_IDENTIFIER (source_token "f" TOKEN_IDENTIFIER 9 3 1 10 token_value.zero)))
        node_list.nil))
    (leaf_node AST_IDENTIFIER (source_token "f" TOKEN_IDENTIFIER 17 3 1 18 token_value.zero))
    (many_node AST_SCOPE node_list_create) node_list.nil false

/-- The tree of the statement `g :: (a: int) -> int {};` at offset 0 of the
file "f". -/
def one_parameter_declaration : ast_node :=
  binary_node AST_CONST_ASSIGNMENT (source_token "f" TOKEN_COLON 3 1 1 4 token_value.zero)
    (binary_node AST_TYPE_ASSIGNMENT (source_token "f" TOKEN_COLON 2 1 1 3 token_value.zero)
      (leaf_node AST_IDENTIFIER (source_token "f" TOKEN_IDENTIFIER 0 1 1 1 token_value.zero))
      ast_node.null)
    one_parameter_function

/-- The tree of the expression `1 + 2` at offset 32 of the file "f". -/
def operator_argument : ast_node :=
  binary_node AST_BINARY_OPERATOR_PLUS (source_token "f" TOKEN_PLUS 34 1 1 35 token_value.zero)
    (leaf_node AST_INTEGER_LITERAL
      (source_token "f" TOKEN_INTEGER_LITERAL 32 1 1 33 (token_value.unsigned64 1)))
    (leaf_node AST_INTEGER_LITERAL
      (source_token "f" TOKEN_INTEGER_LITERAL 36 1 1 37 (token_value.unsigned64 2)))

/-- The node `g(argument)` of a call whose name `g` is at offset 30 of the file
"f". -/
def one_argument_call (argument : ast_node) : ast_node :=
  binary_node AST_FUNCTION_CALL token_zero
    (leaf_node AST_IDENTIFIER (source_token "f" TOKEN_IDENTIFIER 30 1 1 31 token_value.zero))
    (many_node AST_PARAMETER_LIST (node_list.cons argument node_list.nil))

/-- The tree of the statement `call g(1 + 2);` at offset 25 of the file "f". -/
def operator_argument_call : ast_node :=
  ast_node.node AST_CALL_OPERATOR (source_token "f" TOKEN_KEYWORD_CALL 25 4 1 26 token_value.zero)
    (one_argument_call operator_argument)
    ast_node.null ast_node.null node_list.nil false

/-- The tree of the file `g :: (a: int) -> int {}; call g(1 + 2);`. -/
def operator_argument_file : ast_node :=
  many_node AST_SCOPE
    (node_list.cons one_parameter_declaration
      (node_list.cons operator_argument_call
        (node_list.cons (leaf_node AST_EOF token_zero) node_list.nil)))

/-- The tree of `(a: int) -> int {}` as type resolution leaves it. -/
def one_parameter_function_resolved : ast_node :=
  ast_node.node AST_FUNCTION_DECLARATION
    { token_zero with typing_information := TYPE_INFO_FUNCTION }
    (many_node AST_PARAMETER_LIST
      (node_list.cons
        (binary_node AST_TYPE_ASSIGNMENT
          { source_token "f" TOKEN_COLON 7 1 1 8 token_value.zero with
            typing_information := TYPE_INFO_INTEGER }
          (leaf_node AST_IDENTIFIER
            { source_token "f" TOKEN_IDENTIFIER 6 1 1 7 token_value.zero with
              typing_information := TYPE_INFO_INTEGER })
          (leaf_node AST_IDENTIFIER (source_token "f" TOKEN_IDENTIFIER 9 3 1 10 token_value.zero)))
        node_list.nil))
    (leaf_node AST_IDENTIFIER
      { source_token "f" TOKEN_IDENTIFIER 17 3 1 18 token_value.zero with
        typing_information := TYPE_INFO_INTEGER })
    (many_node AST_SCOPE node_list_create) node_list.nil false

/-- The symbol of `g` after the statement `g :: (a: int) -> int {};`. -/
def one_parameter_symbol : symbol :=
  { t := { source_token "f" TOKEN_IDENTIFIER 0 1 1 1 token_value.zero with
           typing_information := TYPE_INFO_FUNCTION },
    type := TYPE_INFO_FUNCTION, is_constant := true,
    function_decl_node := some one_parameter_function_resolved }

/-- The symbol table after the statement `g :: (a: int) -> int {};` on a fresh
table: the built-in types, the parameter `a` and the function `g`. -/
def one_parameter_table : symbol_table :=
  with_symbol
    (with_variable fresh_symbol_table
      (source_token "f" TOKEN_IDENTIFIER 6 1 1 7 token_value.zero) TYPE_INFO_INTEGER)
    one_parameter_symbol

/-- The tree of the call `g(1)` as `parser_parse_expression_beginning` makes
it at offset 32 of the file "f". -/
def nested_call_argument : ast_node :=
  binary_node AST_FUNCTION_CALL token_zero
    (leaf_node AST_IDENTIFIER (source_token "f" TOKEN_IDENTIFIER 32 1 1 33 token_value.zero))
    (many_node AST_PARAMETER_LIST
      (node_list.cons
        (leaf_node AST_INTEGER_LITERAL
          (source_token "f" TOKEN_INTEGER_LITERAL 34 1 1 35 (token_value.unsigned64 1)))
        node_list.nil))


/-! ## Expression trees -/

mutual
/-- Whether the tree is an expression, as `parser_parse_expression_beginning`
makes them: a literal, an identifier, a binary operator over two expressions,
or a call of an expression with a list of expressions. -/
def is_expression : ast_node → Bool
  | ast_node.null => false
  | ast_node.node type _ c0 c1 _ _ _ =>
    if type = AST_INTEGER_LITERAL ∨ type = AST_FLOAT_LITERAL ∨ type = AST_STRING_LITERAL ∨
        type = AST_IDENTIFIER then true
    else if is_binary_operator type then is_expression c0 && is_expression c1
    else if type = AST_FUNCTION_CALL then
      is_expression c0 &&
        (match c1 with
         | ast_node.null => false
         | ast_node.node _ _ _ _ _ arguments _ => all_expressions arguments)
    else false
/-- Whether every node of the list is an expression. -/
def all_expressions : node_list → Bool
  | node_list.nil => true
  | node_list.cons first rest => is_expression first && all_expressions rest
end

/-! ## error_report.c -/

/-- `memset(block, value, n)` on a block of bytes; none when the block is
shorter than `n`. -/
def memset (block : List Nat) (value n : Nat) : Option (List Nat) :=
  if n ≤ block.length then some (List.replicate n value ++ block.drop n) else none

/-- The loop `for (u64 i = first; i < total_length; ++i) text_buffer[i] = '~';`
of `make_error_identification_line` with `count` passes left, the next one
at index `i`; none is a write outside the block. -/
def write_tildes : Nat → Nat → List Nat → Option (List Nat)
  | 0, _, text_buffer => some text_buffer
  | count + 1, i, text_buffer =>
    if i < text_buffer.length then write_tildes count (i + 1) (text_buffer.set i 126)
    else none

/-- `make_error_identification_line`: the block it returns.  The counters are
`u64`; none is an access outside the block that `calloc` returned. -/
def make_error_identification_line (t : token) : Option (List Nat) :=
  let num_spaces := (t.location.column + (2 ^ 64 - 1)) % 2 ^ 64
  let total_length := (num_spaces + t.length) % 2 ^ 64
  let text_buffer := List.replicate ((total_length + 1) % 2 ^ 64) 0
  match memset text_buffer 32 total_length with
  | none => none
  | some text_buffer1 =>
    if num_spaces < text_buffer1.length then
      write_tildes (total_length - (num_spaces + 1)) (num_spaces + 1)
        (text_buffer1.set num_spaces 94)
    else none

/-- The string a `char*` points to: the bytes of the block before the first
NUL. -/
def c_string (block : List Nat) : List Nat :=
  block.takeWhile (fun c => c != 0)

/-! ## Chains of operands -/

/-- A stream on which `parser_parse_expression` fails and leaves the stream as
it found it, and that does not start with a `(`: what follows a complete
expression. -/
def stops_expression (parser : rouleaux_parser_t) (tail : List token) : Prop :=
  (∃ z rest, tail = z :: rest ∧ z.type ≠ TOKEN_LEFT_PAREN) ∧
  ∀ lexer fuel, lexer_yields lexer tail →
    ∃ r lexer1, parser_parse_expression (fuel + 3) { parser with lexer := lexer }
        = some (r, { parser with lexer := lexer1 }) ∧
      r.success = false ∧ lexer_yields lexer1 tail

/-- The tokens of the chain `c1 o1 c2 o2 ... last`. -/
def chain_tokens : List (token × token) → token → List token
  | [], last => [last]
  | (c, o) :: more, last => c :: o :: chain_tokens more last

/-- The tree `parser_parse_expression_beginning` builds for the chain
`c1 o1 c2 o2 ... last` of primaries and binary operators: the right operand
is parsed first, then `fix_precedence` is run once on the node of `o1`. -/
def chain_tree : List (token × token) → token → Option ast_node
  | [], last => (primary_node_type last.type).map (fun type => leaf_node type last)
  | (c, o) :: more, last =>
    match primary_node_type c.type, binary_operator_type o.type, chain_tree more last with
    | some tc, some top, some right =>
      (fix_precedence (binary_node top o (leaf_node tc c) right)).map Prod.snd
    | _, _, _ => none

/-! ## Failures that leave the token stream behind -/

/-- On every lexer that yields the tokens `ts`, the parser function `F`
returns a failure and leaves a lexer that yields the tokens `rest`. -/
def fails_leaving (F : rouleaux_parser_t → Option (parse_result × rouleaux_parser_t))
    (parser : rouleaux_parser_t) (ts rest : List token) : Prop :=
  ∀ lexer, lexer_yields lexer ts →
    ∃ r lexer1, F { parser with lexer := lexer } = some (r, { parser with lexer := lexer1 }) ∧
      r.success = false ∧ lexer_yields lexer1 rest

/-- The tree `parser_parse_file` returns for the file
`g :: () -> int { x = ; x = 1;`: the declaration of `g` with the leaf of the
return type as its right-hand side, then the assignment `x = 1`. -/
def body_failure_file : ast_node :=
  many_node AST_SCOPE
    (node_list.cons
      (binary_node AST_CONST_ASSIGNMENT (source_token "f" TOKEN_COLON 3 1 1 4 token_value.zero)
        (binary_node AST_TYPE_ASSIGNMENT (source_token "f" TOKEN_COLON 2 1 1 3 token_value.zero)
          (leaf_node AST_IDENTIFIER (source_token "f" TOKEN_IDENTIFIER 0 1 1 1 token_value.zero))
          ast_node.null)
        (leaf_node AST_IDENTIFIER (source_token "f" TOKEN_IDENTIFIER 11 3 1 12 token_value.zero)))
      (node_list.cons
        (binary_node AST_VALUE_ASSIGNMENT
          (source_token "f" TOKEN_EQUALS 25 1 1 26 token_value.zero)
          (leaf_node AST_IDENTIFIER
            (source_token "f" TOKEN_IDENTIFIER 23 1 1 24 token_value.zero))
          (leaf_node AST_INTEGER_LITERAL
            (source_token "f" TOKEN_INTEGER_LITERAL 27 1 1 28 (token_value.unsigned64 1))))
        (node_list.cons (leaf_node AST_EOF token_zero) node_list.nil)))

/-! ## Example trees of the resolver -/

/-- The tree of the declaration `g :: () -> foo {};` at offset 0 of the file
"f". -/
def unknown_return_declaration : ast_node :=
  binary_node AST_CONST_ASSIGNMENT (source_token "f" TOKEN_COLON 3 1 1 4 token_value.zero)
    (binary_node AST_TYPE_ASSIGNMENT (source_token "f" TOKEN_COLON 2 1 1 3 token_value.zero)
      (leaf_node AST_IDENTIFIER (source_token "f" TOKEN_IDENTIFIER 0 1 1 1 token_value.zero))
      ast_node.null)
    (ast_node.node AST_FUNCTION_DECLARATION token_zero
      (many_node AST_PARAMETER_LIST node_list_create)
      (leaf_node AST_IDENTIFIER (source_token "f" TOKEN_IDENTIFIER 11 3 1 12 token_value.zero))
      (many_node AST_SCOPE node_list_create) node_list.nil false)

/-! ## The calls of `peek_queue_push` made through the lexer interface -/

/-- Whether a call of `peek_queue_push` on `queue` enters the loop that shifts
the elements: the guard `if (queue->size > 0)`, after the reallocation. -/
def peek_queue_push_shifts (queue : peek_queue) : Bool :=
  let r := if queue.size + 1 ≥ queue.capacity then
      reallocate_buffer queue DEFAULT_PEEK_QUEUE_RESIZE_FACTOR
    else (true, queue)
  if r.1 = false then false else decide (r.2.size > 0)

/-- `lexer_peek_token`, returning next to its result the queue handed to each
call of `peek_queue_push` it makes (`lexer_next_token`, `peek_queue_front` and
`peek_queue_pop` make none). -/
def lexer_peek_token_traced (lexer : rouleaux_lexer) :
    Option (token × rouleaux_lexer) × List peek_queue :=
  if lexer.peek_buffer.size > 0 then
    match peek_queue_front lexer.peek_buffer with
    | none => (none, [])
    | some (_, none) => (none, [])
    | some (_, some t) => (some (t, lexer), [])
  else
    match lexer_next_token lexer with
    | none => (none, [])
    | some (t, lexer1) =>
      match peek_queue_push lexer1.peek_buffer t with
      | none => (none, [lexer1.peek_buffer])
      | some (_, queue) => (some (t, { lexer1 with peek_buffer := queue }), [lexer1.peek_buffer])

/-- A call of the lexer interface. -/
inductive lexer_call where
  | next
  | peek
  | put_back (t : token)
  deriving DecidableEq, Repr

/-- One call of the interface: the lexer it leaves (none: no result) and the
queues handed to `peek_queue_push` during the call.  `lexer_next_token` and
`lexer_put_back_token` contain no call of `peek_queue_push`. -/
def lexer_call_traced : lexer_call → rouleaux_lexer → Option rouleaux_lexer × List peek_queue
  | lexer_call.next, lexer => ((lexer_next_token lexer).map Prod.snd, [])
  | lexer_call.peek, lexer =>
    ((lexer_peek_token_traced lexer).1.map Prod.snd, (lexer_peek_token_traced lexer).2)
  | lexer_call.put_back t, lexer => ((lexer_put_back_token lexer t).map Prod.snd, [])

/-- The queues handed to `peek_queue_push` during a sequence of calls. -/
def lexer_calls_pushes : List lexer_call → rouleaux_lexer → List peek_queue
  | [], _ => []
  | c :: cs, lexer =>
    match lexer_call_traced c lexer with
    | (none, queues) => queues
    | (some lexer1, queues) => queues ++ lexer_calls_pushes cs lexer1

/-! ## One flat scope -/

/-- The table `b` holds every symbol of the table `a`, at the same index and
with the same token, type and constness. -/
def keeps_symbols (a b : symbol_table) : Prop :=
  a.size ≤ b.size ∧
  ∀ i s, i < a.size → a.buffer[i]? = some s →
    ∃ s1, b.buffer[i]? = some s1 ∧ s1.t = s.t ∧ s1.type = s.type ∧
      s1.is_constant = s.is_constant

/-- The nodes of a node list, in order. -/
def node_list_nodes : node_list → List ast_node
  | node_list.nil => []
  | node_list.cons first rest => first :: node_list_nodes rest

/-- The bytes of the file `g :: (a: int) -> int {}; h :: (a: int) -> int {};`. -/
def two_functions_source : List Nat :=
  bytes "g :: (a: int) -> int \x7b\x7d; h :: (a: int) -> int \x7b\x7d;"

/-- The tree of `(a: int) -> int {}` at offset 30 of the file "f". -/
def second_function : ast_node :=
  ast_node.node AST_FUNCTION_DECLARATION token_zero
    (many_node AST_PARAMETER_LIST
      (node_list.cons
        (binary_node AST_TYPE_ASSIGNMENT (source_token "f" TOKEN_COLON 32 1 1 33 token_value.zero)
          (leaf_node AST_IDENTIFIER (source_token "f" TOKEN_IDENTIFIER 31 1 1 32 token_value.zero))
          (leaf_node AST_IDENTIFIER (source_token "f" TOKEN_IDENTIFIER 34 3 1 35 token_value.zero)))
        node_list.nil))
    (leaf_node AST_IDENTIFIER (source_token "f" TOKEN_IDENTIFIER 42 3 1 43 token_value.zero))
    (many_node AST_SCOPE node_list_create) node_list.nil false

/-- The tree of the statement `h :: (a: int) -> int {};` at offset 25 of the
file "f". -/
def second_function_declaration : ast_node :=
  binary_node AST_CONST_ASSIGNMENT (source_token "f" TOKEN_COLON 28 1 1 29 token_value.zero)
    (binary_node AST_TYPE_ASSIGNMENT (source_token "f" TOKEN_COLON 27 1 1 28 token_value.zero)
      (leaf_node AST_IDENTIFIER (source_token "f" TOKEN_IDENTIFIER 25 1 1 26 token_value.zero))
      ast_node.null)
    second_function

/-- The tree of the file `g :: (a: int) -> int {}; h :: (a: int) -> int {};`. -/
def two_functions_file : ast_node :=
  many_node AST_SCOPE
    (node_list.cons one_parameter_declaration
      (node_list.cons second_function_declaration
        (node_list.cons (leaf_node AST_EOF token_zero) node_list.nil)))

/-! ## Subtrees enclosed in parentheses -/

/-- Whether a node of this type carries a token of the input: the nodes of a
call and of its parameter list are created without one. -/
def node_has_token (type : ast_node_type) : Bool :=
  !(decide (type = AST_FUNCTION_CALL) || decide (type = AST_PARAMETER_LIST))

mutual
/-- The tokens of a subtree in order: the left child, the node itself, the
other children. -/
def tokens_in_order : ast_node → List token
  | ast_node.null => []
  | ast_node.node type t c0 c1 c2 children _ =>
    tokens_in_order c0 ++ (if node_has_token type then [t] else []) ++ tokens_in_order c1 ++
      tokens_in_order c2 ++ tokens_in_order_list children
/-- The tokens of the nodes of a list, in order. -/
def tokens_in_order_list : node_list → List token
  | node_list.nil => []
  | node_list.cons first rest => tokens_in_order first ++ tokens_in_order_list rest
end

mutual
/-- The subtrees of a tree whose root has `enclosed_in_parens` set. -/
def flagged_subtrees : ast_node → List ast_node
  | ast_node.null => []
  | ast_node.node type t c0 c1 c2 children parens =>
    (if parens then [ast_node.node type t c0 c1 c2 children parens] else []) ++
      flagged_subtrees c0 ++ flagged_subtrees c1 ++ flagged_subtrees c2 ++
      flagged_subtrees_list children
/-- The flagged subtrees of the nodes of a list. -/
def flagged_subtrees_list : node_list → List ast_node
  | node_list.nil => []
  | node_list.cons first rest => flagged_subtrees first ++ flagged_subtrees_list rest
end

/-- The tokens that are no parenthesis and no comma. -/
def without_brackets (ts : List token) : List token :=
  ts.filter (fun t => !(decide (t.type = TOKEN_LEFT_PAREN) || decide (t.type = TOKEN_RIGHT_PAREN)
    || decide (t.type = TOKEN_COMMA)))

/-- Whether the tokens close exactly the `depth` parentheses that are open
before them, and every parenthesis they open. -/
def closes_parens : Nat → List token → Bool
  | depth, [] => depth == 0
  | depth, t :: ts =>
    if t.type = TOKEN_LEFT_PAREN then closes_parens (depth + 1) ts
    else if t.type = TOKEN_RIGHT_PAREN then
      match depth with
      | 0 => false
      | d + 1 => closes_parens d ts
    else closes_parens depth ts

/-- The tree `n` is what stands between a matched pair of parentheses of the
tokens `input`: the tokens `inner` between a `(` and the `)` that closes it
are, without their parentheses and commas, the tokens of `n` in order. -/
def between_matched_parens (input : List token) (n : ast_node) : Prop :=
  ∃ before lp inner rp after, input = before ++ lp :: (inner ++ rp :: after) ∧
    lp.type = TOKEN_LEFT_PAREN ∧ rp.type = TOKEN_RIGHT_PAREN ∧
    closes_parens 0 inner = true ∧ tokens_in_order n = without_brackets inner

/-- The tree `tree` was built from the tokens `consumed`: its tokens in order
are the tokens consumed that are no parenthesis and no comma, the parentheses
consumed are balanced, and every flagged subtree stands between a matched
pair of them. -/
def built_from (consumed : List token) (tree : ast_node) : Prop :=
  tokens_in_order tree = without_brackets consumed ∧ closes_parens 0 consumed = true ∧
  ∀ n, n ∈ flagged_subtrees tree → between_matched_parens consumed n

/-- The nodes `children` were built from the tokens `consumed` of an argument
list. -/
def list_built_from (consumed : List token) (children : node_list) : Prop :=
  tokens_in_order_list children = without_brackets consumed ∧
  closes_parens 0 consumed = true ∧
  ∀ n, n ∈ flagged_subtrees_list children → between_matched_parens consumed n

/-- A token stream that ends with the end-of-file token. -/
def ends_with_eof (s : List token) : Prop :=
  ∃ body eof, s = body ++ [eof] ∧ eof.type = TOKEN_EOF

/-- The lexer after a call of the expression parser that was given the tokens
`rest`: it yields `rest`, or a binary operator that was put back. -/
def yields_or_operator (lexer : rouleaux_lexer) (rest : List token) : Prop :=
  lexer_yields lexer rest ∨
  ∃ o more type, binary_operator_type o.type = some type ∧ lexer_yields lexer (o :: more)

/-- What `parser_parse_expression_beginning` returns on the tokens `s`: a
failure, or the tree built from a prefix of `s`. -/
def expression_outcome (s : List token) (r : parse_result) (parser1 : rouleaux_parser_t) :
    Prop :=
  (r.success = false → ∃ x, lexer_yields parser1.lexer x) ∧
  (r.success = true → ∃ consumed rest, s = consumed ++ rest ∧ ends_with_eof rest ∧
    built_from consumed r.resulting_tree ∧ yields_or_operator parser1.lexer rest)

/-- What `parser_parse_expression` returns on the tokens `s`: a failure that
leaves `s` (or an operator that was put back), or the node that
`parse_binary_operator` creates for the operator `s` starts with: no left
child yet, the right operand built from the tokens behind the operator,
`enclosed_in_parens` not set. -/
def operator_outcome (s : List token) (r : parse_result) (parser1 : rouleaux_parser_t) :
    Prop :=
  (r.success = false → yields_or_operator parser1.lexer s) ∧
  (r.success = true → ∃ type o right consumed rest,
    r.resulting_tree = ast_node.node type o ast_node.null right ast_node.null node_list.nil
      false ∧
    binary_operator_type o.type = some type ∧ s = o :: (consumed ++ rest) ∧
    ends_with_eof rest ∧ built_from consumed right ∧ yields_or_operator parser1.lexer rest)

/-- What the loop of `parser_parse_function_call_list` returns on the tokens
`s`, the nodes it was given being built from the tokens `acc`: a failure, or
the parameter list built from `acc` and the tokens up to the closing
parenthesis. -/
def call_list_outcome (acc s : List token) (r : parse_result)
    (parser1 : rouleaux_parser_t) : Prop :=
  (r.success = false → ∃ x, lexer_yields parser1.lexer x) ∧
  (r.success = true → ∃ more rp rest children, s = more ++ rp :: rest ∧
    rp.type = TOKEN_RIGHT_PAREN ∧ ends_with_eof rest ∧ lexer_yields parser1.lexer rest ∧
    r.resulting_tree = ast_node.node AST_PARAMETER_LIST token_zero ast_node.null
      ast_node.null ast_node.null children false ∧
    list_built_from (acc ++ more) children)

/-- The statement about `parser_parse_expression_beginning` with the bound
`fuel`. -/
def expression_beginning_built (fuel : Nat) : Prop :=
  ∀ parser s r parser1, ends_with_eof s → lexer_yields parser.lexer s →
    parser_parse_expression_beginning fuel parser = some (r, parser1) →
    expression_outcome s r parser1

/-- The statement about `parser_parse_expression` with the bound `fuel`. -/
def expression_built (fuel : Nat) : Prop :=
  ∀ parser s r parser1, ends_with_eof s → lexer_yields parser.lexer s →
    parser_parse_expression fuel parser = some (r, parser1) →
    operator_outcome s r parser1

/-- The statement about `parse_binary_operator` with the bound `fuel`. -/
def binary_operator_built (fuel : Nat) : Prop :=
  ∀ parser type o s r parser1, ends_with_eof (o :: s) → lexer_yields parser.lexer (o :: s) →
    binary_operator_type o.type = some type →
    parse_binary_operator fuel parser type = some (r, parser1) →
    operator_outcome (o :: s) r parser1

/-- The statement about `parser_parse_function_call_list` with the bound
`fuel`. -/
def function_call_list_built (fuel : Nat) : Prop :=
  ∀ parser s r parser1, ends_with_eof s → lexer_yields parser.lexer s →
    parser_parse_function_call_list fuel parser = some (r, parser1) →
    (r.success = false → ∃ x, lexer_yields parser1.lexer x) ∧
    (r.success = true → ∃ lp args rp rest children, s = lp :: (args ++ rp :: rest) ∧
      lp.type = TOKEN_LEFT_PAREN ∧ rp.type = TOKEN_RIGHT_PAREN ∧ ends_with_eof rest ∧
      lexer_yields parser1.lexer rest ∧
      r.resulting_tree = ast_node.node AST_PARAMETER_LIST token_zero ast_node.null
        ast_node.null ast_node.null children false ∧
      list_built_from args children)

/-- The statement about the loop of `parser_parse_function_call_list` with the
bound `fuel`; `t` is the token the loop tests, which is the next token of the
lexer when it is a `)`. -/
def function_call_list_loop_built (fuel : Nat) : Prop :=
  ∀ parser children t acc s r parser1, ends_with_eof s → lexer_yields parser.lexer s →
    (t.type = TOKEN_RIGHT_PAREN → ∃ s1, s = t :: s1) → list_built_from acc children →
    function_call_list_loop fuel parser children t = some (r, parser1) →
    call_list_outcome acc s r parser1

/-- The bytes of the file
`g :: (a: int, b: int) -> int {}; h :: (a: int) -> int {};`. -/
def two_parameters_source : List Nat :=
  bytes "g :: (a: int, b: int) -> int \x7b\x7d; h :: (a: int) -> int \x7b\x7d;"

/-- The tree of the statement `g :: (a: int, b: int) -> int {};` at offset 0
of the file "f". -/
def two_parameter_declaration : ast_node :=
  binary_node AST_CONST_ASSIGNMENT (source_token "f" TOKEN_COLON 3 1 1 4 token_value.zero)
    (binary_node AST_TYPE_ASSIGNMENT (source_token "f" TOKEN_COLON 2 1 1 3 token_value.zero)
      (leaf_node AST_IDENTIFIER (source_token "f" TOKEN_IDENTIFIER 0 1 1 1 token_value.zero))
      ast_node.null)
    (ast_node.node AST_FUNCTION_DECLARATION token_zero
      (many_node AST_PARAMETER_LIST
        (node_list.cons
          (binary_node AST_TYPE_ASSIGNMENT (source_token "f" TOKEN_COLON 7 1 1 8 token_value.zero)
            (leaf_node AST_IDENTIFIER (source_token "f" TOKEN_IDENTIFIER 6 1 1 7 token_value.zero))
            (leaf_node AST_IDENTIFIER (source_token "f" TOKEN_IDENTIFIER 9 3 1 10 token_value.zero)))
          (node_list.cons
            (binary_node AST_TYPE_ASSIGNMENT (source_token "f" TOKEN_COLON 15 1 1 16 token_value.zero)
              (leaf_node AST_IDENTIFIER (source_token "f" TOKEN_IDENTIFIER 14 1 1 15 token_value.zero))
              (leaf_node AST_IDENTIFIER (source_token "f" TOKEN_IDENTIFIER 17 3 1 18 token_value.zero)))
            node_list.nil)))
      (leaf_node AST_IDENTIFIER (source_token "f" TOKEN_IDENTIFIER 25 3 1 26 token_value.zero))
      (many_node AST_SCOPE node_list_create) node_list.nil false)

/-! ## The resolver with the reads after the reallocation -/

/-- What the two reads of `sym->type` deliver that follow `symbol_table_add` in
the case `AST_TYPE_ASSIGNMENT`, when the call has freed the block `sym` points
into: given the table before the call and the identifier that is declared, the
value of the first and of the second read, or none where they deliver no
value. -/
abbrev stale_reads := symbol_table → token → Option (type_info × type_info)

/-- The case `AST_TYPE_ASSIGNMENT` of `resolve_types`, where the two reads of
`sym->type` that follow `symbol_table_add` deliver a value also when the call
has reallocated the table and freed the block `sym` points into.  The symbol
is added with the type read before the call.  `stale table identifier` gives
what the two reads deliver in that case, the first for the identifier and the
result, the second for the node of the type assignment; none where they
deliver no value.  Without a reallocation both read the type of the symbol, as
in `resolve_type_assignment`. -/
def resolve_type_assignment_reading (stale : stale_reads) (mem : List Nat) (ast : ast_node)
    (table : symbol_table) :
    Option (typing_result × ast_node × symbol_table) :=
  match ast with
  | ast_node.null => none
  | ast_node.node type t left right c2 children parens =>
    match right with
    | ast_node.null => some (typing_result_success TYPE_INFO_UNKNOWN, ast, table)
    | ast_node.node _ type_token _ _ _ _ _ =>
      match symbol_table_find mem table type_token with
      | none => none
      | some none =>
        some (typing_result_error type_token
          ("Unknown type '" ++ printable mem type_token ++
            "' being used in variable declaration"), ast, table)
      | some (some i) =>
        match table.buffer[i]?, left with
        | some sym, ast_node.node ltype identifier_token l0 l1 l2 lchildren lparens =>
          match symbol_table_find mem table identifier_token with
          | none => none
          | some (some j) =>
            match table.buffer[j]? with
            | none => none
            | some identifier_symbol =>
              match location_printable_text identifier_symbol.t.location with
              | none => none
              | some original_declaration_location_text =>
                some (typing_result_error identifier_token
                  ("A variable with the name '" ++ printable mem identifier_token ++
                    "' already exists! It was declared here [" ++
                    original_declaration_location_text ++ "]"), ast, table)
          | some none =>
            match symbol_table_add mem table identifier_token sym.type false with
            | none => none
            | some (_, table1) =>
              match (if symbol_table_add_reallocates table then stale table identifier_token
                     else some (sym.type, sym.type)) with
              | none => none
              | some (first_read, second_read) =>
                some (typing_result_success first_read,
                  ast_node.node type { t with typing_information := second_read }
                    (ast_node.node ltype
                      { identifier_token with typing_information := first_read }
                      l0 l1 l2 lchildren lparens)
                    right c2 children parens,
                  table1)
        | _, _ => none

mutual
/-- `resolve_types`, with the reads of the case `AST_TYPE_ASSIGNMENT` through
the dangling pointer taken from `stale` (see `resolve_type_assignment_reading`);
everything else as in `resolve_types`. -/
def resolve_types_reading (stale : stale_reads) (mem : List Nat) :
    Nat → ast_node → symbol_table → Option (typing_result × ast_node × symbol_table)
  | 0, _, _ => none
  | _ + 1, ast_node.null, _ => none
  | fuel + 1, ast_node.node type t c0 c1 c2 children parens, table =>
    let ast := ast_node.node type t c0 c1 c2 children parens
    match type with
    | AST_INTEGER_LITERAL =>
      some (typing_result_success TYPE_INFO_INTEGER,
        ast_node.node type { t with typing_information := TYPE_INFO_INTEGER } c0 c1 c2 children
          parens, table)
    | AST_FLOAT_LITERAL =>
      some (typing_result_success TYPE_INFO_FLOAT,
        ast_node.node type { t with typing_information := TYPE_INFO_FLOAT } c0 c1 c2 children
          parens, table)
    | AST_STRING_LITERAL =>
      some (typing_result_success TYPE_INFO_STRING,
        ast_node.node type { t with typing_information := TYPE_INFO_STRING } c0 c1 c2 children
          parens, table)
    | AST_BINARY_OPERATOR_PLUS | AST_BINARY_OPERATOR_MINUS | AST_BINARY_OPERATOR_MULTIPLY
    | AST_BINARY_OPERATOR_DIVIDE | AST_BINARY_OPERATOR_MODULUS
    | AST_BINARY_OPERATOR_GREATER_THAN | AST_BINARY_OPERATOR_LESS_THAN =>
      match resolve_types_reading stale mem fuel c0 table with
      | none => none
      | some (left_result, left, table1) =>
        if left_result.success = false then
          some (left_result, ast_node.node type t left c1 c2 children parens, table1)
        else
          match resolve_types_reading stale mem fuel c1 table1 with
          | none => none
          | some (right_result, right, table2) =>
            let ast1 := ast_node.node type t left right c2 children parens
            if right_result.success = false then some (right_result, ast1, table2)
            else if left_result.type = right_result.type then
              some (typing_result_success left_result.type, ast1, table2)
            else
              some (typing_result_error t "Left and right operand types do not match!",
                ast1, table2)
    | AST_TYPE_ASSIGNMENT => resolve_type_assignment_reading stale mem ast table
    | AST_VALUE_ASSIGNMENT =>
      match resolve_types_reading stale mem fuel c1 table with
      | none => none
      | some (right_result, right, table1) =>
        if right_result.success = false then
          some (right_result, ast_node.node type t c0 right c2 children parens, table1)
        else
          match resolve_types_reading stale mem fuel c0 table1 with
          | none => none
          | some (left_result, left, table2) =>
            let ast1 := ast_node.node type t left right c2 children parens
            if left_result.success = false then some (left_result, ast1, table2)
            else resolve_value_assignment_end mem ast1 table2 left_result right_result
    | AST_CONST_ASSIGNMENT =>
      match resolve_types_reading stale mem fuel c1 table with
      | none => none
      | some (right_result, right, table1) =>
        if right_result.success = false then
          some (right_result, ast_node.node type t c0 right c2 children parens, table1)
        else
          match resolve_types_reading stale mem fuel c0 table1 with
          | none => none
          | some (left_result, left, table2) =>
            let ast1 := ast_node.node type t left right c2 children parens
            if left_result.success = false then some (left_result, ast1, table2)
            else resolve_const_assignment_end mem ast1 table2 left_result right_result
    | AST_IDENTIFIER => resolve_identifier mem ast table
    | AST_FUNCTION_DECLARATION =>
      match resolve_types_reading stale mem fuel c0 table with
      | none => none
      | some (params_result, left, table1) =>
        if params_result.success = false then
          some (params_result, ast_node.node type t left c1 c2 children parens, table1)
        else
          match resolve_types_reading stale mem fuel c1 table1 with
          | none => none
          | some (return_type_result, center, table2) =>
            if return_type_result.success = false then
              -- return params_result;
              some (params_result, ast_node.node type t left center c2 children parens, table2)
            else
              match resolve_types_reading stale mem fuel c2 table2 with
              | none => none
              | some (block_result, right, table3) =>
                if block_result.success = false then
                  some (block_result, ast_node.node type t left center right children parens,
                    table3)
                else
                  some (typing_result_success TYPE_INFO_FUNCTION,
                    ast_node.node type { t with typing_information := TYPE_INFO_FUNCTION }
                      left center right children parens, table3)
    | AST_FUNCTION_CALL =>
      match resolve_types_reading stale mem fuel c0 table with
      | none => none
      | some (function_name_result, left, table1) =>
        let ast1 := ast_node.node type t left c1 c2 children parens
        if function_name_result.success = false then some (function_name_result, ast1, table1)
        else
          match node_token left with
          | none => none
          | some name =>
            match symbol_table_find mem table1 name with
            | none => none
            | some none => none
            | some (some i) =>
              match table1.buffer[i]? with
              | none => none
              | some function_symbol =>
                if function_symbol.type ≠ TYPE_INFO_FUNCTION then
                  some (typing_result_error name
                    "Cannot call something that is not a function", ast1, table1)
                else
                  match function_symbol.function_decl_node with
                  | none => none
                  | some ast_node.null =>
                    some (typing_result_error name
                      "No parameter list found for this symbol! *Compiler Bug*", ast1, table1)
                  | some (ast_node.node _ _ declared_list declared_return _ _ _) =>
                    match children_of declared_list, children_of c1 with
                    | some declared, some passed =>
                      let param_length_difference :=
                        to_i32 (Int.ofNat (number_of_nodes declared) -
                          Int.ofNat (number_of_nodes passed))
                      if param_length_difference ≠ 0 then
                        some (typing_result_error name
                          ((if param_length_difference > 0 then "Too few" else "Too many") ++
                            " parameters for function call, got " ++
                            toString (number_of_nodes passed) ++ ", but expected " ++
                            toString (number_of_nodes declared)), ast1, table1)
                      else
                        match resolve_call_parameters_reading stale mem fuel declared passed
                            table1 with
                        | none => none
                        | some (early, passed1, table2) =>
                          match set_children c1 passed1 with
                          | none => none
                          | some right =>
                            let ast2 := ast_node.node type t left right c2 children parens
                            match early with
                            | some result => some (result, ast2, table2)
                            | none =>
                              match node_token declared_return with
                              | none => none
                              | some return_token =>
                                some (typing_result_success return_token.typing_information,
                                  ast2, table2)
                    | _, _ => none
    | AST_PARAMETER_LIST | AST_SCOPE =>
      match resolve_types_children_reading stale mem fuel children table with
      | none => none
      | some (result, children1, table1) =>
        some (result, ast_node.node type t c0 c1 c2 children1 parens, table1)
    | AST_CALL_OPERATOR =>
      match resolve_types_reading stale mem fuel c0 table with
      | none => none
      | some (function_call_result, child, table1) =>
        if function_call_result.success = false then
          some (function_call_result, ast_node.node type t child c1 c2 children parens, table1)
        else
          some (function_call_result,
            ast_node.node type { t with typing_information := function_call_result.type }
              child c1 c2 children parens, table1)
    | AST_COMMENT | AST_STATEMENT_END | AST_EOF | AST_INVALID | AST_MAX_TYPES =>
      some (typing_result_success TYPE_INFO_UNKNOWN, ast, table)
    | AST_IF_STATEMENT =>
      match resolve_types_reading stale mem fuel c0 table with
      | none => none
      | some (expr_result, left, table1) =>
        if expr_result.success = false then
          some (expr_result, ast_node.node type t left c1 c2 children parens, table1)
        else
          match resolve_types_reading stale mem fuel c1 table1 with
          | none => none
          | some (block_result, center, table2) =>
            if block_result.success = false then
              some (block_result, ast_node.node type t left center c2 children parens, table2)
            else
              match c2 with
              | ast_node.null =>
                some (typing_result_success TYPE_INFO_UNKNOWN,
                  ast_node.node type t left center c2 children parens, table2)
              | ast_node.node _ _ _ _ _ _ _ =>
                match resolve_types_reading stale mem fuel c2 table2 with
                | none => none
                | some (else_result, right, table3) =>
                  let ast3 := ast_node.node type t left center right children parens
                  if else_result.success = false then some (else_result, ast3, table3)
                  else some (typing_result_success TYPE_INFO_UNKNOWN, ast3, table3)
    | AST_WHILE_STATEMENT =>
      match resolve_types_reading stale mem fuel c0 table with
      | none => none
      | some (expr_result, left, table1) =>
        if expr_result.success = false then
          some (expr_result, ast_node.node type t left c1 c2 children parens, table1)
        else
          match resolve_types_reading stale mem fuel c1 table1 with
          | none => none
          | some (block_result, right, table2) =>
            let ast2 := ast_node.node type t left right c2 children parens
            if block_result.success = false then some (block_result, ast2, table2)
            else some (typing_result_success TYPE_INFO_UNKNOWN, ast2, table2)
/-- The loop of the cases `AST_PARAMETER_LIST` and `AST_SCOPE`, as
`resolve_types_children`. -/
def resolve_types_children_reading (stale : stale_reads) (mem : List Nat) :
    Nat → node_list → symbol_table → Option (typing_result × node_list × symbol_table)
  | 0, _, _ => none
  | _ + 1, node_list.nil, table =>
    some (typing_result_success TYPE_INFO_UNKNOWN, node_list.nil, table)
  | fuel + 1, node_list.cons first rest, table =>
    match resolve_types_reading stale mem fuel first table with
    | none => none
    | some (result, first1, table1) =>
      if result.success = false then some (result, node_list.cons first1 rest, table1)
      else
        match resolve_types_children_reading stale mem fuel rest table1 with
        | none => none
        | some (result1, rest1, table2) => some (result1, node_list.cons first1 rest1, table2)
/-- The loop over the parameters of the case `AST_FUNCTION_CALL`, as
`resolve_call_parameters`. -/
def resolve_call_parameters_reading (stale : stale_reads) (mem : List Nat) :
    Nat → node_list → node_list → symbol_table →
      Option (Option typing_result × node_list × symbol_table)
  | 0, _, _, _ => none
  | _ + 1, node_list.nil, passed, table => some (none, passed, table)
  | _ + 1, node_list.cons _ _, node_list.nil, _ => none
  | fuel + 1, node_list.cons function_decl_param declared,
      node_list.cons function_call_param passed, table =>
    match resolve_types_reading stale mem fuel function_call_param table with
    | none => none
    | some (function_call_param_result, param1, table1) =>
      if function_call_param_result.success = false then
        some (some function_call_param_result, node_list.cons param1 passed, table1)
      else
        match node_token function_decl_param, node_token param1 with
        | some declared_token, some passed_token =>
          if declared_token.typing_information ≠ passed_token.typing_information then
            some (some (typing_result_error passed_token
              "Parameter's type does not match that of function declaration"),
              node_list.cons param1 passed, table1)
          else
            match resolve_call_parameters_reading stale mem fuel declared passed table1 with
            | none => none
            | some (early, passed1, table2) => some (early, node_list.cons param1 passed1, table2)
        | _, _ => none
end


/-- The tree of `(a: int, b: int) -> int {}` at offset 5 of the file "f" as
type resolution leaves it, when the reads after the reallocation that the
declaration of `b` causes deliver `first_read` and `second_read`. -/
def two_parameter_function_resolved (first_read second_read : type_info) : ast_node :=
  ast_node.node AST_FUNCTION_DECLARATION
    { token_zero with typing_information := TYPE_INFO_FUNCTION }
    (many_node AST_PARAMETER_LIST
      (node_list.cons
        (binary_node AST_TYPE_ASSIGNMENT
          { source_token "f" TOKEN_COLON 7 1 1 8 token_value.zero with
            typing_information := TYPE_INFO_INTEGER }
          (leaf_node AST_IDENTIFIER
            { source_token "f" TOKEN_IDENTIFIER 6 1 1 7 token_value.zero with
              typing_information := TYPE_INFO_INTEGER })
          (leaf_node AST_IDENTIFIER (source_token "f" TOKEN_IDENTIFIER 9 3 1 10 token_value.zero)))
        (node_list.cons
          (binary_node AST_TYPE_ASSIGNMENT
            { source_token "f" TOKEN_COLON 15 1 1 16 token_value.zero with
              typing_information := second_read }
            (leaf_node AST_IDENTIFIER
              { source_token "f" TOKEN_IDENTIFIER 14 1 1 15 token_value.zero with
                typing_information := first_read })
            (leaf_node AST_IDENTIFIER
              (source_token "f" TOKEN_IDENTIFIER 17 3 1 18 token_value.zero)))
          node_list.nil)))
    (leaf_node AST_IDENTIFIER
      { source_token "f" TOKEN_IDENTIFIER 25 3 1 26 token_value.zero with
        typing_information := TYPE_INFO_INTEGER })
    (many_node AST_SCOPE node_list_create) node_list.nil false

/-- The symbol table after the statement `g :: (a: int, b: int) -> int {};` on
a fresh table: the built-in types, the parameters `a` and `b`, both of the
type INTEGER, and the function `g`. -/
def two_parameter_table (first_read second_read : type_info) : symbol_table :=
  with_symbol
    (with_symbol
      (with_variable fresh_symbol_table
        (source_token "f" TOKEN_IDENTIFIER 6 1 1 7 token_value.zero) TYPE_INFO_INTEGER)
      { t := source_token "f" TOKEN_IDENTIFIER 14 1 1 15 token_value.zero,
        type := TYPE_INFO_INTEGER, is_constant := false, function_decl_node := none })
    { t := { source_token "f" TOKEN_IDENTIFIER 0 1 1 1 token_value.zero with
             typing_information := TYPE_INFO_FUNCTION },
      type := TYPE_INFO_FUNCTION, is_constant := true,
      function_decl_node := some (two_parameter_function_resolved first_read second_read) }

/-- The tree of the statement `h :: (a: int) -> int {};` at offset 33 of the
file "f". -/
def second_declaration_after_two_parameters : ast_node :=
  binary_node AST_CONST_ASSIGNMENT (source_token "f" TOKEN_COLON 36 1 1 37 token_value.zero)
    (binary_node AST_TYPE_ASSIGNMENT (source_token "f" TOKEN_COLON 35 1 1 36 token_value.zero)
      (leaf_node AST_IDENTIFIER (source_token "f" TOKEN_IDENTIFIER 33 1 1 34 token_value.zero))
      ast_node.null)
    (ast_node.node AST_FUNCTION_DECLARATION token_zero
      (many_node AST_PARAMETER_LIST
        (node_list.cons
          (binary_node AST_TYPE_ASSIGNMENT
            (source_token "f" TOKEN_COLON 40 1 1 41 token_value.zero)
            (leaf_node AST_IDENTIFIER
              (source_token "f" TOKEN_IDENTIFIER 39 1 1 40 token_value.zero))
            (leaf_node AST_IDENTIFIER
              (source_token "f" TOKEN_IDENTIFIER 42 3 1 43 token_value.zero)))
          node_list.nil))
      (leaf_node AST_IDENTIFIER (source_token "f" TOKEN_IDENTIFIER 50 3 1 51 token_value.zero))
      (many_node AST_SCOPE node_list_create) node_list.nil false)

/-- The tree of the file
`g :: (a: int, b: int) -> int {}; h :: (a: int) -> int {};`. -/
def two_parameters_file : ast_node :=
  many_node AST_SCOPE
    (node_list.cons two_parameter_declaration
      (node_list.cons second_declaration_after_two_parameters
        (node_list.cons (leaf_node AST_EOF token_zero) node_list.nil)))

/-- The node list that holds the nodes of `a` followed by those of `b`. -/
def node_list_append : node_list → node_list → node_list
  | node_list.nil, b => b
  | node_list.cons first rest, b => node_list.cons first (node_list_append rest b)
/-- The bytes of the file `g :: (a: int) -> int {}; h :: (b: int, a: int) -> int {};`. -/
def later_parameter_source : List Nat :=
  bytes "g :: (a: int) -> int \x7b\x7d; h :: (b: int, a: int) -> int \x7b\x7d;"

/-- The tree of the statement `h :: (b: int, a: int) -> int {};` at offset 25
of the file "f". -/
def later_parameter_declaration : ast_node :=
  binary_node AST_CONST_ASSIGNMENT (source_token "f" TOKEN_COLON 28 1 1 29 token_value.zero)
    (binary_node AST_TYPE_ASSIGNMENT (source_token "f" TOKEN_COLON 27 1 1 28 token_value.zero)
      (leaf_node AST_IDENTIFIER (source_token "f" TOKEN_IDENTIFIER 25 1 1 26 token_value.zero))
      ast_node.null)
    (ast_node.node AST_FUNCTION_DECLARATION token_zero
      (many_node AST_PARAMETER_LIST
        (node_list.cons
          (binary_node AST_TYPE_ASSIGNMENT
            (source_token "f" TOKEN_COLON 32 1 1 33 token_value.zero)
            (leaf_node AST_IDENTIFIER
              (source_token "f" TOKEN_IDENTIFIER 31 1 1 32 token_value.zero))
            (leaf_node AST_IDENTIFIER
              (source_token "f" TOKEN_IDENTIFIER 34 3 1 35 token_value.zero)))
          (node_list.cons
            (binary_node AST_TYPE_ASSIGNMENT
              (source_token "f" TOKEN_COLON 40 1 1 41 token_value.zero)
              (leaf_node AST_IDENTIFIER
                (source_token "f" TOKEN_IDENTIFIER 39 1 1 40 token_value.zero))
              (leaf_node AST_IDENTIFIER
                (source_token "f" TOKEN_IDENTIFIER 42 3 1 43 token_value.zero)))
            node_list.nil)))
      (leaf_node AST_IDENTIFIER (source_token "f" TOKEN_IDENTIFIER 50 3 1 51 token_value.zero))
      (many_node AST_SCOPE node_list_create) node_list.nil false)

/-! # Theorems -/

theorem peek_queue_create_wf (capacity : Nat) (h : 0 < capacity) :
    peek_queue_wf (peek_queue_create capacity) := by
  simp [peek_queue_wf, peek_queue_create, h]

theorem peek_queue_contents_length (queue : peek_queue) (h : peek_queue_wf queue) :
    (peek_queue_contents queue).length = queue.size := by
  obtain ⟨h1, h2⟩ := h
  simp [peek_queue_contents]; omega

theorem take_set_same {α : Type} (l : List α) (n : Nat) (a : α) :
    (l.set n a).take n = l.take n := by
  induction l generalizing n with
  | nil => simp
  | cons x xs ih =>
    cases n with
    | zero => simp
    | succ k => simp [ih]

theorem take_succ_set {α : Type} (l : List α) (n : Nat) (a : α) (h : n < l.length) :
    (l.set n a).take (n + 1) = l.take n ++ [a] := by
  rw [List.take_succ, take_set_same, List.getElem?_set_self h]
  rfl

theorem reallocate_buffer_eq (queue : peek_queue) :
    reallocate_buffer queue DEFAULT_PEEK_QUEUE_RESIZE_FACTOR = (true,
      { buffer := queue.buffer.take queue.capacity ++
          List.replicate (queue.capacity * 2 - queue.capacity) token_zero,
        size := queue.size, capacity := queue.capacity * 2 }) := by
  simp only [reallocate_buffer]
  rw [if_neg (by show ¬ (queue.capacity * 2 < queue.capacity); omega)]

theorem reallocate_buffer_length (queue : peek_queue) (h1 : queue.buffer.length = queue.capacity) :
    (queue.buffer.take queue.capacity ++
        List.replicate (queue.capacity * 2 - queue.capacity) token_zero).length
      = queue.capacity * 2 := by
  rw [List.length_append, List.length_take, List.length_replicate, h1]
  omega

theorem peek_queue_push_front_spec (queue : peek_queue) (t : token) (h : peek_queue_wf queue) :
    ∃ queue1, peek_queue_push_front queue t = some (true, queue1) ∧ peek_queue_wf queue1 ∧
      peek_queue_contents queue1 = peek_queue_contents queue ++ [t] := by
  obtain ⟨h1, h2⟩ := h
  have hlen := reallocate_buffer_length queue h1
  by_cases hc : queue.size + 1 ≥ queue.capacity
  · have hpf : peek_queue_push_front queue t = some (true,
        { buffer := (queue.buffer.take queue.capacity ++
            List.replicate (queue.capacity * 2 - queue.capacity) token_zero).set queue.size t,
          size := queue.size + 1, capacity := queue.capacity * 2 }) := by
      simp only [peek_queue_push_front, if_pos hc, reallocate_buffer_eq]
      simp only [Bool.true_eq_false, if_false]
      rw [if_pos ⟨by omega, by rw [hlen]; omega⟩]
    refine ⟨_, hpf, ⟨?_, ?_⟩, ?_⟩
    · show List.length (List.set _ _ _) = _
      rw [List.length_set, hlen]
    · show queue.size + 1 < queue.capacity * 2
      omega
    · simp only [peek_queue_contents]
      rw [take_succ_set _ _ _ (by rw [hlen]; omega)]
      rw [List.take_append_of_le_length (by rw [List.length_take, h1]; omega)]
      rw [List.take_take]
      congr 2
      omega
  · have hpf : peek_queue_push_front queue t = some (true,
        { queue with buffer := queue.buffer.set queue.size t, size := queue.size + 1 }) := by
      simp only [peek_queue_push_front, if_neg hc]
      simp only [Bool.true_eq_false, if_false]
      rw [if_pos ⟨by omega, by omega⟩]
    refine ⟨_, hpf, ⟨?_, ?_⟩, ?_⟩
    · show List.length (List.set _ _ _) = _
      rw [List.length_set, h1]
    · show queue.size + 1 < queue.capacity
      omega
    · simp only [peek_queue_contents]
      rw [take_succ_set _ _ _ (by omega)]

theorem peek_queue_front_spec (queue : peek_queue) (c : List token) (t : token)
    (h : peek_queue_wf queue) (hc : peek_queue_contents queue = c ++ [t]) :
    peek_queue_front queue = some (true, some t) ∧ 0 < queue.size := by
  have hl := peek_queue_contents_length queue h
  rw [hc] at hl
  simp at hl
  obtain ⟨h1, h2⟩ := h
  have hpos : 0 < queue.size := by omega
  have hget : queue.buffer[queue.size - 1]? = some t := by
    have : (peek_queue_contents queue)[queue.size - 1]? = some t := by
      rw [hc, ← hl]; simp
    simp only [peek_queue_contents] at this
    rw [List.getElem?_take_of_lt (by omega)] at this
    exact this
  refine ⟨?_, hpos⟩
  simp only [peek_queue_front]
  rw [if_neg (by omega), hget]

theorem peek_queue_pop_spec (queue : peek_queue) (c : List token) (t : token)
    (h : peek_queue_wf queue) (hc : peek_queue_contents queue = c ++ [t]) :
    ∃ queue1, peek_queue_pop queue = some (true, some t, queue1) ∧ peek_queue_wf queue1 ∧
      peek_queue_contents queue1 = c ∧ queue1.buffer = queue.buffer ∧
      queue1.capacity = queue.capacity := by
  obtain ⟨hf, hpos⟩ := peek_queue_front_spec queue c t h hc
  have hl := peek_queue_contents_length queue h
  rw [hc] at hl
  simp at hl
  obtain ⟨h1, h2⟩ := h
  refine ⟨{ queue with size := queue.size - 1 }, ?_, ?_, ?_, rfl, rfl⟩
  · simp [peek_queue_pop, hf]
  · exact ⟨h1, by simp; omega⟩
  · have : peek_queue_contents { queue with size := queue.size - 1 }
        = (peek_queue_contents queue).take (queue.size - 1) := by
      simp only [peek_queue_contents]
      rw [List.take_take]
      congr 1
      omega
    rw [this, hc, ← hl]
    simp

theorem peek_queue_push_spec (queue : peek_queue) (t : token) (h : peek_queue_wf queue)
    (h0 : queue.size = 0) :
    ∃ queue1, peek_queue_push queue t = some (true, queue1) ∧ peek_queue_wf queue1 ∧
      peek_queue_contents queue1 = [t] := by
  obtain ⟨h1, h2⟩ := h
  have hlen := reallocate_buffer_length queue h1
  by_cases hc : queue.size + 1 ≥ queue.capacity
  · have hpf : peek_queue_push queue t = some (true,
        { buffer := (queue.buffer.take queue.capacity ++
            List.replicate (queue.capacity * 2 - queue.capacity) token_zero).set 0 t,
          size := queue.size + 1, capacity := queue.capacity * 2 }) := by
      simp only [peek_queue_push, if_pos hc, reallocate_buffer_eq]
      simp only [Bool.true_eq_false, if_false, h0, gt_iff_lt, lt_self_iff_false]
      rw [if_pos ⟨by omega, by rw [hlen]; omega⟩]
    refine ⟨_, hpf, ⟨?_, ?_⟩, ?_⟩
    · show List.length (List.set _ _ _) = _
      rw [List.length_set, hlen]
    · show queue.size + 1 < queue.capacity * 2
      omega
    · simp only [peek_queue_contents, h0]
      exact take_succ_set _ 0 t (by rw [hlen]; omega)
  · have hpf : peek_queue_push queue t = some (true,
        { queue with buffer := queue.buffer.set 0 t, size := queue.size + 1 }) := by
      simp only [peek_queue_push, if_neg hc]
      simp only [Bool.true_eq_false, if_false, h0, gt_iff_lt, lt_self_iff_false]
      rw [if_pos ⟨by omega, by omega⟩]
    refine ⟨_, hpf, ⟨?_, ?_⟩, ?_⟩
    · show List.length (List.set _ _ _) = _
      rw [List.length_set, h1]
    · show queue.size + 1 < queue.capacity
      omega
    · simp only [peek_queue_contents, h0]
      exact take_succ_set _ 0 t (by omega)

/-! ## The scanner does not look at the peek queue -/

theorem skip_char_loop_frame (queue : peek_queue) :
    ∀ (n : Nat) (lexer : rouleaux_lexer),
      skip_char_loop n (with_queue lexer queue)
        = (skip_char_loop n lexer).map (fun r => with_queue r queue)
  | 0, lexer => rfl
  | n + 1, lexer => by
    simp only [skip_char_loop]
    show (match peek_byte lexer 0 with
      | none => none
      | some c => _) = _
    cases peek_byte lexer 0 with
    | none => rfl
    | some c =>
      by_cases hc : c = 10
      · simp only [hc, if_true]
        exact skip_char_loop_frame queue n
          { lexer with current_row := lexer.current_row + 1, current_column := 1,
                       head := lexer.head + 1 }
      · simp only [hc, if_false]
        exact skip_char_loop_frame queue n
          { lexer with current_column := lexer.current_column + 1, head := lexer.head + 1 }

theorem skip_char_frame (queue : peek_queue) (n : Nat) (lexer : rouleaux_lexer) :
    skip_char (with_queue lexer queue) n = (skip_char lexer n).map (fun r => with_queue r queue) := by
  simp only [skip_char]
  show (if head_is_at_eof lexer then none else _) = _
  by_cases h : head_is_at_eof lexer
  · simp [h]
  · simp only [h, Bool.false_eq_true, if_false]
    exact skip_char_loop_frame queue n lexer

theorem scan_while_frame (cond : List Nat → Nat → Option Bool) (queue : peek_queue) :
    ∀ (fuel : Nat) (lexer : rouleaux_lexer) (length : Nat),
      scan_while cond fuel (with_queue lexer queue) length
        = (scan_while cond fuel lexer length).map (fun r => (with_queue r.1 queue, r.2))
  | 0, _, _ => rfl
  | fuel + 1, lexer, length => by
    simp only [scan_while]
    show (match cond lexer.file_content lexer.head with
      | none => none
      | some false => _
      | some true => _) = _
    cases hcond : cond lexer.file_content lexer.head with
    | none => rfl
    | some b =>
      cases b with
      | false => rfl
      | true =>
        simp only []
        rw [skip_char_frame]
        cases skip_char lexer 1 with
        | none => rfl
        | some lexer1 =>
          simp only [Option.map_some']
          exact scan_while_frame cond queue fuel lexer1 (length + 1)

theorem with_queue_file_content (lexer : rouleaux_lexer) (queue : peek_queue) :
    (with_queue lexer queue).file_content = lexer.file_content := rfl

theorem with_queue_head (lexer : rouleaux_lexer) (queue : peek_queue) :
    (with_queue lexer queue).head = lexer.head := rfl

theorem with_queue_peek_byte (lexer : rouleaux_lexer) (queue : peek_queue) (k : Nat) :
    peek_byte (with_queue lexer queue) k = peek_byte lexer k := rfl

theorem with_queue_eof (lexer : rouleaux_lexer) (queue : peek_queue) :
    head_is_at_eof (with_queue lexer queue) = head_is_at_eof lexer := rfl

theorem with_queue_location (lexer : rouleaux_lexer) (queue : peek_queue) :
    current_location (with_queue lexer queue) = current_location lexer := rfl

theorem trim_left_frame (queue : peek_queue) (lexer : rouleaux_lexer) :
    trim_left (with_queue lexer queue) = (trim_left lexer).map (fun r => with_queue r queue) := by
  simp only [trim_left, with_queue_file_content]
  rw [scan_while_frame]
  cases scan_while cond_whitespace (lexer.file_content.length + 1) lexer 0 with
  | none => rfl
  | some r => rfl

theorem lex_identifier_frame (queue : peek_queue) (lexer : rouleaux_lexer) (t : token) :
    lex_identifier (with_queue lexer queue) t
      = (lex_identifier lexer t).map (fun r => (r.1, with_queue r.2 queue)) := by
  simp only [lex_identifier]
  rw [skip_char_frame]
  cases skip_char lexer 1 with
  | none => rfl
  | some lexer1 =>
    simp only [Option.map_some', with_queue_file_content]
    rw [scan_while_frame]
    cases scan_while cond_identifier (lexer1.file_content.length + 1) lexer1 (t.length + 1) with
    | none => rfl
    | some r => rfl

theorem lex_number_frame (queue : peek_queue) (lexer : rouleaux_lexer) (t : token) :
    lex_number (with_queue lexer queue) t
      = (lex_number lexer t).map (fun r => (r.1, with_queue r.2 queue)) := by
  simp only [lex_number]
  rw [skip_char_frame]
  cases skip_char lexer 1 with
  | none => rfl
  | some lexer1 =>
    simp only [Option.map_some', with_queue_file_content]
    rw [scan_while_frame]
    cases scan_while cond_numeric (lexer1.file_content.length + 1) lexer1 (t.length + 1) with
    | none => rfl
    | some r =>
      obtain ⟨lexer2, length⟩ := r
      simp only [Option.map_some', with_queue_file_content, with_queue_peek_byte]
      cases peek_byte lexer2 0 with
      | none => rfl
      | some c =>
        by_cases hc : c = 46
        · simp only [hc, if_true]
          cases peek_byte lexer2 1 with
          | none => rfl
          | some d =>
            by_cases hd : is_numeric_character d = true
            · simp only [hd, if_true]
              rw [skip_char_frame]
              cases skip_char lexer2 1 with
              | none => rfl
              | some lexer3 =>
                simp only [Option.map_some', with_queue_file_content]
                rw [scan_while_frame]
                cases scan_while cond_numeric (lexer3.file_content.length + 1) lexer3
                    (length + 1) with
                | none => rfl
                | some r4 => rfl
            · simp only [hd, Bool.false_eq_true, if_false, Option.map_some']
        · simp only [hc, if_false, Option.map_some']

theorem lex_string_frame (queue : peek_queue) (lexer : rouleaux_lexer) (t : token) :
    lex_string (with_queue lexer queue) t
      = (lex_string lexer t).map (fun r => (r.1, with_queue r.2 queue)) := by
  simp only [lex_string]
  rw [skip_char_frame]
  cases skip_char lexer 1 with
  | none => rfl
  | some lexer1 =>
    simp only [Option.map_some', with_queue_file_content]
    rw [scan_while_frame]
    cases scan_while cond_string (lexer1.file_content.length + 1) lexer1 (t.length + 1) with
    | none => rfl
    | some r =>
      obtain ⟨lexer2, length⟩ := r
      simp only [Option.map_some', with_queue_eof]
      by_cases he : head_is_at_eof lexer2 = true
      · simp only [he, if_true, Option.map_some']
        rfl
      · simp only [he, Bool.false_eq_true, if_false]
        rw [skip_char_frame]
        cases skip_char lexer2 1 with
        | none => rfl
        | some lexer3 => rfl

theorem lex_line_comment_frame (queue : peek_queue) (lexer : rouleaux_lexer) (t : token) :
    lex_line_comment (with_queue lexer queue) t
      = (lex_line_comment lexer t).map (fun r => (r.1, with_queue r.2 queue)) := by
  simp only [lex_line_comment]
  rw [skip_char_frame]
  cases skip_char lexer 2 with
  | none => rfl
  | some lexer1 =>
    simp only [Option.map_some', with_queue_file_content]
    rw [scan_while_frame]
    cases scan_while cond_line_comment (lexer1.file_content.length + 1) lexer1 (t.length + 2) with
    | none => rfl
    | some r => rfl

theorem lex_block_comment_frame (queue : peek_queue) (lexer : rouleaux_lexer) (t : token) :
    lex_block_comment (with_queue lexer queue) t
      = (lex_block_comment lexer t).map (fun r => (r.1, with_queue r.2 queue)) := by
  simp only [lex_block_comment]
  rw [skip_char_frame]
  cases skip_char lexer 2 with
  | none => rfl
  | some lexer1 =>
    simp only [Option.map_some', with_queue_file_content]
    rw [scan_while_frame]
    cases scan_while cond_block_comment (lexer1.file_content.length + 1) lexer1 (t.length + 2) with
    | none => rfl
    | some r =>
      obtain ⟨lexer2, length⟩ := r
      simp only [Option.map_some', with_queue_eof]
      by_cases he : head_is_at_eof lexer2 = true
      · simp only [he, if_true, Option.map_some']
        rfl
      · simp only [he, Bool.false_eq_true, if_false]
        rw [skip_char_frame]
        cases skip_char lexer2 2 with
        | none => rfl
        | some lexer3 => rfl

theorem lex_punctuation_frame (queue : peek_queue) (lexer : rouleaux_lexer) (t : token) (c : Nat) :
    lex_punctuation (with_queue lexer queue) t c
      = (lex_punctuation lexer t c).map (fun r => (r.1, with_queue r.2 queue)) := by
  simp only [lex_punctuation]
  by_cases hs : is_single_char_token c = true
  · simp only [hs, if_true]
    rw [skip_char_frame]
    cases skip_char lexer 1 with
    | none => rfl
    | some lexer1 =>
      simp only [Option.map_some']
      by_cases hm : c = TOKEN_MINUS
      · simp only [hm, if_true, with_queue_peek_byte]
        cases peek_byte lexer1 0 with
        | none => rfl
        | some d =>
          by_cases hd : d = 62
          · simp only [hd, if_true]
            rw [skip_char_frame]
            cases skip_char lexer1 1 with
            | none => rfl
            | some lexer2 => rfl
          · simp only [hd, if_false, Option.map_some']
      · simp only [hm, if_false, Option.map_some']
  · simp only [hs, Bool.false_eq_true, if_false]
    by_cases hm : t.type = TOKEN_MINUS
    · simp only [hm, if_true, with_queue_peek_byte]
      cases peek_byte lexer 0 with
      | none => rfl
      | some d =>
        by_cases hd : d = 62
        · simp only [hd, if_true]
          rw [skip_char_frame]
          cases skip_char lexer 1 with
          | none => rfl
          | some lexer2 => rfl
        · simp only [hd, if_false, Option.map_some']
    · simp only [hm, if_false, Option.map_some']

theorem lexer_next_token_internal_frame (queue : peek_queue) (lexer : rouleaux_lexer) :
    lexer_next_token_internal (with_queue lexer queue)
      = (lexer_next_token_internal lexer).map (fun r => (r.1, with_queue r.2 queue)) := by
  simp only [lexer_next_token_internal]
  rw [trim_left_frame]
  cases trim_left lexer with
  | none => rfl
  | some lexer1 =>
    simp only [Option.map_some', with_queue_eof, with_queue_peek_byte, with_queue_location,
      with_queue_head]
    by_cases he : head_is_at_eof lexer1 = true
    · simp only [he, if_true, Option.map_some']
    · simp only [he, Bool.false_eq_true, if_false]
      cases peek_byte lexer1 0 with
      | none => rfl
      | some c =>
        simp only []
        by_cases h1 : is_identifier_character c false = true
        · simp only [h1, if_true]
          exact lex_identifier_frame _ _ _
        · simp only [h1, Bool.false_eq_true, if_false]
          by_cases h2 : is_numeric_character c = true
          · simp only [h2, if_true]
            exact lex_number_frame _ _ _
          · simp only [h2, Bool.false_eq_true, if_false]
            by_cases h3 : c = 34
            · simp only [h3, if_true]
              exact lex_string_frame _ _ _
            · simp only [h3, if_false]
              by_cases h4 : c = 47
              · simp only [h4, if_true]
                cases peek_byte lexer1 1 with
                | none => rfl
                | some d =>
                  simp only []
                  by_cases h5 : d = 47
                  · simp only [h5, if_true]
                    exact lex_line_comment_frame _ _ _
                  · simp only [h5, if_false]
                    by_cases h6 : d = 42
                    · simp only [h6, if_true]
                      exact lex_block_comment_frame _ _ _
                    · simp only [h6, if_false]
                      exact lex_punctuation_frame _ _ _ _
              · simp only [h4, if_false]
                exact lex_punctuation_frame _ _ _ _

/-! ## The lexer as a stream with a pushback list -/

theorem lexer_create_wf (filename : String) (content : List Nat) (h : content ≠ []) :
    lexer_wf (lexer_create filename content) := by
  have hl : content.length ≠ 0 := by
    intro h0; exact h (List.length_eq_zero.mp h0)
  simp only [lexer_create, hl, if_false, lexer_wf]
  exact peek_queue_create_wf 32 (by decide)

theorem lexer_create_pending (filename : String) (content : List Nat) :
    pending (lexer_create filename content) = [] := by
  by_cases hl : content.length = 0
  · simp [lexer_create, hl, pending, peek_queue_contents]
  · simp [lexer_create, hl, pending, peek_queue_contents, peek_queue_create]

theorem lexer_equiv_refl (a : rouleaux_lexer) (h : lexer_wf a) : lexer_equiv a a :=
  ⟨h, h, rfl, rfl⟩

theorem lexer_equiv_symm (a b : rouleaux_lexer) (h : lexer_equiv a b) : lexer_equiv b a := by
  obtain ⟨h1, h2, h3, h4⟩ := h
  refine ⟨h2, h1, h3.symm, ?_⟩
  rw [← h4]
  rfl

theorem pending_size (lexer : rouleaux_lexer) (h : lexer_wf lexer) :
    (pending lexer).length = lexer.peek_buffer.size := by
  simp only [pending, List.length_reverse]
  exact peek_queue_contents_length _ h

theorem lexer_next_token_pending (lexer : rouleaux_lexer) (t : token) (ps : List token)
    (h : lexer_wf lexer) (hp : pending lexer = t :: ps) :
    ∃ queue, lexer_next_token lexer = some (t, with_queue lexer queue) ∧ peek_queue_wf queue ∧
      (peek_queue_contents queue).reverse = ps := by
  have hc : peek_queue_contents lexer.peek_buffer = ps.reverse ++ [t] := by
    have := congrArg List.reverse hp
    simpa [pending] using this
  obtain ⟨queue1, hpop, hwf, hcont, _, _⟩ := peek_queue_pop_spec _ _ _ h hc
  have hsz := pending_size lexer h
  rw [hp] at hsz
  simp at hsz
  refine ⟨queue1, ?_, hwf, by rw [hcont]; simp⟩
  simp only [lexer_next_token]
  rw [if_pos (by omega), hpop]
  rfl

theorem lexer_next_token_empty (lexer : rouleaux_lexer) (h : lexer_wf lexer)
    (hp : pending lexer = []) :
    lexer_next_token lexer = lexer_next_token_internal lexer := by
  have hsz := pending_size lexer h
  rw [hp] at hsz
  simp at hsz
  simp only [lexer_next_token]
  rw [if_neg (by omega)]

theorem lexer_next_token_internal_queue (lexer lexer1 : rouleaux_lexer) (t : token)
    (h : lexer_next_token_internal lexer = some (t, lexer1)) :
    lexer1.peek_buffer = lexer.peek_buffer := by
  have hf := lexer_next_token_internal_frame lexer.peek_buffer lexer
  have he : with_queue lexer lexer.peek_buffer = lexer := rfl
  rw [he, h] at hf
  simp only [Option.map_some', Option.some.injEq, Prod.mk.injEq, true_and] at hf
  rw [hf]
  rfl

theorem lexer_peek_token_pending (lexer : rouleaux_lexer) (t : token) (ps : List token)
    (h : lexer_wf lexer) (hp : pending lexer = t :: ps) :
    lexer_peek_token lexer = some (t, lexer) := by
  have hc : peek_queue_contents lexer.peek_buffer = ps.reverse ++ [t] := by
    have := congrArg List.reverse hp
    simpa [pending] using this
  obtain ⟨hf, hpos⟩ := peek_queue_front_spec _ _ _ h hc
  simp only [lexer_peek_token]
  rw [if_pos (by omega), hf]

theorem lexer_peek_token_empty (lexer lexer1 : rouleaux_lexer) (t : token) (h : lexer_wf lexer)
    (hp : pending lexer = []) (hi : lexer_next_token_internal lexer = some (t, lexer1)) :
    ∃ queue, lexer_peek_token lexer = some (t, with_queue lexer1 queue) ∧ peek_queue_wf queue ∧
      (peek_queue_contents queue).reverse = [t] := by
  have hsz := pending_size lexer h
  rw [hp] at hsz
  simp at hsz
  have hq := lexer_next_token_internal_queue lexer lexer1 t hi
  have hwf1 : peek_queue_wf lexer1.peek_buffer := by rw [hq]; exact h
  obtain ⟨queue1, hpush, hwf, hcont⟩ :=
    peek_queue_push_spec lexer1.peek_buffer t hwf1 (by rw [hq]; omega)
  refine ⟨queue1, ?_, hwf, by rw [hcont]; rfl⟩
  simp only [lexer_peek_token]
  rw [if_neg (by omega), lexer_next_token_empty lexer h hp, hi]
  simp only [hpush]
  rfl

theorem lexer_peek_token_none (lexer : rouleaux_lexer) (h : lexer_wf lexer)
    (hp : pending lexer = []) (hi : lexer_next_token_internal lexer = none) :
    lexer_peek_token lexer = none := by
  have hsz := pending_size lexer h
  rw [hp] at hsz
  simp at hsz
  simp only [lexer_peek_token]
  rw [if_neg (by omega), lexer_next_token_empty lexer h hp, hi]

theorem lexer_put_back_token_spec (lexer : rouleaux_lexer) (t : token) (h : lexer_wf lexer) :
    ∃ queue, lexer_put_back_token lexer t = some (true, with_queue lexer queue) ∧
      peek_queue_wf queue ∧
      (peek_queue_contents queue).reverse = t :: pending lexer := by
  obtain ⟨queue1, hpf, hwf, hcont⟩ := peek_queue_push_front_spec lexer.peek_buffer t h
  refine ⟨queue1, ?_, hwf, by rw [hcont]; simp [pending]⟩
  simp only [lexer_put_back_token, hpf]
  rfl

theorem lexer_next_token_wf (lexer lexer1 : rouleaux_lexer) (t : token) (h : lexer_wf lexer)
    (hn : lexer_next_token lexer = some (t, lexer1)) : lexer_wf lexer1 := by
  cases hp : pending lexer with
  | nil =>
    rw [lexer_next_token_empty lexer h hp] at hn
    have hq := lexer_next_token_internal_queue lexer lexer1 t hn
    simp only [lexer_wf, hq]
    exact h
  | cons t0 ps =>
    obtain ⟨queue, hq, hwf, _⟩ := lexer_next_token_pending lexer t0 ps h hp
    rw [hq] at hn
    simp only [Option.some.injEq, Prod.mk.injEq] at hn
    rw [← hn.2]
    exact hwf

theorem lexer_next_token_equiv (a b a1 : rouleaux_lexer) (t : token) (h : lexer_equiv a b)
    (hn : lexer_next_token a = some (t, a1)) :
    ∃ b1, lexer_next_token b = some (t, b1) ∧ lexer_equiv a1 b1 := by
  obtain ⟨hwa, hwb, hpe, hab⟩ := h
  cases hp : pending a with
  | nil =>
    rw [lexer_next_token_empty a hwa hp] at hn
    have hpb : pending b = [] := by rw [← hpe]; exact hp
    have hf := lexer_next_token_internal_frame b.peek_buffer a
    rw [hab, hn] at hf
    simp only [Option.map_some'] at hf
    refine ⟨with_queue a1 b.peek_buffer, ?_, ?_⟩
    · rw [lexer_next_token_empty b hwb hpb]
      exact hf
    · have hq := lexer_next_token_internal_queue a a1 t hn
      refine ⟨?_, hwb, ?_, rfl⟩
      · simp only [lexer_wf, hq]; exact hwa
      · have e1 : pending a1 = pending a := by simp only [pending, hq]
        rw [e1, hpe]
        rfl
  | cons t0 ps =>
    obtain ⟨qa, hqa, hwfa, hca⟩ := lexer_next_token_pending a t0 ps hwa hp
    obtain ⟨qb, hqb, hwfb, hcb⟩ := lexer_next_token_pending b t0 ps hwb (by rw [← hpe]; exact hp)
    rw [hqa] at hn
    simp only [Option.some.injEq, Prod.mk.injEq] at hn
    obtain ⟨ht, ha1⟩ := hn
    refine ⟨with_queue b qb, by rw [hqb, ht], ?_⟩
    rw [← ha1]
    refine ⟨hwfa, hwfb, ?_, ?_⟩
    · show (peek_queue_contents qa).reverse = (peek_queue_contents qb).reverse
      rw [hca, hcb]
    · rw [← hab]
      rfl

theorem lexer_next_tokens_equiv :
    ∀ (n : Nat) (a b : rouleaux_lexer), lexer_equiv a b →
      (lexer_next_tokens n a).map Prod.fst = (lexer_next_tokens n b).map Prod.fst
  | 0, _, _, _ => rfl
  | n + 1, a, b, h => by
    simp only [lexer_next_tokens]
    cases hna : lexer_next_token a with
    | none =>
      cases hnb : lexer_next_token b with
      | none => rfl
      | some rb =>
        obtain ⟨t, b1⟩ := rb
        obtain ⟨a1, ha1, _⟩ := lexer_next_token_equiv b a b1 t (lexer_equiv_symm a b h) hnb
        rw [hna] at ha1
        cases ha1
    | some ra =>
      obtain ⟨t, a1⟩ := ra
      obtain ⟨b1, hb1, he⟩ := lexer_next_token_equiv a b a1 t h hna
      rw [hb1]
      have ih := lexer_next_tokens_equiv n a1 b1 he
      simp only []
      cases hta : lexer_next_tokens n a1 with
      | none =>
        rw [hta] at ih
        cases htb : lexer_next_tokens n b1 with
        | none => rfl
        | some rb => rw [htb] at ih; cases ih
      | some ra =>
        rw [hta] at ih
        cases htb : lexer_next_tokens n b1 with
        | none => rw [htb] at ih; cases ih
        | some rb =>
          rw [htb] at ih
          simp only [Option.map_some', Option.some.injEq] at ih ⊢
          rw [ih]

theorem with_queue_with_queue (lexer : rouleaux_lexer) (q1 q2 : peek_queue) :
    with_queue (with_queue lexer q1) q2 = with_queue lexer q2 := rfl

theorem lexer_put_back_tokens_spec :
    ∀ (ts : List token) (lexer : rouleaux_lexer), lexer_wf lexer →
      ∃ queue, lexer_put_back_tokens ts lexer
          = some (List.replicate ts.length true, with_queue lexer queue) ∧
        peek_queue_wf queue ∧
        (peek_queue_contents queue).reverse = ts.reverse ++ pending lexer
  | [], lexer, h => ⟨lexer.peek_buffer, rfl, h, by simp [pending]⟩
  | t :: ts, lexer, h => by
    obtain ⟨q1, hq1, hwf1, hc1⟩ := lexer_put_back_token_spec lexer t h
    obtain ⟨q2, hq2, hwf2, hc2⟩ := lexer_put_back_tokens_spec ts (with_queue lexer q1) hwf1
    refine ⟨q2, ?_, hwf2, ?_⟩
    · simp only [lexer_put_back_tokens, hq1, hq2, with_queue_with_queue]
      rfl
    · rw [hc2]
      show ts.reverse ++ (peek_queue_contents q1).reverse = _
      rw [hc1]
      simp

theorem lexer_next_tokens_pending :
    ∀ (ps rest : List token) (lexer : rouleaux_lexer), lexer_wf lexer →
      pending lexer = ps ++ rest →
      ∃ queue, lexer_next_tokens ps.length lexer = some (ps, with_queue lexer queue) ∧
        peek_queue_wf queue ∧ (peek_queue_contents queue).reverse = rest
  | [], rest, lexer, h, hp => ⟨lexer.peek_buffer, rfl, h, hp⟩
  | t :: ps, rest, lexer, h, hp => by
    obtain ⟨q1, hq1, hwf1, hc1⟩ := lexer_next_token_pending lexer t (ps ++ rest) h hp
    obtain ⟨q2, hq2, hwf2, hc2⟩ :=
      lexer_next_tokens_pending ps rest (with_queue lexer q1) hwf1 hc1
    refine ⟨q2, ?_, hwf2, hc2⟩
    simp only [List.length_cons, lexer_next_tokens, hq1, hq2, with_queue_with_queue]

theorem put_back_then_next (lexer : rouleaux_lexer) (t : token) (h : lexer_wf lexer) :
    ∃ lexer2 lexer3, lexer_put_back_token lexer t = some (true, lexer2) ∧
      lexer_next_token lexer2 = some (t, lexer3) ∧ lexer_equiv lexer3 lexer := by
  obtain ⟨q1, hq1, hwf1, hc1⟩ := lexer_put_back_token_spec lexer t h
  obtain ⟨q2, hq2, hwf2, hc2⟩ :=
    lexer_next_token_pending (with_queue lexer q1) t (pending lexer) hwf1 hc1
  refine ⟨_, _, hq1, hq2, hwf2, h, hc2, rfl⟩

theorem peek_then_next (lexer lexer1 : rouleaux_lexer) (t : token)
    (h : lexer_wf lexer) (hp : lexer_peek_token lexer = some (t, lexer1)) :
    ∃ lexer2, lexer_next_token lexer1 = some (t, lexer2) ∧
      ∃ lexer3, lexer_next_token lexer = some (t, lexer3) ∧ lexer_equiv lexer3 lexer2 := by
  cases hpe : pending lexer with
  | nil =>
    cases hi : lexer_next_token_internal lexer with
    | none =>
      rw [lexer_peek_token_none lexer h hpe hi] at hp
      cases hp
    | some r =>
      obtain ⟨t0, l0⟩ := r
      obtain ⟨q1, hq1, hwf1, hc1⟩ := lexer_peek_token_empty lexer l0 t0 h hpe hi
      rw [hq1] at hp
      simp only [Option.some.injEq, Prod.mk.injEq] at hp
      obtain ⟨ht, hl⟩ := hp
      subst ht
      subst hl
      obtain ⟨q2, hq2, hwf2, hc2⟩ :=
        lexer_next_token_pending (with_queue l0 q1) t0 [] hwf1 hc1
      have hq0 := lexer_next_token_internal_queue lexer l0 t0 hi
      refine ⟨_, hq2, l0, ?_, ?_, hwf2, ?_, rfl⟩
      · rw [lexer_next_token_empty lexer h hpe]
        exact hi
      · simp only [lexer_wf, hq0]
        exact h
      · have e1 : pending l0 = pending lexer := by simp only [pending, hq0]
        rw [e1, hpe]
        exact hc2.symm
  | cons t0 ps =>
    rw [lexer_peek_token_pending lexer t0 ps h hpe] at hp
    simp only [Option.some.injEq, Prod.mk.injEq] at hp
    obtain ⟨ht, hl⟩ := hp
    subst ht
    subst hl
    obtain ⟨q1, hq1, hwf1, hc1⟩ := lexer_next_token_pending lexer t0 ps h hpe
    exact ⟨_, hq1, _, hq1, lexer_equiv_refl _ hwf1⟩

/-- C1 (peek/next equivalence).  In every lexer state whose peek queue is well
formed (any remaining source, any tokens waiting in the queue), when
`lexer_peek_token` returns a token `t`, the call of `lexer_next_token` that
follows returns too, and it returns the same token `t` (the same kind, text,
length, value and location).  A direct `lexer_next_token` on the state before
the peek returns `t` as well and leaves an equivalent lexer. -/
theorem peek_then_next_same_token (lexer lexer1 : rouleaux_lexer) (t : token)
    (h : lexer_wf lexer) (hp : lexer_peek_token lexer = some (t, lexer1)) :
    ∃ lexer2, lexer_next_token lexer1 = some (t, lexer2) ∧
      ∃ lexer3, lexer_next_token lexer = some (t, lexer3) ∧ lexer_equiv lexer3 lexer2 :=
  peek_then_next lexer lexer1 t h hp

theorem peek_then_next_same_token_witness :
    ∃ t lexer1 lexer2, lexer_wf (lexer_create "f" (bytes "ab c")) ∧
      lexer_peek_token (lexer_create "f" (bytes "ab c")) = some (t, lexer1) ∧
      t.type = TOKEN_IDENTIFIER ∧ t.length = 2 ∧
      lexer_next_token lexer1 = some (t, lexer2) := by
  have hs : ∃ r, lexer_peek_token (lexer_create "f" (bytes "ab c")) = some r ∧
      r.1.type = TOKEN_IDENTIFIER ∧ r.1.length = 2 := by decide
  obtain ⟨⟨t, lexer1⟩, hp, ht, hl⟩ := hs
  obtain ⟨lexer2, h2, _⟩ :=
    peek_then_next_same_token (lexer_create "f" (bytes "ab c")) lexer1 t (by decide) hp
  exact ⟨t, lexer1, lexer2, by decide, hp, ht, hl, h2⟩

/-- C2 (put-back involution).  In every lexer state whose peek queue is well
formed, if `lexer_next_token` returned `t`, then `lexer_put_back_token(t)`
reports success, the following `lexer_next_token` returns `t` again, and from
there on the lexer returns the tokens it would have returned had `t` not been
put back (for every number of further calls). -/
theorem put_back_involution (lexer lexer1 : rouleaux_lexer) (t : token)
    (h : lexer_wf lexer) (hn : lexer_next_token lexer = some (t, lexer1)) :
    ∃ lexer2 lexer3, lexer_put_back_token lexer1 t = some (true, lexer2) ∧
      lexer_next_token lexer2 = some (t, lexer3) ∧
      ∀ n, (lexer_next_tokens n lexer3).map Prod.fst
        = (lexer_next_tokens n lexer1).map Prod.fst := by
  obtain ⟨lexer2, lexer3, h2, h3, he⟩ :=
    put_back_then_next lexer1 t (lexer_next_token_wf lexer lexer1 t h hn)
  exact ⟨lexer2, lexer3, h2, h3, fun n => lexer_next_tokens_equiv n lexer3 lexer1 he⟩

theorem put_back_involution_witness :
    ∃ t lexer1 lexer2 lexer3, lexer_wf (lexer_create "f" (bytes "ab c")) ∧
      lexer_next_token (lexer_create "f" (bytes "ab c")) = some (t, lexer1) ∧
      t.type = TOKEN_IDENTIFIER ∧
      lexer_put_back_token lexer1 t = some (true, lexer2) ∧
      lexer_next_token lexer2 = some (t, lexer3) := by
  have hs : ∃ r, lexer_next_token (lexer_create "f" (bytes "ab c")) = some r ∧
      r.1.type = TOKEN_IDENTIFIER := by decide
  obtain ⟨⟨t, lexer1⟩, hn, ht⟩ := hs
  obtain ⟨lexer2, lexer3, h2, h3, _⟩ :=
    put_back_involution (lexer_create "f" (bytes "ab c")) lexer1 t (by decide) hn
  exact ⟨t, lexer1, lexer2, lexer3, by decide, hn, ht, h2, h3⟩

/-- C3 (unbounded put-back in reverse order).  In every lexer state whose peek
queue is well formed and for every list of tokens `t1 .. tn` of any length
(also longer than the capacity of the queue, which then grows), every one of
the calls `lexer_put_back_token(t1); ...; lexer_put_back_token(tn)` reports
success, and the next `n` calls of `lexer_next_token` return `tn, ..., t1` in
that order, leaving a lexer equivalent to the one before the put-backs. -/
theorem put_back_many_reversed (lexer : rouleaux_lexer) (ts : List token)
    (h : lexer_wf lexer) :
    ∃ lexer1 lexer2,
      lexer_put_back_tokens ts lexer = some (List.replicate ts.length true, lexer1) ∧
      lexer_next_tokens ts.length lexer1 = some (ts.reverse, lexer2) ∧
      lexer_equiv lexer2 lexer := by
  obtain ⟨q1, hq1, hwf1, hc1⟩ := lexer_put_back_tokens_spec ts lexer h
  obtain ⟨q2, hq2, hwf2, hc2⟩ :=
    lexer_next_tokens_pending ts.reverse (pending lexer) (with_queue lexer q1) hwf1 hc1
  rw [List.length_reverse] at hq2
  exact ⟨_, _, hq1, hq2, hwf2, h, hc2, rfl⟩

theorem put_back_many_reversed_witness :
    lexer_wf (lexer_create "f" (bytes "ab c")) ∧
    ∃ lexer1 lexer2,
      lexer_put_back_tokens ((List.range 40).map (fun i => { token_zero with length := i }))
          (lexer_create "f" (bytes "ab c"))
        = some (List.replicate 40 true, lexer1) ∧
      lexer_next_tokens 40 lexer1
        = some (((List.range 40).map (fun i => { token_zero with length := i })).reverse,
            lexer2) := by
  refine ⟨by decide, ?_⟩
  obtain ⟨lexer1, lexer2, h1, h2, _⟩ :=
    put_back_many_reversed (lexer_create "f" (bytes "ab c"))
      ((List.range 40).map (fun i => { token_zero with length := i })) (by decide)
  exact ⟨lexer1, lexer2, h1, h2⟩

/-! ## Rows, columns and the moves of `head` -/

theorem row_at_succ (mem : List Nat) (p c : Nat) (h : mem[p]? = some c) :
    row_at mem (p + 1) = if c = 10 then row_at mem p + 1 else row_at mem p := by
  simp only [row_at, List.take_succ, h, Option.toList, List.count_append]
  by_cases hc : c = 10
  · simp [hc]; omega
  · have : ¬ (10 = c) := fun e => hc e.symm
    simp [hc, List.count_cons, this]

theorem column_at_succ (mem : List Nat) (p c : Nat) (h : mem[p]? = some c) :
    column_at mem (p + 1) = if c = 10 then 1 else column_at mem p + 1 := by
  simp only [column_at, List.take_succ, h, Option.toList, List.reverse_append,
    List.reverse_cons, List.reverse_nil, List.nil_append, List.singleton_append,
    List.takeWhile_cons]
  by_cases hc : c = 10
  · simp [hc]
  · simp [hc]; omega

theorem at_pos_self (filename : String) (content : List Nat) :
    at_pos (lexer_create filename content) (lexer_create filename content) 0 := by
  by_cases hl : content.length = 0
  · simp [at_pos, lexer_create, hl, row_at, column_at]
  · simp [at_pos, lexer_create, hl, row_at, column_at]

theorem at_pos_error (base lexer : rouleaux_lexer) (p : Nat) (e : Bool)
    (h : at_pos base lexer p) : at_pos base { lexer with has_error := e } p := h

theorem skip_char_one (base lexer : rouleaux_lexer) (p : Nat) (h : at_pos base lexer p)
    (hp : p < base.file_content.length) :
    ∃ lexer1, skip_char lexer 1 = some lexer1 ∧ at_pos base lexer1 (p + 1) ∧
      lexer1.has_error = lexer.has_error := by
  obtain ⟨h1, h2, h3, h4, h5, h6, h7⟩ := h
  have hget : lexer.file_content[lexer.head + 0]? = some (base.file_content[p]) := by
    rw [h2, h4, Nat.add_zero]
    exact List.getElem?_eq_getElem hp
  have hget2 : base.file_content[p]? = some (base.file_content[p]) :=
    List.getElem?_eq_getElem hp
  have heof : head_is_at_eof lexer = false := by
    simp [head_is_at_eof, h2, h4, hp]
  simp only [skip_char, heof, Bool.false_eq_true, if_false, skip_char_loop, peek_byte, hget]
  by_cases hc : base.file_content[p] = 10
  · simp only [hc, if_true]
    refine ⟨_, rfl, ⟨h1, h2, h3, by simp [h4], by omega, ?_, ?_⟩, rfl⟩
    · simp [row_at_succ _ _ _ hget2, hc, h6]
    · simp [column_at_succ _ _ _ hget2, hc]
  · simp only [hc, if_false]
    refine ⟨_, rfl, ⟨h1, h2, h3, by simp [h4], by omega, ?_, ?_⟩, rfl⟩
    · simp [row_at_succ _ _ _ hget2, hc, h6]
    · simp [column_at_succ _ _ _ hget2, hc, h7]

theorem skip_char_eof (base lexer : rouleaux_lexer) (p n : Nat) (h : at_pos base lexer p)
    (hp : ¬ p < base.file_content.length) : skip_char lexer n = none := by
  obtain ⟨h1, h2, h3, h4, h5, h6, h7⟩ := h
  have heof : head_is_at_eof lexer = true := by
    simp [head_is_at_eof, h2, h4]; omega
  simp [skip_char, heof]

theorem skip_char_one_inv (base lexer lexer1 : rouleaux_lexer) (p : Nat)
    (h : at_pos base lexer p) (hs : skip_char lexer 1 = some lexer1) :
    p < base.file_content.length ∧ at_pos base lexer1 (p + 1) ∧
      lexer1.has_error = lexer.has_error := by
  by_cases hp : p < base.file_content.length
  · obtain ⟨l1, hl1, ha, he⟩ := skip_char_one base lexer p h hp
    rw [hl1] at hs
    cases hs
    exact ⟨hp, ha, he⟩
  · rw [skip_char_eof base lexer p 1 h hp] at hs
    cases hs

theorem skip_char_loop_succ (n : Nat) (lexer : rouleaux_lexer) :
    skip_char_loop (n + 1) lexer = (skip_char_loop 1 lexer).bind (skip_char_loop n) := by
  simp only [skip_char_loop]
  cases peek_byte lexer 0 with
  | none => rfl
  | some c =>
    by_cases hc : c = 10
    · simp [hc]
    · simp [hc]

theorem skip_char_two_inv (base lexer lexer2 : rouleaux_lexer) (p : Nat)
    (h : at_pos base lexer p) (hs : skip_char lexer 2 = some lexer2) :
    p + 2 ≤ base.file_content.length ∧ at_pos base lexer2 (p + 2) ∧
      lexer2.has_error = lexer.has_error := by
  by_cases hp : p < base.file_content.length
  · obtain ⟨l1, hl1, ha, he⟩ := skip_char_one base lexer p h hp
    have heof : head_is_at_eof lexer = false := by
      obtain ⟨h1, h2, h3, h4, h5, h6, h7⟩ := h
      simp [head_is_at_eof, h2, h4, hp]
    simp only [skip_char, heof, Bool.false_eq_true, if_false] at hs hl1
    rw [skip_char_loop_succ, hl1] at hs
    simp only [Option.some_bind] at hs
    have hs1 : skip_char l1 1 = some lexer2 := by
      by_cases hp1 : p + 1 < base.file_content.length
      · have heof1 : head_is_at_eof l1 = false := by
          obtain ⟨h1, h2, h3, h4, h5, h6, h7⟩ := ha
          simp [head_is_at_eof, h2, h4, hp1]
        simp only [skip_char, heof1, Bool.false_eq_true, if_false]
        exact hs
      · exfalso
        obtain ⟨h1, h2, h3, h4, h5, h6, h7⟩ := ha
        have : peek_byte l1 0 = none := by
          simp only [peek_byte, h2, h4, Nat.add_zero]
          exact List.getElem?_eq_none (by omega)
        simp [skip_char_loop, this] at hs
    obtain ⟨hlt, ha2, he2⟩ := skip_char_one_inv base l1 lexer2 (p + 1) ha hs1
    exact ⟨by omega, ha2, by rw [he2, he]⟩
  · rw [skip_char_eof base lexer p 2 h hp] at hs
    cases hs

theorem scan_while_inv (cond : List Nat → Nat → Option Bool) (base : rouleaux_lexer) :
    ∀ (fuel : Nat) (lexer lexer1 : rouleaux_lexer) (p length length1 : Nat),
      at_pos base lexer p →
      scan_while cond fuel lexer length = some (lexer1, length1) →
      ∃ k, at_pos base lexer1 (p + k) ∧ length1 = length + k ∧
        lexer1.has_error = lexer.has_error ∧
        (∀ i, i < k → cond base.file_content (p + i) = some true) ∧
        cond base.file_content (p + k) = some false
  | 0, _, _, _, _, _, _, hs => by simp [scan_while] at hs
  | fuel + 1, lexer, lexer1, p, length, length1, h, hs => by
    have hc0 : cond lexer.file_content lexer.head = cond base.file_content p := by
      rw [h.2.1, h.2.2.2.1]
    simp only [scan_while, hc0] at hs
    cases hcond : cond base.file_content p with
    | none => simp [hcond] at hs
    | some b =>
      cases b with
      | false =>
        simp only [hcond, Option.some.injEq, Prod.mk.injEq] at hs
        obtain ⟨e1, e2⟩ := hs
        subst e1
        subst e2
        exact ⟨0, h, rfl, rfl, fun i hi => absurd hi (Nat.not_lt_zero i), hcond⟩
      | true =>
        simp only [hcond] at hs
        cases hsk : skip_char lexer 1 with
        | none => simp [hsk] at hs
        | some l1 =>
          simp only [hsk] at hs
          obtain ⟨hlt, ha, he⟩ := skip_char_one_inv base lexer l1 p h hsk
          obtain ⟨k, hk1, hk2, hk3, hk4, hk5⟩ :=
            scan_while_inv cond base fuel l1 lexer1 (p + 1) (length + 1) length1 ha hs
          refine ⟨k + 1, by rw [← Nat.add_assoc, Nat.add_right_comm]; exact hk1, by omega,
            by rw [hk3, he], ?_, by rw [← Nat.add_assoc, Nat.add_right_comm]; exact hk5⟩
          intro i hi
          cases i with
          | zero => exact hcond
          | succ j =>
            have := hk4 j (by omega)
            rw [Nat.add_assoc, Nat.add_comm 1 j] at this
            exact this

/-! ## One token: where it starts, what it covers -/

theorem check_for_keyword_from_spec (mem : List Nat) (t : token) :
    ∀ (n i : Nat),
      (check_for_keyword_from mem t n i).2.text = t.text ∧
      (check_for_keyword_from mem t n i).2.length = t.length ∧
      (check_for_keyword_from mem t n i).2.location = t.location ∧
      (check_for_keyword_from mem t n i).2.value = t.value ∧
      ((check_for_keyword_from mem t n i).2.type = t.type ∨
        (check_for_keyword_from mem t n i).2.type < i + n)
  | 0, i => ⟨rfl, rfl, rfl, rfl, Or.inl rfl⟩
  | n + 1, i => by
    by_cases hm : memcmp_eq (deref mem t.text)
        (deref mem (text_ptr.literal (keywords.getD i []))) t.length = true
    · have e : check_for_keyword_from mem t (n + 1) i = (true, { t with type := i }) := by
        simp only [check_for_keyword_from, hm, if_true]
      rw [e]
      exact ⟨rfl, rfl, rfl, rfl, Or.inr (by show i < i + (n + 1); omega)⟩
    · have e : check_for_keyword_from mem t (n + 1) i
          = check_for_keyword_from mem t n (i + 1) := by
        simp only [check_for_keyword_from, hm, Bool.false_eq_true, if_false]
      rw [e]
      obtain ⟨h1, h2, h3, h4, h5⟩ := check_for_keyword_from_spec mem t n (i + 1)
      refine ⟨h1, h2, h3, h4, ?_⟩
      cases h5 with
      | inl h => exact Or.inl h
      | inr h => exact Or.inr (by rw [Nat.add_assoc, Nat.add_comm 1 n] at h; exact h)

theorem lex_identifier_inv (base lexer lexer1 : rouleaux_lexer) (q : Nat) (t0 t : token)
    (h : at_pos base lexer q) (h0 : t0.length = 0)
    (hl : lex_identifier lexer t0 = some (t, lexer1)) : token_after base lexer1 q t0 t := by
  simp only [lex_identifier] at hl
  cases hsk : skip_char lexer 1 with
  | none => simp [hsk] at hl
  | some l1 =>
    simp only [hsk] at hl
    obtain ⟨_, ha1, _⟩ := skip_char_one_inv base lexer l1 q h hsk
    cases hsc : scan_while cond_identifier (l1.file_content.length + 1) l1 (t0.length + 1) with
    | none => simp [hsc] at hl
    | some r =>
      obtain ⟨l2, len⟩ := r
      simp only [hsc, Option.some.injEq, Prod.mk.injEq] at hl
      obtain ⟨ht, hl2⟩ := hl
      subst hl2
      obtain ⟨k, hk1, hk2, _, _, _⟩ := scan_while_inv _ base _ _ _ _ _ _ ha1 hsc
      obtain ⟨c1, c2, c3, _, c5⟩ := check_for_keyword_from_spec l2.file_content
        { t0 with length := len, type := TOKEN_IDENTIFIER } (keywords_array_length - 1) 1
      simp only [check_for_keyword] at ht
      rw [ht] at c1 c2 c3 c5
      refine ⟨?_, c1, c3, ?_⟩
      · rw [c2]
        show at_pos base l2 (q + len)
        rw [hk2, h0]
        have e : q + (0 + 1 + k) = q + 1 + k := by omega
        rw [e]
        exact hk1
      · intro he
        rw [he] at c5
        have hk : keywords_array_length = 8 := rfl
        rw [hk] at c5
        cases c5 with
        | inl h => exact absurd h (by show ¬ ((133 : Nat) = 8); decide)
        | inr h => exact absurd h (by show ¬ ((133 : Nat) < 1 + (8 - 1)); decide)

theorem lex_number_inv (base lexer lexer1 : rouleaux_lexer) (q : Nat) (t0 t : token)
    (h : at_pos base lexer q) (h0 : t0.length = 0)
    (hl : lex_number lexer t0 = some (t, lexer1)) : token_after base lexer1 q t0 t := by
  simp only [lex_number] at hl
  cases hsk : skip_char lexer 1 with
  | none => simp [hsk] at hl
  | some l1 =>
    simp only [hsk] at hl
    obtain ⟨_, ha1, _⟩ := skip_char_one_inv base lexer l1 q h hsk
    cases hsc : scan_while cond_numeric (l1.file_content.length + 1) l1 (t0.length + 1) with
    | none => simp [hsc] at hl
    | some r =>
      obtain ⟨l2, len⟩ := r
      simp only [hsc] at hl
      obtain ⟨k, hk1, hk2, _, _, _⟩ := scan_while_inv _ base _ _ _ _ _ _ ha1 hsc
      have hpos2 : at_pos base l2 (q + len) := by
        rw [hk2, h0]
        have e : q + (0 + 1 + k) = q + 1 + k := by omega
        rw [e]
        exact hk1
      cases hp0 : peek_byte l2 0 with
      | none => simp [hp0] at hl
      | some c =>
        simp only [hp0] at hl
        by_cases hc : c = 46
        · simp only [hc, if_true] at hl
          cases hp1 : peek_byte l2 1 with
          | none => simp [hp1] at hl
          | some d =>
            simp only [hp1] at hl
            by_cases hd : is_numeric_character d = true
            · simp only [hd, if_true] at hl
              cases hsk3 : skip_char l2 1 with
              | none => simp [hsk3] at hl
              | some l3 =>
                simp only [hsk3] at hl
                obtain ⟨_, ha3, _⟩ := skip_char_one_inv base l2 l3 _ hpos2 hsk3
                cases hsc4 : scan_while cond_numeric (l3.file_content.length + 1) l3
                    (len + 1) with
                | none => simp [hsc4] at hl
                | some r4 =>
                  obtain ⟨l4, len4⟩ := r4
                  simp only [hsc4, Option.some.injEq, Prod.mk.injEq] at hl
                  obtain ⟨ht, hl4⟩ := hl
                  subst hl4
                  subst ht
                  obtain ⟨k4, hk41, hk42, _, _, _⟩ :=
                    scan_while_inv _ base _ _ _ _ _ _ ha3 hsc4
                  refine ⟨?_, rfl, rfl, by simp⟩
                  show at_pos base _ (q + len4)
                  rw [hk42]
                  have e : q + (len + 1 + k4) = q + len + 1 + k4 := by omega
                  rw [e]
                  exact hk41
            · simp only [hd, Bool.false_eq_true, if_false, Option.some.injEq,
                Prod.mk.injEq] at hl
              obtain ⟨ht, hl2⟩ := hl
              subst hl2
              subst ht
              exact ⟨hpos2, rfl, rfl, by simp⟩
        · simp only [hc, if_false, Option.some.injEq, Prod.mk.injEq] at hl
          obtain ⟨ht, hl2⟩ := hl
          subst hl2
          subst ht
          exact ⟨hpos2, rfl, rfl, by simp⟩

theorem lex_string_inv (base lexer lexer1 : rouleaux_lexer) (q : Nat) (t0 t : token)
    (h : at_pos base lexer q) (h0 : t0.length = 0)
    (hl : lex_string lexer t0 = some (t, lexer1)) : token_after base lexer1 q t0 t := by
  simp only [lex_string] at hl
  cases hsk : skip_char lexer 1 with
  | none => simp [hsk] at hl
  | some l1 =>
    simp only [hsk] at hl
    obtain ⟨_, ha1, _⟩ := skip_char_one_inv base lexer l1 q h hsk
    cases hsc : scan_while cond_string (l1.file_content.length + 1) l1 (t0.length + 1) with
    | none => simp [hsc] at hl
    | some r =>
      obtain ⟨l2, len⟩ := r
      simp only [hsc] at hl
      obtain ⟨k, hk1, hk2, _, _, _⟩ := scan_while_inv _ base _ _ _ _ _ _ ha1 hsc
      have hpos2 : at_pos base l2 (q + len) := by
        rw [hk2, h0]
        have e : q + (0 + 1 + k) = q + 1 + k := by omega
        rw [e]
        exact hk1
      by_cases he : head_is_at_eof l2 = true
      · simp only [he, if_true, Option.some.injEq, Prod.mk.injEq] at hl
        obtain ⟨ht, hl2⟩ := hl
        subst hl2
        subst ht
        exact ⟨at_pos_error base l2 _ true hpos2, rfl, rfl, by simp⟩
      · simp only [he, Bool.false_eq_true, if_false] at hl
        cases hsk3 : skip_char l2 1 with
        | none => simp [hsk3] at hl
        | some l3 =>
          simp only [hsk3, Option.some.injEq, Prod.mk.injEq] at hl
          obtain ⟨ht, hl3⟩ := hl
          subst hl3
          subst ht
          obtain ⟨_, ha3, _⟩ := skip_char_one_inv base l2 l3 _ hpos2 hsk3
          exact ⟨ha3, rfl, rfl, by simp⟩

theorem lex_line_comment_inv (base lexer lexer1 : rouleaux_lexer) (q : Nat) (t0 t : token)
    (h : at_pos base lexer q) (h0 : t0.length = 0)
    (hl : lex_line_comment lexer t0 = some (t, lexer1)) : token_after base lexer1 q t0 t := by
  simp only [lex_line_comment] at hl
  cases hsk : skip_char lexer 2 with
  | none => simp [hsk] at hl
  | some l1 =>
    simp only [hsk] at hl
    obtain ⟨_, ha1, _⟩ := skip_char_two_inv base lexer l1 q h hsk
    cases hsc : scan_while cond_line_comment (l1.file_content.length + 1) l1
        (t0.length + 2) with
    | none => simp [hsc] at hl
    | some r =>
      obtain ⟨l2, len⟩ := r
      simp only [hsc, Option.some.injEq, Prod.mk.injEq] at hl
      obtain ⟨ht, hl2⟩ := hl
      subst hl2
      subst ht
      obtain ⟨k, hk1, hk2, _, _, _⟩ := scan_while_inv _ base _ _ _ _ _ _ ha1 hsc
      refine ⟨?_, rfl, rfl, by simp⟩
      show at_pos base l2 (q + len)
      rw [hk2, h0]
      have e : q + (0 + 2 + k) = q + 2 + k := by omega
      rw [e]
      exact hk1

theorem lex_block_comment_inv (base lexer lexer1 : rouleaux_lexer) (q : Nat) (t0 t : token)
    (h : at_pos base lexer q) (h0 : t0.length = 0)
    (hl : lex_block_comment lexer t0 = some (t, lexer1)) : token_after base lexer1 q t0 t := by
  simp only [lex_block_comment] at hl
  cases hsk : skip_char lexer 2 with
  | none => simp [hsk] at hl
  | some l1 =>
    simp only [hsk] at hl
    obtain ⟨_, ha1, _⟩ := skip_char_two_inv base lexer l1 q h hsk
    cases hsc : scan_while cond_block_comment (l1.file_content.length + 1) l1
        (t0.length + 2) with
    | none => simp [hsc] at hl
    | some r =>
      obtain ⟨l2, len⟩ := r
      simp only [hsc] at hl
      obtain ⟨k, hk1, hk2, _, _, _⟩ := scan_while_inv _ base _ _ _ _ _ _ ha1 hsc
      have hpos2 : at_pos base l2 (q + len) := by
        rw [hk2, h0]
        have e : q + (0 + 2 + k) = q + 2 + k := by omega
        rw [e]
        exact hk1
      by_cases he : head_is_at_eof l2 = true
      · simp only [he, if_true, Option.some.injEq, Prod.mk.injEq] at hl
        obtain ⟨ht, hl2⟩ := hl
        subst hl2
        subst ht
        exact ⟨at_pos_error base l2 _ true hpos2, rfl, rfl, by simp⟩
      · simp only [he, Bool.false_eq_true, if_false] at hl
        cases hsk3 : skip_char l2 2 with
        | none => simp [hsk3] at hl
        | some l3 =>
          simp only [hsk3, Option.some.injEq, Prod.mk.injEq] at hl
          obtain ⟨ht, hl3⟩ := hl
          subst hl3
          subst ht
          obtain ⟨_, ha3, _⟩ := skip_char_two_inv base l2 l3 _ hpos2 hsk3
          exact ⟨ha3, rfl, rfl, by simp⟩

theorem single_char_token_ne_eof (c : Nat) (h : is_single_char_token c = true) :
    c ≠ TOKEN_EOF := by
  intro hc
  rw [hc] at h
  exact absurd h (by decide)

theorem lex_punctuation_inv (base lexer lexer1 : rouleaux_lexer) (q c : Nat) (t0 t : token)
    (h : at_pos base lexer q) (h0 : t0.length = 0) (hty : t0.type = TOKEN_INVALID)
    (hl : lex_punctuation lexer t0 c = some (t, lexer1)) : token_after base lexer1 q t0 t := by
  simp only [lex_punctuation] at hl
  have hq0 : at_pos base lexer (q + t0.length) := by rw [h0]; exact h
  by_cases hs : is_single_char_token c = true
  · simp only [hs, if_true] at hl
    cases hsk : skip_char lexer 1 with
    | none => simp [hsk] at hl
    | some l1 =>
      simp only [hsk] at hl
      obtain ⟨_, ha1, _⟩ := skip_char_one_inv base lexer l1 q h hsk
      have hne := single_char_token_ne_eof c hs
      by_cases hm : c = TOKEN_MINUS
      · simp only [hm, if_true] at hl
        cases hp0 : peek_byte l1 0 with
        | none => simp [hp0] at hl
        | some d =>
          simp only [hp0] at hl
          by_cases hd : d = 62
          · simp only [hd, if_true] at hl
            cases hsk2 : skip_char l1 1 with
            | none => simp [hsk2] at hl
            | some l2 =>
              simp only [hsk2, Option.some.injEq, Prod.mk.injEq] at hl
              obtain ⟨ht, hl2⟩ := hl
              subst hl2
              subst ht
              obtain ⟨_, ha2, _⟩ := skip_char_one_inv base l1 l2 _ ha1 hsk2
              refine ⟨?_, rfl, rfl, by simp⟩
              show at_pos base _ (q + (t0.length + 1 + 1))
              rw [h0]
              exact ha2
          · simp only [hd, if_false, Option.some.injEq, Prod.mk.injEq] at hl
            obtain ⟨ht, hl2⟩ := hl
            subst hl2
            subst ht
            refine ⟨?_, rfl, rfl, by simp⟩
            show at_pos base _ (q + (t0.length + 1))
            rw [h0]
            exact ha1
      · simp only [hm, if_false, Option.some.injEq, Prod.mk.injEq] at hl
        obtain ⟨ht, hl2⟩ := hl
        subst hl2
        subst ht
        refine ⟨?_, rfl, rfl, hne⟩
        show at_pos base _ (q + (t0.length + 1))
        rw [h0]
        exact ha1
  · simp only [hs, Bool.false_eq_true, if_false, hty] at hl
    have hne : ¬ (TOKEN_INVALID = TOKEN_MINUS) := by decide
    simp only [hne, if_false, Option.some.injEq, Prod.mk.injEq] at hl
    obtain ⟨ht, hl2⟩ := hl
    subst hl2
    subst ht
    exact ⟨hq0, rfl, rfl, by rw [hty]; decide⟩

theorem trim_left_inv (base lexer lexer1 : rouleaux_lexer) (p : Nat)
    (h : at_pos base lexer p) (hl : trim_left lexer = some lexer1) :
    ∃ k, at_pos base lexer1 (p + k) ∧ lexer1.has_error = lexer.has_error ∧
      ∀ i, i < k → ∃ c, base.file_content[p + i]? = some c ∧ is_whitespace c = true := by
  simp only [trim_left] at hl
  cases hsc : scan_while cond_whitespace (lexer.file_content.length + 1) lexer 0 with
  | none => simp [hsc] at hl
  | some r =>
    obtain ⟨l1, len⟩ := r
    simp only [hsc, Option.map_some', Option.some.injEq] at hl
    subst hl
    obtain ⟨k, hk1, _, hk3, hk4, _⟩ := scan_while_inv _ base _ _ _ _ _ _ h hsc
    refine ⟨k, hk1, hk3, ?_⟩
    intro i hi
    have := hk4 i hi
    simp only [cond_whitespace] at this
    cases hg : base.file_content[p + i]? with
    | none => simp [hg] at this
    | some c =>
      simp only [hg, Option.some.injEq] at this
      exact ⟨c, rfl, this⟩

theorem lexer_next_token_internal_inv (base lexer lexer1 : rouleaux_lexer) (p : Nat) (t : token)
    (h : at_pos base lexer p) (hl : lexer_next_token_internal lexer = some (t, lexer1)) :
    ∃ k, (∀ i, i < k → ∃ c, base.file_content[p + i]? = some c ∧ is_whitespace c = true) ∧
      at_pos base lexer1 (p + k + t.length) ∧ t.text = text_ptr.file (p + k) ∧
      t.location = location_at base (p + k) ∧
      (t.type = TOKEN_EOF → p + k = base.file_content.length ∧ t.length = 0) := by
  simp only [lexer_next_token_internal] at hl
  cases htl : trim_left lexer with
  | none => simp [htl] at hl
  | some l1 =>
    simp only [htl] at hl
    obtain ⟨k, hk1, _, hws⟩ := trim_left_inv base lexer l1 p h htl
    have hloc : current_location l1 = location_at base (p + k) := by
      obtain ⟨h1, h2, h3, h4, h5, h6, h7⟩ := hk1
      simp only [current_location, location_at, h1, h6, h7]
    have hhead : l1.head = p + k := hk1.2.2.2.1
    refine ⟨k, hws, ?_⟩
    have key : ∀ t0 : token, t0.text = text_ptr.file (p + k) →
        t0.location = current_location l1 →
        token_after base lexer1 (p + k) t0 t →
        at_pos base lexer1 (p + k + t.length) ∧ t.text = text_ptr.file (p + k) ∧
        t.location = location_at base (p + k) ∧
        (t.type = TOKEN_EOF → p + k = base.file_content.length ∧ t.length = 0) := by
      intro t0 e1 e2 ⟨a1, a2, a3, a4⟩
      exact ⟨a1, by rw [a2, e1], by rw [a3, e2, hloc], fun he => absurd he a4⟩
    by_cases he : head_is_at_eof l1 = true
    · simp only [he, if_true, Option.some.injEq, Prod.mk.injEq] at hl
      obtain ⟨ht, hl1⟩ := hl
      subst hl1
      subst ht
      have hge : p + k = base.file_content.length := by
        obtain ⟨h1, h2, h3, h4, h5, h6, h7⟩ := hk1
        simp only [head_is_at_eof, h2, h4, decide_eq_true_eq] at he
        omega
      refine ⟨hk1, ?_, hloc, fun _ => ⟨hge, rfl⟩⟩
      show text_ptr.file l1.head = _
      rw [hhead]
    · simp only [he, Bool.false_eq_true, if_false] at hl
      cases hp0 : peek_byte l1 0 with
      | none => simp [hp0] at hl
      | some c =>
        simp only [hp0] at hl
        by_cases h1 : is_identifier_character c false = true
        · simp only [h1, if_true] at hl
          exact key _ (by show text_ptr.file l1.head = _; rw [hhead]) rfl
            (lex_identifier_inv base l1 lexer1 _ _ t hk1 rfl hl)
        · simp only [h1, Bool.false_eq_true, if_false] at hl
          by_cases h2 : is_numeric_character c = true
          · simp only [h2, if_true] at hl
            exact key _ (by show text_ptr.file l1.head = _; rw [hhead]) rfl
              (lex_number_inv base l1 lexer1 _ _ t hk1 rfl hl)
          · simp only [h2, Bool.false_eq_true, if_false] at hl
            by_cases h3 : c = 34
            · simp only [h3, if_true] at hl
              exact key _ (by show text_ptr.file l1.head = _; rw [hhead]) rfl
                (lex_string_inv base l1 lexer1 _ _ t hk1 rfl hl)
            · simp only [h3, if_false] at hl
              by_cases h4 : c = 47
              · simp only [h4, if_true] at hl
                cases hp1 : peek_byte l1 1 with
                | none => simp [hp1] at hl
                | some d =>
                  simp only [hp1] at hl
                  by_cases h5 : d = 47
                  · simp only [h5, if_true] at hl
                    exact key _ (by show text_ptr.file l1.head = _; rw [hhead]) rfl
                      (lex_line_comment_inv base l1 lexer1 _ _ t hk1 rfl hl)
                  · simp only [h5, if_false] at hl
                    by_cases h6 : d = 42
                    · simp only [h6, if_true] at hl
                      exact key _ (by show text_ptr.file l1.head = _; rw [hhead]) rfl
                        (lex_block_comment_inv base l1 lexer1 _ _ t hk1 rfl hl)
                    · simp only [h6, if_false] at hl
                      exact key _ (by show text_ptr.file l1.head = _; rw [hhead]) rfl
                        (lex_punctuation_inv base l1 lexer1 _ _ _ t hk1 rfl rfl hl)
              · simp only [h4, if_false] at hl
                exact key _ (by show text_ptr.file l1.head = _; rw [hhead]) rfl
                  (lex_punctuation_inv base l1 lexer1 _ _ _ t hk1 rfl rfl hl)

/-! ## A run of the lexer over a source -/

theorem lexer_next_tokens_spans (base : rouleaux_lexer) (hq : base.peek_buffer.size = 0) :
    ∀ (n : Nat) (lexer lexer1 : rouleaux_lexer) (p : Nat) (ts : List token),
      at_pos base lexer p → lexer_next_tokens n lexer = some (ts, lexer1) →
      ∃ p1, spans_from base p ts p1 ∧ at_pos base lexer1 p1
  | 0, lexer, lexer1, p, ts, h, hr => by
    simp only [lexer_next_tokens, Option.some.injEq, Prod.mk.injEq] at hr
    obtain ⟨e1, e2⟩ := hr
    subst e1
    subst e2
    exact ⟨p, rfl, h⟩
  | n + 1, lexer, lexer1, p, ts, h, hr => by
    have hsz : ¬ (lexer.peek_buffer.size > 0) := by
      rw [h.2.2.1, hq]
      exact Nat.lt_irrefl 0
    simp only [lexer_next_tokens, lexer_next_token, hsz, if_false] at hr
    cases hi : lexer_next_token_internal lexer with
    | none => simp [hi] at hr
    | some r =>
      obtain ⟨t, l1⟩ := r
      simp only [hi] at hr
      cases hrest : lexer_next_tokens n l1 with
      | none => simp [hrest] at hr
      | some r2 =>
        obtain ⟨ts2, l2⟩ := r2
        simp only [hrest, Option.some.injEq, Prod.mk.injEq] at hr
        obtain ⟨e1, e2⟩ := hr
        subst e1
        subst e2
        obtain ⟨k, hws, hpos, htext, hloc, heof⟩ :=
          lexer_next_token_internal_inv base lexer l1 p t h hi
        obtain ⟨p1, hsp, hp1⟩ :=
          lexer_next_tokens_spans base hq n l1 l2 (p + k + t.length) ts2 hpos hrest
        exact ⟨p1, ⟨k, hws, htext, hloc, hpos.2.2.2.2.1, heof, hsp⟩, hp1⟩

theorem lexer_create_content (filename : String) (content : List Nat) :
    (lexer_create filename content).file_content = content := by
  by_cases hl : content.length = 0
  · simp only [lexer_create, hl, if_true]
    exact (List.length_eq_zero.mp hl).symm
  · simp only [lexer_create, hl, if_false]

theorem lexer_create_size (filename : String) (content : List Nat) :
    (lexer_create filename content).peek_buffer.size = 0 := by
  by_cases hl : content.length = 0
  · simp only [lexer_create, hl, if_true]
  · simp only [lexer_create, hl, if_false, peek_queue_create]

theorem lexer_create_filename (filename : String) (content : List Nat) :
    (lexer_create filename content).filename = filename := by
  by_cases hl : content.length = 0
  · simp only [lexer_create, hl, if_true]
  · simp only [lexer_create, hl, if_false]

theorem spans_from_location (base : rouleaux_lexer) :
    ∀ (ts : List token) (p p1 : Nat), spans_from base p ts p1 →
      ∀ t, t ∈ ts → ∃ o, t.text = text_ptr.file o ∧ o ≤ base.file_content.length ∧
        t.location = location_at base o
  | [], _, _, _, t, ht => by cases ht
  | t0 :: ts, p, p1, h, t, ht => by
    obtain ⟨k, _, htext, hloc, hle, _, hrest⟩ := h
    cases ht with
    | head => exact ⟨p + k, htext, by omega, hloc⟩
    | tail _ hmem => exact spans_from_location base ts _ p1 hrest t hmem

theorem lexer_stuck_step :
    lexer_next_token (lexer_create "f" [1])
      = some ({ token_zero with location := { row := 1, column := 1, filename := some "f" },
                                text := text_ptr.file 0 },
              lexer_create "f" [1]) := by
  decide

/-- C4 (lexer totality), evaluated where the code fails it.  On the source
that consists of the one byte 0x01, every call of `lexer_next_token` on the
fresh lexer returns a token of kind INVALID and of length 0 and leaves the
lexer where it was: for every `n` the first `n` calls return `n` such tokens,
none of kind EOF, and no byte is consumed. -/
theorem lexer_never_reaches_eof_on_invalid_byte (n : Nat) :
    ∃ ts, lexer_next_tokens n (lexer_create "f" [1]) = some (ts, lexer_create "f" [1]) ∧
      ts.length = n ∧
      ∀ t, t ∈ ts → t.type = TOKEN_INVALID ∧ t.length = 0 ∧ t.type ≠ TOKEN_EOF := by
  induction n with
  | zero => exact ⟨[], rfl, rfl, fun t ht => by cases ht⟩
  | succ n ih =>
    obtain ⟨ts, h1, h2, h3⟩ := ih
    refine ⟨{ token_zero with location := { row := 1, column := 1, filename := some "f" },
                              text := text_ptr.file 0 } :: ts, ?_,
      by rw [List.length_cons, h2], ?_⟩
    · simp only [lexer_next_tokens, lexer_stuck_step, h1]
    · intro t ht
      cases ht with
      | head => exact ⟨rfl, rfl, by decide⟩
      | tail _ hmem => exact h3 t hmem

/-- C5 (keyword classification), evaluated where the code fails it.  The
lexemes `i`, `fo` and `c`, proper prefixes of the keywords `if`, `for` and
`call`, are lexed as tokens of kind KEYWORD_IF, KEYWORD_FOR and KEYWORD_CALL,
not IDENTIFIER: `check_for_keyword` compares only the first `t.length` bytes
of each keyword. -/
theorem keyword_prefix_lexed_as_keyword :
    (lexer_next_token (lexer_create "f" (bytes "i;"))).map (fun r => (r.1.type, r.1.length))
        = some (TOKEN_KEYWORD_IF, 1) ∧
    (lexer_next_token (lexer_create "f" (bytes "fo;"))).map (fun r => (r.1.type, r.1.length))
        = some (TOKEN_KEYWORD_FOR, 2) ∧
    (lexer_next_token (lexer_create "f" (bytes "c;"))).map (fun r => (r.1.type, r.1.length))
        = some (TOKEN_KEYWORD_CALL, 1) ∧
    (lexer_next_token (lexer_create "f" (bytes "if;"))).map (fun r => (r.1.type, r.1.length))
        = some (TOKEN_KEYWORD_IF, 2) ∧
    (lexer_next_token (lexer_create "f" (bytes "ix;"))).map (fun r => (r.1.type, r.1.length))
        = some (TOKEN_IDENTIFIER, 2) := by
  decide

/-- C6 (invalid byte), evaluated where the code fails it.  On the source that
consists of the control byte 0x01, and on one whose first byte is 0x80,
`lexer_next_token` returns a token of kind INVALID, but the `has_error` flag
of the lexer is still false afterwards. -/
theorem invalid_byte_leaves_error_flag_clear :
    (lexer_next_token (lexer_create "f" [1])).map (fun r => (r.1.type, r.2.has_error))
        = some (TOKEN_INVALID, false) ∧
    (lexer_next_token (lexer_create "f" [128, 10])).map (fun r => (r.1.type, r.2.has_error))
        = some (TOKEN_INVALID, false) := by
  decide

/-- C8 (token location).  For every source and every token returned by a run
of calls of `lexer_next_token` on the fresh lexer: the token starts at an
offset `o` of the source, its row is 1 plus the number of LF bytes before
offset `o`, its column is 1 plus the number of bytes between the last LF
before `o` (or the start of the source) and `o`, and its filename is the
lexer's. -/
theorem token_location_row_column (filename : String) (content : List Nat) (n : Nat)
    (ts : List token) (lexer1 : rouleaux_lexer)
    (hr : lexer_next_tokens n (lexer_create filename content) = some (ts, lexer1)) :
    ∀ t, t ∈ ts → ∃ o, t.text = text_ptr.file o ∧ o ≤ content.length ∧
      t.location.row = 1 + (content.take o).count 10 ∧
      t.location.column
        = 1 + ((content.take o).reverse.takeWhile (fun c => c != 10)).length ∧
      t.location.filename = some filename := by
  obtain ⟨p1, hsp, _⟩ := lexer_next_tokens_spans (lexer_create filename content)
    (lexer_create_size filename content) n _ lexer1 0 ts (at_pos_self filename content) hr
  intro t ht
  obtain ⟨o, h1, h2, h3⟩ := spans_from_location _ ts 0 p1 hsp t ht
  rw [lexer_create_content] at h2
  refine ⟨o, h1, h2, ?_, ?_, ?_⟩
  · rw [h3]
    simp only [location_at, row_at, lexer_create_content]
  · rw [h3]
    simp only [location_at, column_at, lexer_create_content]
  · rw [h3]
    simp only [location_at, lexer_create_filename]

theorem token_location_row_column_witness :
    ∃ ts lexer1,
      lexer_next_tokens 4 (lexer_create "f" (bytes "a\n  bc\n\n d ")) = some (ts, lexer1) ∧
      ts.map (fun t => (token_offset t, t.location.row, t.location.column))
        = [(0, 1, 1), (4, 2, 3), (9, 4, 2), (11, 4, 4)] ∧
      ∀ t, t ∈ ts → ∃ o, t.text = text_ptr.file o ∧
        t.location.row = 1 + ((bytes "a\n  bc\n\n d ").take o).count 10 := by
  have hs : ∃ r, lexer_next_tokens 4 (lexer_create "f" (bytes "a\n  bc\n\n d ")) = some r ∧
      r.1.map (fun t => (token_offset t, t.location.row, t.location.column))
        = [(0, 1, 1), (4, 2, 3), (9, 4, 2), (11, 4, 4)] := by decide
  obtain ⟨⟨ts, lexer1⟩, hr, hm⟩ := hs
  refine ⟨ts, lexer1, hr, hm, ?_⟩
  intro t ht
  obtain ⟨o, h1, _, h3, _⟩ :=
    token_location_row_column "f" (bytes "a\n  bc\n\n d ") 4 ts lexer1 hr t ht
  exact ⟨o, h1, h3⟩

/-! ## Number literals -/

theorem scan_while_run (cond : List Nat → Nat → Option Bool) (base : rouleaux_lexer) :
    ∀ (k fuel : Nat) (lexer : rouleaux_lexer) (p length : Nat),
      at_pos base lexer p → p + k ≤ base.file_content.length → k < fuel →
      (∀ i, i < k → cond base.file_content (p + i) = some true) →
      cond base.file_content (p + k) = some false →
      ∃ lexer1, scan_while cond fuel lexer length = some (lexer1, length + k) ∧
        at_pos base lexer1 (p + k) ∧ lexer1.has_error = lexer.has_error
  | _, 0, _, _, _, _, _, hf, _, _ => absurd hf (Nat.not_lt_zero _)
  | 0, fuel + 1, lexer, p, length, h, _, _, _, hstop => by
    have hc0 : cond lexer.file_content lexer.head = some false := by
      rw [h.2.1, h.2.2.2.1]
      exact hstop
    exact ⟨lexer, by simp only [scan_while, hc0]; rfl, h, rfl⟩
  | k + 1, fuel + 1, lexer, p, length, h, hle, hf, hgo, hstop => by
    have hc0 : cond lexer.file_content lexer.head = some true := by
      rw [h.2.1, h.2.2.2.1]
      exact hgo 0 (Nat.succ_pos k)
    obtain ⟨l1, hl1, ha1, he1⟩ := skip_char_one base lexer p h (by omega)
    obtain ⟨l2, hl2, ha2, he2⟩ := scan_while_run cond base k fuel l1 (p + 1) (length + 1) ha1
      (by omega) (by omega)
      (fun i hi => by
        have := hgo (i + 1) (by omega)
        rw [Nat.add_assoc, Nat.add_comm 1 i]
        exact this)
      (by rw [Nat.add_assoc, Nat.add_comm 1 k]; exact hstop)
    refine ⟨l2, ?_, by rw [← Nat.add_assoc, Nat.add_right_comm]; exact ha2, by rw [he2, he1]⟩
    simp only [scan_while, hc0, hl1, hl2]
    congr 2
    omega

theorem numeric_not_whitespace (c : Nat) (h : is_numeric_character c = true) :
    is_whitespace c = false := by
  simp only [is_numeric_character, Bool.and_eq_true, decide_eq_true_eq] at h
  simp only [is_whitespace, Bool.or_eq_false_iff, beq_eq_false_iff_ne, ne_eq]
  omega

theorem numeric_not_identifier_start (c : Nat) (h : is_numeric_character c = true) :
    is_identifier_character c false = false := by
  simp only [is_numeric_character, Bool.and_eq_true, decide_eq_true_eq] at h
  simp only [is_identifier_character, Bool.false_eq_true, if_false, Bool.or_false,
    Bool.or_eq_false_iff, Bool.and_eq_false_iff, decide_eq_false_iff_not, beq_eq_false_iff_ne,
    ne_eq]
  omega

theorem lexer_next_token_internal_at_digit (base lexer : rouleaux_lexer) (p d0 : Nat)
    (h : at_pos base lexer p) (hd : base.file_content[p]? = some d0)
    (hn : is_numeric_character d0 = true) :
    ∃ lexer1, at_pos base lexer1 p ∧ lexer1.has_error = lexer.has_error ∧
      lexer_next_token_internal lexer
        = lex_number lexer1 { token_zero with location := location_at base p,
                                              text := text_ptr.file p, length := 0 } := by
  have hlt : p < base.file_content.length := by
    rcases Nat.lt_or_ge p base.file_content.length with h1 | h1
    · exact h1
    · rw [List.getElem?_eq_none h1] at hd
      cases hd
  obtain ⟨l1, hl1, ha1, he1⟩ := scan_while_run cond_whitespace base 0
    (lexer.file_content.length + 1) lexer p 0 h (by omega) (by omega)
    (fun i hi => absurd hi (Nat.not_lt_zero i))
    (by simp only [cond_whitespace, Nat.add_zero, hd, numeric_not_whitespace d0 hn])
  have ha1 : at_pos base l1 p := ha1
  refine ⟨l1, ha1, he1, ?_⟩
  obtain ⟨h1, h2, h3, h4, h5, h6, h7⟩ := ha1
  have heof : head_is_at_eof l1 = false := by
    simp [head_is_at_eof, h2, h4, hlt]
  have hpk : peek_byte l1 0 = some d0 := by
    simp only [peek_byte, h2, h4, Nat.add_zero, hd]
  have hloc : current_location l1 = location_at base p := by
    simp only [current_location, location_at, h1, h6, h7]
  simp only [lexer_next_token_internal, trim_left, hl1, Option.map_some', heof,
    Bool.false_eq_true, if_false, hpk, numeric_not_identifier_start d0 hn, hn, if_true, hloc, h4]

theorem lex_number_digits (base lexer : rouleaux_lexer) (p n : Nat) (t0 : token)
    (h : at_pos base lexer p) (h0 : t0.length = 0) (hn : 0 < n)
    (hdig : ∀ i, i < n → ∃ c, base.file_content[p + i]? = some c ∧
      is_numeric_character c = true)
    (c : Nat) (hc : base.file_content[p + n]? = some c)
    (hcn : is_numeric_character c = false) :
    ∃ l1 l2, skip_char lexer 1 = some l1 ∧
      scan_while cond_numeric (l1.file_content.length + 1) l1 (t0.length + 1) = some (l2, n) ∧
      at_pos base l2 (p + n) ∧ peek_byte l2 0 = some c ∧ l2.has_error = lexer.has_error := by
  have hlt : p + n < base.file_content.length := by
    rcases Nat.lt_or_ge (p + n) base.file_content.length with h1 | h1
    · exact h1
    · rw [List.getElem?_eq_none h1] at hc
      cases hc
  obtain ⟨l1, hl1, ha1, he1⟩ := skip_char_one base lexer p h (by omega)
  obtain ⟨l2, hl2, ha2, he2⟩ := scan_while_run cond_numeric base (n - 1)
    (l1.file_content.length + 1) l1 (p + 1) (t0.length + 1) ha1 (by omega)
    (by rw [ha1.2.1]; omega)
    (fun i hi => by
      obtain ⟨c1, hc1, hc2⟩ := hdig (i + 1) (by omega)
      have e : p + 1 + i = p + (i + 1) := by omega
      simp only [cond_numeric, e, hc1, hc2])
    (by
      have e : p + 1 + (n - 1) = p + n := by omega
      simp only [cond_numeric, e, hc, hcn])
  have e1 : t0.length + 1 + (n - 1) = n := by omega
  have e2 : p + 1 + (n - 1) = p + n := by omega
  rw [e1] at hl2
  rw [e2] at ha2
  refine ⟨l1, l2, hl1, hl2, ha2, ?_, by rw [he2, he1]⟩
  simp only [peek_byte, ha2.2.1, ha2.2.2.2.1, Nat.add_zero, hc]

theorem lex_number_integer (base lexer : rouleaux_lexer) (p n : Nat) (t0 : token)
    (h : at_pos base lexer p) (h0 : t0.length = 0) (hn : 0 < n)
    (hdig : ∀ i, i < n → ∃ c, base.file_content[p + i]? = some c ∧
      is_numeric_character c = true)
    (c : Nat) (hc : base.file_content[p + n]? = some c)
    (hcn : is_numeric_character c = false)
    (hdot : c = 46 → ∃ d, base.file_content[p + n + 1]? = some d ∧
      is_numeric_character d = false) :
    ∃ lexer1, lex_number lexer t0
        = some ({ t0 with length := n, type := TOKEN_INTEGER_LITERAL,
                          value := token_value.unsigned64 (strtoull
                            ((deref base.file_content t0.text).take n)) },
                lexer1) ∧
      at_pos base lexer1 (p + n) ∧ lexer1.has_error = lexer.has_error := by
  obtain ⟨l1, l2, hl1, hl2, ha2, hpk, he2⟩ := lex_number_digits base lexer p n t0 h h0 hn hdig
    c hc hcn
  refine ⟨l2, ?_, ha2, he2⟩
  simp only [lex_number, hl1, hl2, hpk, ha2.2.1, token_text]
  by_cases h46 : c = 46
  · obtain ⟨d, hd1, hd2⟩ := hdot h46
    have hpk1 : peek_byte l2 1 = some d := by
      simp only [peek_byte, ha2.2.1, ha2.2.2.2.1, hd1]
    simp only [h46, if_true, hpk1, hd2, Bool.false_eq_true, if_false]
  · simp only [h46, if_false]

theorem lex_number_float (base lexer : rouleaux_lexer) (p n m : Nat) (t0 : token)
    (h : at_pos base lexer p) (h0 : t0.length = 0) (hn : 0 < n)
    (hdig : ∀ i, i < n → ∃ c, base.file_content[p + i]? = some c ∧
      is_numeric_character c = true)
    (hc : base.file_content[p + n]? = some 46) (hm : 0 < m)
    (hfrac : ∀ j, j < m → ∃ d, base.file_content[p + n + 1 + j]? = some d ∧
      is_numeric_character d = true)
    (e : Nat) (he : base.file_content[p + n + 1 + m]? = some e)
    (hen : is_numeric_character e = false) :
    ∃ lexer1, lex_number lexer t0
        = some ({ t0 with length := n + 1 + m, type := TOKEN_FLOAT_LITERAL,
                          value := token_value.float64
                            ((deref base.file_content t0.text).take (n + 1 + m)) },
                lexer1) ∧
      at_pos base lexer1 (p + n + 1 + m) ∧ lexer1.has_error = lexer.has_error := by
  obtain ⟨l1, l2, hl1, hl2, ha2, hpk, he2⟩ := lex_number_digits base lexer p n t0 h h0 hn hdig
    46 hc (by decide)
  obtain ⟨d0, hd0, hd0n⟩ := hfrac 0 hm
  have hpk1 : peek_byte l2 1 = some d0 := by
    simp only [peek_byte, ha2.2.1, ha2.2.2.2.1]
    exact hd0
  have hlt : p + n + 1 + m < base.file_content.length := by
    rcases Nat.lt_or_ge (p + n + 1 + m) base.file_content.length with h1 | h1
    · exact h1
    · rw [List.getElem?_eq_none h1] at he
      cases he
  obtain ⟨l3, hl3, ha3, he3⟩ := skip_char_one base l2 (p + n) ha2 (by omega)
  obtain ⟨l4, hl4, ha4, he4⟩ := scan_while_run cond_numeric base m
    (l3.file_content.length + 1) l3 (p + n + 1) (n + 1) ha3 (by omega)
    (by rw [ha3.2.1]; omega)
    (fun j hj => by
      obtain ⟨d, hd1, hd2⟩ := hfrac j hj
      simp only [cond_numeric, hd1, hd2])
    (by simp only [cond_numeric, he, hen])
  refine ⟨l4, ?_, ha4, by rw [he4, he3, he2]⟩
  simp only [lex_number, hl1, hl2, hpk, if_true, hpk1, hd0n, hl3, hl4, ha4.2.1, token_text]

theorem lexer_next_token_size_zero (lexer : rouleaux_lexer) (h : lexer.peek_buffer.size = 0) :
    lexer_next_token lexer = lexer_next_token_internal lexer := by
  simp only [lexer_next_token, h, gt_iff_lt, Nat.lt_irrefl, if_false]

theorem append_digits_index (ds rest : List Nat)
    (hds : ∀ c, c ∈ ds → is_numeric_character c = true) :
    ∀ i, i < ds.length → ∃ c, (ds ++ rest)[0 + i]? = some c ∧ is_numeric_character c = true := by
  intro i hi
  refine ⟨ds[i], ?_, hds _ (List.getElem_mem hi)⟩
  rw [Nat.zero_add, List.getElem?_append_left hi, List.getElem?_eq_getElem hi]

theorem number_literal_integer (filename : String) (ds rest1 : List Nat) (c : Nat)
    (hne : ds ≠ []) (hds : ∀ c, c ∈ ds → is_numeric_character c = true)
    (hc : is_numeric_character c = false)
    (hdot : c = 46 → ∃ d rest2, rest1 = d :: rest2 ∧ is_numeric_character d = false) :
    ∃ t lexer1, lexer_next_token (lexer_create filename (ds ++ c :: rest1)) = some (t, lexer1) ∧
      t.type = TOKEN_INTEGER_LITERAL ∧ t.text = text_ptr.file 0 ∧ t.length = ds.length ∧
      token_text (ds ++ c :: rest1) t = ds ∧
      t.value = token_value.unsigned64 (strtoull ds) ∧ lexer1.head = ds.length := by
  have hlen : 0 < ds.length := List.length_pos.mpr hne
  have hcontent := lexer_create_content filename (ds ++ c :: rest1)
  obtain ⟨d0, hd0, hd0n⟩ := append_digits_index ds (c :: rest1) hds 0 hlen
  obtain ⟨l1, ha1, _, hint⟩ := lexer_next_token_internal_at_digit
    (lexer_create filename (ds ++ c :: rest1)) _ 0 d0 (at_pos_self _ _)
    (by rw [hcontent]; exact hd0) hd0n
  obtain ⟨l2, hl2, ha2, _⟩ := lex_number_integer (lexer_create filename (ds ++ c :: rest1))
    l1 0 ds.length
    { token_zero with location := location_at (lexer_create filename (ds ++ c :: rest1)) 0,
                      text := text_ptr.file 0, length := 0 }
    ha1 rfl hlen (by rw [hcontent]; exact append_digits_index ds (c :: rest1) hds) c
    (by rw [hcontent, Nat.zero_add, List.getElem?_append_right (Nat.le_refl _)]; simp) hc
    (by
      intro h46
      obtain ⟨d, rest2, hr, hd⟩ := hdot h46
      refine ⟨d, ?_, hd⟩
      rw [hcontent, Nat.zero_add,
        List.getElem?_append_right (Nat.le_succ _), hr]
      simp)
  refine ⟨_, l2, by rw [lexer_next_token_size_zero _ (lexer_create_size _ _), hint]; exact hl2,
    rfl, rfl, rfl, ?_, ?_, ?_⟩
  · simp only [token_text, deref, List.drop_zero, List.take_left']
  · simp only [hcontent, deref, List.drop_zero, List.take_left']
  · have := ha2.2.2.2.1
    rw [Nat.zero_add] at this
    exact this

theorem number_literal_float (filename : String) (ds fs rest1 : List Nat) (e : Nat)
    (hne : ds ≠ []) (hds : ∀ c, c ∈ ds → is_numeric_character c = true)
    (hfne : fs ≠ []) (hfs : ∀ d, d ∈ fs → is_numeric_character d = true)
    (he : is_numeric_character e = false) :
    ∃ t lexer1,
      lexer_next_token (lexer_create filename (ds ++ 46 :: (fs ++ e :: rest1)))
        = some (t, lexer1) ∧
      t.type = TOKEN_FLOAT_LITERAL ∧ t.text = text_ptr.file 0 ∧
      t.length = ds.length + 1 + fs.length ∧
      token_text (ds ++ 46 :: (fs ++ e :: rest1)) t = ds ++ 46 :: fs ∧
      lexer1.head = ds.length + 1 + fs.length := by
  have hlen : 0 < ds.length := List.length_pos.mpr hne
  have hflen : 0 < fs.length := List.length_pos.mpr hfne
  have hcontent := lexer_create_content filename (ds ++ 46 :: (fs ++ e :: rest1))
  obtain ⟨d0, hd0, hd0n⟩ := append_digits_index ds (46 :: (fs ++ e :: rest1)) hds 0 hlen
  obtain ⟨l1, ha1, _, hint⟩ := lexer_next_token_internal_at_digit
    (lexer_create filename (ds ++ 46 :: (fs ++ e :: rest1))) _ 0 d0 (at_pos_self _ _)
    (by rw [hcontent]; exact hd0) hd0n
  have hsplit : ds ++ 46 :: (fs ++ e :: rest1) = (ds ++ 46 :: fs) ++ e :: rest1 := by simp
  have hl1 : (ds ++ 46 :: fs).length = ds.length + 1 + fs.length := by
    simp; omega
  obtain ⟨l2, hl2, ha2, _⟩ := lex_number_float
    (lexer_create filename (ds ++ 46 :: (fs ++ e :: rest1)))
    l1 0 ds.length fs.length
    { token_zero with
        location := location_at (lexer_create filename (ds ++ 46 :: (fs ++ e :: rest1))) 0,
        text := text_ptr.file 0, length := 0 }
    ha1 rfl hlen
    (by rw [hcontent]; exact append_digits_index ds _ hds)
    (by rw [hcontent, Nat.zero_add, List.getElem?_append_right (Nat.le_refl _)]; simp)
    hflen
    (by
      intro j hj
      refine ⟨fs[j], ?_, hfs _ (List.getElem_mem hj)⟩
      rw [hcontent, Nat.zero_add, List.getElem?_append_right (by omega)]
      have e1 : ds.length + 1 + j - ds.length = j + 1 := by omega
      rw [e1, List.getElem?_cons_succ, List.getElem?_append_left hj,
        List.getElem?_eq_getElem hj])
    e
    (by
      rw [hcontent, Nat.zero_add, hsplit, ← hl1,
        List.getElem?_append_right (Nat.le_refl _)]
      simp)
    he
  refine ⟨_, l2, by rw [lexer_next_token_size_zero _ (lexer_create_size _ _), hint]; exact hl2,
    rfl, rfl, rfl, ?_, ?_⟩
  · simp only [token_text, deref, List.drop_zero]
    rw [hsplit, ← hl1, List.take_left']
    rfl
  · have := ha2.2.2.2.1
    rw [Nat.zero_add] at this
    exact this

/-- C9 (number literals).  For every source that starts with a run `ds` of
`n >= 1` digits, where the bytes the lexer looks at after the run lie inside
the buffer: if the run is followed by a byte `c` that is no digit, and `c` is
not a '.' followed by a digit, the first token is INTEGER_LITERAL with the
text `ds` (length exactly `n`) and the value of `ds`; if the run is followed
by '.', a run `fs` of at least one digit and then a byte that is no digit,
the first token is FLOAT_LITERAL with the text `ds . fs`. -/
theorem number_literal_token (filename : String) (ds : List Nat) (hne : ds ≠ [])
    (hds : ∀ c, c ∈ ds → is_numeric_character c = true) :
    (∀ c rest1, is_numeric_character c = false →
      (c = 46 → ∃ d rest2, rest1 = d :: rest2 ∧ is_numeric_character d = false) →
      ∃ t lexer1,
        lexer_next_token (lexer_create filename (ds ++ c :: rest1)) = some (t, lexer1) ∧
        t.type = TOKEN_INTEGER_LITERAL ∧ t.text = text_ptr.file 0 ∧ t.length = ds.length ∧
        token_text (ds ++ c :: rest1) t = ds ∧
        t.value = token_value.unsigned64 (strtoull ds) ∧ lexer1.head = ds.length) ∧
    (∀ fs e rest1, fs ≠ [] → (∀ d, d ∈ fs → is_numeric_character d = true) →
      is_numeric_character e = false →
      ∃ t lexer1,
        lexer_next_token (lexer_create filename (ds ++ 46 :: (fs ++ e :: rest1)))
          = some (t, lexer1) ∧
        t.type = TOKEN_FLOAT_LITERAL ∧ t.text = text_ptr.file 0 ∧
        t.length = ds.length + 1 + fs.length ∧
        token_text (ds ++ 46 :: (fs ++ e :: rest1)) t = ds ++ 46 :: fs ∧
        lexer1.head = ds.length + 1 + fs.length) :=
  ⟨fun c rest1 hc hdot => number_literal_integer filename ds rest1 c hne hds hc hdot,
   fun fs e rest1 hfne hfs he => number_literal_float filename ds fs rest1 e hne hds hfne hfs he⟩

theorem number_literal_token_witness :
    (∃ t lexer1, lexer_next_token (lexer_create "f" (bytes "1. ")) = some (t, lexer1) ∧
      t.type = TOKEN_INTEGER_LITERAL ∧ t.length = 1 ∧
      t.value = token_value.unsigned64 1) ∧
    (∃ t lexer1, lexer_next_token (lexer_create "f" (bytes "12.50.2\n")) = some (t, lexer1) ∧
      t.type = TOKEN_FLOAT_LITERAL ∧ t.length = 5) ∧
    (lexer_next_tokens 3 (lexer_create "f" (bytes "1. "))).map
        (fun r => r.1.map (fun t => (t.type, t.length)))
      = some [(TOKEN_INTEGER_LITERAL, 1), (TOKEN_PERIOD, 1), (TOKEN_EOF, 0)] ∧
    (lexer_next_tokens 4 (lexer_create "f" (bytes "1.5.2\n"))).map
        (fun r => r.1.map (fun t => (t.type, t.length)))
      = some [(TOKEN_FLOAT_LITERAL, 3), (TOKEN_PERIOD, 1), (TOKEN_INTEGER_LITERAL, 1),
              (TOKEN_EOF, 0)] := by
  refine ⟨?_, ?_, by decide, by decide⟩
  · obtain ⟨t, lexer1, h1, h2, _, h4, _, h6, _⟩ :=
      (number_literal_token "f" [49] (by decide) (by decide)).1 46 [32] (by decide)
        (fun _ => ⟨32, [], rfl, by decide⟩)
    exact ⟨t, lexer1, h1, h2, h4, h6⟩
  · obtain ⟨t, lexer1, h1, h2, _, h4, _, _⟩ :=
      (number_literal_token "f" [49, 50] (by decide) (by decide)).2 [53, 48] 46 [50, 10]
        (by decide) (by decide) (by decide)
    exact ⟨t, lexer1, h1, h2, h4⟩

/-! ## The parser on a token stream -/

theorem lexer_next_tokens_cons (n : Nat) (lexer lexer2 : rouleaux_lexer) (t : token)
    (ts : List token) (h : lexer_next_tokens (n + 1) lexer = some (t :: ts, lexer2)) :
    ∃ lexer1, lexer_next_token lexer = some (t, lexer1) ∧
      lexer_next_tokens n lexer1 = some (ts, lexer2) := by
  simp only [lexer_next_tokens] at h
  cases hn : lexer_next_token lexer with
  | none => simp [hn] at h
  | some r =>
    obtain ⟨t1, l1⟩ := r
    simp only [hn] at h
    cases hr : lexer_next_tokens n l1 with
    | none => simp [hr] at h
    | some r2 =>
      obtain ⟨ts2, l2⟩ := r2
      simp only [hr, Option.some.injEq, Prod.mk.injEq, List.cons.injEq] at h
      obtain ⟨⟨e1, e2⟩, e3⟩ := h
      subst e1
      subst e2
      subst e3
      exact ⟨l1, rfl, hr⟩

theorem lexer_next_tokens_of_equiv (n : Nat) (a b a1 : rouleaux_lexer) (ts : List token)
    (h : lexer_equiv a b) (ha : lexer_next_tokens n a = some (ts, a1)) :
    ∃ b1, lexer_next_tokens n b = some (ts, b1) := by
  have he := lexer_next_tokens_equiv n a b h
  rw [ha] at he
  cases hb : lexer_next_tokens n b with
  | none => rw [hb] at he; cases he
  | some r =>
    rw [hb] at he
    simp only [Option.map_some', Option.some.injEq] at he
    exact ⟨r.2, by rw [he]⟩

theorem lexer_yields_next (lexer : rouleaux_lexer) (t : token) (ts : List token)
    (h : lexer_yields lexer (t :: ts)) :
    ∃ lexer1, lexer_next_token lexer = some (t, lexer1) ∧ lexer_yields lexer1 ts := by
  obtain ⟨hwf, l2, hr⟩ := h
  obtain ⟨l1, hn, hrest⟩ := lexer_next_tokens_cons _ _ _ _ _ hr
  exact ⟨l1, hn, lexer_next_token_wf lexer l1 t hwf hn, l2, hrest⟩

theorem lexer_yields_peek (lexer : rouleaux_lexer) (t : token) (ts : List token)
    (h : lexer_yields lexer (t :: ts)) :
    ∃ lexer1, lexer_peek_token lexer = some (t, lexer1) ∧ lexer_yields lexer1 (t :: ts) := by
  obtain ⟨hwf, l2, hr⟩ := h
  obtain ⟨l1, hn, hrest⟩ := lexer_next_tokens_cons _ _ _ _ _ hr
  cases hpe : pending lexer with
  | nil =>
    have hi : lexer_next_token_internal lexer = some (t, l1) := by
      rw [← lexer_next_token_empty lexer hwf hpe]
      exact hn
    obtain ⟨q1, hq1, hwf1, hc1⟩ := lexer_peek_token_empty lexer l1 t hwf hpe hi
    obtain ⟨q2, hq2, hwf2, hc2⟩ := lexer_next_token_pending (with_queue l1 q1) t [] hwf1 hc1
    have hq0 := lexer_next_token_internal_queue lexer l1 t hi
    have hwfl1 : lexer_wf l1 := lexer_next_token_wf lexer l1 t hwf hn
    have heq : lexer_equiv l1 (with_queue (with_queue l1 q1) q2) := by
      refine ⟨hwfl1, hwf2, ?_, rfl⟩
      have e1 : pending l1 = pending lexer := by simp only [pending, hq0]
      rw [e1, hpe]
      exact hc2.symm
    obtain ⟨b1, hb1⟩ := lexer_next_tokens_of_equiv _ _ _ _ _ heq hrest
    refine ⟨with_queue l1 q1, hq1, hwf1, b1, ?_⟩
    simp only [List.length_cons, lexer_next_tokens, hq2, hb1]
  | cons t0 ps =>
    obtain ⟨q1, hq1, _, _⟩ := lexer_next_token_pending lexer t0 ps hwf hpe
    rw [hq1] at hn
    simp only [Option.some.injEq, Prod.mk.injEq] at hn
    obtain ⟨e1, _⟩ := hn
    subst e1
    exact ⟨lexer, lexer_peek_token_pending lexer t0 ps hwf hpe, hwf, l2, hr⟩

theorem binary_operator_type_cases (t : token_type) (type : ast_node_type)
    (h : binary_operator_type t = some type) :
    t = TOKEN_PLUS ∨ t = TOKEN_MINUS ∨ t = TOKEN_ASTERISK ∨ t = TOKEN_FORWARD_SLASH ∨
      t = TOKEN_PERCENT ∨ t = TOKEN_GREATER_THAN ∨ t = TOKEN_LESS_THAN := by
  simp only [binary_operator_type] at h
  split_ifs at h with h1 h2 h3 h4 h5 h6 h7
  · exact Or.inl h1
  · exact Or.inr (Or.inl h2)
  · exact Or.inr (Or.inr (Or.inl h3))
  · exact Or.inr (Or.inr (Or.inr (Or.inl h4)))
  · exact Or.inr (Or.inr (Or.inr (Or.inr (Or.inl h5))))
  · exact Or.inr (Or.inr (Or.inr (Or.inr (Or.inr (Or.inl h6)))))
  · exact Or.inr (Or.inr (Or.inr (Or.inr (Or.inr (Or.inr h7)))))

theorem binary_operator_not_primary (t : token_type) (type : ast_node_type)
    (h : binary_operator_type t = some type) :
    t ≠ TOKEN_LEFT_PAREN ∧ t ≠ TOKEN_IDENTIFIER ∧ literal_node_type t = none := by
  rcases binary_operator_type_cases t type h with e | e | e | e | e | e | e <;>
    (rw [e]; decide)

theorem primary_not_paren (t : token_type) (type : ast_node_type)
    (h : primary_node_type t = some type) : t ≠ TOKEN_LEFT_PAREN := by
  intro e
  rw [e] at h
  simp [primary_node_type, literal_node_type] at h

theorem parser_parse_expression_stop (parser : rouleaux_parser_t) (lexer : rouleaux_lexer)
    (z : token) (rest : List token) (fuel : Nat)
    (hy : lexer_yields lexer (z :: rest)) (hz : binary_operator_type z.type = none) :
    ∃ r lexer1, parser_parse_expression (fuel + 1) { parser with lexer := lexer }
        = some (r, { parser with lexer := lexer1 }) ∧
      r.success = false ∧ lexer_yields lexer1 (z :: rest) := by
  obtain ⟨l1, hp, hy1⟩ := lexer_yields_peek lexer z rest hy
  refine ⟨parse_result_error z
    ("Unexpected token '" ++ printable l1.file_content z ++ "', in expression"), l1, ?_, rfl,
    hy1⟩
  rw [parser_parse_expression]
  simp only [hp, hz]

theorem attach_left_operand_failure (expression : ast_node) (fallback r : parse_result)
    (parser : rouleaux_parser_t) (h : r.success = false) :
    attach_left_operand expression fallback (r, parser) = some (fallback, parser) := by
  simp only [attach_left_operand, h, if_true]

theorem parser_parse_primary_last (parser : rouleaux_parser_t) (lexer : rouleaux_lexer)
    (c z : token) (rest : List token) (type : ast_node_type) (fuel : Nat)
    (hy : lexer_yields lexer (c :: z :: rest))
    (hc : primary_node_type c.type = some type)
    (hz : binary_operator_type z.type = none)
    (hzc : c.type = TOKEN_IDENTIFIER → z.type ≠ TOKEN_LEFT_PAREN) :
    ∃ lexer1, parser_parse_expression_beginning (fuel + 2) { parser with lexer := lexer }
        = some (parse_result_success (leaf_node type c), { parser with lexer := lexer1 }) ∧
      lexer_yields lexer1 (z :: rest) := by
  obtain ⟨l1, hp1, hy1⟩ := lexer_yields_peek lexer c (z :: rest) hy
  obtain ⟨l2, hn2, hy2⟩ := lexer_yields_next l1 c (z :: rest) hy1
  have hnp := primary_not_paren c.type type hc
  by_cases hid : c.type = TOKEN_IDENTIFIER
  · obtain ⟨l3, hp3, hy3⟩ := lexer_yields_peek l2 z rest hy2
    obtain ⟨r, l4, hstop, hfail, hy4⟩ := parser_parse_expression_stop parser l3 z rest fuel hy3 hz
    have hty : type = AST_IDENTIFIER := by
      simp only [primary_node_type, hid, if_true, Option.some.injEq] at hc
      exact hc.symm
    refine ⟨l4, ?_, hy4⟩
    rw [parser_parse_expression_beginning]
    simp only [hp1, if_neg hnp, if_pos hid, hn2, set_token, ast_node_create, hp3,
      if_neg (hzc hid), hstop, attach_left_operand_failure _ _ _ _ hfail, hty, leaf_node]
  · obtain ⟨r, l4, hstop, hfail, hy4⟩ := parser_parse_expression_stop parser l2 z rest fuel hy2 hz
    have hlit : literal_node_type c.type = some type := by
      simp only [primary_node_type, hid, if_false] at hc
      exact hc
    refine ⟨l4, ?_, hy4⟩
    rw [parser_parse_expression_beginning]
    simp only [hp1, if_neg hnp, if_neg hid, hlit, hn2, set_token, ast_node_create, hstop,
      attach_left_operand_failure _ _ _ _ hfail, leaf_node]

theorem parser_parse_primary_then_operator (parser : rouleaux_parser_t) (lexer : rouleaux_lexer)
    (x o : token) (ts rest : List token) (tx top : ast_node_type) (fuel : Nat)
    (right root : ast_node) (rotated : Bool)
    (hy : lexer_yields lexer (x :: o :: ts))
    (hx : primary_node_type x.type = some tx)
    (ho : binary_operator_type o.type = some top)
    (hright : ∀ lexer1, lexer_yields lexer1 ts →
      ∃ lexer2, parser_parse_expression_beginning fuel { parser with lexer := lexer1 }
          = some (parse_result_success right, { parser with lexer := lexer2 }) ∧
        lexer_yields lexer2 rest)
    (hfix : fix_precedence (binary_node top o (leaf_node tx x) right) = some (rotated, root)) :
    ∃ lexer1, parser_parse_expression_beginning (fuel + 3) { parser with lexer := lexer }
        = some (parse_result_success root, { parser with lexer := lexer1 }) ∧
      lexer_yields lexer1 rest := by
  obtain ⟨l1, hp1, hy1⟩ := lexer_yields_peek lexer x (o :: ts) hy
  obtain ⟨l2, hn2, hy2⟩ := lexer_yields_next l1 x (o :: ts) hy1
  obtain ⟨l3, hp3, hy3⟩ := lexer_yields_peek l2 o ts hy2
  obtain ⟨l3b, hp3b, hy3b⟩ := lexer_yields_peek l3 o ts hy3
  obtain ⟨l4, hn4, hy4⟩ := lexer_yields_next l3 o ts hy3
  obtain ⟨l4b, hn4b, hy4b⟩ := lexer_yields_next l3b o ts hy3b
  obtain ⟨l5, hr5, hy5⟩ := hright l4 hy4
  obtain ⟨l5b, hr5b, hy5b⟩ := hright l4b hy4b
  have hnp := primary_not_paren x.type tx hx
  obtain ⟨ho1, _, _⟩ := binary_operator_not_primary o.type top ho
  have hexpr : ∀ la lb lc, lexer_peek_token la = some (o, lb) →
      lexer_next_token lb = some (o, lc) →
      ∀ ld, parser_parse_expression_beginning fuel { parser with lexer := lc }
          = some (parse_result_success right, { parser with lexer := ld }) →
      parser_parse_expression (fuel + 2) { parser with lexer := la }
        = some (parse_result_success (binary_node top o ast_node.null right),
            { parser with lexer := ld }) := by
    intro la lb lc h1 h2 ld h3
    rw [parser_parse_expression]
    simp only [h1, ho]
    rw [parse_binary_operator]
    simp only [h2, h3, parse_result_success, Bool.true_eq_false, if_false, binary_node]
  have hattach : ∀ (e : parse_result) (pr : rouleaux_parser_t),
      attach_left_operand (leaf_node tx x) e
        (parse_result_success (binary_node top o ast_node.null right), pr)
      = some (parse_result_success root, pr) := by
    intro e pr
    have hs : set_left_child (binary_node top o ast_node.null right) (leaf_node tx x)
        = some (binary_node top o (leaf_node tx x) right) := rfl
    simp only [attach_left_operand, parse_result_success, Bool.true_eq_false, if_false, hs,
      hfix]
  by_cases hid : x.type = TOKEN_IDENTIFIER
  · have hty : tx = AST_IDENTIFIER := by
      simp only [primary_node_type, hid, if_true, Option.some.injEq] at hx
      exact hx.symm
    refine ⟨l5b, ?_, hy5b⟩
    have hleaf : ast_node.node AST_IDENTIFIER x ast_node.null ast_node.null ast_node.null
        node_list.nil false = leaf_node tx x := by rw [hty]; rfl
    rw [parser_parse_expression_beginning]
    simp only [hp1, if_neg hnp, if_pos hid, hn2, set_token, ast_node_create, hp3, if_neg ho1,
      hexpr l3 l3b l4b hp3b hn4b l5b hr5b, hleaf, hattach]
  · have hlit : literal_node_type x.type = some tx := by
      simp only [primary_node_type, hid, if_false] at hx
      exact hx
    refine ⟨l5, ?_, hy5⟩
    have hleaf : ast_node.node tx x ast_node.null ast_node.null ast_node.null
        node_list.nil false = leaf_node tx x := rfl
    rw [parser_parse_expression_beginning]
    simp only [hp1, if_neg hnp, if_neg hid, hlit, hn2, set_token, ast_node_create,
      hexpr l2 l3 l4 hp3 hn4 l5 hr5, hleaf, hattach]

theorem primary_precedence (t : token_type) (type : ast_node_type)
    (h : primary_node_type t = some type) : precedence_from_node_type type = -1 := by
  simp only [primary_node_type, literal_node_type] at h
  split_ifs at h <;> (cases h; rfl)

theorem binary_operator_precedence (t : token_type) (type : ast_node_type)
    (h : binary_operator_type t = some type) : 1 ≤ precedence_from_node_type type := by
  simp only [binary_operator_type] at h
  split_ifs at h <;> (cases h; decide)

theorem fix_precedence_leaf (top tx ty : ast_node_type) (o x y : token)
    (hy : precedence_from_node_type ty = -1) :
    fix_precedence (binary_node top o (leaf_node tx x) (leaf_node ty y))
      = some (false, binary_node top o (leaf_node tx x) (leaf_node ty y)) := by
  simp only [fix_precedence, binary_node, leaf_node, hy]
  rfl

theorem fix_precedence_operator (t1 t2 : ast_node_type) (o1 o2 : token) (l m r : ast_node)
    (h2 : 1 ≤ precedence_from_node_type t2) :
    fix_precedence (binary_node t1 o1 l (binary_node t2 o2 m r))
      = some (decide (precedence_from_node_type t1 > precedence_from_node_type t2),
          if precedence_from_node_type t1 > precedence_from_node_type t2 then
            binary_node t2 o2 (binary_node t1 o1 l m) r
          else binary_node t1 o1 l (binary_node t2 o2 m r)) := by
  have hn : ¬ (precedence_from_node_type t2 < 0) := by omega
  by_cases hgt : precedence_from_node_type t1 > precedence_from_node_type t2
  · simp only [fix_precedence, binary_node, hn, if_false, hgt, Bool.false_eq_true, false_or,
      and_self, if_true, decide_True]
  · simp only [fix_precedence, binary_node, hn, if_false, hgt, Bool.false_eq_true, false_or,
      false_and, decide_False]

theorem parser_parse_three_operands (parser : rouleaux_parser_t) (a o1 b o2 c z : token)
    (rest : List token) (ta tb tc t1 t2 : ast_node_type)
    (hy : lexer_yields parser.lexer (a :: o1 :: b :: o2 :: c :: z :: rest))
    (ha : primary_node_type a.type = some ta) (hb : primary_node_type b.type = some tb)
    (hc : primary_node_type c.type = some tc)
    (h1 : binary_operator_type o1.type = some t1) (h2 : binary_operator_type o2.type = some t2)
    (hz : binary_operator_type z.type = none)
    (hzc : c.type = TOKEN_IDENTIFIER → z.type ≠ TOKEN_LEFT_PAREN) (fuel : Nat) :
    ∃ lexer1, parser_parse_expression_beginning (fuel + 8) parser
        = some (parse_result_success
            (if precedence_from_node_type t1 > precedence_from_node_type t2 then
              binary_node t2 o2 (binary_node t1 o1 (leaf_node ta a) (leaf_node tb b))
                (leaf_node tc c)
            else binary_node t1 o1 (leaf_node ta a)
                (binary_node t2 o2 (leaf_node tb b) (leaf_node tc c))),
          { parser with lexer := lexer1 }) ∧
      lexer_yields lexer1 (z :: rest) := by
  have hinner : ∀ lexer1, lexer_yields lexer1 (b :: o2 :: c :: z :: rest) →
      ∃ lexer2, parser_parse_expression_beginning (fuel + 2 + 3) { parser with lexer := lexer1 }
          = some (parse_result_success (binary_node t2 o2 (leaf_node tb b) (leaf_node tc c)),
              { parser with lexer := lexer2 }) ∧
        lexer_yields lexer2 (z :: rest) := by
    intro lexer1 hy1
    exact parser_parse_primary_then_operator parser lexer1 b o2 (c :: z :: rest) (z :: rest)
      tb t2 (fuel + 2) (leaf_node tc c) _ false hy1 hb h2
      (fun lexer3 hy3 => parser_parse_primary_last parser lexer3 c z rest tc fuel hy3 hc hz hzc)
      (fix_precedence_leaf t2 tb tc o2 b c (primary_precedence c.type tc hc))
  exact parser_parse_primary_then_operator parser parser.lexer a o1 (b :: o2 :: c :: z :: rest)
    (z :: rest) ta t1 (fuel + 2 + 3) _ _ _ hy ha h1 hinner
    (fix_precedence_operator t1 t2 o1 o2 (leaf_node ta a) (leaf_node tb b) (leaf_node tc c)
      (binary_operator_precedence o2.type t2 h2))

/-- C10 (precedence across two levels).  For every parser whose lexer yields
the tokens `a op1 b op2 c z ...`, where `a`, `b`, `c` are primaries
(identifier, integer, float or string literal), `op1` and `op2` are among
`+ - * / % < >`, and `z` does not continue the expression,
`parser_parse_expression_beginning` returns (with enough fuel: 8 levels of
calls) a success whose tree is `op2(op1(a, b), c)` when
`prec(op1) > prec(op2)` and `op1(a, op2(b, c))` when `prec(op1) < prec(op2)`;
the token `z` is left in the lexer. -/
theorem precedence_across_two_levels (parser : rouleaux_parser_t) (a o1 b o2 c z : token)
    (rest : List token) (ta tb tc t1 t2 : ast_node_type)
    (hy : lexer_yields parser.lexer (a :: o1 :: b :: o2 :: c :: z :: rest))
    (ha : primary_node_type a.type = some ta) (hb : primary_node_type b.type = some tb)
    (hc : primary_node_type c.type = some tc)
    (h1 : binary_operator_type o1.type = some t1) (h2 : binary_operator_type o2.type = some t2)
    (hz : binary_operator_type z.type = none)
    (hzc : c.type = TOKEN_IDENTIFIER → z.type ≠ TOKEN_LEFT_PAREN) (fuel : Nat) :
    ∃ tree parser1, parser_parse_expression_beginning (fuel + 8) parser
        = some (parse_result_success tree, parser1) ∧
      (precedence_from_node_type t1 > precedence_from_node_type t2 →
        tree = binary_node t2 o2 (binary_node t1 o1 (leaf_node ta a) (leaf_node tb b))
          (leaf_node tc c)) ∧
      (precedence_from_node_type t1 < precedence_from_node_type t2 →
        tree = binary_node t1 o1 (leaf_node ta a)
          (binary_node t2 o2 (leaf_node tb b) (leaf_node tc c))) ∧
      lexer_yields parser1.lexer (z :: rest) := by
  obtain ⟨lexer1, hp, hy1⟩ := parser_parse_three_operands parser a o1 b o2 c z rest ta tb tc
    t1 t2 hy ha hb hc h1 h2 hz hzc fuel
  refine ⟨_, _, hp, ?_, ?_, hy1⟩
  · intro hgt
    rw [if_pos hgt]
  · intro hlt
    rw [if_neg (by omega)]

theorem precedence_across_two_levels_witness :
    ∃ parser1,
      parser_parse_expression_beginning 8 (parser_create "f" (bytes "3 + 4 * 2;"))
        = some (parse_result_success
            (binary_node AST_BINARY_OPERATOR_PLUS
              (source_token "f" TOKEN_PLUS 2 1 1 3 token_value.zero)
              (leaf_node AST_INTEGER_LITERAL
                (source_token "f" TOKEN_INTEGER_LITERAL 0 1 1 1 (token_value.unsigned64 3)))
              (binary_node AST_BINARY_OPERATOR_MULTIPLY
                (source_token "f" TOKEN_ASTERISK 6 1 1 7 token_value.zero)
                (leaf_node AST_INTEGER_LITERAL
                  (source_token "f" TOKEN_INTEGER_LITERAL 4 1 1 5 (token_value.unsigned64 4)))
                (leaf_node AST_INTEGER_LITERAL
                  (source_token "f" TOKEN_INTEGER_LITERAL 8 1 1 9
                    (token_value.unsigned64 2))))), parser1) := by
  have hr : lexer_next_tokens 6 (parser_create "f" (bytes "3 + 4 * 2;")).lexer
      = some ([source_token "f" TOKEN_INTEGER_LITERAL 0 1 1 1 (token_value.unsigned64 3),
               source_token "f" TOKEN_PLUS 2 1 1 3 token_value.zero,
               source_token "f" TOKEN_INTEGER_LITERAL 4 1 1 5 (token_value.unsigned64 4),
               source_token "f" TOKEN_ASTERISK 6 1 1 7 token_value.zero,
               source_token "f" TOKEN_INTEGER_LITERAL 8 1 1 9 (token_value.unsigned64 2),
               source_token "f" TOKEN_SEMICOLON 9 1 1 10 token_value.zero],
              { (parser_create "f" (bytes "3 + 4 * 2;")).lexer with
                  head := 10, current_column := 11 }) := by
    decide
  obtain ⟨tree, parser1, hp, _, hlt, _⟩ :=
    precedence_across_two_levels (parser_create "f" (bytes "3 + 4 * 2;"))
      (source_token "f" TOKEN_INTEGER_LITERAL 0 1 1 1 (token_value.unsigned64 3))
      (source_token "f" TOKEN_PLUS 2 1 1 3 token_value.zero)
      (source_token "f" TOKEN_INTEGER_LITERAL 4 1 1 5 (token_value.unsigned64 4))
      (source_token "f" TOKEN_ASTERISK 6 1 1 7 token_value.zero)
      (source_token "f" TOKEN_INTEGER_LITERAL 8 1 1 9 (token_value.unsigned64 2))
      (source_token "f" TOKEN_SEMICOLON 9 1 1 10 token_value.zero) []
      AST_INTEGER_LITERAL AST_INTEGER_LITERAL AST_INTEGER_LITERAL
      AST_BINARY_OPERATOR_PLUS AST_BINARY_OPERATOR_MULTIPLY
      ⟨by decide, _, hr⟩ (by decide) (by decide) (by decide) (by decide) (by decide)
      (by decide) (by decide) 0
  have ht := hlt (by decide)
  rw [ht] at hp
  exact ⟨parser1, hp⟩

/-! ## Grouping of operator chains -/

/-- C11 (left associativity).  For every parser whose lexer yields the tokens
`a op1 b op2 c z ...` with primaries `a`, `b`, `c`, operators `op1`, `op2` of
EQUAL precedence, and a token `z` that does not continue the expression,
`parser_parse_expression_beginning` returns the right-to-left grouping
`op1(a, op2(b, c))`, which is not the left-to-right grouping
`op2(op1(a, b), c)` the claim requires. -/
theorem equal_precedence_groups_to_the_right (parser : rouleaux_parser_t)
    (a o1 b o2 c z : token) (rest : List token) (ta tb tc t1 t2 : ast_node_type)
    (hy : lexer_yields parser.lexer (a :: o1 :: b :: o2 :: c :: z :: rest))
    (ha : primary_node_type a.type = some ta) (hb : primary_node_type b.type = some tb)
    (hc : primary_node_type c.type = some tc)
    (h1 : binary_operator_type o1.type = some t1) (h2 : binary_operator_type o2.type = some t2)
    (hz : binary_operator_type z.type = none)
    (hzc : c.type = TOKEN_IDENTIFIER → z.type ≠ TOKEN_LEFT_PAREN)
    (heq : precedence_from_node_type t1 = precedence_from_node_type t2) (fuel : Nat) :
    ∃ parser1, parser_parse_expression_beginning (fuel + 8) parser
        = some (parse_result_success
            (binary_node t1 o1 (leaf_node ta a)
              (binary_node t2 o2 (leaf_node tb b) (leaf_node tc c))), parser1) ∧
      binary_node t1 o1 (leaf_node ta a) (binary_node t2 o2 (leaf_node tb b) (leaf_node tc c))
        ≠ binary_node t2 o2 (binary_node t1 o1 (leaf_node ta a) (leaf_node tb b))
            (leaf_node tc c) ∧
      lexer_yields parser1.lexer (z :: rest) := by
  obtain ⟨lexer1, hp, hy1⟩ := parser_parse_three_operands parser a o1 b o2 c z rest ta tb tc
    t1 t2 hy ha hb hc h1 h2 hz hzc fuel
  rw [if_neg (by omega)] at hp
  refine ⟨_, hp, ?_, hy1⟩
  intro h
  simp [binary_node, leaf_node] at h

theorem equal_precedence_groups_to_the_right_witness :
    ∃ parser1,
      parser_parse_expression_beginning 8 (parser_create "f" (bytes "3 - 4 - 2;"))
        = some (parse_result_success
            (binary_node AST_BINARY_OPERATOR_MINUS
              (source_token "f" TOKEN_MINUS 2 1 1 3 token_value.zero)
              (leaf_node AST_INTEGER_LITERAL
                (source_token "f" TOKEN_INTEGER_LITERAL 0 1 1 1 (token_value.unsigned64 3)))
              (binary_node AST_BINARY_OPERATOR_MINUS
                (source_token "f" TOKEN_MINUS 6 1 1 7 token_value.zero)
                (leaf_node AST_INTEGER_LITERAL
                  (source_token "f" TOKEN_INTEGER_LITERAL 4 1 1 5 (token_value.unsigned64 4)))
                (leaf_node AST_INTEGER_LITERAL
                  (source_token "f" TOKEN_INTEGER_LITERAL 8 1 1 9
                    (token_value.unsigned64 2))))), parser1) := by
  have hr : lexer_next_tokens 6 (parser_create "f" (bytes "3 - 4 - 2;")).lexer
      = some ([source_token "f" TOKEN_INTEGER_LITERAL 0 1 1 1 (token_value.unsigned64 3),
               source_token "f" TOKEN_MINUS 2 1 1 3 token_value.zero,
               source_token "f" TOKEN_INTEGER_LITERAL 4 1 1 5 (token_value.unsigned64 4),
               source_token "f" TOKEN_MINUS 6 1 1 7 token_value.zero,
               source_token "f" TOKEN_INTEGER_LITERAL 8 1 1 9 (token_value.unsigned64 2),
               source_token "f" TOKEN_SEMICOLON 9 1 1 10 token_value.zero],
              { (parser_create "f" (bytes "3 - 4 - 2;")).lexer with
                  head := 10, current_column := 11 }) := by
    decide
  obtain ⟨parser1, hp, _, _⟩ :=
    equal_precedence_groups_to_the_right (parser_create "f" (bytes "3 - 4 - 2;"))
      (source_token "f" TOKEN_INTEGER_LITERAL 0 1 1 1 (token_value.unsigned64 3))
      (source_token "f" TOKEN_MINUS 2 1 1 3 token_value.zero)
      (source_token "f" TOKEN_INTEGER_LITERAL 4 1 1 5 (token_value.unsigned64 4))
      (source_token "f" TOKEN_MINUS 6 1 1 7 token_value.zero)
      (source_token "f" TOKEN_INTEGER_LITERAL 8 1 1 9 (token_value.unsigned64 2))
      (source_token "f" TOKEN_SEMICOLON 9 1 1 10 token_value.zero) []
      AST_INTEGER_LITERAL AST_INTEGER_LITERAL AST_INTEGER_LITERAL
      AST_BINARY_OPERATOR_MINUS AST_BINARY_OPERATOR_MINUS
      ⟨by decide, _, hr⟩ (by decide) (by decide) (by decide) (by decide) (by decide)
      (by decide) (by decide) (by decide) 0
  exact ⟨parser1, hp⟩

theorem parser_parse_four_operands (parser : rouleaux_parser_t) (a o1 b o2 c o3 d z : token)
    (rest : List token) (ta tb tc td t1 t2 t3 : ast_node_type)
    (hy : lexer_yields parser.lexer (a :: o1 :: b :: o2 :: c :: o3 :: d :: z :: rest))
    (ha : primary_node_type a.type = some ta) (hb : primary_node_type b.type = some tb)
    (hc : primary_node_type c.type = some tc) (hd : primary_node_type d.type = some td)
    (h1 : binary_operator_type o1.type = some t1) (h2 : binary_operator_type o2.type = some t2)
    (h3 : binary_operator_type o3.type = some t3)
    (hz : binary_operator_type z.type = none)
    (hzd : d.type = TOKEN_IDENTIFIER → z.type ≠ TOKEN_LEFT_PAREN)
    (h12 : precedence_from_node_type t1 > precedence_from_node_type t2)
    (h23 : precedence_from_node_type t2 > precedence_from_node_type t3) (fuel : Nat) :
    ∃ lexer1, parser_parse_expression_beginning (fuel + 11) parser
        = some (parse_result_success
            (binary_node t3 o3
              (binary_node t1 o1 (leaf_node ta a)
                (binary_node t2 o2 (leaf_node tb b) (leaf_node tc c)))
              (leaf_node td d)),
          { parser with lexer := lexer1 }) ∧
      lexer_yields lexer1 (z :: rest) := by
  have hin2 : ∀ lexer1, lexer_yields lexer1 (c :: o3 :: d :: z :: rest) →
      ∃ lexer2, parser_parse_expression_beginning (fuel + 2 + 3) { parser with lexer := lexer1 }
          = some (parse_result_success (binary_node t3 o3 (leaf_node tc c) (leaf_node td d)),
              { parser with lexer := lexer2 }) ∧
        lexer_yields lexer2 (z :: rest) := by
    intro lexer1 hy1
    exact parser_parse_primary_then_operator parser lexer1 c o3 (d :: z :: rest) (z :: rest)
      tc t3 (fuel + 2) (leaf_node td d) _ false hy1 hc h3
      (fun lexer3 hy3 => parser_parse_primary_last parser lexer3 d z rest td fuel hy3 hd hz hzd)
      (fix_precedence_leaf t3 tc td o3 c d (primary_precedence d.type td hd))
  have hin1 : ∀ lexer1, lexer_yields lexer1 (b :: o2 :: c :: o3 :: d :: z :: rest) →
      ∃ lexer2, parser_parse_expression_beginning (fuel + 2 + 3 + 3)
            { parser with lexer := lexer1 }
          = some (parse_result_success
              (binary_node t3 o3 (binary_node t2 o2 (leaf_node tb b) (leaf_node tc c))
                (leaf_node td d)),
              { parser with lexer := lexer2 }) ∧
        lexer_yields lexer2 (z :: rest) := by
    intro lexer1 hy1
    have hf := fix_precedence_operator t2 t3 o2 o3 (leaf_node tb b) (leaf_node tc c)
      (leaf_node td d) (binary_operator_precedence o3.type t3 h3)
    rw [if_pos h23] at hf
    exact parser_parse_primary_then_operator parser lexer1 b o2 (c :: o3 :: d :: z :: rest)
      (z :: rest) tb t2 (fuel + 2 + 3) _ _ _ hy1 hb h2 hin2 hf
  have hf := fix_precedence_operator t1 t3 o1 o3 (leaf_node ta a)
    (binary_node t2 o2 (leaf_node tb b) (leaf_node tc c)) (leaf_node td d)
    (binary_operator_precedence o3.type t3 h3)
  rw [if_pos (by omega)] at hf
  exact parser_parse_primary_then_operator parser parser.lexer a o1
    (b :: o2 :: c :: o3 :: d :: z :: rest) (z :: rest) ta t1 (fuel + 2 + 3 + 3) _ _ _ hy ha h1
    hin1 hf

theorem lower_operator_child_of_binary (t1 t2 : ast_node_type) (o2 : token) (l r : ast_node)
    (h2 : 1 ≤ precedence_from_node_type t2)
    (h12 : precedence_from_node_type t1 > precedence_from_node_type t2) :
    lower_operator_child t1 (binary_node t2 o2 l r) = true := by
  simp only [lower_operator_child, binary_node, Bool.not_false, Bool.and_true,
    Bool.and_eq_true, decide_eq_true_eq]
  omega

/-- C12 (ordering across precedence levels in longer chains).  For every
parser whose lexer yields `a op1 b op2 c op3 d z ...` with primaries `a`, `b`,
`c`, `d`, operators with `prec(op1) > prec(op2) > prec(op3)` (such as
`a * b + c < d`), and a token `z` that does not continue the expression,
`parser_parse_expression_beginning` returns `op3(op1(a, op2(b, c)), d)`: the
node `op1` has the unparenthesized operator `op2` of strictly lower precedence
as its right child, so the tree is not ordered across precedence levels. -/
theorem chain_of_three_operators_misordered (parser : rouleaux_parser_t)
    (a o1 b o2 c o3 d z : token) (rest : List token) (ta tb tc td t1 t2 t3 : ast_node_type)
    (hy : lexer_yields parser.lexer (a :: o1 :: b :: o2 :: c :: o3 :: d :: z :: rest))
    (ha : primary_node_type a.type = some ta) (hb : primary_node_type b.type = some tb)
    (hc : primary_node_type c.type = some tc) (hd : primary_node_type d.type = some td)
    (h1 : binary_operator_type o1.type = some t1) (h2 : binary_operator_type o2.type = some t2)
    (h3 : binary_operator_type o3.type = some t3)
    (hz : binary_operator_type z.type = none)
    (hzd : d.type = TOKEN_IDENTIFIER → z.type ≠ TOKEN_LEFT_PAREN)
    (h12 : precedence_from_node_type t1 > precedence_from_node_type t2)
    (h23 : precedence_from_node_type t2 > precedence_from_node_type t3) (fuel : Nat) :
    ∃ tree parser1, parser_parse_expression_beginning (fuel + 11) parser
        = some (parse_result_success tree, parser1) ∧
      tree = binary_node t3 o3
        (binary_node t1 o1 (leaf_node ta a)
          (binary_node t2 o2 (leaf_node tb b) (leaf_node tc c)))
        (leaf_node td d) ∧
      precedence_ordered tree = false ∧
      lexer_yields parser1.lexer (z :: rest) := by
  obtain ⟨lexer1, hp, hy1⟩ := parser_parse_four_operands parser a o1 b o2 c o3 d z rest
    ta tb tc td t1 t2 t3 hy ha hb hc hd h1 h2 h3 hz hzd h12 h23 fuel
  refine ⟨_, _, hp, rfl, ?_, hy1⟩
  have hl := lower_operator_child_of_binary t1 t2 o2 (leaf_node tb b) (leaf_node tc c)
    (binary_operator_precedence o2.type t2 h2) h12
  simp only [binary_node] at hl
  simp [binary_node, precedence_ordered, hl]

theorem chain_of_three_operators_misordered_witness :
    ∃ parser1,
      parser_parse_expression_beginning 11 (parser_create "f" (bytes "1 * 2 + 3 < 4;"))
        = some (parse_result_success
            (binary_node AST_BINARY_OPERATOR_LESS_THAN
              (source_token "f" TOKEN_LESS_THAN 10 1 1 11 token_value.zero)
              (binary_node AST_BINARY_OPERATOR_MULTIPLY
                (source_token "f" TOKEN_ASTERISK 2 1 1 3 token_value.zero)
                (leaf_node AST_INTEGER_LITERAL
                  (source_token "f" TOKEN_INTEGER_LITERAL 0 1 1 1 (token_value.unsigned64 1)))
                (binary_node AST_BINARY_OPERATOR_PLUS
                  (source_token "f" TOKEN_PLUS 6 1 1 7 token_value.zero)
                  (leaf_node AST_INTEGER_LITERAL
                    (source_token "f" TOKEN_INTEGER_LITERAL 4 1 1 5 (token_value.unsigned64 2)))
                  (leaf_node AST_INTEGER_LITERAL
                    (source_token "f" TOKEN_INTEGER_LITERAL 8 1 1 9
                      (token_value.unsigned64 3)))))
              (leaf_node AST_INTEGER_LITERAL
                (source_token "f" TOKEN_INTEGER_LITERAL 12 1 1 13 (token_value.unsigned64 4)))),
          parser1) := by
  have hr : lexer_next_tokens 8 (parser_create "f" (bytes "1 * 2 + 3 < 4;")).lexer
      = some ([source_token "f" TOKEN_INTEGER_LITERAL 0 1 1 1 (token_value.unsigned64 1),
               source_token "f" TOKEN_ASTERISK 2 1 1 3 token_value.zero,
               source_token "f" TOKEN_INTEGER_LITERAL 4 1 1 5 (token_value.unsigned64 2),
               source_token "f" TOKEN_PLUS 6 1 1 7 token_value.zero,
               source_token "f" TOKEN_INTEGER_LITERAL 8 1 1 9 (token_value.unsigned64 3),
               source_token "f" TOKEN_LESS_THAN 10 1 1 11 token_value.zero,
               source_token "f" TOKEN_INTEGER_LITERAL 12 1 1 13 (token_value.unsigned64 4),
               source_token "f" TOKEN_SEMICOLON 13 1 1 14 token_value.zero],
              { (parser_create "f" (bytes "1 * 2 + 3 < 4;")).lexer with
                  head := 14, current_column := 15 }) := by
    decide
  obtain ⟨tree, parser1, hp, ht, _, _⟩ :=
    chain_of_three_operators_misordered (parser_create "f" (bytes "1 * 2 + 3 < 4;"))
      (source_token "f" TOKEN_INTEGER_LITERAL 0 1 1 1 (token_value.unsigned64 1))
      (source_token "f" TOKEN_ASTERISK 2 1 1 3 token_value.zero)
      (source_token "f" TOKEN_INTEGER_LITERAL 4 1 1 5 (token_value.unsigned64 2))
      (source_token "f" TOKEN_PLUS 6 1 1 7 token_value.zero)
      (source_token "f" TOKEN_INTEGER_LITERAL 8 1 1 9 (token_value.unsigned64 3))
      (source_token "f" TOKEN_LESS_THAN 10 1 1 11 token_value.zero)
      (source_token "f" TOKEN_INTEGER_LITERAL 12 1 1 13 (token_value.unsigned64 4))
      (source_token "f" TOKEN_SEMICOLON 13 1 1 14 token_value.zero) []
      AST_INTEGER_LITERAL AST_INTEGER_LITERAL AST_INTEGER_LITERAL AST_INTEGER_LITERAL
      AST_BINARY_OPERATOR_MULTIPLY AST_BINARY_OPERATOR_PLUS AST_BINARY_OPERATOR_LESS_THAN
      ⟨by decide, _, hr⟩ (by decide) (by decide) (by decide) (by decide) (by decide)
      (by decide) (by decide) (by decide) (by decide) (by decide) (by decide) 0
  rw [ht] at hp
  exact ⟨parser1, hp⟩
/-! ## The rotation -/

theorem fix_precedence_in_order (type : ast_node_type) (t : token)
    (left right c2 : ast_node) (children : node_list) (parens : Bool)
    (h : right ≠ ast_node.null) :
    ∃ rotated root,
      fix_precedence (ast_node.node type t left right c2 children parens)
        = some (rotated, root) ∧
      in_order root = in_order (ast_node.node type t left right c2 children parens) := by
  cases right with
  | null => exact absurd rfl h
  | node rtype rt rleft rright rc2 rchildren rparens =>
    simp only [fix_precedence]
    split_ifs
    · exact ⟨_, _, rfl, rfl⟩
    · refine ⟨_, _, rfl, ?_⟩
      simp only [in_order, List.append_assoc]
    · exact ⟨_, _, rfl, rfl⟩

/-- C13 (the rotation preserves the in-order sequence).  For every node `R`
whose right child is not null, `fix_precedence` returns, and the tree it
leaves in `*original_root` has the same in-order sequence of tokens as `R`,
rotated or not; the in-order sequence of the nodes themselves (type, token
and flag of each) is the same too, so no node is added or lost. -/
theorem rotation_preserves_in_order (type : ast_node_type) (t : token)
    (left right c2 : ast_node) (children : node_list) (parens : Bool)
    (h : right ≠ ast_node.null) :
    ∃ rotated root,
      fix_precedence (ast_node.node type t left right c2 children parens)
        = some (rotated, root) ∧
      in_order_tokens root
        = in_order_tokens (ast_node.node type t left right c2 children parens) ∧
      in_order root = in_order (ast_node.node type t left right c2 children parens) := by
  obtain ⟨rotated, root, hf, ho⟩ := fix_precedence_in_order type t left right c2 children
    parens h
  exact ⟨rotated, root, hf, by rw [in_order_tokens, in_order_tokens, ho], ho⟩

theorem rotation_preserves_in_order_witness :
    ∃ rotated root,
      fix_precedence
          (ast_node.node AST_BINARY_OPERATOR_MULTIPLY
            (source_token "f" TOKEN_ASTERISK 2 1 1 3 token_value.zero)
            (leaf_node AST_IDENTIFIER (source_token "f" TOKEN_IDENTIFIER 0 1 1 1 token_value.zero))
            (binary_node AST_BINARY_OPERATOR_PLUS
              (source_token "f" TOKEN_PLUS 6 1 1 7 token_value.zero)
              (leaf_node AST_IDENTIFIER
                (source_token "f" TOKEN_IDENTIFIER 4 1 1 5 token_value.zero))
              (leaf_node AST_IDENTIFIER
                (source_token "f" TOKEN_IDENTIFIER 8 1 1 9 token_value.zero)))
            ast_node.null node_list.nil false)
        = some (rotated, root) ∧
      in_order_tokens root
        = [source_token "f" TOKEN_IDENTIFIER 0 1 1 1 token_value.zero,
           source_token "f" TOKEN_ASTERISK 2 1 1 3 token_value.zero,
           source_token "f" TOKEN_IDENTIFIER 4 1 1 5 token_value.zero,
           source_token "f" TOKEN_PLUS 6 1 1 7 token_value.zero,
           source_token "f" TOKEN_IDENTIFIER 8 1 1 9 token_value.zero] := by
  obtain ⟨rotated, root, hf, ht, _⟩ :=
    rotation_preserves_in_order AST_BINARY_OPERATOR_MULTIPLY
      (source_token "f" TOKEN_ASTERISK 2 1 1 3 token_value.zero)
      (leaf_node AST_IDENTIFIER (source_token "f" TOKEN_IDENTIFIER 0 1 1 1 token_value.zero))
      (binary_node AST_BINARY_OPERATOR_PLUS
        (source_token "f" TOKEN_PLUS 6 1 1 7 token_value.zero)
        (leaf_node AST_IDENTIFIER (source_token "f" TOKEN_IDENTIFIER 4 1 1 5 token_value.zero))
        (leaf_node AST_IDENTIFIER (source_token "f" TOKEN_IDENTIFIER 8 1 1 9 token_value.zero)))
      ast_node.null node_list.nil false (by simp [binary_node])
  exact ⟨rotated, root, hf, by rw [ht]; rfl⟩

theorem is_binary_operator_iff (type : ast_node_type) :
    is_binary_operator type = true ↔ ¬ (precedence_from_node_type type < 0) := by
  cases type <;> decide

theorem fix_precedence_eq_rule_amended (original : ast_node) :
    fix_precedence original = fix_precedence_rule_amended original := by
  cases original with
  | null => rfl
  | node type t left right c2 children parens =>
    cases right with
    | null => rfl
    | node rtype rt rleft rright rc2 rchildren rparens =>
      simp only [fix_precedence, fix_precedence_rule_amended, rotate]
      by_cases hb : precedence_from_node_type rtype < 0
      · have hn : ¬ (is_binary_operator rtype = true) := by
          rw [is_binary_operator_iff]; exact not_not.mpr hb
        simp only [hb, if_true, hn, Bool.false_eq_true, false_and, if_false]
      · have hy : is_binary_operator rtype = true := (is_binary_operator_iff rtype).mpr hb
        simp only [hb, if_false, hy, true_and]

/-- C14, as amended (the rotation rule of `fix_precedence`).  For every root
`R = (L op_R C)` with `C = (X op_C Y)`, `fix_precedence` rotates (returns
true, new root `C` with left child `R`, and `X` as the right child of `R`) if
and only if `op_C` is a binary operator and (`R` is parenthesized or
(`precedence(op_R) > precedence(op_C)` and `C` is not parenthesized)); in
every other case it returns false and leaves the tree unchanged.  Both sides
are undefined where `R` or `C` is null. -/
theorem fix_precedence_rotation_rule (original : ast_node) :
    fix_precedence original = fix_precedence_rule_amended original :=
  fix_precedence_eq_rule_amended original

/-- C14, as stated, fails: with `R = (a * C)` parenthesized and
`C = (b + c)` parenthesized too, the rule of the claim leaves the tree as it
is, and `fix_precedence` rotates through the parenthesized `C`. -/
theorem fix_precedence_rotates_parenthesized_child :
    fix_precedence
        (parenthesized_node AST_BINARY_OPERATOR_MULTIPLY token_zero
          (leaf_node AST_IDENTIFIER token_zero)
          (parenthesized_node AST_BINARY_OPERATOR_PLUS token_zero
            (leaf_node AST_IDENTIFIER token_zero) (leaf_node AST_IDENTIFIER token_zero)))
      = some (true,
          parenthesized_node AST_BINARY_OPERATOR_PLUS token_zero
            (parenthesized_node AST_BINARY_OPERATOR_MULTIPLY token_zero
              (leaf_node AST_IDENTIFIER token_zero) (leaf_node AST_IDENTIFIER token_zero))
            (leaf_node AST_IDENTIFIER token_zero)) ∧
    fix_precedence_rule
        (parenthesized_node AST_BINARY_OPERATOR_MULTIPLY token_zero
          (leaf_node AST_IDENTIFIER token_zero)
          (parenthesized_node AST_BINARY_OPERATOR_PLUS token_zero
            (leaf_node AST_IDENTIFIER token_zero) (leaf_node AST_IDENTIFIER token_zero)))
      = some (false,
          parenthesized_node AST_BINARY_OPERATOR_MULTIPLY token_zero
            (leaf_node AST_IDENTIFIER token_zero)
            (parenthesized_node AST_BINARY_OPERATOR_PLUS token_zero
              (leaf_node AST_IDENTIFIER token_zero) (leaf_node AST_IDENTIFIER token_zero))) := by
  decide
/-! ## Parenthesized operands -/

theorem parser_parse_parenthesized_last (parser : rouleaux_parser_t) (lexer : rouleaux_lexer)
    (lp rp z : token) (ts rest : List token) (fuel : Nat) (inner tree : ast_node)
    (hy : lexer_yields lexer (lp :: ts))
    (hlp : lp.type = TOKEN_LEFT_PAREN)
    (hinner : ∀ lexer1, lexer_yields lexer1 ts →
      ∃ lexer2, parser_parse_expression_beginning (fuel + 1) { parser with lexer := lexer1 }
          = some (parse_result_success inner, { parser with lexer := lexer2 }) ∧
        lexer_yields lexer2 (rp :: z :: rest))
    (hrp : rp.type = TOKEN_RIGHT_PAREN)
    (hz : binary_operator_type z.type = none)
    (hflag : set_enclosed_in_parens inner true = some tree) :
    ∃ lexer1, parser_parse_expression_beginning (fuel + 2) { parser with lexer := lexer }
        = some (parse_result_success tree, { parser with lexer := lexer1 }) ∧
      lexer_yields lexer1 (z :: rest) := by
  obtain ⟨l1, hp1, hy1⟩ := lexer_yields_peek lexer lp ts hy
  obtain ⟨l2, hn2, hy2⟩ := lexer_yields_next l1 lp ts hy1
  obtain ⟨l3, hr3, hy3⟩ := hinner l2 hy2
  obtain ⟨l4, hp4, hy4⟩ := lexer_yields_peek l3 rp (z :: rest) hy3
  obtain ⟨l5, hn5, hy5⟩ := lexer_yields_next l4 rp (z :: rest) hy4
  obtain ⟨r, l6, hstop, hfail, hy6⟩ := parser_parse_expression_stop parser l5 z rest fuel hy5 hz
  refine ⟨l6, ?_, hy6⟩
  rw [parser_parse_expression_beginning]
  simp only [hp1, hlp, if_true, hn2, hr3, parse_result_success, Bool.true_eq_false, if_false,
    hp4, hrp, ne_eq, not_true_eq_false, hflag, hn5, hstop,
    attach_left_operand_failure _ _ _ _ hfail]

theorem parser_parse_parenthesized_then_operator (parser : rouleaux_parser_t)
    (lexer : rouleaux_lexer) (lp rp o : token) (ts ts2 rest : List token) (fuel : Nat)
    (top : ast_node_type) (inner tree right root : ast_node) (rotated : Bool)
    (hy : lexer_yields lexer (lp :: ts))
    (hlp : lp.type = TOKEN_LEFT_PAREN)
    (hinner : ∀ lexer1, lexer_yields lexer1 ts →
      ∃ lexer2, parser_parse_expression_beginning (fuel + 2) { parser with lexer := lexer1 }
          = some (parse_result_success inner, { parser with lexer := lexer2 }) ∧
        lexer_yields lexer2 (rp :: o :: ts2))
    (hrp : rp.type = TOKEN_RIGHT_PAREN)
    (ho : binary_operator_type o.type = some top)
    (hright : ∀ lexer1, lexer_yields lexer1 ts2 →
      ∃ lexer2, parser_parse_expression_beginning fuel { parser with lexer := lexer1 }
          = some (parse_result_success right, { parser with lexer := lexer2 }) ∧
        lexer_yields lexer2 rest)
    (hflag : set_enclosed_in_parens inner true = some tree)
    (hfix : fix_precedence (binary_node top o tree right) = some (rotated, root)) :
    ∃ lexer1, parser_parse_expression_beginning (fuel + 3) { parser with lexer := lexer }
        = some (parse_result_success root, { parser with lexer := lexer1 }) ∧
      lexer_yields lexer1 rest := by
  obtain ⟨l1, hp1, hy1⟩ := lexer_yields_peek lexer lp ts hy
  obtain ⟨l2, hn2, hy2⟩ := lexer_yields_next l1 lp ts hy1
  obtain ⟨l3, hr3, hy3⟩ := hinner l2 hy2
  obtain ⟨l4, hp4, hy4⟩ := lexer_yields_peek l3 rp (o :: ts2) hy3
  obtain ⟨l5, hn5, hy5⟩ := lexer_yields_next l4 rp (o :: ts2) hy4
  obtain ⟨l6, hp6, hy6⟩ := lexer_yields_peek l5 o ts2 hy5
  obtain ⟨l7, hn7, hy7⟩ := lexer_yields_next l6 o ts2 hy6
  obtain ⟨l8, hr8, hy8⟩ := hright l7 hy7
  refine ⟨l8, ?_, hy8⟩
  have hexpr : parser_parse_expression (fuel + 2) { parser with lexer := l5 }
      = some (parse_result_success (binary_node top o ast_node.null right),
          { parser with lexer := l8 }) := by
    rw [parser_parse_expression]
    simp only [hp6, ho]
    rw [parse_binary_operator]
    simp only [hn7, hr8, parse_result_success, Bool.true_eq_false, if_false, binary_node]
  have hs : set_left_child (binary_node top o ast_node.null right) tree
      = some (binary_node top o tree right) := rfl
  rw [parser_parse_expression_beginning]
  simp only [hp1, hlp, if_true, hn2, hr3, parse_result_success, Bool.true_eq_false, if_false,
    hp4, hrp, ne_eq, not_true_eq_false, hflag, hn5]
  simp only [parse_result_success] at hexpr
  simp only [hexpr, attach_left_operand, Bool.true_eq_false, if_false, hs, hfix]

theorem fix_precedence_right_leaf (top ty : ast_node_type) (o y : token) (left : ast_node)
    (hy : precedence_from_node_type ty = -1) :
    fix_precedence (binary_node top o left (leaf_node ty y))
      = some (false, binary_node top o left (leaf_node ty y)) := by
  simp only [fix_precedence, binary_node, leaf_node, hy]
  rfl

theorem fix_precedence_right_parenthesized (t1 t2 : ast_node_type) (o1 o2 : token)
    (l m r : ast_node) :
    fix_precedence (binary_node t2 o2 l (parenthesized_node t1 o1 m r))
      = some (false, binary_node t2 o2 l (parenthesized_node t1 o1 m r)) := by
  simp only [fix_precedence, binary_node, parenthesized_node, Bool.false_eq_true, false_or,
    Bool.true_eq_false, and_false, if_false, ite_self]

theorem parser_parse_parenthesized_left (parser : rouleaux_parser_t)
    (lp a o1 b rp o2 c z : token) (rest : List token) (ta tb tc t1 t2 : ast_node_type)
    (hy : lexer_yields parser.lexer (lp :: a :: o1 :: b :: rp :: o2 :: c :: z :: rest))
    (hlp : lp.type = TOKEN_LEFT_PAREN) (hrp : rp.type = TOKEN_RIGHT_PAREN)
    (ha : primary_node_type a.type = some ta) (hb : primary_node_type b.type = some tb)
    (hc : primary_node_type c.type = some tc)
    (h1 : binary_operator_type o1.type = some t1) (h2 : binary_operator_type o2.type = some t2)
    (hz : binary_operator_type z.type = none)
    (hzc : c.type = TOKEN_IDENTIFIER → z.type ≠ TOKEN_LEFT_PAREN) (fuel : Nat) :
    ∃ lexer1, parser_parse_expression_beginning (fuel + 6) parser
        = some (parse_result_success
            (binary_node t2 o2 (parenthesized_node t1 o1 (leaf_node ta a) (leaf_node tb b))
              (leaf_node tc c)),
          { parser with lexer := lexer1 }) ∧
      lexer_yields lexer1 (z :: rest) := by
  have hrpn : binary_operator_type rp.type = none := by rw [hrp]; decide
  have hrpp : b.type = TOKEN_IDENTIFIER → rp.type ≠ TOKEN_LEFT_PAREN := by
    intro _; rw [hrp]; decide
  have hinner : ∀ lexer1, lexer_yields lexer1 (a :: o1 :: b :: rp :: o2 :: c :: z :: rest) →
      ∃ lexer2, parser_parse_expression_beginning (fuel + 3 + 2) { parser with lexer := lexer1 }
          = some (parse_result_success (binary_node t1 o1 (leaf_node ta a) (leaf_node tb b)),
              { parser with lexer := lexer2 }) ∧
        lexer_yields lexer2 (rp :: o2 :: c :: z :: rest) := by
    intro lexer1 hy1
    exact parser_parse_primary_then_operator parser lexer1 a o1 (b :: rp :: o2 :: c :: z :: rest)
      (rp :: o2 :: c :: z :: rest) ta t1 (fuel + 2) (leaf_node tb b) _ false hy1 ha h1
      (fun lexer3 hy3 => parser_parse_primary_last parser lexer3 b rp (o2 :: c :: z :: rest) tb
        fuel hy3 hb hrpn hrpp)
      (fix_precedence_leaf t1 ta tb o1 a b (primary_precedence b.type tb hb))
  exact parser_parse_parenthesized_then_operator parser parser.lexer lp rp o2
    (a :: o1 :: b :: rp :: o2 :: c :: z :: rest) (c :: z :: rest) (z :: rest) (fuel + 3) t2
    (binary_node t1 o1 (leaf_node ta a) (leaf_node tb b))
    (parenthesized_node t1 o1 (leaf_node ta a) (leaf_node tb b)) (leaf_node tc c) _ false
    hy hlp hinner hrp h2
    (fun lexer3 hy3 => parser_parse_primary_last parser lexer3 c z rest tc (fuel + 1) hy3 hc hz
      hzc)
    rfl
    (fix_precedence_right_leaf t2 tc o2 c _ (primary_precedence c.type tc hc))

theorem parser_parse_parenthesized_right (parser : rouleaux_parser_t)
    (a o2 lp b o1 c rp z : token) (rest : List token) (ta tb tc t1 t2 : ast_node_type)
    (hy : lexer_yields parser.lexer (a :: o2 :: lp :: b :: o1 :: c :: rp :: z :: rest))
    (hlp : lp.type = TOKEN_LEFT_PAREN) (hrp : rp.type = TOKEN_RIGHT_PAREN)
    (ha : primary_node_type a.type = some ta) (hb : primary_node_type b.type = some tb)
    (hc : primary_node_type c.type = some tc)
    (h1 : binary_operator_type o1.type = some t1) (h2 : binary_operator_type o2.type = some t2)
    (hz : binary_operator_type z.type = none) (fuel : Nat) :
    ∃ lexer1, parser_parse_expression_beginning (fuel + 9) parser
        = some (parse_result_success
            (binary_node t2 o2 (leaf_node ta a)
              (parenthesized_node t1 o1 (leaf_node tb b) (leaf_node tc c))),
          { parser with lexer := lexer1 }) ∧
      lexer_yields lexer1 (z :: rest) := by
  have hrpn : binary_operator_type rp.type = none := by rw [hrp]; decide
  have hrpp : c.type = TOKEN_IDENTIFIER → rp.type ≠ TOKEN_LEFT_PAREN := by
    intro _; rw [hrp]; decide
  have hinner : ∀ lexer1, lexer_yields lexer1 (b :: o1 :: c :: rp :: z :: rest) →
      ∃ lexer2, parser_parse_expression_beginning (fuel + 4 + 1) { parser with lexer := lexer1 }
          = some (parse_result_success (binary_node t1 o1 (leaf_node tb b) (leaf_node tc c)),
              { parser with lexer := lexer2 }) ∧
        lexer_yields lexer2 (rp :: z :: rest) := by
    intro lexer1 hy1
    exact parser_parse_primary_then_operator parser lexer1 b o1 (c :: rp :: z :: rest)
      (rp :: z :: rest) tb t1 (fuel + 2) (leaf_node tc c) _ false hy1 hb h1
      (fun lexer3 hy3 => parser_parse_primary_last parser lexer3 c rp (z :: rest) tc
        fuel hy3 hc hrpn hrpp)
      (fix_precedence_leaf t1 tb tc o1 b c (primary_precedence c.type tc hc))
  have hgroup : ∀ lexer1, lexer_yields lexer1 (lp :: b :: o1 :: c :: rp :: z :: rest) →
      ∃ lexer2, parser_parse_expression_beginning (fuel + 6) { parser with lexer := lexer1 }
          = some (parse_result_success
              (parenthesized_node t1 o1 (leaf_node tb b) (leaf_node tc c)),
              { parser with lexer := lexer2 }) ∧
        lexer_yields lexer2 (z :: rest) := by
    intro lexer1 hy1
    exact parser_parse_parenthesized_last parser lexer1 lp rp z
      (b :: o1 :: c :: rp :: z :: rest) rest (fuel + 4)
      (binary_node t1 o1 (leaf_node tb b) (leaf_node tc c)) _ hy1 hlp hinner hrp hz rfl
  exact parser_parse_primary_then_operator parser parser.lexer a o2
    (lp :: b :: o1 :: c :: rp :: z :: rest) (z :: rest) ta t2 (fuel + 6) _ _ false hy ha h2
    hgroup (fix_precedence_right_parenthesized t1 t2 o1 o2 _ _ _)

/-- C15 (parenthesized operands are kept intact).  For all binary operators
`op1`, `op2`, whatever their precedences, and primaries `a`, `b`, `c`: on the
tokens `( a op1 b ) op2 c z ...` the parser returns the tree with root `op2`
whose left child is `op1(a, b)` with `enclosed_in_parens = true` and whose
right child is `c`; on the tokens `a op2 ( b op1 c ) z ...` it returns
`op2(a, op1(b, c))` with the node `op1` flagged.  The token `z` does not
continue the expression and is left in the lexer. -/
theorem parenthesized_operands_kept_intact (parser : rouleaux_parser_t)
    (lp rp a b c o1 o2 z : token) (rest : List token) (ta tb tc t1 t2 : ast_node_type)
    (hlp : lp.type = TOKEN_LEFT_PAREN) (hrp : rp.type = TOKEN_RIGHT_PAREN)
    (ha : primary_node_type a.type = some ta) (hb : primary_node_type b.type = some tb)
    (hc : primary_node_type c.type = some tc)
    (h1 : binary_operator_type o1.type = some t1) (h2 : binary_operator_type o2.type = some t2)
    (hz : binary_operator_type z.type = none) (fuel : Nat) :
    (lexer_yields parser.lexer (lp :: a :: o1 :: b :: rp :: o2 :: c :: z :: rest) →
      (c.type = TOKEN_IDENTIFIER → z.type ≠ TOKEN_LEFT_PAREN) →
      ∃ parser1, parser_parse_expression_beginning (fuel + 6) parser
          = some (parse_result_success
              (binary_node t2 o2 (parenthesized_node t1 o1 (leaf_node ta a) (leaf_node tb b))
                (leaf_node tc c)), parser1) ∧
        lexer_yields parser1.lexer (z :: rest)) ∧
    (lexer_yields parser.lexer (a :: o2 :: lp :: b :: o1 :: c :: rp :: z :: rest) →
      ∃ parser1, parser_parse_expression_beginning (fuel + 9) parser
          = some (parse_result_success
              (binary_node t2 o2 (leaf_node ta a)
                (parenthesized_node t1 o1 (leaf_node tb b) (leaf_node tc c))), parser1) ∧
        lexer_yields parser1.lexer (z :: rest)) := by
  constructor
  · intro hy hzc
    obtain ⟨lexer1, hp, hy1⟩ := parser_parse_parenthesized_left parser lp a o1 b rp o2 c z rest
      ta tb tc t1 t2 hy hlp hrp ha hb hc h1 h2 hz hzc fuel
    exact ⟨_, hp, hy1⟩
  · intro hy
    obtain ⟨lexer1, hp, hy1⟩ := parser_parse_parenthesized_right parser a o2 lp b o1 c rp z rest
      ta tb tc t1 t2 hy hlp hrp ha hb hc h1 h2 hz fuel
    exact ⟨_, hp, hy1⟩

theorem parenthesized_operands_kept_intact_witness :
    (∃ parser1,
      parser_parse_expression_beginning 6 (parser_create "f" (bytes "(1 + 2) * 3;"))
        = some (parse_result_success
            (binary_node AST_BINARY_OPERATOR_MULTIPLY
              (source_token "f" TOKEN_ASTERISK 8 1 1 9 token_value.zero)
              (parenthesized_node AST_BINARY_OPERATOR_PLUS
                (source_token "f" TOKEN_PLUS 3 1 1 4 token_value.zero)
                (leaf_node AST_INTEGER_LITERAL
                  (source_token "f" TOKEN_INTEGER_LITERAL 1 1 1 2 (token_value.unsigned64 1)))
                (leaf_node AST_INTEGER_LITERAL
                  (source_token "f" TOKEN_INTEGER_LITERAL 5 1 1 6 (token_value.unsigned64 2))))
              (leaf_node AST_INTEGER_LITERAL
                (source_token "f" TOKEN_INTEGER_LITERAL 10 1 1 11 (token_value.unsigned64 3)))),
          parser1)) ∧
    (∃ parser1,
      parser_parse_expression_beginning 9 (parser_create "f" (bytes "1 * (2 + 3);"))
        = some (parse_result_success
            (binary_node AST_BINARY_OPERATOR_MULTIPLY
              (source_token "f" TOKEN_ASTERISK 2 1 1 3 token_value.zero)
              (leaf_node AST_INTEGER_LITERAL
                (source_token "f" TOKEN_INTEGER_LITERAL 0 1 1 1 (token_value.unsigned64 1)))
              (parenthesized_node AST_BINARY_OPERATOR_PLUS
                (source_token "f" TOKEN_PLUS 7 1 1 8 token_value.zero)
                (leaf_node AST_INTEGER_LITERAL
                  (source_token "f" TOKEN_INTEGER_LITERAL 5 1 1 6 (token_value.unsigned64 2)))
                (leaf_node AST_INTEGER_LITERAL
                  (source_token "f" TOKEN_INTEGER_LITERAL 9 1 1 10
                    (token_value.unsigned64 3))))),
          parser1)) := by
  have hr1 : lexer_next_tokens 8 (parser_create "f" (bytes "(1 + 2) * 3;")).lexer
      = some ([source_token "f" TOKEN_LEFT_PAREN 0 1 1 1 token_value.zero,
               source_token "f" TOKEN_INTEGER_LITERAL 1 1 1 2 (token_value.unsigned64 1),
               source_token "f" TOKEN_PLUS 3 1 1 4 token_value.zero,
               source_token "f" TOKEN_INTEGER_LITERAL 5 1 1 6 (token_value.unsigned64 2),
               source_token "f" TOKEN_RIGHT_PAREN 6 1 1 7 token_value.zero,
               source_token "f" TOKEN_ASTERISK 8 1 1 9 token_value.zero,
               source_token "f" TOKEN_INTEGER_LITERAL 10 1 1 11 (token_value.unsigned64 3),
               source_token "f" TOKEN_SEMICOLON 11 1 1 12 token_value.zero],
              { (parser_create "f" (bytes "(1 + 2) * 3;")).lexer with
                  head := 12, current_column := 13 }) := by
    decide
  have hr2 : lexer_next_tokens 8 (parser_create "f" (bytes "1 * (2 + 3);")).lexer
      = some ([source_token "f" TOKEN_INTEGER_LITERAL 0 1 1 1 (token_value.unsigned64 1),
               source_token "f" TOKEN_ASTERISK 2 1 1 3 token_value.zero,
               source_token "f" TOKEN_LEFT_PAREN 4 1 1 5 token_value.zero,
               source_token "f" TOKEN_INTEGER_LITERAL 5 1 1 6 (token_value.unsigned64 2),
               source_token "f" TOKEN_PLUS 7 1 1 8 token_value.zero,
               source_token "f" TOKEN_INTEGER_LITERAL 9 1 1 10 (token_value.unsigned64 3),
               source_token "f" TOKEN_RIGHT_PAREN 10 1 1 11 token_value.zero,
               source_token "f" TOKEN_SEMICOLON 11 1 1 12 token_value.zero],
              { (parser_create "f" (bytes "1 * (2 + 3);")).lexer with
                  head := 12, current_column := 13 }) := by
    decide
  constructor
  · obtain ⟨parser1, hp, _⟩ :=
      (parenthesized_operands_kept_intact (parser_create "f" (bytes "(1 + 2) * 3;"))
        (source_token "f" TOKEN_LEFT_PAREN 0 1 1 1 token_value.zero)
        (source_token "f" TOKEN_RIGHT_PAREN 6 1 1 7 token_value.zero)
        (source_token "f" TOKEN_INTEGER_LITERAL 1 1 1 2 (token_value.unsigned64 1))
        (source_token "f" TOKEN_INTEGER_LITERAL 5 1 1 6 (token_value.unsigned64 2))
        (source_token "f" TOKEN_INTEGER_LITERAL 10 1 1 11 (token_value.unsigned64 3))
        (source_token "f" TOKEN_PLUS 3 1 1 4 token_value.zero)
        (source_token "f" TOKEN_ASTERISK 8 1 1 9 token_value.zero)
        (source_token "f" TOKEN_SEMICOLON 11 1 1 12 token_value.zero) []
        AST_INTEGER_LITERAL AST_INTEGER_LITERAL AST_INTEGER_LITERAL
        AST_BINARY_OPERATOR_PLUS AST_BINARY_OPERATOR_MULTIPLY
        (by decide) (by decide) (by decide) (by decide) (by decide) (by decide) (by decide)
        (by decide) 0).1 ⟨by decide, _, hr1⟩ (by decide)
    exact ⟨parser1, hp⟩
  · obtain ⟨parser1, hp, _⟩ :=
      (parenthesized_operands_kept_intact (parser_create "f" (bytes "1 * (2 + 3);"))
        (source_token "f" TOKEN_LEFT_PAREN 4 1 1 5 token_value.zero)
        (source_token "f" TOKEN_RIGHT_PAREN 10 1 1 11 token_value.zero)
        (source_token "f" TOKEN_INTEGER_LITERAL 0 1 1 1 (token_value.unsigned64 1))
        (source_token "f" TOKEN_INTEGER_LITERAL 5 1 1 6 (token_value.unsigned64 2))
        (source_token "f" TOKEN_INTEGER_LITERAL 9 1 1 10 (token_value.unsigned64 3))
        (source_token "f" TOKEN_PLUS 7 1 1 8 token_value.zero)
        (source_token "f" TOKEN_ASTERISK 2 1 1 3 token_value.zero)
        (source_token "f" TOKEN_SEMICOLON 11 1 1 12 token_value.zero) []
        AST_INTEGER_LITERAL AST_INTEGER_LITERAL AST_INTEGER_LITERAL
        AST_BINARY_OPERATOR_PLUS AST_BINARY_OPERATOR_MULTIPLY
        (by decide) (by decide) (by decide) (by decide) (by decide) (by decide) (by decide)
        (by decide) 0).2 ⟨by decide, _, hr2⟩
    exact ⟨parser1, hp⟩
/-! ## Statements on a token stream -/

theorem lexer_yields_put_back (lexer : rouleaux_lexer) (t : token) (ts : List token)
    (h : lexer_yields lexer ts) :
    ∃ lexer1, lexer_put_back_token lexer t = some (true, lexer1) ∧
      lexer_yields lexer1 (t :: ts) := by
  obtain ⟨hwf, l9, hr⟩ := h
  obtain ⟨q1, hq1, hwf1, hc1⟩ := lexer_put_back_token_spec lexer t hwf
  obtain ⟨q2, hq2, hwf2, hc2⟩ :=
    lexer_next_token_pending (with_queue lexer q1) t (pending lexer) hwf1 hc1
  have heq : lexer_equiv lexer (with_queue (with_queue lexer q1) q2) :=
    ⟨hwf, hwf2, hc2.symm, rfl⟩
  obtain ⟨b1, hb1⟩ := lexer_next_tokens_of_equiv _ _ _ _ _ heq hr
  refine ⟨with_queue lexer q1, hq1, hwf1, b1, ?_⟩
  simp only [List.length_cons, lexer_next_tokens, hq2, hb1]

theorem parse_terminal_match (parser : rouleaux_parser_t) (t : token) (ts : List token)
    (t_type : token_type) (node_type : ast_node_type) (s : String) (ht : t.type = t_type) :
    parses (fun p => parse_terminal p t_type node_type s) parser (t :: ts)
      (parse_result_success (leaf_node node_type t)) ts := by
  intro lexer hy
  obtain ⟨l1, hp1, hy1⟩ := lexer_yields_peek lexer t ts hy
  obtain ⟨l2, hn2, hy2⟩ := lexer_yields_next l1 t ts hy1
  refine ⟨l2, ?_, hy2⟩
  simp only [parse_terminal, hp1, ht, if_true, hn2, set_token, ast_node_create, leaf_node]

theorem check_statement_end_semicolon (parser : rouleaux_parser_t) (lexer : rouleaux_lexer)
    (t : token) (ts : List token) (hy : lexer_yields lexer (t :: ts))
    (ht : t.type = TOKEN_SEMICOLON) :
    ∃ lexer1, check_statement_end { parser with lexer := lexer }
        = some (true, { parser with lexer := lexer1 }) ∧ lexer_yields lexer1 ts := by
  obtain ⟨l1, hp1, hy1⟩ := lexer_yields_peek lexer t ts hy
  obtain ⟨l2, hn2, hy2⟩ := lexer_yields_next l1 t ts hy1
  refine ⟨l2, ?_, hy2⟩
  simp only [check_statement_end, hp1, ht, if_true, hn2]

theorem check_statement_end_other (parser : rouleaux_parser_t) (lexer : rouleaux_lexer)
    (t : token) (ts : List token) (hy : lexer_yields lexer (t :: ts))
    (ht : t.type ≠ TOKEN_SEMICOLON) :
    ∃ lexer1, check_statement_end { parser with lexer := lexer }
        = some (false, { parser with lexer := lexer1 }) ∧ lexer_yields lexer1 (t :: ts) := by
  obtain ⟨l1, hp1, hy1⟩ := lexer_yields_peek lexer t ts hy
  refine ⟨l1, ?_, hy1⟩
  simp only [check_statement_end, hp1, if_neg ht]

theorem statement_end_semicolon (parser : rouleaux_parser_t) (lexer : rouleaux_lexer)
    (r : parse_result) (t : token) (ts : List token) (hy : lexer_yields lexer (t :: ts))
    (ht : t.type = TOKEN_SEMICOLON) :
    ∃ lexer1, statement_end r { parser with lexer := lexer }
        = some (r, { parser with lexer := lexer1 }) ∧ lexer_yields lexer1 ts := by
  obtain ⟨l1, hc, hy1⟩ := check_statement_end_semicolon parser lexer t ts hy ht
  exact ⟨l1, by simp only [statement_end, hc], hy1⟩

theorem statement_end_other (parser : rouleaux_parser_t) (lexer : rouleaux_lexer)
    (r : parse_result) (t : token) (ts : List token) (hy : lexer_yields lexer (t :: ts))
    (ht : t.type ≠ TOKEN_SEMICOLON) :
    ∃ r1 parser1, statement_end r { parser with lexer := lexer } = some (r1, parser1) ∧
      r1.success = false ∧ r1.error.faulted_token = t := by
  obtain ⟨l1, hc, hy1⟩ := check_statement_end_other parser lexer t ts hy ht
  obtain ⟨l2, hp2, _⟩ := lexer_yields_peek l1 t ts hy1
  refine ⟨parse_result_error t
    ("Expected end of statement, but got ('" ++ printable l2.file_content t ++ "')"),
    { parser with lexer := l2 }, ?_, rfl, rfl⟩
  simp only [statement_end, hc, hp2]

theorem parser_parse_return_type_tokens (parser : rouleaux_parser_t) (arrow identifier : token)
    (ts : List token) (ha : arrow.type = TOKEN_ARROW)
    (hi : identifier.type = TOKEN_IDENTIFIER) :
    parses parser_parse_return_type parser (arrow :: identifier :: ts)
      (parse_result_success (leaf_node AST_IDENTIFIER identifier)) ts := by
  intro lexer hy
  obtain ⟨l1, hn1, hy1⟩ := lexer_yields_next lexer arrow (identifier :: ts) hy
  obtain ⟨l2, hn2, hy2⟩ := lexer_yields_next l1 identifier ts hy1
  refine ⟨l2, ?_, hy2⟩
  simp only [parser_parse_return_type, hn1, ha, ne_eq, not_true_eq_false, if_false, hn2, hi,
    set_token, ast_node_create, leaf_node]

theorem parser_parse_function_declaration_parameter_tokens (parser : rouleaux_parser_t)
    (name colon type : token) (ts : List token) (hn : name.type = TOKEN_IDENTIFIER)
    (hc : colon.type = TOKEN_COLON) (ht : type.type = TOKEN_IDENTIFIER) :
    parses parser_parse_function_declaration_parameter parser (name :: colon :: type :: ts)
      (parse_result_success (binary_node AST_TYPE_ASSIGNMENT colon
        (leaf_node AST_IDENTIFIER name) (leaf_node AST_IDENTIFIER type))) ts := by
  intro lexer hy
  obtain ⟨l1, h1, hy1⟩ := parse_terminal_match parser name (colon :: type :: ts)
    TOKEN_IDENTIFIER AST_IDENTIFIER "identifier" hn lexer hy
  obtain ⟨l2, h2, hy2⟩ := parse_terminal_match parser colon (type :: ts)
    TOKEN_COLON AST_TYPE_ASSIGNMENT "type assignment operator(':')" hc l1 hy1
  obtain ⟨l3, h3, hy3⟩ := parse_terminal_match parser type ts
    TOKEN_IDENTIFIER AST_IDENTIFIER "identifier" ht l2 hy2
  refine ⟨l3, ?_, hy3⟩
  simp only [parser_parse_function_declaration_parameter, parser_parse_identifier,
    parser_parse_type_assignment_operator, h1, h2, h3, parse_result_success,
    Bool.true_eq_false, if_false, leaf_node, set_left_child, set_right_child, binary_node]

theorem parameter_list_node_eq (children : node_list) :
    ast_node.node AST_PARAMETER_LIST token_zero ast_node.null ast_node.null ast_node.null
      children false = many_node AST_PARAMETER_LIST children := rfl

theorem parameter_list_loop_exit (parser : rouleaux_parser_t) (lexer : rouleaux_lexer)
    (children : node_list) (open_paren rp : token) (ts : List token) (fuel : Nat)
    (hy : lexer_yields lexer (rp :: ts)) (hrp : rp.type = TOKEN_RIGHT_PAREN) :
    ∃ lexer1, parameter_list_loop (fuel + 1) { parser with lexer := lexer } children
          open_paren rp
        = some (parse_result_success (many_node AST_PARAMETER_LIST children),
            { parser with lexer := lexer1 }) ∧
      lexer_yields lexer1 ts := by
  obtain ⟨l1, hn1, hy1⟩ := lexer_yields_next lexer rp ts hy
  refine ⟨l1, ?_, hy1⟩
  have hne : ¬ (rp.type = TOKEN_EOF) := by rw [hrp]; decide
  rw [parameter_list_loop]
  simp only [eq_true hrp, ne_eq, not_true_eq_false, false_and, if_false, hn1, hne, many_node]

theorem parameter_list_loop_step (parser : rouleaux_parser_t) (lexer : rouleaux_lexer)
    (children : node_list) (open_paren name colon type sep after : token) (ts : List token)
    (fuel : Nat)
    (hy : lexer_yields lexer (name :: colon :: type :: sep :: after :: ts))
    (hn : name.type = TOKEN_IDENTIFIER) (hc : colon.type = TOKEN_COLON)
    (ht : type.type = TOKEN_IDENTIFIER) (hs : sep.type = TOKEN_COMMA) :
    ∃ lexer1, lexer_yields lexer1 (after :: ts) ∧
      parameter_list_loop (fuel + 1) { parser with lexer := lexer } children open_paren name
        = parameter_list_loop fuel { parser with lexer := lexer1 }
            (node_list_push_back children (binary_node AST_TYPE_ASSIGNMENT colon
              (leaf_node AST_IDENTIFIER name) (leaf_node AST_IDENTIFIER type)))
            open_paren after := by
  obtain ⟨l1, h1, hy1⟩ := parser_parse_function_declaration_parameter_tokens parser name colon
    type (sep :: after :: ts) hn hc ht lexer hy
  obtain ⟨l2, hn2, hy2⟩ := lexer_yields_next l1 sep (after :: ts) hy1
  obtain ⟨l3, hp3, hy3⟩ := lexer_yields_peek l2 after ts hy2
  refine ⟨l3, hy3, ?_⟩
  have h1n : ¬ (name.type = TOKEN_RIGHT_PAREN) := by rw [hn]; decide
  have h2n : ¬ (name.type = TOKEN_EOF) := by rw [hn]; decide
  have h3n : ¬ (sep.type = TOKEN_RIGHT_PAREN) := by rw [hs]; decide
  rw [parameter_list_loop]
  simp only [ne_eq, h1n, h2n, not_false_eq_true, and_self, if_true, h1, parse_result_success,
    Bool.true_eq_false, if_false, hn2, eq_true hs, not_true_eq_false, false_and, h3n, hp3]

theorem parameter_list_loop_last (parser : rouleaux_parser_t) (lexer : rouleaux_lexer)
    (children : node_list) (open_paren name colon type rp : token) (ts : List token)
    (fuel : Nat)
    (hy : lexer_yields lexer (name :: colon :: type :: rp :: ts))
    (hn : name.type = TOKEN_IDENTIFIER) (hc : colon.type = TOKEN_COLON)
    (ht : type.type = TOKEN_IDENTIFIER) (hrp : rp.type = TOKEN_RIGHT_PAREN) :
    ∃ lexer1, lexer_yields lexer1 (rp :: ts) ∧
      parameter_list_loop (fuel + 1) { parser with lexer := lexer } children open_paren name
        = parameter_list_loop fuel { parser with lexer := lexer1 }
            (node_list_push_back children (binary_node AST_TYPE_ASSIGNMENT colon
              (leaf_node AST_IDENTIFIER name) (leaf_node AST_IDENTIFIER type)))
            open_paren rp := by
  obtain ⟨l1, h1, hy1⟩ := parser_parse_function_declaration_parameter_tokens parser name colon
    type (rp :: ts) hn hc ht lexer hy
  obtain ⟨l2, hn2, hy2⟩ := lexer_yields_next l1 rp ts hy1
  obtain ⟨l3, hb3, hy3⟩ := lexer_yields_put_back l2 rp ts hy2
  obtain ⟨l4, hp4, hy4⟩ := lexer_yields_peek l3 rp ts hy3
  refine ⟨l4, hy4, ?_⟩
  have h1n : ¬ (name.type = TOKEN_RIGHT_PAREN) := by rw [hn]; decide
  have h2n : ¬ (name.type = TOKEN_EOF) := by rw [hn]; decide
  have h3n : ¬ (rp.type = TOKEN_COMMA) := by rw [hrp]; decide
  rw [parameter_list_loop]
  simp only [ne_eq, h1n, h2n, not_false_eq_true, and_self, if_true, h1, parse_result_success,
    Bool.true_eq_false, if_false, hn2, eq_true hrp, h3n, not_true_eq_false, and_false, hb3,
    Option.map_some', hp4]

theorem parser_parse_parameter_list_start (parser : rouleaux_parser_t) (lexer : rouleaux_lexer)
    (lp t : token) (ts : List token) (fuel : Nat)
    (hy : lexer_yields lexer (lp :: t :: ts)) (hlp : lp.type = TOKEN_LEFT_PAREN) :
    ∃ lexer1, lexer_yields lexer1 (t :: ts) ∧
      parser_parse_parameter_list fuel { parser with lexer := lexer }
        = parameter_list_loop fuel { parser with lexer := lexer1 } node_list_create lp t := by
  obtain ⟨l1, hn1, hy1⟩ := lexer_yields_next lexer lp (t :: ts) hy
  obtain ⟨l2, hp2, hy2⟩ := lexer_yields_peek l1 t ts hy1
  refine ⟨l2, hy2, ?_⟩
  simp only [parser_parse_parameter_list, hn1, eq_true hlp, ne_eq, not_true_eq_false, if_false, hp2]

theorem declaration_loop_identifier (parser : rouleaux_parser_t) (lexer : rouleaux_lexer)
    (identifier_result : parse_result) (type : token) (ts : List token) (fuel : Nat)
    (hy : lexer_yields lexer (type :: ts)) (ht : type.type = TOKEN_IDENTIFIER) :
    ∃ lexer1, lexer_yields lexer1 ts ∧
      declaration_loop (fuel + 1) { parser with lexer := lexer } identifier_result
        = declaration_loop fuel { parser with lexer := lexer1 }
            (parse_result_success (leaf_node AST_IDENTIFIER type)) := by
  obtain ⟨l1, hp1, hy1⟩ := lexer_yields_peek lexer type ts hy
  obtain ⟨l2, h2, hy2⟩ := parse_terminal_match parser type ts
    TOKEN_IDENTIFIER AST_IDENTIFIER "identifier" ht l1 hy1
  refine ⟨l2, hy2, ?_⟩
  rw [declaration_loop]
  simp only [hp1, eq_true ht, if_true, parser_parse_identifier, h2]

theorem declaration_loop_colon (parser : rouleaux_parser_t) (lexer : rouleaux_lexer)
    (identifier_result : parse_result) (op : token) (ts : List token) (fuel : Nat)
    (hy : lexer_yields lexer (op :: ts)) (ho : op.type = TOKEN_COLON) :
    ∃ lexer1, lexer_yields lexer1 ts ∧
      declaration_loop (fuel + 1) { parser with lexer := lexer } identifier_result
        = some (declaration_loop_exit.found identifier_result
            (parse_result_success (leaf_node AST_CONST_ASSIGNMENT op)),
            { parser with lexer := lexer1 }) := by
  obtain ⟨l1, hp1, hy1⟩ := lexer_yields_peek lexer op ts hy
  obtain ⟨l2, h2, hy2⟩ := parse_terminal_match parser op ts
    TOKEN_COLON AST_CONST_ASSIGNMENT "constant assignment operator(':')" ho l1 hy1
  refine ⟨l2, hy2, ?_⟩
  have h1n : ¬ (op.type = TOKEN_IDENTIFIER) := by rw [ho]; decide
  rw [declaration_loop]
  simp only [hp1, h1n, if_false, eq_true ho, if_true, parser_parse_constant_assignment_operator, h2]

theorem declaration_loop_equals (parser : rouleaux_parser_t) (lexer : rouleaux_lexer)
    (identifier_result : parse_result) (op : token) (ts : List token) (fuel : Nat)
    (hy : lexer_yields lexer (op :: ts)) (ho : op.type = TOKEN_EQUALS) :
    ∃ lexer1, lexer_yields lexer1 ts ∧
      declaration_loop (fuel + 1) { parser with lexer := lexer } identifier_result
        = some (declaration_loop_exit.found identifier_result
            (parse_result_success (leaf_node AST_VALUE_ASSIGNMENT op)),
            { parser with lexer := lexer1 }) := by
  obtain ⟨l1, hp1, hy1⟩ := lexer_yields_peek lexer op ts hy
  obtain ⟨l2, h2, hy2⟩ := parse_terminal_match parser op ts
    TOKEN_EQUALS AST_VALUE_ASSIGNMENT "value assignment operator('=')" ho l1 hy1
  refine ⟨l2, hy2, ?_⟩
  have h1n : ¬ (op.type = TOKEN_IDENTIFIER) := by rw [ho]; decide
  have h2n : ¬ (op.type = TOKEN_COLON) := by rw [ho]; decide
  rw [declaration_loop]
  simp only [hp1, h1n, if_false, h2n, eq_true ho, if_true, parser_parse_value_assignment_operator, h2]

theorem function_call_list_loop_exit (parser : rouleaux_parser_t) (lexer : rouleaux_lexer)
    (children : node_list) (rp : token) (ts : List token) (fuel : Nat)
    (hy : lexer_yields lexer (rp :: ts)) (hrp : rp.type = TOKEN_RIGHT_PAREN) :
    ∃ lexer1, function_call_list_loop (fuel + 1) { parser with lexer := lexer } children rp
        = some (parse_result_success (many_node AST_PARAMETER_LIST children),
            { parser with lexer := lexer1 }) ∧
      lexer_yields lexer1 ts := by
  obtain ⟨l1, hn1, hy1⟩ := lexer_yields_next lexer rp ts hy
  refine ⟨l1, ?_, hy1⟩
  rw [function_call_list_loop]
  simp only [eq_true hrp, ne_eq, not_true_eq_false, if_false, hn1, many_node]

theorem function_call_list_loop_step (parser : rouleaux_parser_t) (lexer : rouleaux_lexer)
    (children : node_list) (t comma : token) (ts ts1 : List token) (fuel : Nat)
    (argument : parse_result)
    (hy : lexer_yields lexer ts) (ht : t.type ≠ TOKEN_RIGHT_PAREN)
    (harg : parses (parser_parse_expression_beginning fuel) parser ts argument (comma :: ts1))
    (hs : argument.success = true) (hc : comma.type = TOKEN_COMMA) :
    ∃ lexer1, lexer_yields lexer1 ts1 ∧
      function_call_list_loop (fuel + 1) { parser with lexer := lexer } children t
        = function_call_list_loop fuel { parser with lexer := lexer1 }
            (node_list_push_back children argument.resulting_tree) comma := by
  obtain ⟨l1, h1, hy1⟩ := harg lexer hy
  obtain ⟨l2, hp2, hy2⟩ := lexer_yields_peek l1 comma ts1 hy1
  obtain ⟨l3, hn3, hy3⟩ := lexer_yields_next l2 comma ts1 hy2
  refine ⟨l3, hy3, ?_⟩
  have h1n : ¬ (comma.type = TOKEN_RIGHT_PAREN) := by rw [hc]; decide
  have h2n : ¬ (comma.type = TOKEN_EOF) := by rw [hc]; decide
  rw [function_call_list_loop]
  simp only [ne_eq, ht, not_false_eq_true, if_true, h1, hs, Bool.true_eq_false, if_false, hp2,
    h1n, h2n, eq_true hc, hn3]

theorem function_call_list_loop_last (parser : rouleaux_parser_t) (lexer : rouleaux_lexer)
    (children : node_list) (t rp : token) (ts ts1 : List token) (fuel : Nat)
    (argument : parse_result)
    (hy : lexer_yields lexer ts) (ht : t.type ≠ TOKEN_RIGHT_PAREN)
    (harg : parses (parser_parse_expression_beginning fuel) parser ts argument (rp :: ts1))
    (hs : argument.success = true) (hrp : rp.type = TOKEN_RIGHT_PAREN) :
    ∃ lexer1, function_call_list_loop (fuel + 1) { parser with lexer := lexer } children t
        = some (parse_result_success (many_node AST_PARAMETER_LIST
            (node_list_push_back children argument.resulting_tree)),
            { parser with lexer := lexer1 }) ∧
      lexer_yields lexer1 ts1 := by
  obtain ⟨l1, h1, hy1⟩ := harg lexer hy
  obtain ⟨l2, hp2, hy2⟩ := lexer_yields_peek l1 rp ts1 hy1
  obtain ⟨l3, hn3, hy3⟩ := lexer_yields_next l2 rp ts1 hy2
  refine ⟨l3, ?_, hy3⟩
  rw [function_call_list_loop]
  simp only [ne_eq, ht, not_false_eq_true, if_true, h1, hs, Bool.true_eq_false, if_false, hp2,
    eq_true hrp, hn3, many_node]

theorem parser_parse_function_call_list_start (parser : rouleaux_parser_t)
    (lexer : rouleaux_lexer) (lp t : token) (ts : List token) (fuel : Nat)
    (hy : lexer_yields lexer (lp :: t :: ts)) (hlp : lp.type = TOKEN_LEFT_PAREN) :
    ∃ lexer1, lexer_yields lexer1 (t :: ts) ∧
      parser_parse_function_call_list (fuel + 1) { parser with lexer := lexer }
        = function_call_list_loop fuel { parser with lexer := lexer1 } node_list_create t := by
  obtain ⟨l1, hn1, hy1⟩ := lexer_yields_next lexer lp (t :: ts) hy
  obtain ⟨l2, hp2, hy2⟩ := lexer_yields_peek l1 t ts hy1
  refine ⟨l2, hy2, ?_⟩
  rw [parser_parse_function_call_list]
  simp only [hn1, eq_true hlp, ne_eq, not_true_eq_false, if_false, hp2]

/-! ## Function or expression -/

theorem function_or_expression_no_paren (parser : rouleaux_parser_t) (t : token)
    (ts rest : List token) (r : parse_result) (fuel : Nat)
    (ht : t.type ≠ TOKEN_LEFT_PAREN)
    (h : parses (parser_parse_expression_beginning fuel) parser (t :: ts) r rest) :
    parses (parser_parse_function_or_expression (fuel + 1)) parser (t :: ts) r rest := by
  intro lexer hy
  obtain ⟨l1, hp1, hy1⟩ := lexer_yields_peek lexer t ts hy
  obtain ⟨l2, h2, hy2⟩ := h l1 hy1
  refine ⟨l2, ?_, hy2⟩
  rw [parser_parse_function_or_expression]
  simp only [hp1, ne_eq, ht, not_false_eq_true, if_true, h2]

theorem function_or_expression_no_parameters (parser : rouleaux_parser_t) (lp rp : token)
    (ts rest : List token) (r : parse_result) (fuel : Nat)
    (hlp : lp.type = TOKEN_LEFT_PAREN) (hrp : rp.type = TOKEN_RIGHT_PAREN)
    (h : parses (parser_parse_function_declaration fuel) parser (lp :: rp :: ts) r rest) :
    parses (parser_parse_function_or_expression (fuel + 1)) parser (lp :: rp :: ts) r rest := by
  intro lexer hy
  obtain ⟨l1, hp1, hy1⟩ := lexer_yields_peek lexer lp (rp :: ts) hy
  obtain ⟨l2, hn2, hy2⟩ := lexer_yields_next l1 lp (rp :: ts) hy1
  obtain ⟨l3, hp3, hy3⟩ := lexer_yields_peek l2 rp ts hy2
  obtain ⟨l4, hb4, hy4⟩ := lexer_yields_put_back l3 lp (rp :: ts) hy3
  obtain ⟨l5, h5, hy5⟩ := h l4 hy4
  refine ⟨l5, ?_, hy5⟩
  rw [parser_parse_function_or_expression]
  simp only [hp1, ne_eq, eq_true hlp, not_true_eq_false, if_false, hn2, hp3, eq_true hrp,
    if_true, hb4, h5]

theorem function_or_expression_no_identifier (parser : rouleaux_parser_t) (lp t : token)
    (ts rest : List token) (r : parse_result) (fuel : Nat)
    (hlp : lp.type = TOKEN_LEFT_PAREN) (ht1 : t.type ≠ TOKEN_RIGHT_PAREN)
    (ht2 : t.type ≠ TOKEN_IDENTIFIER)
    (h : parses (parser_parse_expression_beginning fuel) parser (lp :: t :: ts) r rest) :
    parses (parser_parse_function_or_expression (fuel + 1)) parser (lp :: t :: ts) r rest := by
  intro lexer hy
  obtain ⟨l1, hp1, hy1⟩ := lexer_yields_peek lexer lp (t :: ts) hy
  obtain ⟨l2, hn2, hy2⟩ := lexer_yields_next l1 lp (t :: ts) hy1
  obtain ⟨l3, hp3, hy3⟩ := lexer_yields_peek l2 t ts hy2
  obtain ⟨l4, hb4, hy4⟩ := lexer_yields_put_back l3 lp (t :: ts) hy3
  obtain ⟨l5, h5, hy5⟩ := h l4 hy4
  refine ⟨l5, ?_, hy5⟩
  rw [parser_parse_function_or_expression]
  simp only [hp1, ne_eq, eq_true hlp, not_true_eq_false, if_false, hn2, hp3, ht1, ht2,
    not_false_eq_true, if_true, hb4, h5]

theorem function_or_expression_identifier (parser : rouleaux_parser_t) (lp identifier t : token)
    (ts rest : List token) (r : parse_result) (fuel : Nat)
    (hlp : lp.type = TOKEN_LEFT_PAREN) (hi : identifier.type = TOKEN_IDENTIFIER)
    (h : parses (if t.type = TOKEN_COLON then parser_parse_function_declaration fuel
        else parser_parse_expression_beginning fuel) parser (lp :: identifier :: t :: ts)
        r rest) :
    parses (parser_parse_function_or_expression (fuel + 1)) parser
      (lp :: identifier :: t :: ts) r rest := by
  intro lexer hy
  obtain ⟨l1, hp1, hy1⟩ := lexer_yields_peek lexer lp (identifier :: t :: ts) hy
  obtain ⟨l2, hn2, hy2⟩ := lexer_yields_next l1 lp (identifier :: t :: ts) hy1
  obtain ⟨l3, hp3, hy3⟩ := lexer_yields_peek l2 identifier (t :: ts) hy2
  obtain ⟨l4, hn4, hy4⟩ := lexer_yields_next l3 identifier (t :: ts) hy3
  obtain ⟨l5, hp5, hy5⟩ := lexer_yields_peek l4 t ts hy4
  obtain ⟨l6, hb6, hy6⟩ := lexer_yields_put_back l5 identifier (t :: ts) hy5
  obtain ⟨l7, hb7, hy7⟩ := lexer_yields_put_back l6 lp (identifier :: t :: ts) hy6
  obtain ⟨l8, h8, hy8⟩ := h l7 hy7
  refine ⟨l8, ?_, hy8⟩
  have h1n : ¬ (identifier.type = TOKEN_RIGHT_PAREN) := by rw [hi]; decide
  rw [parser_parse_function_or_expression]
  simp only [hp1, ne_eq, eq_true hlp, not_true_eq_false, if_false, hn2, hp3, h1n, eq_true hi,
    hn4, hp5, hb6, hb7]
  by_cases hc : t.type = TOKEN_COLON
  · simp only [hc, if_true] at h8
    simp only [eq_true hc, not_true_eq_false, if_false, h8]
  · simp only [hc, if_false] at h8
    simp only [hc, not_false_eq_true, if_true, h8]

/-! ## Declarations and assignments -/

theorem parser_parse_function_declaration_tokens (parser : rouleaux_parser_t)
    (ts body_ts rest : List token) (arrow identifier : token)
    (parameters body : ast_node) (fuel : Nat)
    (hparams : parses (parser_parse_parameter_list fuel) parser ts
      (parse_result_success parameters) (arrow :: identifier :: body_ts))
    (ha : arrow.type = TOKEN_ARROW) (hi : identifier.type = TOKEN_IDENTIFIER)
    (hbody : parses (parser_parse_statement fuel) parser body_ts
      (parse_result_success body) rest) :
    parses (parser_parse_function_declaration (fuel + 1)) parser ts
      (parse_result_success (ast_node.node AST_FUNCTION_DECLARATION token_zero parameters
        (leaf_node AST_IDENTIFIER identifier) body node_list.nil false)) rest := by
  intro lexer hy
  obtain ⟨l1, h1, hy1⟩ := hparams lexer hy
  obtain ⟨l2, h2, hy2⟩ := parser_parse_return_type_tokens parser arrow identifier body_ts ha hi
    l1 hy1
  obtain ⟨l3, h3, hy3⟩ := hbody l2 hy2
  refine ⟨l3, ?_, hy3⟩
  rw [parser_parse_function_declaration]
  simp only [h1, parse_result_success, Bool.true_eq_false, if_false, h2, h3]

theorem value_assignment_tokens (parser : rouleaux_parser_t) (name eq semi : token)
    (ts rest : List token) (e : parse_result) (fuel : Nat)
    (he : eq.type = TOKEN_EQUALS)
    (hs : semi.type = TOKEN_SEMICOLON) (hok : e.success = true)
    (hexpr : parses (parser_parse_expression_beginning fuel) parser ts e (semi :: rest)) :
    parses (parser_parse_declaration_or_assignment (fuel + 1)) parser (name :: eq :: ts)
      (parse_result_success (binary_node AST_VALUE_ASSIGNMENT eq
        (leaf_node AST_IDENTIFIER name) e.resulting_tree)) rest := by
  intro lexer hy
  obtain ⟨l1, hn1, hy1⟩ := lexer_yields_next lexer name (eq :: ts) hy
  obtain ⟨l2, hp2, hy2⟩ := lexer_yields_peek l1 eq ts hy1
  obtain ⟨l3, h3, hy3⟩ := parse_terminal_match parser eq ts
    TOKEN_EQUALS AST_VALUE_ASSIGNMENT "value assignment operator('=')" he l2 hy2
  obtain ⟨l4, h4, hy4⟩ := hexpr l3 hy3
  obtain ⟨l5, h5, hy5⟩ := statement_end_semicolon parser l4
    (parse_result_success (binary_node AST_VALUE_ASSIGNMENT eq
      (leaf_node AST_IDENTIFIER name) e.resulting_tree)) semi rest hy4 hs
  refine ⟨l5, ?_, hy5⟩
  rw [parser_parse_declaration_or_assignment]
  simp only [hn1, hp2, ne_eq, eq_true he, not_true_eq_false, false_and, if_false, if_true,
    parser_parse_value_assignment_operator, h3, set_token, ast_node_create, parse_result_success,
    leaf_node, set_left_child, node_type_of, h4, hok, Bool.true_eq_false, set_right_child]
  simp only [parse_result_success, binary_node, leaf_node] at h5
  exact h5

theorem declaration_tokens (parser : rouleaux_parser_t) (name colon op semi : token)
    (type_tokens ts rest : List token) (identifier_result : parse_result) (e : parse_result)
    (fuel : Nat) (declaration_type : ast_node_type)
    (hc : colon.type = TOKEN_COLON)
    (hloop : ∀ lexer, lexer_yields lexer (type_tokens ++ op :: ts) →
      ∃ lexer1, declaration_loop fuel { parser with lexer := lexer } parse_result_zero
          = some (declaration_loop_exit.found identifier_result
              (parse_result_success (leaf_node declaration_type op)),
              { parser with lexer := lexer1 }) ∧
        lexer_yields lexer1 ts)
    (hs : semi.type = TOKEN_SEMICOLON) (hok : e.success = true)
    (hexpr : parses (parser_parse_function_or_expression fuel) parser ts e (semi :: rest)) :
    parses (parser_parse_declaration_or_assignment (fuel + 1)) parser
      (name :: colon :: (type_tokens ++ op :: ts))
      (parse_result_success (binary_node declaration_type op
        (binary_node AST_TYPE_ASSIGNMENT colon (leaf_node AST_IDENTIFIER name)
          (if identifier_result.success then identifier_result.resulting_tree
            else ast_node.null))
        e.resulting_tree)) rest := by
  intro lexer hy
  obtain ⟨l1, hn1, hy1⟩ := lexer_yields_next lexer name (colon :: (type_tokens ++ op :: ts)) hy
  obtain ⟨l2, hp2, hy2⟩ := lexer_yields_peek l1 colon (type_tokens ++ op :: ts) hy1
  obtain ⟨l3, h3, hy3⟩ := parse_terminal_match parser colon (type_tokens ++ op :: ts)
    TOKEN_COLON AST_TYPE_ASSIGNMENT "type assignment operator(':')" hc l2 hy2
  obtain ⟨l4, h4, hy4⟩ := hloop l3 hy3
  obtain ⟨l5, h5, hy5⟩ := hexpr l4 hy4
  obtain ⟨l6, h6, hy6⟩ := statement_end_semicolon parser l5
    (parse_result_success (binary_node declaration_type op
      (binary_node AST_TYPE_ASSIGNMENT colon (leaf_node AST_IDENTIFIER name)
        (if identifier_result.success then identifier_result.resulting_tree
          else ast_node.null))
      e.resulting_tree)) semi rest hy5 hs
  refine ⟨l6, ?_, hy6⟩
  have h1n : ¬ (colon.type = TOKEN_EQUALS) := by rw [hc]; decide
  have hty : ¬ (some AST_TYPE_ASSIGNMENT = some AST_VALUE_ASSIGNMENT) := by decide
  rw [parser_parse_declaration_or_assignment]
  simp only [hn1, hp2, ne_eq, h1n, eq_true hc, not_true_eq_false, and_false, if_false,
    parser_parse_type_assignment_operator, h3, set_token, ast_node_create, parse_result_success,
    leaf_node, set_left_child, node_type_of, hty, h4, h5, hok, Bool.true_eq_false]
  simp only [parse_result_success, binary_node, leaf_node] at h6
  cases hir : identifier_result.success
  · simp only [hir, Bool.false_eq_true, if_false] at h6 ⊢
    simp only [set_left_child, set_right_child]
    exact h6
  · simp only [hir, if_true] at h6 ⊢
    simp only [set_left_child, set_right_child]
    exact h6

theorem declaration_not_ended (parser : rouleaux_parser_t) (name colon op t : token)
    (type_tokens ts rest : List token) (identifier_result : parse_result) (e : parse_result)
    (fuel : Nat) (declaration_type : ast_node_type)
    (hc : colon.type = TOKEN_COLON)
    (hloop : ∀ lexer, lexer_yields lexer (type_tokens ++ op :: ts) →
      ∃ lexer1, declaration_loop fuel { parser with lexer := lexer } parse_result_zero
          = some (declaration_loop_exit.found identifier_result
              (parse_result_success (leaf_node declaration_type op)),
              { parser with lexer := lexer1 }) ∧
        lexer_yields lexer1 ts)
    (ht : t.type ≠ TOKEN_SEMICOLON) (hok : e.success = true)
    (hexpr : parses (parser_parse_function_or_expression fuel) parser ts e (t :: rest)) :
    fails_at (parser_parse_declaration_or_assignment (fuel + 1)) parser
      (name :: colon :: (type_tokens ++ op :: ts)) t := by
  intro lexer hy
  obtain ⟨l1, hn1, hy1⟩ := lexer_yields_next lexer name (colon :: (type_tokens ++ op :: ts)) hy
  obtain ⟨l2, hp2, hy2⟩ := lexer_yields_peek l1 colon (type_tokens ++ op :: ts) hy1
  obtain ⟨l3, h3, hy3⟩ := parse_terminal_match parser colon (type_tokens ++ op :: ts)
    TOKEN_COLON AST_TYPE_ASSIGNMENT "type assignment operator(':')" hc l2 hy2
  obtain ⟨l4, h4, hy4⟩ := hloop l3 hy3
  obtain ⟨l5, h5, hy5⟩ := hexpr l4 hy4
  have h1n : ¬ (colon.type = TOKEN_EQUALS) := by rw [hc]; decide
  have hty : ¬ (some AST_TYPE_ASSIGNMENT = some AST_VALUE_ASSIGNMENT) := by decide
  have hend : ∀ tree : ast_node, ∃ r1 parser1,
      statement_end { parse_result_success (leaf_node declaration_type op) with
          resulting_tree := tree } { parser with lexer := l5 } = some (r1, parser1) ∧
        r1.success = false ∧ r1.error.faulted_token = t := fun tree =>
    statement_end_other parser l5 _ t rest hy5 ht
  rw [parser_parse_declaration_or_assignment]
  simp only [hn1, hp2, ne_eq, h1n, eq_true hc, not_true_eq_false, and_false, if_false,
    parser_parse_type_assignment_operator, h3, set_token, ast_node_create, parse_result_success,
    leaf_node, set_left_child, node_type_of, hty, h4, h5, hok, Bool.true_eq_false]
  simp only [parse_result_success, leaf_node] at hend
  cases hir : identifier_result.success
  · simp only [Bool.false_eq_true, if_false, set_left_child, set_right_child]
    exact hend _
  · simp only [if_true, set_left_child, set_right_child]
    exact hend _

/-! ## Statements -/

theorem statement_identifier_first (parser : rouleaux_parser_t) (t : token)
    (ts rest : List token) (r : parse_result) (fuel : Nat)
    (ht : t.type = TOKEN_IDENTIFIER)
    (h : parses (parser_parse_declaration_or_assignment fuel) parser (t :: ts) r rest) :
    parses (parser_parse_statement (fuel + 1)) parser (t :: ts) r rest := by
  intro lexer hy
  obtain ⟨l1, hp1, hy1⟩ := lexer_yields_peek lexer t ts hy
  obtain ⟨l2, h2, hy2⟩ := h l1 hy1
  refine ⟨l2, ?_, hy2⟩
  rw [parser_parse_statement]
  simp only [hp1, eq_true ht, if_true, h2]

theorem statement_identifier_first_fails (parser : rouleaux_parser_t) (t bad : token)
    (ts : List token) (fuel : Nat)
    (ht : t.type = TOKEN_IDENTIFIER)
    (h : fails_at (parser_parse_declaration_or_assignment fuel) parser (t :: ts) bad) :
    fails_at (parser_parse_statement (fuel + 1)) parser (t :: ts) bad := by
  intro lexer hy
  obtain ⟨l1, hp1, hy1⟩ := lexer_yields_peek lexer t ts hy
  obtain ⟨r, p2, h2, hf, ht2⟩ := h l1 hy1
  refine ⟨r, p2, ?_, hf, ht2⟩
  rw [parser_parse_statement]
  simp only [hp1, eq_true ht, if_true, h2]

theorem statement_call (parser : rouleaux_parser_t) (call name semi : token)
    (ts rest : List token) (arguments : ast_node) (fuel : Nat)
    (hcall : call.type = TOKEN_KEYWORD_CALL) (hn : name.type = TOKEN_IDENTIFIER)
    (hs : semi.type = TOKEN_SEMICOLON)
    (hargs : parses (parser_parse_function_call_list fuel) parser ts
      (parse_result_success arguments) (semi :: rest)) :
    parses (parser_parse_statement (fuel + 1)) parser (call :: name :: ts)
      (parse_result_success (ast_node.node AST_CALL_OPERATOR call
        (binary_node AST_FUNCTION_CALL token_zero (leaf_node AST_IDENTIFIER name) arguments)
        ast_node.null ast_node.null node_list.nil false)) rest := by
  intro lexer hy
  obtain ⟨l1, hp1, hy1⟩ := lexer_yields_peek lexer call (name :: ts) hy
  obtain ⟨l2, hn2, hy2⟩ := lexer_yields_next l1 call (name :: ts) hy1
  obtain ⟨l3, h3, hy3⟩ := parse_terminal_match parser name ts
    TOKEN_IDENTIFIER AST_IDENTIFIER "identifier" hn l2 hy2
  obtain ⟨l4, h4, hy4⟩ := hargs l3 hy3
  obtain ⟨l5, h5, hy5⟩ := check_statement_end_semicolon parser l4 semi rest hy4 hs
  refine ⟨l5, ?_, hy5⟩
  have h1n : ¬ (call.type = TOKEN_IDENTIFIER) := by rw [hcall]; decide
  rw [parser_parse_statement]
  simp only [hp1, h1n, if_false, eq_true hcall, if_true, hn2, set_token, ast_node_create,
    parser_parse_identifier, h3, parse_result_success, Bool.true_eq_false, h4, h5,
    set_left_child, binary_node, leaf_node]

theorem statement_while (parser : rouleaux_parser_t) (while_token : token)
    (ts body_ts rest : List token) (condition body : parse_result) (fuel : Nat)
    (hw : while_token.type = TOKEN_KEYWORD_WHILE)
    (hcondition : parses (parser_parse_expression_beginning fuel) parser ts condition body_ts)
    (hc : condition.success = true)
    (hbody : parses (parser_parse_statement fuel) parser body_ts body rest)
    (hb : body.success = true) :
    parses (parser_parse_statement (fuel + 1)) parser (while_token :: ts)
      (parse_result_success (binary_node AST_WHILE_STATEMENT while_token
        condition.resulting_tree condition.resulting_tree)) rest := by
  intro lexer hy
  obtain ⟨l1, hp1, hy1⟩ := lexer_yields_peek lexer while_token ts hy
  obtain ⟨l2, h2, hy2⟩ := parse_terminal_match parser while_token ts
    TOKEN_KEYWORD_WHILE AST_WHILE_STATEMENT "while statement" hw l1 hy1
  obtain ⟨l3, h3, hy3⟩ := hcondition l2 hy2
  obtain ⟨l4, h4, hy4⟩ := hbody l3 hy3
  refine ⟨l4, ?_, hy4⟩
  have h1n : ¬ (while_token.type = TOKEN_IDENTIFIER) := by rw [hw]; decide
  have h2n : ¬ (while_token.type = TOKEN_KEYWORD_CALL) := by rw [hw]; decide
  have h3n : ¬ (while_token.type = TOKEN_KEYWORD_IF) := by rw [hw]; decide
  rw [parser_parse_statement]
  simp only [hp1, h1n, h2n, h3n, if_false, eq_true hw, if_true, parser_parse_keyword_while, h2,
    parse_result_success, Bool.true_eq_false, h3, hc, h4, hb, leaf_node, set_left_child,
    set_right_child, binary_node]

theorem scope_loop_exit (parser : rouleaux_parser_t) (lexer : rouleaux_lexer)
    (children : node_list) (close : token) (ts : List token) (fuel : Nat)
    (hy : lexer_yields lexer (close :: ts)) (hcl : close.type = TOKEN_RIGHT_CURLY) :
    ∃ lexer1, scope_loop (fuel + 1) { parser with lexer := lexer } children close
        = some (parse_result_success (many_node AST_SCOPE children),
            { parser with lexer := lexer1 }) ∧
      lexer_yields lexer1 ts := by
  obtain ⟨l1, hn1, hy1⟩ := lexer_yields_next lexer close ts hy
  refine ⟨l1, ?_, hy1⟩
  rw [scope_loop]
  simp only [eq_true hcl, ne_eq, not_true_eq_false, false_and, if_false, hn1, many_node]

theorem scope_loop_step (parser : rouleaux_parser_t) (lexer : rouleaux_lexer)
    (children : node_list) (t after : token) (ts ts1 : List token) (fuel : Nat)
    (statement : parse_result)
    (hy : lexer_yields lexer ts) (ht1 : t.type ≠ TOKEN_RIGHT_CURLY) (ht2 : t.type ≠ TOKEN_EOF)
    (hstatement : parses (parser_parse_statement fuel) parser ts statement (after :: ts1))
    (hs : statement.success = true) :
    ∃ lexer1, lexer_yields lexer1 (after :: ts1) ∧
      scope_loop (fuel + 1) { parser with lexer := lexer } children t
        = scope_loop fuel { parser with lexer := lexer1 }
            (node_list_push_back children statement.resulting_tree) after := by
  obtain ⟨l1, h1, hy1⟩ := hstatement lexer hy
  obtain ⟨l2, hp2, hy2⟩ := lexer_yields_peek l1 after ts1 hy1
  refine ⟨l2, hy2, ?_⟩
  rw [scope_loop]
  simp only [ne_eq, ht1, ht2, not_false_eq_true, and_self, if_true, h1, hs, Bool.true_eq_false,
    if_false, hp2]

theorem statement_scope_start (parser : rouleaux_parser_t) (lexer : rouleaux_lexer)
    (open_curly t : token) (ts : List token) (fuel : Nat)
    (hy : lexer_yields lexer (open_curly :: t :: ts))
    (ho : open_curly.type = TOKEN_LEFT_CURLY) :
    ∃ lexer1, lexer_yields lexer1 (t :: ts) ∧
      parser_parse_statement (fuel + 1) { parser with lexer := lexer }
        = scope_loop fuel { parser with lexer := lexer1 } node_list_create t := by
  obtain ⟨l1, hp1, hy1⟩ := lexer_yields_peek lexer open_curly (t :: ts) hy
  obtain ⟨l2, hn2, hy2⟩ := lexer_yields_next l1 open_curly (t :: ts) hy1
  obtain ⟨l3, hp3, hy3⟩ := lexer_yields_peek l2 t ts hy2
  refine ⟨l3, hy3, ?_⟩
  have h1n : ¬ (open_curly.type = TOKEN_IDENTIFIER) := by rw [ho]; decide
  have h2n : ¬ (open_curly.type = TOKEN_KEYWORD_CALL) := by rw [ho]; decide
  have h3n : ¬ (open_curly.type = TOKEN_KEYWORD_IF) := by rw [ho]; decide
  have h4n : ¬ (open_curly.type = TOKEN_KEYWORD_WHILE) := by rw [ho]; decide
  rw [parser_parse_statement]
  simp only [hp1, h1n, h2n, h3n, h4n, if_false, eq_true ho, if_true, hn2, ne_eq,
    not_true_eq_false, hp3]

theorem statement_eof (parser : rouleaux_parser_t) (lexer : rouleaux_lexer)
    (eof : token) (ts : List token) (fuel : Nat)
    (hy : lexer_yields lexer (eof :: ts)) (he : eof.type = TOKEN_EOF) :
    ∃ lexer1, parser_parse_statement (fuel + 1) { parser with lexer := lexer }
        = some (parse_result_success (leaf_node AST_EOF token_zero),
            { parser with lexer := lexer1, done := true }) := by
  obtain ⟨l1, hp1, _⟩ := lexer_yields_peek lexer eof ts hy
  refine ⟨l1, ?_⟩
  have h1n : ¬ (eof.type = TOKEN_IDENTIFIER) := by rw [he]; decide
  have h2n : ¬ (eof.type = TOKEN_KEYWORD_CALL) := by rw [he]; decide
  have h3n : ¬ (eof.type = TOKEN_KEYWORD_IF) := by rw [he]; decide
  have h4n : ¬ (eof.type = TOKEN_KEYWORD_WHILE) := by rw [he]; decide
  have h5n : ¬ (eof.type = TOKEN_LEFT_CURLY) := by rw [he]; decide
  have h6n : ¬ (eof.type = TOKEN_LINE_COMMENT) := by rw [he]; decide
  have h7n : ¬ (eof.type = TOKEN_BLOCK_COMMENT) := by rw [he]; decide
  rw [parser_parse_statement]
  simp only [hp1, h1n, h2n, h3n, h4n, h5n, h6n, h7n, or_self, if_false, eq_true he, if_true,
    ast_node_create, leaf_node]

/-! ## Files -/

theorem parse_file_loop_step (parser : rouleaux_parser_t) (lexer : rouleaux_lexer)
    (children : node_list) (ts ts1 : List token) (depth fuel : Nat)
    (statement : parse_result) (hd : parser.done = false)
    (hy : lexer_yields lexer ts)
    (hstatement : parses (parser_parse_statement depth) parser ts statement ts1)
    (hs : statement.success = true) :
    ∃ lexer1, lexer_yields lexer1 ts1 ∧
      parse_file_loop depth (fuel + 1) { parser with lexer := lexer } children
        = parse_file_loop depth fuel { parser with lexer := lexer1 }
            (node_list_push_back children statement.resulting_tree) := by
  obtain ⟨l1, h1, hy1⟩ := hstatement lexer hy
  refine ⟨l1, hy1, ?_⟩
  rw [parse_file_loop, h1]
  simp only [hs, Bool.true_eq_false, if_false, hd, if_true]

theorem parse_file_loop_fails (parser : rouleaux_parser_t) (lexer : rouleaux_lexer)
    (children : node_list) (ts : List token) (depth fuel : Nat) (bad : token)
    (hy : lexer_yields lexer ts)
    (hstatement : fails_at (parser_parse_statement depth) parser ts bad) :
    ∃ r parser1, parse_file_loop depth (fuel + 1) { parser with lexer := lexer } children
        = some (r, parser1) ∧ r.success = false ∧ r.error.faulted_token = bad := by
  obtain ⟨r, p1, h1, hf, ht⟩ := hstatement lexer hy
  refine ⟨r, p1, ?_, hf, ht⟩
  rw [parse_file_loop]
  simp only [h1, hf, if_true]

theorem parse_file_loop_eof (parser : rouleaux_parser_t) (lexer : rouleaux_lexer)
    (children : node_list) (eof : token) (ts : List token) (depth fuel : Nat)
    (hy : lexer_yields lexer (eof :: ts)) (he : eof.type = TOKEN_EOF) :
    ∃ parser1, parse_file_loop (depth + 1) (fuel + 1) { parser with lexer := lexer } children
        = some (parse_result_success (many_node AST_SCOPE
            (node_list_push_back children (leaf_node AST_EOF token_zero))), parser1) := by
  obtain ⟨l1, h1⟩ := statement_eof parser lexer eof ts depth hy he
  refine ⟨{ parser with lexer := l1, done := true }, ?_⟩
  rw [parse_file_loop, h1]
  simp only [parse_result_success, Bool.true_eq_false, if_false, many_node]

theorem declaration_loop_operator (parser : rouleaux_parser_t) (lexer : rouleaux_lexer)
    (identifier_result : parse_result) (op : token) (ts : List token) (fuel : Nat)
    (declaration_type : ast_node_type)
    (hy : lexer_yields lexer (op :: ts))
    (ho : op.type = TOKEN_COLON ∧ declaration_type = AST_CONST_ASSIGNMENT ∨
      op.type = TOKEN_EQUALS ∧ declaration_type = AST_VALUE_ASSIGNMENT) :
    ∃ lexer1, declaration_loop (fuel + 1) { parser with lexer := lexer } identifier_result
        = some (declaration_loop_exit.found identifier_result
            (parse_result_success (leaf_node declaration_type op)),
            { parser with lexer := lexer1 }) ∧
      lexer_yields lexer1 ts := by
  rcases ho with ⟨h1, h2⟩ | ⟨h1, h2⟩
  · obtain ⟨l1, hy1, h⟩ := declaration_loop_colon parser lexer identifier_result op ts fuel hy h1
    exact ⟨l1, by rw [h, h2], hy1⟩
  · obtain ⟨l1, hy1, h⟩ := declaration_loop_equals parser lexer identifier_result op ts fuel hy h1
    exact ⟨l1, by rw [h, h2], hy1⟩

theorem declaration_loop_typed (parser : rouleaux_parser_t) (lexer : rouleaux_lexer)
    (type op : token) (ts : List token) (fuel : Nat) (declaration_type : ast_node_type)
    (hy : lexer_yields lexer ([type] ++ op :: ts)) (ht : type.type = TOKEN_IDENTIFIER)
    (ho : op.type = TOKEN_COLON ∧ declaration_type = AST_CONST_ASSIGNMENT ∨
      op.type = TOKEN_EQUALS ∧ declaration_type = AST_VALUE_ASSIGNMENT) :
    ∃ lexer1, declaration_loop (fuel + 2) { parser with lexer := lexer } parse_result_zero
        = some (declaration_loop_exit.found
            (parse_result_success (leaf_node AST_IDENTIFIER type))
            (parse_result_success (leaf_node declaration_type op)),
            { parser with lexer := lexer1 }) ∧
      lexer_yields lexer1 ts := by
  obtain ⟨l1, hy1, h1⟩ := declaration_loop_identifier parser lexer parse_result_zero type
    (op :: ts) (fuel + 1) hy ht
  obtain ⟨l2, h2, hy2⟩ := declaration_loop_operator parser l1
    (parse_result_success (leaf_node AST_IDENTIFIER type)) op ts fuel declaration_type hy1 ho
  exact ⟨l2, by rw [h1, h2], hy2⟩

theorem declaration_typed_tokens (parser : rouleaux_parser_t) (name colon type op semi : token)
    (ts rest : List token) (e : parse_result) (fuel : Nat) (declaration_type : ast_node_type)
    (hc : colon.type = TOKEN_COLON) (ht : type.type = TOKEN_IDENTIFIER)
    (ho : op.type = TOKEN_COLON ∧ declaration_type = AST_CONST_ASSIGNMENT ∨
      op.type = TOKEN_EQUALS ∧ declaration_type = AST_VALUE_ASSIGNMENT)
    (hs : semi.type = TOKEN_SEMICOLON) (hok : e.success = true)
    (hexpr : parses (parser_parse_function_or_expression (fuel + 2)) parser ts e
      (semi :: rest)) :
    parses (parser_parse_declaration_or_assignment (fuel + 3)) parser
      (name :: colon :: type :: op :: ts)
      (parse_result_success (binary_node declaration_type op
        (binary_node AST_TYPE_ASSIGNMENT colon (leaf_node AST_IDENTIFIER name)
          (leaf_node AST_IDENTIFIER type))
        e.resulting_tree)) rest :=
  declaration_tokens parser name colon op semi [type] ts rest
    (parse_result_success (leaf_node AST_IDENTIFIER type)) e (fuel + 2) declaration_type hc
    (fun lexer hy => declaration_loop_typed parser lexer type op ts fuel declaration_type hy ht
      ho)
    hs hok hexpr

theorem declaration_untyped_tokens (parser : rouleaux_parser_t) (name colon op semi : token)
    (ts rest : List token) (e : parse_result) (fuel : Nat) (declaration_type : ast_node_type)
    (hc : colon.type = TOKEN_COLON)
    (ho : op.type = TOKEN_COLON ∧ declaration_type = AST_CONST_ASSIGNMENT ∨
      op.type = TOKEN_EQUALS ∧ declaration_type = AST_VALUE_ASSIGNMENT)
    (hs : semi.type = TOKEN_SEMICOLON) (hok : e.success = true)
    (hexpr : parses (parser_parse_function_or_expression (fuel + 2)) parser ts e
      (semi :: rest)) :
    parses (parser_parse_declaration_or_assignment (fuel + 3)) parser
      (name :: colon :: op :: ts)
      (parse_result_success (binary_node declaration_type op
        (binary_node AST_TYPE_ASSIGNMENT colon (leaf_node AST_IDENTIFIER name) ast_node.null)
        e.resulting_tree)) rest :=
  declaration_tokens parser name colon op semi [] ts rest parse_result_zero e (fuel + 2)
    declaration_type hc
    (fun lexer hy => declaration_loop_operator parser lexer parse_result_zero op ts (fuel + 1)
      declaration_type hy ho)
    hs hok hexpr

/-- C16 (shape of declarations and assignments).  On every token stream, with
`name` the first token, `colon` a `:`, `type` an identifier, `semi` a `;`, and
`e` the successful result (tree `E`) of the parser of the right-hand side on
the tokens `ts` that follow the operator, leaving `; rest`:
`parser_parse_declaration_or_assignment` maps
`n = e;` to `VALUE_ASSIGN(IDENTIFIER n, E)`,
`n : T = e;` to `VALUE_ASSIGN(TYPE_ASSIGN(n, T), E)`,
`n : = e;` to `VALUE_ASSIGN(TYPE_ASSIGN(n, null), E)`,
`n : T : e;` to `CONST_ASSIGN(TYPE_ASSIGN(n, T), E)` and
`n :: e;` to `CONST_ASSIGN(TYPE_ASSIGN(n, null), E)`,
and leaves `rest`: the `;` is consumed.  The right-hand side of `n = e;` is
parsed by `parser_parse_expression_beginning`, that of the four forms with
`:` by `parser_parse_function_or_expression`. -/
theorem declaration_and_assignment_shapes (parser : rouleaux_parser_t)
    (name colon type op semi : token) (ts rest : List token) (e : parse_result) (fuel : Nat)
    (hc : colon.type = TOKEN_COLON) (ht : type.type = TOKEN_IDENTIFIER)
    (hs : semi.type = TOKEN_SEMICOLON) (hok : e.success = true) :
    (op.type = TOKEN_EQUALS →
      parses (parser_parse_expression_beginning (fuel + 2)) parser ts e (semi :: rest) →
      parses (parser_parse_declaration_or_assignment (fuel + 3)) parser (name :: op :: ts)
        (parse_result_success (binary_node AST_VALUE_ASSIGNMENT op
          (leaf_node AST_IDENTIFIER name) e.resulting_tree)) rest) ∧
    (op.type = TOKEN_EQUALS →
      parses (parser_parse_function_or_expression (fuel + 2)) parser ts e (semi :: rest) →
      parses (parser_parse_declaration_or_assignment (fuel + 3)) parser
        (name :: colon :: type :: op :: ts)
        (parse_result_success (binary_node AST_VALUE_ASSIGNMENT op
          (binary_node AST_TYPE_ASSIGNMENT colon (leaf_node AST_IDENTIFIER name)
            (leaf_node AST_IDENTIFIER type))
          e.resulting_tree)) rest) ∧
    (op.type = TOKEN_EQUALS →
      parses (parser_parse_function_or_expression (fuel + 2)) parser ts e (semi :: rest) →
      parses (parser_parse_declaration_or_assignment (fuel + 3)) parser
        (name :: colon :: op :: ts)
        (parse_result_success (binary_node AST_VALUE_ASSIGNMENT op
          (binary_node AST_TYPE_ASSIGNMENT colon (leaf_node AST_IDENTIFIER name) ast_node.null)
          e.resulting_tree)) rest) ∧
    (op.type = TOKEN_COLON →
      parses (parser_parse_function_or_expression (fuel + 2)) parser ts e (semi :: rest) →
      parses (parser_parse_declaration_or_assignment (fuel + 3)) parser
        (name :: colon :: type :: op :: ts)
        (parse_result_success (binary_node AST_CONST_ASSIGNMENT op
          (binary_node AST_TYPE_ASSIGNMENT colon (leaf_node AST_IDENTIFIER name)
            (leaf_node AST_IDENTIFIER type))
          e.resulting_tree)) rest) ∧
    (op.type = TOKEN_COLON →
      parses (parser_parse_function_or_expression (fuel + 2)) parser ts e (semi :: rest) →
      parses (parser_parse_declaration_or_assignment (fuel + 3)) parser
        (name :: colon :: op :: ts)
        (parse_result_success (binary_node AST_CONST_ASSIGNMENT op
          (binary_node AST_TYPE_ASSIGNMENT colon (leaf_node AST_IDENTIFIER name) ast_node.null)
          e.resulting_tree)) rest) :=
  ⟨fun ho he => value_assignment_tokens parser name op semi ts rest e (fuel + 2) ho hs hok he,
   fun ho he => declaration_typed_tokens parser name colon type op semi ts rest e fuel
     AST_VALUE_ASSIGNMENT hc ht (Or.inr ⟨ho, rfl⟩) hs hok he,
   fun ho he => declaration_untyped_tokens parser name colon op semi ts rest e fuel
     AST_VALUE_ASSIGNMENT hc (Or.inr ⟨ho, rfl⟩) hs hok he,
   fun ho he => declaration_typed_tokens parser name colon type op semi ts rest e fuel
     AST_CONST_ASSIGNMENT hc ht (Or.inl ⟨ho, rfl⟩) hs hok he,
   fun ho he => declaration_untyped_tokens parser name colon op semi ts rest e fuel
     AST_CONST_ASSIGNMENT hc (Or.inl ⟨ho, rfl⟩) hs hok he⟩

theorem parses_at (F : rouleaux_parser_t → Option (parse_result × rouleaux_parser_t))
    (parser : rouleaux_parser_t) (ts rest : List token) (r : parse_result)
    (h : parses F parser ts r rest) (hy : lexer_yields parser.lexer ts) :
    ∃ parser1, F parser = some (r, parser1) ∧ lexer_yields parser1.lexer rest := by
  obtain ⟨l1, h1, hy1⟩ := h parser.lexer hy
  exact ⟨_, h1, hy1⟩

theorem parses_primary_last (parser : rouleaux_parser_t) (c z : token) (rest : List token)
    (type : ast_node_type) (fuel : Nat)
    (hc : primary_node_type c.type = some type)
    (hz : binary_operator_type z.type = none)
    (hzc : c.type = TOKEN_IDENTIFIER → z.type ≠ TOKEN_LEFT_PAREN) :
    parses (parser_parse_expression_beginning (fuel + 2)) parser (c :: z :: rest)
      (parse_result_success (leaf_node type c)) (z :: rest) :=
  fun lexer hy => parser_parse_primary_last parser lexer c z rest type fuel hy hc hz hzc

theorem declaration_and_assignment_shapes_witness :
    (∃ parser1, parser_parse_declaration_or_assignment 4 (parser_create "f" (bytes "x = 1;"))
      = some (parse_result_success (binary_node AST_VALUE_ASSIGNMENT
          (source_token "f" TOKEN_EQUALS 2 1 1 3 token_value.zero)
          (leaf_node AST_IDENTIFIER (source_token "f" TOKEN_IDENTIFIER 0 1 1 1 token_value.zero))
          (leaf_node AST_INTEGER_LITERAL
            (source_token "f" TOKEN_INTEGER_LITERAL 4 1 1 5 (token_value.unsigned64 1)))),
        parser1)) ∧
    (∃ parser1,
      parser_parse_declaration_or_assignment 4 (parser_create "f" (bytes "x : int = 1;"))
      = some (parse_result_success (binary_node AST_VALUE_ASSIGNMENT
          (source_token "f" TOKEN_EQUALS 8 1 1 9 token_value.zero)
          (binary_node AST_TYPE_ASSIGNMENT
            (source_token "f" TOKEN_COLON 2 1 1 3 token_value.zero)
            (leaf_node AST_IDENTIFIER
              (source_token "f" TOKEN_IDENTIFIER 0 1 1 1 token_value.zero))
            (leaf_node AST_IDENTIFIER
              (source_token "f" TOKEN_IDENTIFIER 4 3 1 5 token_value.zero)))
          (leaf_node AST_INTEGER_LITERAL
            (source_token "f" TOKEN_INTEGER_LITERAL 10 1 1 11 (token_value.unsigned64 1)))),
        parser1)) ∧
    (∃ parser1, parser_parse_declaration_or_assignment 4 (parser_create "f" (bytes "x : = 1;"))
      = some (parse_result_success (binary_node AST_VALUE_ASSIGNMENT
          (source_token "f" TOKEN_EQUALS 4 1 1 5 token_value.zero)
          (binary_node AST_TYPE_ASSIGNMENT
            (source_token "f" TOKEN_COLON 2 1 1 3 token_value.zero)
            (leaf_node AST_IDENTIFIER
              (source_token "f" TOKEN_IDENTIFIER 0 1 1 1 token_value.zero))
            ast_node.null)
          (leaf_node AST_INTEGER_LITERAL
            (source_token "f" TOKEN_INTEGER_LITERAL 6 1 1 7 (token_value.unsigned64 1)))),
        parser1)) ∧
    (∃ parser1,
      parser_parse_declaration_or_assignment 4 (parser_create "f" (bytes "x : int : 1;"))
      = some (parse_result_success (binary_node AST_CONST_ASSIGNMENT
          (source_token "f" TOKEN_COLON 8 1 1 9 token_value.zero)
          (binary_node AST_TYPE_ASSIGNMENT
            (source_token "f" TOKEN_COLON 2 1 1 3 token_value.zero)
            (leaf_node AST_IDENTIFIER
              (source_token "f" TOKEN_IDENTIFIER 0 1 1 1 token_value.zero))
            (leaf_node AST_IDENTIFIER
              (source_token "f" TOKEN_IDENTIFIER 4 3 1 5 token_value.zero)))
          (leaf_node AST_INTEGER_LITERAL
            (source_token "f" TOKEN_INTEGER_LITERAL 10 1 1 11 (token_value.unsigned64 1)))),
        parser1)) ∧
    (∃ parser1, parser_parse_declaration_or_assignment 4 (parser_create "f" (bytes "x :: 1;"))
      = some (parse_result_success (binary_node AST_CONST_ASSIGNMENT
          (source_token "f" TOKEN_COLON 3 1 1 4 token_value.zero)
          (binary_node AST_TYPE_ASSIGNMENT
            (source_token "f" TOKEN_COLON 2 1 1 3 token_value.zero)
            (leaf_node AST_IDENTIFIER
              (source_token "f" TOKEN_IDENTIFIER 0 1 1 1 token_value.zero))
            ast_node.null)
          (leaf_node AST_INTEGER_LITERAL
            (source_token "f" TOKEN_INTEGER_LITERAL 5 1 1 6 (token_value.unsigned64 1)))),
        parser1)) := by
  have hr1 : lexer_next_tokens 4 (parser_create "f" (bytes "x = 1;")).lexer
      = some ([source_token "f" TOKEN_IDENTIFIER 0 1 1 1 token_value.zero,
               source_token "f" TOKEN_EQUALS 2 1 1 3 token_value.zero,
               source_token "f" TOKEN_INTEGER_LITERAL 4 1 1 5 (token_value.unsigned64 1),
               source_token "f" TOKEN_SEMICOLON 5 1 1 6 token_value.zero],
              { (parser_create "f" (bytes "x = 1;")).lexer with
                  head := 6, current_column := 7 }) := by
    decide
  have hr2 : lexer_next_tokens 6 (parser_create "f" (bytes "x : int = 1;")).lexer
      = some ([source_token "f" TOKEN_IDENTIFIER 0 1 1 1 token_value.zero,
               source_token "f" TOKEN_COLON 2 1 1 3 token_value.zero,
               source_token "f" TOKEN_IDENTIFIER 4 3 1 5 token_value.zero,
               source_token "f" TOKEN_EQUALS 8 1 1 9 token_value.zero,
               source_token "f" TOKEN_INTEGER_LITERAL 10 1 1 11 (token_value.unsigned64 1),
               source_token "f" TOKEN_SEMICOLON 11 1 1 12 token_value.zero],
              { (parser_create "f" (bytes "x : int = 1;")).lexer with
                  head := 12, current_column := 13 }) := by
    decide
  have hr3 : lexer_next_tokens 5 (parser_create "f" (bytes "x : = 1;")).lexer
      = some ([source_token "f" TOKEN_IDENTIFIER 0 1 1 1 token_value.zero,
               source_token "f" TOKEN_COLON 2 1 1 3 token_value.zero,
               source_token "f" TOKEN_EQUALS 4 1 1 5 token_value.zero,
               source_token "f" TOKEN_INTEGER_LITERAL 6 1 1 7 (token_value.unsigned64 1),
               source_token "f" TOKEN_SEMICOLON 7 1 1 8 token_value.zero],
              { (parser_create "f" (bytes "x : = 1;")).lexer with
                  head := 8, current_column := 9 }) := by
    decide
  have hr4 : lexer_next_tokens 6 (parser_create "f" (bytes "x : int : 1;")).lexer
      = some ([source_token "f" TOKEN_IDENTIFIER 0 1 1 1 token_value.zero,
               source_token "f" TOKEN_COLON 2 1 1 3 token_value.zero,
               source_token "f" TOKEN_IDENTIFIER 4 3 1 5 token_value.zero,
               source_token "f" TOKEN_COLON 8 1 1 9 token_value.zero,
               source_token "f" TOKEN_INTEGER_LITERAL 10 1 1 11 (token_value.unsigned64 1),
               source_token "f" TOKEN_SEMICOLON 11 1 1 12 token_value.zero],
              { (parser_create "f" (bytes "x : int : 1;")).lexer with
                  head := 12, current_column := 13 }) := by
    decide
  have hr5 : lexer_next_tokens 5 (parser_create "f" (bytes "x :: 1;")).lexer
      = some ([source_token "f" TOKEN_IDENTIFIER 0 1 1 1 token_value.zero,
               source_token "f" TOKEN_COLON 2 1 1 3 token_value.zero,
               source_token "f" TOKEN_COLON 3 1 1 4 token_value.zero,
               source_token "f" TOKEN_INTEGER_LITERAL 5 1 1 6 (token_value.unsigned64 1),
               source_token "f" TOKEN_SEMICOLON 6 1 1 7 token_value.zero],
              { (parser_create "f" (bytes "x :: 1;")).lexer with
                  head := 7, current_column := 8 }) := by
    decide
  have hexpr : ∀ (parser : rouleaux_parser_t) (one semi : token),
      one.type = TOKEN_INTEGER_LITERAL → semi.type = TOKEN_SEMICOLON →
      parses (parser_parse_expression_beginning (1 + 2)) parser [one, semi]
          (parse_result_success (leaf_node AST_INTEGER_LITERAL one)) [semi] ∧
        parses (parser_parse_function_or_expression (1 + 2)) parser [one, semi]
          (parse_result_success (leaf_node AST_INTEGER_LITERAL one)) [semi] := by
    intro parser one semi h1 h2
    have hp : primary_node_type one.type = some AST_INTEGER_LITERAL := by rw [h1]; decide
    have hz : binary_operator_type semi.type = none := by rw [h2]; decide
    have hzc : one.type = TOKEN_IDENTIFIER → semi.type ≠ TOKEN_LEFT_PAREN := by
      intro _; rw [h2]; decide
    have hlp : one.type ≠ TOKEN_LEFT_PAREN := by rw [h1]; decide
    exact ⟨parses_primary_last parser one semi [] AST_INTEGER_LITERAL 1 hp hz hzc,
      function_or_expression_no_paren parser one [semi] [semi] _ 2 hlp
        (parses_primary_last parser one semi [] AST_INTEGER_LITERAL 0 hp hz hzc)⟩
  refine ⟨?_, ?_, ?_, ?_, ?_⟩
  · obtain ⟨p1, h, _⟩ := parses_at _ _ _ _ _
      ((declaration_and_assignment_shapes (parser_create "f" (bytes "x = 1;"))
        (source_token "f" TOKEN_IDENTIFIER 0 1 1 1 token_value.zero)
        (source_token "f" TOKEN_COLON 0 0 0 0 token_value.zero)
        (source_token "f" TOKEN_IDENTIFIER 0 0 0 0 token_value.zero)
        (source_token "f" TOKEN_EQUALS 2 1 1 3 token_value.zero)
        (source_token "f" TOKEN_SEMICOLON 5 1 1 6 token_value.zero)
        [source_token "f" TOKEN_INTEGER_LITERAL 4 1 1 5 (token_value.unsigned64 1),
          source_token "f" TOKEN_SEMICOLON 5 1 1 6 token_value.zero] []
        (parse_result_success (leaf_node AST_INTEGER_LITERAL
          (source_token "f" TOKEN_INTEGER_LITERAL 4 1 1 5 (token_value.unsigned64 1))))
        1 (by decide) (by decide) (by decide) rfl).1 (by decide)
        (hexpr _ _ _ (by decide) (by decide)).1)
      ⟨by decide, _, hr1⟩
    exact ⟨p1, h⟩
  · obtain ⟨p1, h, _⟩ := parses_at _ _ _ _ _
      ((declaration_and_assignment_shapes (parser_create "f" (bytes "x : int = 1;"))
        (source_token "f" TOKEN_IDENTIFIER 0 1 1 1 token_value.zero)
        (source_token "f" TOKEN_COLON 2 1 1 3 token_value.zero)
        (source_token "f" TOKEN_IDENTIFIER 4 3 1 5 token_value.zero)
        (source_token "f" TOKEN_EQUALS 8 1 1 9 token_value.zero)
        (source_token "f" TOKEN_SEMICOLON 11 1 1 12 token_value.zero)
        [source_token "f" TOKEN_INTEGER_LITERAL 10 1 1 11 (token_value.unsigned64 1),
          source_token "f" TOKEN_SEMICOLON 11 1 1 12 token_value.zero] []
        (parse_result_success (leaf_node AST_INTEGER_LITERAL
          (source_token "f" TOKEN_INTEGER_LITERAL 10 1 1 11 (token_value.unsigned64 1))))
        1 (by decide) (by decide) (by decide) rfl).2.1 (by decide)
        (hexpr _ _ _ (by decide) (by decide)).2)
      ⟨by decide, _, hr2⟩
    exact ⟨p1, h⟩
  · obtain ⟨p1, h, _⟩ := parses_at _ _ _ _ _
      ((declaration_and_assignment_shapes (parser_create "f" (bytes "x : = 1;"))
        (source_token "f" TOKEN_IDENTIFIER 0 1 1 1 token_value.zero)
        (source_token "f" TOKEN_COLON 2 1 1 3 token_value.zero)
        (source_token "f" TOKEN_IDENTIFIER 0 0 0 0 token_value.zero)
        (source_token "f" TOKEN_EQUALS 4 1 1 5 token_value.zero)
        (source_token "f" TOKEN_SEMICOLON 7 1 1 8 token_value.zero)
        [source_token "f" TOKEN_INTEGER_LITERAL 6 1 1 7 (token_value.unsigned64 1),
          source_token "f" TOKEN_SEMICOLON 7 1 1 8 token_value.zero] []
        (parse_result_success (leaf_node AST_INTEGER_LITERAL
          (source_token "f" TOKEN_INTEGER_LITERAL 6 1 1 7 (token_value.unsigned64 1))))
        1 (by decide) (by decide) (by decide) rfl).2.2.1 (by decide)
        (hexpr _ _ _ (by decide) (by decide)).2)
      ⟨by decide, _, hr3⟩
    exact ⟨p1, h⟩
  · obtain ⟨p1, h, _⟩ := parses_at _ _ _ _ _
      ((declaration_and_assignment_shapes (parser_create "f" (bytes "x : int : 1;"))
        (source_token "f" TOKEN_IDENTIFIER 0 1 1 1 token_value.zero)
        (source_token "f" TOKEN_COLON 2 1 1 3 token_value.zero)
        (source_token "f" TOKEN_IDENTIFIER 4 3 1 5 token_value.zero)
        (source_token "f" TOKEN_COLON 8 1 1 9 token_value.zero)
        (source_token "f" TOKEN_SEMICOLON 11 1 1 12 token_value.zero)
        [source_token "f" TOKEN_INTEGER_LITERAL 10 1 1 11 (token_value.unsigned64 1),
          source_token "f" TOKEN_SEMICOLON 11 1 1 12 token_value.zero] []
        (parse_result_success (leaf_node AST_INTEGER_LITERAL
          (source_token "f" TOKEN_INTEGER_LITERAL 10 1 1 11 (token_value.unsigned64 1))))
        1 (by decide) (by decide) (by decide) rfl).2.2.2.1 (by decide)
        (hexpr _ _ _ (by decide) (by decide)).2)
      ⟨by decide, _, hr4⟩
    exact ⟨p1, h⟩
  · obtain ⟨p1, h, _⟩ := parses_at _ _ _ _ _
      ((declaration_and_assignment_shapes (parser_create "f" (bytes "x :: 1;"))
        (source_token "f" TOKEN_IDENTIFIER 0 1 1 1 token_value.zero)
        (source_token "f" TOKEN_COLON 2 1 1 3 token_value.zero)
        (source_token "f" TOKEN_IDENTIFIER 0 0 0 0 token_value.zero)
        (source_token "f" TOKEN_COLON 3 1 1 4 token_value.zero)
        (source_token "f" TOKEN_SEMICOLON 6 1 1 7 token_value.zero)
        [source_token "f" TOKEN_INTEGER_LITERAL 5 1 1 6 (token_value.unsigned64 1),
          source_token "f" TOKEN_SEMICOLON 6 1 1 7 token_value.zero] []
        (parse_result_success (leaf_node AST_INTEGER_LITERAL
          (source_token "f" TOKEN_INTEGER_LITERAL 5 1 1 6 (token_value.unsigned64 1))))
        1 (by decide) (by decide) (by decide) rfl).2.2.2.2 (by decide)
        (hexpr _ _ _ (by decide) (by decide)).2)
      ⟨by decide, _, hr5⟩
    exact ⟨p1, h⟩

theorem parses_empty_scope (parser : rouleaux_parser_t) (open_curly close : token)
    (ts : List token) (fuel : Nat)
    (ho : open_curly.type = TOKEN_LEFT_CURLY) (hc : close.type = TOKEN_RIGHT_CURLY) :
    parses (parser_parse_statement (fuel + 2)) parser (open_curly :: close :: ts)
      (parse_result_success (many_node AST_SCOPE node_list_create)) ts := by
  intro lexer hy
  obtain ⟨l1, hy1, h1⟩ := statement_scope_start parser lexer open_curly close ts (fuel + 1) hy ho
  obtain ⟨l2, h2, hy2⟩ := scope_loop_exit parser l1 node_list_create close ts fuel hy1 hc
  exact ⟨l2, by rw [h1, h2], hy2⟩

theorem parses_scope_of_one (parser : rouleaux_parser_t) (open_curly t close : token)
    (ts rest : List token) (statement : parse_result) (fuel : Nat)
    (ho : open_curly.type = TOKEN_LEFT_CURLY) (hc : close.type = TOKEN_RIGHT_CURLY)
    (ht1 : t.type ≠ TOKEN_RIGHT_CURLY) (ht2 : t.type ≠ TOKEN_EOF)
    (hstatement : parses (parser_parse_statement (fuel + 1)) parser (t :: ts) statement
      (close :: rest))
    (hs : statement.success = true) :
    parses (parser_parse_statement (fuel + 3)) parser (open_curly :: t :: ts)
      (parse_result_success (many_node AST_SCOPE
        (node_list_push_back node_list_create statement.resulting_tree))) rest := by
  intro lexer hy
  obtain ⟨l1, hy1, h1⟩ := statement_scope_start parser lexer open_curly t ts (fuel + 2) hy ho
  obtain ⟨l2, hy2, h2⟩ := scope_loop_step parser l1 node_list_create t close (t :: ts) rest
    (fuel + 1) statement hy1 ht1 ht2 hstatement hs
  obtain ⟨l3, h3, hy3⟩ := scope_loop_exit parser l2
    (node_list_push_back node_list_create statement.resulting_tree) close rest fuel hy2 hc
  exact ⟨l3, by rw [h1, h2, h3], hy3⟩

theorem function_or_expression_lookahead (parser : rouleaux_parser_t) (t1 t2 t3 : token)
    (ts rest : List token) (r : parse_result) (fuel : Nat)
    (h : parses (if starts_function_declaration t1 t2 t3 = true
        then parser_parse_function_declaration fuel
        else parser_parse_expression_beginning fuel) parser (t1 :: t2 :: t3 :: ts) r rest) :
    parses (parser_parse_function_or_expression (fuel + 1)) parser (t1 :: t2 :: t3 :: ts)
      r rest := by
  by_cases h1 : t1.type = TOKEN_LEFT_PAREN
  · by_cases h2 : t2.type = TOKEN_RIGHT_PAREN
    · have hs : starts_function_declaration t1 t2 t3 = true := by
        simp [starts_function_declaration, h1, h2]
      rw [if_pos hs] at h
      exact function_or_expression_no_parameters parser t1 t2 (t3 :: ts) rest r fuel h1 h2 h
    · by_cases h3 : t2.type = TOKEN_IDENTIFIER
      · by_cases h4 : t3.type = TOKEN_COLON
        · have hs : starts_function_declaration t1 t2 t3 = true := by
            simp [starts_function_declaration, h1, h3, h4]
          rw [if_pos hs] at h
          exact function_or_expression_identifier parser t1 t2 t3 ts rest r fuel h1 h3
            (by rw [if_pos h4]; exact h)
        · have hs : ¬ (starts_function_declaration t1 t2 t3 = true) := by
            simp [starts_function_declaration, h2, h4]
          rw [if_neg hs] at h
          exact function_or_expression_identifier parser t1 t2 t3 ts rest r fuel h1 h3
            (by rw [if_neg h4]; exact h)
      · have hs : ¬ (starts_function_declaration t1 t2 t3 = true) := by
          simp [starts_function_declaration, h2, h3]
        rw [if_neg hs] at h
        exact function_or_expression_no_identifier parser t1 t2 (t3 :: ts) rest r fuel h1 h2 h3 h
  · have hs : ¬ (starts_function_declaration t1 t2 t3 = true) := by
      simp [starts_function_declaration, h1]
    rw [if_neg hs] at h
    exact function_or_expression_no_paren parser t1 (t2 :: t3 :: ts) rest r fuel h1 h

theorem parses_no_parameters (parser : rouleaux_parser_t) (lp rp : token) (ts : List token)
    (fuel : Nat) (hlp : lp.type = TOKEN_LEFT_PAREN) (hrp : rp.type = TOKEN_RIGHT_PAREN) :
    parses (parser_parse_parameter_list (fuel + 1)) parser (lp :: rp :: ts)
      (parse_result_success (many_node AST_PARAMETER_LIST node_list_create)) ts := by
  intro lexer hy
  obtain ⟨l1, hy1, h1⟩ := parser_parse_parameter_list_start parser lexer lp rp ts (fuel + 1) hy hlp
  obtain ⟨l2, h2, hy2⟩ := parameter_list_loop_exit parser l1 node_list_create lp rp ts fuel hy1
    hrp
  exact ⟨l2, by rw [h1, h2], hy2⟩

theorem parses_parenthesized_primary (parser : rouleaux_parser_t) (lp c rp z : token)
    (rest : List token) (type : ast_node_type) (fuel : Nat)
    (hlp : lp.type = TOKEN_LEFT_PAREN) (hrp : rp.type = TOKEN_RIGHT_PAREN)
    (hc : primary_node_type c.type = some type)
    (hz : binary_operator_type z.type = none) :
    parses (parser_parse_expression_beginning (fuel + 3)) parser (lp :: c :: rp :: z :: rest)
      (parse_result_success
        (ast_node.node type c ast_node.null ast_node.null ast_node.null node_list.nil true))
      (z :: rest) := by
  intro lexer hy
  have hrpn : binary_operator_type rp.type = none := by rw [hrp]; decide
  have hrpp : c.type = TOKEN_IDENTIFIER → rp.type ≠ TOKEN_LEFT_PAREN := by
    intro _; rw [hrp]; decide
  exact parser_parse_parenthesized_last parser lexer lp rp z (c :: rp :: z :: rest) rest
    (fuel + 1) (leaf_node type c) _ hy hlp
    (fun lexer1 hy1 => parser_parse_primary_last parser lexer1 c rp (z :: rest) type fuel hy1
      hc hrpn hrpp)
    hrp hz rfl

theorem lexer_yields_peek_all (lexer : rouleaux_lexer) (t : token) (ts0 : List token)
    (h : lexer_yields lexer (t :: ts0)) :
    ∃ lexer1, lexer_peek_token lexer = some (t, lexer1) ∧
      ∀ ts, lexer_yields lexer (t :: ts) → lexer_yields lexer1 (t :: ts) := by
  obtain ⟨l1, hp, _⟩ := lexer_yields_peek lexer t ts0 h
  refine ⟨l1, hp, fun ts hy => ?_⟩
  obtain ⟨l2, hp2, hy2⟩ := lexer_yields_peek lexer t ts hy
  rw [hp] at hp2
  cases hp2
  exact hy2

theorem lexer_yields_next_all (lexer : rouleaux_lexer) (t : token) (ts0 : List token)
    (h : lexer_yields lexer (t :: ts0)) :
    ∃ lexer1, lexer_next_token lexer = some (t, lexer1) ∧
      ∀ ts, lexer_yields lexer (t :: ts) → lexer_yields lexer1 ts := by
  obtain ⟨l1, hn, _⟩ := lexer_yields_next lexer t ts0 h
  refine ⟨l1, hn, fun ts hy => ?_⟩
  obtain ⟨l2, hn2, hy2⟩ := lexer_yields_next lexer t ts hy
  rw [hn] at hn2
  cases hn2
  exact hy2

theorem lexer_yields_put_back_all (lexer : rouleaux_lexer) (t : token) (ts0 : List token)
    (h : lexer_yields lexer ts0) :
    ∃ lexer1, lexer_put_back_token lexer t = some (true, lexer1) ∧
      ∀ ts, lexer_yields lexer ts → lexer_yields lexer1 (t :: ts) := by
  obtain ⟨l1, hb, _⟩ := lexer_yields_put_back lexer t ts0 h
  refine ⟨l1, hb, fun ts hy => ?_⟩
  obtain ⟨l2, hb2, hy2⟩ := lexer_yields_put_back lexer t ts hy
  rw [hb] at hb2
  cases hb2
  exact hy2

theorem function_or_expression_rewinds (parser : rouleaux_parser_t) (lexer : rouleaux_lexer)
    (t1 t2 t3 : token) (ts0 : List token) (fuel : Nat)
    (hy : lexer_yields lexer (t1 :: t2 :: t3 :: ts0)) :
    ∃ lexer1,
      (∀ ts, lexer_yields lexer (t1 :: t2 :: t3 :: ts) →
        lexer_yields lexer1 (t1 :: t2 :: t3 :: ts)) ∧
      parser_parse_function_or_expression (fuel + 1) { parser with lexer := lexer }
        = (if starts_function_declaration t1 t2 t3 = true
            then parser_parse_function_declaration fuel
            else parser_parse_expression_beginning fuel) { parser with lexer := lexer1 } := by
  obtain ⟨l1, hp1, ha1⟩ := lexer_yields_peek_all lexer t1 _ hy
  by_cases h1 : t1.type = TOKEN_LEFT_PAREN
  · obtain ⟨l2, hn2, ha2⟩ := lexer_yields_next_all l1 t1 _ (ha1 _ hy)
    obtain ⟨l3, hp3, ha3⟩ := lexer_yields_peek_all l2 t2 _ (ha2 _ (ha1 _ hy))
    have hy3 := ha3 _ (ha2 _ (ha1 _ hy))
    by_cases h2 : t2.type = TOKEN_RIGHT_PAREN
    · obtain ⟨l4, hb4, ha4⟩ := lexer_yields_put_back_all l3 t1 _ hy3
      have hs : starts_function_declaration t1 t2 t3 = true := by
        simp [starts_function_declaration, h1, h2]
      refine ⟨l4, fun ts h => ha4 _ (ha3 _ (ha2 _ (ha1 _ h))), ?_⟩
      rw [if_pos hs, parser_parse_function_or_expression]
      simp only [hp1, ne_eq, eq_true h1, not_true_eq_false, if_false, hn2, hp3, eq_true h2,
        if_true, hb4]
    · by_cases h3 : t2.type = TOKEN_IDENTIFIER
      · obtain ⟨l4, hn4, ha4⟩ := lexer_yields_next_all l3 t2 _ hy3
        obtain ⟨l5, hp5, ha5⟩ := lexer_yields_peek_all l4 t3 _ (ha4 _ hy3)
        have hy5 := ha5 _ (ha4 _ hy3)
        obtain ⟨l6, hb6, ha6⟩ := lexer_yields_put_back_all l5 t2 _ hy5
        obtain ⟨l7, hb7, ha7⟩ := lexer_yields_put_back_all l6 t1 _ (ha6 _ hy5)
        refine ⟨l7, fun ts h =>
          ha7 _ (ha6 _ (ha5 _ (ha4 _ (ha3 _ (ha2 _ (ha1 _ h)))))), ?_⟩
        rw [parser_parse_function_or_expression]
        simp only [hp1, ne_eq, eq_true h1, not_true_eq_false, if_false, hn2, hp3, h2,
          eq_true h3, hn4, hp5, hb6, hb7]
        by_cases h4 : t3.type = TOKEN_COLON
        · have hs : starts_function_declaration t1 t2 t3 = true := by
            simp [starts_function_declaration, h1, h3, h4]
          rw [if_pos hs]
          simp only [eq_true h4, not_true_eq_false, if_false]
        · have hs : ¬ (starts_function_declaration t1 t2 t3 = true) := by
            simp [starts_function_declaration, h2, h4]
          rw [if_neg hs]
          simp only [h4, not_false_eq_true, if_true]
      · obtain ⟨l4, hb4, ha4⟩ := lexer_yields_put_back_all l3 t1 _ hy3
        have hs : ¬ (starts_function_declaration t1 t2 t3 = true) := by
          simp [starts_function_declaration, h2, h3]
        refine ⟨l4, fun ts h => ha4 _ (ha3 _ (ha2 _ (ha1 _ h))), ?_⟩
        rw [if_neg hs, parser_parse_function_or_expression]
        simp only [hp1, ne_eq, eq_true h1, not_true_eq_false, if_false, hn2, hp3, h2, h3,
          not_false_eq_true, if_true, hb4]
  · have hs : ¬ (starts_function_declaration t1 t2 t3 = true) := by
      simp [starts_function_declaration, h1]
    refine ⟨l1, fun ts h => ha1 _ h, ?_⟩
    rw [if_neg hs, parser_parse_function_or_expression]
    simp only [hp1, ne_eq, h1, not_false_eq_true, if_true]

/-- C17 (function-versus-expression lookahead).  For every parser whose lexer
yields a stream beginning with the tokens `t1 t2 t3`:
`parser_parse_function_or_expression` returns exactly what
`parser_parse_function_declaration` returns when the stream begins with `(`
`)` or with `(` IDENT `:`, and exactly what `parser_parse_expression_beginning`
returns in every other case, the sub-parser being run on a lexer that yields
every run of tokens `t1 t2 t3 ...` that the lexer of the call yields: the
consumed `(` and identifier have been put back, so the sub-parser sees the
tokens unmodified and in their original order. -/
theorem function_or_expression_is_transparent (parser : rouleaux_parser_t) (t1 t2 t3 : token)
    (ts0 : List token) (fuel : Nat)
    (hy : lexer_yields parser.lexer (t1 :: t2 :: t3 :: ts0)) :
    ∃ lexer1,
      (∀ ts, lexer_yields parser.lexer (t1 :: t2 :: t3 :: ts) →
        lexer_yields lexer1 (t1 :: t2 :: t3 :: ts)) ∧
      parser_parse_function_or_expression (fuel + 1) parser
        = (if starts_function_declaration t1 t2 t3 = true
            then parser_parse_function_declaration fuel
            else parser_parse_expression_beginning fuel) { parser with lexer := lexer1 } :=
  function_or_expression_rewinds parser parser.lexer t1 t2 t3 ts0 fuel hy

theorem function_or_expression_is_transparent_witness :
    (∃ parser1, parser_parse_function_or_expression 4 (parser_create "f" (bytes "(1);"))
      = some (parse_result_success
          (ast_node.node AST_INTEGER_LITERAL
            (source_token "f" TOKEN_INTEGER_LITERAL 1 1 1 2 (token_value.unsigned64 1))
            ast_node.null ast_node.null ast_node.null node_list.nil true), parser1)) ∧
    (∃ parser1,
      parser_parse_function_or_expression 4 (parser_create "f" (bytes "() -> int {};"))
      = some (parse_result_success
          (ast_node.node AST_FUNCTION_DECLARATION token_zero
            (many_node AST_PARAMETER_LIST node_list_create)
            (leaf_node AST_IDENTIFIER
              (source_token "f" TOKEN_IDENTIFIER 6 3 1 7 token_value.zero))
            (many_node AST_SCOPE node_list_create) node_list.nil false), parser1)) := by
  have hr1 : lexer_next_tokens 4 (parser_create "f" (bytes "(1);")).lexer
      = some ([source_token "f" TOKEN_LEFT_PAREN 0 1 1 1 token_value.zero,
               source_token "f" TOKEN_INTEGER_LITERAL 1 1 1 2 (token_value.unsigned64 1),
               source_token "f" TOKEN_RIGHT_PAREN 2 1 1 3 token_value.zero,
               source_token "f" TOKEN_SEMICOLON 3 1 1 4 token_value.zero],
              { (parser_create "f" (bytes "(1);")).lexer with
                  head := 4, current_column := 5 }) := by
    decide
  have hr2 : lexer_next_tokens 7 (parser_create "f" (bytes "() -> int {};")).lexer
      = some ([source_token "f" TOKEN_LEFT_PAREN 0 1 1 1 token_value.zero,
               source_token "f" TOKEN_RIGHT_PAREN 1 1 1 2 token_value.zero,
               source_token "f" TOKEN_ARROW 3 2 1 4 token_value.zero,
               source_token "f" TOKEN_IDENTIFIER 6 3 1 7 token_value.zero,
               source_token "f" TOKEN_LEFT_CURLY 10 1 1 11 token_value.zero,
               source_token "f" TOKEN_RIGHT_CURLY 11 1 1 12 token_value.zero,
               source_token "f" TOKEN_SEMICOLON 12 1 1 13 token_value.zero],
              { (parser_create "f" (bytes "() -> int {};")).lexer with
                  head := 13, current_column := 14 }) := by
    decide
  constructor
  · have hy : lexer_yields (parser_create "f" (bytes "(1);")).lexer
        [source_token "f" TOKEN_LEFT_PAREN 0 1 1 1 token_value.zero,
         source_token "f" TOKEN_INTEGER_LITERAL 1 1 1 2 (token_value.unsigned64 1),
         source_token "f" TOKEN_RIGHT_PAREN 2 1 1 3 token_value.zero,
         source_token "f" TOKEN_SEMICOLON 3 1 1 4 token_value.zero] :=
      ⟨by decide, _, hr1⟩
    obtain ⟨l1, hall, heq⟩ := function_or_expression_is_transparent
      (parser_create "f" (bytes "(1);"))
      (source_token "f" TOKEN_LEFT_PAREN 0 1 1 1 token_value.zero)
      (source_token "f" TOKEN_INTEGER_LITERAL 1 1 1 2 (token_value.unsigned64 1))
      (source_token "f" TOKEN_RIGHT_PAREN 2 1 1 3 token_value.zero)
      [source_token "f" TOKEN_SEMICOLON 3 1 1 4 token_value.zero] 3 hy
    rw [if_neg (by decide)] at heq
    obtain ⟨l2, h2, _⟩ := parses_parenthesized_primary (parser_create "f" (bytes "(1);"))
      _ _ _ _ [] AST_INTEGER_LITERAL 0 (by decide) (by decide) (by decide) (by decide)
      l1 (hall _ hy)
    exact ⟨_, heq.trans h2⟩
  · have hy : lexer_yields (parser_create "f" (bytes "() -> int {};")).lexer
        [source_token "f" TOKEN_LEFT_PAREN 0 1 1 1 token_value.zero,
         source_token "f" TOKEN_RIGHT_PAREN 1 1 1 2 token_value.zero,
         source_token "f" TOKEN_ARROW 3 2 1 4 token_value.zero,
         source_token "f" TOKEN_IDENTIFIER 6 3 1 7 token_value.zero,
         source_token "f" TOKEN_LEFT_CURLY 10 1 1 11 token_value.zero,
         source_token "f" TOKEN_RIGHT_CURLY 11 1 1 12 token_value.zero,
         source_token "f" TOKEN_SEMICOLON 12 1 1 13 token_value.zero] :=
      ⟨by decide, _, hr2⟩
    obtain ⟨l1, hall, heq⟩ := function_or_expression_is_transparent
      (parser_create "f" (bytes "() -> int {};"))
      (source_token "f" TOKEN_LEFT_PAREN 0 1 1 1 token_value.zero)
      (source_token "f" TOKEN_RIGHT_PAREN 1 1 1 2 token_value.zero)
      (source_token "f" TOKEN_ARROW 3 2 1 4 token_value.zero)
      [source_token "f" TOKEN_IDENTIFIER 6 3 1 7 token_value.zero,
       source_token "f" TOKEN_LEFT_CURLY 10 1 1 11 token_value.zero,
       source_token "f" TOKEN_RIGHT_CURLY 11 1 1 12 token_value.zero,
       source_token "f" TOKEN_SEMICOLON 12 1 1 13 token_value.zero] 3 hy
    rw [if_pos (by decide)] at heq
    obtain ⟨l2, h2, _⟩ := parser_parse_function_declaration_tokens
      (parser_create "f" (bytes "() -> int {};"))
      _ _ [source_token "f" TOKEN_SEMICOLON 12 1 1 13 token_value.zero]
      (source_token "f" TOKEN_ARROW 3 2 1 4 token_value.zero)
      (source_token "f" TOKEN_IDENTIFIER 6 3 1 7 token_value.zero) _ _ 2
      (parses_no_parameters _ _ _ _ 1 (by decide) (by decide)) (by decide) (by decide)
      (parses_empty_scope _ _ _ _ 0 (by decide) (by decide))
      l1 (hall _ hy)
    exact ⟨_, heq.trans h2⟩

/-- C18 (shape of the WHILE node).  For every statement `while e s` whose
condition `e` parses to the tree `E` and whose body `s` parses successfully,
`parser_parse_statement` returns a WHILE node whose left child is `E` and
whose right child is `E` again: the tree of the body is not in the node. -/
theorem while_node_repeats_the_condition (parser : rouleaux_parser_t) (while_token : token)
    (ts body_ts rest : List token) (condition body : parse_result) (fuel : Nat)
    (hw : while_token.type = TOKEN_KEYWORD_WHILE)
    (hcondition : parses (parser_parse_expression_beginning fuel) parser ts condition body_ts)
    (hc : condition.success = true)
    (hbody : parses (parser_parse_statement fuel) parser body_ts body rest)
    (hb : body.success = true) :
    parses (parser_parse_statement (fuel + 1)) parser (while_token :: ts)
      (parse_result_success (binary_node AST_WHILE_STATEMENT while_token
        condition.resulting_tree condition.resulting_tree)) rest :=
  statement_while parser while_token ts body_ts rest condition body fuel hw hcondition hc
    hbody hb

theorem while_node_repeats_the_condition_witness :
    ∃ parser1, parser_parse_statement 7 (parser_create "f" (bytes "while 1 { x = 2; }"))
      = some (parse_result_success
          (binary_node AST_WHILE_STATEMENT
            (source_token "f" TOKEN_KEYWORD_WHILE 0 5 1 1 token_value.zero)
            (leaf_node AST_INTEGER_LITERAL
              (source_token "f" TOKEN_INTEGER_LITERAL 6 1 1 7 (token_value.unsigned64 1)))
            (leaf_node AST_INTEGER_LITERAL
              (source_token "f" TOKEN_INTEGER_LITERAL 6 1 1 7 (token_value.unsigned64 1)))),
          parser1) := by
  have hr : lexer_next_tokens 8 (parser_create "f" (bytes "while 1 { x = 2; }")).lexer
      = some ([source_token "f" TOKEN_KEYWORD_WHILE 0 5 1 1 token_value.zero,
               source_token "f" TOKEN_INTEGER_LITERAL 6 1 1 7 (token_value.unsigned64 1),
               source_token "f" TOKEN_LEFT_CURLY 8 1 1 9 token_value.zero,
               source_token "f" TOKEN_IDENTIFIER 10 1 1 11 token_value.zero,
               source_token "f" TOKEN_EQUALS 12 1 1 13 token_value.zero,
               source_token "f" TOKEN_INTEGER_LITERAL 14 1 1 15 (token_value.unsigned64 2),
               source_token "f" TOKEN_SEMICOLON 15 1 1 16 token_value.zero,
               source_token "f" TOKEN_RIGHT_CURLY 17 1 1 18 token_value.zero],
              { (parser_create "f" (bytes "while 1 { x = 2; }")).lexer with
                  head := 18, current_column := 19 }) := by
    decide
  have hassign : parses (parser_parse_statement 4)
      (parser_create "f" (bytes "while 1 { x = 2; }"))
      [source_token "f" TOKEN_IDENTIFIER 10 1 1 11 token_value.zero,
       source_token "f" TOKEN_EQUALS 12 1 1 13 token_value.zero,
       source_token "f" TOKEN_INTEGER_LITERAL 14 1 1 15 (token_value.unsigned64 2),
       source_token "f" TOKEN_SEMICOLON 15 1 1 16 token_value.zero,
       source_token "f" TOKEN_RIGHT_CURLY 17 1 1 18 token_value.zero]
      (parse_result_success (binary_node AST_VALUE_ASSIGNMENT
        (source_token "f" TOKEN_EQUALS 12 1 1 13 token_value.zero)
        (leaf_node AST_IDENTIFIER (source_token "f" TOKEN_IDENTIFIER 10 1 1 11 token_value.zero))
        (leaf_node AST_INTEGER_LITERAL
          (source_token "f" TOKEN_INTEGER_LITERAL 14 1 1 15 (token_value.unsigned64 2)))))
      [source_token "f" TOKEN_RIGHT_CURLY 17 1 1 18 token_value.zero] :=
    statement_identifier_first _ _ _ _ _ 3 (by decide)
      (value_assignment_tokens _ _ _
        (source_token "f" TOKEN_SEMICOLON 15 1 1 16 token_value.zero) _ _
        (parse_result_success (leaf_node AST_INTEGER_LITERAL
          (source_token "f" TOKEN_INTEGER_LITERAL 14 1 1 15 (token_value.unsigned64 2))))
        2 (by decide) (by decide) rfl
        (parses_primary_last _ _ _ _ AST_INTEGER_LITERAL 0 (by decide) (by decide) (by decide)))
  obtain ⟨p1, h, _⟩ := parses_at _ _ _ _ _
    (while_node_repeats_the_condition (parser_create "f" (bytes "while 1 { x = 2; }"))
      (source_token "f" TOKEN_KEYWORD_WHILE 0 5 1 1 token_value.zero)
      _ _ [] (parse_result_success (leaf_node AST_INTEGER_LITERAL
          (source_token "f" TOKEN_INTEGER_LITERAL 6 1 1 7 (token_value.unsigned64 1)))) _ 6
      (by decide)
      (parses_primary_last _
        (source_token "f" TOKEN_INTEGER_LITERAL 6 1 1 7 (token_value.unsigned64 1))
        (source_token "f" TOKEN_LEFT_CURLY 8 1 1 9 token_value.zero) _ AST_INTEGER_LITERAL 4
        (by decide) (by decide) (by decide))
      rfl
      (parses_scope_of_one _ (source_token "f" TOKEN_LEFT_CURLY 8 1 1 9 token_value.zero)
        _ (source_token "f" TOKEN_RIGHT_CURLY 17 1 1 18 token_value.zero) _ [] _ 3
        (by decide) (by decide) (by decide) (by decide) hassign rfl)
      rfl)
    ⟨by decide, _, hr⟩
  exact ⟨p1, h⟩

/-! ## Scenario 4 -/

theorem parses_two_operands (parser : rouleaux_parser_t) (a o b z : token) (rest : List token)
    (ta tb top : ast_node_type) (fuel : Nat)
    (ha : primary_node_type a.type = some ta) (hb : primary_node_type b.type = some tb)
    (ho : binary_operator_type o.type = some top)
    (hz : binary_operator_type z.type = none)
    (hzb : b.type = TOKEN_IDENTIFIER → z.type ≠ TOKEN_LEFT_PAREN) :
    parses (parser_parse_expression_beginning (fuel + 5)) parser (a :: o :: b :: z :: rest)
      (parse_result_success (binary_node top o (leaf_node ta a) (leaf_node tb b)))
      (z :: rest) :=
  fun lexer hy =>
    parser_parse_primary_then_operator parser lexer a o (b :: z :: rest) (z :: rest) ta top
      (fuel + 2) (leaf_node tb b) _ false hy ha ho
      (fun lexer1 hy1 => parser_parse_primary_last parser lexer1 b z rest tb fuel hy1 hb hz hzb)
      (fix_precedence_leaf top ta tb o a b (primary_precedence b.type tb hb))

theorem parses_two_parameters (parser : rouleaux_parser_t)
    (lp n1 c1 t1 comma n2 c2 t2 rp : token) (rest : List token) (fuel : Nat)
    (hlp : lp.type = TOKEN_LEFT_PAREN) (hrp : rp.type = TOKEN_RIGHT_PAREN)
    (hcomma : comma.type = TOKEN_COMMA)
    (hn1 : n1.type = TOKEN_IDENTIFIER) (hc1 : c1.type = TOKEN_COLON)
    (ht1 : t1.type = TOKEN_IDENTIFIER)
    (hn2 : n2.type = TOKEN_IDENTIFIER) (hc2 : c2.type = TOKEN_COLON)
    (ht2 : t2.type = TOKEN_IDENTIFIER) :
    parses (parser_parse_parameter_list (fuel + 3)) parser
      (lp :: n1 :: c1 :: t1 :: comma :: n2 :: c2 :: t2 :: rp :: rest)
      (parse_result_success (many_node AST_PARAMETER_LIST
        (node_list.cons (binary_node AST_TYPE_ASSIGNMENT c1 (leaf_node AST_IDENTIFIER n1)
            (leaf_node AST_IDENTIFIER t1))
          (node_list.cons (binary_node AST_TYPE_ASSIGNMENT c2 (leaf_node AST_IDENTIFIER n2)
              (leaf_node AST_IDENTIFIER t2))
            node_list.nil)))) rest := by
  intro lexer hy
  obtain ⟨l1, hy1, h1⟩ := parser_parse_parameter_list_start parser lexer lp n1 _ (fuel + 3) hy hlp
  obtain ⟨l2, hy2, h2⟩ := parameter_list_loop_step parser l1 node_list_create lp n1 c1 t1 comma
    n2 _ (fuel + 2) hy1 hn1 hc1 ht1 hcomma
  obtain ⟨l3, hy3, h3⟩ := parameter_list_loop_last parser l2 _ lp n2 c2 t2 rp rest (fuel + 1) hy2
    hn2 hc2 ht2 hrp
  obtain ⟨l4, h4, hy4⟩ := parameter_list_loop_exit parser l3 _ lp rp rest fuel hy3 hrp
  exact ⟨l4, by rw [h1, h2, h3, h4]; rfl, hy4⟩

theorem parses_two_arguments (parser : rouleaux_parser_t) (lp a1 comma a2 rp : token)
    (rest : List token) (t1 t2 : ast_node_type) (fuel : Nat)
    (hlp : lp.type = TOKEN_LEFT_PAREN) (hrp : rp.type = TOKEN_RIGHT_PAREN)
    (hcomma : comma.type = TOKEN_COMMA)
    (h1 : primary_node_type a1.type = some t1) (h2 : primary_node_type a2.type = some t2) :
    parses (parser_parse_function_call_list (fuel + 5)) parser
      (lp :: a1 :: comma :: a2 :: rp :: rest)
      (parse_result_success (many_node AST_PARAMETER_LIST
        (node_list.cons (leaf_node t1 a1) (node_list.cons (leaf_node t2 a2) node_list.nil))))
      rest := by
  intro lexer hy
  have hcn : binary_operator_type comma.type = none := by rw [hcomma]; decide
  have hcp : a1.type = TOKEN_IDENTIFIER → comma.type ≠ TOKEN_LEFT_PAREN := by
    intro _; rw [hcomma]; decide
  have hrn : binary_operator_type rp.type = none := by rw [hrp]; decide
  have hrpp : a2.type = TOKEN_IDENTIFIER → rp.type ≠ TOKEN_LEFT_PAREN := by
    intro _; rw [hrp]; decide
  have ha1 : a1.type ≠ TOKEN_RIGHT_PAREN := by
    intro e; rw [e] at h1; simp [primary_node_type, literal_node_type] at h1
  have hc1 : comma.type ≠ TOKEN_RIGHT_PAREN := by rw [hcomma]; decide
  obtain ⟨l1, hy1, e1⟩ := parser_parse_function_call_list_start parser lexer lp a1 _ (fuel + 4) hy
    hlp
  obtain ⟨l2, hy2, e2⟩ := function_call_list_loop_step parser l1 node_list_create a1 comma
    (a1 :: comma :: a2 :: rp :: rest) (a2 :: rp :: rest) (fuel + 3)
    (parse_result_success (leaf_node t1 a1)) hy1 ha1
    (parses_primary_last parser a1 comma (a2 :: rp :: rest) t1 (fuel + 1) h1 hcn hcp) rfl hcomma
  obtain ⟨l3, e3, hy3⟩ := function_call_list_loop_last parser l2 _ comma rp
    (a2 :: rp :: rest) rest (fuel + 2) (parse_result_success (leaf_node t2 a2)) hy2 hc1
    (parses_primary_last parser a2 rp rest t2 fuel h2 hrn hrpp) rfl hrp
  exact ⟨l3, by rw [e1, e2, e3]; rfl, hy3⟩

theorem scenario_four_function_parses (parser : rouleaux_parser_t) (rest : List token) :
    parses (parser_parse_function_or_expression 12) parser
      (source_token "f" TOKEN_LEFT_PAREN 7 1 1 8 token_value.zero ::
       source_token "f" TOKEN_IDENTIFIER 8 1 1 9 token_value.zero ::
       source_token "f" TOKEN_COLON 9 1 1 10 token_value.zero ::
       source_token "f" TOKEN_IDENTIFIER 11 3 1 12 token_value.zero ::
       source_token "f" TOKEN_COMMA 14 1 1 15 token_value.zero ::
       source_token "f" TOKEN_IDENTIFIER 16 1 1 17 token_value.zero ::
       source_token "f" TOKEN_COLON 17 1 1 18 token_value.zero ::
       source_token "f" TOKEN_IDENTIFIER 19 3 1 20 token_value.zero ::
       source_token "f" TOKEN_RIGHT_PAREN 22 1 1 23 token_value.zero ::
       source_token "f" TOKEN_ARROW 24 2 1 25 token_value.zero ::
       source_token "f" TOKEN_IDENTIFIER 27 3 1 28 token_value.zero ::
       source_token "f" TOKEN_LEFT_CURLY 31 1 1 32 token_value.zero ::
       source_token "f" TOKEN_IDENTIFIER 33 1 1 34 token_value.zero ::
       source_token "f" TOKEN_COLON 35 1 1 36 token_value.zero ::
       source_token "f" TOKEN_IDENTIFIER 37 3 1 38 token_value.zero ::
       source_token "f" TOKEN_EQUALS 41 1 1 42 token_value.zero ::
       source_token "f" TOKEN_IDENTIFIER 43 1 1 44 token_value.zero ::
       source_token "f" TOKEN_PLUS 45 1 1 46 token_value.zero ::
       source_token "f" TOKEN_IDENTIFIER 47 1 1 48 token_value.zero ::
       source_token "f" TOKEN_SEMICOLON 48 1 1 49 token_value.zero ::
       source_token "f" TOKEN_RIGHT_CURLY 50 1 1 51 token_value.zero ::
       rest)
      (parse_result_success scenario_four_function) rest := by
  have hbody : ∀ rest1 : List token, parses (parser_parse_statement 10) parser
      (source_token "f" TOKEN_LEFT_CURLY 31 1 1 32 token_value.zero ::
       source_token "f" TOKEN_IDENTIFIER 33 1 1 34 token_value.zero ::
       source_token "f" TOKEN_COLON 35 1 1 36 token_value.zero ::
       source_token "f" TOKEN_IDENTIFIER 37 3 1 38 token_value.zero ::
       source_token "f" TOKEN_EQUALS 41 1 1 42 token_value.zero ::
       source_token "f" TOKEN_IDENTIFIER 43 1 1 44 token_value.zero ::
       source_token "f" TOKEN_PLUS 45 1 1 46 token_value.zero ::
       source_token "f" TOKEN_IDENTIFIER 47 1 1 48 token_value.zero ::
       source_token "f" TOKEN_SEMICOLON 48 1 1 49 token_value.zero ::
       source_token "f" TOKEN_RIGHT_CURLY 50 1 1 51 token_value.zero ::
       rest1)
      (parse_result_success (many_node AST_SCOPE
        (node_list.cons
          (binary_node AST_VALUE_ASSIGNMENT (source_token "f" TOKEN_EQUALS 41 1 1 42 token_value.zero)
            (binary_node AST_TYPE_ASSIGNMENT (source_token "f" TOKEN_COLON 35 1 1 36 token_value.zero)
              (leaf_node AST_IDENTIFIER (source_token "f" TOKEN_IDENTIFIER 33 1 1 34 token_value.zero))
              (leaf_node AST_IDENTIFIER (source_token "f" TOKEN_IDENTIFIER 37 3 1 38 token_value.zero)))
            (binary_node AST_BINARY_OPERATOR_PLUS (source_token "f" TOKEN_PLUS 45 1 1 46 token_value.zero)
              (leaf_node AST_IDENTIFIER (source_token "f" TOKEN_IDENTIFIER 43 1 1 44 token_value.zero))
              (leaf_node AST_IDENTIFIER (source_token "f" TOKEN_IDENTIFIER 47 1 1 48 token_value.zero))))
          node_list.nil))) rest1 := by
    intro rest1
    exact parses_scope_of_one parser _ _ (source_token "f" TOKEN_RIGHT_CURLY 50 1 1 51 token_value.zero) _ rest1 _ 7
      (by decide) (by decide) (by decide) (by decide)
      (statement_identifier_first parser _ _ _ _ 7 (by decide)
        (declaration_typed_tokens parser _ _ _ _ (source_token "f" TOKEN_SEMICOLON 48 1 1 49 token_value.zero) _ _
          (parse_result_success (binary_node AST_BINARY_OPERATOR_PLUS (source_token "f" TOKEN_PLUS 45 1 1 46 token_value.zero)
            (leaf_node AST_IDENTIFIER (source_token "f" TOKEN_IDENTIFIER 43 1 1 44 token_value.zero))
            (leaf_node AST_IDENTIFIER (source_token "f" TOKEN_IDENTIFIER 47 1 1 48 token_value.zero))))
          4 AST_VALUE_ASSIGNMENT (by decide) (by decide) (Or.inr ⟨by decide, rfl⟩) (by decide) rfl
          (function_or_expression_no_paren parser _ _ _ _ 5 (by decide)
            (parses_two_operands parser _ _ _ _ _ AST_IDENTIFIER AST_IDENTIFIER
              AST_BINARY_OPERATOR_PLUS 0 (by decide) (by decide) (by decide) (by decide)
              (by decide)))))
      rfl
  exact function_or_expression_identifier parser _ _ (source_token "f" TOKEN_COLON 9 1 1 10 token_value.zero) _ rest _ 11
    (by decide) (by decide)
    (parser_parse_function_declaration_tokens parser _ _ rest
      (source_token "f" TOKEN_ARROW 24 2 1 25 token_value.zero)
      (source_token "f" TOKEN_IDENTIFIER 27 3 1 28 token_value.zero) _ _ 10
      (parses_two_parameters parser _ _ _ _ _ _ _ _ (source_token "f" TOKEN_RIGHT_PAREN 22 1 1 23 token_value.zero) _ 7
        (by decide) (by decide) (by decide) (by decide) (by decide) (by decide) (by decide)
        (by decide) (by decide))
      (by decide) (by decide) (hbody rest))


theorem parser_parse_file_fails (parser : rouleaux_parser_t) (ts : List token) (fuel : Nat)
    (bad : token) (hy : lexer_yields parser.lexer ts)
    (hstatement : fails_at (parser_parse_statement (fuel + 1)) parser ts bad) :
    ∃ r parser1, parser_parse_file (fuel + 1) parser = some (r, parser1) ∧
      r.success = false ∧ r.error.faulted_token = bad :=
  parse_file_loop_fails parser parser.lexer node_list_create ts (fuel + 1) fuel bad hy hstatement

theorem parser_parse_file_two_statements (parser : rouleaux_parser_t) (ts ts1 ts2 : List token)
    (eof : token) (fuel : Nat) (a b : ast_node)
    (hd : parser.done = false) (hy : lexer_yields parser.lexer ts)
    (h1 : parses (parser_parse_statement (fuel + 3)) parser ts (parse_result_success a) ts1)
    (h2 : parses (parser_parse_statement (fuel + 3)) parser ts1 (parse_result_success b)
      (eof :: ts2))
    (he : eof.type = TOKEN_EOF) :
    ∃ parser1, parser_parse_file (fuel + 3) parser
      = some (parse_result_success (many_node AST_SCOPE
          (node_list.cons a (node_list.cons b
            (node_list.cons (leaf_node AST_EOF token_zero) node_list.nil)))), parser1) := by
  obtain ⟨l1, hy1, e1⟩ := parse_file_loop_step parser parser.lexer node_list_create ts ts1
    (fuel + 3) (fuel + 2) (parse_result_success a) hd hy h1 rfl
  obtain ⟨l2, hy2, e2⟩ := parse_file_loop_step parser l1
    (node_list_push_back node_list_create a) ts1 (eof :: ts2)
    (fuel + 3) (fuel + 1) (parse_result_success b) hd hy1 h2 rfl
  obtain ⟨p3, e3⟩ := parse_file_loop_eof parser l2
    (node_list_push_back (node_list_push_back node_list_create a) b) eof ts2
    (fuel + 2) fuel hy2 he
  refine ⟨p3, ?_⟩
  have e1a : parse_file_loop (fuel + 3) (fuel + 3) parser node_list_create
      = parse_file_loop (fuel + 3) (fuel + 2) { parser with lexer := l1 }
          (node_list_push_back node_list_create a) := e1
  rw [parser_parse_file, e1a]
  exact (e2.trans e3)

/-- C19, as stated, fails: the source of scenario 4 has no `;` after the `}`
that ends the declaration of `add`, and `parser_parse_file` rejects it; the
offending token is the keyword `call` at column 53. -/
theorem scenario_four_is_rejected :
    ∃ r parser1,
      parser_parse_file 14 (parser_create "f"
          (bytes "add :: (a: int, b: int) -> int { x : int = a + b; } call add(1, 2);"))
        = some (r, parser1) ∧
      r.success = false ∧
      r.error.faulted_token = source_token "f" TOKEN_KEYWORD_CALL 52 4 1 53 token_value.zero := by
  have hr : lexer_next_tokens 25 (parser_create "f"
        (bytes "add :: (a: int, b: int) -> int { x : int = a + b; } call add(1, 2);")).lexer
      = some ([source_token "f" TOKEN_IDENTIFIER 0 3 1 1 token_value.zero,
               source_token "f" TOKEN_COLON 4 1 1 5 token_value.zero,
               source_token "f" TOKEN_COLON 5 1 1 6 token_value.zero,
               source_token "f" TOKEN_LEFT_PAREN 7 1 1 8 token_value.zero,
               source_token "f" TOKEN_IDENTIFIER 8 1 1 9 token_value.zero,
               source_token "f" TOKEN_COLON 9 1 1 10 token_value.zero,
               source_token "f" TOKEN_IDENTIFIER 11 3 1 12 token_value.zero,
               source_token "f" TOKEN_COMMA 14 1 1 15 token_value.zero,
               source_token "f" TOKEN_IDENTIFIER 16 1 1 17 token_value.zero,
               source_token "f" TOKEN_COLON 17 1 1 18 token_value.zero,
               source_token "f" TOKEN_IDENTIFIER 19 3 1 20 token_value.zero,
               source_token "f" TOKEN_RIGHT_PAREN 22 1 1 23 token_value.zero,
               source_token "f" TOKEN_ARROW 24 2 1 25 token_value.zero,
               source_token "f" TOKEN_IDENTIFIER 27 3 1 28 token_value.zero,
               source_token "f" TOKEN_LEFT_CURLY 31 1 1 32 token_value.zero,
               source_token "f" TOKEN_IDENTIFIER 33 1 1 34 token_value.zero,
               source_token "f" TOKEN_COLON 35 1 1 36 token_value.zero,
               source_token "f" TOKEN_IDENTIFIER 37 3 1 38 token_value.zero,
               source_token "f" TOKEN_EQUALS 41 1 1 42 token_value.zero,
               source_token "f" TOKEN_IDENTIFIER 43 1 1 44 token_value.zero,
               source_token "f" TOKEN_PLUS 45 1 1 46 token_value.zero,
               source_token "f" TOKEN_IDENTIFIER 47 1 1 48 token_value.zero,
               source_token "f" TOKEN_SEMICOLON 48 1 1 49 token_value.zero,
               source_token "f" TOKEN_RIGHT_CURLY 50 1 1 51 token_value.zero,
               source_token "f" TOKEN_KEYWORD_CALL 52 4 1 53 token_value.zero],
          { (parser_create "f"
              (bytes "add :: (a: int, b: int) -> int { x : int = a + b; } call add(1, 2);")).lexer
            with head := 56, current_column := 57 }) := by
    decide
  have hy : lexer_yields (parser_create "f"
        (bytes "add :: (a: int, b: int) -> int { x : int = a + b; } call add(1, 2);")).lexer
      [source_token "f" TOKEN_IDENTIFIER 0 3 1 1 token_value.zero,
               source_token "f" TOKEN_COLON 4 1 1 5 token_value.zero,
               source_token "f" TOKEN_COLON 5 1 1 6 token_value.zero,
               source_token "f" TOKEN_LEFT_PAREN 7 1 1 8 token_value.zero,
               source_token "f" TOKEN_IDENTIFIER 8 1 1 9 token_value.zero,
               source_token "f" TOKEN_COLON 9 1 1 10 token_value.zero,
               source_token "f" TOKEN_IDENTIFIER 11 3 1 12 token_value.zero,
               source_token "f" TOKEN_COMMA 14 1 1 15 token_value.zero,
               source_token "f" TOKEN_IDENTIFIER 16 1 1 17 token_value.zero,
               source_token "f" TOKEN_COLON 17 1 1 18 token_value.zero,
               source_token "f" TOKEN_IDENTIFIER 19 3 1 20 token_value.zero,
               source_token "f" TOKEN_RIGHT_PAREN 22 1 1 23 token_value.zero,
               source_token "f" TOKEN_ARROW 24 2 1 25 token_value.zero,
               source_token "f" TOKEN_IDENTIFIER 27 3 1 28 token_value.zero,
               source_token "f" TOKEN_LEFT_CURLY 31 1 1 32 token_value.zero,
               source_token "f" TOKEN_IDENTIFIER 33 1 1 34 token_value.zero,
               source_token "f" TOKEN_COLON 35 1 1 36 token_value.zero,
               source_token "f" TOKEN_IDENTIFIER 37 3 1 38 token_value.zero,
               source_token "f" TOKEN_EQUALS 41 1 1 42 token_value.zero,
               source_token "f" TOKEN_IDENTIFIER 43 1 1 44 token_value.zero,
               source_token "f" TOKEN_PLUS 45 1 1 46 token_value.zero,
               source_token "f" TOKEN_IDENTIFIER 47 1 1 48 token_value.zero,
               source_token "f" TOKEN_SEMICOLON 48 1 1 49 token_value.zero,
               source_token "f" TOKEN_RIGHT_CURLY 50 1 1 51 token_value.zero,
               source_token "f" TOKEN_KEYWORD_CALL 52 4 1 53 token_value.zero] :=
    ⟨by decide, _, hr⟩
  have hfail : fails_at (parser_parse_statement 14) (parser_create "f"
        (bytes "add :: (a: int, b: int) -> int { x : int = a + b; } call add(1, 2);"))
      [source_token "f" TOKEN_IDENTIFIER 0 3 1 1 token_value.zero,
       source_token "f" TOKEN_COLON 4 1 1 5 token_value.zero,
       source_token "f" TOKEN_COLON 5 1 1 6 token_value.zero,
       source_token "f" TOKEN_LEFT_PAREN 7 1 1 8 token_value.zero,
       source_token "f" TOKEN_IDENTIFIER 8 1 1 9 token_value.zero,
       source_token "f" TOKEN_COLON 9 1 1 10 token_value.zero,
       source_token "f" TOKEN_IDENTIFIER 11 3 1 12 token_value.zero,
       source_token "f" TOKEN_COMMA 14 1 1 15 token_value.zero,
       source_token "f" TOKEN_IDENTIFIER 16 1 1 17 token_value.zero,
       source_token "f" TOKEN_COLON 17 1 1 18 token_value.zero,
       source_token "f" TOKEN_IDENTIFIER 19 3 1 20 token_value.zero,
       source_token "f" TOKEN_RIGHT_PAREN 22 1 1 23 token_value.zero,
       source_token "f" TOKEN_ARROW 24 2 1 25 token_value.zero,
       source_token "f" TOKEN_IDENTIFIER 27 3 1 28 token_value.zero,
       source_token "f" TOKEN_LEFT_CURLY 31 1 1 32 token_value.zero,
       source_token "f" TOKEN_IDENTIFIER 33 1 1 34 token_value.zero,
       source_token "f" TOKEN_COLON 35 1 1 36 token_value.zero,
       source_token "f" TOKEN_IDENTIFIER 37 3 1 38 token_value.zero,
       source_token "f" TOKEN_EQUALS 41 1 1 42 token_value.zero,
       source_token "f" TOKEN_IDENTIFIER 43 1 1 44 token_value.zero,
       source_token "f" TOKEN_PLUS 45 1 1 46 token_value.zero,
       source_token "f" TOKEN_IDENTIFIER 47 1 1 48 token_value.zero,
       source_token "f" TOKEN_SEMICOLON 48 1 1 49 token_value.zero,
       source_token "f" TOKEN_RIGHT_CURLY 50 1 1 51 token_value.zero,
       source_token "f" TOKEN_KEYWORD_CALL 52 4 1 53 token_value.zero]
      (source_token "f" TOKEN_KEYWORD_CALL 52 4 1 53 token_value.zero) :=
    statement_identifier_first_fails _ _ _ _ 13 (by decide)
      (declaration_not_ended _ _ (source_token "f" TOKEN_COLON 4 1 1 5 token_value.zero) (source_token "f" TOKEN_COLON 5 1 1 6 token_value.zero) _ [] _ [] parse_result_zero
        (parse_result_success scenario_four_function) 12 AST_CONST_ASSIGNMENT (by decide)
        (fun lexer hy => declaration_loop_operator _ lexer parse_result_zero _ _ 11
          AST_CONST_ASSIGNMENT hy (Or.inl ⟨by decide, rfl⟩))
        (by decide) rfl (scenario_four_function_parses _ _))
  exact parser_parse_file_fails _ _ 13 _ hy hfail

/-- C19, as amended.  With the `;` that ends the declaration written after the
`}`, the source `add :: (a: int, b: int) -> int { x : int = a + b; }; call
add(1, 2);` is parsed by `parser_parse_file` successfully into the file node
whose children are the CONST_ASSIGN of `TYPE_ASSIGN(add, null)` and a
FUNCTION_DECLARATION, the CALL_OPERATOR wrapping a FUNCTION_CALL of `add` with
the arguments `1` and `2`, and the EOF node. -/
theorem scenario_four_with_semicolon_parses :
    ∃ parser1,
      parser_parse_file 14 (parser_create "f"
          (bytes "add :: (a: int, b: int) -> int { x : int = a + b; }; call add(1, 2);"))
        = some (parse_result_success (many_node AST_SCOPE
            (node_list.cons scenario_four_declaration
              (node_list.cons scenario_four_call
                (node_list.cons (leaf_node AST_EOF token_zero) node_list.nil)))),
          parser1) := by
  have hr : lexer_next_tokens 34 (parser_create "f"
        (bytes "add :: (a: int, b: int) -> int { x : int = a + b; }; call add(1, 2);")).lexer
      = some ([source_token "f" TOKEN_IDENTIFIER 0 3 1 1 token_value.zero,
               source_token "f" TOKEN_COLON 4 1 1 5 token_value.zero,
               source_token "f" TOKEN_COLON 5 1 1 6 token_value.zero,
               source_token "f" TOKEN_LEFT_PAREN 7 1 1 8 token_value.zero,
               source_token "f" TOKEN_IDENTIFIER 8 1 1 9 token_value.zero,
               source_token "f" TOKEN_COLON 9 1 1 10 token_value.zero,
               source_token "f" TOKEN_IDENTIFIER 11 3 1 12 token_value.zero,
               source_token "f" TOKEN_COMMA 14 1 1 15 token_value.zero,
               source_token "f" TOKEN_IDENTIFIER 16 1 1 17 token_value.zero,
               source_token "f" TOKEN_COLON 17 1 1 18 token_value.zero,
               source_token "f" TOKEN_IDENTIFIER 19 3 1 20 token_value.zero,
               source_token "f" TOKEN_RIGHT_PAREN 22 1 1 23 token_value.zero,
               source_token "f" TOKEN_ARROW 24 2 1 25 token_value.zero,
               source_token "f" TOKEN_IDENTIFIER 27 3 1 28 token_value.zero,
               source_token "f" TOKEN_LEFT_CURLY 31 1 1 32 token_value.zero,
               source_token "f" TOKEN_IDENTIFIER 33 1 1 34 token_value.zero,
               source_token "f" TOKEN_COLON 35 1 1 36 token_value.zero,
               source_token "f" TOKEN_IDENTIFIER 37 3 1 38 token_value.zero,
               source_token "f" TOKEN_EQUALS 41 1 1 42 token_value.zero,
               source_token "f" TOKEN_IDENTIFIER 43 1 1 44 token_value.zero,
               source_token "f" TOKEN_PLUS 45 1 1 46 token_value.zero,
               source_token "f" TOKEN_IDENTIFIER 47 1 1 48 token_value.zero,
               source_token "f" TOKEN_SEMICOLON 48 1 1 49 token_value.zero,
               source_token "f" TOKEN_RIGHT_CURLY 50 1 1 51 token_value.zero,
               source_token "f" TOKEN_SEMICOLON 51 1 1 52 token_value.zero,
               source_token "f" TOKEN_KEYWORD_CALL 53 4 1 54 token_value.zero,
               source_token "f" TOKEN_IDENTIFIER 58 3 1 59 token_value.zero,
               source_token "f" TOKEN_LEFT_PAREN 61 1 1 62 token_value.zero,
               source_token "f" TOKEN_INTEGER_LITERAL 62 1 1 63 (token_value.unsigned64 1),
               source_token "f" TOKEN_COMMA 63 1 1 64 token_value.zero,
               source_token "f" TOKEN_INTEGER_LITERAL 65 1 1 66 (token_value.unsigned64 2),
               source_token "f" TOKEN_RIGHT_PAREN 66 1 1 67 token_value.zero,
               source_token "f" TOKEN_SEMICOLON 67 1 1 68 token_value.zero,
               source_token "f" TOKEN_EOF 68 0 1 69 token_value.zero],
          { (parser_create "f"
              (bytes "add :: (a: int, b: int) -> int { x : int = a + b; }; call add(1, 2);")).lexer
            with head := 68, current_column := 69 }) := by
    decide
  have hy : lexer_yields (parser_create "f"
        (bytes "add :: (a: int, b: int) -> int { x : int = a + b; }; call add(1, 2);")).lexer
      [source_token "f" TOKEN_IDENTIFIER 0 3 1 1 token_value.zero,
               source_token "f" TOKEN_COLON 4 1 1 5 token_value.zero,
               source_token "f" TOKEN_COLON 5 1 1 6 token_value.zero,
               source_token "f" TOKEN_LEFT_PAREN 7 1 1 8 token_value.zero,
               source_token "f" TOKEN_IDENTIFIER 8 1 1 9 token_value.zero,
               source_token "f" TOKEN_COLON 9 1 1 10 token_value.zero,
               source_token "f" TOKEN_IDENTIFIER 11 3 1 12 token_value.zero,
               source_token "f" TOKEN_COMMA 14 1 1 15 token_value.zero,
               source_token "f" TOKEN_IDENTIFIER 16 1 1 17 token_value.zero,
               source_token "f" TOKEN_COLON 17 1 1 18 token_value.zero,
               source_token "f" TOKEN_IDENTIFIER 19 3 1 20 token_value.zero,
               source_token "f" TOKEN_RIGHT_PAREN 22 1 1 23 token_value.zero,
               source_token "f" TOKEN_ARROW 24 2 1 25 token_value.zero,
               source_token "f" TOKEN_IDENTIFIER 27 3 1 28 token_value.zero,
               source_token "f" TOKEN_LEFT_CURLY 31 1 1 32 token_value.zero,
               source_token "f" TOKEN_IDENTIFIER 33 1 1 34 token_value.zero,
               source_token "f" TOKEN_COLON 35 1 1 36 token_value.zero,
               source_token "f" TOKEN_IDENTIFIER 37 3 1 38 token_value.zero,
               source_token "f" TOKEN_EQUALS 41 1 1 42 token_value.zero,
               source_token "f" TOKEN_IDENTIFIER 43 1 1 44 token_value.zero,
               source_token "f" TOKEN_PLUS 45 1 1 46 token_value.zero,
               source_token "f" TOKEN_IDENTIFIER 47 1 1 48 token_value.zero,
               source_token "f" TOKEN_SEMICOLON 48 1 1 49 token_value.zero,
               source_token "f" TOKEN_RIGHT_CURLY 50 1 1 51 token_value.zero,
               source_token "f" TOKEN_SEMICOLON 51 1 1 52 token_value.zero,
               source_token "f" TOKEN_KEYWORD_CALL 53 4 1 54 token_value.zero,
               source_token "f" TOKEN_IDENTIFIER 58 3 1 59 token_value.zero,
               source_token "f" TOKEN_LEFT_PAREN 61 1 1 62 token_value.zero,
               source_token "f" TOKEN_INTEGER_LITERAL 62 1 1 63 (token_value.unsigned64 1),
               source_token "f" TOKEN_COMMA 63 1 1 64 token_value.zero,
               source_token "f" TOKEN_INTEGER_LITERAL 65 1 1 66 (token_value.unsigned64 2),
               source_token "f" TOKEN_RIGHT_PAREN 66 1 1 67 token_value.zero,
               source_token "f" TOKEN_SEMICOLON 67 1 1 68 token_value.zero,
               source_token "f" TOKEN_EOF 68 0 1 69 token_value.zero] :=
    ⟨by decide, _, hr⟩
  have hdecl : parses (parser_parse_statement 14) (parser_create "f"
        (bytes "add :: (a: int, b: int) -> int { x : int = a + b; }; call add(1, 2);"))
      [source_token "f" TOKEN_IDENTIFIER 0 3 1 1 token_value.zero,
       source_token "f" TOKEN_COLON 4 1 1 5 token_value.zero,
       source_token "f" TOKEN_COLON 5 1 1 6 token_value.zero,
       source_token "f" TOKEN_LEFT_PAREN 7 1 1 8 token_value.zero,
       source_token "f" TOKEN_IDENTIFIER 8 1 1 9 token_value.zero,
       source_token "f" TOKEN_COLON 9 1 1 10 token_value.zero,
       source_token "f" TOKEN_IDENTIFIER 11 3 1 12 token_value.zero,
       source_token "f" TOKEN_COMMA 14 1 1 15 token_value.zero,
       source_token "f" TOKEN_IDENTIFIER 16 1 1 17 token_value.zero,
       source_token "f" TOKEN_COLON 17 1 1 18 token_value.zero,
       source_token "f" TOKEN_IDENTIFIER 19 3 1 20 token_value.zero,
       source_token "f" TOKEN_RIGHT_PAREN 22 1 1 23 token_value.zero,
       source_token "f" TOKEN_ARROW 24 2 1 25 token_value.zero,
       source_token "f" TOKEN_IDENTIFIER 27 3 1 28 token_value.zero,
       source_token "f" TOKEN_LEFT_CURLY 31 1 1 32 token_value.zero,
       source_token "f" TOKEN_IDENTIFIER 33 1 1 34 token_value.zero,
       source_token "f" TOKEN_COLON 35 1 1 36 token_value.zero,
       source_token "f" TOKEN_IDENTIFIER 37 3 1 38 token_value.zero,
       source_token "f" TOKEN_EQUALS 41 1 1 42 token_value.zero,
       source_token "f" TOKEN_IDENTIFIER 43 1 1 44 token_value.zero,
       source_token "f" TOKEN_PLUS 45 1 1 46 token_value.zero,
       source_token "f" TOKEN_IDENTIFIER 47 1 1 48 token_value.zero,
       source_token "f" TOKEN_SEMICOLON 48 1 1 49 token_value.zero,
       source_token "f" TOKEN_RIGHT_CURLY 50 1 1 51 token_value.zero,
       source_token "f" TOKEN_SEMICOLON 51 1 1 52 token_value.zero,
       source_token "f" TOKEN_KEYWORD_CALL 53 4 1 54 token_value.zero,
       source_token "f" TOKEN_IDENTIFIER 58 3 1 59 token_value.zero,
       source_token "f" TOKEN_LEFT_PAREN 61 1 1 62 token_value.zero,
       source_token "f" TOKEN_INTEGER_LITERAL 62 1 1 63 (token_value.unsigned64 1),
       source_token "f" TOKEN_COMMA 63 1 1 64 token_value.zero,
       source_token "f" TOKEN_INTEGER_LITERAL 65 1 1 66 (token_value.unsigned64 2),
       source_token "f" TOKEN_RIGHT_PAREN 66 1 1 67 token_value.zero,
       source_token "f" TOKEN_SEMICOLON 67 1 1 68 token_value.zero,
       source_token "f" TOKEN_EOF 68 0 1 69 token_value.zero]
      (parse_result_success scenario_four_declaration)
      [source_token "f" TOKEN_KEYWORD_CALL 53 4 1 54 token_value.zero,
       source_token "f" TOKEN_IDENTIFIER 58 3 1 59 token_value.zero,
       source_token "f" TOKEN_LEFT_PAREN 61 1 1 62 token_value.zero,
       source_token "f" TOKEN_INTEGER_LITERAL 62 1 1 63 (token_value.unsigned64 1),
       source_token "f" TOKEN_COMMA 63 1 1 64 token_value.zero,
       source_token "f" TOKEN_INTEGER_LITERAL 65 1 1 66 (token_value.unsigned64 2),
       source_token "f" TOKEN_RIGHT_PAREN 66 1 1 67 token_value.zero,
       source_token "f" TOKEN_SEMICOLON 67 1 1 68 token_value.zero,
       source_token "f" TOKEN_EOF 68 0 1 69 token_value.zero] :=
    statement_identifier_first _ _ _ _ _ 13 (by decide)
      (declaration_untyped_tokens _ _ (source_token "f" TOKEN_COLON 4 1 1 5 token_value.zero) (source_token "f" TOKEN_COLON 5 1 1 6 token_value.zero)
        (source_token "f" TOKEN_SEMICOLON 51 1 1 52 token_value.zero) _ _
        (parse_result_success scenario_four_function) 10 AST_CONST_ASSIGNMENT (by decide)
        (Or.inl ⟨by decide, rfl⟩) (by decide) rfl (scenario_four_function_parses _ _))
  have hcall : parses (parser_parse_statement 14) (parser_create "f"
        (bytes "add :: (a: int, b: int) -> int { x : int = a + b; }; call add(1, 2);"))
      [source_token "f" TOKEN_KEYWORD_CALL 53 4 1 54 token_value.zero,
       source_token "f" TOKEN_IDENTIFIER 58 3 1 59 token_value.zero,
       source_token "f" TOKEN_LEFT_PAREN 61 1 1 62 token_value.zero,
       source_token "f" TOKEN_INTEGER_LITERAL 62 1 1 63 (token_value.unsigned64 1),
       source_token "f" TOKEN_COMMA 63 1 1 64 token_value.zero,
       source_token "f" TOKEN_INTEGER_LITERAL 65 1 1 66 (token_value.unsigned64 2),
       source_token "f" TOKEN_RIGHT_PAREN 66 1 1 67 token_value.zero,
       source_token "f" TOKEN_SEMICOLON 67 1 1 68 token_value.zero,
       source_token "f" TOKEN_EOF 68 0 1 69 token_value.zero]
      (parse_result_success scenario_four_call)
      [source_token "f" TOKEN_EOF 68 0 1 69 token_value.zero] :=
    statement_call _ _ _ (source_token "f" TOKEN_SEMICOLON 67 1 1 68 token_value.zero) _ _ _ 13
      (by decide) (by decide) (by decide)
      (parses_two_arguments _ _ _ _ _ (source_token "f" TOKEN_RIGHT_PAREN 66 1 1 67 token_value.zero) _
        AST_INTEGER_LITERAL AST_INTEGER_LITERAL 8 (by decide) (by decide) (by decide)
        (by decide) (by decide))
  exact parser_parse_file_two_statements _ _ _ [] _ 11 _ _ rfl hy hdecl hcall
    (by decide)

/-! ## Declarations with an explicit type -/

theorem symbol_table_add_absent (mem : List Nat) (table : symbol_table) (name : token)
    (type : type_info)
    (hr : symbol_table_add_reallocates table = false)
    (hn : symbol_table_find mem table name = some none) :
    symbol_table_add mem table name type false = some (true, with_variable table name type) := by
  have hc : ¬ (table.size + 1 ≥ table.capacity) := by
    simpa [symbol_table_add_reallocates] using hr
  simp only [symbol_table_add, hc, if_false, hn, with_variable]

theorem resolve_type_assignment_known (mem : List Nat) (table : symbol_table)
    (name type colon : token) (i : Nat) (sym : symbol)
    (hT : symbol_table_find mem table type = some (some i))
    (hi : table.buffer[i]? = some sym)
    (hn : symbol_table_find mem table name = some none) :
    resolve_type_assignment mem
        (binary_node AST_TYPE_ASSIGNMENT colon (leaf_node AST_IDENTIFIER name)
          (leaf_node AST_IDENTIFIER type)) table
      = if symbol_table_add_reallocates table then none
        else some (typing_result_success sym.type,
          binary_node AST_TYPE_ASSIGNMENT { colon with typing_information := sym.type }
            (leaf_node AST_IDENTIFIER { name with typing_information := sym.type })
            (leaf_node AST_IDENTIFIER type),
          with_variable table name sym.type) := by
  cases hr : symbol_table_add_reallocates table with
  | false =>
    simp only [resolve_type_assignment, binary_node, leaf_node, hT, hi, hn,
      symbol_table_add_absent mem table name sym.type hr hn, hr, Bool.false_eq_true, if_false]
  | true =>
    simp only [resolve_type_assignment, binary_node, leaf_node, hT, hi, hn, hr, if_true]
    cases symbol_table_add mem table name sym.type false <;> rfl

theorem resolve_typed_declaration (mem : List Nat) (fuel : Nat) (table table1 : symbol_table)
    (name type colon eq : token) (e e1 : ast_node) (result : typing_result) (i : Nat)
    (sym : symbol)
    (he : resolve_types mem fuel e table = some (result, e1, table1))
    (hs : result.success = true)
    (hT : symbol_table_find mem table1 type = some (some i))
    (hi : table1.buffer[i]? = some sym)
    (hty : sym.type = result.type)
    (hu : result.type ≠ TYPE_INFO_UNKNOWN)
    (hn : symbol_table_find mem table1 name = some none) :
    resolve_types mem (fuel + 1) (typed_declaration name type colon eq e) table
      = if symbol_table_add_reallocates table1 then none
        else some (typing_result_success result.type,
          typed_declaration { name with typing_information := result.type } type
            { colon with typing_information := result.type } eq e1,
          with_variable table1 name result.type) := by
  cases fuel with
  | zero => simp [resolve_types] at he
  | succ fuel =>
    have hl := resolve_type_assignment_known mem table1 name type colon i sym hT hi hn
    simp only [binary_node] at hl
    simp only [typed_declaration, binary_node]
    rw [resolve_types]
    simp only [he, hs, Bool.true_eq_false, if_false]
    rw [resolve_types]
    simp only [hl]
    cases hr : symbol_table_add_reallocates table1 with
    | true => simp
    | false =>
      simp [resolve_value_assignment_end, typing_result_success, hty, hu]

theorem resolve_types_integer_literal (mem : List Nat) (fuel : Nat) (t : token)
    (table : symbol_table) :
    resolve_types mem (fuel + 1) (leaf_node AST_INTEGER_LITERAL t) table
      = some (typing_result_success TYPE_INFO_INTEGER,
          leaf_node AST_INTEGER_LITERAL { t with typing_information := TYPE_INFO_INTEGER },
          table) := by
  simp only [leaf_node]
  rw [resolve_types]

theorem symbol_table_create_eq : symbol_table_create = some fresh_symbol_table := by
  rfl

/-- C20 (declaration with an explicit type).  Let the initializer `e` resolve
successfully, leaving the table `table1` in which the type name is the symbol
`sym`, of the type of `e` (not UNKNOWN), and the declared name is absent.
Where `symbol_table_add` does not reallocate (`size + 1 < capacity`),
`resolve_types` on `VALUE_ASSIGN(TYPE_ASSIGN(name, type), e)` succeeds with
that type and the table gains exactly one entry: the name with that type, not
constant.  Where it reallocates, `sym` points into the block that
`reallocate_buffer` has freed when `sym->type` is read again, and the call has
no defined result. -/
theorem typed_declaration_adds_variable_unless_reallocated (mem : List Nat) (fuel : Nat)
    (table table1 : symbol_table) (name type colon eq : token) (e e1 : ast_node)
    (result : typing_result) (i : Nat) (sym : symbol)
    (he : resolve_types mem fuel e table = some (result, e1, table1))
    (hs : result.success = true)
    (hT : symbol_table_find mem table1 type = some (some i))
    (hi : table1.buffer[i]? = some sym)
    (hty : sym.type = result.type)
    (hu : result.type ≠ TYPE_INFO_UNKNOWN)
    (hn : symbol_table_find mem table1 name = some none) :
    resolve_types mem (fuel + 1) (typed_declaration name type colon eq e) table
      = if symbol_table_add_reallocates table1 then none
        else some (typing_result_success result.type,
          typed_declaration { name with typing_information := result.type } type
            { colon with typing_information := result.type } eq e1,
          with_variable table1 name result.type) :=
  resolve_typed_declaration mem fuel table table1 name type colon eq e e1 result i sym he hs hT
    hi hty hu hn

theorem typed_declaration_adds_variable_unless_reallocated_witness :
    (∃ tree table1, symbol_table_create = some fresh_symbol_table ∧
      resolve_types (bytes "x : int = 3 + 4 * 2;") 4
        (typed_declaration
          (source_token "f" TOKEN_IDENTIFIER 0 1 1 1 token_value.zero)
          (source_token "f" TOKEN_IDENTIFIER 4 3 1 5 token_value.zero)
          (source_token "f" TOKEN_COLON 2 1 1 3 token_value.zero)
          (source_token "f" TOKEN_EQUALS 8 1 1 9 token_value.zero)
          (binary_node AST_BINARY_OPERATOR_PLUS
          (source_token "f" TOKEN_PLUS 12 1 1 13 token_value.zero)
          (leaf_node AST_INTEGER_LITERAL
            (source_token "f" TOKEN_INTEGER_LITERAL 10 1 1 11 (token_value.unsigned64 3)))
          (binary_node AST_BINARY_OPERATOR_MULTIPLY
            (source_token "f" TOKEN_ASTERISK 16 1 1 17 token_value.zero)
            (leaf_node AST_INTEGER_LITERAL
              (source_token "f" TOKEN_INTEGER_LITERAL 14 1 1 15 (token_value.unsigned64 4)))
            (leaf_node AST_INTEGER_LITERAL
              (source_token "f" TOKEN_INTEGER_LITERAL 18 1 1 19 (token_value.unsigned64 2))))))
        fresh_symbol_table = some (typing_result_success TYPE_INFO_INTEGER, tree, table1) ∧
      table1.size = 3 ∧
      table1.buffer = [builtin_float, builtin_int,
        { t := source_token "f" TOKEN_IDENTIFIER 0 1 1 1 token_value.zero,
          type := TYPE_INFO_INTEGER, is_constant := false, function_decl_node := none }]) ∧
    (∃ tree table1,
      resolve_types (bytes "x : int = 1; y : int = 2;") 2 first_typed_declaration fresh_symbol_table
        = some (typing_result_success TYPE_INFO_INTEGER, tree, table1) ∧
      resolve_types (bytes "x : int = 1; y : int = 2;") 2 second_typed_declaration table1 = none) := by
  have h1 := typed_declaration_adds_variable_unless_reallocated
    (bytes "x : int = 3 + 4 * 2;") 3 fresh_symbol_table _
    (source_token "f" TOKEN_IDENTIFIER 0 1 1 1 token_value.zero)
    (source_token "f" TOKEN_IDENTIFIER 4 3 1 5 token_value.zero)
    (source_token "f" TOKEN_COLON 2 1 1 3 token_value.zero)
    (source_token "f" TOKEN_EQUALS 8 1 1 9 token_value.zero)
    (binary_node AST_BINARY_OPERATOR_PLUS
          (source_token "f" TOKEN_PLUS 12 1 1 13 token_value.zero)
          (leaf_node AST_INTEGER_LITERAL
            (source_token "f" TOKEN_INTEGER_LITERAL 10 1 1 11 (token_value.unsigned64 3)))
          (binary_node AST_BINARY_OPERATOR_MULTIPLY
            (source_token "f" TOKEN_ASTERISK 16 1 1 17 token_value.zero)
            (leaf_node AST_INTEGER_LITERAL
              (source_token "f" TOKEN_INTEGER_LITERAL 14 1 1 15 (token_value.unsigned64 4)))
            (leaf_node AST_INTEGER_LITERAL
              (source_token "f" TOKEN_INTEGER_LITERAL 18 1 1 19 (token_value.unsigned64 2)))))
    _ (typing_result_success TYPE_INFO_INTEGER) 1 builtin_int
    rfl rfl rfl rfl rfl (by decide) rfl
  have h2 := typed_declaration_adds_variable_unless_reallocated
    (bytes "x : int = 1; y : int = 2;") 1 fresh_symbol_table _
    (source_token "f" TOKEN_IDENTIFIER 0 1 1 1 token_value.zero)
    (source_token "f" TOKEN_IDENTIFIER 4 3 1 5 token_value.zero)
    (source_token "f" TOKEN_COLON 2 1 1 3 token_value.zero)
    (source_token "f" TOKEN_EQUALS 8 1 1 9 token_value.zero)
    (leaf_node AST_INTEGER_LITERAL
      (source_token "f" TOKEN_INTEGER_LITERAL 10 1 1 11 (token_value.unsigned64 1)))
    _ (typing_result_success TYPE_INFO_INTEGER) 1 builtin_int
    rfl rfl rfl rfl rfl (by decide) rfl
  have h3 := typed_declaration_adds_variable_unless_reallocated
    (bytes "x : int = 1; y : int = 2;") 1
    (with_variable fresh_symbol_table
      (source_token "f" TOKEN_IDENTIFIER 0 1 1 1 token_value.zero)
      TYPE_INFO_INTEGER)
    _
    (source_token "f" TOKEN_IDENTIFIER 13 1 1 14 token_value.zero)
    (source_token "f" TOKEN_IDENTIFIER 17 3 1 18 token_value.zero)
    (source_token "f" TOKEN_COLON 15 1 1 16 token_value.zero)
    (source_token "f" TOKEN_EQUALS 21 1 1 22 token_value.zero)
    (leaf_node AST_INTEGER_LITERAL
      (source_token "f" TOKEN_INTEGER_LITERAL 23 1 1 24 (token_value.unsigned64 2)))
    _ (typing_result_success TYPE_INFO_INTEGER) 1 builtin_int
    rfl rfl rfl rfl rfl (by decide) rfl
  exact ⟨⟨_, _, symbol_table_create_eq, h1.trans (if_neg (by decide)), rfl, rfl⟩,
    ⟨_, _, h2.trans (if_neg (by decide)), h3.trans (if_pos (by decide))⟩⟩

theorem two_typed_declarations_parse :
    ∃ parser1, parser_parse_file 5 (parser_create "f" (bytes "x : int = 1; y : int = 2;"))
      = some (parse_result_success two_typed_declarations, parser1) := by
  have hr : lexer_next_tokens 13 (parser_create "f" (bytes "x : int = 1; y : int = 2;")).lexer
      = some ([source_token "f" TOKEN_IDENTIFIER 0 1 1 1 token_value.zero,
               source_token "f" TOKEN_COLON 2 1 1 3 token_value.zero,
               source_token "f" TOKEN_IDENTIFIER 4 3 1 5 token_value.zero,
               source_token "f" TOKEN_EQUALS 8 1 1 9 token_value.zero,
               source_token "f" TOKEN_INTEGER_LITERAL 10 1 1 11 (token_value.unsigned64 1),
               source_token "f" TOKEN_SEMICOLON 11 1 1 12 token_value.zero,
               source_token "f" TOKEN_IDENTIFIER 13 1 1 14 token_value.zero,
               source_token "f" TOKEN_COLON 15 1 1 16 token_value.zero,
               source_token "f" TOKEN_IDENTIFIER 17 3 1 18 token_value.zero,
               source_token "f" TOKEN_EQUALS 21 1 1 22 token_value.zero,
               source_token "f" TOKEN_INTEGER_LITERAL 23 1 1 24 (token_value.unsigned64 2),
               source_token "f" TOKEN_SEMICOLON 24 1 1 25 token_value.zero,
               source_token "f" TOKEN_EOF 25 0 1 26 token_value.zero],
          { (parser_create "f" (bytes "x : int = 1; y : int = 2;")).lexer with
              head := 25, current_column := 26 }) := by
    decide
  have hy : lexer_yields (parser_create "f" (bytes "x : int = 1; y : int = 2;")).lexer
      [source_token "f" TOKEN_IDENTIFIER 0 1 1 1 token_value.zero,
       source_token "f" TOKEN_COLON 2 1 1 3 token_value.zero,
       source_token "f" TOKEN_IDENTIFIER 4 3 1 5 token_value.zero,
       source_token "f" TOKEN_EQUALS 8 1 1 9 token_value.zero,
       source_token "f" TOKEN_INTEGER_LITERAL 10 1 1 11 (token_value.unsigned64 1),
       source_token "f" TOKEN_SEMICOLON 11 1 1 12 token_value.zero,
       source_token "f" TOKEN_IDENTIFIER 13 1 1 14 token_value.zero,
       source_token "f" TOKEN_COLON 15 1 1 16 token_value.zero,
       source_token "f" TOKEN_IDENTIFIER 17 3 1 18 token_value.zero,
       source_token "f" TOKEN_EQUALS 21 1 1 22 token_value.zero,
       source_token "f" TOKEN_INTEGER_LITERAL 23 1 1 24 (token_value.unsigned64 2),
       source_token "f" TOKEN_SEMICOLON 24 1 1 25 token_value.zero,
       source_token "f" TOKEN_EOF 25 0 1 26 token_value.zero] :=
    ⟨by decide, _, hr⟩
  have h1 : parses (parser_parse_statement 5) (parser_create "f" (bytes "x : int = 1; y : int = 2;"))
      [source_token "f" TOKEN_IDENTIFIER 0 1 1 1 token_value.zero,
       source_token "f" TOKEN_COLON 2 1 1 3 token_value.zero,
       source_token "f" TOKEN_IDENTIFIER 4 3 1 5 token_value.zero,
       source_token "f" TOKEN_EQUALS 8 1 1 9 token_value.zero,
       source_token "f" TOKEN_INTEGER_LITERAL 10 1 1 11 (token_value.unsigned64 1),
       source_token "f" TOKEN_SEMICOLON 11 1 1 12 token_value.zero,
       source_token "f" TOKEN_IDENTIFIER 13 1 1 14 token_value.zero,
       source_token "f" TOKEN_COLON 15 1 1 16 token_value.zero,
       source_token "f" TOKEN_IDENTIFIER 17 3 1 18 token_value.zero,
       source_token "f" TOKEN_EQUALS 21 1 1 22 token_value.zero,
       source_token "f" TOKEN_INTEGER_LITERAL 23 1 1 24 (token_value.unsigned64 2),
       source_token "f" TOKEN_SEMICOLON 24 1 1 25 token_value.zero,
       source_token "f" TOKEN_EOF 25 0 1 26 token_value.zero]
      (parse_result_success first_typed_declaration)
      [source_token "f" TOKEN_IDENTIFIER 13 1 1 14 token_value.zero,
       source_token "f" TOKEN_COLON 15 1 1 16 token_value.zero,
       source_token "f" TOKEN_IDENTIFIER 17 3 1 18 token_value.zero,
       source_token "f" TOKEN_EQUALS 21 1 1 22 token_value.zero,
       source_token "f" TOKEN_INTEGER_LITERAL 23 1 1 24 (token_value.unsigned64 2),
       source_token "f" TOKEN_SEMICOLON 24 1 1 25 token_value.zero,
       source_token "f" TOKEN_EOF 25 0 1 26 token_value.zero] :=
    statement_identifier_first _ _ _ _ _ 4 (by decide)
      (declaration_typed_tokens _ _ _ _ _ (source_token "f" TOKEN_SEMICOLON 11 1 1 12 token_value.zero) _ _
        (parse_result_success (leaf_node AST_INTEGER_LITERAL
          (source_token "f" TOKEN_INTEGER_LITERAL 10 1 1 11 (token_value.unsigned64 1))))
        1 AST_VALUE_ASSIGNMENT (by decide) (by decide) (Or.inr ⟨by decide, rfl⟩) (by decide) rfl
        (function_or_expression_no_paren _ _ _ _ _ 2 (by decide)
          (parses_primary_last _ _ _ _ AST_INTEGER_LITERAL 0 (by decide) (by decide)
            (by decide))))
  have h2 : parses (parser_parse_statement 5) (parser_create "f" (bytes "x : int = 1; y : int = 2;"))
      [source_token "f" TOKEN_IDENTIFIER 13 1 1 14 token_value.zero,
       source_token "f" TOKEN_COLON 15 1 1 16 token_value.zero,
       source_token "f" TOKEN_IDENTIFIER 17 3 1 18 token_value.zero,
       source_token "f" TOKEN_EQUALS 21 1 1 22 token_value.zero,
       source_token "f" TOKEN_INTEGER_LITERAL 23 1 1 24 (token_value.unsigned64 2),
       source_token "f" TOKEN_SEMICOLON 24 1 1 25 token_value.zero,
       source_token "f" TOKEN_EOF 25 0 1 26 token_value.zero]
      (parse_result_success second_typed_declaration)
      [source_token "f" TOKEN_EOF 25 0 1 26 token_value.zero] :=
    statement_identifier_first _ _ _ _ _ 4 (by decide)
      (declaration_typed_tokens _ _ _ _ _ (source_token "f" TOKEN_SEMICOLON 24 1 1 25 token_value.zero) _ _
        (parse_result_success (leaf_node AST_INTEGER_LITERAL
          (source_token "f" TOKEN_INTEGER_LITERAL 23 1 1 24 (token_value.unsigned64 2))))
        1 AST_VALUE_ASSIGNMENT (by decide) (by decide) (Or.inr ⟨by decide, rfl⟩) (by decide) rfl
        (function_or_expression_no_paren _ _ _ _ _ 2 (by decide)
          (parses_primary_last _ _ _ _ AST_INTEGER_LITERAL 0 (by decide) (by decide)
            (by decide))))
  exact parser_parse_file_two_statements _ _ _ [] _ 2 _ _ rfl hy h1 h2 (by decide)

theorem two_typed_declarations_not_resolved (fuel : Nat) :
    resolve_types (bytes "x : int = 1; y : int = 2;") fuel two_typed_declarations fresh_symbol_table = none := by
  match fuel with
  | 0 | 1 | 2 | 3 | 4 => rfl
  | n + 5 =>
    have h1 := resolve_typed_declaration (bytes "x : int = 1; y : int = 2;") (n + 2) fresh_symbol_table _
      (source_token "f" TOKEN_IDENTIFIER 0 1 1 1 token_value.zero)
      (source_token "f" TOKEN_IDENTIFIER 4 3 1 5 token_value.zero)
      (source_token "f" TOKEN_COLON 2 1 1 3 token_value.zero)
      (source_token "f" TOKEN_EQUALS 8 1 1 9 token_value.zero)
      (leaf_node AST_INTEGER_LITERAL
        (source_token "f" TOKEN_INTEGER_LITERAL 10 1 1 11 (token_value.unsigned64 1)))
      _ (typing_result_success TYPE_INFO_INTEGER) 1 builtin_int
      (resolve_types_integer_literal _ (n + 1) _ _) rfl rfl rfl rfl (by decide) rfl
    have h2 := resolve_typed_declaration (bytes "x : int = 1; y : int = 2;") (n + 1)
      (with_variable fresh_symbol_table
        (source_token "f" TOKEN_IDENTIFIER 0 1 1 1 token_value.zero)
        TYPE_INFO_INTEGER)
      _
      (source_token "f" TOKEN_IDENTIFIER 13 1 1 14 token_value.zero)
      (source_token "f" TOKEN_IDENTIFIER 17 3 1 18 token_value.zero)
      (source_token "f" TOKEN_COLON 15 1 1 16 token_value.zero)
      (source_token "f" TOKEN_EQUALS 21 1 1 22 token_value.zero)
      (leaf_node AST_INTEGER_LITERAL
        (source_token "f" TOKEN_INTEGER_LITERAL 23 1 1 24 (token_value.unsigned64 2)))
      _ (typing_result_success TYPE_INFO_INTEGER) 1 builtin_int
      (resolve_types_integer_literal _ n _ _) rfl rfl rfl rfl (by decide) rfl
    rw [if_neg (by decide)] at h1
    rw [if_pos (by decide)] at h2
    rw [show n + 2 + 1 = n + 3 from rfl] at h1
    rw [show n + 1 + 1 = n + 2 from rfl] at h2
    simp only [two_typed_declarations, many_node]
    rw [resolve_types, resolve_types_children]
    simp only [first_typed_declaration, h1, typing_result_success, Bool.true_eq_false, if_false]
    rw [resolve_types_children]
    simp only [second_typed_declaration, h2]

/-! ## The symbol table -/

theorem strncmp_eq_self : ∀ (xs : List Nat) (n : Nat), n ≤ xs.length →
    strncmp_eq xs xs n = some true
  | _, 0, _ => by simp [strncmp_eq]
  | [], n + 1, h => by simp at h
  | x :: xs, n + 1, h => by
    rw [strncmp_eq]
    simp only [ne_eq, not_true_eq_false, if_false]
    by_cases hx : x = 0
    · simp [hx]
    · simp only [hx, if_false]
      exact strncmp_eq_self xs n (by simpa using h)

theorem strncmp_eq_some : ∀ (xs ys : List Nat) (n : Nat), n ≤ xs.length → n ≤ ys.length →
    ∃ r, strncmp_eq xs ys n = some r
  | _, _, 0, _, _ => ⟨true, by simp [strncmp_eq]⟩
  | [], _, n + 1, h, _ => by simp at h
  | _ :: _, [], n + 1, _, h => by simp at h
  | x :: xs, y :: ys, n + 1, h1, h2 => by
    rw [strncmp_eq]
    by_cases hxy : x = y
    · by_cases hx : x = 0
      · exact ⟨true, by simp [hxy, hx]; intro h; simp [← hxy, hx] at h⟩
      · obtain ⟨r, hr⟩ := strncmp_eq_some xs ys n (by simpa using h1) (by simpa using h2)
        exact ⟨r, by simp [hxy, hr]; intro h; simp [← hxy, hx] at h ⟩
    · exact ⟨false, by simp [hxy]⟩

theorem strncmp_eq_false : ∀ (xs ys : List Nat) (n : Nat),
    strncmp_eq xs ys n = some false → xs.take n ≠ ys.take n
  | _, _, 0, h => by simp [strncmp_eq] at h
  | [], _, n + 1, h => by simp [strncmp_eq] at h
  | _ :: _, [], n + 1, h => by simp [strncmp_eq] at h
  | x :: xs, y :: ys, n + 1, h => by
    rw [strncmp_eq] at h
    by_cases hxy : x = y
    · by_cases hx : x = 0
      · simp [hxy, hx] at h
        simp [← hxy, hx] at h
      · have hy : ¬ (y = 0) := by rw [← hxy]; exact hx
        simp only [hxy, ne_eq, not_true_eq_false, if_false, hy] at h
        have := strncmp_eq_false xs ys n h
        simpa [hxy] using this
    · simp [hxy]

theorem strncmp_eq_of_take_eq : ∀ (xs ys : List Nat) (n : Nat), n ≤ xs.length →
    xs.take n = ys.take n → n ≤ ys.length → strncmp_eq xs ys n = some true
  | _, _, 0, _, _, _ => by simp [strncmp_eq]
  | [], _, n + 1, h, _, _ => by simp at h
  | _ :: _, [], n + 1, _, _, h => by simp at h
  | x :: xs, y :: ys, n + 1, h1, he, h2 => by
    simp only [List.take_succ_cons, List.cons.injEq] at he
    rw [strncmp_eq]
    simp only [he.1, ne_eq, not_true_eq_false, if_false]
    by_cases hy : y = 0
    · simp [hy]
    · simp only [hy, if_false]
      exact strncmp_eq_of_take_eq xs ys n (by simpa using h1) he.2 (by simpa using h2)

theorem symbol_table_find_from_token (mem : List Nat) (table : symbol_table) (a b : token)
    (hl : a.length = b.length) (ht : a.text = b.text) :
    ∀ (n i : Nat), symbol_table_find_from mem table a n i = symbol_table_find_from mem table b n i
  | 0, _ => by simp [symbol_table_find_from]
  | n + 1, i => by
    rw [symbol_table_find_from, symbol_table_find_from, hl, ht,
      symbol_table_find_from_token mem table a b hl ht n (i + 1)]

theorem symbol_table_find_from_table (mem : List Nat) (a b : symbol_table) (t : token) :
    ∀ (n i : Nat), (∀ j, i ≤ j → j < i + n → a.buffer[j]? = b.buffer[j]?) →
      symbol_table_find_from mem a t n i = symbol_table_find_from mem b t n i
  | 0, _, _ => by simp [symbol_table_find_from]
  | n + 1, i, h => by
    rw [symbol_table_find_from, symbol_table_find_from, h i (Nat.le_refl _) (by omega),
      symbol_table_find_from_table mem a b t n (i + 1) (fun j h1 h2 => h j (by omega) (by omega))]

theorem symbol_table_find_token (mem : List Nat) (table : symbol_table) (a b : token)
    (hl : a.length = b.length) (ht : a.text = b.text) :
    symbol_table_find mem table a = symbol_table_find mem table b :=
  symbol_table_find_from_token mem table a b hl ht _ _

theorem symbol_table_find_table (mem : List Nat) (a b : symbol_table) (t : token)
    (hs : a.size = b.size) (hb : ∀ j, j < a.size → a.buffer[j]? = b.buffer[j]?) :
    symbol_table_find mem a t = symbol_table_find mem b t := by
  rw [symbol_table_find, symbol_table_find, ← hs]
  exact symbol_table_find_from_table mem a b t _ _ (fun j _ h => hb j (by omega))

/-- The test of one turn of the loop of `symbol_table_find`. -/
theorem symbol_table_find_from_absent (mem : List Nat) (table : symbol_table) (t : token) :
    ∀ (n i : Nat), symbol_table_find_from mem table t n i = some none ↔
      ∀ j, i ≤ j → j < i + n → ∃ s, table.buffer[j]? = some s ∧
        (s.t.length ≠ t.length ∨
          strncmp_eq (deref mem s.t.text) (deref mem t.text) t.length = some false)
  | 0, i => by
    simp only [symbol_table_find_from, true_iff]
    intro j h1 h2
    omega
  | n + 1, i => by
    rw [symbol_table_find_from]
    constructor
    · intro h j h1 h2
      cases hb : table.buffer[i]? with
      | none => rw [hb] at h; cases h
      | some s =>
        rw [hb] at h
        simp only at h
        by_cases hl : s.t.length = t.length
        · simp only [hl, ne_eq, not_true_eq_false, if_false] at h
          cases hc : strncmp_eq (deref mem s.t.text) (deref mem t.text) t.length with
          | none => rw [hc] at h; cases h
          | some r =>
            rw [hc] at h
            cases r with
            | true => cases h
            | false =>
              simp only at h
              by_cases hj : j = i
              · subst hj
                exact ⟨s, hb, Or.inr hc⟩
              · exact (symbol_table_find_from_absent mem table t n (i + 1)).1 h j (by omega)
                  (by omega)
        · simp only [ne_eq, hl, not_false_eq_true, if_true] at h
          by_cases hj : j = i
          · subst hj
            exact ⟨s, hb, Or.inl hl⟩
          · exact (symbol_table_find_from_absent mem table t n (i + 1)).1 h j (by omega)
              (by omega)
    · intro h
      obtain ⟨s, hb, hs⟩ := h i (Nat.le_refl _) (by omega)
      have hrest := (symbol_table_find_from_absent mem table t n (i + 1)).2
        (fun j h1 h2 => h j (by omega) (by omega))
      rw [hb]
      simp only
      cases hs with
      | inl hl => simp only [ne_eq, hl, not_false_eq_true, if_true, hrest]
      | inr hc =>
        by_cases hl : s.t.length = t.length
        · simp only [hl, ne_eq, not_true_eq_false, if_false, hc, hrest]
        · simp only [ne_eq, hl, not_false_eq_true, if_true, hrest]

theorem symbol_table_find_from_found (mem : List Nat) (table : symbol_table) (t : token) :
    ∀ (n i k : Nat), symbol_table_find_from mem table t n i = some (some k) →
      i ≤ k ∧ k < i + n ∧ ∃ s, table.buffer[k]? = some s ∧ s.t.length = t.length ∧
        strncmp_eq (deref mem s.t.text) (deref mem t.text) t.length = some true
  | 0, i, k, h => by simp [symbol_table_find_from] at h
  | n + 1, i, k, h => by
    rw [symbol_table_find_from] at h
    cases hb : table.buffer[i]? with
    | none => rw [hb] at h; cases h
    | some s =>
      rw [hb] at h
      simp only at h
      by_cases hl : s.t.length = t.length
      · simp only [hl, ne_eq, not_true_eq_false, if_false] at h
        cases hc : strncmp_eq (deref mem s.t.text) (deref mem t.text) t.length with
        | none => rw [hc] at h; cases h
        | some r =>
          rw [hc] at h
          cases r with
          | true =>
            simp only [Option.some.injEq] at h
            subst h
            exact ⟨Nat.le_refl _, by omega, s, hb, hl, hc⟩
          | false =>
            simp only at h
            obtain ⟨h1, h2, h3⟩ := symbol_table_find_from_found mem table t n (i + 1) k h
            exact ⟨by omega, by omega, h3⟩
      · simp only [ne_eq, hl, not_false_eq_true, if_true] at h
        obtain ⟨h1, h2, h3⟩ := symbol_table_find_from_found mem table t n (i + 1) k h
        exact ⟨by omega, by omega, h3⟩

/-- The loop finds the entry behind `n` entries that do not match. -/
theorem symbol_table_find_from_last (mem : List Nat) (table : symbol_table) (t : token)
    (s : symbol) :
    ∀ (n i : Nat), symbol_table_find_from mem table t n i = some none →
      table.buffer[i + n]? = some s → s.t.length = t.length →
      strncmp_eq (deref mem s.t.text) (deref mem t.text) t.length = some true →
      symbol_table_find_from mem table t (n + 1) i = some (some (i + n))
  | 0, i, _, hb, hl, hc => by
    rw [symbol_table_find_from]
    simp only [Nat.add_zero] at hb
    rw [hb]
    simp only [hl, ne_eq, not_true_eq_false, if_false, hc, Nat.add_zero]
  | n + 1, i, h, hb, hl, hc => by
    have hall := (symbol_table_find_from_absent mem table t (n + 1) i).1 h
    obtain ⟨s0, hb0, hs0⟩ := hall i (Nat.le_refl _) (by omega)
    have hrest : symbol_table_find_from mem table t n (i + 1) = some none :=
      (symbol_table_find_from_absent mem table t n (i + 1)).2
        (fun j h1 h2 => hall j (by omega) (by omega))
    have hnext := symbol_table_find_from_last mem table t s n (i + 1) hrest
      (by rw [show i + 1 + n = i + (n + 1) by omega]; exact hb) hl hc
    rw [symbol_table_find_from, hb0]
    simp only
    rw [show i + (n + 1) = i + 1 + n by omega]
    cases hs0 with
    | inl hl0 => simp only [ne_eq, hl0, not_false_eq_true, if_true, hnext]
    | inr hc0 =>
      by_cases hl0 : s0.t.length = t.length
      · simp only [hl0, ne_eq, not_true_eq_false, if_false, hc0, hnext]
      · simp only [ne_eq, hl0, not_false_eq_true, if_true, hnext]

theorem symbol_table_find_absent_length (mem : List Nat) (table : symbol_table) (t : token)
    (h : symbol_table_find mem table t = some none) : table.size ≤ table.buffer.length := by
  by_cases hz : table.size = 0
  · omega
  · obtain ⟨s, hs, _⟩ := (symbol_table_find_from_absent mem table t table.size 0).1 h
      (table.size - 1) (by omega) (by omega)
    have := (List.getElem?_eq_some_iff.1 hs).1
    omega

theorem with_symbol_getElem_lt (table : symbol_table) (sym : symbol)
    (h : table.size ≤ table.buffer.length) (j : Nat) (hj : j < table.size) :
    (with_symbol table sym).buffer[j]? = table.buffer[j]? := by
  simp only [with_symbol]
  rw [List.getElem?_append_left (by simp; omega), List.getElem?_take_of_lt hj]

theorem with_symbol_getElem_size (table : symbol_table) (sym : symbol)
    (h : table.size ≤ table.buffer.length) :
    (with_symbol table sym).buffer[table.size]? = some sym := by
  simp only [with_symbol]
  rw [List.getElem?_append_right (by simp)]
  simp [Nat.min_eq_left h]

theorem symbol_table_add_absent_symbol (mem : List Nat) (table : symbol_table) (t : token)
    (type : type_info) (is_constant : Bool)
    (hn : symbol_table_find mem table t = some none) :
    symbol_table_add mem table t type is_constant
      = some (true, with_symbol table
          { t := t, type := type, is_constant := is_constant, function_decl_node := none }) := by
  by_cases hc : table.size + 1 ≥ table.capacity
  · have hf : symbol_table_find mem
        { table with capacity := table.capacity * DEFAULT_SYMBOL_TABLE_RESIZE_FACTOR } t
        = some none := by
      rw [← hn]
      exact symbol_table_find_table mem _ _ t rfl (fun j _ => rfl)
    simp only [symbol_table_add, hc, if_true, symbol_table_reallocate_buffer, hf, with_symbol]
  · simp only [symbol_table_add, hc, if_false, hn, with_symbol]

theorem symbol_table_add_present (mem : List Nat) (table : symbol_table) (t : token)
    (type : type_info) (is_constant : Bool) (k : Nat)
    (hn : symbol_table_find mem table t = some (some k)) :
    symbol_table_add mem table t type is_constant
      = some (false, { table with capacity := if table.size + 1 ≥ table.capacity
          then table.capacity * DEFAULT_SYMBOL_TABLE_RESIZE_FACTOR else table.capacity }) := by
  by_cases hc : table.size + 1 ≥ table.capacity
  · have hf : symbol_table_find mem
        { table with capacity := table.capacity * DEFAULT_SYMBOL_TABLE_RESIZE_FACTOR } t
        = some (some k) := by
      rw [← hn]
      exact symbol_table_find_table mem _ _ t rfl (fun j _ => rfl)
    simp only [symbol_table_add, hc, if_true, symbol_table_reallocate_buffer, hf]
  · simp only [symbol_table_add, hc, if_false, hn]

theorem symbol_table_find_added (mem : List Nat) (table : symbol_table) (t : token)
    (sym : symbol) (hl : sym.t.length = t.length) (ht : sym.t.text = t.text)
    (hn : symbol_table_find mem table t = some none) (hr : readable mem t) :
    symbol_table_find mem (with_symbol table sym) t = some (some table.size) := by
  have hlen := symbol_table_find_absent_length mem table t hn
  have h0 : symbol_table_find_from mem (with_symbol table sym) t table.size 0 = some none := by
    rw [symbol_table_find_from_table mem (with_symbol table sym) table t table.size 0
      (fun j _ h => with_symbol_getElem_lt table sym hlen j (by omega))]
    exact hn
  have h1 := symbol_table_find_from_last mem (with_symbol table sym) t sym table.size 0 h0
    (by rw [Nat.zero_add]; exact with_symbol_getElem_size table sym hlen) hl
    (by rw [ht]; exact strncmp_eq_self _ _ hr)
  rw [Nat.zero_add] at h1
  exact h1

theorem symbol_table_find_total (mem : List Nat) (table : symbol_table) (t : token)
    (hw : symbol_table_wf mem table) (hr : readable mem t) :
    ∀ (n i : Nat), i + n ≤ table.size → ∃ r, symbol_table_find_from mem table t n i = some r
  | 0, _, _ => ⟨none, by simp [symbol_table_find_from]⟩
  | n + 1, i, h => by
    have hi : i < table.buffer.length := by rw [hw.1]; omega
    have hb : table.buffer[i]? = some table.buffer[i] := List.getElem?_eq_getElem hi
    obtain ⟨r, hrest⟩ := symbol_table_find_total mem table t hw hr n (i + 1) (by omega)
    rw [symbol_table_find_from, hb]
    simp only
    by_cases hl : table.buffer[i].t.length = t.length
    · have hrs : readable mem table.buffer[i].t := hw.2.1 _ (List.getElem_mem hi)
      obtain ⟨c, hc⟩ := strncmp_eq_some (deref mem table.buffer[i].t.text) (deref mem t.text)
        t.length (by rw [← hl]; exact hrs) hr
      cases c with
      | true => exact ⟨some i, by simp only [hl, ne_eq, not_true_eq_false, if_false, hc]⟩
      | false => exact ⟨r, by simp only [hl, ne_eq, not_true_eq_false, if_false, hc, hrest]⟩
    · exact ⟨r, by simp only [ne_eq, hl, not_false_eq_true, if_true, hrest]⟩

theorem symbol_table_find_absent_names (mem : List Nat) (table : symbol_table) (t : token)
    (hw : symbol_table_wf mem table) (h : symbol_table_find mem table t = some none) :
    ∀ s, s ∈ table.buffer → ¬ same_name mem s.t t := by
  intro s hs hsame
  obtain ⟨j, hj, hget⟩ := List.getElem_of_mem hs
  obtain ⟨s1, hs1, hne⟩ := (symbol_table_find_from_absent mem table t table.size 0).1 h j
    (by omega) (by rw [← hw.1]; omega)
  rw [List.getElem?_eq_getElem hj, hget] at hs1
  cases hs1
  cases hne with
  | inl hl => exact hl hsame.1
  | inr hc =>
    have := strncmp_eq_false _ _ _ hc
    apply this
    have h2 := hsame.2
    simp only [token_text] at h2
    rw [← hsame.1]
    rw [hsame.1] at h2 ⊢
    exact h2

theorem symbol_table_find_present_names (mem : List Nat) (table : symbol_table) (t : token)
    (hw : symbol_table_wf mem table) (hr : readable mem t)
    (h : ∃ s, s ∈ table.buffer ∧ same_name mem s.t t) :
    ∃ k, symbol_table_find mem table t = some (some k) := by
  obtain ⟨r, hfind⟩ := symbol_table_find_total mem table t hw hr table.size 0 (by omega)
  cases r with
  | some k => exact ⟨k, hfind⟩
  | none =>
    exfalso
    obtain ⟨s, hs, hsame⟩ := h
    obtain ⟨j, hj, hget⟩ := List.getElem_of_mem hs
    obtain ⟨s1, hs1, hne⟩ := (symbol_table_find_from_absent mem table t table.size 0).1 hfind j
      (by omega) (by rw [← hw.1]; omega)
    rw [List.getElem?_eq_getElem hj, hget] at hs1
    cases hs1
    cases hne with
    | inl hl => exact hl hsame.1
    | inr hc =>
      have hrs : readable mem s.t := hw.2.1 _ hs
      have h2 := hsame.2
      simp only [token_text, hsame.1] at h2
      have := strncmp_eq_of_take_eq (deref mem s.t.text) (deref mem t.text) t.length
        (by rw [← hsame.1]; exact hrs) h2 hr
      rw [this] at hc
      cases hc

theorem with_symbol_wf (mem : List Nat) (table : symbol_table) (sym : symbol)
    (hw : symbol_table_wf mem table) (hr : readable mem sym.t)
    (hn : ∀ s, s ∈ table.buffer → ¬ same_name mem s.t sym.t) :
    symbol_table_wf mem (with_symbol table sym) := by
  obtain ⟨h1, h2, h3⟩ := hw
  have ht : table.buffer.take table.size = table.buffer := by
    rw [← h1]; exact List.take_length _
  refine ⟨?_, ?_, ?_⟩
  · simp [with_symbol, ht, h1]
  · intro s hs
    simp only [with_symbol, ht, List.mem_append, List.mem_singleton] at hs
    cases hs with
    | inl h => exact h2 s h
    | inr h => rw [h]; exact hr
  · simp only [with_symbol, ht]
    rw [List.pairwise_append]
    refine ⟨h3, List.pairwise_singleton _ _, ?_⟩
    intro a ha b hb
    simp only [List.mem_singleton] at hb
    rw [hb]
    exact hn a ha

theorem symbol_table_add_wf (mem : List Nat) (table : symbol_table) (t : token)
    (type : type_info) (is_constant : Bool)
    (hw : symbol_table_wf mem table) (hr : readable mem t) :
    ∃ added table1, symbol_table_add mem table t type is_constant = some (added, table1) ∧
      symbol_table_wf mem table1 := by
  obtain ⟨r, hfind⟩ := symbol_table_find_total mem table t hw hr table.size 0 (by omega)
  cases r with
  | some k =>
    exact ⟨false, _, symbol_table_add_present mem table t type is_constant k hfind, hw⟩
  | none =>
    exact ⟨true, _, symbol_table_add_absent_symbol mem table t type is_constant hfind,
      with_symbol_wf mem table _ hw hr (symbol_table_find_absent_names mem table t hw hfind)⟩

theorem symbol_table_add_all_wf (mem : List Nat) :
    ∀ (adds : List (token × type_info × Bool)) (table : symbol_table),
      symbol_table_wf mem table → (∀ a, a ∈ adds → readable mem a.1) →
      ∃ table1, symbol_table_add_all mem table adds = some table1 ∧ symbol_table_wf mem table1
  | [], table, hw, _ => ⟨table, rfl, hw⟩
  | (t, type, is_constant) :: rest, table, hw, hr => by
    obtain ⟨added, table1, hadd, hw1⟩ := symbol_table_add_wf mem table t type is_constant hw
      (hr _ (List.mem_cons_self _ _))
    obtain ⟨table2, hall, hw2⟩ := symbol_table_add_all_wf mem rest table1 hw1
      (fun a ha => hr a (List.mem_cons_of_mem _ ha))
    exact ⟨table2, by rw [symbol_table_add_all, hadd]; exact hall, hw2⟩

theorem fresh_symbol_table_wf (mem : List Nat) : symbol_table_wf mem fresh_symbol_table := by
  refine ⟨rfl, ?_, ?_⟩
  · intro s hs
    simp only [fresh_symbol_table, List.mem_cons, List.mem_singleton, List.not_mem_nil,
      or_false] at hs
    cases hs with
    | inl h => rw [h]; simp [readable, builtin_float, create_base_type_token, deref, bytes]
    | inr h => rw [h]; simp [readable, builtin_int, create_base_type_token, deref, bytes]
  · simp only [fresh_symbol_table, List.pairwise_cons, List.mem_singleton, forall_eq,
      List.not_mem_nil, false_implies, implies_true, List.Pairwise.nil, and_true]
    intro h
    have := h.1
    simp [builtin_float, builtin_int, create_base_type_token, bytes] at this

theorem symbol_table_add_contract (mem : List Nat) (table : symbol_table) (t : token)
    (type : type_info) (is_constant : Bool) (adds : List (token × type_info × Bool))
    (hw : symbol_table_wf mem table) (hr : readable mem t)
    (hadds : ∀ a, a ∈ adds → readable mem a.1) :
    (∃ table1, symbol_table_add_all mem fresh_symbol_table adds = some table1 ∧
      symbol_table_wf mem table1) ∧
    ((∃ s, s ∈ table.buffer ∧ same_name mem s.t t) →
      ∃ table1, symbol_table_add mem table t type is_constant = some (false, table1) ∧
        table1.size = table.size ∧ table1.buffer = table.buffer) ∧
    (∀ table1, symbol_table_add mem table t type is_constant = some (true, table1) →
      table1.size = table.size + 1 ∧
      table1.buffer = table.buffer ++
        [{ t := t, type := type, is_constant := is_constant, function_decl_node := none }] ∧
      symbol_table_wf mem table1) := by
  refine ⟨symbol_table_add_all_wf mem adds _ (fresh_symbol_table_wf mem) hadds, ?_, ?_⟩
  · intro h
    obtain ⟨k, hk⟩ := symbol_table_find_present_names mem table t hw hr h
    exact ⟨_, symbol_table_add_present mem table t type is_constant k hk, rfl, rfl⟩
  · intro table1 h
    obtain ⟨r, hfind⟩ := symbol_table_find_total mem table t hw hr table.size 0 (by omega)
    cases r with
    | some k =>
      rw [symbol_table_add_present mem table t type is_constant k hfind] at h
      cases h
    | none =>
      rw [symbol_table_add_absent_symbol mem table t type is_constant hfind] at h
      cases h
      have ht : table.buffer.take table.size = table.buffer := by
        rw [← hw.1]; exact List.take_length _
      refine ⟨rfl, by simp only [with_symbol, ht], ?_⟩
      exact with_symbol_wf mem table _ hw hr
        (symbol_table_find_absent_names mem table t hw hfind)

/-- C29 (uniqueness of the names of the symbol table).  `symbol_table_create`
makes the table that holds exactly the built-ins `float` and `int`.  Every
sequence of `symbol_table_add` calls from it (with names that can be read)
returns, and leaves a table in which no two entries carry the same name
(equal length and equal bytes).  On every table with that invariant, an add
of a name that is present returns false and leaves the size and the entries
as they are, and an add that returns true has appended one entry behind the
entries present, which are unchanged, and keeps the invariant. -/
theorem symbol_table_names_stay_unique (mem : List Nat) (table : symbol_table) (t : token)
    (type : type_info) (is_constant : Bool) (adds : List (token × type_info × Bool))
    (hw : symbol_table_wf mem table) (hr : readable mem t)
    (hadds : ∀ a, a ∈ adds → readable mem a.1) :
    symbol_table_create = some fresh_symbol_table ∧
    fresh_symbol_table.buffer = [builtin_float, builtin_int] ∧
    fresh_symbol_table.size = 2 ∧
    (∃ table1, symbol_table_add_all mem fresh_symbol_table adds = some table1 ∧
      symbol_table_wf mem table1) ∧
    ((∃ s, s ∈ table.buffer ∧ same_name mem s.t t) →
      ∃ table1, symbol_table_add mem table t type is_constant = some (false, table1) ∧
        table1.size = table.size ∧ table1.buffer = table.buffer) ∧
    (∀ table1, symbol_table_add mem table t type is_constant = some (true, table1) →
      table1.size = table.size + 1 ∧
      table1.buffer = table.buffer ++
        [{ t := t, type := type, is_constant := is_constant, function_decl_node := none }] ∧
      symbol_table_wf mem table1) :=
  ⟨symbol_table_create_eq, rfl, rfl,
    symbol_table_add_contract mem table t type is_constant adds hw hr hadds⟩

theorem symbol_table_names_stay_unique_witness :
    symbol_table_add_all (bytes "x y x") fresh_symbol_table
      [((source_token "f" TOKEN_IDENTIFIER 0 1 1 1 token_value.zero), TYPE_INFO_INTEGER, false),
       ((source_token "f" TOKEN_IDENTIFIER 2 1 1 3 token_value.zero), TYPE_INFO_FLOAT, true),
       ((source_token "f" TOKEN_IDENTIFIER 4 1 1 5 token_value.zero), TYPE_INFO_FLOAT, false)]
      = some
        { buffer := [builtin_float, builtin_int,
            { t := source_token "f" TOKEN_IDENTIFIER 0 1 1 1 token_value.zero,
              type := TYPE_INFO_INTEGER, is_constant := false, function_decl_node := none },
            { t := source_token "f" TOKEN_IDENTIFIER 2 1 1 3 token_value.zero,
              type := TYPE_INFO_FLOAT, is_constant := true, function_decl_node := none }],
          size := 4, capacity := 8 } ∧
    symbol_table_wf (bytes "x y x") fresh_symbol_table ∧
    readable (bytes "x y x") (source_token "f" TOKEN_IDENTIFIER 0 1 1 1 token_value.zero) ∧
    (∀ a, a ∈ [((source_token "f" TOKEN_IDENTIFIER 0 1 1 1 token_value.zero), TYPE_INFO_INTEGER, false),
       ((source_token "f" TOKEN_IDENTIFIER 2 1 1 3 token_value.zero), TYPE_INFO_FLOAT, true),
       ((source_token "f" TOKEN_IDENTIFIER 4 1 1 5 token_value.zero), TYPE_INFO_FLOAT, false)] →
      readable (bytes "x y x") a.1) ∧
    (symbol_table_create = some fresh_symbol_table ∧
    fresh_symbol_table.buffer = [builtin_float, builtin_int] ∧
    fresh_symbol_table.size = 2 ∧
    (∃ table1, symbol_table_add_all (bytes "x y x") fresh_symbol_table [((source_token "f" TOKEN_IDENTIFIER 0 1 1 1 token_value.zero), TYPE_INFO_INTEGER, false),
       ((source_token "f" TOKEN_IDENTIFIER 2 1 1 3 token_value.zero), TYPE_INFO_FLOAT, true),
       ((source_token "f" TOKEN_IDENTIFIER 4 1 1 5 token_value.zero), TYPE_INFO_FLOAT, false)] = some table1 ∧
      symbol_table_wf (bytes "x y x") table1) ∧
    ((∃ s, s ∈ fresh_symbol_table.buffer ∧ same_name (bytes "x y x") s.t (source_token "f" TOKEN_IDENTIFIER 0 1 1 1 token_value.zero)) →
      ∃ table1, symbol_table_add (bytes "x y x") fresh_symbol_table (source_token "f" TOKEN_IDENTIFIER 0 1 1 1 token_value.zero) TYPE_INFO_INTEGER false = some (false, table1) ∧
        table1.size = fresh_symbol_table.size ∧ table1.buffer = fresh_symbol_table.buffer) ∧
    (∀ table1, symbol_table_add (bytes "x y x") fresh_symbol_table (source_token "f" TOKEN_IDENTIFIER 0 1 1 1 token_value.zero) TYPE_INFO_INTEGER false = some (true, table1) →
      table1.size = fresh_symbol_table.size + 1 ∧
      table1.buffer = fresh_symbol_table.buffer ++
        [{ t := (source_token "f" TOKEN_IDENTIFIER 0 1 1 1 token_value.zero), type := TYPE_INFO_INTEGER, is_constant := false, function_decl_node := none }] ∧
      symbol_table_wf (bytes "x y x") table1)) :=
  ⟨rfl, fresh_symbol_table_wf _, by decide, by decide,
    symbol_table_names_stay_unique (bytes "x y x") fresh_symbol_table
      (source_token "f" TOKEN_IDENTIFIER 0 1 1 1 token_value.zero) TYPE_INFO_INTEGER false
      [((source_token "f" TOKEN_IDENTIFIER 0 1 1 1 token_value.zero), TYPE_INFO_INTEGER, false),
       ((source_token "f" TOKEN_IDENTIFIER 2 1 1 3 token_value.zero), TYPE_INFO_FLOAT, true),
       ((source_token "f" TOKEN_IDENTIFIER 4 1 1 5 token_value.zero), TYPE_INFO_FLOAT, false)]
      (fresh_symbol_table_wf _) (by decide) (by decide)⟩

/-! ## Declarations whose type is deduced -/

theorem modify_last {α : Type} (f : α → α) (a : α) :
    ∀ (l : List α), (l ++ [a]).modify f l.length = l ++ [f a]
  | [] => rfl
  | x :: xs => by
    have ih := modify_last f a xs
    unfold List.modify at ih ⊢
    simp only [List.cons_append, List.length_cons, List.modifyTailIdx]
    exact congrArg (fun l => x :: l) ih

theorem set_function_decl_node_added (table : symbol_table) (sym : symbol) (node : ast_node)
    (h : table.size ≤ table.buffer.length) :
    set_function_decl_node (with_symbol table sym) table.size node
      = with_symbol table { sym with function_decl_node := some node } := by
  have hl : (table.buffer.take table.size).length = table.size := by simp [Nat.min_eq_left h]
  simp only [set_function_decl_node, with_symbol]
  congr 1
  have := modify_last (fun s : symbol => { s with function_decl_node := some node }) sym
    (table.buffer.take table.size)
  rw [hl] at this
  exact this

theorem resolve_types_untyped_left (mem : List Nat) (fuel : Nat) (colon name : token)
    (table : symbol_table) :
    resolve_types mem (fuel + 1)
        (binary_node AST_TYPE_ASSIGNMENT colon (leaf_node AST_IDENTIFIER name) ast_node.null)
        table
      = some (typing_result_success TYPE_INFO_UNKNOWN,
          binary_node AST_TYPE_ASSIGNMENT colon (leaf_node AST_IDENTIFIER name) ast_node.null,
          table) := by
  simp only [binary_node, leaf_node]
  rw [resolve_types]
  simp only [resolve_type_assignment]

theorem deduce_declaration_absent (mem : List Nat) (table : symbol_table)
    (type : ast_node_type) (op colon name : token) (right : ast_node) (right_type : type_info)
    (is_constant : Bool)
    (hn : symbol_table_find mem table name = some none) (hr : readable mem name) :
    deduce_declaration mem
        (binary_node type op
          (binary_node AST_TYPE_ASSIGNMENT colon (leaf_node AST_IDENTIFIER name) ast_node.null)
          right)
        table right_type is_constant
      = some (typing_result_success right_type,
          binary_node type { op with typing_information := right_type }
            (binary_node AST_TYPE_ASSIGNMENT { colon with typing_information := right_type }
              (leaf_node AST_IDENTIFIER { name with typing_information := right_type })
              ast_node.null)
            right,
          with_symbol table
            { t := { name with typing_information := right_type }, type := right_type,
              is_constant := is_constant,
              function_decl_node :=
                if right_type = TYPE_INFO_FUNCTION then some right else none }) := by
  have hn1 : symbol_table_find mem table { name with typing_information := right_type }
      = some none := by
    rw [← hn]
    exact symbol_table_find_token mem table _ _ rfl rfl
  have hadd := symbol_table_add_absent_symbol mem table
    { name with typing_information := right_type } right_type is_constant hn1
  have hlen := symbol_table_find_absent_length mem table name hn
  simp only [deduce_declaration, binary_node, leaf_node, hn, hadd]
  by_cases hf : right_type = TYPE_INFO_FUNCTION
  · have hfound := symbol_table_find_added mem table
      { name with typing_information := right_type }
      { t := { name with typing_information := right_type }, type := right_type,
        is_constant := is_constant, function_decl_node := none } rfl rfl hn1 hr
    simp only [hf, if_true] at hfound ⊢
    simp only [hfound]
    rw [set_function_decl_node_added _ _ _ hlen]
  · simp only [hf, if_false]

theorem resolve_deduced_declaration (mem : List Nat) (fuel : Nat) (table table1 : symbol_table)
    (type : ast_node_type) (is_constant : Bool) (op colon name : token) (e e1 : ast_node)
    (result : typing_result)
    (hd : type = AST_CONST_ASSIGNMENT ∧ is_constant = true ∨
      type = AST_VALUE_ASSIGNMENT ∧ is_constant = false)
    (he : resolve_types mem fuel e table = some (result, e1, table1))
    (hs : result.success = true)
    (hn : symbol_table_find mem table1 name = some none) (hr : readable mem name) :
    resolve_types mem (fuel + 1)
        (binary_node type op
          (binary_node AST_TYPE_ASSIGNMENT colon (leaf_node AST_IDENTIFIER name) ast_node.null)
          e) table
      = some (typing_result_success result.type,
          binary_node type { op with typing_information := result.type }
            (binary_node AST_TYPE_ASSIGNMENT { colon with typing_information := result.type }
              (leaf_node AST_IDENTIFIER { name with typing_information := result.type })
              ast_node.null)
            e1,
          with_symbol table1
            { t := { name with typing_information := result.type }, type := result.type,
              is_constant := is_constant,
              function_decl_node :=
                if result.type = TYPE_INFO_FUNCTION then some e1 else none }) := by
  cases fuel with
  | zero => simp [resolve_types] at he
  | succ fuel =>
    have hl := resolve_types_untyped_left mem fuel colon name table1
    have hded := deduce_declaration_absent mem table1 type op colon name e1 result.type
      is_constant hn hr
    simp only [binary_node, leaf_node] at hl hded ⊢
    rcases hd with ⟨ht, hc⟩ | ⟨ht, hc⟩
    · subst ht
      subst hc
      rw [resolve_types]
      simp only [he, hs, Bool.true_eq_false, if_false, hl, typing_result_success,
        resolve_const_assignment_end, ne_eq, not_true_eq_false]
      exact hded
    · subst ht
      subst hc
      rw [resolve_types]
      simp only [he, hs, Bool.true_eq_false, if_false, hl, typing_result_success,
        resolve_value_assignment_end]
      simp only [if_true, reduceCtorEq, if_false]
      exact hded

/-- C21 (constant binding with a deduced type).  Let the initializer `e`
resolve successfully, leaving the table `table1` in which the name is absent
(the bytes of the name can be read).  Then `resolve_types` on
`CONST_ASSIGN(TYPE_ASSIGN(name, null), e)` succeeds with the type of `e`, and
the table gains exactly one entry: the name with that type and
`is_constant = true`, whose `function_decl_node` is the resolved initializer
when the type is FUNCTION (and is not written otherwise).  The tokens of the
assignment, of the type assignment and of the name get that type. -/
theorem constant_declaration_deduces_type (mem : List Nat) (fuel : Nat)
    (table table1 : symbol_table) (op colon name : token) (e e1 : ast_node)
    (result : typing_result)
    (he : resolve_types mem fuel e table = some (result, e1, table1))
    (hs : result.success = true)
    (hn : symbol_table_find mem table1 name = some none) (hr : readable mem name) :
    resolve_types mem (fuel + 1)
        (binary_node AST_CONST_ASSIGNMENT op
          (binary_node AST_TYPE_ASSIGNMENT colon (leaf_node AST_IDENTIFIER name) ast_node.null)
          e) table
      = some (typing_result_success result.type,
          binary_node AST_CONST_ASSIGNMENT { op with typing_information := result.type }
            (binary_node AST_TYPE_ASSIGNMENT { colon with typing_information := result.type }
              (leaf_node AST_IDENTIFIER { name with typing_information := result.type })
              ast_node.null)
            e1,
          with_symbol table1
            { t := { name with typing_information := result.type }, type := result.type,
              is_constant := true,
              function_decl_node :=
                if result.type = TYPE_INFO_FUNCTION then some e1 else none }) :=
  resolve_deduced_declaration mem fuel table table1 AST_CONST_ASSIGNMENT true op colon name e e1
    result (Or.inl ⟨rfl, rfl⟩) he hs hn hr

theorem constant_declaration_deduces_type_witness :
    (∃ tree,
      resolve_types (bytes "y :: 1 + 2;") 4
        (binary_node AST_CONST_ASSIGNMENT
          (source_token "f" TOKEN_COLON 3 1 1 4 token_value.zero)
          (binary_node AST_TYPE_ASSIGNMENT
            (source_token "f" TOKEN_COLON 2 1 1 3 token_value.zero)
            (leaf_node AST_IDENTIFIER
              (source_token "f" TOKEN_IDENTIFIER 0 1 1 1 token_value.zero))
            ast_node.null)
          (binary_node AST_BINARY_OPERATOR_PLUS
            (source_token "f" TOKEN_PLUS 7 1 1 8 token_value.zero)
            (leaf_node AST_INTEGER_LITERAL
              (source_token "f" TOKEN_INTEGER_LITERAL 5 1 1 6 (token_value.unsigned64 1)))
            (leaf_node AST_INTEGER_LITERAL
              (source_token "f" TOKEN_INTEGER_LITERAL 9 1 1 10 (token_value.unsigned64 2)))))
        fresh_symbol_table
      = some (typing_result_success TYPE_INFO_INTEGER, tree,
          with_symbol fresh_symbol_table
            { t := { source_token "f" TOKEN_IDENTIFIER 0 1 1 1 token_value.zero with
                typing_information := TYPE_INFO_INTEGER },
              type := TYPE_INFO_INTEGER, is_constant := true, function_decl_node := none })) ∧
    (∃ tree node,
      resolve_types (bytes "g :: () -> int {};") 4
        (binary_node AST_CONST_ASSIGNMENT
          (source_token "f" TOKEN_COLON 3 1 1 4 token_value.zero)
          (binary_node AST_TYPE_ASSIGNMENT
            (source_token "f" TOKEN_COLON 2 1 1 3 token_value.zero)
            (leaf_node AST_IDENTIFIER
              (source_token "f" TOKEN_IDENTIFIER 0 1 1 1 token_value.zero))
            ast_node.null)
          (ast_node.node AST_FUNCTION_DECLARATION token_zero
            (many_node AST_PARAMETER_LIST node_list_create)
            (leaf_node AST_IDENTIFIER
              (source_token "f" TOKEN_IDENTIFIER 11 3 1 12 token_value.zero))
            (many_node AST_SCOPE node_list_create) node_list.nil false))
        fresh_symbol_table
      = some (typing_result_success TYPE_INFO_FUNCTION, tree,
          with_symbol fresh_symbol_table
            { t := { source_token "f" TOKEN_IDENTIFIER 0 1 1 1 token_value.zero with
                typing_information := TYPE_INFO_FUNCTION },
              type := TYPE_INFO_FUNCTION, is_constant := true,
              function_decl_node := some node })) :=
  ⟨⟨_, constant_declaration_deduces_type (bytes "y :: 1 + 2;") 3 fresh_symbol_table _
      (source_token "f" TOKEN_COLON 3 1 1 4 token_value.zero)
      (source_token "f" TOKEN_COLON 2 1 1 3 token_value.zero)
      (source_token "f" TOKEN_IDENTIFIER 0 1 1 1 token_value.zero)
      (binary_node AST_BINARY_OPERATOR_PLUS
            (source_token "f" TOKEN_PLUS 7 1 1 8 token_value.zero)
            (leaf_node AST_INTEGER_LITERAL
              (source_token "f" TOKEN_INTEGER_LITERAL 5 1 1 6 (token_value.unsigned64 1)))
            (leaf_node AST_INTEGER_LITERAL
              (source_token "f" TOKEN_INTEGER_LITERAL 9 1 1 10 (token_value.unsigned64 2))))
      _ (typing_result_success TYPE_INFO_INTEGER) rfl rfl rfl (by decide)⟩,
    ⟨_, _, constant_declaration_deduces_type (bytes "g :: () -> int {};") 3 fresh_symbol_table _
      (source_token "f" TOKEN_COLON 3 1 1 4 token_value.zero)
      (source_token "f" TOKEN_COLON 2 1 1 3 token_value.zero)
      (source_token "f" TOKEN_IDENTIFIER 0 1 1 1 token_value.zero)
      (ast_node.node AST_FUNCTION_DECLARATION token_zero
            (many_node AST_PARAMETER_LIST node_list_create)
            (leaf_node AST_IDENTIFIER
              (source_token "f" TOKEN_IDENTIFIER 11 3 1 12 token_value.zero))
            (many_node AST_SCOPE node_list_create) node_list.nil false)
      _ (typing_result_success TYPE_INFO_FUNCTION) rfl rfl rfl (by decide)⟩⟩

/-! ## Identifiers and assignments -/

theorem resolve_types_identifier (mem : List Nat) (fuel : Nat) (t : token)
    (table : symbol_table) :
    resolve_types mem (fuel + 1) (leaf_node AST_IDENTIFIER t) table
      = resolve_identifier mem (leaf_node AST_IDENTIFIER t) table := by
  simp only [leaf_node]
  rw [resolve_types]

theorem resolve_identifier_absent (mem : List Nat) (type : ast_node_type) (t : token)
    (c0 c1 c2 : ast_node) (children : node_list) (parens : Bool) (table : symbol_table)
    (hn : symbol_table_find mem table t = some none) :
    resolve_identifier mem (ast_node.node type t c0 c1 c2 children parens) table
      = some (typing_result_error t ("Undeclared symbol '" ++ printable mem t ++ "'"),
          ast_node.node type t c0 c1 c2 children parens, table) := by
  simp only [resolve_identifier, hn]

theorem resolve_identifier_present (mem : List Nat) (t : token) (table : symbol_table)
    (i : Nat) (sym : symbol)
    (hn : symbol_table_find mem table t = some (some i)) (hi : table.buffer[i]? = some sym) :
    resolve_identifier mem (leaf_node AST_IDENTIFIER t) table
      = some (typing_result_success sym.type,
          leaf_node AST_IDENTIFIER { t with typing_information := sym.type }, table) := by
  simp only [resolve_identifier, leaf_node, hn, hi, set_typing_information]

theorem resolve_assignment_undeclared (mem : List Nat) (fuel : Nat)
    (table table1 : symbol_table) (eq name : token) (e e1 : ast_node) (result : typing_result)
    (he : resolve_types mem fuel e table = some (result, e1, table1))
    (hs : result.success = true)
    (hn : symbol_table_find mem table1 name = some none) :
    resolve_types mem (fuel + 1)
        (binary_node AST_VALUE_ASSIGNMENT eq (leaf_node AST_IDENTIFIER name) e) table
      = some (typing_result_error name ("Undeclared symbol '" ++ printable mem name ++ "'"),
          binary_node AST_VALUE_ASSIGNMENT eq (leaf_node AST_IDENTIFIER name) e1, table1) := by
  cases fuel with
  | zero => simp [resolve_types] at he
  | succ fuel =>
    have hl := resolve_types_identifier mem fuel name table1
    simp only [leaf_node] at hl
    rw [resolve_identifier_absent mem _ _ _ _ _ _ _ _ hn] at hl
    simp only [binary_node, leaf_node] at hl ⊢
    rw [resolve_types]
    simp only [he, hs, Bool.true_eq_false, if_false, hl, typing_result_error, if_true]

theorem resolve_assignment_declared (mem : List Nat) (fuel : Nat)
    (table table1 : symbol_table) (eq name : token) (e e1 : ast_node) (result : typing_result)
    (i : Nat) (sym : symbol)
    (he : resolve_types mem fuel e table = some (result, e1, table1))
    (hs : result.success = true)
    (hn : symbol_table_find mem table1 name = some (some i))
    (hi : table1.buffer[i]? = some sym) :
    resolve_types mem (fuel + 1)
        (binary_node AST_VALUE_ASSIGNMENT eq (leaf_node AST_IDENTIFIER name) e) table
      = if sym.is_constant = true then
          match location_printable_text sym.t.location with
          | none => none
          | some orig_location =>
            some (typing_result_error { name with typing_information := sym.type }
              ("Cannot assign to variable '" ++ printable mem name ++
                "' because it was defined as a constant. Original declaration was made " ++
                "here [" ++ orig_location ++ "]"),
              binary_node AST_VALUE_ASSIGNMENT eq
                (leaf_node AST_IDENTIFIER { name with typing_information := sym.type }) e1,
              table1)
        else if sym.type ≠ result.type then
          some (typing_result_error { name with typing_information := sym.type }
            ("Type mismatch: the type of '" ++ printable mem name ++
              "' does not match that of the assigned expression."),
            binary_node AST_VALUE_ASSIGNMENT eq
              (leaf_node AST_IDENTIFIER { name with typing_information := sym.type }) e1,
            table1)
        else
          some (typing_result_success sym.type,
            binary_node AST_VALUE_ASSIGNMENT { eq with typing_information := sym.type }
              (leaf_node AST_IDENTIFIER { name with typing_information := sym.type }) e1,
            table1) := by
  cases fuel with
  | zero => simp [resolve_types] at he
  | succ fuel =>
    have hl := resolve_types_identifier mem fuel name table1
    rw [resolve_identifier_present mem _ _ i sym hn hi] at hl
    have hn1 : symbol_table_find mem table1 { name with typing_information := sym.type }
        = some (some i) := by
      rw [← hn]
      exact symbol_table_find_token mem table1 _ _ rfl rfl
    have hp : printable mem { name with typing_information := sym.type } = printable mem name :=
      rfl
    simp only [binary_node, leaf_node] at hl ⊢
    rw [resolve_types]
    by_cases hc : sym.is_constant = true
    · simp only [he, hs, Bool.true_eq_false, if_false, hl, typing_result_success,
        resolve_value_assignment_end, if_true, hn1, hi, hp, hc]
    · simp only [he, hs, Bool.true_eq_false, if_false, hl, typing_result_success,
        resolve_value_assignment_end, if_true, hn1, hi, hp, hc, Bool.false_eq_true]

/-! ## Files of one statement -/

theorem parser_parse_file_one_statement (parser : rouleaux_parser_t) (ts ts1 : List token)
    (eof : token) (fuel : Nat) (a : ast_node)
    (hd : parser.done = false) (hy : lexer_yields parser.lexer ts)
    (h1 : parses (parser_parse_statement (fuel + 2)) parser ts (parse_result_success a)
      (eof :: ts1))
    (he : eof.type = TOKEN_EOF) :
    ∃ parser1, parser_parse_file (fuel + 2) parser
      = some (parse_result_success (many_node AST_SCOPE
          (node_list.cons a (node_list.cons (leaf_node AST_EOF token_zero) node_list.nil))),
        parser1) := by
  obtain ⟨l1, hy1, e1⟩ := parse_file_loop_step parser parser.lexer node_list_create ts
    (eof :: ts1) (fuel + 2) (fuel + 1) (parse_result_success a) hd hy h1 rfl
  obtain ⟨p2, e2⟩ := parse_file_loop_eof parser l1 (node_list_push_back node_list_create a)
    eof ts1 (fuel + 1) fuel hy1 he
  refine ⟨p2, ?_⟩
  have e1a : parse_file_loop (fuel + 2) (fuel + 2) parser node_list_create
      = parse_file_loop (fuel + 2) (fuel + 1) { parser with lexer := l1 }
          (node_list_push_back node_list_create a) := e1
  rw [parser_parse_file, e1a]
  exact e2

theorem resolve_scope_first_fails (mem : List Nat) (fuel : Nat) (first first1 : ast_node)
    (rest : node_list) (table table1 : symbol_table) (result : typing_result)
    (h : resolve_types mem fuel first table = some (result, first1, table1))
    (hf : result.success = false) :
    resolve_types mem (fuel + 2) (many_node AST_SCOPE (node_list.cons first rest)) table
      = some (result, many_node AST_SCOPE (node_list.cons first1 rest), table1) := by
  simp only [many_node]
  rw [resolve_types, resolve_types_children]
  simp only [h, hf, if_true]

theorem resolve_scope_first_none (mem : List Nat) (fuel : Nat) (first : ast_node)
    (rest : node_list) (table : symbol_table)
    (h : resolve_types mem fuel first table = none) :
    resolve_types mem (fuel + 2) (many_node AST_SCOPE (node_list.cons first rest)) table
      = none := by
  simp only [many_node]
  rw [resolve_types, resolve_types_children]
  simp only [h]

theorem undeclared_assignment_file_parses :
    ∃ parser1, parser_parse_file 4 (parser_create "f" (bytes "x = 1;"))
      = some (parse_result_success undeclared_assignment_file, parser1) := by
  have hr : lexer_next_tokens 5 (parser_create "f" (bytes "x = 1;")).lexer
      = some ([source_token "f" TOKEN_IDENTIFIER 0 1 1 1 token_value.zero,
               source_token "f" TOKEN_EQUALS 2 1 1 3 token_value.zero,
               source_token "f" TOKEN_INTEGER_LITERAL 4 1 1 5 (token_value.unsigned64 1),
               source_token "f" TOKEN_SEMICOLON 5 1 1 6 token_value.zero,
               source_token "f" TOKEN_EOF 6 0 1 7 token_value.zero],
          { (parser_create "f" (bytes "x = 1;")).lexer with
              head := 6, current_column := 7 }) := by
    decide
  have hy : lexer_yields (parser_create "f" (bytes "x = 1;")).lexer
      [source_token "f" TOKEN_IDENTIFIER 0 1 1 1 token_value.zero,
       source_token "f" TOKEN_EQUALS 2 1 1 3 token_value.zero,
       source_token "f" TOKEN_INTEGER_LITERAL 4 1 1 5 (token_value.unsigned64 1),
       source_token "f" TOKEN_SEMICOLON 5 1 1 6 token_value.zero,
       source_token "f" TOKEN_EOF 6 0 1 7 token_value.zero] :=
    ⟨by decide, _, hr⟩
  have h1 : parses (parser_parse_statement 4) (parser_create "f" (bytes "x = 1;"))
      [source_token "f" TOKEN_IDENTIFIER 0 1 1 1 token_value.zero,
       source_token "f" TOKEN_EQUALS 2 1 1 3 token_value.zero,
       source_token "f" TOKEN_INTEGER_LITERAL 4 1 1 5 (token_value.unsigned64 1),
       source_token "f" TOKEN_SEMICOLON 5 1 1 6 token_value.zero,
       source_token "f" TOKEN_EOF 6 0 1 7 token_value.zero]
      (parse_result_success (binary_node AST_VALUE_ASSIGNMENT
        (source_token "f" TOKEN_EQUALS 2 1 1 3 token_value.zero)
        (leaf_node AST_IDENTIFIER
          (source_token "f" TOKEN_IDENTIFIER 0 1 1 1 token_value.zero))
        (leaf_node AST_INTEGER_LITERAL
          (source_token "f" TOKEN_INTEGER_LITERAL 4 1 1 5 (token_value.unsigned64 1)))))
      [source_token "f" TOKEN_EOF 6 0 1 7 token_value.zero] :=
    statement_identifier_first _ _ _ _ _ 3 (by decide)
      (value_assignment_tokens _ _ _
        (source_token "f" TOKEN_SEMICOLON 5 1 1 6 token_value.zero) _ _
        (parse_result_success (leaf_node AST_INTEGER_LITERAL
          (source_token "f" TOKEN_INTEGER_LITERAL 4 1 1 5 (token_value.unsigned64 1))))
        2 (by decide) (by decide) rfl
        (parses_primary_last _ _ _ _ AST_INTEGER_LITERAL 0 (by decide) (by decide) (by decide)))
  obtain ⟨p1, hp⟩ := parser_parse_file_one_statement _ _ [] _ 2 _ rfl hy h1 (by decide)
  exact ⟨p1, hp⟩


theorem builtin_assignment_file_parses :
    ∃ parser1, parser_parse_file 4 (parser_create "f" (bytes "int = 1;"))
      = some (parse_result_success builtin_assignment_file, parser1) := by
  have hr : lexer_next_tokens 5 (parser_create "f" (bytes "int = 1;")).lexer
      = some ([source_token "f" TOKEN_IDENTIFIER 0 3 1 1 token_value.zero,
               source_token "f" TOKEN_EQUALS 4 1 1 5 token_value.zero,
               source_token "f" TOKEN_INTEGER_LITERAL 6 1 1 7 (token_value.unsigned64 1),
               source_token "f" TOKEN_SEMICOLON 7 1 1 8 token_value.zero,
               source_token "f" TOKEN_EOF 8 0 1 9 token_value.zero],
          { (parser_create "f" (bytes "int = 1;")).lexer with
              head := 8, current_column := 9 }) := by
    decide
  have hy : lexer_yields (parser_create "f" (bytes "int = 1;")).lexer
      [source_token "f" TOKEN_IDENTIFIER 0 3 1 1 token_value.zero,
       source_token "f" TOKEN_EQUALS 4 1 1 5 token_value.zero,
       source_token "f" TOKEN_INTEGER_LITERAL 6 1 1 7 (token_value.unsigned64 1),
       source_token "f" TOKEN_SEMICOLON 7 1 1 8 token_value.zero,
       source_token "f" TOKEN_EOF 8 0 1 9 token_value.zero] :=
    ⟨by decide, _, hr⟩
  have h1 : parses (parser_parse_statement 4) (parser_create "f" (bytes "int = 1;"))
      [source_token "f" TOKEN_IDENTIFIER 0 3 1 1 token_value.zero,
       source_token "f" TOKEN_EQUALS 4 1 1 5 token_value.zero,
       source_token "f" TOKEN_INTEGER_LITERAL 6 1 1 7 (token_value.unsigned64 1),
       source_token "f" TOKEN_SEMICOLON 7 1 1 8 token_value.zero,
       source_token "f" TOKEN_EOF 8 0 1 9 token_value.zero]
      (parse_result_success (binary_node AST_VALUE_ASSIGNMENT
        (source_token "f" TOKEN_EQUALS 4 1 1 5 token_value.zero)
        (leaf_node AST_IDENTIFIER
          (source_token "f" TOKEN_IDENTIFIER 0 3 1 1 token_value.zero))
        (leaf_node AST_INTEGER_LITERAL
          (source_token "f" TOKEN_INTEGER_LITERAL 6 1 1 7 (token_value.unsigned64 1)))))
      [source_token "f" TOKEN_EOF 8 0 1 9 token_value.zero] :=
    statement_identifier_first _ _ _ _ _ 3 (by decide)
      (value_assignment_tokens _ _ _
        (source_token "f" TOKEN_SEMICOLON 7 1 1 8 token_value.zero) _ _
        (parse_result_success (leaf_node AST_INTEGER_LITERAL
          (source_token "f" TOKEN_INTEGER_LITERAL 6 1 1 7 (token_value.unsigned64 1))))
        2 (by decide) (by decide) rfl
        (parses_primary_last _ _ _ _ AST_INTEGER_LITERAL 0 (by decide) (by decide) (by decide)))
  obtain ⟨p1, hp⟩ := parser_parse_file_one_statement _ _ [] _ 2 _ rfl hy h1 (by decide)
  exact ⟨p1, hp⟩

/-! ## Expressions leave the symbol table as it is -/

theorem is_expression_node (type : ast_node_type) (t : token) (c0 c1 c2 : ast_node)
    (children : node_list) (parens : Bool) :
    is_expression (ast_node.node type t c0 c1 c2 children parens)
      = if type = AST_INTEGER_LITERAL ∨ type = AST_FLOAT_LITERAL ∨ type = AST_STRING_LITERAL ∨
            type = AST_IDENTIFIER then true
        else if is_binary_operator type then is_expression c0 && is_expression c1
        else if type = AST_FUNCTION_CALL then
          is_expression c0 &&
            (match c1 with
             | ast_node.null => false
             | ast_node.node _ _ _ _ _ arguments _ => all_expressions arguments)
        else false := by
  rw [is_expression.eq_def]

theorem all_expressions_cons (first : ast_node) (rest : node_list) :
    all_expressions (node_list.cons first rest)
      = (is_expression first && all_expressions rest) := by
  rw [all_expressions.eq_def]

theorem resolve_identifier_table (mem : List Nat) (ast : ast_node) (table table1 : symbol_table)
    (r : typing_result) (ast1 : ast_node)
    (h : resolve_identifier mem ast table = some (r, ast1, table1)) : table1 = table := by
  unfold resolve_identifier at h
  repeat' split at h
  all_goals (cases h <;> rfl)

theorem resolve_operator_node (mem : List Nat) (fuel : Nat) (table : symbol_table)
    (type : ast_node_type) (t : token) (l r c2 : ast_node) (children : node_list)
    (parens : Bool) (hb : is_binary_operator type = true) :
    resolve_types mem (fuel + 1) (ast_node.node type t l r c2 children parens) table
      = match resolve_types mem fuel l table with
        | none => none
        | some (left_result, left, table1) =>
          if left_result.success = false then
            some (left_result, ast_node.node type t left r c2 children parens, table1)
          else
            match resolve_types mem fuel r table1 with
            | none => none
            | some (right_result, right, table2) =>
              if right_result.success = false then
                some (right_result, ast_node.node type t left right c2 children parens, table2)
              else if left_result.type = right_result.type then
                some (typing_result_success left_result.type,
                  ast_node.node type t left right c2 children parens, table2)
              else
                some (typing_result_error t "Left and right operand types do not match!",
                  ast_node.node type t left right c2 children parens, table2) := by
  cases type <;> simp [is_binary_operator] at hb <;> (rw [resolve_types]; try rfl)

theorem resolve_expression_table (mem : List Nat) :
    ∀ fuel : Nat,
      (∀ e table r e1 table1, is_expression e = true →
        resolve_types mem fuel e table = some (r, e1, table1) → table1 = table) ∧
      (∀ declared passed table early passed1 table1, all_expressions passed = true →
        resolve_call_parameters mem fuel declared passed table = some (early, passed1, table1) →
        table1 = table) := by
  intro fuel
  induction fuel with
  | zero =>
    exact ⟨fun e table r e1 table1 _ h => by simp [resolve_types] at h,
      fun declared passed table early passed1 table1 _ h => by
        simp [resolve_call_parameters] at h⟩
  | succ fuel ih =>
    obtain ⟨ih1, ih2⟩ := ih
    constructor
    · intro e table r e1 table1 he h
      cases e with
      | null => rw [is_expression.eq_def] at he; cases he
      | node type t c0 c1 c2 children parens =>
        by_cases hb : is_binary_operator type = true
        · have hne : ¬ (type = AST_INTEGER_LITERAL ∨ type = AST_FLOAT_LITERAL ∨
              type = AST_STRING_LITERAL ∨ type = AST_IDENTIFIER) := by
            intro hh
            rcases hh with hh | hh | hh | hh <;> (rw [hh] at hb; exact absurd hb (by decide))
          rw [is_expression_node] at he
          simp only [hne, if_false, hb, if_true, Bool.and_eq_true] at he
          rw [resolve_operator_node mem fuel table type t c0 c1 c2 children parens hb] at h
          cases hl : resolve_types mem fuel c0 table with
          | none => simp [hl] at h
          | some x =>
            obtain ⟨lr, l1, tl⟩ := x
            have e1 : tl = table := ih1 _ _ _ _ _ he.1 hl
            subst e1
            simp only [hl] at h
            split at h
            · cases h; rfl
            · cases hr : resolve_types mem fuel c1 tl with
              | none => simp [hr] at h
              | some y =>
                obtain ⟨rr, r1, tr⟩ := y
                have e2 : tr = tl := ih1 _ _ _ _ _ he.2 hr
                subst e2
                simp only [hr] at h
                repeat' split at h
                all_goals (cases h; rfl)
        · have hb1 : is_binary_operator type = false := by simpa using hb
          by_cases hleaf : type = AST_INTEGER_LITERAL ∨ type = AST_FLOAT_LITERAL ∨
              type = AST_STRING_LITERAL ∨ type = AST_IDENTIFIER
          · rcases hleaf with hh | hh | hh | hh <;> (subst hh; rw [resolve_types] at h)
            · cases h; rfl
            · cases h; rfl
            · cases h; rfl
            · exact resolve_identifier_table mem _ _ _ _ _ h
          · by_cases hc : type = AST_FUNCTION_CALL
            · subst hc
              cases c1 with
              | null =>
                rw [is_expression_node] at he
                simp [hleaf, hb1] at he
              | node atype atoken a0 a1 a2 arguments aparens =>
                rw [is_expression_node] at he
                simp only [hleaf, if_false, hb1, Bool.false_eq_true, if_true,
                  Bool.and_eq_true] at he
                have hp : ∀ declared passed early passed1 table2,
                    some arguments = some passed →
                    resolve_call_parameters mem fuel declared passed table
                      = some (early, passed1, table2) → table2 = table :=
                  fun declared passed early passed1 table2 hs hh => by
                    cases hs
                    exact ih2 _ _ _ _ _ _ he.2 hh
                rw [resolve_types] at h
                cases hl : resolve_types mem fuel c0 table with
                | none => simp [hl] at h
                | some x =>
                  obtain ⟨lr, l1, tl⟩ := x
                  have e1 : tl = table := ih1 _ _ _ _ _ he.1 hl
                  subst e1
                  simp only [hl, children_of] at h
                  repeat' split at h
                  all_goals first
                    | (cases h; done)
                    | (cases h; rfl)
                    | (cases h; apply hp <;> assumption)
            · rw [is_expression_node] at he
              simp [hleaf, hb1, hc] at he
    · intro declared passed table early passed1 table1 he h
      cases declared with
      | nil =>
        rw [resolve_call_parameters] at h
        cases h; rfl
      | cons param declared =>
        cases passed with
        | nil => rw [resolve_call_parameters] at h; cases h
        | cons first rest =>
          rw [all_expressions_cons] at he
          simp only [Bool.and_eq_true] at he
          rw [resolve_call_parameters] at h
          cases hl : resolve_types mem fuel first table with
          | none => simp [hl] at h
          | some x =>
            obtain ⟨pr, p1, t1⟩ := x
            have e1 : t1 = table := ih1 _ _ _ _ _ he.1 hl
            subst e1
            have hp : ∀ early passed1 table2,
                resolve_call_parameters mem fuel declared rest t1
                  = some (early, passed1, table2) → table2 = t1 :=
              fun early passed1 table2 hh => ih2 _ _ _ _ _ _ he.2 hh
            simp only [hl] at h
            repeat' split at h
            all_goals first
              | (cases h; done)
              | (cases h; rfl)
              | (cases h; apply hp; assumption)

/-- C24 (assignment to an undeclared name).  Let the right-hand side resolve
successfully, leaving the table `table1` in which the name is absent.  Then
`resolve_types` on `VALUE_ASSIGN(IDENTIFIER name, e)` fails with the message
"Undeclared symbol '<name>'", the offending token is the identifier itself,
and the table is `table1`: the assignment changes nothing in it.  Where the
right-hand side is an expression (literals, identifiers, operators, calls: all
the parser makes on the right of `name =`), `table1` is the table before the
call, so the table is unchanged. -/
theorem assignment_to_undeclared_name (mem : List Nat) (fuel : Nat)
    (table table1 : symbol_table) (eq name : token) (e e1 : ast_node) (result : typing_result)
    (he : resolve_types mem fuel e table = some (result, e1, table1))
    (hs : result.success = true)
    (hn : symbol_table_find mem table1 name = some none) :
    resolve_types mem (fuel + 1)
        (binary_node AST_VALUE_ASSIGNMENT eq (leaf_node AST_IDENTIFIER name) e) table
      = some (typing_result_error name ("Undeclared symbol '" ++ printable mem name ++ "'"),
          binary_node AST_VALUE_ASSIGNMENT eq (leaf_node AST_IDENTIFIER name) e1, table1) ∧
    (is_expression e = true → table1 = table) :=
  ⟨resolve_assignment_undeclared mem fuel table table1 eq name e e1 result he hs hn,
    fun hx => (resolve_expression_table mem fuel).1 e table result e1 table1 hx he⟩

theorem assignment_to_undeclared_name_witness :
    (∃ parser1, parser_parse_file 4 (parser_create "f" (bytes "x = 1;"))
      = some (parse_result_success undeclared_assignment_file, parser1)) ∧
    (∃ tree, resolve_types (bytes "x = 1;") 4 undeclared_assignment_file fresh_symbol_table
      = some (typing_result_error
          (source_token "f" TOKEN_IDENTIFIER 0 1 1 1 token_value.zero)
          "Undeclared symbol 'x'", tree, fresh_symbol_table)) := by
  have h := resolve_scope_first_fails (bytes "x = 1;") 2 _ _
    (node_list.cons (leaf_node AST_EOF token_zero) node_list.nil) _ _ _
    (assignment_to_undeclared_name (bytes "x = 1;") 1 fresh_symbol_table fresh_symbol_table
      (source_token "f" TOKEN_EQUALS 2 1 1 3 token_value.zero)
      (source_token "f" TOKEN_IDENTIFIER 0 1 1 1 token_value.zero)
      (leaf_node AST_INTEGER_LITERAL
        (source_token "f" TOKEN_INTEGER_LITERAL 4 1 1 5 (token_value.unsigned64 1)))
      _ (typing_result_success TYPE_INFO_INTEGER) rfl rfl rfl).1
    rfl
  exact ⟨undeclared_assignment_file_parses, _, h⟩

/-- C23 (assignment to an existing variable).  Let the right-hand side resolve
successfully, leaving the table `table1` in which the name is the symbol
`sym`.  `resolve_types` on `VALUE_ASSIGN(IDENTIFIER name, e)` succeeds exactly
when `sym` is not constant and its type is the type of `e`; the result type
is then that type and the table is `table1`, unchanged by the assignment
(and `table1` is the table before the call where the right-hand side is an
expression, as the parser makes every one of them).  A type that differs
is an error at the name.  For a constant the error message holds the location
of the original declaration: where the symbol has one the call returns the
error, and where the `filename` of the symbol is the null pointer (the
built-ins `int` and `float`) `location_printable_text` dereferences it and the
call has no result. -/
theorem assignment_to_existing_variable (mem : List Nat) (fuel : Nat)
    (table table1 : symbol_table) (eq name : token) (e e1 : ast_node) (result : typing_result)
    (i : Nat) (sym : symbol)
    (he : resolve_types mem fuel e table = some (result, e1, table1))
    (hs : result.success = true)
    (hn : symbol_table_find mem table1 name = some (some i))
    (hi : table1.buffer[i]? = some sym) :
    (resolve_types mem (fuel + 1)
        (binary_node AST_VALUE_ASSIGNMENT eq (leaf_node AST_IDENTIFIER name) e) table
      = if sym.is_constant = true then
          match location_printable_text sym.t.location with
          | none => none
          | some orig_location =>
            some (typing_result_error { name with typing_information := sym.type }
              ("Cannot assign to variable '" ++ printable mem name ++
                "' because it was defined as a constant. Original declaration was made " ++
                "here [" ++ orig_location ++ "]"),
              binary_node AST_VALUE_ASSIGNMENT eq
                (leaf_node AST_IDENTIFIER { name with typing_information := sym.type }) e1,
              table1)
        else if sym.type ≠ result.type then
          some (typing_result_error { name with typing_information := sym.type }
            ("Type mismatch: the type of '" ++ printable mem name ++
              "' does not match that of the assigned expression."),
            binary_node AST_VALUE_ASSIGNMENT eq
              (leaf_node AST_IDENTIFIER { name with typing_information := sym.type }) e1,
            table1)
        else
          some (typing_result_success sym.type,
            binary_node AST_VALUE_ASSIGNMENT { eq with typing_information := sym.type }
              (leaf_node AST_IDENTIFIER { name with typing_information := sym.type }) e1,
            table1)) ∧
    (is_expression e = true → table1 = table) :=
  ⟨resolve_assignment_declared mem fuel table table1 eq name e e1 result i sym he hs hn hi,
    fun hx => (resolve_expression_table mem fuel).1 e table result e1 table1 hx he⟩

theorem assignment_to_existing_variable_witness :
    (∃ tree,
      resolve_types (bytes "x : int = 1; x = 2;") 2
        (binary_node AST_VALUE_ASSIGNMENT
          (source_token "f" TOKEN_EQUALS 15 1 1 16 token_value.zero)
          (leaf_node AST_IDENTIFIER
            (source_token "f" TOKEN_IDENTIFIER 13 1 1 14 token_value.zero))
          (leaf_node AST_INTEGER_LITERAL
            (source_token "f" TOKEN_INTEGER_LITERAL 17 1 1 18 (token_value.unsigned64 2))))
        (with_variable fresh_symbol_table
          (source_token "f" TOKEN_IDENTIFIER 0 1 1 1 token_value.zero) TYPE_INFO_INTEGER)
      = some (typing_result_success TYPE_INFO_INTEGER, tree,
          with_variable fresh_symbol_table
            (source_token "f" TOKEN_IDENTIFIER 0 1 1 1 token_value.zero) TYPE_INFO_INTEGER)) ∧
    resolve_types (bytes "int = 1;") 2
        (binary_node AST_VALUE_ASSIGNMENT
          (source_token "f" TOKEN_EQUALS 4 1 1 5 token_value.zero)
          (leaf_node AST_IDENTIFIER
            (source_token "f" TOKEN_IDENTIFIER 0 3 1 1 token_value.zero))
          (leaf_node AST_INTEGER_LITERAL
            (source_token "f" TOKEN_INTEGER_LITERAL 6 1 1 7 (token_value.unsigned64 1))))
        fresh_symbol_table
      = none :=
  ⟨⟨_, (assignment_to_existing_variable (bytes "x : int = 1; x = 2;") 1
      (with_variable fresh_symbol_table
        (source_token "f" TOKEN_IDENTIFIER 0 1 1 1 token_value.zero) TYPE_INFO_INTEGER) _
      (source_token "f" TOKEN_EQUALS 15 1 1 16 token_value.zero)
      (source_token "f" TOKEN_IDENTIFIER 13 1 1 14 token_value.zero)
      (leaf_node AST_INTEGER_LITERAL
        (source_token "f" TOKEN_INTEGER_LITERAL 17 1 1 18 (token_value.unsigned64 2)))
      _ (typing_result_success TYPE_INFO_INTEGER) 2
      { t := source_token "f" TOKEN_IDENTIFIER 0 1 1 1 token_value.zero,
        type := TYPE_INFO_INTEGER, is_constant := false, function_decl_node := none }
      rfl rfl rfl rfl).1⟩,
    (assignment_to_existing_variable (bytes "int = 1;") 1 fresh_symbol_table _
      (source_token "f" TOKEN_EQUALS 4 1 1 5 token_value.zero)
      (source_token "f" TOKEN_IDENTIFIER 0 3 1 1 token_value.zero)
      (leaf_node AST_INTEGER_LITERAL
        (source_token "f" TOKEN_INTEGER_LITERAL 6 1 1 7 (token_value.unsigned64 1)))
      _ (typing_result_success TYPE_INFO_INTEGER) 1 builtin_int rfl rfl rfl rfl).1⟩

theorem builtin_assignment_not_resolved (fuel : Nat) :
    resolve_types (bytes "int = 1;") fuel builtin_assignment_file fresh_symbol_table = none := by
  match fuel with
  | 0 | 1 | 2 | 3 => rfl
  | n + 4 =>
    have h := resolve_assignment_declared (bytes "int = 1;") (n + 1) fresh_symbol_table
      fresh_symbol_table
      (source_token "f" TOKEN_EQUALS 4 1 1 5 token_value.zero)
      (source_token "f" TOKEN_IDENTIFIER 0 3 1 1 token_value.zero)
      (leaf_node AST_INTEGER_LITERAL
        (source_token "f" TOKEN_INTEGER_LITERAL 6 1 1 7 (token_value.unsigned64 1)))
      _ (typing_result_success TYPE_INFO_INTEGER) 1 builtin_int
      (resolve_types_integer_literal _ n _ _) rfl rfl rfl
    exact resolve_scope_first_none (bytes "int = 1;") (n + 2) _ _ _ h

/-! ## Declarations that fail -/

theorem strncmp_eq_take : ∀ (xs ys : List Nat) (n : Nat),
    strncmp_eq xs (ys.take n) n = strncmp_eq xs ys n
  | _, _, 0 => by simp [strncmp_eq]
  | [], _, n + 1 => by simp [strncmp_eq]
  | _ :: _, [], n + 1 => by simp
  | x :: xs, y :: ys, n + 1 => by
    simp only [List.take_succ_cons]
    rw [strncmp_eq, strncmp_eq, strncmp_eq_take xs ys n]

theorem symbol_table_find_from_same_name (mem : List Nat) (table : symbol_table) (a b : token)
    (h : same_name mem a b) :
    ∀ (n i : Nat), symbol_table_find_from mem table a n i = symbol_table_find_from mem table b n i
  | 0, _ => by simp [symbol_table_find_from]
  | n + 1, i => by
    have hc : ∀ xs, strncmp_eq xs (deref mem a.text) a.length
        = strncmp_eq xs (deref mem b.text) b.length := by
      intro xs
      rw [← strncmp_eq_take xs (deref mem a.text), ← strncmp_eq_take xs (deref mem b.text)]
      have h2 := h.2
      simp only [token_text] at h2
      rw [h2, h.1]
    rw [symbol_table_find_from, symbol_table_find_from,
      symbol_table_find_from_same_name mem table a b h n (i + 1)]
    cases table.buffer[i]? with
    | none => rfl
    | some s =>
      have hc1 := hc
      rw [h.1] at hc1
      simp only [h.1, hc1]

theorem symbol_table_find_same_name (mem : List Nat) (table : symbol_table) (a b : token)
    (h : same_name mem a b) : symbol_table_find mem table a = symbol_table_find mem table b :=
  symbol_table_find_from_same_name mem table a b h _ _

theorem resolve_declaration_right_fails (mem : List Nat) (fuel : Nat)
    (table table1 : symbol_table) (type : ast_node_type) (op : token) (left e e1 : ast_node)
    (result : typing_result)
    (hd : type = AST_CONST_ASSIGNMENT ∨ type = AST_VALUE_ASSIGNMENT)
    (he : resolve_types mem fuel e table = some (result, e1, table1))
    (hf : result.success = false) :
    resolve_types mem (fuel + 1) (binary_node type op left e) table
      = some (result, binary_node type op left e1, table1) := by
  simp only [binary_node]
  rcases hd with ht | ht
  · subst ht
    rw [resolve_types]
    simp only [he, hf, if_true]
  · subst ht
    rw [resolve_types]
    simp only [he, hf, if_true]

theorem resolve_operator_left_fails (mem : List Nat) (fuel : Nat)
    (table table1 : symbol_table) (type : ast_node_type) (t : token) (l l1 r : ast_node)
    (result : typing_result)
    (hb : is_binary_operator type = true)
    (hl : resolve_types mem fuel l table = some (result, l1, table1))
    (hf : result.success = false) :
    resolve_types mem (fuel + 1) (binary_node type t l r) table
      = some (result, binary_node type t l1 r, table1) := by
  simp only [binary_node]
  cases type <;> simp [is_binary_operator] at hb <;>
    (rw [resolve_types]; simp only [hl, hf, if_true])

theorem resolve_self_reference (mem : List Nat) (fuel : Nat) (table : symbol_table)
    (type optype : ast_node_type) (op opt use : token) (left e : ast_node)
    (hd : type = AST_CONST_ASSIGNMENT ∨ type = AST_VALUE_ASSIGNMENT)
    (hb : is_binary_operator optype = true)
    (hn : symbol_table_find mem table use = some none) :
    resolve_types mem (fuel + 2) (binary_node type op left (leaf_node AST_IDENTIFIER use)) table
      = some (typing_result_error use ("Undeclared symbol '" ++ printable mem use ++ "'"),
          binary_node type op left (leaf_node AST_IDENTIFIER use), table) ∧
    resolve_types mem (fuel + 3)
        (binary_node type op left (binary_node optype opt (leaf_node AST_IDENTIFIER use) e))
        table
      = some (typing_result_error use ("Undeclared symbol '" ++ printable mem use ++ "'"),
          binary_node type op left (binary_node optype opt (leaf_node AST_IDENTIFIER use) e),
          table) := by
  have hu : ∀ k, resolve_types mem (k + 1) (leaf_node AST_IDENTIFIER use) table
      = some (typing_result_error use ("Undeclared symbol '" ++ printable mem use ++ "'"),
          leaf_node AST_IDENTIFIER use, table) := by
    intro k
    rw [resolve_types_identifier]
    simp only [leaf_node]
    exact resolve_identifier_absent mem _ _ _ _ _ _ _ _ hn
  constructor
  · exact resolve_declaration_right_fails mem (fuel + 1) table table type op left _ _ _ hd
      (hu fuel) rfl
  · exact resolve_declaration_right_fails mem (fuel + 2) table table type op left _ _ _ hd
      (resolve_operator_left_fails mem (fuel + 1) table table optype opt _ _ e _ hb (hu fuel)
        rfl) rfl

/-- C27 (a declaration cannot use the name it declares).  Let the name be
absent from the table.  Resolving a declaration of the name, `CONST_ASSIGN` or
`VALUE_ASSIGN` over `TYPE_ASSIGN(name, ...)` (with a type or without), whose
initializer is an identifier `use` of the same name, or `use op e` for a
binary operator `op`, fails with "Undeclared symbol '<name>'" at `use`, and
the table is unchanged: the right child is resolved before the left, and the
name is not added. -/
theorem self_reference_is_undeclared (mem : List Nat) (fuel : Nat) (table : symbol_table)
    (type optype : ast_node_type) (op colon name opt use : token) (type_node e : ast_node)
    (hd : type = AST_CONST_ASSIGNMENT ∨ type = AST_VALUE_ASSIGNMENT)
    (hb : is_binary_operator optype = true)
    (hn : symbol_table_find mem table name = some none)
    (hsame : same_name mem name use) :
    resolve_types mem (fuel + 2)
        (binary_node type op
          (binary_node AST_TYPE_ASSIGNMENT colon (leaf_node AST_IDENTIFIER name) type_node)
          (leaf_node AST_IDENTIFIER use)) table
      = some (typing_result_error use ("Undeclared symbol '" ++ printable mem use ++ "'"),
          binary_node type op
            (binary_node AST_TYPE_ASSIGNMENT colon (leaf_node AST_IDENTIFIER name) type_node)
            (leaf_node AST_IDENTIFIER use), table) ∧
    resolve_types mem (fuel + 3)
        (binary_node type op
          (binary_node AST_TYPE_ASSIGNMENT colon (leaf_node AST_IDENTIFIER name) type_node)
          (binary_node optype opt (leaf_node AST_IDENTIFIER use) e)) table
      = some (typing_result_error use ("Undeclared symbol '" ++ printable mem use ++ "'"),
          binary_node type op
            (binary_node AST_TYPE_ASSIGNMENT colon (leaf_node AST_IDENTIFIER name) type_node)
            (binary_node optype opt (leaf_node AST_IDENTIFIER use) e), table) :=
  resolve_self_reference mem fuel table type optype op opt use _ e hd hb
    (by rw [← symbol_table_find_same_name mem table name use hsame]; exact hn)

theorem self_reference_is_undeclared_witness :
    resolve_types (bytes "x :: x + 1;") 3
        (binary_node AST_CONST_ASSIGNMENT
          (source_token "f" TOKEN_COLON 3 1 1 4 token_value.zero)
          (binary_node AST_TYPE_ASSIGNMENT
            (source_token "f" TOKEN_COLON 2 1 1 3 token_value.zero)
            (leaf_node AST_IDENTIFIER
              (source_token "f" TOKEN_IDENTIFIER 0 1 1 1 token_value.zero))
            ast_node.null)
          (binary_node AST_BINARY_OPERATOR_PLUS
            (source_token "f" TOKEN_PLUS 7 1 1 8 token_value.zero)
            (leaf_node AST_IDENTIFIER
              (source_token "f" TOKEN_IDENTIFIER 5 1 1 6 token_value.zero))
            (leaf_node AST_INTEGER_LITERAL
              (source_token "f" TOKEN_INTEGER_LITERAL 9 1 1 10 (token_value.unsigned64 1)))))
        fresh_symbol_table
      = some (typing_result_error
          (source_token "f" TOKEN_IDENTIFIER 5 1 1 6 token_value.zero)
          "Undeclared symbol 'x'",
          binary_node AST_CONST_ASSIGNMENT
            (source_token "f" TOKEN_COLON 3 1 1 4 token_value.zero)
            (binary_node AST_TYPE_ASSIGNMENT
              (source_token "f" TOKEN_COLON 2 1 1 3 token_value.zero)
              (leaf_node AST_IDENTIFIER
                (source_token "f" TOKEN_IDENTIFIER 0 1 1 1 token_value.zero))
              ast_node.null)
            (binary_node AST_BINARY_OPERATOR_PLUS
              (source_token "f" TOKEN_PLUS 7 1 1 8 token_value.zero)
              (leaf_node AST_IDENTIFIER
                (source_token "f" TOKEN_IDENTIFIER 5 1 1 6 token_value.zero))
              (leaf_node AST_INTEGER_LITERAL
                (source_token "f" TOKEN_INTEGER_LITERAL 9 1 1 10 (token_value.unsigned64 1)))),
          fresh_symbol_table) :=
  (self_reference_is_undeclared (bytes "x :: x + 1;") 0 fresh_symbol_table AST_CONST_ASSIGNMENT
    AST_BINARY_OPERATOR_PLUS
    (source_token "f" TOKEN_COLON 3 1 1 4 token_value.zero)
    (source_token "f" TOKEN_COLON 2 1 1 3 token_value.zero)
    (source_token "f" TOKEN_IDENTIFIER 0 1 1 1 token_value.zero)
    (source_token "f" TOKEN_PLUS 7 1 1 8 token_value.zero)
    (source_token "f" TOKEN_IDENTIFIER 5 1 1 6 token_value.zero)
    ast_node.null
    (leaf_node AST_INTEGER_LITERAL
      (source_token "f" TOKEN_INTEGER_LITERAL 9 1 1 10 (token_value.unsigned64 1)))
    (Or.inl rfl) rfl rfl (by decide)).2

theorem resolve_typed_constant (mem : List Nat) (fuel : Nat) (table table1 : symbol_table)
    (name type colon op : token) (e e1 : ast_node) (result : typing_result) (i : Nat)
    (sym : symbol)
    (he : resolve_types mem fuel e table = some (result, e1, table1))
    (hs : result.success = true)
    (hT : symbol_table_find mem table1 type = some (some i))
    (hi : table1.buffer[i]? = some sym)
    (hu : sym.type ≠ TYPE_INFO_UNKNOWN)
    (hn : symbol_table_find mem table1 name = some none)
    (hop : symbol_table_find mem (with_variable table1 name sym.type) op = some none) :
    resolve_types mem (fuel + 1)
        (binary_node AST_CONST_ASSIGNMENT op
          (binary_node AST_TYPE_ASSIGNMENT colon (leaf_node AST_IDENTIFIER name)
            (leaf_node AST_IDENTIFIER type)) e) table
      = if symbol_table_add_reallocates table1 then none
        else some (typing_result_error op ("Undeclared symbol '" ++ printable mem op ++ "'"),
          binary_node AST_CONST_ASSIGNMENT op
            (binary_node AST_TYPE_ASSIGNMENT { colon with typing_information := sym.type }
              (leaf_node AST_IDENTIFIER { name with typing_information := sym.type })
              (leaf_node AST_IDENTIFIER type)) e1,
          with_variable table1 name sym.type) := by
  cases fuel with
  | zero => simp [resolve_types] at he
  | succ fuel =>
    have hl := resolve_type_assignment_known mem table1 name type colon i sym hT hi hn
    simp only [binary_node, leaf_node] at hl ⊢
    rw [resolve_types]
    simp only [he, hs, Bool.true_eq_false, if_false]
    rw [resolve_types]
    simp only [hl]
    cases hr : symbol_table_add_reallocates table1 with
    | true => simp
    | false =>
      simp only [Bool.false_eq_true, if_false, typing_result_success,
        resolve_const_assignment_end, ne_eq, not_true_eq_false, hu]
      exact resolve_identifier_absent mem _ _ _ _ _ _ _ _ hop

/-- C22 (constant binding with an explicit type), where the code fails it.
Let the initializer `e` resolve successfully (to whatever type), leaving the
table `table1` in which the type name is the symbol `sym` (its type not
UNKNOWN) and the name is absent; `symbol_table_add` does not reallocate and
the text of the operator token `:` names no symbol.  Then `resolve_types` on
`CONST_ASSIGN(TYPE_ASSIGN(name, type), e)` fails: the case falls through into
the case of identifiers, which looks up the token of the `CONST_ASSIGN` node
itself and reports "Undeclared symbol ':'".  The name has been added to the
table by the type assignment, with `is_constant = false`; the type of `e` is
never compared with the type named. -/
theorem typed_constant_falls_through (mem : List Nat) (fuel : Nat)
    (table table1 : symbol_table) (name type colon op : token) (e e1 : ast_node)
    (result : typing_result) (i : Nat) (sym : symbol)
    (he : resolve_types mem fuel e table = some (result, e1, table1))
    (hs : result.success = true)
    (hT : symbol_table_find mem table1 type = some (some i))
    (hi : table1.buffer[i]? = some sym)
    (hu : sym.type ≠ TYPE_INFO_UNKNOWN)
    (hn : symbol_table_find mem table1 name = some none)
    (hr : symbol_table_add_reallocates table1 = false)
    (hop : symbol_table_find mem (with_variable table1 name sym.type) op = some none) :
    resolve_types mem (fuel + 1)
        (binary_node AST_CONST_ASSIGNMENT op
          (binary_node AST_TYPE_ASSIGNMENT colon (leaf_node AST_IDENTIFIER name)
            (leaf_node AST_IDENTIFIER type)) e) table
      = some (typing_result_error op ("Undeclared symbol '" ++ printable mem op ++ "'"),
          binary_node AST_CONST_ASSIGNMENT op
            (binary_node AST_TYPE_ASSIGNMENT { colon with typing_information := sym.type }
              (leaf_node AST_IDENTIFIER { name with typing_information := sym.type })
              (leaf_node AST_IDENTIFIER type)) e1,
          with_variable table1 name sym.type) := by
  have h := resolve_typed_constant mem fuel table table1 name type colon op e e1 result i sym
    he hs hT hi hu hn hop
  rw [hr] at h
  exact h

theorem typed_constant_falls_through_witness :
    ∃ tree,
      resolve_types (bytes "y : int : 1;") 2 typed_constant_declaration fresh_symbol_table
        = some (typing_result_error
            (source_token "f" TOKEN_COLON 8 1 1 9 token_value.zero)
            "Undeclared symbol ':'", tree,
            with_variable fresh_symbol_table
              (source_token "f" TOKEN_IDENTIFIER 0 1 1 1 token_value.zero)
              TYPE_INFO_INTEGER) :=
  ⟨_, typed_constant_falls_through (bytes "y : int : 1;") 1 fresh_symbol_table _
    (source_token "f" TOKEN_IDENTIFIER 0 1 1 1 token_value.zero)
    (source_token "f" TOKEN_IDENTIFIER 4 3 1 5 token_value.zero)
    (source_token "f" TOKEN_COLON 2 1 1 3 token_value.zero)
    (source_token "f" TOKEN_COLON 8 1 1 9 token_value.zero)
    (leaf_node AST_INTEGER_LITERAL
      (source_token "f" TOKEN_INTEGER_LITERAL 10 1 1 11 (token_value.unsigned64 1)))
    _ (typing_result_success TYPE_INFO_INTEGER) 1 builtin_int rfl rfl rfl rfl (by decide) rfl
    rfl rfl⟩

theorem typed_constant_file_parses :
    ∃ parser1, parser_parse_file 5 (parser_create "f" (bytes "y : int : 1;"))
      = some (parse_result_success typed_constant_file, parser1) := by
  have hr : lexer_next_tokens 7 (parser_create "f" (bytes "y : int : 1;")).lexer
      = some ([source_token "f" TOKEN_IDENTIFIER 0 1 1 1 token_value.zero,
               source_token "f" TOKEN_COLON 2 1 1 3 token_value.zero,
               source_token "f" TOKEN_IDENTIFIER 4 3 1 5 token_value.zero,
               source_token "f" TOKEN_COLON 8 1 1 9 token_value.zero,
               source_token "f" TOKEN_INTEGER_LITERAL 10 1 1 11 (token_value.unsigned64 1),
               source_token "f" TOKEN_SEMICOLON 11 1 1 12 token_value.zero,
               source_token "f" TOKEN_EOF 12 0 1 13 token_value.zero],
          { (parser_create "f" (bytes "y : int : 1;")).lexer with
              head := 12, current_column := 13 }) := by
    decide
  have hy : lexer_yields (parser_create "f" (bytes "y : int : 1;")).lexer
      [source_token "f" TOKEN_IDENTIFIER 0 1 1 1 token_value.zero,
       source_token "f" TOKEN_COLON 2 1 1 3 token_value.zero,
       source_token "f" TOKEN_IDENTIFIER 4 3 1 5 token_value.zero,
       source_token "f" TOKEN_COLON 8 1 1 9 token_value.zero,
       source_token "f" TOKEN_INTEGER_LITERAL 10 1 1 11 (token_value.unsigned64 1),
       source_token "f" TOKEN_SEMICOLON 11 1 1 12 token_value.zero,
       source_token "f" TOKEN_EOF 12 0 1 13 token_value.zero] :=
    ⟨by decide, _, hr⟩
  have h1 : parses (parser_parse_statement 5) (parser_create "f" (bytes "y : int : 1;"))
      [source_token "f" TOKEN_IDENTIFIER 0 1 1 1 token_value.zero,
       source_token "f" TOKEN_COLON 2 1 1 3 token_value.zero,
       source_token "f" TOKEN_IDENTIFIER 4 3 1 5 token_value.zero,
       source_token "f" TOKEN_COLON 8 1 1 9 token_value.zero,
       source_token "f" TOKEN_INTEGER_LITERAL 10 1 1 11 (token_value.unsigned64 1),
       source_token "f" TOKEN_SEMICOLON 11 1 1 12 token_value.zero,
       source_token "f" TOKEN_EOF 12 0 1 13 token_value.zero]
      (parse_result_success typed_constant_declaration)
      [source_token "f" TOKEN_EOF 12 0 1 13 token_value.zero] :=
    statement_identifier_first _ _ _ _ _ 4 (by decide)
      (declaration_typed_tokens _ _ _ _ _ (source_token "f" TOKEN_SEMICOLON 11 1 1 12 token_value.zero) _ _
        (parse_result_success (leaf_node AST_INTEGER_LITERAL
          (source_token "f" TOKEN_INTEGER_LITERAL 10 1 1 11 (token_value.unsigned64 1))))
        1 AST_CONST_ASSIGNMENT (by decide) (by decide) (Or.inl ⟨by decide, rfl⟩) (by decide) rfl
        (function_or_expression_no_paren _ _ _ _ _ 2 (by decide)
          (parses_primary_last _ _ _ _ AST_INTEGER_LITERAL 0 (by decide) (by decide)
            (by decide))))
  obtain ⟨p1, hp⟩ := parser_parse_file_one_statement _ _ [] _ 3 _ rfl hy h1 (by decide)
  exact ⟨p1, hp⟩

theorem typed_constant_file_rejected (fuel : Nat) :
    ∃ tree table,
      resolve_types (bytes "y : int : 1;") (fuel + 4) typed_constant_file fresh_symbol_table
        = some (typing_result_error
            (source_token "f" TOKEN_COLON 8 1 1 9 token_value.zero)
            "Undeclared symbol ':'", tree, table) := by
  have h := resolve_typed_constant (bytes "y : int : 1;") (fuel + 1) fresh_symbol_table
    fresh_symbol_table
    (source_token "f" TOKEN_IDENTIFIER 0 1 1 1 token_value.zero)
    (source_token "f" TOKEN_IDENTIFIER 4 3 1 5 token_value.zero)
    (source_token "f" TOKEN_COLON 2 1 1 3 token_value.zero)
    (source_token "f" TOKEN_COLON 8 1 1 9 token_value.zero)
    (leaf_node AST_INTEGER_LITERAL
      (source_token "f" TOKEN_INTEGER_LITERAL 10 1 1 11 (token_value.unsigned64 1)))
    _ (typing_result_success TYPE_INFO_INTEGER) 1 builtin_int
    (resolve_types_integer_literal _ fuel _ _) rfl rfl rfl (by decide) rfl rfl
  rw [if_neg (by decide)] at h
  exact ⟨_, _, resolve_scope_first_fails (bytes "y : int : 1;") (fuel + 2) _ _ _ _ _ _ h rfl⟩

theorem resolve_type_assignment_redeclared (mem : List Nat) (table : symbol_table)
    (name type_name colon : token) (i j : Nat) (sym original : symbol)
    (hT : symbol_table_find mem table type_name = some (some i))
    (hi : table.buffer[i]? = some sym)
    (hn : symbol_table_find mem table name = some (some j))
    (hj : table.buffer[j]? = some original) :
    resolve_type_assignment mem
        (binary_node AST_TYPE_ASSIGNMENT colon (leaf_node AST_IDENTIFIER name)
          (leaf_node AST_IDENTIFIER type_name)) table
      = (location_printable_text original.t.location).map (fun text =>
          (typing_result_error name
            ("A variable with the name '" ++ printable mem name ++
              "' already exists! It was declared here [" ++ text ++ "]"),
            binary_node AST_TYPE_ASSIGNMENT colon (leaf_node AST_IDENTIFIER name)
              (leaf_node AST_IDENTIFIER type_name),
            table)) := by
  simp only [resolve_type_assignment, binary_node, leaf_node, hT, hi, hn, hj]
  cases location_printable_text original.t.location <;> rfl

theorem deduce_declaration_present (mem : List Nat) (table : symbol_table)
    (type : ast_node_type) (op colon name : token) (right : ast_node) (right_type : type_info)
    (is_constant : Bool) (j : Nat) (original : symbol)
    (hn : symbol_table_find mem table name = some (some j))
    (hj : table.buffer[j]? = some original) :
    deduce_declaration mem
        (binary_node type op
          (binary_node AST_TYPE_ASSIGNMENT colon (leaf_node AST_IDENTIFIER name) ast_node.null)
          right)
        table right_type is_constant
      = (location_printable_text original.t.location).map (fun text =>
          (typing_result_error name
            ("A variable named '" ++ printable mem name ++
              "' already exists! The original was declared here [" ++ text ++ "]"),
            binary_node type op
              (binary_node AST_TYPE_ASSIGNMENT colon (leaf_node AST_IDENTIFIER name)
                ast_node.null) right,
            table)) := by
  simp only [deduce_declaration, binary_node, leaf_node, hn, hj]
  cases location_printable_text original.t.location <;> rfl

theorem resolve_typed_redeclaration (mem : List Nat) (fuel : Nat)
    (table table1 : symbol_table) (type : ast_node_type) (op colon name type_name : token)
    (e e1 : ast_node) (result : typing_result) (i j : Nat) (sym original : symbol)
    (hd : type = AST_CONST_ASSIGNMENT ∨ type = AST_VALUE_ASSIGNMENT)
    (he : resolve_types mem fuel e table = some (result, e1, table1))
    (hs : result.success = true)
    (hT : symbol_table_find mem table1 type_name = some (some i))
    (hi : table1.buffer[i]? = some sym)
    (hn : symbol_table_find mem table1 name = some (some j))
    (hj : table1.buffer[j]? = some original) :
    resolve_types mem (fuel + 1)
        (binary_node type op
          (binary_node AST_TYPE_ASSIGNMENT colon (leaf_node AST_IDENTIFIER name)
            (leaf_node AST_IDENTIFIER type_name)) e) table
      = (location_printable_text original.t.location).map (fun text =>
          (typing_result_error name
            ("A variable with the name '" ++ printable mem name ++
              "' already exists! It was declared here [" ++ text ++ "]"),
            binary_node type op
              (binary_node AST_TYPE_ASSIGNMENT colon (leaf_node AST_IDENTIFIER name)
                (leaf_node AST_IDENTIFIER type_name)) e1,
            table1)) := by
  cases fuel with
  | zero => simp [resolve_types] at he
  | succ fuel =>
    have hl := resolve_type_assignment_redeclared mem table1 name type_name colon i j sym
      original hT hi hn hj
    simp only [binary_node, leaf_node] at hl ⊢
    rcases hd with ht | ht
    · subst ht
      rw [resolve_types]
      simp only [he, hs, Bool.true_eq_false, if_false]
      rw [resolve_types]
      simp only [hl]
      cases location_printable_text original.t.location <;>
        simp [typing_result_error]
    · subst ht
      rw [resolve_types]
      simp only [he, hs, Bool.true_eq_false, if_false]
      rw [resolve_types]
      simp only [hl]
      cases location_printable_text original.t.location <;>
        simp [typing_result_error]

theorem resolve_untyped_redeclaration (mem : List Nat) (fuel : Nat)
    (table table1 : symbol_table) (type : ast_node_type) (op colon name : token)
    (e e1 : ast_node) (result : typing_result) (j : Nat) (original : symbol)
    (hd : type = AST_CONST_ASSIGNMENT ∨ type = AST_VALUE_ASSIGNMENT)
    (he : resolve_types mem fuel e table = some (result, e1, table1))
    (hs : result.success = true)
    (hn : symbol_table_find mem table1 name = some (some j))
    (hj : table1.buffer[j]? = some original) :
    resolve_types mem (fuel + 1)
        (binary_node type op
          (binary_node AST_TYPE_ASSIGNMENT colon (leaf_node AST_IDENTIFIER name) ast_node.null)
          e) table
      = (location_printable_text original.t.location).map (fun text =>
          (typing_result_error name
            ("A variable named '" ++ printable mem name ++
              "' already exists! The original was declared here [" ++ text ++ "]"),
            binary_node type op
              (binary_node AST_TYPE_ASSIGNMENT colon (leaf_node AST_IDENTIFIER name)
                ast_node.null) e1,
            table1)) := by
  cases fuel with
  | zero => simp [resolve_types] at he
  | succ fuel =>
    have hl := resolve_types_untyped_left mem fuel colon name table1
    rcases hd with ht | ht
    · subst ht
      have hded := deduce_declaration_present mem table1 AST_CONST_ASSIGNMENT op colon name e1
        result.type true j original hn hj
      simp only [binary_node, leaf_node] at hl hded ⊢
      rw [resolve_types]
      simp only [he, hs, Bool.true_eq_false, if_false, hl, typing_result_success,
        resolve_const_assignment_end, ne_eq, not_true_eq_false, if_true]
      exact hded
    · subst ht
      have hded := deduce_declaration_present mem table1 AST_VALUE_ASSIGNMENT op colon name e1
        result.type false j original hn hj
      simp only [binary_node, leaf_node] at hl hded ⊢
      rw [resolve_types]
      simp only [he, hs, Bool.true_eq_false, if_false, hl, typing_result_success,
        resolve_value_assignment_end]
      simp only [if_true, reduceCtorEq, if_false]
      exact hded

/-- C28 (redeclaration).  Let the initializer resolve successfully, leaving
the table `table1` in which the name is already the symbol `original` (and
`type_name` names a type).  Resolving a new declaration of the name,
`CONST_ASSIGN` or `VALUE_ASSIGN`, with the explicit type
(`TYPE_ASSIGN(name, type_name)`) or with a deduced one
(`TYPE_ASSIGN(name, null)`), fails at the new identifier with a message that
holds the location of the original declaration, and the table is `table1`,
unchanged.  That is where `original` has a location: where its `filename` is
the null pointer (the built-ins `int` and `float`) `location_printable_text`
dereferences it and the call has no result. -/
theorem redeclaration_is_rejected (mem : List Nat) (fuel : Nat)
    (table table1 : symbol_table) (type : ast_node_type) (op colon name type_name : token)
    (e e1 : ast_node) (result : typing_result) (i j : Nat) (sym original : symbol)
    (hd : type = AST_CONST_ASSIGNMENT ∨ type = AST_VALUE_ASSIGNMENT)
    (he : resolve_types mem fuel e table = some (result, e1, table1))
    (hs : result.success = true)
    (hT : symbol_table_find mem table1 type_name = some (some i))
    (hi : table1.buffer[i]? = some sym)
    (hn : symbol_table_find mem table1 name = some (some j))
    (hj : table1.buffer[j]? = some original) :
    resolve_types mem (fuel + 1)
        (binary_node type op
          (binary_node AST_TYPE_ASSIGNMENT colon (leaf_node AST_IDENTIFIER name)
            (leaf_node AST_IDENTIFIER type_name)) e) table
      = (location_printable_text original.t.location).map (fun text =>
          (typing_result_error name
            ("A variable with the name '" ++ printable mem name ++
              "' already exists! It was declared here [" ++ text ++ "]"),
            binary_node type op
              (binary_node AST_TYPE_ASSIGNMENT colon (leaf_node AST_IDENTIFIER name)
                (leaf_node AST_IDENTIFIER type_name)) e1,
            table1)) ∧
    resolve_types mem (fuel + 1)
        (binary_node type op
          (binary_node AST_TYPE_ASSIGNMENT colon (leaf_node AST_IDENTIFIER name) ast_node.null)
          e) table
      = (location_printable_text original.t.location).map (fun text =>
          (typing_result_error name
            ("A variable named '" ++ printable mem name ++
              "' already exists! The original was declared here [" ++ text ++ "]"),
            binary_node type op
              (binary_node AST_TYPE_ASSIGNMENT colon (leaf_node AST_IDENTIFIER name)
                ast_node.null) e1,
            table1)) :=
  ⟨resolve_typed_redeclaration mem fuel table table1 type op colon name type_name e e1 result
      i j sym original hd he hs hT hi hn hj,
    resolve_untyped_redeclaration mem fuel table table1 type op colon name e e1 result j
      original hd he hs hn hj⟩

theorem redeclaration_is_rejected_witness :
    (∃ tree,
      resolve_types (bytes "x :: 1; x : int = 2;") 2
        (binary_node AST_VALUE_ASSIGNMENT
          (source_token "f" TOKEN_EQUALS 16 1 1 17 token_value.zero)
          (binary_node AST_TYPE_ASSIGNMENT
            (source_token "f" TOKEN_COLON 10 1 1 11 token_value.zero)
            (leaf_node AST_IDENTIFIER
              (source_token "f" TOKEN_IDENTIFIER 8 1 1 9 token_value.zero))
            (leaf_node AST_IDENTIFIER
              (source_token "f" TOKEN_IDENTIFIER 12 3 1 13 token_value.zero)))
          (leaf_node AST_INTEGER_LITERAL
            (source_token "f" TOKEN_INTEGER_LITERAL 18 1 1 19 (token_value.unsigned64 2))))
        (with_symbol fresh_symbol_table
          { t := { source_token "f" TOKEN_IDENTIFIER 0 1 1 1 token_value.zero with
              typing_information := TYPE_INFO_INTEGER },
            type := TYPE_INFO_INTEGER, is_constant := true, function_decl_node := none })
      = some (typing_result_error
          (source_token "f" TOKEN_IDENTIFIER 8 1 1 9 token_value.zero)
          "A variable with the name 'x' already exists! It was declared here [f:1:1]",
          tree,
          (with_symbol fresh_symbol_table
            { t := { source_token "f" TOKEN_IDENTIFIER 0 1 1 1 token_value.zero with
                typing_information := TYPE_INFO_INTEGER },
              type := TYPE_INFO_INTEGER, is_constant := true, function_decl_node := none }))) ∧
    resolve_types (bytes "int :: 1;") 2 builtin_redeclaration fresh_symbol_table = none :=
  ⟨⟨_, (redeclaration_is_rejected (bytes "x :: 1; x : int = 2;") 1
      (with_symbol fresh_symbol_table
        { t := { source_token "f" TOKEN_IDENTIFIER 0 1 1 1 token_value.zero with
            typing_information := TYPE_INFO_INTEGER },
          type := TYPE_INFO_INTEGER, is_constant := true, function_decl_node := none })
      _ AST_VALUE_ASSIGNMENT
      (source_token "f" TOKEN_EQUALS 16 1 1 17 token_value.zero)
      (source_token "f" TOKEN_COLON 10 1 1 11 token_value.zero)
      (source_token "f" TOKEN_IDENTIFIER 8 1 1 9 token_value.zero)
      (source_token "f" TOKEN_IDENTIFIER 12 3 1 13 token_value.zero)
      (leaf_node AST_INTEGER_LITERAL
        (source_token "f" TOKEN_INTEGER_LITERAL 18 1 1 19 (token_value.unsigned64 2)))
      _ (typing_result_success TYPE_INFO_INTEGER) 1 2 builtin_int
      { t := { source_token "f" TOKEN_IDENTIFIER 0 1 1 1 token_value.zero with
          typing_information := TYPE_INFO_INTEGER },
        type := TYPE_INFO_INTEGER, is_constant := true, function_decl_node := none }
      (Or.inr rfl) rfl rfl rfl rfl rfl rfl).1⟩,
    (redeclaration_is_rejected (bytes "int :: 1;") 1 fresh_symbol_table _ AST_CONST_ASSIGNMENT
      (source_token "f" TOKEN_COLON 5 1 1 6 token_value.zero)
      (source_token "f" TOKEN_COLON 4 1 1 5 token_value.zero)
      (source_token "f" TOKEN_IDENTIFIER 0 3 1 1 token_value.zero)
      (source_token "f" TOKEN_IDENTIFIER 0 3 1 1 token_value.zero)
      (leaf_node AST_INTEGER_LITERAL
        (source_token "f" TOKEN_INTEGER_LITERAL 7 1 1 8 (token_value.unsigned64 1)))
      _ (typing_result_success TYPE_INFO_INTEGER) 1 1 builtin_int builtin_int
      (Or.inl rfl) rfl rfl rfl rfl rfl rfl).2⟩

theorem builtin_redeclaration_file_parses :
    ∃ parser1, parser_parse_file 5 (parser_create "f" (bytes "int :: 1;"))
      = some (parse_result_success builtin_redeclaration_file, parser1) := by
  have hr : lexer_next_tokens 6 (parser_create "f" (bytes "int :: 1;")).lexer
      = some ([source_token "f" TOKEN_IDENTIFIER 0 3 1 1 token_value.zero,
               source_token "f" TOKEN_COLON 4 1 1 5 token_value.zero,
               source_token "f" TOKEN_COLON 5 1 1 6 token_value.zero,
               source_token "f" TOKEN_INTEGER_LITERAL 7 1 1 8 (token_value.unsigned64 1),
               source_token "f" TOKEN_SEMICOLON 8 1 1 9 token_value.zero,
               source_token "f" TOKEN_EOF 9 0 1 10 token_value.zero],
          { (parser_create "f" (bytes "int :: 1;")).lexer with
              head := 9, current_column := 10 }) := by
    decide
  have hy : lexer_yields (parser_create "f" (bytes "int :: 1;")).lexer
      [source_token "f" TOKEN_IDENTIFIER 0 3 1 1 token_value.zero,
       source_token "f" TOKEN_COLON 4 1 1 5 token_value.zero,
       source_token "f" TOKEN_COLON 5 1 1 6 token_value.zero,
       source_token "f" TOKEN_INTEGER_LITERAL 7 1 1 8 (token_value.unsigned64 1),
       source_token "f" TOKEN_SEMICOLON 8 1 1 9 token_value.zero,
       source_token "f" TOKEN_EOF 9 0 1 10 token_value.zero] :=
    ⟨by decide, _, hr⟩
  have h1 : parses (parser_parse_statement 5) (parser_create "f" (bytes "int :: 1;"))
      [source_token "f" TOKEN_IDENTIFIER 0 3 1 1 token_value.zero,
       source_token "f" TOKEN_COLON 4 1 1 5 token_value.zero,
       source_token "f" TOKEN_COLON 5 1 1 6 token_value.zero,
       source_token "f" TOKEN_INTEGER_LITERAL 7 1 1 8 (token_value.unsigned64 1),
       source_token "f" TOKEN_SEMICOLON 8 1 1 9 token_value.zero,
       source_token "f" TOKEN_EOF 9 0 1 10 token_value.zero]
      (parse_result_success builtin_redeclaration)
      [source_token "f" TOKEN_EOF 9 0 1 10 token_value.zero] :=
    statement_identifier_first _ _ _ _ _ 4 (by decide)
      (declaration_untyped_tokens _ _ (source_token "f" TOKEN_COLON 4 1 1 5 token_value.zero)
        (source_token "f" TOKEN_COLON 5 1 1 6 token_value.zero)
        (source_token "f" TOKEN_SEMICOLON 8 1 1 9 token_value.zero) _ _
        (parse_result_success (leaf_node AST_INTEGER_LITERAL
          (source_token "f" TOKEN_INTEGER_LITERAL 7 1 1 8 (token_value.unsigned64 1))))
        1 AST_CONST_ASSIGNMENT (by decide) (Or.inl ⟨by decide, rfl⟩) (by decide) rfl
        (function_or_expression_no_paren _ _ _ _ _ 2 (by decide)
          (parses_primary_last _ _ _ _ AST_INTEGER_LITERAL 0 (by decide) (by decide)
            (by decide))))
  obtain ⟨p1, hp⟩ := parser_parse_file_one_statement _ _ [] _ 3 _ rfl hy h1 (by decide)
  exact ⟨p1, hp⟩

theorem builtin_redeclaration_not_resolved (fuel : Nat) :
    resolve_types (bytes "int :: 1;") fuel builtin_redeclaration_file fresh_symbol_table
      = none := by
  match fuel with
  | 0 | 1 | 2 | 3 => rfl
  | n + 4 =>
    have h := resolve_untyped_redeclaration (bytes "int :: 1;") (n + 1) fresh_symbol_table
      fresh_symbol_table AST_CONST_ASSIGNMENT
      (source_token "f" TOKEN_COLON 5 1 1 6 token_value.zero)
      (source_token "f" TOKEN_COLON 4 1 1 5 token_value.zero)
      (source_token "f" TOKEN_IDENTIFIER 0 3 1 1 token_value.zero)
      (leaf_node AST_INTEGER_LITERAL
        (source_token "f" TOKEN_INTEGER_LITERAL 7 1 1 8 (token_value.unsigned64 1)))
      _ (typing_result_success TYPE_INFO_INTEGER) 1 builtin_int (Or.inl rfl)
      (resolve_types_integer_literal _ n _ _) rfl rfl rfl
    exact resolve_scope_first_none (bytes "int :: 1;") (n + 2) _ _ _ h

/-! ## Binary operators and calls -/

theorem resolve_binary_operator (mem : List Nat) (fuel : Nat) (table : symbol_table)
    (type : ast_node_type) (t : token) (l r : ast_node)
    (hb : is_binary_operator type = true) :
    resolve_types mem (fuel + 1) (binary_node type t l r) table
      = match resolve_types mem fuel l table with
        | none => none
        | some (left_result, left, table1) =>
          if left_result.success = false then
            some (left_result, binary_node type t left r, table1)
          else
            match resolve_types mem fuel r table1 with
            | none => none
            | some (right_result, right, table2) =>
              if right_result.success = false then
                some (right_result, binary_node type t left right, table2)
              else if left_result.type = right_result.type then
                some (typing_result_success left_result.type, binary_node type t left right,
                  table2)
              else
                some (typing_result_error t "Left and right operand types do not match!",
                  binary_node type t left right, table2) := by
  simp only [binary_node]
  cases type <;> simp [is_binary_operator] at hb <;> (rw [resolve_types]; try rfl)

/-- C26 (typing of the binary operators).  For every node of `+ - * / % < >`
whose left operand resolves (result `left_result`, leaving `table1`):
when the left operand fails, its error is returned and the right operand is
not resolved; otherwise the right operand is resolved on `table1`, and when
it fails its error is returned; when both succeed the node succeeds with the
common type if the two types are identical, and otherwise fails with "Left and
right operand types do not match!", the offending token being the operator. -/
theorem binary_operator_typing (mem : List Nat) (fuel : Nat) (table table1 : symbol_table)
    (type : ast_node_type) (t : token) (l l1 r : ast_node) (left_result : typing_result)
    (hb : is_binary_operator type = true)
    (hl : resolve_types mem fuel l table = some (left_result, l1, table1)) :
    (left_result.success = false →
      resolve_types mem (fuel + 1) (binary_node type t l r) table
        = some (left_result, binary_node type t l1 r, table1)) ∧
    (left_result.success = true →
      ∀ (right_result : typing_result) (r1 : ast_node) (table2 : symbol_table),
        resolve_types mem fuel r table1 = some (right_result, r1, table2) →
        (right_result.success = false →
          resolve_types mem (fuel + 1) (binary_node type t l r) table
            = some (right_result, binary_node type t l1 r1, table2)) ∧
        (right_result.success = true → left_result.type = right_result.type →
          resolve_types mem (fuel + 1) (binary_node type t l r) table
            = some (typing_result_success left_result.type, binary_node type t l1 r1,
                table2)) ∧
        (right_result.success = true → left_result.type ≠ right_result.type →
          resolve_types mem (fuel + 1) (binary_node type t l r) table
            = some (typing_result_error t "Left and right operand types do not match!",
                binary_node type t l1 r1, table2))) := by
  rw [resolve_binary_operator mem fuel table type t l r hb, hl]
  refine ⟨fun hf => by simp only [hf, if_true], fun hs right_result r1 table2 hr => ?_⟩
  simp only [hs, Bool.true_eq_false, if_false, hr]
  refine ⟨fun hf => by simp only [hf, if_true], fun hs2 he => ?_, fun hs2 hne => ?_⟩
  · simp only [hs2, Bool.true_eq_false, if_false, he, if_true]
  · simp only [hs2, Bool.true_eq_false, if_false, hne]

theorem binary_operator_typing_witness :
    resolve_types (bytes "1 + 2;") 2
        (binary_node AST_BINARY_OPERATOR_PLUS
          (source_token "f" TOKEN_PLUS 2 1 1 3 token_value.zero)
          (leaf_node AST_INTEGER_LITERAL
            (source_token "f" TOKEN_INTEGER_LITERAL 0 1 1 1 (token_value.unsigned64 1)))
          (leaf_node AST_INTEGER_LITERAL
            (source_token "f" TOKEN_INTEGER_LITERAL 4 1 1 5 (token_value.unsigned64 2))))
        fresh_symbol_table
      = some (typing_result_success TYPE_INFO_INTEGER,
          binary_node AST_BINARY_OPERATOR_PLUS
            (source_token "f" TOKEN_PLUS 2 1 1 3 token_value.zero)
            (leaf_node AST_INTEGER_LITERAL
              { source_token "f" TOKEN_INTEGER_LITERAL 0 1 1 1 (token_value.unsigned64 1) with
                typing_information := TYPE_INFO_INTEGER })
            (leaf_node AST_INTEGER_LITERAL
              { source_token "f" TOKEN_INTEGER_LITERAL 4 1 1 5 (token_value.unsigned64 2) with
                typing_information := TYPE_INFO_INTEGER }),
          fresh_symbol_table) ∧
    resolve_types (bytes "1 + 2.5;") 2
        (binary_node AST_BINARY_OPERATOR_PLUS
          (source_token "f" TOKEN_PLUS 2 1 1 3 token_value.zero)
          (leaf_node AST_INTEGER_LITERAL
            (source_token "f" TOKEN_INTEGER_LITERAL 0 1 1 1 (token_value.unsigned64 1)))
          (leaf_node AST_FLOAT_LITERAL
            (source_token "f" TOKEN_FLOAT_LITERAL 4 3 1 5 (token_value.float64 (bytes "2.5")))))
        fresh_symbol_table
      = some (typing_result_error
          (source_token "f" TOKEN_PLUS 2 1 1 3 token_value.zero)
          "Left and right operand types do not match!",
          binary_node AST_BINARY_OPERATOR_PLUS
            (source_token "f" TOKEN_PLUS 2 1 1 3 token_value.zero)
            (leaf_node AST_INTEGER_LITERAL
              { source_token "f" TOKEN_INTEGER_LITERAL 0 1 1 1 (token_value.unsigned64 1) with
                typing_information := TYPE_INFO_INTEGER })
            (leaf_node AST_FLOAT_LITERAL
              { source_token "f" TOKEN_FLOAT_LITERAL 4 3 1 5 (token_value.float64 (bytes "2.5")) with
                typing_information := TYPE_INFO_FLOAT }),
          fresh_symbol_table) :=
  ⟨((binary_operator_typing (bytes "1 + 2;") 1 fresh_symbol_table fresh_symbol_table
      AST_BINARY_OPERATOR_PLUS
      (source_token "f" TOKEN_PLUS 2 1 1 3 token_value.zero)
      (leaf_node AST_INTEGER_LITERAL
        (source_token "f" TOKEN_INTEGER_LITERAL 0 1 1 1 (token_value.unsigned64 1)))
      _
      (leaf_node AST_INTEGER_LITERAL
        (source_token "f" TOKEN_INTEGER_LITERAL 4 1 1 5 (token_value.unsigned64 2)))
      (typing_result_success TYPE_INFO_INTEGER) rfl rfl).2 rfl
      (typing_result_success TYPE_INFO_INTEGER) _ _ rfl).2.1 rfl rfl,
    ((binary_operator_typing (bytes "1 + 2.5;") 1 fresh_symbol_table fresh_symbol_table
      AST_BINARY_OPERATOR_PLUS
      (source_token "f" TOKEN_PLUS 2 1 1 3 token_value.zero)
      (leaf_node AST_INTEGER_LITERAL
        (source_token "f" TOKEN_INTEGER_LITERAL 0 1 1 1 (token_value.unsigned64 1)))
      _
      (leaf_node AST_FLOAT_LITERAL
        (source_token "f" TOKEN_FLOAT_LITERAL 4 3 1 5 (token_value.float64 (bytes "2.5"))))
      (typing_result_success TYPE_INFO_INTEGER) rfl rfl).2 rfl
      (typing_result_success TYPE_INFO_FLOAT) _ _ rfl).2.2 rfl (by decide)⟩

theorem resolve_types_keeps_token (mem : List Nat) (fuel : Nat) (type : ast_node_type)
    (t : token) (c0 c1 c2 : ast_node) (children : node_list) (parens : Bool)
    (table table1 : symbol_table) (result : typing_result) (node1 : ast_node)
    (hk : is_binary_operator type = true ∨ type = AST_FUNCTION_CALL)
    (h : resolve_types mem fuel (ast_node.node type t c0 c1 c2 children parens) table
      = some (result, node1, table1)) :
    node_token node1 = some t := by
  cases fuel with
  | zero => simp [resolve_types] at h
  | succ fuel =>
    rcases hk with hb | hc
    · cases type <;> simp [is_binary_operator] at hb <;>
        (rw [resolve_types] at h
         simp only at h
         repeat' split at h
         all_goals (cases h <;> rfl))
    · subst hc
      rw [resolve_types] at h
      simp only at h
      repeat' split at h
      all_goals (cases h <;> rfl)

theorem resolve_call_parameter_mismatch (mem : List Nat) (fuel : Nat)
    (table table1 : symbol_table) (t name : token) (arg arg1 : ast_node) (passed : node_list)
    (i : Nat) (sym : symbol) (dtype : ast_node_type) (dt : token) (param : ast_node)
    (declared : node_list) (declared_return d2 : ast_node) (dchildren : node_list)
    (dparens : Bool) (result : typing_result) (param_token arg_token : token)
    (hf : symbol_table_find mem table name = some (some i))
    (hi : table.buffer[i]? = some sym)
    (hty : sym.type = TYPE_INFO_FUNCTION)
    (hdecl : sym.function_decl_node = some (ast_node.node dtype dt
      (many_node AST_PARAMETER_LIST (node_list.cons param declared)) declared_return d2
      dchildren dparens))
    (hcount : number_of_nodes declared = number_of_nodes passed)
    (ha : resolve_types mem fuel arg table = some (result, arg1, table1))
    (hs : result.success = true)
    (hpt : node_token param = some param_token)
    (hat : node_token arg1 = some arg_token)
    (hne : param_token.typing_information ≠ arg_token.typing_information) :
    resolve_types mem (fuel + 2)
        (binary_node AST_FUNCTION_CALL t (leaf_node AST_IDENTIFIER name)
          (many_node AST_PARAMETER_LIST (node_list.cons arg passed))) table
      = some (typing_result_error arg_token
          "Parameter's type does not match that of function declaration",
          binary_node AST_FUNCTION_CALL t
            (leaf_node AST_IDENTIFIER { name with typing_information := TYPE_INFO_FUNCTION })
            (many_node AST_PARAMETER_LIST (node_list.cons arg1 passed)),
          table1) := by
  have hl := resolve_types_identifier mem fuel name table
  rw [resolve_identifier_present mem _ _ i sym hf hi, hty] at hl
  have hf1 : symbol_table_find mem table { name with typing_information := TYPE_INFO_FUNCTION }
      = some (some i) := by
    rw [← hf]
    exact symbol_table_find_token mem table _ _ rfl rfl
  have hp : resolve_call_parameters mem (fuel + 1) (node_list.cons param declared)
      (node_list.cons arg passed) table
      = some (some (typing_result_error arg_token
          "Parameter's type does not match that of function declaration"),
          node_list.cons arg1 passed, table1) := by
    rw [resolve_call_parameters]
    simp only [ha, hs, Bool.true_eq_false, if_false, hpt, hat, ne_eq, hne, not_false_eq_true,
      if_true]
  have hz : to_i32 (Int.ofNat (number_of_nodes (node_list.cons param declared)) -
      Int.ofNat (number_of_nodes (node_list.cons arg passed))) = 0 := by
    simp [number_of_nodes, hcount, to_i32]
  simp only [binary_node, leaf_node, many_node] at hl hdecl hp hz ⊢
  rw [resolve_types]
  simp only [hl, typing_result_success, Bool.true_eq_false, if_false, node_token, hf1, hi, hty,
    ne_eq, not_true_eq_false, hdecl, children_of, hz, hp, set_children]

theorem resolve_call_not_function (mem : List Nat) (fuel : Nat) (table : symbol_table)
    (t name : token) (arguments : ast_node) (i : Nat) (sym : symbol)
    (hf : symbol_table_find mem table name = some (some i))
    (hi : table.buffer[i]? = some sym)
    (hty : sym.type ≠ TYPE_INFO_FUNCTION) :
    resolve_types mem (fuel + 2)
        (binary_node AST_FUNCTION_CALL t (leaf_node AST_IDENTIFIER name) arguments) table
      = some (typing_result_error { name with typing_information := sym.type }
          "Cannot call something that is not a function",
          binary_node AST_FUNCTION_CALL t
            (leaf_node AST_IDENTIFIER { name with typing_information := sym.type }) arguments,
          table) := by
  have hl := resolve_types_identifier mem fuel name table
  rw [resolve_identifier_present mem _ _ i sym hf hi] at hl
  have hf1 : symbol_table_find mem table { name with typing_information := sym.type }
      = some (some i) := by
    rw [← hf]
    exact symbol_table_find_token mem table _ _ rfl rfl
  simp only [binary_node, leaf_node] at hl ⊢
  rw [resolve_types]
  simp only [hl, typing_result_success, Bool.true_eq_false, if_false, node_token, hf1, hi, hty,
    ne_eq, not_false_eq_true, if_true]

theorem resolve_call_wrong_count (mem : List Nat) (fuel : Nat) (table : symbol_table)
    (t name : token) (passed declared : node_list) (i : Nat) (sym : symbol)
    (dtype : ast_node_type) (dt : token) (declared_return d2 : ast_node) (dchildren : node_list)
    (dparens : Bool)
    (hf : symbol_table_find mem table name = some (some i))
    (hi : table.buffer[i]? = some sym)
    (hty : sym.type = TYPE_INFO_FUNCTION)
    (hdecl : sym.function_decl_node = some (ast_node.node dtype dt
      (many_node AST_PARAMETER_LIST declared) declared_return d2 dchildren dparens))
    (hcount : to_i32 (Int.ofNat (number_of_nodes declared) - Int.ofNat (number_of_nodes passed))
      ≠ 0) :
    resolve_types mem (fuel + 2)
        (binary_node AST_FUNCTION_CALL t (leaf_node AST_IDENTIFIER name)
          (many_node AST_PARAMETER_LIST passed)) table
      = some (typing_result_error { name with typing_information := TYPE_INFO_FUNCTION }
          ((if to_i32 (Int.ofNat (number_of_nodes declared) - Int.ofNat (number_of_nodes passed))
              > 0 then "Too few" else "Too many") ++
            " parameters for function call, got " ++ toString (number_of_nodes passed) ++
            ", but expected " ++ toString (number_of_nodes declared)),
          binary_node AST_FUNCTION_CALL t
            (leaf_node AST_IDENTIFIER { name with typing_information := TYPE_INFO_FUNCTION })
            (many_node AST_PARAMETER_LIST passed),
          table) := by
  have hl := resolve_types_identifier mem fuel name table
  rw [resolve_identifier_present mem _ _ i sym hf hi, hty] at hl
  have hf1 : symbol_table_find mem table { name with typing_information := TYPE_INFO_FUNCTION }
      = some (some i) := by
    rw [← hf]
    exact symbol_table_find_token mem table _ _ rfl rfl
  simp only [binary_node, leaf_node, many_node] at hl hdecl ⊢
  rw [resolve_types]
  simp only [hl, typing_result_success, Bool.true_eq_false, if_false, node_token, hf1, hi, hty,
    ne_eq, not_true_eq_false, hdecl, children_of, hcount, not_false_eq_true, if_true]

/-- C25 (function call checking, arguments that are not leaves).  In a table
where the callee `name` is a FUNCTION symbol whose declaration has as many
parameters as the call has arguments, let the first argument be a node of a
binary operator or a nested call, with the token the parser gave it (typing
information UNKNOWN), and let it resolve successfully to the very type of the
first formal, a type other than UNKNOWN.  Then `resolve_types` on the call does
not succeed: it returns the error "Parameter's type does not match that of
function declaration" at the token of the argument's node, because the type of
the argument is read from that token, which the resolver never writes for
these nodes. -/
theorem operator_argument_is_rejected (mem : List Nat) (fuel : Nat)
    (table table1 : symbol_table) (t name : token) (atype : ast_node_type) (atoken : token)
    (a0 a1 a2 : ast_node) (achildren : node_list) (aparens : Bool) (arg1 : ast_node)
    (passed : node_list) (i : Nat) (sym : symbol) (dtype : ast_node_type) (dt : token)
    (param : ast_node) (declared : node_list) (declared_return d2 : ast_node)
    (dchildren : node_list) (dparens : Bool) (result : typing_result) (param_token : token)
    (hk : is_binary_operator atype = true ∨ atype = AST_FUNCTION_CALL)
    (hu : atoken.typing_information = TYPE_INFO_UNKNOWN)
    (hf : symbol_table_find mem table name = some (some i))
    (hi : table.buffer[i]? = some sym)
    (hty : sym.type = TYPE_INFO_FUNCTION)
    (hdecl : sym.function_decl_node = some (ast_node.node dtype dt
      (many_node AST_PARAMETER_LIST (node_list.cons param declared)) declared_return d2
      dchildren dparens))
    (hcount : number_of_nodes declared = number_of_nodes passed)
    (ha : resolve_types mem fuel (ast_node.node atype atoken a0 a1 a2 achildren aparens) table
      = some (result, arg1, table1))
    (hs : result.success = true)
    (hpt : node_token param = some param_token)
    (hformal : param_token.typing_information = result.type)
    (hn : result.type ≠ TYPE_INFO_UNKNOWN) :
    resolve_types mem (fuel + 2)
        (binary_node AST_FUNCTION_CALL t (leaf_node AST_IDENTIFIER name)
          (many_node AST_PARAMETER_LIST
            (node_list.cons (ast_node.node atype atoken a0 a1 a2 achildren aparens) passed)))
        table
      = some (typing_result_error atoken
          "Parameter's type does not match that of function declaration",
          binary_node AST_FUNCTION_CALL t
            (leaf_node AST_IDENTIFIER { name with typing_information := TYPE_INFO_FUNCTION })
            (many_node AST_PARAMETER_LIST (node_list.cons arg1 passed)),
          table1) :=
  resolve_call_parameter_mismatch mem fuel table table1 t name _ arg1 passed i sym dtype dt
    param declared declared_return d2 dchildren dparens result param_token atoken hf hi hty
    hdecl hcount ha hs hpt
    (resolve_types_keeps_token mem fuel atype atoken a0 a1 a2 achildren aparens table table1
      result arg1 hk ha)
    (by rw [hformal, hu]; exact hn)

theorem operator_argument_is_rejected_witness :
    resolve_types operator_argument_source 4 (one_argument_call operator_argument)
        one_parameter_table
      = some (typing_result_error (source_token "f" TOKEN_PLUS 34 1 1 35 token_value.zero)
          "Parameter's type does not match that of function declaration",
          binary_node AST_FUNCTION_CALL token_zero
            (leaf_node AST_IDENTIFIER
              { source_token "f" TOKEN_IDENTIFIER 30 1 1 31 token_value.zero with
                typing_information := TYPE_INFO_FUNCTION })
            (many_node AST_PARAMETER_LIST (node_list.cons
              (binary_node AST_BINARY_OPERATOR_PLUS
                (source_token "f" TOKEN_PLUS 34 1 1 35 token_value.zero)
                (leaf_node AST_INTEGER_LITERAL
                  { source_token "f" TOKEN_INTEGER_LITERAL 32 1 1 33 (token_value.unsigned64 1)
                    with typing_information := TYPE_INFO_INTEGER })
                (leaf_node AST_INTEGER_LITERAL
                  { source_token "f" TOKEN_INTEGER_LITERAL 36 1 1 37 (token_value.unsigned64 2)
                    with typing_information := TYPE_INFO_INTEGER }))
              node_list.nil)),
          one_parameter_table) ∧
      resolve_types (bytes "g :: (a: int) -> int {}; call g(g(1));") 5
          (one_argument_call nested_call_argument) one_parameter_table
        = some (typing_result_error token_zero
            "Parameter's type does not match that of function declaration",
            binary_node AST_FUNCTION_CALL token_zero
              (leaf_node AST_IDENTIFIER
                { source_token "f" TOKEN_IDENTIFIER 30 1 1 31 token_value.zero with
                  typing_information := TYPE_INFO_FUNCTION })
              (many_node AST_PARAMETER_LIST (node_list.cons
                (binary_node AST_FUNCTION_CALL token_zero
                  (leaf_node AST_IDENTIFIER
                    { source_token "f" TOKEN_IDENTIFIER 32 1 1 33 token_value.zero with
                      typing_information := TYPE_INFO_FUNCTION })
                  (many_node AST_PARAMETER_LIST
                    (node_list.cons
                      (leaf_node AST_INTEGER_LITERAL
                        { source_token "f" TOKEN_INTEGER_LITERAL 34 1 1 35
                            (token_value.unsigned64 1)
                          with typing_information := TYPE_INFO_INTEGER })
                      node_list.nil)))
                node_list.nil)),
            one_parameter_table) :=
  ⟨operator_argument_is_rejected operator_argument_source 2 one_parameter_table
      one_parameter_table token_zero _ AST_BINARY_OPERATOR_PLUS _ _ _ _ _ _ _
      node_list.nil 3 one_parameter_symbol AST_FUNCTION_DECLARATION _ _ node_list.nil _ _ _ _
      (typing_result_success TYPE_INFO_INTEGER)
      { source_token "f" TOKEN_COLON 7 1 1 8 token_value.zero with
        typing_information := TYPE_INFO_INTEGER }
      (Or.inl rfl) rfl (by decide) rfl rfl rfl rfl rfl rfl rfl rfl (by decide),
    operator_argument_is_rejected (bytes "g :: (a: int) -> int {}; call g(g(1));") 3
      one_parameter_table one_parameter_table token_zero _ AST_FUNCTION_CALL _ _ _ _ _ _ _
      node_list.nil 3 one_parameter_symbol AST_FUNCTION_DECLARATION _ _ node_list.nil _ _ _ _
      (typing_result_success TYPE_INFO_INTEGER)
      { source_token "f" TOKEN_COLON 7 1 1 8 token_value.zero with
        typing_information := TYPE_INFO_INTEGER }
      (Or.inr rfl) rfl (by decide) rfl rfl rfl rfl rfl rfl rfl rfl (by decide)⟩

theorem parses_one_parameter (parser : rouleaux_parser_t) (lp name colon type rp : token)
    (rest : List token) (fuel : Nat)
    (hlp : lp.type = TOKEN_LEFT_PAREN) (hrp : rp.type = TOKEN_RIGHT_PAREN)
    (hn : name.type = TOKEN_IDENTIFIER) (hc : colon.type = TOKEN_COLON)
    (ht : type.type = TOKEN_IDENTIFIER) :
    parses (parser_parse_parameter_list (fuel + 2)) parser
      (lp :: name :: colon :: type :: rp :: rest)
      (parse_result_success (many_node AST_PARAMETER_LIST
        (node_list.cons (binary_node AST_TYPE_ASSIGNMENT colon (leaf_node AST_IDENTIFIER name)
            (leaf_node AST_IDENTIFIER type))
          node_list.nil))) rest := by
  intro lexer hy
  obtain ⟨l1, hy1, h1⟩ := parser_parse_parameter_list_start parser lexer lp name _ (fuel + 2) hy
    hlp
  obtain ⟨l2, hy2, h2⟩ := parameter_list_loop_last parser l1 node_list_create lp name colon type
    rp rest (fuel + 1) hy1 hn hc ht hrp
  obtain ⟨l3, h3, hy3⟩ := parameter_list_loop_exit parser l2 _ lp rp rest fuel hy2 hrp
  exact ⟨l3, by rw [h1, h2, h3]; rfl, hy3⟩

theorem parses_operator_argument (parser : rouleaux_parser_t) (lp a o b rp : token)
    (rest : List token) (ta tb top : ast_node_type) (fuel : Nat)
    (hlp : lp.type = TOKEN_LEFT_PAREN) (hrp : rp.type = TOKEN_RIGHT_PAREN)
    (ha : primary_node_type a.type = some ta) (hb : primary_node_type b.type = some tb)
    (ho : binary_operator_type o.type = some top) :
    parses (parser_parse_function_call_list (fuel + 7)) parser
      (lp :: a :: o :: b :: rp :: rest)
      (parse_result_success (many_node AST_PARAMETER_LIST
        (node_list.cons (binary_node top o (leaf_node ta a) (leaf_node tb b)) node_list.nil)))
      rest := by
  intro lexer hy
  have hrn : binary_operator_type rp.type = none := by rw [hrp]; decide
  have hrpp : b.type = TOKEN_IDENTIFIER → rp.type ≠ TOKEN_LEFT_PAREN := by
    intro _; rw [hrp]; decide
  have ha1 : a.type ≠ TOKEN_RIGHT_PAREN := by
    intro e; rw [e] at ha; simp [primary_node_type, literal_node_type] at ha
  obtain ⟨l1, hy1, e1⟩ := parser_parse_function_call_list_start parser lexer lp a _ (fuel + 6) hy
    hlp
  obtain ⟨l2, e2, hy2⟩ := function_call_list_loop_last parser l1 node_list_create a rp _ rest
    (fuel + 5) _ hy1 ha1 (parses_two_operands parser a o b rp rest ta tb top fuel ha hb ho hrn hrpp)
    rfl hrp
  exact ⟨l2, by rw [e1, e2]; rfl, hy2⟩

theorem operator_argument_file_parses :
    ∃ parser1, parser_parse_file 8 (parser_create "f" operator_argument_source)
      = some (parse_result_success operator_argument_file, parser1) := by
  have hr : lexer_next_tokens 22 (parser_create "f" operator_argument_source).lexer
      = some ([source_token "f" TOKEN_IDENTIFIER 0 1 1 1 token_value.zero,
               source_token "f" TOKEN_COLON 2 1 1 3 token_value.zero,
               source_token "f" TOKEN_COLON 3 1 1 4 token_value.zero,
               source_token "f" TOKEN_LEFT_PAREN 5 1 1 6 token_value.zero,
               source_token "f" TOKEN_IDENTIFIER 6 1 1 7 token_value.zero,
               source_token "f" TOKEN_COLON 7 1 1 8 token_value.zero,
               source_token "f" TOKEN_IDENTIFIER 9 3 1 10 token_value.zero,
               source_token "f" TOKEN_RIGHT_PAREN 12 1 1 13 token_value.zero,
               source_token "f" TOKEN_ARROW 14 2 1 15 token_value.zero,
               source_token "f" TOKEN_IDENTIFIER 17 3 1 18 token_value.zero,
               source_token "f" TOKEN_LEFT_CURLY 21 1 1 22 token_value.zero,
               source_token "f" TOKEN_RIGHT_CURLY 22 1 1 23 token_value.zero,
               source_token "f" TOKEN_SEMICOLON 23 1 1 24 token_value.zero,
               source_token "f" TOKEN_KEYWORD_CALL 25 4 1 26 token_value.zero,
               source_token "f" TOKEN_IDENTIFIER 30 1 1 31 token_value.zero,
               source_token "f" TOKEN_LEFT_PAREN 31 1 1 32 token_value.zero,
               source_token "f" TOKEN_INTEGER_LITERAL 32 1 1 33 (token_value.unsigned64 1),
               source_token "f" TOKEN_PLUS 34 1 1 35 token_value.zero,
               source_token "f" TOKEN_INTEGER_LITERAL 36 1 1 37 (token_value.unsigned64 2),
               source_token "f" TOKEN_RIGHT_PAREN 37 1 1 38 token_value.zero,
               source_token "f" TOKEN_SEMICOLON 38 1 1 39 token_value.zero,
               source_token "f" TOKEN_EOF 39 0 1 40 token_value.zero],
          { (parser_create "f" operator_argument_source).lexer with
              head := 39, current_column := 40 }) := by
    decide
  have hy : lexer_yields (parser_create "f" operator_argument_source).lexer
      [source_token "f" TOKEN_IDENTIFIER 0 1 1 1 token_value.zero,
       source_token "f" TOKEN_COLON 2 1 1 3 token_value.zero,
       source_token "f" TOKEN_COLON 3 1 1 4 token_value.zero,
       source_token "f" TOKEN_LEFT_PAREN 5 1 1 6 token_value.zero,
       source_token "f" TOKEN_IDENTIFIER 6 1 1 7 token_value.zero,
       source_token "f" TOKEN_COLON 7 1 1 8 token_value.zero,
       source_token "f" TOKEN_IDENTIFIER 9 3 1 10 token_value.zero,
       source_token "f" TOKEN_RIGHT_PAREN 12 1 1 13 token_value.zero,
       source_token "f" TOKEN_ARROW 14 2 1 15 token_value.zero,
       source_token "f" TOKEN_IDENTIFIER 17 3 1 18 token_value.zero,
       source_token "f" TOKEN_LEFT_CURLY 21 1 1 22 token_value.zero,
       source_token "f" TOKEN_RIGHT_CURLY 22 1 1 23 token_value.zero,
       source_token "f" TOKEN_SEMICOLON 23 1 1 24 token_value.zero,
       source_token "f" TOKEN_KEYWORD_CALL 25 4 1 26 token_value.zero,
       source_token "f" TOKEN_IDENTIFIER 30 1 1 31 token_value.zero,
       source_token "f" TOKEN_LEFT_PAREN 31 1 1 32 token_value.zero,
       source_token "f" TOKEN_INTEGER_LITERAL 32 1 1 33 (token_value.unsigned64 1),
       source_token "f" TOKEN_PLUS 34 1 1 35 token_value.zero,
       source_token "f" TOKEN_INTEGER_LITERAL 36 1 1 37 (token_value.unsigned64 2),
       source_token "f" TOKEN_RIGHT_PAREN 37 1 1 38 token_value.zero,
       source_token "f" TOKEN_SEMICOLON 38 1 1 39 token_value.zero,
       source_token "f" TOKEN_EOF 39 0 1 40 token_value.zero] :=
    ⟨by decide, _, hr⟩
  have hdecl : parses (parser_parse_statement 8) (parser_create "f" operator_argument_source)
      [source_token "f" TOKEN_IDENTIFIER 0 1 1 1 token_value.zero,
       source_token "f" TOKEN_COLON 2 1 1 3 token_value.zero,
       source_token "f" TOKEN_COLON 3 1 1 4 token_value.zero,
       source_token "f" TOKEN_LEFT_PAREN 5 1 1 6 token_value.zero,
       source_token "f" TOKEN_IDENTIFIER 6 1 1 7 token_value.zero,
       source_token "f" TOKEN_COLON 7 1 1 8 token_value.zero,
       source_token "f" TOKEN_IDENTIFIER 9 3 1 10 token_value.zero,
       source_token "f" TOKEN_RIGHT_PAREN 12 1 1 13 token_value.zero,
       source_token "f" TOKEN_ARROW 14 2 1 15 token_value.zero,
       source_token "f" TOKEN_IDENTIFIER 17 3 1 18 token_value.zero,
       source_token "f" TOKEN_LEFT_CURLY 21 1 1 22 token_value.zero,
       source_token "f" TOKEN_RIGHT_CURLY 22 1 1 23 token_value.zero,
       source_token "f" TOKEN_SEMICOLON 23 1 1 24 token_value.zero,
       source_token "f" TOKEN_KEYWORD_CALL 25 4 1 26 token_value.zero,
       source_token "f" TOKEN_IDENTIFIER 30 1 1 31 token_value.zero,
       source_token "f" TOKEN_LEFT_PAREN 31 1 1 32 token_value.zero,
       source_token "f" TOKEN_INTEGER_LITERAL 32 1 1 33 (token_value.unsigned64 1),
       source_token "f" TOKEN_PLUS 34 1 1 35 token_value.zero,
       source_token "f" TOKEN_INTEGER_LITERAL 36 1 1 37 (token_value.unsigned64 2),
       source_token "f" TOKEN_RIGHT_PAREN 37 1 1 38 token_value.zero,
       source_token "f" TOKEN_SEMICOLON 38 1 1 39 token_value.zero,
       source_token "f" TOKEN_EOF 39 0 1 40 token_value.zero]
      (parse_result_success one_parameter_declaration)
      [source_token "f" TOKEN_KEYWORD_CALL 25 4 1 26 token_value.zero,
       source_token "f" TOKEN_IDENTIFIER 30 1 1 31 token_value.zero,
       source_token "f" TOKEN_LEFT_PAREN 31 1 1 32 token_value.zero,
       source_token "f" TOKEN_INTEGER_LITERAL 32 1 1 33 (token_value.unsigned64 1),
       source_token "f" TOKEN_PLUS 34 1 1 35 token_value.zero,
       source_token "f" TOKEN_INTEGER_LITERAL 36 1 1 37 (token_value.unsigned64 2),
       source_token "f" TOKEN_RIGHT_PAREN 37 1 1 38 token_value.zero,
       source_token "f" TOKEN_SEMICOLON 38 1 1 39 token_value.zero,
       source_token "f" TOKEN_EOF 39 0 1 40 token_value.zero] :=
    statement_identifier_first _ _ _ _ _ 7 (by decide)
      (declaration_untyped_tokens _ _ (source_token "f" TOKEN_COLON 2 1 1 3 token_value.zero)
        (source_token "f" TOKEN_COLON 3 1 1 4 token_value.zero)
        (source_token "f" TOKEN_SEMICOLON 23 1 1 24 token_value.zero) _ _
        (parse_result_success one_parameter_function) 4 AST_CONST_ASSIGNMENT (by decide)
        (Or.inl ⟨by decide, rfl⟩) (by decide) rfl
        (function_or_expression_identifier _ _ _ _ _ _ _ 5 (by decide) (by decide)
          (parser_parse_function_declaration_tokens _ _ _ _ _ _ _ _ 4
            (parses_one_parameter _ _ _ _ _ (source_token "f" TOKEN_RIGHT_PAREN 12 1 1 13 token_value.zero) _ 2
              (by decide) (by decide) (by decide) (by decide) (by decide))
            (by decide) (by decide)
            (parses_empty_scope _ _ _ _ 2 (by decide) (by decide)))))
  have hcall : parses (parser_parse_statement 8) (parser_create "f" operator_argument_source)
      [source_token "f" TOKEN_KEYWORD_CALL 25 4 1 26 token_value.zero,
       source_token "f" TOKEN_IDENTIFIER 30 1 1 31 token_value.zero,
       source_token "f" TOKEN_LEFT_PAREN 31 1 1 32 token_value.zero,
       source_token "f" TOKEN_INTEGER_LITERAL 32 1 1 33 (token_value.unsigned64 1),
       source_token "f" TOKEN_PLUS 34 1 1 35 token_value.zero,
       source_token "f" TOKEN_INTEGER_LITERAL 36 1 1 37 (token_value.unsigned64 2),
       source_token "f" TOKEN_RIGHT_PAREN 37 1 1 38 token_value.zero,
       source_token "f" TOKEN_SEMICOLON 38 1 1 39 token_value.zero,
       source_token "f" TOKEN_EOF 39 0 1 40 token_value.zero]
      (parse_result_success operator_argument_call)
      [source_token "f" TOKEN_EOF 39 0 1 40 token_value.zero] :=
    statement_call _ _ _ (source_token "f" TOKEN_SEMICOLON 38 1 1 39 token_value.zero) _ _ _ 7
      (by decide) (by decide) (by decide)
      (parses_operator_argument _ _ _ _ _ (source_token "f" TOKEN_RIGHT_PAREN 37 1 1 38 token_value.zero) _
        AST_INTEGER_LITERAL AST_INTEGER_LITERAL AST_BINARY_OPERATOR_PLUS 0 (by decide)
        (by decide) (by decide) (by decide) (by decide))
  exact parser_parse_file_two_statements _ _ _ [] _ 5 _ _ rfl hy hdecl hcall
    (by decide)

theorem operator_argument_file_rejected :
    ∃ tree table,
      resolve_types operator_argument_source 8 operator_argument_file fresh_symbol_table
        = some (typing_result_error (source_token "f" TOKEN_PLUS 34 1 1 35 token_value.zero)
            "Parameter's type does not match that of function declaration", tree, table) :=
  ⟨_, _, rfl⟩

theorem one_parameter_declaration_resolves :
    ∃ tree,
      resolve_types operator_argument_source 5 one_parameter_declaration fresh_symbol_table
        = some (typing_result_success TYPE_INFO_FUNCTION, tree, one_parameter_table) :=
  ⟨_, rfl⟩

theorem literal_argument_is_accepted :
    ∃ tree,
      resolve_types (bytes "g :: (a: int) -> int \x7b\x7d; call g(3);") 3
          (one_argument_call (leaf_node AST_INTEGER_LITERAL
            (source_token "f" TOKEN_INTEGER_LITERAL 32 1 1 33 (token_value.unsigned64 3))))
          one_parameter_table
        = some (typing_result_success TYPE_INFO_INTEGER, tree, one_parameter_table) :=
  ⟨_, rfl⟩

theorem skip_char_two (base lexer : rouleaux_lexer) (p : Nat) (h : at_pos base lexer p)
    (hp : p + 2 ≤ base.file_content.length) :
    ∃ lexer2, skip_char lexer 2 = some lexer2 ∧ at_pos base lexer2 (p + 2) ∧
      lexer2.has_error = lexer.has_error := by
  obtain ⟨l1, hl1, ha1, he1⟩ := skip_char_one base lexer p h (by omega)
  obtain ⟨l2, hl2, ha2, he2⟩ := skip_char_one base l1 (p + 1) ha1 (by omega)
  refine ⟨l2, ?_, ha2, by rw [he2, he1]⟩
  have heof : head_is_at_eof lexer = false := by
    obtain ⟨h1, h2, h3, h4, h5, h6, h7⟩ := h
    simp [head_is_at_eof, h2, h4]; omega
  have heof1 : head_is_at_eof l1 = false := by
    obtain ⟨h1, h2, h3, h4, h5, h6, h7⟩ := ha1
    simp [head_is_at_eof, h2, h4]; omega
  simp only [skip_char, heof, heof1, Bool.false_eq_true, if_false] at hl1 hl2 ⊢
  rw [skip_char_loop_succ, hl1]
  simp only [Option.some_bind]
  exact hl2

theorem lexer_next_token_internal_unterminated (base lexer : rouleaux_lexer) (p k : Nat)
    (h : at_pos base lexer p)
    (hws : ∀ i, i < k → ∃ c, base.file_content[p + i]? = some c ∧ is_whitespace c = true)
    (hslash : base.file_content[p + k]? = some 47)
    (hstar : base.file_content[p + k + 1]? = some 42)
    (hbody : ∀ i, p + k + 2 ≤ i → base.file_content[i]? = some 42 →
      ∃ d, base.file_content[i + 1]? = some d ∧ d ≠ 47) :
    ∃ lexer1, lexer_next_token_internal lexer
        = some ({ token_zero with type := TOKEN_INVALID, location := location_at base (p + k),
                                  text := text_ptr.file (p + k),
                                  length := base.file_content.length - (p + k) }, lexer1) ∧
      at_pos base lexer1 base.file_content.length ∧ lexer1.has_error = true := by
  have hlt : p + k + 1 < base.file_content.length := by
    rcases Nat.lt_or_ge (p + k + 1) base.file_content.length with h1 | h1
    · exact h1
    · rw [List.getElem?_eq_none h1] at hstar
      cases hstar
  have hfc : lexer.file_content = base.file_content := h.2.1
  obtain ⟨l1, hl1, ha1, _⟩ := scan_while_run cond_whitespace base k
    (lexer.file_content.length + 1) lexer p 0 h (by omega) (by rw [hfc]; omega)
    (fun i hi => by
      obtain ⟨c, hc, hw⟩ := hws i hi
      simp only [cond_whitespace, hc, hw])
    (by simp only [cond_whitespace, hslash]; rfl)
  rw [Nat.zero_add] at hl1
  obtain ⟨l2, hl2, ha2, _⟩ := skip_char_two base l1 (p + k) ha1 (by omega)
  have hfc2 : l2.file_content = base.file_content := ha2.2.1
  obtain ⟨l3, hl3, ha3, _⟩ := scan_while_run cond_block_comment base
    (base.file_content.length - (p + k + 2)) (l2.file_content.length + 1) l2 (p + k + 2) (0 + 2)
    ha2 (by omega) (by rw [hfc2]; omega)
    (fun i hi => by
      have hin : p + k + 2 + i < base.file_content.length := by omega
      have hget : base.file_content[p + k + 2 + i]?
          = some (base.file_content[p + k + 2 + i]) := List.getElem?_eq_getElem hin
      by_cases hc : base.file_content[p + k + 2 + i] = 42
      · obtain ⟨d, hd, hne⟩ := hbody (p + k + 2 + i) (by omega) (by rw [hget, hc])
        simp only [cond_block_comment, hget, hc, if_true, hd]
        simp [hne]
      · simp only [cond_block_comment, hget, hc, if_false])
    (by
      have hend : p + k + 2 + (base.file_content.length - (p + k + 2))
          = base.file_content.length := by omega
      rw [hend]
      simp only [cond_block_comment, List.getElem?_eq_none (Nat.le_refl _)])
  have hend : p + k + 2 + (base.file_content.length - (p + k + 2))
      = base.file_content.length := by omega
  rw [hend] at ha3
  have hlen : 0 + 2 + (base.file_content.length - (p + k + 2))
      = base.file_content.length - (p + k) := by omega
  rw [hlen] at hl3
  refine ⟨{ l3 with has_error := true }, ?_, at_pos_error base l3 _ true ha3, rfl⟩
  obtain ⟨h1, h2, h3, h4, h5, h6, h7⟩ := ha1
  have heof : head_is_at_eof l1 = false := by
    simp [head_is_at_eof, h2, h4]; omega
  have heof3 : head_is_at_eof l3 = true := by
    simp [head_is_at_eof, ha3.2.1, ha3.2.2.2.1]
  have hpk : peek_byte l1 0 = some 47 := by
    simp only [peek_byte, h2, h4, Nat.add_zero, hslash]
  have hpk1 : peek_byte l1 1 = some 42 := by
    simp only [peek_byte, h2, h4, hstar]
  have hloc : current_location l1 = location_at base (p + k) := by
    simp only [current_location, location_at, h1, h6, h7]
  have hid : is_identifier_character 47 false = false := by decide
  have hnum : is_numeric_character 47 = false := by decide
  simp only [lexer_next_token_internal, trim_left, hl1, Option.map_some', heof,
    Bool.false_eq_true, if_false, hpk, hid, hnum, hpk1, if_true, hloc, h4, lex_block_comment,
    hl2, hl3, heof3]
  simp

theorem parser_parse_file_invalid (parser : rouleaux_parser_t) (t : token) (ts : List token)
    (fuel : Nat) (hy : lexer_yields parser.lexer (t :: ts)) (ht : t.type = TOKEN_INVALID) :
    ∃ parser1, parser_parse_file (fuel + 1) parser
      = some (parse_result_error t "Invalid token found", parser1) := by
  obtain ⟨l1, hp1, _⟩ := lexer_yields_peek parser.lexer t ts hy
  refine ⟨{ parser with lexer := l1 }, ?_⟩
  rw [parser_parse_file, parse_file_loop, parser_parse_statement]
  simp only [hp1, ht]
  rfl

theorem lexer_next_token_unterminated (filename : String) (ws body : List Nat)
    (hws : ∀ c, c ∈ ws → is_whitespace c = true)
    (hno : ∀ i, body[i]? = some 42 → body[i + 1]? ≠ some 47)
    (hlast : body.getLast? ≠ some 42) :
    ∃ lexer1, lexer_next_token (lexer_create filename (ws ++ 47 :: 42 :: body))
        = some ({ token_zero with
            type := TOKEN_INVALID,
            location := { row := 1 + ws.count 10,
                          column := 1 + (ws.reverse.takeWhile (fun c => c != 10)).length,
                          filename := some filename },
            text := text_ptr.file ws.length,
            length := 2 + body.length }, lexer1) ∧
      lexer1.has_error = true ∧ lexer1.head = (ws ++ 47 :: 42 :: body).length := by
  have hcontent := lexer_create_content filename (ws ++ 47 :: 42 :: body)
  obtain ⟨l1, hl1, ha1, he1⟩ := lexer_next_token_internal_unterminated
    (lexer_create filename (ws ++ 47 :: 42 :: body)) _ 0 ws.length (at_pos_self _ _)
    (fun i hi => by
      refine ⟨ws[i], ?_, hws _ (List.getElem_mem hi)⟩
      rw [hcontent, Nat.zero_add, List.getElem?_append_left hi, List.getElem?_eq_getElem hi])
    (by rw [hcontent, Nat.zero_add, List.getElem?_append_right (Nat.le_refl _)]; simp)
    (by rw [hcontent, Nat.zero_add, List.getElem?_append_right (Nat.le_succ _)]; simp)
    (fun i hi h42 => by
      rw [hcontent] at h42 ⊢
      rw [Nat.zero_add] at hi
      have e1 : i = ws.length + (i - ws.length - 2 + 2) := by omega
      have e2 : i + 1 = ws.length + (i - ws.length - 2 + 1 + 2) := by omega
      have hb : body[i - ws.length - 2]? = some 42 := by
        rw [e1, List.getElem?_append_right (Nat.le_add_right _ _), Nat.add_sub_cancel_left] at h42
        simpa using h42
      have hlt : i - ws.length - 2 + 1 < body.length := by
        have hin : i - ws.length - 2 < body.length := by
          rcases Nat.lt_or_ge (i - ws.length - 2) body.length with h1 | h1
          · exact h1
          · rw [List.getElem?_eq_none h1] at hb
            cases hb
        rcases Nat.lt_or_ge (i - ws.length - 2 + 1) body.length with h1 | h1
        · exact h1
        · exfalso
          apply hlast
          rw [List.getLast?_eq_getElem?]
          have : body.length - 1 = i - ws.length - 2 := by omega
          rw [this]
          exact hb
      refine ⟨body[i - ws.length - 2 + 1], ?_, ?_⟩
      · rw [e2, List.getElem?_append_right (Nat.le_add_right _ _), Nat.add_sub_cancel_left]
        simp only [List.getElem?_cons_succ]
        exact List.getElem?_eq_getElem hlt
      · intro h47
        apply hno (i - ws.length - 2) hb
        rw [List.getElem?_eq_getElem hlt, h47])
  refine ⟨l1, ?_, he1, ha1.2.2.2.1.trans (by rw [hcontent])⟩
  rw [lexer_next_token_size_zero _ (lexer_create_size _ _), hl1]
  have hlen : (lexer_create filename (ws ++ 47 :: 42 :: body)).file_content.length
      - (0 + ws.length) = 2 + body.length := by
    rw [hcontent]
    simp only [List.length_append, List.length_cons]
    omega
  have hloc : location_at (lexer_create filename (ws ++ 47 :: 42 :: body)) (0 + ws.length)
      = { row := 1 + ws.count 10,
          column := 1 + (ws.reverse.takeWhile (fun c => c != 10)).length,
          filename := some filename } := by
    simp only [location_at, row_at, column_at, hcontent, Nat.zero_add, List.take_left',
      lexer_create_filename]
  rw [hlen, hloc, Nat.zero_add]

theorem unterminated_comment_is_parse_error (filename : String) (ws body : List Nat)
    (fuel : Nat)
    (hws : ∀ c, c ∈ ws → is_whitespace c = true)
    (hno : ∀ i, body[i]? = some 42 → body[i + 1]? ≠ some 47)
    (hlast : body.getLast? ≠ some 42) :
    ∃ t lexer1 parser1,
      lexer_next_token (lexer_create filename (ws ++ 47 :: 42 :: body)) = some (t, lexer1) ∧
      t.type = TOKEN_INVALID ∧ t.text = text_ptr.file ws.length ∧
      t.length = 2 + body.length ∧
      t.location = { row := 1 + ws.count 10,
                     column := 1 + (ws.reverse.takeWhile (fun c => c != 10)).length,
                     filename := some filename } ∧
      lexer1.has_error = true ∧ lexer1.head = (ws ++ 47 :: 42 :: body).length ∧
      parser_parse_file (fuel + 1) (parser_create filename (ws ++ 47 :: 42 :: body))
        = some (parse_result_error t "Invalid token found", parser1) := by
  obtain ⟨l1, hl1, he1, hh1⟩ := lexer_next_token_unterminated filename ws body hws hno hlast
  have hy : lexer_yields (parser_create filename (ws ++ 47 :: 42 :: body)).lexer
      [{ token_zero with
          type := TOKEN_INVALID,
          location := { row := 1 + ws.count 10,
                        column := 1 + (ws.reverse.takeWhile (fun c => c != 10)).length,
                        filename := some filename },
          text := text_ptr.file ws.length,
          length := 2 + body.length }] := by
    refine ⟨lexer_create_wf filename _ (by simp), l1, ?_⟩
    simp only [List.length_singleton, lexer_next_tokens, parser_create, hl1]
  obtain ⟨p1, hp1⟩ := parser_parse_file_invalid _ _ [] fuel hy rfl
  exact ⟨_, l1, p1, hl1, rfl, rfl, rfl, rfl, he1, hh1, hp1⟩

/-- C30 (unterminated block comment).  Let the source be the whitespace `ws`,
then `/*`, then the bytes `body`, where `body` holds no `*/` and does not end
in `*`.  Then the first token the lexer returns has kind INVALID, starts at
the `/*` (offset `ws.length`, with the row and the column of that offset),
spans the `2 + body.length` bytes to the end of the input, and the lexer is
left at the end of the input with `has_error` set; and `parser_parse_file`
returns the error "Invalid token found" whose offending token is that token.
(When `body` ends in `*` the loop of the comment reads the byte after the end
of the buffer: see `comment_ending_in_star_not_lexed`.) -/
theorem unterminated_block_comment (filename : String) (ws body : List Nat)
    (fuel : Nat)
    (hws : ∀ c, c ∈ ws → is_whitespace c = true)
    (hno : ∀ i, body[i]? = some 42 → body[i + 1]? ≠ some 47)
    (hlast : body.getLast? ≠ some 42) :
    ∃ t lexer1 parser1,
      lexer_next_token (lexer_create filename (ws ++ 47 :: 42 :: body)) = some (t, lexer1) ∧
      t.type = TOKEN_INVALID ∧ t.text = text_ptr.file ws.length ∧
      t.length = 2 + body.length ∧
      t.location = { row := 1 + ws.count 10,
                     column := 1 + (ws.reverse.takeWhile (fun c => c != 10)).length,
                     filename := some filename } ∧
      lexer1.has_error = true ∧ lexer1.head = (ws ++ 47 :: 42 :: body).length ∧
      parser_parse_file (fuel + 1) (parser_create filename (ws ++ 47 :: 42 :: body))
        = some (parse_result_error t "Invalid token found", parser1) :=
  unterminated_comment_is_parse_error filename ws body fuel hws hno hlast

theorem no_star_no_close (body : List Nat) (h : 42 ∉ body) :
    ∀ i, body[i]? = some 42 → body[i + 1]? ≠ some 47 := by
  intro i hi
  exact absurd (List.getElem?_mem hi) h

theorem unterminated_block_comment_witness :
    (∃ t lexer1 parser1,
      lexer_next_token (lexer_create "f" (bytes "/* unterminated")) = some (t, lexer1) ∧
      t.type = TOKEN_INVALID ∧ t.text = text_ptr.file 0 ∧ t.length = 15 ∧
      t.location = { row := 1, column := 1, filename := some "f" } ∧
      lexer1.has_error = true ∧ lexer1.head = 15 ∧
      parser_parse_file 1 (parser_create "f" (bytes "/* unterminated"))
        = some (parse_result_error t "Invalid token found", parser1)) ∧
    (∃ t lexer1 parser1,
      lexer_next_token (lexer_create "f" (bytes "\n /* a")) = some (t, lexer1) ∧
      t.type = TOKEN_INVALID ∧ t.text = text_ptr.file 2 ∧ t.length = 4 ∧
      t.location = { row := 2, column := 2, filename := some "f" } ∧
      lexer1.has_error = true ∧ lexer1.head = 6 ∧
      parser_parse_file 3 (parser_create "f" (bytes "\n /* a"))
        = some (parse_result_error t "Invalid token found", parser1)) :=
  ⟨unterminated_block_comment "f" [] (bytes " unterminated") 0 (by simp)
      (no_star_no_close _ (by decide)) (by decide),
    unterminated_block_comment "f" (bytes "\n ") (bytes " a") 2 (by decide)
      (no_star_no_close _ (by decide)) (by decide)⟩

theorem comment_ending_in_star_not_lexed :
    lexer_next_token (lexer_create "f" (bytes "/**")) = none := by
  decide

theorem comment_ending_in_star_not_parsed (fuel : Nat) :
    parser_parse_file fuel (parser_create "f" (bytes "/**")) = none := by
  cases fuel with
  | zero => rfl
  | succ fuel =>
    have hp : lexer_peek_token (parser_create "f" (bytes "/**")).lexer = none := by decide
    rw [parser_parse_file, parse_file_loop, parser_parse_statement]
    simp only [hp]

theorem write_tildes_run : ∀ (count : Nat) (head tail : List Nat) (x : Nat),
    write_tildes count head.length (head ++ List.replicate count x ++ tail)
      = some (head ++ List.replicate count 126 ++ tail)
  | 0, head, tail, x => by simp [write_tildes]
  | count + 1, head, tail, x => by
    have hlt : head.length < (head ++ List.replicate (count + 1) x ++ tail).length := by
      simp only [List.length_append, List.length_replicate]; omega
    rw [write_tildes, if_pos hlt]
    have hset : (head ++ List.replicate (count + 1) x ++ tail).set head.length 126
        = (head ++ [126]) ++ List.replicate count x ++ tail := by
      rw [List.append_assoc, List.set_append_right _ _ (Nat.le_refl _), Nat.sub_self,
        List.replicate_succ]
      simp
    have hlen : head.length + 1 = (head ++ [126]).length := by simp
    rw [hset, hlen, write_tildes_run count (head ++ [126]) tail x]
    simp [List.replicate_succ]

theorem c_string_terminated (text : List Nat) (tail : List Nat)
    (h : ∀ c, c ∈ text → c ≠ 0) : c_string (text ++ 0 :: tail) = text := by
  induction text with
  | nil => simp [c_string]
  | cons c text ih =>
    have hc : c ≠ 0 := h c (List.mem_cons_self _ _)
    have := ih (fun d hd => h d (List.mem_cons_of_mem _ hd))
    simp only [c_string] at this ⊢
    simp [List.takeWhile_cons, hc, this]

theorem make_error_identification_line_eq (t : token) (h1 : 1 ≤ t.location.column)
    (h2 : 1 ≤ t.length) (h3 : t.location.column + t.length < 2 ^ 64) :
    make_error_identification_line t
      = some (List.replicate (t.location.column - 1) 32 ++ 94 ::
          List.replicate (t.length - 1) 126 ++ [0]) := by
  obtain ⟨c, hc⟩ : ∃ c, t.location.column = c + 1 := ⟨t.location.column - 1, by omega⟩
  obtain ⟨n, hn⟩ : ∃ n, t.length = n + 1 := ⟨t.length - 1, by omega⟩
  rw [hc, hn] at h3
  have e1 : (c + 1 + (2 ^ 64 - 1)) % 2 ^ 64 = c := by omega
  have e2 : (c + (n + 1)) % 2 ^ 64 = c + (n + 1) := Nat.mod_eq_of_lt (by omega)
  have e3 : (c + (n + 1) + 1) % 2 ^ 64 = c + (n + 1) + 1 := Nat.mod_eq_of_lt (by omega)
  have hm : memset (List.replicate (c + (n + 1) + 1) 0) 32 (c + (n + 1))
      = some (List.replicate c 32 ++ List.replicate (n + 1) 32 ++ [0]) := by
    have hle : c + (n + 1) ≤ (List.replicate (c + (n + 1) + 1) 0).length := by simp
    rw [memset, if_pos hle, List.replicate_add]
    simp
  have hset : (List.replicate c 32 ++ List.replicate (n + 1) 32 ++ [0]).set c 94
      = (List.replicate c 32 ++ [94]) ++ List.replicate n 32 ++ [0] := by
    have hl : (List.replicate c 32).length ≤ c := by simp
    rw [List.append_assoc, List.set_append_right _ _ hl, List.replicate_succ]
    simp
  have hlt : c < (List.replicate c 32 ++ List.replicate (n + 1) 32 ++ [0]).length := by
    simp only [List.length_append, List.length_replicate]; omega
  have hw := write_tildes_run n (List.replicate c 32 ++ [94]) [0] 32
  have hlen : (List.replicate c 32 ++ [94]).length = c + 1 := by simp
  rw [hlen] at hw
  have hcount : c + (n + 1) - (c + 1) = n := by omega
  simp only [make_error_identification_line, hc, hn, e1, e2, e3, hm, if_pos hlt, hset,
    Nat.add_sub_cancel, hcount, hw]
  simp

theorem error_identification_line (t : token) (h1 : 1 ≤ t.location.column)
    (h2 : 1 ≤ t.length) (h3 : t.location.column + t.length < 2 ^ 64) :
    ∃ text_buffer, make_error_identification_line t = some text_buffer ∧
      c_string text_buffer = List.replicate (t.location.column - 1) 32 ++ 94 ::
        List.replicate (t.length - 1) 126 ∧
      (c_string text_buffer).length = t.location.column - 1 + t.length := by
  refine ⟨_, make_error_identification_line_eq t h1 h2 h3, ?_, ?_⟩
  · have h := c_string_terminated
      (List.replicate (t.location.column - 1) 32 ++ 94 :: List.replicate (t.length - 1) 126) []
      (by
        intro c hc
        simp only [List.mem_append, List.mem_cons, List.mem_replicate] at hc
        omega)
    simpa using h
  · have h := c_string_terminated
      (List.replicate (t.location.column - 1) 32 ++ 94 :: List.replicate (t.length - 1) 126) []
      (by
        intro c hc
        simp only [List.mem_append, List.mem_cons, List.mem_replicate] at hc
        omega)
    have h' : c_string (List.replicate (t.location.column - 1) 32 ++ 94 ::
        List.replicate (t.length - 1) 126 ++ [0])
        = List.replicate (t.location.column - 1) 32 ++ 94 ::
          List.replicate (t.length - 1) 126 := by simpa using h
    rw [h']
    simp only [List.length_append, List.length_cons, List.length_replicate]
    omega

/-- C31 (the underline of a diagnostic).  For every token with column `c ≥ 1`
and length `n ≥ 1` (whose sum fits the `u64` counters),
`make_error_identification_line` returns a block whose string is `c - 1`
spaces, one `^` and `n - 1` characters `~`, of total length `c - 1 + n`. -/
theorem underline_of_token (t : token) (h1 : 1 ≤ t.location.column)
    (h2 : 1 ≤ t.length) (h3 : t.location.column + t.length < 2 ^ 64) :
    ∃ text_buffer, make_error_identification_line t = some text_buffer ∧
      c_string text_buffer = List.replicate (t.location.column - 1) 32 ++ 94 ::
        List.replicate (t.length - 1) 126 ∧
      (c_string text_buffer).length = t.location.column - 1 + t.length :=
  error_identification_line t h1 h2 h3

theorem underline_of_token_witness :
    ∃ text_buffer,
      make_error_identification_line (source_token "f" TOKEN_IDENTIFIER 4 3 1 5 token_value.zero)
        = some text_buffer ∧
      c_string text_buffer = bytes "    ^~~" ∧ (c_string text_buffer).length = 7 :=
  underline_of_token (source_token "f" TOKEN_IDENTIFIER 4 3 1 5 token_value.zero) (by decide)
    (by decide) (by decide)
theorem parser_parse_expression_beginning_bad_start (parser : rouleaux_parser_t)
    (lexer : rouleaux_lexer) (bad : token) (ts : List token) (fuel : Nat)
    (hy : lexer_yields lexer (bad :: ts))
    (h1 : bad.type ≠ TOKEN_LEFT_PAREN) (h2 : bad.type ≠ TOKEN_IDENTIFIER)
    (h3 : literal_node_type bad.type = none) :
    ∃ lexer1, parser_parse_expression_beginning (fuel + 1) { parser with lexer := lexer }
        = some (parse_result_error bad
            ("Expected the start of an expression, but instead got '" ++
              printable lexer1.file_content bad ++ "'"),
            { parser with lexer := lexer1 }) ∧
      lexer_yields lexer1 (bad :: ts) := by
  obtain ⟨l1, hp1, hy1⟩ := lexer_yields_peek lexer bad ts hy
  refine ⟨l1, ?_, hy1⟩
  rw [parser_parse_expression_beginning]
  simp only [hp1, if_neg h1, if_neg h2, h3]

theorem parser_parse_expression_operand_fails (parser : rouleaux_parser_t)
    (lexer : rouleaux_lexer) (o : token) (ts rest : List token) (top : ast_node_type)
    (fuel : Nat) (hy : lexer_yields lexer (o :: ts))
    (ho : binary_operator_type o.type = some top)
    (hright : ∀ lexer1, lexer_yields lexer1 ts →
      ∃ r lexer2, parser_parse_expression_beginning fuel { parser with lexer := lexer1 }
          = some (r, { parser with lexer := lexer2 }) ∧
        r.success = false ∧ lexer_yields lexer2 rest) :
    ∃ r lexer1, parser_parse_expression (fuel + 2) { parser with lexer := lexer }
        = some (r, { parser with lexer := lexer1 }) ∧
      r.success = false ∧ lexer_yields lexer1 (o :: rest) := by
  obtain ⟨l1, hp1, hy1⟩ := lexer_yields_peek lexer o ts hy
  obtain ⟨l2, hn2, hy2⟩ := lexer_yields_next l1 o ts hy1
  obtain ⟨r, l3, h3, hf, hy3⟩ := hright l2 hy2
  obtain ⟨l4, hb4, hy4⟩ := lexer_yields_put_back l3 o rest hy3
  refine ⟨r, l4, ?_, hf, hy4⟩
  rw [parser_parse_expression]
  simp only [hp1, ho]
  rw [parse_binary_operator]
  simp only [hn2, h3, hf, if_true, hb4]

theorem parser_parse_primary_stops (parser : rouleaux_parser_t) (lexer : rouleaux_lexer)
    (c : token) (tail : List token) (type : ast_node_type) (fuel : Nat)
    (hy : lexer_yields lexer (c :: tail))
    (hc : primary_node_type c.type = some type)
    (hstop : stops_expression parser tail) :
    ∃ lexer1, parser_parse_expression_beginning (fuel + 4) { parser with lexer := lexer }
        = some (parse_result_success (leaf_node type c), { parser with lexer := lexer1 }) ∧
      lexer_yields lexer1 tail := by
  obtain ⟨⟨z, rest, htail, hz⟩, hfail⟩ := hstop
  subst htail
  obtain ⟨l1, hp1, hy1⟩ := lexer_yields_peek lexer c (z :: rest) hy
  obtain ⟨l2, hn2, hy2⟩ := lexer_yields_next l1 c (z :: rest) hy1
  have hnp := primary_not_paren c.type type hc
  by_cases hid : c.type = TOKEN_IDENTIFIER
  · obtain ⟨l3, hp3, hy3⟩ := lexer_yields_peek l2 z rest hy2
    obtain ⟨r, l4, hstop, hf, hy4⟩ := hfail l3 fuel hy3
    have hty : type = AST_IDENTIFIER := by
      simp only [primary_node_type, hid, if_true, Option.some.injEq] at hc
      exact hc.symm
    refine ⟨l4, ?_, hy4⟩
    rw [parser_parse_expression_beginning]
    simp only [hp1, if_neg hnp, if_pos hid, hn2, set_token, ast_node_create, hp3,
      if_neg hz, hstop, attach_left_operand_failure _ _ _ _ hf, hty, leaf_node]
  · obtain ⟨r, l4, hstop, hf, hy4⟩ := hfail l2 fuel hy2
    have hlit : literal_node_type c.type = some type := by
      simp only [primary_node_type, hid, if_false] at hc
      exact hc
    refine ⟨l4, ?_, hy4⟩
    rw [parser_parse_expression_beginning]
    simp only [hp1, if_neg hnp, if_neg hid, hlit, hn2, set_token, ast_node_create, hstop,
      attach_left_operand_failure _ _ _ _ hf, leaf_node]

theorem stops_at_other_token (parser : rouleaux_parser_t) (z : token) (rest : List token)
    (hz : binary_operator_type z.type = none) (hp : z.type ≠ TOKEN_LEFT_PAREN) :
    stops_expression parser (z :: rest) :=
  ⟨⟨z, rest, rfl, hp⟩, fun lexer fuel hy =>
    parser_parse_expression_stop parser lexer z rest (fuel + 2) hy hz⟩

theorem stops_at_dangling_operator (parser : rouleaux_parser_t) (o bad : token)
    (rest : List token) (top : ast_node_type)
    (ho : binary_operator_type o.type = some top)
    (h1 : bad.type ≠ TOKEN_LEFT_PAREN) (h2 : bad.type ≠ TOKEN_IDENTIFIER)
    (h3 : literal_node_type bad.type = none) :
    stops_expression parser (o :: bad :: rest) :=
  ⟨⟨o, bad :: rest, rfl, (binary_operator_not_primary o.type top ho).1⟩, fun lexer fuel hy =>
    parser_parse_expression_operand_fails parser lexer o (bad :: rest) (bad :: rest) top
      (fuel + 1) hy ho (fun lexer1 hy1 => by
        obtain ⟨l2, h, hy2⟩ := parser_parse_expression_beginning_bad_start parser lexer1 bad
          rest fuel hy1 h1 h2 h3
        exact ⟨_, l2, h, rfl, hy2⟩)⟩

theorem parses_chain (parser : rouleaux_parser_t) (tail : List token)
    (hstop : stops_expression parser tail) (fuel : Nat) :
    ∀ (pairs : List (token × token)) (last : token) (tree : ast_node),
      chain_tree pairs last = some tree →
      parses (parser_parse_expression_beginning (fuel + 3 * pairs.length + 4)) parser
        (chain_tokens pairs last ++ tail) (parse_result_success tree) tail
  | [], last, tree, h => by
    intro lexer hy
    simp only [chain_tree, Option.map_eq_some'] at h
    obtain ⟨type, hc, ht⟩ := h
    subst ht
    exact parser_parse_primary_stops parser lexer last tail type fuel hy hc hstop
  | (c, o) :: more, last, tree, h => by
    intro lexer hy
    simp only [chain_tree] at h
    cases hc : primary_node_type c.type with
    | none => simp [hc] at h
    | some tc =>
      cases ho : binary_operator_type o.type with
      | none => simp [hc, ho] at h
      | some top =>
        cases hr : chain_tree more last with
        | none => simp [hc, ho, hr] at h
        | some right =>
          simp only [hc, ho, hr, Option.map_eq_some'] at h
          obtain ⟨⟨rotated, root⟩, hfix, hroot⟩ := h
          simp only at hroot
          subst hroot
          have hright := parses_chain parser tail hstop fuel more last right hr
          have hfuel : fuel + 3 * ((c, o) :: more).length + 4
              = (fuel + 3 * more.length + 4) + 3 := by
            simp only [List.length_cons]; omega
          rw [hfuel]
          exact parser_parse_primary_then_operator parser lexer c o
            (chain_tokens more last ++ tail) tail tc top _ right root rotated hy hc ho
            hright hfix

theorem statement_end_other_message (parser : rouleaux_parser_t) (lexer : rouleaux_lexer)
    (r : parse_result) (t : token) (ts : List token) (hy : lexer_yields lexer (t :: ts))
    (ht : t.type ≠ TOKEN_SEMICOLON) :
    ∃ lexer1, statement_end r { parser with lexer := lexer }
        = some (parse_result_error t
            ("Expected end of statement, but got ('" ++ printable lexer1.file_content t ++ "')"),
            { parser with lexer := lexer1 }) ∧
      lexer_yields lexer1 (t :: ts) := by
  obtain ⟨l1, hc, hy1⟩ := check_statement_end_other parser lexer t ts hy ht
  obtain ⟨l2, hp2, hy2⟩ := lexer_yields_peek l1 t ts hy1
  refine ⟨l2, ?_, hy2⟩
  simp only [statement_end, hc, hp2]

theorem value_assignment_not_ended (parser : rouleaux_parser_t) (name eq t : token)
    (ts rest : List token) (e : parse_result) (fuel : Nat)
    (he : eq.type = TOKEN_EQUALS) (ht : t.type ≠ TOKEN_SEMICOLON) (hok : e.success = true)
    (hexpr : parses (parser_parse_expression_beginning fuel) parser ts e (t :: rest))
    (hy : lexer_yields parser.lexer (name :: eq :: ts)) :
    ∃ parser1, parser_parse_declaration_or_assignment (fuel + 1) parser
        = some (parse_result_error t
            ("Expected end of statement, but got ('" ++
              printable parser1.lexer.file_content t ++ "')"), parser1) ∧
      lexer_yields parser1.lexer (t :: rest) := by
  obtain ⟨l1, hn1, hy1⟩ := lexer_yields_next parser.lexer name (eq :: ts) hy
  obtain ⟨l2, hp2, hy2⟩ := lexer_yields_peek l1 eq ts hy1
  obtain ⟨l3, h3, hy3⟩ := parse_terminal_match parser eq ts
    TOKEN_EQUALS AST_VALUE_ASSIGNMENT "value assignment operator('=')" he l2 hy2
  obtain ⟨l4, h4, hy4⟩ := hexpr l3 hy3
  obtain ⟨l5, h5, hy5⟩ := statement_end_other_message parser l4
    (parse_result_success (binary_node AST_VALUE_ASSIGNMENT eq
      (leaf_node AST_IDENTIFIER name) e.resulting_tree)) t rest hy4 ht
  refine ⟨{ parser with lexer := l5 }, ?_, hy5⟩
  rw [parser_parse_declaration_or_assignment]
  simp only [hn1, hp2, ne_eq, eq_true he, not_true_eq_false, false_and, if_false, if_true,
    parser_parse_value_assignment_operator, h3, set_token, ast_node_create, parse_result_success,
    leaf_node, set_left_child, node_type_of, h4, hok, Bool.true_eq_false, set_right_child]
  simp only [parse_result_success, binary_node, leaf_node] at h5
  exact h5

theorem dangling_operator (parser : rouleaux_parser_t) (pairs : List (token × token))
    (last op bad name eq : token) (rest : List token) (tree : ast_node) (top : ast_node_type)
    (fuel : Nat)
    (hchain : chain_tree pairs last = some tree)
    (ho : binary_operator_type op.type = some top)
    (h1 : bad.type ≠ TOKEN_LEFT_PAREN) (h2 : bad.type ≠ TOKEN_IDENTIFIER)
    (h3 : literal_node_type bad.type = none)
    (he : eq.type = TOKEN_EQUALS) :
    parses (parser_parse_expression_beginning (fuel + 3 * pairs.length + 4)) parser
        (chain_tokens pairs last ++ op :: bad :: rest) (parse_result_success tree)
        (op :: bad :: rest) ∧
    (∀ z tail, binary_operator_type z.type = none → z.type ≠ TOKEN_LEFT_PAREN →
      parses (parser_parse_expression_beginning (fuel + 3 * pairs.length + 4)) parser
        (chain_tokens pairs last ++ z :: tail) (parse_result_success tree) (z :: tail)) ∧
    (lexer_yields parser.lexer (name :: eq :: (chain_tokens pairs last ++ op :: bad :: rest)) →
      ∃ parser1, parser_parse_declaration_or_assignment (fuel + 3 * pairs.length + 5) parser
          = some (parse_result_error op
              ("Expected end of statement, but got ('" ++
                printable parser1.lexer.file_content op ++ "')"), parser1) ∧
        lexer_yields parser1.lexer (op :: bad :: rest)) := by
  have hp := parses_chain parser (op :: bad :: rest)
    (stops_at_dangling_operator parser op bad rest top ho h1 h2 h3) fuel pairs last tree hchain
  refine ⟨hp, fun z tail hz hzp =>
    parses_chain parser (z :: tail) (stops_at_other_token parser z tail hz hzp) fuel pairs last
      tree hchain, fun hy => ?_⟩
  have hsemi : op.type ≠ TOKEN_SEMICOLON := by
    rcases binary_operator_type_cases op.type top ho with e | e | e | e | e | e | e <;>
      (rw [e]; decide)
  exact value_assignment_not_ended parser name eq op _ (bad :: rest)
    (parse_result_success tree) (fuel + 3 * pairs.length + 4) he hsemi rfl hp hy

/-- C39 (an operator without a right operand).  Let `p` be a chain
`c1 o1 c2 ... last` of identifier or literal operands and binary operators,
`tree` the tree the parser builds for it, `op` a binary operator and `bad` a
token that cannot start an expression.  On the tokens `p op bad ...`
`parser_parse_expression_beginning` succeeds with `tree`, the tree it returns
for `p` alone (for `p` followed by any token that is no operator and no `(`),
and leaves `op` as the next token of the lexer: the error of the operand is
dropped and `op` is put back.  The assignment `name = p op bad ...` then fails
with "Expected end of statement, but got ('<op>')" at the token `op`. -/
theorem dangling_operator_is_put_back (parser : rouleaux_parser_t)
    (pairs : List (token × token)) (last op bad name eq : token) (rest : List token)
    (tree : ast_node) (top : ast_node_type) (fuel : Nat)
    (hchain : chain_tree pairs last = some tree)
    (ho : binary_operator_type op.type = some top)
    (h1 : bad.type ≠ TOKEN_LEFT_PAREN) (h2 : bad.type ≠ TOKEN_IDENTIFIER)
    (h3 : literal_node_type bad.type = none)
    (he : eq.type = TOKEN_EQUALS) :
    parses (parser_parse_expression_beginning (fuel + 3 * pairs.length + 4)) parser
        (chain_tokens pairs last ++ op :: bad :: rest) (parse_result_success tree)
        (op :: bad :: rest) ∧
    (∀ z tail, binary_operator_type z.type = none → z.type ≠ TOKEN_LEFT_PAREN →
      parses (parser_parse_expression_beginning (fuel + 3 * pairs.length + 4)) parser
        (chain_tokens pairs last ++ z :: tail) (parse_result_success tree) (z :: tail)) ∧
    (lexer_yields parser.lexer (name :: eq :: (chain_tokens pairs last ++ op :: bad :: rest)) →
      ∃ parser1, parser_parse_declaration_or_assignment (fuel + 3 * pairs.length + 5) parser
          = some (parse_result_error op
              ("Expected end of statement, but got ('" ++
                printable parser1.lexer.file_content op ++ "')"), parser1) ∧
        lexer_yields parser1.lexer (op :: bad :: rest)) :=
  dangling_operator parser pairs last op bad name eq rest tree top fuel hchain ho h1 h2 h3 he

theorem dangling_operator_is_put_back_witness :
    ∃ parser1, parser_parse_declaration_or_assignment 5 (parser_create "f" (bytes "x = 1 + ;"))
        = some (parse_result_error (source_token "f" TOKEN_PLUS 6 1 1 7 token_value.zero)
            ("Expected end of statement, but got ('" ++
              printable parser1.lexer.file_content
                (source_token "f" TOKEN_PLUS 6 1 1 7 token_value.zero) ++ "')"), parser1) ∧
      lexer_yields parser1.lexer
        [source_token "f" TOKEN_PLUS 6 1 1 7 token_value.zero,
         source_token "f" TOKEN_SEMICOLON 8 1 1 9 token_value.zero,
         source_token "f" TOKEN_EOF 9 0 1 10 token_value.zero] := by
  have hr : lexer_next_tokens 6 (parser_create "f" (bytes "x = 1 + ;")).lexer
      = some ([source_token "f" TOKEN_IDENTIFIER 0 1 1 1 token_value.zero,
               source_token "f" TOKEN_EQUALS 2 1 1 3 token_value.zero,
               source_token "f" TOKEN_INTEGER_LITERAL 4 1 1 5 (token_value.unsigned64 1),
               source_token "f" TOKEN_PLUS 6 1 1 7 token_value.zero,
               source_token "f" TOKEN_SEMICOLON 8 1 1 9 token_value.zero,
               source_token "f" TOKEN_EOF 9 0 1 10 token_value.zero],
          { (parser_create "f" (bytes "x = 1 + ;")).lexer with
              head := 9, current_column := 10 }) := by
    decide
  have hy : lexer_yields (parser_create "f" (bytes "x = 1 + ;")).lexer
      [source_token "f" TOKEN_IDENTIFIER 0 1 1 1 token_value.zero,
       source_token "f" TOKEN_EQUALS 2 1 1 3 token_value.zero,
       source_token "f" TOKEN_INTEGER_LITERAL 4 1 1 5 (token_value.unsigned64 1),
       source_token "f" TOKEN_PLUS 6 1 1 7 token_value.zero,
       source_token "f" TOKEN_SEMICOLON 8 1 1 9 token_value.zero,
       source_token "f" TOKEN_EOF 9 0 1 10 token_value.zero] :=
    ⟨by decide, _, hr⟩
  exact (dangling_operator_is_put_back (parser_create "f" (bytes "x = 1 + ;")) []
    (source_token "f" TOKEN_INTEGER_LITERAL 4 1 1 5 (token_value.unsigned64 1))
    (source_token "f" TOKEN_PLUS 6 1 1 7 token_value.zero)
    (source_token "f" TOKEN_SEMICOLON 8 1 1 9 token_value.zero)
    (source_token "f" TOKEN_IDENTIFIER 0 1 1 1 token_value.zero)
    (source_token "f" TOKEN_EQUALS 2 1 1 3 token_value.zero)
    [source_token "f" TOKEN_EOF 9 0 1 10 token_value.zero]
    _ AST_BINARY_OPERATOR_PLUS 0 rfl rfl (by decide) (by decide) rfl rfl).2.2 hy
theorem expression_fails_at_start (parser : rouleaux_parser_t) (bad : token)
    (ts : List token) (fuel : Nat)
    (h1 : bad.type ≠ TOKEN_LEFT_PAREN) (h2 : bad.type ≠ TOKEN_IDENTIFIER)
    (h3 : literal_node_type bad.type = none) :
    fails_leaving (parser_parse_expression_beginning (fuel + 1)) parser (bad :: ts)
      (bad :: ts) := by
  intro lexer hy
  obtain ⟨l1, h, hy1⟩ := parser_parse_expression_beginning_bad_start parser lexer bad ts fuel
    hy h1 h2 h3
  exact ⟨_, l1, h, rfl, hy1⟩

theorem value_assignment_expression_fails (parser : rouleaux_parser_t) (name eq : token)
    (ts rest : List token) (fuel : Nat) (he : eq.type = TOKEN_EQUALS)
    (hexpr : fails_leaving (parser_parse_expression_beginning fuel) parser ts rest) :
    fails_leaving (parser_parse_declaration_or_assignment (fuel + 1)) parser
      (name :: eq :: ts) rest := by
  intro lexer hy
  obtain ⟨l1, hn1, hy1⟩ := lexer_yields_next lexer name (eq :: ts) hy
  obtain ⟨l2, hp2, hy2⟩ := lexer_yields_peek l1 eq ts hy1
  obtain ⟨l3, h3, hy3⟩ := parse_terminal_match parser eq ts
    TOKEN_EQUALS AST_VALUE_ASSIGNMENT "value assignment operator('=')" he l2 hy2
  obtain ⟨r, l4, h4, hf, hy4⟩ := hexpr l3 hy3
  refine ⟨r, l4, ?_, hf, hy4⟩
  rw [parser_parse_declaration_or_assignment]
  simp only [hn1, hp2, ne_eq, eq_true he, not_true_eq_false, false_and, if_false, if_true,
    parser_parse_value_assignment_operator, h3, set_token, ast_node_create, parse_result_success,
    leaf_node, set_left_child, node_type_of, h4, hf]

theorem statement_identifier_first_leaving (parser : rouleaux_parser_t) (t : token)
    (ts rest : List token) (fuel : Nat) (ht : t.type = TOKEN_IDENTIFIER)
    (h : fails_leaving (parser_parse_declaration_or_assignment fuel) parser (t :: ts) rest) :
    fails_leaving (parser_parse_statement (fuel + 1)) parser (t :: ts) rest := by
  intro lexer hy
  obtain ⟨l1, hp1, hy1⟩ := lexer_yields_peek lexer t ts hy
  obtain ⟨r, l2, h2, hf, hy2⟩ := h l1 hy1
  refine ⟨r, l2, ?_, hf, hy2⟩
  rw [parser_parse_statement]
  simp only [hp1, eq_true ht, if_true, h2]

theorem scope_first_statement_fails (parser : rouleaux_parser_t) (open_curly t : token)
    (ts rest : List token) (fuel : Nat)
    (ho : open_curly.type = TOKEN_LEFT_CURLY)
    (ht1 : t.type ≠ TOKEN_RIGHT_CURLY) (ht2 : t.type ≠ TOKEN_EOF)
    (h : fails_leaving (parser_parse_statement fuel) parser (t :: ts) rest) :
    fails_leaving (parser_parse_statement (fuel + 2)) parser (open_curly :: t :: ts) rest := by
  intro lexer hy
  obtain ⟨l1, hy1, h1⟩ := statement_scope_start parser lexer open_curly t ts (fuel + 1) hy ho
  obtain ⟨r, l2, h2, hf, hy2⟩ := h l1 hy1
  refine ⟨r, l2, ?_, hf, hy2⟩
  rw [h1, scope_loop]
  simp only [ne_eq, ht1, ht2, not_false_eq_true, and_self, if_true, h2, hf]

theorem function_declaration_body_fails (parser : rouleaux_parser_t)
    (ts body_ts rest : List token) (arrow identifier : token) (parameters : ast_node)
    (fuel : Nat)
    (hparams : parses (parser_parse_parameter_list fuel) parser ts
      (parse_result_success parameters) (arrow :: identifier :: body_ts))
    (ha : arrow.type = TOKEN_ARROW) (hi : identifier.type = TOKEN_IDENTIFIER)
    (hbody : fails_leaving (parser_parse_statement fuel) parser body_ts rest) :
    parses (parser_parse_function_declaration (fuel + 1)) parser ts
      (parse_result_success (leaf_node AST_IDENTIFIER identifier)) rest := by
  intro lexer hy
  obtain ⟨l1, h1, hy1⟩ := hparams lexer hy
  obtain ⟨l2, h2, hy2⟩ := parser_parse_return_type_tokens parser arrow identifier body_ts ha hi
    l1 hy1
  obtain ⟨r, l3, h3, hf, hy3⟩ := hbody l2 hy2
  refine ⟨l3, ?_, hy3⟩
  rw [parser_parse_function_declaration]
  simp only [h1, parse_result_success, Bool.true_eq_false, if_false, h2, h3, hf, if_true]

/-- C32 (a function whose body fails to parse), where the code fails it.  On
every token stream on which the parameter list and the return type
`-> identifier` parse and the statement of the body fails,
`parser_parse_function_declaration` does not return the error of the body: it
returns `return_type_result`, a success whose tree is the leaf of the return
type (a node it has destroyed just before). -/
theorem function_declaration_hides_body_failure (parser : rouleaux_parser_t)
    (ts body_ts rest : List token) (arrow identifier : token) (parameters : ast_node)
    (fuel : Nat)
    (hparams : parses (parser_parse_parameter_list fuel) parser ts
      (parse_result_success parameters) (arrow :: identifier :: body_ts))
    (ha : arrow.type = TOKEN_ARROW) (hi : identifier.type = TOKEN_IDENTIFIER)
    (hbody : fails_leaving (parser_parse_statement fuel) parser body_ts rest) :
    parses (parser_parse_function_declaration (fuel + 1)) parser ts
      (parse_result_success (leaf_node AST_IDENTIFIER identifier)) rest :=
  function_declaration_body_fails parser ts body_ts rest arrow identifier parameters fuel
    hparams ha hi hbody

theorem function_declaration_hides_body_failure_witness :
    parses (parser_parse_function_declaration 6) (parser_create "f" (bytes "g :: () -> int \x7b x = ; x = 1;"))
      [source_token "f" TOKEN_LEFT_PAREN 5 1 1 6 token_value.zero,
       source_token "f" TOKEN_RIGHT_PAREN 6 1 1 7 token_value.zero,
       source_token "f" TOKEN_ARROW 8 2 1 9 token_value.zero,
       source_token "f" TOKEN_IDENTIFIER 11 3 1 12 token_value.zero,
       source_token "f" TOKEN_LEFT_CURLY 15 1 1 16 token_value.zero,
       source_token "f" TOKEN_IDENTIFIER 17 1 1 18 token_value.zero,
       source_token "f" TOKEN_EQUALS 19 1 1 20 token_value.zero,
       source_token "f" TOKEN_SEMICOLON 21 1 1 22 token_value.zero,
       source_token "f" TOKEN_IDENTIFIER 23 1 1 24 token_value.zero,
       source_token "f" TOKEN_EQUALS 25 1 1 26 token_value.zero,
       source_token "f" TOKEN_INTEGER_LITERAL 27 1 1 28 (token_value.unsigned64 1),
       source_token "f" TOKEN_SEMICOLON 28 1 1 29 token_value.zero,
       source_token "f" TOKEN_EOF 29 0 1 30 token_value.zero]
      (parse_result_success (leaf_node AST_IDENTIFIER
        (source_token "f" TOKEN_IDENTIFIER 11 3 1 12 token_value.zero)))
      [source_token "f" TOKEN_SEMICOLON 21 1 1 22 token_value.zero,
       source_token "f" TOKEN_IDENTIFIER 23 1 1 24 token_value.zero,
       source_token "f" TOKEN_EQUALS 25 1 1 26 token_value.zero,
       source_token "f" TOKEN_INTEGER_LITERAL 27 1 1 28 (token_value.unsigned64 1),
       source_token "f" TOKEN_SEMICOLON 28 1 1 29 token_value.zero,
       source_token "f" TOKEN_EOF 29 0 1 30 token_value.zero] :=
  function_declaration_hides_body_failure _ _
    [source_token "f" TOKEN_LEFT_CURLY 15 1 1 16 token_value.zero,
     source_token "f" TOKEN_IDENTIFIER 17 1 1 18 token_value.zero,
     source_token "f" TOKEN_EQUALS 19 1 1 20 token_value.zero,
     source_token "f" TOKEN_SEMICOLON 21 1 1 22 token_value.zero,
     source_token "f" TOKEN_IDENTIFIER 23 1 1 24 token_value.zero,
     source_token "f" TOKEN_EQUALS 25 1 1 26 token_value.zero,
     source_token "f" TOKEN_INTEGER_LITERAL 27 1 1 28 (token_value.unsigned64 1),
     source_token "f" TOKEN_SEMICOLON 28 1 1 29 token_value.zero,
     source_token "f" TOKEN_EOF 29 0 1 30 token_value.zero]
    _ (source_token "f" TOKEN_ARROW 8 2 1 9 token_value.zero)
    (source_token "f" TOKEN_IDENTIFIER 11 3 1 12 token_value.zero) _ 5
    (parses_no_parameters _ _ _ _ 4 (by decide) (by decide)) (by decide) (by decide)
    (scope_first_statement_fails _ _ _ _ _ 3 (by decide) (by decide) (by decide)
      (statement_identifier_first_leaving _ _ _ _ 2 (by decide)
        (value_assignment_expression_fails _ _ _ _ _ 1 (by decide)
          (expression_fails_at_start _ _ _ 0 (by decide) (by decide) (by decide)))))

theorem body_failure_file_accepted :
    ∃ parser1, parser_parse_file 9 (parser_create "f" (bytes "g :: () -> int \x7b x = ; x = 1;"))
      = some (parse_result_success body_failure_file, parser1) := by
  have hr : lexer_next_tokens 16 (parser_create "f" (bytes "g :: () -> int \x7b x = ; x = 1;")).lexer
      = some ([source_token "f" TOKEN_IDENTIFIER 0 1 1 1 token_value.zero,
               source_token "f" TOKEN_COLON 2 1 1 3 token_value.zero,
               source_token "f" TOKEN_COLON 3 1 1 4 token_value.zero,
               source_token "f" TOKEN_LEFT_PAREN 5 1 1 6 token_value.zero,
               source_token "f" TOKEN_RIGHT_PAREN 6 1 1 7 token_value.zero,
               source_token "f" TOKEN_ARROW 8 2 1 9 token_value.zero,
               source_token "f" TOKEN_IDENTIFIER 11 3 1 12 token_value.zero,
               source_token "f" TOKEN_LEFT_CURLY 15 1 1 16 token_value.zero,
               source_token "f" TOKEN_IDENTIFIER 17 1 1 18 token_value.zero,
               source_token "f" TOKEN_EQUALS 19 1 1 20 token_value.zero,
               source_token "f" TOKEN_SEMICOLON 21 1 1 22 token_value.zero,
               source_token "f" TOKEN_IDENTIFIER 23 1 1 24 token_value.zero,
               source_token "f" TOKEN_EQUALS 25 1 1 26 token_value.zero,
               source_token "f" TOKEN_INTEGER_LITERAL 27 1 1 28 (token_value.unsigned64 1),
               source_token "f" TOKEN_SEMICOLON 28 1 1 29 token_value.zero,
               source_token "f" TOKEN_EOF 29 0 1 30 token_value.zero],
          { (parser_create "f" (bytes "g :: () -> int \x7b x = ; x = 1;")).lexer with
              head := 29, current_column := 30 }) := by
    decide
  have hy : lexer_yields (parser_create "f" (bytes "g :: () -> int \x7b x = ; x = 1;")).lexer
      [source_token "f" TOKEN_IDENTIFIER 0 1 1 1 token_value.zero,
       source_token "f" TOKEN_COLON 2 1 1 3 token_value.zero,
       source_token "f" TOKEN_COLON 3 1 1 4 token_value.zero,
       source_token "f" TOKEN_LEFT_PAREN 5 1 1 6 token_value.zero,
       source_token "f" TOKEN_RIGHT_PAREN 6 1 1 7 token_value.zero,
       source_token "f" TOKEN_ARROW 8 2 1 9 token_value.zero,
       source_token "f" TOKEN_IDENTIFIER 11 3 1 12 token_value.zero,
       source_token "f" TOKEN_LEFT_CURLY 15 1 1 16 token_value.zero,
       source_token "f" TOKEN_IDENTIFIER 17 1 1 18 token_value.zero,
       source_token "f" TOKEN_EQUALS 19 1 1 20 token_value.zero,
       source_token "f" TOKEN_SEMICOLON 21 1 1 22 token_value.zero,
       source_token "f" TOKEN_IDENTIFIER 23 1 1 24 token_value.zero,
       source_token "f" TOKEN_EQUALS 25 1 1 26 token_value.zero,
       source_token "f" TOKEN_INTEGER_LITERAL 27 1 1 28 (token_value.unsigned64 1),
       source_token "f" TOKEN_SEMICOLON 28 1 1 29 token_value.zero,
       source_token "f" TOKEN_EOF 29 0 1 30 token_value.zero] :=
    ⟨by decide, _, hr⟩
  have hfunction : parses (parser_parse_function_declaration 6) (parser_create "f" (bytes "g :: () -> int \x7b x = ; x = 1;"))
      [source_token "f" TOKEN_LEFT_PAREN 5 1 1 6 token_value.zero,
       source_token "f" TOKEN_RIGHT_PAREN 6 1 1 7 token_value.zero,
       source_token "f" TOKEN_ARROW 8 2 1 9 token_value.zero,
       source_token "f" TOKEN_IDENTIFIER 11 3 1 12 token_value.zero,
       source_token "f" TOKEN_LEFT_CURLY 15 1 1 16 token_value.zero,
       source_token "f" TOKEN_IDENTIFIER 17 1 1 18 token_value.zero,
       source_token "f" TOKEN_EQUALS 19 1 1 20 token_value.zero,
       source_token "f" TOKEN_SEMICOLON 21 1 1 22 token_value.zero,
       source_token "f" TOKEN_IDENTIFIER 23 1 1 24 token_value.zero,
       source_token "f" TOKEN_EQUALS 25 1 1 26 token_value.zero,
       source_token "f" TOKEN_INTEGER_LITERAL 27 1 1 28 (token_value.unsigned64 1),
       source_token "f" TOKEN_SEMICOLON 28 1 1 29 token_value.zero,
       source_token "f" TOKEN_EOF 29 0 1 30 token_value.zero]
      (parse_result_success (leaf_node AST_IDENTIFIER
        (source_token "f" TOKEN_IDENTIFIER 11 3 1 12 token_value.zero)))
      [source_token "f" TOKEN_SEMICOLON 21 1 1 22 token_value.zero,
       source_token "f" TOKEN_IDENTIFIER 23 1 1 24 token_value.zero,
       source_token "f" TOKEN_EQUALS 25 1 1 26 token_value.zero,
       source_token "f" TOKEN_INTEGER_LITERAL 27 1 1 28 (token_value.unsigned64 1),
       source_token "f" TOKEN_SEMICOLON 28 1 1 29 token_value.zero,
       source_token "f" TOKEN_EOF 29 0 1 30 token_value.zero] :=
    function_declaration_body_fails _ _
      [source_token "f" TOKEN_LEFT_CURLY 15 1 1 16 token_value.zero,
       source_token "f" TOKEN_IDENTIFIER 17 1 1 18 token_value.zero,
       source_token "f" TOKEN_EQUALS 19 1 1 20 token_value.zero,
       source_token "f" TOKEN_SEMICOLON 21 1 1 22 token_value.zero,
       source_token "f" TOKEN_IDENTIFIER 23 1 1 24 token_value.zero,
       source_token "f" TOKEN_EQUALS 25 1 1 26 token_value.zero,
       source_token "f" TOKEN_INTEGER_LITERAL 27 1 1 28 (token_value.unsigned64 1),
       source_token "f" TOKEN_SEMICOLON 28 1 1 29 token_value.zero,
       source_token "f" TOKEN_EOF 29 0 1 30 token_value.zero]
      _ (source_token "f" TOKEN_ARROW 8 2 1 9 token_value.zero)
      (source_token "f" TOKEN_IDENTIFIER 11 3 1 12 token_value.zero) _ 5
      (parses_no_parameters _ _ _ _ 4 (by decide) (by decide)) (by decide) (by decide)
      (scope_first_statement_fails _ _ _ _ _ 3 (by decide) (by decide) (by decide)
        (statement_identifier_first_leaving _ _ _ _ 2 (by decide)
          (value_assignment_expression_fails _ _ _ _ _ 1 (by decide)
            (expression_fails_at_start _ _ _ 0 (by decide) (by decide) (by decide)))))
  have hdecl : parses (parser_parse_statement 9) (parser_create "f" (bytes "g :: () -> int \x7b x = ; x = 1;"))
      [source_token "f" TOKEN_IDENTIFIER 0 1 1 1 token_value.zero,
       source_token "f" TOKEN_COLON 2 1 1 3 token_value.zero,
       source_token "f" TOKEN_COLON 3 1 1 4 token_value.zero,
       source_token "f" TOKEN_LEFT_PAREN 5 1 1 6 token_value.zero,
       source_token "f" TOKEN_RIGHT_PAREN 6 1 1 7 token_value.zero,
       source_token "f" TOKEN_ARROW 8 2 1 9 token_value.zero,
       source_token "f" TOKEN_IDENTIFIER 11 3 1 12 token_value.zero,
       source_token "f" TOKEN_LEFT_CURLY 15 1 1 16 token_value.zero,
       source_token "f" TOKEN_IDENTIFIER 17 1 1 18 token_value.zero,
       source_token "f" TOKEN_EQUALS 19 1 1 20 token_value.zero,
       source_token "f" TOKEN_SEMICOLON 21 1 1 22 token_value.zero,
       source_token "f" TOKEN_IDENTIFIER 23 1 1 24 token_value.zero,
       source_token "f" TOKEN_EQUALS 25 1 1 26 token_value.zero,
       source_token "f" TOKEN_INTEGER_LITERAL 27 1 1 28 (token_value.unsigned64 1),
       source_token "f" TOKEN_SEMICOLON 28 1 1 29 token_value.zero,
       source_token "f" TOKEN_EOF 29 0 1 30 token_value.zero]
      (parse_result_success (binary_node AST_CONST_ASSIGNMENT
        (source_token "f" TOKEN_COLON 3 1 1 4 token_value.zero)
        (binary_node AST_TYPE_ASSIGNMENT (source_token "f" TOKEN_COLON 2 1 1 3 token_value.zero)
          (leaf_node AST_IDENTIFIER (source_token "f" TOKEN_IDENTIFIER 0 1 1 1 token_value.zero))
          ast_node.null)
        (leaf_node AST_IDENTIFIER (source_token "f" TOKEN_IDENTIFIER 11 3 1 12 token_value.zero))))
      [source_token "f" TOKEN_IDENTIFIER 23 1 1 24 token_value.zero,
       source_token "f" TOKEN_EQUALS 25 1 1 26 token_value.zero,
       source_token "f" TOKEN_INTEGER_LITERAL 27 1 1 28 (token_value.unsigned64 1),
       source_token "f" TOKEN_SEMICOLON 28 1 1 29 token_value.zero,
       source_token "f" TOKEN_EOF 29 0 1 30 token_value.zero] :=
    statement_identifier_first _ _ _ _ _ 8 (by decide)
      (declaration_untyped_tokens _ _ (source_token "f" TOKEN_COLON 2 1 1 3 token_value.zero)
        (source_token "f" TOKEN_COLON 3 1 1 4 token_value.zero)
        (source_token "f" TOKEN_SEMICOLON 21 1 1 22 token_value.zero) _ _
        (parse_result_success (leaf_node AST_IDENTIFIER
          (source_token "f" TOKEN_IDENTIFIER 11 3 1 12 token_value.zero))) 5 AST_CONST_ASSIGNMENT
        (by decide) (Or.inl ⟨by decide, rfl⟩) (by decide) rfl
        (function_or_expression_no_parameters _ _ _ _ _ _ 6 (by decide) (by decide) hfunction))
  have hassign : parses (parser_parse_statement 9) (parser_create "f" (bytes "g :: () -> int \x7b x = ; x = 1;"))
      [source_token "f" TOKEN_IDENTIFIER 23 1 1 24 token_value.zero,
       source_token "f" TOKEN_EQUALS 25 1 1 26 token_value.zero,
       source_token "f" TOKEN_INTEGER_LITERAL 27 1 1 28 (token_value.unsigned64 1),
       source_token "f" TOKEN_SEMICOLON 28 1 1 29 token_value.zero,
       source_token "f" TOKEN_EOF 29 0 1 30 token_value.zero]
      (parse_result_success (binary_node AST_VALUE_ASSIGNMENT
        (source_token "f" TOKEN_EQUALS 25 1 1 26 token_value.zero)
        (leaf_node AST_IDENTIFIER (source_token "f" TOKEN_IDENTIFIER 23 1 1 24 token_value.zero))
        (leaf_node AST_INTEGER_LITERAL
          (source_token "f" TOKEN_INTEGER_LITERAL 27 1 1 28 (token_value.unsigned64 1)))))
      [source_token "f" TOKEN_EOF 29 0 1 30 token_value.zero] :=
    statement_identifier_first _ _ _ _ _ 8 (by decide)
      (value_assignment_tokens _ _ _ (source_token "f" TOKEN_SEMICOLON 28 1 1 29 token_value.zero) _ _
        (parse_result_success (leaf_node AST_INTEGER_LITERAL
          (source_token "f" TOKEN_INTEGER_LITERAL 27 1 1 28 (token_value.unsigned64 1)))) 7
        (by decide) (by decide) rfl
        (parses_primary_last _ _ _ _ AST_INTEGER_LITERAL 5 (by decide) (by decide) (by decide)))
  exact parser_parse_file_two_statements _ _ _ [] _ 6 _ _ rfl hy hdecl hassign (by decide)
theorem resolve_function_declaration_return_absent (mem : List Nat) (fuel : Nat)
    (table table1 : symbol_table) (t name : token) (params params1 body : ast_node)
    (children : node_list) (parens : Bool) (params_result : typing_result)
    (hp : resolve_types mem (fuel + 1) params table = some (params_result, params1, table1))
    (hs : params_result.success = true)
    (hn : symbol_table_find mem table1 name = some none) :
    resolve_types mem (fuel + 2)
        (ast_node.node AST_FUNCTION_DECLARATION t params (leaf_node AST_IDENTIFIER name) body
          children parens) table
      = some (params_result,
          ast_node.node AST_FUNCTION_DECLARATION t params1 (leaf_node AST_IDENTIFIER name) body
            children parens, table1) := by
  have hl := resolve_types_identifier mem fuel name table1
  simp only [leaf_node] at hl
  rw [resolve_identifier_absent mem _ _ _ _ _ _ _ _ hn] at hl
  simp only [leaf_node]
  rw [resolve_types]
  simp only [hp, hs, Bool.true_eq_false, if_false, hl, typing_result_error, if_true]

theorem unknown_return_type (mem : List Nat) (fuel : Nat)
    (table table1 : symbol_table) (t name declared op colon : token)
    (params params1 body : ast_node) (children : node_list) (parens : Bool)
    (params_result : typing_result)
    (hp : resolve_types mem (fuel + 1) params table = some (params_result, params1, table1))
    (hs : params_result.success = true)
    (hn : symbol_table_find mem table1 name = some none)
    (hd : symbol_table_find mem table1 declared = some none) (hr : readable mem declared) :
    resolve_types mem (fuel + 2)
        (ast_node.node AST_FUNCTION_DECLARATION t params (leaf_node AST_IDENTIFIER name) body
          children parens) table
      = some (params_result,
          ast_node.node AST_FUNCTION_DECLARATION t params1 (leaf_node AST_IDENTIFIER name) body
            children parens, table1) ∧
    resolve_types mem (fuel + 3)
        (binary_node AST_CONST_ASSIGNMENT op
          (binary_node AST_TYPE_ASSIGNMENT colon (leaf_node AST_IDENTIFIER declared)
            ast_node.null)
          (ast_node.node AST_FUNCTION_DECLARATION t params (leaf_node AST_IDENTIFIER name) body
            children parens)) table
      = some (typing_result_success params_result.type,
          binary_node AST_CONST_ASSIGNMENT { op with typing_information := params_result.type }
            (binary_node AST_TYPE_ASSIGNMENT
              { colon with typing_information := params_result.type }
              (leaf_node AST_IDENTIFIER
                { declared with typing_information := params_result.type })
              ast_node.null)
            (ast_node.node AST_FUNCTION_DECLARATION t params1 (leaf_node AST_IDENTIFIER name)
              body children parens),
          with_symbol table1
            { t := { declared with typing_information := params_result.type },
              type := params_result.type, is_constant := true,
              function_decl_node :=
                if params_result.type = TYPE_INFO_FUNCTION then
                  some (ast_node.node AST_FUNCTION_DECLARATION t params1
                    (leaf_node AST_IDENTIFIER name) body children parens)
                else none }) :=
  ⟨resolve_function_declaration_return_absent mem fuel table table1 t name params params1 body
      children parens params_result hp hs hn,
    resolve_deduced_declaration mem (fuel + 2) table table1 AST_CONST_ASSIGNMENT true op colon
      declared _ _ params_result (Or.inl ⟨rfl, rfl⟩)
      (resolve_function_declaration_return_absent mem fuel table table1 t name params params1
        body children parens params_result hp hs hn) hs hd hr⟩

/-- C33 (a function whose return type is unknown), where the code fails it.
Let the parameters of a FUNCTION_DECLARATION resolve successfully, leaving the
table `table1` in which the return type `name` is absent.  `resolve_types`
does not return the error of the return type: it returns `params_result`, a
success.  A declaration `declared :: (function)` of a new name then succeeds
as well and adds `declared` to the table, constant, with the type of
`params_result` (UNKNOWN for a parameter list). -/
theorem unknown_return_type_is_accepted (mem : List Nat) (fuel : Nat)
    (table table1 : symbol_table) (t name declared op colon : token)
    (params params1 body : ast_node) (children : node_list) (parens : Bool)
    (params_result : typing_result)
    (hp : resolve_types mem (fuel + 1) params table = some (params_result, params1, table1))
    (hs : params_result.success = true)
    (hn : symbol_table_find mem table1 name = some none)
    (hd : symbol_table_find mem table1 declared = some none) (hr : readable mem declared) :
    resolve_types mem (fuel + 2)
        (ast_node.node AST_FUNCTION_DECLARATION t params (leaf_node AST_IDENTIFIER name) body
          children parens) table
      = some (params_result,
          ast_node.node AST_FUNCTION_DECLARATION t params1 (leaf_node AST_IDENTIFIER name) body
            children parens, table1) ∧
    resolve_types mem (fuel + 3)
        (binary_node AST_CONST_ASSIGNMENT op
          (binary_node AST_TYPE_ASSIGNMENT colon (leaf_node AST_IDENTIFIER declared)
            ast_node.null)
          (ast_node.node AST_FUNCTION_DECLARATION t params (leaf_node AST_IDENTIFIER name) body
            children parens)) table
      = some (typing_result_success params_result.type,
          binary_node AST_CONST_ASSIGNMENT { op with typing_information := params_result.type }
            (binary_node AST_TYPE_ASSIGNMENT
              { colon with typing_information := params_result.type }
              (leaf_node AST_IDENTIFIER
                { declared with typing_information := params_result.type })
              ast_node.null)
            (ast_node.node AST_FUNCTION_DECLARATION t params1 (leaf_node AST_IDENTIFIER name)
              body children parens),
          with_symbol table1
            { t := { declared with typing_information := params_result.type },
              type := params_result.type, is_constant := true,
              function_decl_node :=
                if params_result.type = TYPE_INFO_FUNCTION then
                  some (ast_node.node AST_FUNCTION_DECLARATION t params1
                    (leaf_node AST_IDENTIFIER name) body children parens)
                else none }) :=
  unknown_return_type mem fuel table table1 t name declared op colon params params1 body
    children parens params_result hp hs hn hd hr

theorem unknown_return_type_is_accepted_witness :
    ∃ tree,
      resolve_types (bytes "g :: () -> foo {};") 4 unknown_return_declaration fresh_symbol_table
        = some (typing_result_success TYPE_INFO_UNKNOWN, tree,
            with_symbol fresh_symbol_table
              { t := source_token "f" TOKEN_IDENTIFIER 0 1 1 1 token_value.zero,
                type := TYPE_INFO_UNKNOWN, is_constant := true, function_decl_node := none }) :=
  ⟨_, (unknown_return_type_is_accepted (bytes "g :: () -> foo {};") 1 fresh_symbol_table
    fresh_symbol_table token_zero
    (source_token "f" TOKEN_IDENTIFIER 11 3 1 12 token_value.zero)
    (source_token "f" TOKEN_IDENTIFIER 0 1 1 1 token_value.zero)
    (source_token "f" TOKEN_COLON 3 1 1 4 token_value.zero)
    (source_token "f" TOKEN_COLON 2 1 1 3 token_value.zero)
    (many_node AST_PARAMETER_LIST node_list_create) _
    (many_node AST_SCOPE node_list_create) node_list.nil false
    (typing_result_success TYPE_INFO_UNKNOWN) rfl rfl rfl rfl (by decide)).2⟩

theorem unknown_return_file_parses :
    ∃ parser1, parser_parse_file 6 (parser_create "f" (bytes "g :: () -> foo {};"))
      = some (parse_result_success (many_node AST_SCOPE
          (node_list.cons unknown_return_declaration
            (node_list.cons (leaf_node AST_EOF token_zero) node_list.nil))), parser1) := by
  have hr : lexer_next_tokens 11 (parser_create "f" (bytes "g :: () -> foo {};")).lexer
      = some ([source_token "f" TOKEN_IDENTIFIER 0 1 1 1 token_value.zero,
               source_token "f" TOKEN_COLON 2 1 1 3 token_value.zero,
               source_token "f" TOKEN_COLON 3 1 1 4 token_value.zero,
               source_token "f" TOKEN_LEFT_PAREN 5 1 1 6 token_value.zero,
               source_token "f" TOKEN_RIGHT_PAREN 6 1 1 7 token_value.zero,
               source_token "f" TOKEN_ARROW 8 2 1 9 token_value.zero,
               source_token "f" TOKEN_IDENTIFIER 11 3 1 12 token_value.zero,
               source_token "f" TOKEN_LEFT_CURLY 15 1 1 16 token_value.zero,
               source_token "f" TOKEN_RIGHT_CURLY 16 1 1 17 token_value.zero,
               source_token "f" TOKEN_SEMICOLON 17 1 1 18 token_value.zero,
               source_token "f" TOKEN_EOF 18 0 1 19 token_value.zero],
          { (parser_create "f" (bytes "g :: () -> foo {};")).lexer with
              head := 18, current_column := 19 }) := by
    decide
  have hy : lexer_yields (parser_create "f" (bytes "g :: () -> foo {};")).lexer
      [source_token "f" TOKEN_IDENTIFIER 0 1 1 1 token_value.zero,
       source_token "f" TOKEN_COLON 2 1 1 3 token_value.zero,
       source_token "f" TOKEN_COLON 3 1 1 4 token_value.zero,
       source_token "f" TOKEN_LEFT_PAREN 5 1 1 6 token_value.zero,
       source_token "f" TOKEN_RIGHT_PAREN 6 1 1 7 token_value.zero,
       source_token "f" TOKEN_ARROW 8 2 1 9 token_value.zero,
       source_token "f" TOKEN_IDENTIFIER 11 3 1 12 token_value.zero,
       source_token "f" TOKEN_LEFT_CURLY 15 1 1 16 token_value.zero,
       source_token "f" TOKEN_RIGHT_CURLY 16 1 1 17 token_value.zero,
       source_token "f" TOKEN_SEMICOLON 17 1 1 18 token_value.zero,
       source_token "f" TOKEN_EOF 18 0 1 19 token_value.zero] :=
    ⟨by decide, _, hr⟩
  have h1 : parses (parser_parse_statement 6) (parser_create "f" (bytes "g :: () -> foo {};"))
      [source_token "f" TOKEN_IDENTIFIER 0 1 1 1 token_value.zero,
       source_token "f" TOKEN_COLON 2 1 1 3 token_value.zero,
       source_token "f" TOKEN_COLON 3 1 1 4 token_value.zero,
       source_token "f" TOKEN_LEFT_PAREN 5 1 1 6 token_value.zero,
       source_token "f" TOKEN_RIGHT_PAREN 6 1 1 7 token_value.zero,
       source_token "f" TOKEN_ARROW 8 2 1 9 token_value.zero,
       source_token "f" TOKEN_IDENTIFIER 11 3 1 12 token_value.zero,
       source_token "f" TOKEN_LEFT_CURLY 15 1 1 16 token_value.zero,
       source_token "f" TOKEN_RIGHT_CURLY 16 1 1 17 token_value.zero,
       source_token "f" TOKEN_SEMICOLON 17 1 1 18 token_value.zero,
       source_token "f" TOKEN_EOF 18 0 1 19 token_value.zero]
      (parse_result_success unknown_return_declaration)
      [source_token "f" TOKEN_EOF 18 0 1 19 token_value.zero] :=
    statement_identifier_first _ _ _ _ _ 5 (by decide)
      (declaration_untyped_tokens _ _ (source_token "f" TOKEN_COLON 2 1 1 3 token_value.zero)
        (source_token "f" TOKEN_COLON 3 1 1 4 token_value.zero)
        (source_token "f" TOKEN_SEMICOLON 17 1 1 18 token_value.zero) _ _
        (parse_result_success (ast_node.node AST_FUNCTION_DECLARATION token_zero
          (many_node AST_PARAMETER_LIST node_list_create)
          (leaf_node AST_IDENTIFIER (source_token "f" TOKEN_IDENTIFIER 11 3 1 12 token_value.zero))
          (many_node AST_SCOPE node_list_create) node_list.nil false)) 2 AST_CONST_ASSIGNMENT
        (by decide) (Or.inl ⟨by decide, rfl⟩) (by decide) rfl
        (function_or_expression_no_parameters _ _ _ _ _ _ 3 (by decide) (by decide)
          (parser_parse_function_declaration_tokens _ _ _ _ _ _ _ _ 2
            (parses_no_parameters _ _ _ _ 1 (by decide) (by decide)) (by decide) (by decide)
            (parses_empty_scope _ _ _ _ 0 (by decide) (by decide)))))
  obtain ⟨p1, hp⟩ := parser_parse_file_one_statement _ _ [] _ 4 _ rfl hy h1 (by decide)
  exact ⟨p1, hp⟩

theorem unknown_return_file_resolves :
    ∃ tree,
      resolve_types (bytes "g :: () -> foo {};") 6
          (many_node AST_SCOPE
            (node_list.cons unknown_return_declaration
              (node_list.cons (leaf_node AST_EOF token_zero) node_list.nil)))
          fresh_symbol_table
        = some (typing_result_success TYPE_INFO_UNKNOWN, tree,
            with_symbol fresh_symbol_table
              { t := source_token "f" TOKEN_IDENTIFIER 0 1 1 1 token_value.zero,
                type := TYPE_INFO_UNKNOWN, is_constant := true, function_decl_node := none }) :=
  ⟨_, rfl⟩

theorem declaration_loop_type_names (parser : rouleaux_parser_t) (types : List token)
    (op : token) (ts : List token) (fuel : Nat) (declaration_type : ast_node_type)
    (ht : ∀ t ∈ types, t.type = TOKEN_IDENTIFIER)
    (ho : op.type = TOKEN_COLON ∧ declaration_type = AST_CONST_ASSIGNMENT ∨
      op.type = TOKEN_EQUALS ∧ declaration_type = AST_VALUE_ASSIGNMENT) :
    ∀ (lexer : rouleaux_lexer) (identifier_result : parse_result),
      lexer_yields lexer (types ++ op :: ts) →
      ∃ lexer1, declaration_loop (fuel + types.length + 1) { parser with lexer := lexer }
          identifier_result
          = some (declaration_loop_exit.found
              (types.foldl (fun _ t => parse_result_success (leaf_node AST_IDENTIFIER t))
                identifier_result)
              (parse_result_success (leaf_node declaration_type op)),
              { parser with lexer := lexer1 }) ∧
        lexer_yields lexer1 ts := by
  induction types with
  | nil =>
    intro lexer identifier_result hy
    exact declaration_loop_operator parser lexer identifier_result op ts fuel declaration_type
      hy ho
  | cons t types ih =>
    intro lexer identifier_result hy
    obtain ⟨l1, hy1, h1⟩ := declaration_loop_identifier parser lexer identifier_result t
      (types ++ op :: ts) (fuel + types.length + 1) hy (ht t (List.mem_cons_self _ _))
    obtain ⟨l2, h2, hy2⟩ := ih (fun t1 h => ht t1 (List.mem_cons_of_mem _ h)) l1
      (parse_result_success (leaf_node AST_IDENTIFIER t)) hy1
    refine ⟨l2, ?_, hy2⟩
    have e : fuel + (t :: types).length + 1 = fuel + types.length + 1 + 1 := by
      simp only [List.length_cons]; omega
    rw [e, h1, h2]
    rfl

theorem declaration_type_names (parser : rouleaux_parser_t) (name colon last op semi : token)
    (types ts rest : List token) (e : parse_result) (fuel : Nat)
    (declaration_type : ast_node_type)
    (hc : colon.type = TOKEN_COLON) (ht : ∀ t ∈ types, t.type = TOKEN_IDENTIFIER)
    (hl : last.type = TOKEN_IDENTIFIER)
    (ho : op.type = TOKEN_COLON ∧ declaration_type = AST_CONST_ASSIGNMENT ∨
      op.type = TOKEN_EQUALS ∧ declaration_type = AST_VALUE_ASSIGNMENT)
    (hs : semi.type = TOKEN_SEMICOLON) (hok : e.success = true)
    (hexpr : parses (parser_parse_function_or_expression (fuel + types.length + 2)) parser ts e
      (semi :: rest)) :
    parses (parser_parse_declaration_or_assignment (fuel + types.length + 3)) parser
      (name :: colon :: (types ++ last :: op :: ts))
      (parse_result_success (binary_node declaration_type op
        (binary_node AST_TYPE_ASSIGNMENT colon (leaf_node AST_IDENTIFIER name)
          (leaf_node AST_IDENTIFIER last))
        e.resulting_tree)) rest := by
  have hall : ∀ t ∈ types ++ [last], t.type = TOKEN_IDENTIFIER := by
    intro t h
    rcases List.mem_append.1 h with h1 | h1
    · exact ht t h1
    · rw [List.mem_singleton.1 h1]; exact hl
  have h := declaration_tokens parser name colon op semi (types ++ [last]) ts rest
    (parse_result_success (leaf_node AST_IDENTIFIER last)) e (fuel + types.length + 2)
    declaration_type hc
    (fun lexer hy => by
      have h1 := declaration_loop_type_names parser (types ++ [last]) op ts fuel
        declaration_type hall ho lexer parse_result_zero hy
      simp only [List.length_append, List.length_singleton, List.foldl_append, List.foldl_cons,
        List.foldl_nil] at h1
      exact h1)
    hs hok hexpr
  simp only [List.append_assoc, List.singleton_append] at h
  exact h

/-- C35 (at most one type name in a declaration), where the code fails it.
The `do ... while` loop of `parser_parse_declaration_or_assignment` takes
every identifier it meets and keeps the last one.  Let `types` be any list of
identifier tokens (one or more for the streams of the claim) and `last` one
more identifier, `op` a `:` or `=`, and let the right-hand side parse
successfully on `ts`, leaving `; rest`.  On the stream
`name : types... last op ts` the function returns no parse error: it returns
the declaration whose type name is `last`, and leaves `rest`. -/
theorem declaration_accepts_type_names (parser : rouleaux_parser_t)
    (name colon last op semi : token) (types ts rest : List token) (e : parse_result)
    (fuel : Nat) (declaration_type : ast_node_type)
    (hc : colon.type = TOKEN_COLON) (ht : ∀ t ∈ types, t.type = TOKEN_IDENTIFIER)
    (hl : last.type = TOKEN_IDENTIFIER)
    (ho : op.type = TOKEN_COLON ∧ declaration_type = AST_CONST_ASSIGNMENT ∨
      op.type = TOKEN_EQUALS ∧ declaration_type = AST_VALUE_ASSIGNMENT)
    (hs : semi.type = TOKEN_SEMICOLON) (hok : e.success = true)
    (hexpr : parses (parser_parse_function_or_expression (fuel + types.length + 2)) parser ts e
      (semi :: rest)) :
    parses (parser_parse_declaration_or_assignment (fuel + types.length + 3)) parser
      (name :: colon :: (types ++ last :: op :: ts))
      (parse_result_success (binary_node declaration_type op
        (binary_node AST_TYPE_ASSIGNMENT colon (leaf_node AST_IDENTIFIER name)
          (leaf_node AST_IDENTIFIER last))
        e.resulting_tree)) rest :=
  declaration_type_names parser name colon last op semi types ts rest e fuel declaration_type
    hc ht hl ho hs hok hexpr

theorem declaration_accepts_type_names_witness :
    ∃ parser1, parser_parse_declaration_or_assignment 5 (parser_create "f" (bytes "x : int float = 3;"))
        = some (parse_result_success (binary_node AST_VALUE_ASSIGNMENT
            (source_token "f" TOKEN_EQUALS 14 1 1 15 token_value.zero)
            (binary_node AST_TYPE_ASSIGNMENT
              (source_token "f" TOKEN_COLON 2 1 1 3 token_value.zero)
              (leaf_node AST_IDENTIFIER (source_token "f" TOKEN_IDENTIFIER 0 1 1 1 token_value.zero))
              (leaf_node AST_IDENTIFIER (source_token "f" TOKEN_IDENTIFIER 8 5 1 9 token_value.zero)))
            (leaf_node AST_INTEGER_LITERAL
              (source_token "f" TOKEN_INTEGER_LITERAL 16 1 1 17 (token_value.unsigned64 3)))), parser1) ∧
      lexer_yields parser1.lexer [source_token "f" TOKEN_EOF 18 0 1 19 token_value.zero] := by
  have hr : lexer_next_tokens 8 (parser_create "f" (bytes "x : int float = 3;")).lexer
      = some ([source_token "f" TOKEN_IDENTIFIER 0 1 1 1 token_value.zero,
               source_token "f" TOKEN_COLON 2 1 1 3 token_value.zero,
               source_token "f" TOKEN_IDENTIFIER 4 3 1 5 token_value.zero,
               source_token "f" TOKEN_IDENTIFIER 8 5 1 9 token_value.zero,
               source_token "f" TOKEN_EQUALS 14 1 1 15 token_value.zero,
               source_token "f" TOKEN_INTEGER_LITERAL 16 1 1 17 (token_value.unsigned64 3),
               source_token "f" TOKEN_SEMICOLON 17 1 1 18 token_value.zero,
               source_token "f" TOKEN_EOF 18 0 1 19 token_value.zero],
          { (parser_create "f" (bytes "x : int float = 3;")).lexer with
              head := 18, current_column := 19 }) := by
    decide
  have hy : lexer_yields (parser_create "f" (bytes "x : int float = 3;")).lexer
      [source_token "f" TOKEN_IDENTIFIER 0 1 1 1 token_value.zero,
       source_token "f" TOKEN_COLON 2 1 1 3 token_value.zero,
       source_token "f" TOKEN_IDENTIFIER 4 3 1 5 token_value.zero,
       source_token "f" TOKEN_IDENTIFIER 8 5 1 9 token_value.zero,
       source_token "f" TOKEN_EQUALS 14 1 1 15 token_value.zero,
       source_token "f" TOKEN_INTEGER_LITERAL 16 1 1 17 (token_value.unsigned64 3),
       source_token "f" TOKEN_SEMICOLON 17 1 1 18 token_value.zero,
       source_token "f" TOKEN_EOF 18 0 1 19 token_value.zero] :=
    ⟨by decide, _, hr⟩
  obtain ⟨l1, h1, hy1⟩ := declaration_accepts_type_names (parser_create "f" (bytes "x : int float = 3;"))
    (source_token "f" TOKEN_IDENTIFIER 0 1 1 1 token_value.zero)
    (source_token "f" TOKEN_COLON 2 1 1 3 token_value.zero)
    (source_token "f" TOKEN_IDENTIFIER 8 5 1 9 token_value.zero)
    (source_token "f" TOKEN_EQUALS 14 1 1 15 token_value.zero)
    (source_token "f" TOKEN_SEMICOLON 17 1 1 18 token_value.zero)
    [source_token "f" TOKEN_IDENTIFIER 4 3 1 5 token_value.zero]
    [source_token "f" TOKEN_INTEGER_LITERAL 16 1 1 17 (token_value.unsigned64 3),
     source_token "f" TOKEN_SEMICOLON 17 1 1 18 token_value.zero,
     source_token "f" TOKEN_EOF 18 0 1 19 token_value.zero]
    [source_token "f" TOKEN_EOF 18 0 1 19 token_value.zero]
    (parse_result_success (leaf_node AST_INTEGER_LITERAL
      (source_token "f" TOKEN_INTEGER_LITERAL 16 1 1 17 (token_value.unsigned64 3))))
    1 AST_VALUE_ASSIGNMENT rfl (by decide) rfl (Or.inr ⟨rfl, rfl⟩) rfl rfl
    (function_or_expression_no_paren _ _ _ _ _ 3 (by decide)
      (parses_primary_last _ _ _ _ _ 1 (by decide) (by decide) (by decide)))
    _ hy
  exact ⟨_, h1, hy1⟩

theorem two_type_names_file_accepted :
    ∃ parser1, parser_parse_file 7 (parser_create "f" (bytes "x : int float = 3;"))
      = some (parse_result_success (many_node AST_SCOPE
          (node_list.cons (binary_node AST_VALUE_ASSIGNMENT
            (source_token "f" TOKEN_EQUALS 14 1 1 15 token_value.zero)
            (binary_node AST_TYPE_ASSIGNMENT
              (source_token "f" TOKEN_COLON 2 1 1 3 token_value.zero)
              (leaf_node AST_IDENTIFIER (source_token "f" TOKEN_IDENTIFIER 0 1 1 1 token_value.zero))
              (leaf_node AST_IDENTIFIER (source_token "f" TOKEN_IDENTIFIER 8 5 1 9 token_value.zero)))
            (leaf_node AST_INTEGER_LITERAL
              (source_token "f" TOKEN_INTEGER_LITERAL 16 1 1 17 (token_value.unsigned64 3))))
            (node_list.cons (leaf_node AST_EOF token_zero) node_list.nil))), parser1) := by
  have hr : lexer_next_tokens 8 (parser_create "f" (bytes "x : int float = 3;")).lexer
      = some ([source_token "f" TOKEN_IDENTIFIER 0 1 1 1 token_value.zero,
               source_token "f" TOKEN_COLON 2 1 1 3 token_value.zero,
               source_token "f" TOKEN_IDENTIFIER 4 3 1 5 token_value.zero,
               source_token "f" TOKEN_IDENTIFIER 8 5 1 9 token_value.zero,
               source_token "f" TOKEN_EQUALS 14 1 1 15 token_value.zero,
               source_token "f" TOKEN_INTEGER_LITERAL 16 1 1 17 (token_value.unsigned64 3),
               source_token "f" TOKEN_SEMICOLON 17 1 1 18 token_value.zero,
               source_token "f" TOKEN_EOF 18 0 1 19 token_value.zero],
          { (parser_create "f" (bytes "x : int float = 3;")).lexer with
              head := 18, current_column := 19 }) := by
    decide
  have hy : lexer_yields (parser_create "f" (bytes "x : int float = 3;")).lexer
      [source_token "f" TOKEN_IDENTIFIER 0 1 1 1 token_value.zero,
       source_token "f" TOKEN_COLON 2 1 1 3 token_value.zero,
       source_token "f" TOKEN_IDENTIFIER 4 3 1 5 token_value.zero,
       source_token "f" TOKEN_IDENTIFIER 8 5 1 9 token_value.zero,
       source_token "f" TOKEN_EQUALS 14 1 1 15 token_value.zero,
       source_token "f" TOKEN_INTEGER_LITERAL 16 1 1 17 (token_value.unsigned64 3),
       source_token "f" TOKEN_SEMICOLON 17 1 1 18 token_value.zero,
       source_token "f" TOKEN_EOF 18 0 1 19 token_value.zero] :=
    ⟨by decide, _, hr⟩
  have h1 : parses (parser_parse_statement 7) (parser_create "f" (bytes "x : int float = 3;"))
      [source_token "f" TOKEN_IDENTIFIER 0 1 1 1 token_value.zero,
       source_token "f" TOKEN_COLON 2 1 1 3 token_value.zero,
       source_token "f" TOKEN_IDENTIFIER 4 3 1 5 token_value.zero,
       source_token "f" TOKEN_IDENTIFIER 8 5 1 9 token_value.zero,
       source_token "f" TOKEN_EQUALS 14 1 1 15 token_value.zero,
       source_token "f" TOKEN_INTEGER_LITERAL 16 1 1 17 (token_value.unsigned64 3),
       source_token "f" TOKEN_SEMICOLON 17 1 1 18 token_value.zero,
       source_token "f" TOKEN_EOF 18 0 1 19 token_value.zero]
      (parse_result_success (binary_node AST_VALUE_ASSIGNMENT
            (source_token "f" TOKEN_EQUALS 14 1 1 15 token_value.zero)
            (binary_node AST_TYPE_ASSIGNMENT
              (source_token "f" TOKEN_COLON 2 1 1 3 token_value.zero)
              (leaf_node AST_IDENTIFIER (source_token "f" TOKEN_IDENTIFIER 0 1 1 1 token_value.zero))
              (leaf_node AST_IDENTIFIER (source_token "f" TOKEN_IDENTIFIER 8 5 1 9 token_value.zero)))
            (leaf_node AST_INTEGER_LITERAL
              (source_token "f" TOKEN_INTEGER_LITERAL 16 1 1 17 (token_value.unsigned64 3)))))
      [source_token "f" TOKEN_EOF 18 0 1 19 token_value.zero] :=
    statement_identifier_first _ _ _ _ _ 6 (by decide)
      (declaration_type_names _
        (source_token "f" TOKEN_IDENTIFIER 0 1 1 1 token_value.zero)
        (source_token "f" TOKEN_COLON 2 1 1 3 token_value.zero)
        (source_token "f" TOKEN_IDENTIFIER 8 5 1 9 token_value.zero)
        (source_token "f" TOKEN_EQUALS 14 1 1 15 token_value.zero)
        (source_token "f" TOKEN_SEMICOLON 17 1 1 18 token_value.zero)
        [source_token "f" TOKEN_IDENTIFIER 4 3 1 5 token_value.zero]
        [source_token "f" TOKEN_INTEGER_LITERAL 16 1 1 17 (token_value.unsigned64 3),
         source_token "f" TOKEN_SEMICOLON 17 1 1 18 token_value.zero,
         source_token "f" TOKEN_EOF 18 0 1 19 token_value.zero]
        [source_token "f" TOKEN_EOF 18 0 1 19 token_value.zero]
        (parse_result_success (leaf_node AST_INTEGER_LITERAL
          (source_token "f" TOKEN_INTEGER_LITERAL 16 1 1 17 (token_value.unsigned64 3))))
        2 AST_VALUE_ASSIGNMENT rfl (by decide) rfl (Or.inr ⟨rfl, rfl⟩) rfl rfl
        (function_or_expression_no_paren _ _ _ _ _ 4 (by decide)
          (parses_primary_last _ _ _ _ _ 2 (by decide) (by decide) (by decide))))
  obtain ⟨p1, hp⟩ := parser_parse_file_one_statement _ _ [] _ 5 _ rfl hy h1 (by decide)
  exact ⟨p1, hp⟩

theorem peek_queue_push_shift_none (capacity : Nat) :
    ∀ (i : Nat) (buffer : List token), peek_queue_push_shift capacity i buffer = none := by
  intro i
  induction i with
  | zero => intro buffer; rfl
  | succ i ih =>
    intro buffer
    rw [peek_queue_push_shift]
    cases buffer[i + 1]? with
    | none => rfl
    | some b =>
      by_cases h : i + 2 < capacity ∧ i + 2 < buffer.length
      · simp only [h, and_self, if_true, ih]
      · simp only [h, if_false]

theorem peek_queue_push_occupied (queue : peek_queue) (t : token) (h : 0 < queue.size) :
    peek_queue_push queue t = none := by
  by_cases hc : queue.size + 1 ≥ queue.capacity
  · simp only [peek_queue_push, if_pos hc, reallocate_buffer_eq]
    simp only [Bool.true_eq_false, if_false, gt_iff_lt, h, if_true, peek_queue_push_shift_none]
  · simp only [peek_queue_push, if_neg hc]
    simp only [Bool.true_eq_false, if_false, gt_iff_lt, h, if_true, peek_queue_push_shift_none]

theorem peek_queue_push_cases (queue : peek_queue) (t : token) (h : peek_queue_wf queue) :
    (queue.size = 0 →
      ∃ queue1 queue2, peek_queue_push queue t = some (true, queue1) ∧
        queue1.size = queue.size + 1 ∧ peek_queue_contents queue1 = [t] ∧
        peek_queue_pop queue1 = some (true, some t, queue2) ∧ queue2.size = 0) ∧
    (0 < queue.size → peek_queue_push queue t = none) := by
  refine ⟨fun h0 => ?_, peek_queue_push_occupied queue t⟩
  obtain ⟨queue1, h1, hwf, hc⟩ := peek_queue_push_spec queue t h h0
  obtain ⟨queue2, h2, _, hc2, _, _⟩ := peek_queue_pop_spec queue1 [] t hwf hc
  have hl := peek_queue_contents_length queue1 hwf
  rw [hc] at hl
  have hl2 := peek_queue_contents_length queue2 (by assumption)
  rw [hc2] at hl2
  exact ⟨queue1, queue2, h1, by rw [h0]; exact hl.symm, hc, h2, hl2.symm⟩

/-- C36 (`peek_queue_push` appends at the back for every queue), where the
code fails it.  Let `queue` be a well-formed peek queue.  If it is empty,
`peek_queue_push` returns true, the size grows by one and the queue holds
exactly `t`: the next `peek_queue_pop` returns `t` and leaves the queue empty.
If it holds a token, the loop `for (u64 i = queue->size; i >= 0; --i)` has no
exit (every `u64` is `>= 0`): after the pass with `i = 0` it reads the block
at the index `2^64 - 1`, and `peek_queue_push` has no result. -/
theorem peek_queue_push_back (queue : peek_queue) (t : token) (h : peek_queue_wf queue) :
    (queue.size = 0 →
      ∃ queue1 queue2, peek_queue_push queue t = some (true, queue1) ∧
        queue1.size = queue.size + 1 ∧ peek_queue_contents queue1 = [t] ∧
        peek_queue_pop queue1 = some (true, some t, queue2) ∧ queue2.size = 0) ∧
    (0 < queue.size → peek_queue_push queue t = none) :=
  peek_queue_push_cases queue t h

theorem peek_queue_push_back_witness :
    peek_queue_push
        { buffer := (List.replicate 32 token_zero).set 0
            (source_token "f" TOKEN_IDENTIFIER 0 1 1 1 token_value.zero),
          size := 1, capacity := 32 }
        (source_token "f" TOKEN_EQUALS 2 1 1 3 token_value.zero) = none ∧
    ∃ queue1 queue2,
      peek_queue_push (peek_queue_create 32)
          (source_token "f" TOKEN_EQUALS 2 1 1 3 token_value.zero) = some (true, queue1) ∧
        queue1.size = (peek_queue_create 32).size + 1 ∧
        peek_queue_contents queue1
          = [source_token "f" TOKEN_EQUALS 2 1 1 3 token_value.zero] ∧
        peek_queue_pop queue1
          = some (true, some (source_token "f" TOKEN_EQUALS 2 1 1 3 token_value.zero),
              queue2) ∧
        queue2.size = 0 :=
  ⟨(peek_queue_push_back
      { buffer := (List.replicate 32 token_zero).set 0
          (source_token "f" TOKEN_IDENTIFIER 0 1 1 1 token_value.zero),
        size := 1, capacity := 32 }
      (source_token "f" TOKEN_EQUALS 2 1 1 3 token_value.zero) (by decide)).2 (by decide),
    (peek_queue_push_back (peek_queue_create 32)
      (source_token "f" TOKEN_EQUALS 2 1 1 3 token_value.zero) (by decide)).1 rfl⟩

theorem lexer_peek_token_traced_result (lexer : rouleaux_lexer) :
    (lexer_peek_token_traced lexer).1 = lexer_peek_token lexer := by
  simp only [lexer_peek_token_traced, lexer_peek_token]
  repeat' split
  all_goals rfl

theorem peek_queue_push_shifts_empty (queue : peek_queue) (h : queue.size = 0) :
    peek_queue_push_shifts queue = false := by
  by_cases hc : queue.size + 1 ≥ queue.capacity
  · simp only [peek_queue_push_shifts, if_pos hc, reallocate_buffer_eq]
    simp [h]
  · simp only [peek_queue_push_shifts, if_neg hc]
    simp [h]

theorem lexer_peek_token_traced_empty (lexer : rouleaux_lexer) (queue : peek_queue)
    (h : queue ∈ (lexer_peek_token_traced lexer).2) :
    lexer.peek_buffer.size = 0 ∧ queue = lexer.peek_buffer := by
  by_cases h0 : lexer.peek_buffer.size > 0
  · exfalso
    simp only [lexer_peek_token_traced, if_pos h0] at h
    repeat' split at h
    all_goals simp at h
  · have hi : lexer_next_token lexer = lexer_next_token_internal lexer := by
      simp only [lexer_next_token, if_neg h0]
    simp only [lexer_peek_token_traced, if_neg h0, hi] at h
    cases hn : lexer_next_token_internal lexer with
    | none => rw [hn] at h; simp at h
    | some r =>
      obtain ⟨t, lexer1⟩ := r
      have hq := lexer_next_token_internal_queue lexer lexer1 t hn
      rw [hn] at h
      simp only at h
      have hm : queue = lexer1.peek_buffer := by
        cases hp : peek_queue_push lexer1.peek_buffer t with
        | none => rw [hp] at h; simpa using h
        | some r => rw [hp] at h; simpa using h
      exact ⟨by omega, by rw [hm, hq]⟩

theorem lexer_calls_pushes_empty :
    ∀ (calls : List lexer_call) (lexer : rouleaux_lexer) (queue : peek_queue),
      queue ∈ lexer_calls_pushes calls lexer →
      queue.size = 0 ∧ peek_queue_push_shifts queue = false := by
  intro calls
  induction calls with
  | nil => intro lexer queue h; simp [lexer_calls_pushes] at h
  | cons c cs ih =>
    intro lexer queue h
    have hone : ∀ q, q ∈ (lexer_call_traced c lexer).2 → q.size = 0 := by
      intro q hq
      cases c with
      | next => simp [lexer_call_traced] at hq
      | put_back t => simp [lexer_call_traced] at hq
      | peek =>
        simp only [lexer_call_traced] at hq
        obtain ⟨h1, h2⟩ := lexer_peek_token_traced_empty lexer q hq
        rw [h2]; exact h1
    have hsz : queue.size = 0 := by
      rw [lexer_calls_pushes] at h
      cases hr : lexer_call_traced c lexer with
      | mk r queues =>
        rw [hr] at h hone
        cases r with
        | none => exact hone queue h
        | some lexer1 =>
          simp only at h
          rcases List.mem_append.1 h with h1 | h1
          · exact hone queue h1
          · exact (ih lexer1 queue h1).1
    exact ⟨hsz, peek_queue_push_shifts_empty queue hsz⟩

/-- C37 (the lexer pushes only on an empty queue).  For every lexer state, so
for the states `lexer_create` and `lexer_reset` leave and every state reached
from them, and every sequence of calls of `lexer_next_token`,
`lexer_peek_token` and `lexer_put_back_token`: each queue handed to
`peek_queue_push` during the sequence has size 0, and such a call does not
enter the loop that shifts the elements. -/
theorem lexer_pushes_on_empty_queue (calls : List lexer_call) (lexer : rouleaux_lexer)
    (queue : peek_queue) (h : queue ∈ lexer_calls_pushes calls lexer) :
    queue.size = 0 ∧ peek_queue_push_shifts queue = false :=
  lexer_calls_pushes_empty calls lexer queue h

theorem lexer_pushes_on_empty_queue_witness :
    lexer_calls_pushes
        [lexer_call.peek, lexer_call.next,
         lexer_call.put_back (source_token "f" TOKEN_IDENTIFIER 0 1 1 1 token_value.zero),
         lexer_call.peek, lexer_call.next, lexer_call.peek]
        (lexer_create "f" (bytes "x = 1;"))
      = [peek_queue_create 32,
         { buffer := (List.replicate 32 token_zero).set 0
            (source_token "f" TOKEN_IDENTIFIER 0 1 1 1 token_value.zero),
           size := 0, capacity := 32 }] ∧
    (peek_queue_create 32).size = 0 ∧
    peek_queue_push_shifts (peek_queue_create 32) = false :=
  ⟨by decide,
    lexer_pushes_on_empty_queue
      [lexer_call.peek, lexer_call.next,
       lexer_call.put_back (source_token "f" TOKEN_IDENTIFIER 0 1 1 1 token_value.zero),
       lexer_call.peek, lexer_call.next, lexer_call.peek]
      (lexer_create "f" (bytes "x = 1;")) (peek_queue_create 32) (by decide)⟩

theorem paren_not_closed (parser : rouleaux_parser_t) (lexer : rouleaux_lexer) (lp z : token)
    (ts rest : List token) (e : parse_result) (text : String) (fuel : Nat)
    (hy : lexer_yields lexer (lp :: ts))
    (hlp : lp.type = TOKEN_LEFT_PAREN) (hz : z.type ≠ TOKEN_RIGHT_PAREN)
    (hok : e.success = true) (hloc : location_printable_text lp.location = some text)
    (hinner : parses (parser_parse_expression_beginning fuel) parser ts e (z :: rest)) :
    ∃ lexer1, parser_parse_expression_beginning (fuel + 1) { parser with lexer := lexer }
        = some (parse_result_error z
            ("Expected a closing parenthesis, but got '" ++
              printable lexer1.file_content z ++
              "'. Expecting a closing parenthesis for opening found here [" ++ text ++ "]"),
            { parser with lexer := lexer1 }) ∧
      lexer_yields lexer1 (z :: rest) := by
  obtain ⟨l1, hp1, hy1⟩ := lexer_yields_peek lexer lp ts hy
  obtain ⟨l2, hn2, hy2⟩ := lexer_yields_next l1 lp ts hy1
  obtain ⟨l3, h3, hy3⟩ := hinner l2 hy2
  obtain ⟨l4, hp4, hy4⟩ := lexer_yields_peek l3 z rest hy3
  refine ⟨l4, ?_, hy4⟩
  rw [parser_parse_expression_beginning]
  simp only [hp1, if_pos hlp, hn2, h3, hok, Bool.true_eq_false, if_false, hp4, ne_eq, hz,
    not_false_eq_true, if_true, hloc]

theorem value_assignment_paren_not_closed (parser : rouleaux_parser_t) (name eq lp z : token)
    (ts rest : List token) (e : parse_result) (text : String) (fuel : Nat)
    (he : eq.type = TOKEN_EQUALS)
    (hlp : lp.type = TOKEN_LEFT_PAREN) (hz : z.type ≠ TOKEN_RIGHT_PAREN)
    (hok : e.success = true) (hloc : location_printable_text lp.location = some text)
    (hinner : parses (parser_parse_expression_beginning fuel) parser ts e (z :: rest))
    (hy : lexer_yields parser.lexer (name :: eq :: lp :: ts)) :
    ∃ parser1, parser_parse_declaration_or_assignment (fuel + 2) parser
        = some (parse_result_error z
            ("Expected a closing parenthesis, but got '" ++
              printable parser1.lexer.file_content z ++
              "'. Expecting a closing parenthesis for opening found here [" ++ text ++ "]"),
            parser1) ∧
      lexer_yields parser1.lexer (z :: rest) := by
  obtain ⟨l1, hn1, hy1⟩ := lexer_yields_next parser.lexer name (eq :: lp :: ts) hy
  obtain ⟨l2, hp2, hy2⟩ := lexer_yields_peek l1 eq (lp :: ts) hy1
  obtain ⟨l3, h3, hy3⟩ := parse_terminal_match parser eq (lp :: ts)
    TOKEN_EQUALS AST_VALUE_ASSIGNMENT "value assignment operator('=')" he l2 hy2
  obtain ⟨l4, h4, hy4⟩ := paren_not_closed parser l3 lp z ts rest e text fuel hy3 hlp hz hok
    hloc hinner
  refine ⟨{ parser with lexer := l4 }, ?_, hy4⟩
  rw [parser_parse_declaration_or_assignment]
  simp only [hn1, hp2, ne_eq, eq_true he, not_true_eq_false, false_and, if_false, if_true,
    parser_parse_value_assignment_operator, h3, set_token, ast_node_create, parse_result_success,
    leaf_node, set_left_child, node_type_of, h4, parse_result_error]

theorem primary_operand_fails (parser : rouleaux_parser_t) (c op : token)
    (ts rest : List token) (type top : ast_node_type) (fuel : Nat)
    (hc : primary_node_type c.type = some type)
    (ho : binary_operator_type op.type = some top)
    (hright : fails_leaving (parser_parse_expression_beginning fuel) parser ts rest) :
    parses (parser_parse_expression_beginning (fuel + 3)) parser (c :: op :: ts)
      (parse_result_success (leaf_node type c)) (op :: rest) := by
  intro lexer hy
  obtain ⟨l1, hp1, hy1⟩ := lexer_yields_peek lexer c (op :: ts) hy
  obtain ⟨l2, hn2, hy2⟩ := lexer_yields_next l1 c (op :: ts) hy1
  have hnp := primary_not_paren c.type type hc
  have hop := (binary_operator_not_primary op.type top ho).1
  by_cases hid : c.type = TOKEN_IDENTIFIER
  · obtain ⟨l3, hp3, hy3⟩ := lexer_yields_peek l2 op ts hy2
    obtain ⟨r, l4, hstop, hf, hy4⟩ := parser_parse_expression_operand_fails parser l3 op ts
      rest top fuel hy3 ho hright
    have hty : type = AST_IDENTIFIER := by
      simp only [primary_node_type, hid, if_true, Option.some.injEq] at hc
      exact hc.symm
    refine ⟨l4, ?_, hy4⟩
    rw [parser_parse_expression_beginning]
    simp only [hp1, if_neg hnp, if_pos hid, hn2, set_token, ast_node_create, hp3,
      if_neg hop, hstop, attach_left_operand_failure _ _ _ _ hf, hty, leaf_node]
  · obtain ⟨r, l4, hstop, hf, hy4⟩ := parser_parse_expression_operand_fails parser l2 op ts
      rest top fuel hy2 ho hright
    have hlit : literal_node_type c.type = some type := by
      simp only [primary_node_type, hid, if_false] at hc
      exact hc
    refine ⟨l4, ?_, hy4⟩
    rw [parser_parse_expression_beginning]
    simp only [hp1, if_neg hnp, if_neg hid, hlit, hn2, set_token, ast_node_create, hstop,
      attach_left_operand_failure _ _ _ _ hf, leaf_node]

theorem paren_not_closed_leaving (parser : rouleaux_parser_t) (lp z : token)
    (ts rest : List token) (e : parse_result) (text : String) (fuel : Nat)
    (hlp : lp.type = TOKEN_LEFT_PAREN) (hz : z.type ≠ TOKEN_RIGHT_PAREN)
    (hok : e.success = true) (hloc : location_printable_text lp.location = some text)
    (hinner : parses (parser_parse_expression_beginning fuel) parser ts e (z :: rest)) :
    fails_leaving (parser_parse_expression_beginning (fuel + 1)) parser (lp :: ts)
      (z :: rest) := by
  intro lexer hy
  obtain ⟨l1, h, hy1⟩ := paren_not_closed parser lexer lp z ts rest e text fuel hy hlp hz hok
    hloc hinner
  exact ⟨_, l1, h, rfl, hy1⟩

theorem missing_parenthesis (parser : rouleaux_parser_t) (name eq c op lp z : token)
    (ts rest : List token) (e : parse_result) (text : String) (type top : ast_node_type)
    (fuel : Nat)
    (he : eq.type = TOKEN_EQUALS)
    (hlp : lp.type = TOKEN_LEFT_PAREN) (hz : z.type ≠ TOKEN_RIGHT_PAREN)
    (hok : e.success = true) (hloc : location_printable_text lp.location = some text)
    (hinner : parses (parser_parse_expression_beginning fuel) parser ts e (z :: rest))
    (hc : primary_node_type c.type = some type)
    (ho : binary_operator_type op.type = some top) :
    (lexer_yields parser.lexer (name :: eq :: lp :: ts) →
      ∃ parser1, parser_parse_declaration_or_assignment (fuel + 2) parser
          = some (parse_result_error z
              ("Expected a closing parenthesis, but got '" ++
              printable parser1.lexer.file_content z ++
              "'. Expecting a closing parenthesis for opening found here [" ++ text ++ "]"),
              parser1) ∧
        lexer_yields parser1.lexer (z :: rest)) ∧
    (lexer_yields parser.lexer (name :: eq :: c :: op :: lp :: ts) →
      ∃ parser1, parser_parse_declaration_or_assignment (fuel + 5) parser
          = some (parse_result_error op
              ("Expected end of statement, but got ('" ++
                printable parser1.lexer.file_content op ++ "')"), parser1) ∧
        lexer_yields parser1.lexer (op :: z :: rest)) := by
  refine ⟨value_assignment_paren_not_closed parser name eq lp z ts rest e text fuel he hlp hz
    hok hloc hinner, fun hy => ?_⟩
  have hsemi : op.type ≠ TOKEN_SEMICOLON := by
    rcases binary_operator_type_cases op.type top ho with e | e | e | e | e | e | e <;>
      (rw [e]; decide)
  exact value_assignment_not_ended parser name eq op _ (z :: rest)
    (parse_result_success (leaf_node type c)) (fuel + 4) he hsemi rfl
    (primary_operand_fails parser c op (lp :: ts) (z :: rest) type top (fuel + 1) hc ho
      (paren_not_closed_leaving parser lp z ts rest e text fuel hlp hz hok hloc hinner))
    hy

/-- C34 (a missing closing parenthesis names its opener), where the code
fails it.  Let the tokens after a `(` parse as an expression and leave a
token `z` that is no `)`.  When the `(` starts the right-hand side of an
assignment, `name = ( ... z`, the statement fails at `z` with "Expected a
closing parenthesis", and the message holds the location of the `(`.  When
the `(` starts the right operand of an operator, `name = c op ( ... z`, that
error is dropped with the operand: the statement fails at `op` with "Expected
end of statement, but got ('<op>')", a message that names neither parenthesis,
and the tokens from `(` up to `z` are gone from the lexer. -/
theorem missing_parenthesis_after_operator (parser : rouleaux_parser_t)
    (name eq c op lp z : token) (ts rest : List token) (e : parse_result) (text : String)
    (type top : ast_node_type) (fuel : Nat)
    (he : eq.type = TOKEN_EQUALS)
    (hlp : lp.type = TOKEN_LEFT_PAREN) (hz : z.type ≠ TOKEN_RIGHT_PAREN)
    (hok : e.success = true) (hloc : location_printable_text lp.location = some text)
    (hinner : parses (parser_parse_expression_beginning fuel) parser ts e (z :: rest))
    (hc : primary_node_type c.type = some type)
    (ho : binary_operator_type op.type = some top) :
    (lexer_yields parser.lexer (name :: eq :: lp :: ts) →
      ∃ parser1, parser_parse_declaration_or_assignment (fuel + 2) parser
          = some (parse_result_error z
              ("Expected a closing parenthesis, but got '" ++
              printable parser1.lexer.file_content z ++
              "'. Expecting a closing parenthesis for opening found here [" ++ text ++ "]"),
              parser1) ∧
        lexer_yields parser1.lexer (z :: rest)) ∧
    (lexer_yields parser.lexer (name :: eq :: c :: op :: lp :: ts) →
      ∃ parser1, parser_parse_declaration_or_assignment (fuel + 5) parser
          = some (parse_result_error op
              ("Expected end of statement, but got ('" ++
                printable parser1.lexer.file_content op ++ "')"), parser1) ∧
        lexer_yields parser1.lexer (op :: z :: rest)) :=
  missing_parenthesis parser name eq c op lp z ts rest e text type top fuel he hlp hz hok hloc
    hinner hc ho

theorem missing_parenthesis_after_operator_witness :
    (∃ parser1, parser_parse_declaration_or_assignment 9 (parser_create "f" (bytes "x = (1 + 2;"))
        = some (parse_result_error (source_token "f" TOKEN_SEMICOLON 10 1 1 11 token_value.zero)
            ("Expected a closing parenthesis, but got '" ++
              printable parser1.lexer.file_content
                (source_token "f" TOKEN_SEMICOLON 10 1 1 11 token_value.zero) ++
              "'. Expecting a closing parenthesis for opening found here [" ++ "f:1:5" ++ "]"),
            parser1) ∧
      lexer_yields parser1.lexer
        [source_token "f" TOKEN_SEMICOLON 10 1 1 11 token_value.zero,
         source_token "f" TOKEN_EOF 11 0 1 12 token_value.zero]) ∧
    (∃ parser1, parser_parse_declaration_or_assignment 7 (parser_create "f" (bytes "x = 1 + (2;"))
        = some (parse_result_error (source_token "f" TOKEN_PLUS 6 1 1 7 token_value.zero)
            ("Expected end of statement, but got ('" ++
              printable parser1.lexer.file_content
                (source_token "f" TOKEN_PLUS 6 1 1 7 token_value.zero) ++ "')"), parser1) ∧
      lexer_yields parser1.lexer
        [source_token "f" TOKEN_PLUS 6 1 1 7 token_value.zero,
         source_token "f" TOKEN_SEMICOLON 10 1 1 11 token_value.zero,
         source_token "f" TOKEN_EOF 11 0 1 12 token_value.zero]) := by
  have hra : lexer_next_tokens 8 (parser_create "f" (bytes "x = (1 + 2;")).lexer
      = some ([source_token "f" TOKEN_IDENTIFIER 0 1 1 1 token_value.zero,
               source_token "f" TOKEN_EQUALS 2 1 1 3 token_value.zero,
               source_token "f" TOKEN_LEFT_PAREN 4 1 1 5 token_value.zero,
               source_token "f" TOKEN_INTEGER_LITERAL 5 1 1 6 (token_value.unsigned64 1),
               source_token "f" TOKEN_PLUS 7 1 1 8 token_value.zero,
               source_token "f" TOKEN_INTEGER_LITERAL 9 1 1 10 (token_value.unsigned64 2),
               source_token "f" TOKEN_SEMICOLON 10 1 1 11 token_value.zero,
               source_token "f" TOKEN_EOF 11 0 1 12 token_value.zero],
          { (parser_create "f" (bytes "x = (1 + 2;")).lexer with
              head := 11, current_column := 12 }) := by
    decide
  have hya : lexer_yields (parser_create "f" (bytes "x = (1 + 2;")).lexer
      [source_token "f" TOKEN_IDENTIFIER 0 1 1 1 token_value.zero,
       source_token "f" TOKEN_EQUALS 2 1 1 3 token_value.zero,
       source_token "f" TOKEN_LEFT_PAREN 4 1 1 5 token_value.zero,
       source_token "f" TOKEN_INTEGER_LITERAL 5 1 1 6 (token_value.unsigned64 1),
       source_token "f" TOKEN_PLUS 7 1 1 8 token_value.zero,
       source_token "f" TOKEN_INTEGER_LITERAL 9 1 1 10 (token_value.unsigned64 2),
       source_token "f" TOKEN_SEMICOLON 10 1 1 11 token_value.zero,
       source_token "f" TOKEN_EOF 11 0 1 12 token_value.zero] :=
    ⟨by decide, _, hra⟩
  have hrb : lexer_next_tokens 8 (parser_create "f" (bytes "x = 1 + (2;")).lexer
      = some ([source_token "f" TOKEN_IDENTIFIER 0 1 1 1 token_value.zero,
               source_token "f" TOKEN_EQUALS 2 1 1 3 token_value.zero,
               source_token "f" TOKEN_INTEGER_LITERAL 4 1 1 5 (token_value.unsigned64 1),
               source_token "f" TOKEN_PLUS 6 1 1 7 token_value.zero,
               source_token "f" TOKEN_LEFT_PAREN 8 1 1 9 token_value.zero,
               source_token "f" TOKEN_INTEGER_LITERAL 9 1 1 10 (token_value.unsigned64 2),
               source_token "f" TOKEN_SEMICOLON 10 1 1 11 token_value.zero,
               source_token "f" TOKEN_EOF 11 0 1 12 token_value.zero],
          { (parser_create "f" (bytes "x = 1 + (2;")).lexer with
              head := 11, current_column := 12 }) := by
    decide
  have hyb : lexer_yields (parser_create "f" (bytes "x = 1 + (2;")).lexer
      [source_token "f" TOKEN_IDENTIFIER 0 1 1 1 token_value.zero,
       source_token "f" TOKEN_EQUALS 2 1 1 3 token_value.zero,
       source_token "f" TOKEN_INTEGER_LITERAL 4 1 1 5 (token_value.unsigned64 1),
       source_token "f" TOKEN_PLUS 6 1 1 7 token_value.zero,
       source_token "f" TOKEN_LEFT_PAREN 8 1 1 9 token_value.zero,
       source_token "f" TOKEN_INTEGER_LITERAL 9 1 1 10 (token_value.unsigned64 2),
       source_token "f" TOKEN_SEMICOLON 10 1 1 11 token_value.zero,
       source_token "f" TOKEN_EOF 11 0 1 12 token_value.zero] :=
    ⟨by decide, _, hrb⟩
  refine ⟨?_, ?_⟩
  · exact (missing_parenthesis_after_operator (parser_create "f" (bytes "x = (1 + 2;"))
      (source_token "f" TOKEN_IDENTIFIER 0 1 1 1 token_value.zero)
      (source_token "f" TOKEN_EQUALS 2 1 1 3 token_value.zero)
      (source_token "f" TOKEN_INTEGER_LITERAL 5 1 1 6 (token_value.unsigned64 1))
      (source_token "f" TOKEN_PLUS 7 1 1 8 token_value.zero)
      (source_token "f" TOKEN_LEFT_PAREN 4 1 1 5 token_value.zero)
      (source_token "f" TOKEN_SEMICOLON 10 1 1 11 token_value.zero)
      [source_token "f" TOKEN_INTEGER_LITERAL 5 1 1 6 (token_value.unsigned64 1),
       source_token "f" TOKEN_PLUS 7 1 1 8 token_value.zero,
       source_token "f" TOKEN_INTEGER_LITERAL 9 1 1 10 (token_value.unsigned64 2),
       source_token "f" TOKEN_SEMICOLON 10 1 1 11 token_value.zero,
       source_token "f" TOKEN_EOF 11 0 1 12 token_value.zero]
      [source_token "f" TOKEN_EOF 11 0 1 12 token_value.zero]
      (parse_result_success (binary_node AST_BINARY_OPERATOR_PLUS
        (source_token "f" TOKEN_PLUS 7 1 1 8 token_value.zero)
        (leaf_node AST_INTEGER_LITERAL
          (source_token "f" TOKEN_INTEGER_LITERAL 5 1 1 6 (token_value.unsigned64 1)))
        (leaf_node AST_INTEGER_LITERAL
          (source_token "f" TOKEN_INTEGER_LITERAL 9 1 1 10 (token_value.unsigned64 2)))))
      "f:1:5" AST_INTEGER_LITERAL AST_BINARY_OPERATOR_PLUS 7 rfl rfl (by decide) rfl rfl
      (parses_chain _ _ (stops_at_other_token _ _ _ (by decide) (by decide)) 0
        [((source_token "f" TOKEN_INTEGER_LITERAL 5 1 1 6 (token_value.unsigned64 1)),
          (source_token "f" TOKEN_PLUS 7 1 1 8 token_value.zero))]
        (source_token "f" TOKEN_INTEGER_LITERAL 9 1 1 10 (token_value.unsigned64 2)) _ rfl)
      rfl rfl).1 hya
  · exact (missing_parenthesis_after_operator (parser_create "f" (bytes "x = 1 + (2;"))
      (source_token "f" TOKEN_IDENTIFIER 0 1 1 1 token_value.zero)
      (source_token "f" TOKEN_EQUALS 2 1 1 3 token_value.zero)
      (source_token "f" TOKEN_INTEGER_LITERAL 4 1 1 5 (token_value.unsigned64 1))
      (source_token "f" TOKEN_PLUS 6 1 1 7 token_value.zero)
      (source_token "f" TOKEN_LEFT_PAREN 8 1 1 9 token_value.zero)
      (source_token "f" TOKEN_SEMICOLON 10 1 1 11 token_value.zero)
      [source_token "f" TOKEN_INTEGER_LITERAL 9 1 1 10 (token_value.unsigned64 2),
       source_token "f" TOKEN_SEMICOLON 10 1 1 11 token_value.zero,
       source_token "f" TOKEN_EOF 11 0 1 12 token_value.zero]
      [source_token "f" TOKEN_EOF 11 0 1 12 token_value.zero]
      (parse_result_success (leaf_node AST_INTEGER_LITERAL
        (source_token "f" TOKEN_INTEGER_LITERAL 9 1 1 10 (token_value.unsigned64 2))))
      "f:1:9" AST_INTEGER_LITERAL AST_BINARY_OPERATOR_PLUS 2 rfl rfl (by decide) rfl rfl
      (parses_primary_last _ _ _ _ _ 0 (by decide) (by decide) (by decide))
      rfl rfl).2 hyb

theorem keeps_symbols_refl (a : symbol_table) : keeps_symbols a a :=
  ⟨Nat.le_refl _, fun _ s _ h => ⟨s, h, rfl, rfl, rfl⟩⟩

theorem keeps_symbols_trans (a b c : symbol_table) (h1 : keeps_symbols a b)
    (h2 : keeps_symbols b c) : keeps_symbols a c := by
  refine ⟨Nat.le_trans h1.1 h2.1, fun i s hi hs => ?_⟩
  obtain ⟨s1, hs1, e1, e2, e3⟩ := h1.2 i s hi hs
  obtain ⟨s2, hs2, f1, f2, f3⟩ := h2.2 i s1 (Nat.lt_of_lt_of_le hi h1.1) hs1
  exact ⟨s2, hs2, f1.trans e1, f2.trans e2, f3.trans e3⟩

theorem keeps_symbols_of_eq (a b : symbol_table) (h : b = a) : keeps_symbols a b := by
  subst h; exact keeps_symbols_refl _

theorem keeps_symbols_added (table table1 : symbol_table) (sym : symbol) (capacity : Nat)
    (hb : table1.buffer = table.buffer) (hs : table1.size = table.size) :
    keeps_symbols table
      { buffer := List.take table1.size table1.buffer ++ [sym], size := table1.size + 1,
        capacity := capacity } := by
  rw [hb, hs]
  refine ⟨Nat.le_succ _, fun i s hi hs => ⟨s, ?_, rfl, rfl, rfl⟩⟩
  have hl : i < table.buffer.length := by
    by_contra hc
    rw [List.getElem?_eq_none (by omega)] at hs
    cases hs
  show (List.take table.size table.buffer ++ _)[i]? = some s
  rw [List.getElem?_append_left (by rw [List.length_take]; omega),
    List.getElem?_take_of_lt hi]
  exact hs

theorem keeps_symbols_capacity (table : symbol_table) (capacity : Nat) :
    keeps_symbols table { table with capacity := capacity } :=
  ⟨Nat.le_refl _, fun _ s _ h => ⟨s, h, rfl, rfl, rfl⟩⟩

theorem symbol_table_add_keeps (mem : List Nat) (table table1 : symbol_table) (t : token)
    (type : type_info) (is_constant ok : Bool)
    (h : symbol_table_add mem table t type is_constant = some (ok, table1)) :
    keeps_symbols table table1 := by
  by_cases hc : table.size + 1 ≥ table.capacity
  · simp only [symbol_table_add, symbol_table_reallocate_buffer, if_pos hc] at h
    split at h
    · cases h
    · cases h; exact keeps_symbols_capacity _ _
    · cases h; exact keeps_symbols_added table _ _ _ rfl rfl
  · simp only [symbol_table_add, symbol_table_reallocate_buffer, if_neg hc] at h
    split at h
    · cases h
    · cases h; exact keeps_symbols_refl _
    · cases h; exact keeps_symbols_added table _ _ _ rfl rfl

theorem set_function_decl_node_keeps (table : symbol_table) (k : Nat) (node : ast_node) :
    keeps_symbols table (set_function_decl_node table k node) := by
  refine ⟨Nat.le_refl _, fun i s _ hs => ?_⟩
  by_cases e : k = i
  · refine ⟨{ s with function_decl_node := some node }, ?_, rfl, rfl, rfl⟩
    simp [set_function_decl_node, List.getElem?_modify, hs, e]
  · refine ⟨s, ?_, rfl, rfl, rfl⟩
    simp [set_function_decl_node, List.getElem?_modify, hs, e]

theorem symbol_table_find_from_keeps (mem : List Nat) (a b : symbol_table) (t : token)
    (j : Nat) :
    ∀ (n m i : Nat), n ≤ m →
      (∀ k s, i ≤ k → k < i + n → a.buffer[k]? = some s →
        ∃ s1, b.buffer[k]? = some s1 ∧ s1.t = s.t) →
      symbol_table_find_from mem a t n i = some (some j) →
      symbol_table_find_from mem b t m i = some (some j) := by
  intro n
  induction n with
  | zero => intro m i _ _ h; simp [symbol_table_find_from] at h
  | succ n ih =>
    intro m i hm hk h
    obtain ⟨m1, rfl⟩ : ∃ m1, m = m1 + 1 := ⟨m - 1, by omega⟩
    rw [symbol_table_find_from] at h ⊢
    cases ha : a.buffer[i]? with
    | none => simp [ha] at h
    | some s =>
      obtain ⟨s1, hb, e⟩ := hk i s (Nat.le_refl _) (by omega) ha
      simp only [ha] at h
      simp only [hb, e]
      have hrec := ih m1 (i + 1) (by omega) (fun k s hk1 hk2 => hk k s (by omega) (by omega))
      by_cases hl : s.t.length ≠ t.length
      · rw [if_pos hl] at h ⊢
        exact hrec h
      · rw [if_neg hl] at h ⊢
        cases hcmp : strncmp_eq (deref mem s.t.text) (deref mem t.text) t.length with
        | none => simp [hcmp] at h
        | some c =>
          cases c
          · simp only [hcmp] at h ⊢
            exact hrec h
          · simp only [hcmp] at h ⊢
            exact h

theorem symbol_table_find_keeps (mem : List Nat) (a b : symbol_table) (t : token) (j : Nat)
    (hk : keeps_symbols a b) (h : symbol_table_find mem a t = some (some j)) :
    symbol_table_find mem b t = some (some j) :=
  symbol_table_find_from_keeps mem a b t j a.size b.size 0 hk.1
    (fun k s _ h2 hs => by
      obtain ⟨s1, h1, e, _⟩ := hk.2 k s (by omega) hs
      exact ⟨s1, h1, e⟩) h

theorem resolve_type_assignment_keeps (mem : List Nat) (ast ast1 : ast_node)
    (table table1 : symbol_table) (r : typing_result)
    (h : resolve_type_assignment mem ast table = some (r, ast1, table1)) :
    keeps_symbols table table1 := by
  unfold resolve_type_assignment at h
  repeat' split at h
  all_goals first
    | (cases h; done)
    | (cases h; exact keeps_symbols_refl _)
    | (cases h; exact symbol_table_add_keeps _ _ _ _ _ _ _ (by assumption))

theorem deduce_declaration_keeps (mem : List Nat) (ast ast1 : ast_node)
    (table table1 : symbol_table) (right_type : type_info) (is_constant : Bool)
    (r : typing_result)
    (h : deduce_declaration mem ast table right_type is_constant = some (r, ast1, table1)) :
    keeps_symbols table table1 := by
  unfold deduce_declaration at h
  repeat' split at h
  all_goals try dsimp only at h
  all_goals repeat' split at h
  all_goals first
    | (cases h; done)
    | (cases h; exact keeps_symbols_refl _)
    | (cases h; exact symbol_table_add_keeps _ _ _ _ _ _ _ (by assumption))
    | (cases h; exact keeps_symbols_trans _ _ _
        (symbol_table_add_keeps _ _ _ _ _ _ _ (by assumption))
        (set_function_decl_node_keeps _ _ _))

theorem resolve_value_assignment_end_keeps (mem : List Nat) (ast ast1 : ast_node)
    (table table1 : symbol_table) (left_result right_result r : typing_result)
    (h : resolve_value_assignment_end mem ast table left_result right_result
      = some (r, ast1, table1)) :
    keeps_symbols table table1 := by
  unfold resolve_value_assignment_end at h
  repeat' split at h
  all_goals first
    | (cases h; done)
    | (cases h; exact keeps_symbols_refl _)
    | exact deduce_declaration_keeps _ _ _ _ _ _ _ _ h

theorem resolve_const_assignment_end_keeps (mem : List Nat) (ast ast1 : ast_node)
    (table table1 : symbol_table) (left_result right_result r : typing_result)
    (h : resolve_const_assignment_end mem ast table left_result right_result
      = some (r, ast1, table1)) :
    keeps_symbols table table1 := by
  unfold resolve_const_assignment_end at h
  repeat' split at h
  all_goals first
    | (cases h; done)
    | (cases h; exact keeps_symbols_refl _)
    | exact deduce_declaration_keeps _ _ _ _ _ _ _ _ h
    | exact keeps_symbols_of_eq _ _ (resolve_identifier_table _ _ _ _ _ _ h)

theorem resolve_types_keeps (mem : List Nat) :
    ∀ fuel : Nat,
      (∀ ast table r ast1 table1,
        resolve_types mem fuel ast table = some (r, ast1, table1) →
        keeps_symbols table table1) ∧
      (∀ children table r children1 table1,
        resolve_types_children mem fuel children table = some (r, children1, table1) →
        keeps_symbols table table1) ∧
      (∀ declared passed table early passed1 table1,
        resolve_call_parameters mem fuel declared passed table
          = some (early, passed1, table1) →
        keeps_symbols table table1) := by
  intro fuel
  induction fuel with
  | zero =>
    exact ⟨fun ast table r ast1 table1 h => by simp [resolve_types] at h,
      fun children table r children1 table1 h => by simp [resolve_types_children] at h,
      fun declared passed table early passed1 table1 h => by
        simp [resolve_call_parameters] at h⟩
  | succ fuel ih =>
    obtain ⟨ih1, ih2, ih3⟩ := ih
    refine ⟨?_, ?_, ?_⟩
    · intro ast table r ast1 table1 h
      cases ast with
      | null => simp [resolve_types] at h
      | node type t c0 c1 c2 children parens =>
        cases type <;> rw [resolve_types] at h <;> (try dsimp only at h) <;>
          repeat' split at h
        all_goals first
        | (cases h; done)
        | (cases h; exact keeps_symbols_refl _)
        | (cases h; exact ih1 _ _ _ _ _ (by assumption))
        | (cases h; exact ih2 _ _ _ _ _ (by assumption))
        | (cases h; exact keeps_symbols_trans _ _ _ (ih1 _ _ _ _ _ (by assumption))
            (ih1 _ _ _ _ _ (by assumption)))
        | (cases h; exact keeps_symbols_trans _ _ _ (ih1 _ _ _ _ _ (by assumption))
            (ih3 _ _ _ _ _ _ (by assumption)))
        | (cases h; exact keeps_symbols_trans _ _ _
            (keeps_symbols_trans _ _ _ (ih1 _ _ _ _ _ (by assumption))
              (ih1 _ _ _ _ _ (by assumption)))
            (ih1 _ _ _ _ _ (by assumption)))
        | exact resolve_type_assignment_keeps _ _ _ _ _ _ h
        | exact keeps_symbols_of_eq _ _ (resolve_identifier_table _ _ _ _ _ _ h)
        | exact keeps_symbols_trans _ _ _
            (keeps_symbols_trans _ _ _ (ih1 _ _ _ _ _ (by assumption))
              (ih1 _ _ _ _ _ (by assumption)))
            (resolve_value_assignment_end_keeps _ _ _ _ _ _ _ _ h)
        | exact keeps_symbols_trans _ _ _
            (keeps_symbols_trans _ _ _ (ih1 _ _ _ _ _ (by assumption))
              (ih1 _ _ _ _ _ (by assumption)))
            (resolve_const_assignment_end_keeps _ _ _ _ _ _ _ _ h)
    · intro children table r children1 table1 h
      cases children with
      | nil =>
        rw [resolve_types_children] at h
        cases h
        exact keeps_symbols_refl _
      | cons first rest =>
        rw [resolve_types_children] at h
        repeat' split at h
        all_goals first
            | (cases h; done)
            | (cases h; exact ih1 _ _ _ _ _ (by assumption))
            | (cases h; exact keeps_symbols_trans _ _ _ (ih1 _ _ _ _ _ (by assumption))
                (ih2 _ _ _ _ _ (by assumption)))
    · intro declared passed table early passed1 table1 h
      cases declared with
      | nil =>
        rw [resolve_call_parameters] at h
        cases h
        exact keeps_symbols_refl _
      | cons d ds =>
        cases passed with
        | nil => simp [resolve_call_parameters] at h
        | cons p ps =>
          rw [resolve_call_parameters] at h
          repeat' split at h
          all_goals first
            | (cases h; done)
            | (cases h; exact ih1 _ _ _ _ _ (by assumption))
            | (cases h; exact keeps_symbols_trans _ _ _ (ih1 _ _ _ _ _ (by assumption))
                (ih3 _ _ _ _ _ _ (by assumption)))

theorem symbol_table_find_kept (mem : List Nat) (a b : symbol_table) (t : token) (j : Nat)
    (hk : keeps_symbols a b) (h : symbol_table_find mem a t = some (some j)) :
    symbol_table_find mem b t = some (some j) ∧
      ∃ s s1, a.buffer[j]? = some s ∧ b.buffer[j]? = some s1 ∧ s1.t = s.t ∧
        s1.type = s.type ∧ s1.is_constant = s.is_constant := by
  refine ⟨symbol_table_find_keeps mem a b t j hk h, ?_⟩
  obtain ⟨_, h2, s, hs, _⟩ := symbol_table_find_from_found mem a t a.size 0 j h
  obtain ⟨s1, hs1, e⟩ := hk.2 j s (by omega) hs
  exact ⟨s, s1, hs, hs1, e⟩

theorem resolve_type_assignment_declares (mem : List Nat) (table table1 : symbol_table)
    (a T colon : token) (r : typing_result) (ast1 : ast_node)
    (h : resolve_type_assignment mem
      (binary_node AST_TYPE_ASSIGNMENT colon (leaf_node AST_IDENTIFIER a)
        (leaf_node AST_IDENTIFIER T)) table = some (r, ast1, table1))
    (hs : r.success = true) (hr : readable mem a) :
    ∃ j s, symbol_table_find mem table1 a = some (some j) ∧ table1.buffer[j]? = some s ∧
      s.t = a := by
  simp only [resolve_type_assignment, binary_node, leaf_node] at h
  cases hT : symbol_table_find mem table T with
  | none => simp [hT] at h
  | some found =>
    cases found with
    | none =>
      simp only [hT, Option.some.injEq, Prod.mk.injEq] at h
      rw [← h.1] at hs
      cases hs
    | some i =>
      simp only [hT] at h
      cases hi : table.buffer[i]? with
      | none => simp [hi] at h
      | some sym =>
        simp only [hi] at h
        cases hn : symbol_table_find mem table a with
        | none => simp [hn] at h
        | some present =>
          cases present with
          | some j =>
            simp only [hn] at h
            repeat' split at h
            all_goals first
              | (cases h; done)
              | (simp only [Option.some.injEq, Prod.mk.injEq] at h
                 rw [← h.1] at hs
                 cases hs)
          | none =>
            simp only [hn, symbol_table_add_absent_symbol mem table a sym.type false hn] at h
            split at h
            · cases h
            · simp only [Option.some.injEq, Prod.mk.injEq] at h
              obtain ⟨_, _, h3⟩ := h
              subst h3
              have hlen := symbol_table_find_absent_length mem table a hn
              exact ⟨table.size, _, symbol_table_find_added mem table a _ rfl rfl hn hr,
                with_symbol_getElem_size table _ hlen, rfl⟩

theorem resolve_children_member (mem : List Nat) :
    ∀ (fuel : Nat) (children : node_list) (table : symbol_table) (r : typing_result)
      (children1 : node_list) (table1 : symbol_table),
      resolve_types_children mem fuel children table = some (r, children1, table1) →
      r.success = true →
      ∀ x, x ∈ node_list_nodes children →
        ∃ fuel0 tableA rx x1 tableB,
          resolve_types mem fuel0 x tableA = some (rx, x1, tableB) ∧ rx.success = true ∧
          keeps_symbols table tableA ∧ keeps_symbols tableB table1 := by
  intro fuel
  induction fuel with
  | zero => intro children table r children1 table1 h; simp [resolve_types_children] at h
  | succ fuel ih =>
    intro children table r children1 table1 h hs x hx
    cases children with
    | nil => simp [node_list_nodes] at hx
    | cons first rest =>
      rw [resolve_types_children] at h
      cases hf : resolve_types mem fuel first table with
      | none => simp [hf] at h
      | some y =>
        obtain ⟨result, first1, tableF⟩ := y
        simp only [hf] at h
        by_cases hfail : result.success = false
        · simp only [hfail, if_true, Option.some.injEq, Prod.mk.injEq] at h
          rw [← h.1, hfail] at hs
          cases hs
        · simp only [hfail, if_false] at h
          cases hrest : resolve_types_children mem fuel rest tableF with
          | none => simp [hrest] at h
          | some z =>
            obtain ⟨result1, rest1, tableR⟩ := z
            simp only [hrest] at h
            cases h
            simp only [node_list_nodes, List.mem_cons] at hx
            rcases hx with hx | hx
            · subst hx
              exact ⟨fuel, table, result, first1, tableF, hf, by simpa using hfail,
                keeps_symbols_refl _, (resolve_types_keeps mem fuel).2.1 _ _ _ _ _ hrest⟩
            · obtain ⟨fuel0, tableA, rx, x1, tableB, hx1, hx2, hx3, hx4⟩ :=
                ih rest tableF _ rest1 _ hrest hs x hx
              exact ⟨fuel0, tableA, rx, x1, tableB, hx1, hx2,
                keeps_symbols_trans _ _ _ ((resolve_types_keeps mem fuel).1 _ _ _ _ _ hf) hx3,
                hx4⟩

theorem resolve_children_declares (mem : List Nat) (fuel : Nat) (children : node_list)
    (table : symbol_table) (r : typing_result) (children1 : node_list) (table1 : symbol_table)
    (a T colon : token)
    (h : resolve_types_children mem fuel children table = some (r, children1, table1))
    (hs : r.success = true)
    (hx : binary_node AST_TYPE_ASSIGNMENT colon (leaf_node AST_IDENTIFIER a)
        (leaf_node AST_IDENTIFIER T) ∈ node_list_nodes children)
    (hr : readable mem a) :
    ∃ j s, symbol_table_find mem table1 a = some (some j) ∧ table1.buffer[j]? = some s ∧
      s.t = a := by
  obtain ⟨fuel0, tableA, rx, x1, tableB, hx1, hx2, _, hx4⟩ :=
    resolve_children_member mem fuel children table r children1 table1 h hs _ hx
  cases fuel0 with
  | zero => simp [resolve_types] at hx1
  | succ fuel0 =>
    simp only [binary_node] at hx1
    rw [resolve_types] at hx1
    obtain ⟨j, s, hj, hsj, e⟩ := resolve_type_assignment_declares mem tableA tableB a T colon rx
      x1 hx1 hx2 hr
    obtain ⟨hfind, s0, s1, h0, h1, e1, _⟩ := symbol_table_find_kept mem tableB table1 a j hx4 hj
    rw [hsj] at h0
    cases h0
    exact ⟨j, s1, hfind, h1, e1.trans e⟩

theorem resolve_function_declaration_parameters (mem : List Nat) (fuel : Nat)
    (table table1 : symbol_table) (t : token) (parameters : node_list)
    (ret body ast1 : ast_node) (children : node_list) (parens : Bool) (r : typing_result)
    (h : resolve_types mem fuel
      (ast_node.node AST_FUNCTION_DECLARATION t (many_node AST_PARAMETER_LIST parameters) ret
        body children parens) table = some (r, ast1, table1))
    (hs : r.success = true) :
    ∃ fuel0 rp parameters1 tableP,
      resolve_types_children mem fuel0 parameters table = some (rp, parameters1, tableP) ∧
      rp.success = true ∧ keeps_symbols tableP table1 := by
  cases fuel with
  | zero => simp [resolve_types] at h
  | succ fuel =>
    cases hp : resolve_types mem fuel (many_node AST_PARAMETER_LIST parameters) table with
    | none => rw [resolve_types] at h; simp [hp] at h
    | some y =>
      obtain ⟨rp, left, tableP⟩ := y
      have hk : keeps_symbols tableP table1 := by
        rw [resolve_types] at h
        simp only [hp] at h
        repeat' split at h
        all_goals first
          | (cases h; done)
          | (cases h; exact keeps_symbols_refl _)
          | (cases h; exact (resolve_types_keeps mem fuel).1 _ _ _ _ _ (by assumption))
          | (cases h; exact keeps_symbols_trans _ _ _
              ((resolve_types_keeps mem fuel).1 _ _ _ _ _ (by assumption))
              ((resolve_types_keeps mem fuel).1 _ _ _ _ _ (by assumption)))
      have hps : rp.success = true := by
        rw [resolve_types] at h
        simp only [hp] at h
        by_cases hfail : rp.success = false
        · simp only [hfail, if_true, Option.some.injEq, Prod.mk.injEq] at h
          rw [← h.1, hfail] at hs
          cases hs
        · simpa using hfail
      cases fuel with
      | zero => simp [resolve_types, many_node] at hp
      | succ fuel =>
        simp only [many_node] at hp
        rw [resolve_types] at hp
        cases hc : resolve_types_children mem fuel parameters table with
        | none => simp [hc] at hp
        | some z =>
          obtain ⟨rc, parameters1, tableC⟩ := z
          simp only [hc] at hp
          cases hp
          exact ⟨fuel, _, parameters1, _, hc, hps, hk⟩

theorem resolve_constant_right (mem : List Nat) (fuel : Nat) (table table1 : symbol_table)
    (op : token) (left right ast1 : ast_node) (r : typing_result)
    (h : resolve_types mem fuel (binary_node AST_CONST_ASSIGNMENT op left right) table
      = some (r, ast1, table1))
    (hs : r.success = true) :
    ∃ fuel0 rr right1 tableR,
      resolve_types mem fuel0 right table = some (rr, right1, tableR) ∧ rr.success = true ∧
      keeps_symbols tableR table1 := by
  cases fuel with
  | zero => simp [resolve_types] at h
  | succ fuel =>
    simp only [binary_node] at h
    rw [resolve_types] at h
    cases hr : resolve_types mem fuel right table with
    | none => simp [hr] at h
    | some y =>
      obtain ⟨rr, right1, tableR⟩ := y
      simp only [hr] at h
      by_cases hfail : rr.success = false
      · simp only [hfail, if_true, Option.some.injEq, Prod.mk.injEq] at h
        rw [← h.1, hfail] at hs
        cases hs
      · simp only [hfail, if_false] at h
        refine ⟨fuel, rr, right1, tableR, hr, by simpa using hfail, ?_⟩
        repeat' split at h
        all_goals first
          | contradiction
          | (cases h; done)
          | (cases h; exact (resolve_types_keeps mem fuel).1 _ _ _ _ _ (by assumption))
          | exact keeps_symbols_trans _ _ _
              ((resolve_types_keeps mem fuel).1 _ _ _ _ _ (by assumption))
              (resolve_const_assignment_end_keeps _ _ _ _ _ _ _ _ h)

theorem function_parameter_stays (mem : List Nat) (fuel : Nat) (table table1 : symbol_table)
    (op t colon a T : token) (left ret body ast1 : ast_node) (parameters children : node_list)
    (parens : Bool) (r : typing_result)
    (h : resolve_types mem fuel
      (binary_node AST_CONST_ASSIGNMENT op left
        (ast_node.node AST_FUNCTION_DECLARATION t (many_node AST_PARAMETER_LIST parameters) ret
          body children parens)) table = some (r, ast1, table1))
    (hs : r.success = true)
    (hx : binary_node AST_TYPE_ASSIGNMENT colon (leaf_node AST_IDENTIFIER a)
        (leaf_node AST_IDENTIFIER T) ∈ node_list_nodes parameters)
    (hr : readable mem a) :
    ∃ j s, symbol_table_find mem table1 a = some (some j) ∧ table1.buffer[j]? = some s ∧
      s.t = a := by
  obtain ⟨fuel0, rr, right1, tableR, h1, hs1, hk1⟩ :=
    resolve_constant_right mem fuel table table1 op left _ ast1 r h hs
  obtain ⟨fuel1, rp, parameters1, tableP, h2, hs2, hk2⟩ :=
    resolve_function_declaration_parameters mem fuel0 table tableR t parameters ret body right1
      children parens rr h1 hs1
  obtain ⟨j, s, hj, hsj, e⟩ := resolve_children_declares mem fuel1 parameters table rp
    parameters1 tableP a T colon h2 hs2 hx hr
  obtain ⟨hfind, s0, s1, h0, h3, e1, _⟩ := symbol_table_find_kept mem tableP table1 a j
    (keeps_symbols_trans _ _ _ hk2 hk1) hj
  rw [hsj] at h0
  cases h0
  exact ⟨j, s1, hfind, h3, e1.trans e⟩

theorem resolve_function_redeclared_parameter (mem : List Nat) (fuel : Nat)
    (table : symbol_table) (op t colon a T : token) (left ret body : ast_node)
    (parameters children : node_list) (parens : Bool) (i j : Nat) (original : symbol)
    (text : String)
    (hT : symbol_table_find mem table T = some (some i))
    (hn : symbol_table_find mem table a = some (some j))
    (hj : table.buffer[j]? = some original)
    (hloc : location_printable_text original.t.location = some text) :
    resolve_types mem (fuel + 5)
        (binary_node AST_CONST_ASSIGNMENT op left
          (ast_node.node AST_FUNCTION_DECLARATION t
            (many_node AST_PARAMETER_LIST
              (node_list.cons
                (binary_node AST_TYPE_ASSIGNMENT colon (leaf_node AST_IDENTIFIER a)
                  (leaf_node AST_IDENTIFIER T)) parameters))
            ret body children parens)) table
      = some (typing_result_error a
          ("A variable with the name '" ++ printable mem a ++
            "' already exists! It was declared here [" ++ text ++ "]"),
          binary_node AST_CONST_ASSIGNMENT op left
            (ast_node.node AST_FUNCTION_DECLARATION t
              (many_node AST_PARAMETER_LIST
                (node_list.cons
                  (binary_node AST_TYPE_ASSIGNMENT colon (leaf_node AST_IDENTIFIER a)
                    (leaf_node AST_IDENTIFIER T)) parameters))
              ret body children parens),
          table) := by
  obtain ⟨_, _, sym, hi, _⟩ := symbol_table_find_from_found mem table T table.size 0 i hT
  have h0 := resolve_type_assignment_redeclared mem table a T colon i j sym original hT hi hn hj
  rw [hloc] at h0
  simp only [Option.map_some'] at h0
  have h1 : resolve_types mem (fuel + 1)
      (binary_node AST_TYPE_ASSIGNMENT colon (leaf_node AST_IDENTIFIER a)
          (leaf_node AST_IDENTIFIER T)) table
      = some ((typing_result_error a
          ("A variable with the name '" ++ printable mem a ++
            "' already exists! It was declared here [" ++ text ++ "]")),
        (binary_node AST_TYPE_ASSIGNMENT colon (leaf_node AST_IDENTIFIER a)
          (leaf_node AST_IDENTIFIER T)), table) := by
    simp only [binary_node]
    rw [resolve_types]
    simp only [binary_node] at h0
    exact h0
  have h2 : resolve_types_children mem (fuel + 2)
      (node_list.cons
        (binary_node AST_TYPE_ASSIGNMENT colon (leaf_node AST_IDENTIFIER a)
          (leaf_node AST_IDENTIFIER T)) parameters) table
      = some ((typing_result_error a
          ("A variable with the name '" ++ printable mem a ++
            "' already exists! It was declared here [" ++ text ++ "]")),
        (node_list.cons
        (binary_node AST_TYPE_ASSIGNMENT colon (leaf_node AST_IDENTIFIER a)
          (leaf_node AST_IDENTIFIER T)) parameters), table) := by
    rw [resolve_types_children]
    simp only [h1, typing_result_error, if_true]
  have h3 : resolve_types mem (fuel + 3)
      (many_node AST_PARAMETER_LIST
        (node_list.cons
        (binary_node AST_TYPE_ASSIGNMENT colon (leaf_node AST_IDENTIFIER a)
          (leaf_node AST_IDENTIFIER T)) parameters)) table
      = some ((typing_result_error a
          ("A variable with the name '" ++ printable mem a ++
            "' already exists! It was declared here [" ++ text ++ "]")),
        (many_node AST_PARAMETER_LIST
        (node_list.cons
        (binary_node AST_TYPE_ASSIGNMENT colon (leaf_node AST_IDENTIFIER a)
          (leaf_node AST_IDENTIFIER T)) parameters)), table) := by
    simp only [many_node]
    rw [resolve_types]
    simp only [h2]
  have h4 : resolve_types mem (fuel + 4)
      (ast_node.node AST_FUNCTION_DECLARATION t
        (many_node AST_PARAMETER_LIST
        (node_list.cons
        (binary_node AST_TYPE_ASSIGNMENT colon (leaf_node AST_IDENTIFIER a)
          (leaf_node AST_IDENTIFIER T)) parameters))
        ret body children parens) table
      = some ((typing_result_error a
          ("A variable with the name '" ++ printable mem a ++
            "' already exists! It was declared here [" ++ text ++ "]")),
        (ast_node.node AST_FUNCTION_DECLARATION t
        (many_node AST_PARAMETER_LIST
        (node_list.cons
        (binary_node AST_TYPE_ASSIGNMENT colon (leaf_node AST_IDENTIFIER a)
          (leaf_node AST_IDENTIFIER T)) parameters))
        ret body children parens), table) := by
    rw [resolve_types]
    simp only [h3, typing_result_error, if_true]
  exact resolve_declaration_right_fails mem (fuel + 4) table table AST_CONST_ASSIGNMENT op left
    _ _ _ (Or.inl rfl) h4 rfl

theorem resolve_block_statement (mem : List Nat) (fuel : Nat) (block : node_list)
    (tableA tableB : symbol_table) (r : typing_result) (block1 statement : ast_node)
    (h : resolve_types mem fuel (many_node AST_SCOPE block) tableA = some (r, block1, tableB))
    (hs : r.success = true) (hx : statement ∈ node_list_nodes block) :
    ∃ fuel2 tableC rs statement1 tableD,
      resolve_types mem fuel2 statement tableC = some (rs, statement1, tableD) ∧
      rs.success = true ∧
      ∀ name j, symbol_table_find mem tableD name = some (some j) →
        symbol_table_find mem tableB name = some (some j) := by
  cases fuel with
  | zero => simp [resolve_types, many_node] at h
  | succ fuel =>
    simp only [many_node] at h
    rw [resolve_types] at h
    cases hc : resolve_types_children mem fuel block tableA with
    | none => simp [hc] at h
    | some z =>
      obtain ⟨rc, children1, tableC⟩ := z
      simp only [hc] at h
      cases h
      obtain ⟨fuel0, tA, rx, x1, tB, hx1, hx2, _, hx4⟩ :=
        resolve_children_member mem fuel block tableA _ children1 _ hc hs statement hx
      exact ⟨fuel0, tA, rx, x1, tB, hx1, hx2, fun name j hj =>
        symbol_table_find_keeps mem tB _ name j hx4 hj⟩

theorem one_flat_scope (mem : List Nat) (fuel fuel1 fuelb : Nat)
    (table table1 table2 : symbol_table) (op1 t1 colon1 a1 T1 op2 t2 colon2 a2 T2 : token)
    (left1 ret1 body1 first1 left2 ret2 body2 : ast_node)
    (parameters1 children1 between between1 parameters2 children2 : node_list)
    (parens1 parens2 : Bool) (r1 rb : typing_result) (i : Nat) (text : String)
    (h1 : resolve_types mem fuel1
      (binary_node AST_CONST_ASSIGNMENT op1 left1
        (ast_node.node AST_FUNCTION_DECLARATION t1 (many_node AST_PARAMETER_LIST parameters1)
          ret1 body1 children1 parens1)) table = some (r1, first1, table1))
    (hs1 : r1.success = true)
    (hx : binary_node AST_TYPE_ASSIGNMENT colon1 (leaf_node AST_IDENTIFIER a1)
        (leaf_node AST_IDENTIFIER T1) ∈ node_list_nodes parameters1)
    (hr : readable mem a1)
    (hbetween : resolve_types_children mem fuelb between table1 = some (rb, between1, table2))
    (hsame : same_name mem a2 a1)
    (hT : symbol_table_find mem table2 T2 = some (some i))
    (hloc : location_printable_text a1.location = some text) :
    resolve_types mem (fuel + 5)
        (binary_node AST_CONST_ASSIGNMENT op2 left2
          (ast_node.node AST_FUNCTION_DECLARATION t2
            (many_node AST_PARAMETER_LIST
              (node_list.cons
                (binary_node AST_TYPE_ASSIGNMENT colon2 (leaf_node AST_IDENTIFIER a2)
                  (leaf_node AST_IDENTIFIER T2)) parameters2))
            ret2 body2 children2 parens2)) table2
      = some (typing_result_error a2
          ("A variable with the name '" ++ printable mem a2 ++
            "' already exists! It was declared here [" ++ text ++ "]"),
          (binary_node AST_CONST_ASSIGNMENT op2 left2
            (ast_node.node AST_FUNCTION_DECLARATION t2
              (many_node AST_PARAMETER_LIST
                (node_list.cons
                  (binary_node AST_TYPE_ASSIGNMENT colon2 (leaf_node AST_IDENTIFIER a2)
                    (leaf_node AST_IDENTIFIER T2)) parameters2))
              ret2 body2 children2 parens2)),
          table2) ∧
    (∀ fuel0 ast tableA r ast1 tableB name j,
      resolve_types mem fuel0 ast tableA = some (r, ast1, tableB) →
      symbol_table_find mem tableA name = some (some j) →
      symbol_table_find mem tableB name = some (some j)) ∧
    (∀ fuel0 block tableA r block1 tableB statement,
      resolve_types mem fuel0 (many_node AST_SCOPE block) tableA = some (r, block1, tableB) →
      r.success = true → statement ∈ node_list_nodes block →
      ∃ fuel2 tableC rs statement1 tableD,
        resolve_types mem fuel2 statement tableC = some (rs, statement1, tableD) ∧
        rs.success = true ∧
        ∀ name j, symbol_table_find mem tableD name = some (some j) →
          symbol_table_find mem tableB name = some (some j)) := by
  obtain ⟨j, s, hj, hsj, e⟩ := function_parameter_stays mem fuel1 table table1 op1 t1 colon1 a1
    T1 left1 ret1 body1 first1 parameters1 children1 parens1 r1 h1 hs1 hx hr
  obtain ⟨hfind, s0, s2, h0, h2, e2, _⟩ := symbol_table_find_kept mem table1 table2 a1 j
    ((resolve_types_keeps mem fuelb).2.1 _ _ _ _ _ hbetween) hj
  rw [hsj] at h0
  cases h0
  rw [← symbol_table_find_same_name mem table2 a2 a1 hsame] at hfind
  refine ⟨resolve_function_redeclared_parameter mem fuel table2 op2 t2 colon2 a2 T2 left2 ret2
    body2 parameters2 children2 parens2 i j s2 text hT hfind h2
    (by rw [e2, e]; exact hloc), ?_, ?_⟩
  · intro fuel0 ast tableA r ast1 tableB name j0 h hn
    exact symbol_table_find_keeps mem tableA tableB name j0
      ((resolve_types_keeps mem fuel0).1 _ _ _ _ _ h) hn
  · intro fuel0 block tableA r block1 tableB statement h hs hx0
    exact resolve_block_statement mem fuel0 block tableA tableB r block1 statement h hs hx0

/-- The second statement of `g :: (a: int) -> int {}; h :: (a: int) -> int {};`
is rejected at its parameter `a`. -/
theorem one_parameter_functions_share_scope :
    resolve_types two_functions_source 5 second_function_declaration one_parameter_table
      = some (typing_result_error (source_token "f" TOKEN_IDENTIFIER 31 1 1 32 token_value.zero)
          "A variable with the name 'a' already exists! It was declared here [f:1:7]",
          second_function_declaration, one_parameter_table) :=
  (one_flat_scope two_functions_source 0 5 1 fresh_symbol_table
    one_parameter_table one_parameter_table
    (source_token "f" TOKEN_COLON 3 1 1 4 token_value.zero) token_zero
    (source_token "f" TOKEN_COLON 7 1 1 8 token_value.zero)
    (source_token "f" TOKEN_IDENTIFIER 6 1 1 7 token_value.zero)
    (source_token "f" TOKEN_IDENTIFIER 9 3 1 10 token_value.zero)
    (source_token "f" TOKEN_COLON 28 1 1 29 token_value.zero) token_zero
    (source_token "f" TOKEN_COLON 32 1 1 33 token_value.zero)
    (source_token "f" TOKEN_IDENTIFIER 31 1 1 32 token_value.zero)
    (source_token "f" TOKEN_IDENTIFIER 34 3 1 35 token_value.zero)
    (binary_node AST_TYPE_ASSIGNMENT (source_token "f" TOKEN_COLON 2 1 1 3 token_value.zero)
      (leaf_node AST_IDENTIFIER (source_token "f" TOKEN_IDENTIFIER 0 1 1 1 token_value.zero))
      ast_node.null)
    (leaf_node AST_IDENTIFIER (source_token "f" TOKEN_IDENTIFIER 17 3 1 18 token_value.zero))
    (many_node AST_SCOPE node_list_create) _
    (binary_node AST_TYPE_ASSIGNMENT (source_token "f" TOKEN_COLON 27 1 1 28 token_value.zero)
      (leaf_node AST_IDENTIFIER (source_token "f" TOKEN_IDENTIFIER 25 1 1 26 token_value.zero))
      ast_node.null)
    (leaf_node AST_IDENTIFIER (source_token "f" TOKEN_IDENTIFIER 42 3 1 43 token_value.zero))
    (many_node AST_SCOPE node_list_create)
    (node_list.cons
      (binary_node AST_TYPE_ASSIGNMENT (source_token "f" TOKEN_COLON 7 1 1 8 token_value.zero)
        (leaf_node AST_IDENTIFIER (source_token "f" TOKEN_IDENTIFIER 6 1 1 7 token_value.zero))
        (leaf_node AST_IDENTIFIER (source_token "f" TOKEN_IDENTIFIER 9 3 1 10 token_value.zero)))
      node_list.nil)
    node_list.nil node_list.nil node_list.nil node_list.nil node_list.nil false false
    (typing_result_success TYPE_INFO_FUNCTION) (typing_result_success TYPE_INFO_UNKNOWN) 1
    "f:1:7" rfl rfl (List.Mem.head _) (by decide) rfl (by decide) rfl rfl).1

theorem two_functions_file_parses :
    ∃ parser1, parser_parse_file 8 (parser_create "f" two_functions_source)
      = some (parse_result_success two_functions_file, parser1) := by
  have hr : lexer_next_tokens 27 (parser_create "f" two_functions_source).lexer
      = some ([source_token "f" TOKEN_IDENTIFIER 0 1 1 1 token_value.zero,
               source_token "f" TOKEN_COLON 2 1 1 3 token_value.zero,
               source_token "f" TOKEN_COLON 3 1 1 4 token_value.zero,
               source_token "f" TOKEN_LEFT_PAREN 5 1 1 6 token_value.zero,
               source_token "f" TOKEN_IDENTIFIER 6 1 1 7 token_value.zero,
               source_token "f" TOKEN_COLON 7 1 1 8 token_value.zero,
               source_token "f" TOKEN_IDENTIFIER 9 3 1 10 token_value.zero,
               source_token "f" TOKEN_RIGHT_PAREN 12 1 1 13 token_value.zero,
               source_token "f" TOKEN_ARROW 14 2 1 15 token_value.zero,
               source_token "f" TOKEN_IDENTIFIER 17 3 1 18 token_value.zero,
               source_token "f" TOKEN_LEFT_CURLY 21 1 1 22 token_value.zero,
               source_token "f" TOKEN_RIGHT_CURLY 22 1 1 23 token_value.zero,
               source_token "f" TOKEN_SEMICOLON 23 1 1 24 token_value.zero,
               source_token "f" TOKEN_IDENTIFIER 25 1 1 26 token_value.zero,
               source_token "f" TOKEN_COLON 27 1 1 28 token_value.zero,
               source_token "f" TOKEN_COLON 28 1 1 29 token_value.zero,
               source_token "f" TOKEN_LEFT_PAREN 30 1 1 31 token_value.zero,
               source_token "f" TOKEN_IDENTIFIER 31 1 1 32 token_value.zero,
               source_token "f" TOKEN_COLON 32 1 1 33 token_value.zero,
               source_token "f" TOKEN_IDENTIFIER 34 3 1 35 token_value.zero,
               source_token "f" TOKEN_RIGHT_PAREN 37 1 1 38 token_value.zero,
               source_token "f" TOKEN_ARROW 39 2 1 40 token_value.zero,
               source_token "f" TOKEN_IDENTIFIER 42 3 1 43 token_value.zero,
               source_token "f" TOKEN_LEFT_CURLY 46 1 1 47 token_value.zero,
               source_token "f" TOKEN_RIGHT_CURLY 47 1 1 48 token_value.zero,
               source_token "f" TOKEN_SEMICOLON 48 1 1 49 token_value.zero,
               source_token "f" TOKEN_EOF 49 0 1 50 token_value.zero],
          { (parser_create "f" two_functions_source).lexer with
              head := 49, current_column := 50 }) := by
    decide
  have hy : lexer_yields (parser_create "f" two_functions_source).lexer
      [source_token "f" TOKEN_IDENTIFIER 0 1 1 1 token_value.zero,
       source_token "f" TOKEN_COLON 2 1 1 3 token_value.zero,
       source_token "f" TOKEN_COLON 3 1 1 4 token_value.zero,
       source_token "f" TOKEN_LEFT_PAREN 5 1 1 6 token_value.zero,
       source_token "f" TOKEN_IDENTIFIER 6 1 1 7 token_value.zero,
       source_token "f" TOKEN_COLON 7 1 1 8 token_value.zero,
       source_token "f" TOKEN_IDENTIFIER 9 3 1 10 token_value.zero,
       source_token "f" TOKEN_RIGHT_PAREN 12 1 1 13 token_value.zero,
       source_token "f" TOKEN_ARROW 14 2 1 15 token_value.zero,
       source_token "f" TOKEN_IDENTIFIER 17 3 1 18 token_value.zero,
       source_token "f" TOKEN_LEFT_CURLY 21 1 1 22 token_value.zero,
       source_token "f" TOKEN_RIGHT_CURLY 22 1 1 23 token_value.zero,
       source_token "f" TOKEN_SEMICOLON 23 1 1 24 token_value.zero,
       source_token "f" TOKEN_IDENTIFIER 25 1 1 26 token_value.zero,
       source_token "f" TOKEN_COLON 27 1 1 28 token_value.zero,
       source_token "f" TOKEN_COLON 28 1 1 29 token_value.zero,
       source_token "f" TOKEN_LEFT_PAREN 30 1 1 31 token_value.zero,
       source_token "f" TOKEN_IDENTIFIER 31 1 1 32 token_value.zero,
       source_token "f" TOKEN_COLON 32 1 1 33 token_value.zero,
       source_token "f" TOKEN_IDENTIFIER 34 3 1 35 token_value.zero,
       source_token "f" TOKEN_RIGHT_PAREN 37 1 1 38 token_value.zero,
       source_token "f" TOKEN_ARROW 39 2 1 40 token_value.zero,
       source_token "f" TOKEN_IDENTIFIER 42 3 1 43 token_value.zero,
       source_token "f" TOKEN_LEFT_CURLY 46 1 1 47 token_value.zero,
       source_token "f" TOKEN_RIGHT_CURLY 47 1 1 48 token_value.zero,
       source_token "f" TOKEN_SEMICOLON 48 1 1 49 token_value.zero,
       source_token "f" TOKEN_EOF 49 0 1 50 token_value.zero] :=
    ⟨by decide, _, hr⟩
  have hfirst : parses (parser_parse_statement 8) (parser_create "f" two_functions_source)
      [source_token "f" TOKEN_IDENTIFIER 0 1 1 1 token_value.zero,
       source_token "f" TOKEN_COLON 2 1 1 3 token_value.zero,
       source_token "f" TOKEN_COLON 3 1 1 4 token_value.zero,
       source_token "f" TOKEN_LEFT_PAREN 5 1 1 6 token_value.zero,
       source_token "f" TOKEN_IDENTIFIER 6 1 1 7 token_value.zero,
       source_token "f" TOKEN_COLON 7 1 1 8 token_value.zero,
       source_token "f" TOKEN_IDENTIFIER 9 3 1 10 token_value.zero,
       source_token "f" TOKEN_RIGHT_PAREN 12 1 1 13 token_value.zero,
       source_token "f" TOKEN_ARROW 14 2 1 15 token_value.zero,
       source_token "f" TOKEN_IDENTIFIER 17 3 1 18 token_value.zero,
       source_token "f" TOKEN_LEFT_CURLY 21 1 1 22 token_value.zero,
       source_token "f" TOKEN_RIGHT_CURLY 22 1 1 23 token_value.zero,
       source_token "f" TOKEN_SEMICOLON 23 1 1 24 token_value.zero,
       source_token "f" TOKEN_IDENTIFIER 25 1 1 26 token_value.zero,
       source_token "f" TOKEN_COLON 27 1 1 28 token_value.zero,
       source_token "f" TOKEN_COLON 28 1 1 29 token_value.zero,
       source_token "f" TOKEN_LEFT_PAREN 30 1 1 31 token_value.zero,
       source_token "f" TOKEN_IDENTIFIER 31 1 1 32 token_value.zero,
       source_token "f" TOKEN_COLON 32 1 1 33 token_value.zero,
       source_token "f" TOKEN_IDENTIFIER 34 3 1 35 token_value.zero,
       source_token "f" TOKEN_RIGHT_PAREN 37 1 1 38 token_value.zero,
       source_token "f" TOKEN_ARROW 39 2 1 40 token_value.zero,
       source_token "f" TOKEN_IDENTIFIER 42 3 1 43 token_value.zero,
       source_token "f" TOKEN_LEFT_CURLY 46 1 1 47 token_value.zero,
       source_token "f" TOKEN_RIGHT_CURLY 47 1 1 48 token_value.zero,
       source_token "f" TOKEN_SEMICOLON 48 1 1 49 token_value.zero,
       source_token "f" TOKEN_EOF 49 0 1 50 token_value.zero]
      (parse_result_success one_parameter_declaration)
      [source_token "f" TOKEN_IDENTIFIER 25 1 1 26 token_value.zero,
       source_token "f" TOKEN_COLON 27 1 1 28 token_value.zero,
       source_token "f" TOKEN_COLON 28 1 1 29 token_value.zero,
       source_token "f" TOKEN_LEFT_PAREN 30 1 1 31 token_value.zero,
       source_token "f" TOKEN_IDENTIFIER 31 1 1 32 token_value.zero,
       source_token "f" TOKEN_COLON 32 1 1 33 token_value.zero,
       source_token "f" TOKEN_IDENTIFIER 34 3 1 35 token_value.zero,
       source_token "f" TOKEN_RIGHT_PAREN 37 1 1 38 token_value.zero,
       source_token "f" TOKEN_ARROW 39 2 1 40 token_value.zero,
       source_token "f" TOKEN_IDENTIFIER 42 3 1 43 token_value.zero,
       source_token "f" TOKEN_LEFT_CURLY 46 1 1 47 token_value.zero,
       source_token "f" TOKEN_RIGHT_CURLY 47 1 1 48 token_value.zero,
       source_token "f" TOKEN_SEMICOLON 48 1 1 49 token_value.zero,
       source_token "f" TOKEN_EOF 49 0 1 50 token_value.zero] :=
    statement_identifier_first _ _ _ _ _ 7 (by decide)
      (declaration_untyped_tokens _ _ (source_token "f" TOKEN_COLON 2 1 1 3 token_value.zero)
        (source_token "f" TOKEN_COLON 3 1 1 4 token_value.zero)
        (source_token "f" TOKEN_SEMICOLON 23 1 1 24 token_value.zero) _ _
        (parse_result_success one_parameter_function) 4 AST_CONST_ASSIGNMENT (by decide)
        (Or.inl ⟨by decide, rfl⟩) (by decide) rfl
        (function_or_expression_identifier _ _ _ _ _ _ _ 5 (by decide) (by decide)
          (parser_parse_function_declaration_tokens _ _ _ _ _ _ _ _ 4
            (parses_one_parameter _ _ _ _ _ (source_token "f" TOKEN_RIGHT_PAREN 12 1 1 13 token_value.zero) _ 2
              (by decide) (by decide) (by decide) (by decide) (by decide))
            (by decide) (by decide)
            (parses_empty_scope _ _ _ _ 2 (by decide) (by decide)))))
  have hsecond : parses (parser_parse_statement 8) (parser_create "f" two_functions_source)
      [source_token "f" TOKEN_IDENTIFIER 25 1 1 26 token_value.zero,
       source_token "f" TOKEN_COLON 27 1 1 28 token_value.zero,
       source_token "f" TOKEN_COLON 28 1 1 29 token_value.zero,
       source_token "f" TOKEN_LEFT_PAREN 30 1 1 31 token_value.zero,
       source_token "f" TOKEN_IDENTIFIER 31 1 1 32 token_value.zero,
       source_token "f" TOKEN_COLON 32 1 1 33 token_value.zero,
       source_token "f" TOKEN_IDENTIFIER 34 3 1 35 token_value.zero,
       source_token "f" TOKEN_RIGHT_PAREN 37 1 1 38 token_value.zero,
       source_token "f" TOKEN_ARROW 39 2 1 40 token_value.zero,
       source_token "f" TOKEN_IDENTIFIER 42 3 1 43 token_value.zero,
       source_token "f" TOKEN_LEFT_CURLY 46 1 1 47 token_value.zero,
       source_token "f" TOKEN_RIGHT_CURLY 47 1 1 48 token_value.zero,
       source_token "f" TOKEN_SEMICOLON 48 1 1 49 token_value.zero,
       source_token "f" TOKEN_EOF 49 0 1 50 token_value.zero]
      (parse_result_success second_function_declaration)
      [source_token "f" TOKEN_EOF 49 0 1 50 token_value.zero] :=
    statement_identifier_first _ _ _ _ _ 7 (by decide)
      (declaration_untyped_tokens _ _ (source_token "f" TOKEN_COLON 27 1 1 28 token_value.zero)
        (source_token "f" TOKEN_COLON 28 1 1 29 token_value.zero)
        (source_token "f" TOKEN_SEMICOLON 48 1 1 49 token_value.zero) _ _
        (parse_result_success second_function) 4 AST_CONST_ASSIGNMENT (by decide)
        (Or.inl ⟨by decide, rfl⟩) (by decide) rfl
        (function_or_expression_identifier _ _ _ _ _ _ _ 5 (by decide) (by decide)
          (parser_parse_function_declaration_tokens _ _ _ _ _ _ _ _ 4
            (parses_one_parameter _ _ _ _ _ (source_token "f" TOKEN_RIGHT_PAREN 37 1 1 38 token_value.zero) _ 2
              (by decide) (by decide) (by decide) (by decide) (by decide))
            (by decide) (by decide)
            (parses_empty_scope _ _ _ _ 2 (by decide) (by decide)))))
  exact parser_parse_file_two_statements _ _ _ [] _ 5 _ _ rfl hy hfirst hsecond
    (by decide)

theorem two_functions_file_rejected :
    ∃ tree,
      resolve_types two_functions_source 8 two_functions_file fresh_symbol_table
        = some (typing_result_error (source_token "f" TOKEN_IDENTIFIER 31 1 1 32 token_value.zero)
            "A variable with the name 'a' already exists! It was declared here [f:1:7]",
            tree, one_parameter_table) :=
  ⟨_, rfl⟩

theorem tokens_in_order_node (type : ast_node_type) (t : token) (c0 c1 c2 : ast_node)
    (children : node_list) (parens : Bool) :
    tokens_in_order (ast_node.node type t c0 c1 c2 children parens)
      = tokens_in_order c0 ++ (if node_has_token type then [t] else []) ++ tokens_in_order c1 ++
          tokens_in_order c2 ++ tokens_in_order_list children := by
  rw [tokens_in_order.eq_def]

theorem tokens_in_order_null : tokens_in_order ast_node.null = [] := by
  rw [tokens_in_order.eq_def]

theorem tokens_in_order_list_nil : tokens_in_order_list node_list.nil = [] := by
  rw [tokens_in_order_list.eq_def]

theorem tokens_in_order_list_cons (first : ast_node) (rest : node_list) :
    tokens_in_order_list (node_list.cons first rest)
      = tokens_in_order first ++ tokens_in_order_list rest := by
  rw [tokens_in_order_list.eq_def]

theorem flagged_subtrees_node (type : ast_node_type) (t : token) (c0 c1 c2 : ast_node)
    (children : node_list) (parens : Bool) :
    flagged_subtrees (ast_node.node type t c0 c1 c2 children parens)
      = (if parens then [ast_node.node type t c0 c1 c2 children parens] else []) ++
          flagged_subtrees c0 ++ flagged_subtrees c1 ++ flagged_subtrees c2 ++
          flagged_subtrees_list children := by
  rw [flagged_subtrees.eq_def]

theorem flagged_subtrees_null : flagged_subtrees ast_node.null = [] := by
  rw [flagged_subtrees.eq_def]

theorem flagged_subtrees_list_nil : flagged_subtrees_list node_list.nil = [] := by
  rw [flagged_subtrees_list.eq_def]

theorem flagged_subtrees_list_cons (first : ast_node) (rest : node_list) :
    flagged_subtrees_list (node_list.cons first rest)
      = flagged_subtrees first ++ flagged_subtrees_list rest := by
  rw [flagged_subtrees_list.eq_def]

theorem tokens_in_order_list_push_back (n : ast_node) :
    ∀ children : node_list,
      tokens_in_order_list (node_list_push_back children n)
        = tokens_in_order_list children ++ tokens_in_order n
  | node_list.nil => by
    simp [node_list_push_back, tokens_in_order_list_cons, tokens_in_order_list_nil]
  | node_list.cons first rest => by
    simp [node_list_push_back, tokens_in_order_list_cons,
      tokens_in_order_list_push_back n rest]

theorem flagged_subtrees_list_push_back (n : ast_node) :
    ∀ children : node_list,
      flagged_subtrees_list (node_list_push_back children n)
        = flagged_subtrees_list children ++ flagged_subtrees n
  | node_list.nil => by
    simp [node_list_push_back, flagged_subtrees_list_cons, flagged_subtrees_list_nil]
  | node_list.cons first rest => by
    simp [node_list_push_back, flagged_subtrees_list_cons,
      flagged_subtrees_list_push_back n rest]

theorem without_brackets_append (a b : List token) :
    without_brackets (a ++ b) = without_brackets a ++ without_brackets b := by
  simp [without_brackets]

theorem without_brackets_cons_keep (t : token) (ts : List token)
    (h1 : t.type ≠ TOKEN_LEFT_PAREN) (h2 : t.type ≠ TOKEN_RIGHT_PAREN)
    (h3 : t.type ≠ TOKEN_COMMA) :
    without_brackets (t :: ts) = t :: without_brackets ts := by
  simp [without_brackets, h1, h2, h3]

theorem without_brackets_cons_drop (t : token) (ts : List token)
    (h : t.type = TOKEN_LEFT_PAREN ∨ t.type = TOKEN_RIGHT_PAREN ∨ t.type = TOKEN_COMMA) :
    without_brackets (t :: ts) = without_brackets ts := by
  rcases h with h | h | h <;> simp [without_brackets, h]

theorem without_brackets_nil : without_brackets [] = [] := rfl

theorem closes_parens_append (b : List token) :
    ∀ (a : List token) (d k : Nat), closes_parens k a = true →
      closes_parens (d + k) (a ++ b) = closes_parens d b
  | [], d, k, h => by
    simp only [closes_parens, beq_iff_eq] at h
    subst h
    rfl
  | t :: a, d, k, h => by
    simp only [closes_parens] at h
    simp only [List.cons_append, closes_parens]
    by_cases h1 : t.type = TOKEN_LEFT_PAREN
    · simp only [h1, if_true] at h ⊢
      exact closes_parens_append b a d (k + 1) h
    · simp only [h1, if_false] at h ⊢
      by_cases h2 : t.type = TOKEN_RIGHT_PAREN
      · simp only [h2, if_true] at h ⊢
        cases k with
        | zero => simp at h
        | succ k =>
          simp only at h
          exact closes_parens_append b a d k h
      · simp only [h2, if_false] at h ⊢
        exact closes_parens_append b a d k h

theorem closes_parens_balanced_append (a b : List token) (ha : closes_parens 0 a = true)
    (hb : closes_parens 0 b = true) : closes_parens 0 (a ++ b) = true := by
  have h := closes_parens_append b a 0 0 ha
  rw [Nat.add_zero] at h
  rw [h, hb]

theorem closes_parens_other (t : token) (ts : List token) (d : Nat)
    (h1 : t.type ≠ TOKEN_LEFT_PAREN) (h2 : t.type ≠ TOKEN_RIGHT_PAREN) :
    closes_parens d (t :: ts) = closes_parens d ts := by
  simp only [closes_parens, h1, h2, if_false]

theorem closes_parens_enclosed (lp rp : token) (inner : List token)
    (hlp : lp.type = TOKEN_LEFT_PAREN) (hrp : rp.type = TOKEN_RIGHT_PAREN)
    (h : closes_parens 0 inner = true) :
    closes_parens 0 (lp :: (inner ++ [rp])) = true := by
  have hne : rp.type ≠ TOKEN_LEFT_PAREN := by rw [hrp]; decide
  have h1 := closes_parens_append [rp] inner 1 0 h
  simp only [closes_parens, hlp, if_true]
  rw [Nat.add_zero] at h1
  rw [Nat.zero_add, h1, closes_parens, if_neg hne, if_pos hrp]
  rfl

theorem primary_token_kind (t : token_type) (type : ast_node_type)
    (h : primary_node_type t = some type) :
    t ≠ TOKEN_LEFT_PAREN ∧ t ≠ TOKEN_RIGHT_PAREN ∧ t ≠ TOKEN_COMMA ∧ t ≠ TOKEN_EOF ∧
      node_has_token type = true ∧ precedence_from_node_type type < 0 := by
  simp only [primary_node_type, literal_node_type] at h
  split_ifs at h with h1 h2 h3 h4 <;> cases h <;> subst_vars <;> decide

theorem operator_token_kind (t : token_type) (type : ast_node_type)
    (h : binary_operator_type t = some type) :
    t ≠ TOKEN_LEFT_PAREN ∧ t ≠ TOKEN_RIGHT_PAREN ∧ t ≠ TOKEN_COMMA ∧ t ≠ TOKEN_EOF ∧
      node_has_token type = true := by
  simp only [binary_operator_type] at h
  split_ifs at h with h1 h2 h3 h4 h5 h6 h7 <;> cases h <;> subst_vars <;> decide

theorem between_matched_parens_widen (a c b : List token) (n : ast_node)
    (h : between_matched_parens c n) : between_matched_parens (a ++ (c ++ b)) n := by
  obtain ⟨before, lp, inner, rp, after, e, h1, h2, h3, h4⟩ := h
  refine ⟨a ++ before, lp, inner, rp, after ++ b, ?_, h1, h2, h3, h4⟩
  rw [e]
  simp

theorem between_matched_parens_left (c b : List token) (n : ast_node)
    (h : between_matched_parens c n) : between_matched_parens (c ++ b) n := by
  have := between_matched_parens_widen [] c b n h
  simpa using this

theorem between_matched_parens_right (a c : List token) (n : ast_node)
    (h : between_matched_parens c n) : between_matched_parens (a ++ c) n := by
  have := between_matched_parens_widen a c [] n h
  simpa using this

theorem built_from_primary (c : token) (type : ast_node_type)
    (h : primary_node_type c.type = some type) :
    built_from [c] (ast_node.node type c ast_node.null ast_node.null ast_node.null
      node_list.nil false) := by
  obtain ⟨h1, h2, h3, _, h5, _⟩ := primary_token_kind c.type type h
  refine ⟨?_, ?_, ?_⟩
  · rw [tokens_in_order_node, tokens_in_order_null, tokens_in_order_list_nil, h5,
      without_brackets_cons_keep c [] h1 h2 h3]
    rfl
  · rw [closes_parens_other c [] 0 h1 h2]
    rfl
  · intro n hn
    rw [flagged_subtrees_node, flagged_subtrees_null, flagged_subtrees_list_nil] at hn
    simp at hn

theorem built_from_enclosed (lp rp : token) (c : List token) (type : ast_node_type)
    (t : token) (c0 c1 c2 : ast_node) (children : node_list) (parens : Bool)
    (hlp : lp.type = TOKEN_LEFT_PAREN) (hrp : rp.type = TOKEN_RIGHT_PAREN)
    (h : built_from c (ast_node.node type t c0 c1 c2 children parens)) :
    built_from (lp :: (c ++ [rp])) (ast_node.node type t c0 c1 c2 children true) := by
  obtain ⟨h1, h2, h3⟩ := h
  have hin : tokens_in_order (ast_node.node type t c0 c1 c2 children true)
      = without_brackets c := by
    rw [← h1, tokens_in_order_node, tokens_in_order_node]
  refine ⟨?_, closes_parens_enclosed lp rp c hlp hrp h2, ?_⟩
  · rw [hin, without_brackets_cons_drop lp _ (Or.inl hlp), without_brackets_append,
      without_brackets_cons_drop rp _ (Or.inr (Or.inl hrp))]
    simp [without_brackets_nil]
  · intro n hn
    rw [flagged_subtrees_node] at hn
    simp only [if_true, List.append_assoc, List.singleton_append] at hn
    rcases List.mem_cons.1 hn with e | hr
    · rw [e]
      exact ⟨[], lp, c, rp, [], by simp, hlp, hrp, h2, hin⟩
    · have hm : n ∈ flagged_subtrees (ast_node.node type t c0 c1 c2 children parens) := by
        rw [flagged_subtrees_node]
        simp only [List.append_assoc]
        exact List.mem_append_right _ hr
      have := between_matched_parens_widen [lp] c [rp] n (h3 n hm)
      simpa using this

theorem precedence_has_token (type : ast_node_type)
    (h : ¬ precedence_from_node_type type < 0) : node_has_token type = true := by
  cases type <;> first | rfl | (exfalso; apply h; decide)

theorem fix_precedence_unflagged (type : ast_node_type) (o : token) (left right : ast_node)
    (rotated : Bool) (tree : ast_node) (hop : node_has_token type = true)
    (h : fix_precedence (ast_node.node type o left right ast_node.null node_list.nil false)
      = some (rotated, tree)) :
    tokens_in_order tree = tokens_in_order left ++ o :: tokens_in_order right ∧
    flagged_subtrees tree = flagged_subtrees left ++ flagged_subtrees right := by
  cases right with
  | null => simp [fix_precedence] at h
  | node rtype rt rleft rright rc2 rchildren rparens =>
    simp only [fix_precedence] at h
    by_cases hp : precedence_from_node_type rtype < 0
    · simp only [hp, if_true, Option.some.injEq, Prod.mk.injEq] at h
      rw [← h.2]
      constructor
      · rw [tokens_in_order_node type, hop, tokens_in_order_null, tokens_in_order_list_nil]
        simp
      · rw [flagged_subtrees_node type, flagged_subtrees_null, flagged_subtrees_list_nil]
        simp
    · simp only [hp, if_false, Bool.false_eq_true, false_or] at h
      by_cases hr : precedence_from_node_type type > precedence_from_node_type rtype ∧
          rparens = false
      · simp only [hr, and_self, if_true, Option.some.injEq, Prod.mk.injEq] at h
        rw [← h.2]
        have hrt := precedence_has_token rtype hp
        obtain ⟨_, hrp⟩ := hr
        subst hrp
        constructor
        · rw [tokens_in_order_node rtype, tokens_in_order_node type, tokens_in_order_node rtype,
            hop, hrt, tokens_in_order_null, tokens_in_order_list_nil]
          simp
        · rw [flagged_subtrees_node rtype, flagged_subtrees_node type,
            flagged_subtrees_node rtype, flagged_subtrees_null, flagged_subtrees_list_nil]
          simp
      · simp only [hr, if_false, Option.some.injEq, Prod.mk.injEq] at h
        rw [← h.2]
        constructor
        · rw [tokens_in_order_node type, hop, tokens_in_order_null, tokens_in_order_list_nil]
          simp
        · rw [flagged_subtrees_node type, flagged_subtrees_null, flagged_subtrees_list_nil]
          simp

theorem built_from_operator (l r : List token) (o : token) (type : ast_node_type)
    (left right tree : ast_node) (rotated : Bool)
    (hl : built_from l left) (hr : built_from r right)
    (ho : binary_operator_type o.type = some type)
    (h : fix_precedence (ast_node.node type o left right ast_node.null node_list.nil false)
      = some (rotated, tree)) :
    built_from (l ++ o :: r) tree := by
  obtain ⟨h1, h2, h3, _, h5⟩ := operator_token_kind o.type type ho
  obtain ⟨ht, hf⟩ := fix_precedence_unflagged type o left right rotated tree h5 h
  obtain ⟨l1, l2, l3⟩ := hl
  obtain ⟨r1, r2, r3⟩ := hr
  refine ⟨?_, ?_, ?_⟩
  · rw [ht, l1, r1, without_brackets_append, without_brackets_cons_keep o r h1 h2 h3]
  · apply closes_parens_balanced_append l (o :: r) l2
    rw [closes_parens_other o r 0 h1 h2]
    exact r2
  · intro n hn
    rw [hf] at hn
    rcases List.mem_append.1 hn with hm | hm
    · exact between_matched_parens_left l (o :: r) n (l3 n hm)
    · have := between_matched_parens_widen (l ++ [o]) r [] n (r3 n hm)
      simpa using this

theorem list_built_from_nil : list_built_from [] node_list.nil :=
  ⟨by rw [tokens_in_order_list_nil]; rfl, rfl, fun n hn => by
    rw [flagged_subtrees_list_nil] at hn
    cases hn⟩

theorem list_built_from_push (acc c : List token) (children : node_list) (tree : ast_node)
    (ha : list_built_from acc children) (hc : built_from c tree) :
    list_built_from (acc ++ c) (node_list_push_back children tree) := by
  obtain ⟨a1, a2, a3⟩ := ha
  obtain ⟨c1, c2, c3⟩ := hc
  refine ⟨?_, closes_parens_balanced_append acc c a2 c2, ?_⟩
  · rw [tokens_in_order_list_push_back, a1, c1, without_brackets_append]
  · intro n hn
    rw [flagged_subtrees_list_push_back] at hn
    rcases List.mem_append.1 hn with hm | hm
    · exact between_matched_parens_left acc c n (a3 n hm)
    · exact between_matched_parens_right acc c n (c3 n hm)

theorem list_built_from_comma (acc : List token) (comma : token) (children : node_list)
    (ha : list_built_from acc children) (hc : comma.type = TOKEN_COMMA) :
    list_built_from (acc ++ [comma]) children := by
  obtain ⟨a1, a2, a3⟩ := ha
  have h1 : comma.type ≠ TOKEN_LEFT_PAREN := by rw [hc]; decide
  have h2 : comma.type ≠ TOKEN_RIGHT_PAREN := by rw [hc]; decide
  refine ⟨?_, ?_, ?_⟩
  · rw [a1, without_brackets_append,
      without_brackets_cons_drop comma [] (Or.inr (Or.inr hc))]
    simp [without_brackets_nil]
  · apply closes_parens_balanced_append acc [comma] a2
    rw [closes_parens_other comma [] 0 h1 h2]
    rfl
  · intro n hn
    exact between_matched_parens_left acc [comma] n (a3 n hn)

theorem built_from_call (name lp rp : token) (args : List token) (children : node_list)
    (hn : name.type = TOKEN_IDENTIFIER)
    (hlp : lp.type = TOKEN_LEFT_PAREN) (hrp : rp.type = TOKEN_RIGHT_PAREN)
    (ha : list_built_from args children) :
    built_from (name :: lp :: (args ++ [rp]))
      (ast_node.node AST_FUNCTION_CALL token_zero
        (ast_node.node AST_IDENTIFIER name ast_node.null ast_node.null ast_node.null
          node_list.nil false)
        (ast_node.node AST_PARAMETER_LIST token_zero ast_node.null ast_node.null ast_node.null
          children false)
        ast_node.null node_list.nil false) := by
  obtain ⟨a1, a2, a3⟩ := ha
  have h1 : name.type ≠ TOKEN_LEFT_PAREN := by rw [hn]; decide
  have h2 : name.type ≠ TOKEN_RIGHT_PAREN := by rw [hn]; decide
  have h3 : name.type ≠ TOKEN_COMMA := by rw [hn]; decide
  refine ⟨?_, ?_, ?_⟩
  · rw [tokens_in_order_node AST_FUNCTION_CALL, tokens_in_order_node AST_IDENTIFIER,
      tokens_in_order_node AST_PARAMETER_LIST, tokens_in_order_null, tokens_in_order_list_nil,
      a1, without_brackets_cons_keep name _ h1 h2 h3,
      without_brackets_cons_drop lp _ (Or.inl hlp), without_brackets_append,
      without_brackets_cons_drop rp _ (Or.inr (Or.inl hrp))]
    simp [node_has_token, without_brackets_nil]
  · rw [closes_parens_other name _ 0 h1 h2]
    exact closes_parens_enclosed lp rp args hlp hrp a2
  · intro n hm
    rw [flagged_subtrees_node AST_FUNCTION_CALL, flagged_subtrees_node AST_IDENTIFIER,
      flagged_subtrees_node AST_PARAMETER_LIST, flagged_subtrees_null,
      flagged_subtrees_list_nil] at hm
    simp only [Bool.false_eq_true, if_false, List.append_nil, List.nil_append] at hm
    have := between_matched_parens_widen [name, lp] args [rp] n (a3 n hm)
    simpa using this

theorem ends_with_eof_cons (s : List token) (h : ends_with_eof s) : ∃ t s1, s = t :: s1 := by
  obtain ⟨body, eof, e, _⟩ := h
  cases body with
  | nil => exact ⟨eof, [], e⟩
  | cons t body => exact ⟨t, body ++ [eof], e⟩

theorem ends_with_eof_tail (t : token) (s1 : List token) (h : ends_with_eof (t :: s1))
    (ht : t.type ≠ TOKEN_EOF) : ends_with_eof s1 := by
  obtain ⟨body, eof, e, he⟩ := h
  cases body with
  | nil =>
    simp only [List.nil_append, List.cons.injEq] at e
    rw [e.1] at ht
    exact absurd he ht
  | cons b body =>
    simp only [List.cons_append, List.cons.injEq] at e
    exact ⟨body, eof, e.2, he⟩

theorem yields_or_operator_some (lexer : rouleaux_lexer) (rest : List token)
    (h : yields_or_operator lexer rest) : ∃ x, lexer_yields lexer x := by
  rcases h with h | ⟨o, more, _, _, h⟩
  · exact Exists.intro rest h
  · exact Exists.intro (o :: more) h

theorem peek_after_expression (lexer : rouleaux_lexer) (rest : List token)
    (h : yields_or_operator lexer rest) (hr : ends_with_eof rest) :
    ∃ z lexer1, lexer_peek_token lexer = some (z, lexer1) ∧
      ((∃ rest1, rest = z :: rest1 ∧ lexer_yields lexer1 rest) ∨
        (∃ type more, binary_operator_type z.type = some type ∧
          lexer_yields lexer1 (z :: more))) := by
  rcases h with h | ⟨o, more, type, ho, h⟩
  · obtain ⟨z, rest1, e⟩ := ends_with_eof_cons rest hr
    subst e
    obtain ⟨l1, hp, hy⟩ := lexer_yields_peek lexer z rest1 h
    exact ⟨z, l1, hp, Or.inl ⟨rest1, rfl, hy⟩⟩
  · obtain ⟨l1, hp, hy⟩ := lexer_yields_peek lexer o more h
    exact ⟨o, l1, hp, Or.inr ⟨type, more, ho, hy⟩⟩

theorem attach_left_operand_outcome (left : ast_node) (fallback r res : parse_result)
    (parser1 parser2 : rouleaux_parser_t) (consumed s : List token)
    (hl : built_from consumed left) (hf : fallback.success = true)
    (ht : fallback.resulting_tree = left) (hs : ends_with_eof s)
    (hr : operator_outcome s r parser1)
    (h : attach_left_operand left fallback (r, parser1) = some (res, parser2)) :
    expression_outcome (consumed ++ s) res parser2 := by
  obtain ⟨hfail, hsucc⟩ := hr
  by_cases hres : r.success = false
  · rw [attach_left_operand_failure _ _ _ _ hres] at h
    cases h
    exact ⟨fun hh => (by rw [hf] at hh; cases hh),
      fun _ => ⟨consumed, s, rfl, hs, (by rw [ht]; exact hl), hfail hres⟩⟩
  · have hok : r.success = true := by simpa using hres
    obtain ⟨type, o, right, c, rest, e1, ho, e2, hrest, hb, hafter⟩ := hsucc hok
    simp only [attach_left_operand, hres, if_false, e1, set_left_child] at h
    cases hfix : fix_precedence (ast_node.node type o left right ast_node.null node_list.nil
        false) with
    | none => simp [hfix] at h
    | some x =>
      obtain ⟨rotated, tree⟩ := x
      simp only [hfix] at h
      cases h
      refine ⟨fun hh => (by simp only [hok] at hh; cases hh), fun _ =>
        ⟨consumed ++ o :: c, rest, (by rw [e2]; simp), hrest, ?_, hafter⟩⟩
      exact built_from_operator consumed c o type left right tree rotated hl hb ho hfix

theorem binary_operator_built_step (fuel : Nat) (h1 : expression_beginning_built fuel) :
    binary_operator_built (fuel + 1) := by
  intro parser type o s r parser1 hs hy ho h
  obtain ⟨_, _, _, heof, _⟩ := operator_token_kind o.type type ho
  obtain ⟨l1, hn1, hy1⟩ := lexer_yields_next parser.lexer o s hy
  rw [parse_binary_operator] at h
  simp only [hn1] at h
  cases he : parser_parse_expression_beginning fuel { parser with lexer := l1 } with
  | none => simp [he] at h
  | some x =>
    obtain ⟨expr_result, parser2⟩ := x
    simp only [he] at h
    obtain ⟨hfail, hsucc⟩ := h1 { parser with lexer := l1 } s expr_result parser2
      (ends_with_eof_tail o s hs heof) hy1 he
    by_cases hres : expr_result.success = false
    · simp only [hres, if_true] at h
      obtain ⟨x, hx⟩ := hfail hres
      obtain ⟨l3, hb3, hy3⟩ := lexer_yields_put_back parser2.lexer o x hx
      simp only [hb3] at h
      cases h
      exact ⟨fun _ => Or.inr ⟨o, x, type, ho, hy3⟩, fun hh => (by rw [hres] at hh; cases hh)⟩
    · have hok : expr_result.success = true := by simpa using hres
      simp only [hres, if_false] at h
      cases h
      obtain ⟨c, rest, e, hrest, hb, hafter⟩ := hsucc hok
      exact ⟨fun hh => (by cases hh), fun _ =>
        ⟨type, o, expr_result.resulting_tree, c, rest, rfl, ho, (by rw [e]), hrest, hb,
          hafter⟩⟩

theorem expression_built_step (fuel : Nat) (h1 : binary_operator_built fuel) :
    expression_built (fuel + 1) := by
  intro parser s r parser1 hs hy h
  obtain ⟨t, s1, e⟩ := ends_with_eof_cons s hs
  subst e
  obtain ⟨l1, hp1, hy1⟩ := lexer_yields_peek parser.lexer t s1 hy
  rw [parser_parse_expression] at h
  simp only [hp1] at h
  cases ho : binary_operator_type t.type with
  | none =>
    simp only [ho] at h
    cases h
    exact ⟨fun _ => Or.inl hy1, fun hh => (by cases hh)⟩
  | some type =>
    simp only [ho] at h
    exact h1 { parser with lexer := l1 } type t s1 r parser1 hs hy1 ho h

theorem expression_beginning_built_step (fuel : Nat) (h1 : expression_beginning_built fuel)
    (h2 : expression_built fuel) (h3 : function_call_list_built fuel) :
    expression_beginning_built (fuel + 1) := by
  intro parser s r parser1 hs hy h
  obtain ⟨t, s1, e⟩ := ends_with_eof_cons s hs
  subst e
  obtain ⟨l1, hp1, hy1⟩ := lexer_yields_peek parser.lexer t s1 hy
  obtain ⟨l2, hn2, hy2⟩ := lexer_yields_next l1 t s1 hy1
  rw [parser_parse_expression_beginning] at h
  simp only [hp1] at h
  by_cases hlp : t.type = TOKEN_LEFT_PAREN
  · have hs1 : ends_with_eof s1 := ends_with_eof_tail t s1 hs (by rw [hlp]; decide)
    rw [if_pos hlp] at h
    simp only [hn2] at h
    cases hin : parser_parse_expression_beginning fuel { parser with lexer := l2 } with
    | none => simp [hin] at h
    | some x =>
      obtain ⟨result, parser3⟩ := x
      simp only [hin] at h
      obtain ⟨hfail, hsucc⟩ := h1 { parser with lexer := l2 } s1 result parser3 hs1 hy2 hin
      by_cases hres : result.success = false
      · simp only [hres, if_true] at h
        cases h
        exact ⟨fun _ => hfail hres, fun hh => (by rw [hres] at hh; cases hh)⟩
      · have hok : result.success = true := by simpa using hres
        rw [if_neg hres] at h
        obtain ⟨c, rest, e, hrest, hb, hafter⟩ := hsucc hok
        obtain ⟨z, l4, hp4, hz⟩ := peek_after_expression parser3.lexer rest hafter hrest
        simp only [hp4] at h
        by_cases hrp : z.type = TOKEN_RIGHT_PAREN
        · simp only [ne_eq, hrp, not_true_eq_false, if_false] at h
          rcases hz with ⟨rest1, e1, hy4⟩ | ⟨type, more, ho, _⟩
          · subst e1
            cases htree : result.resulting_tree with
            | null => simp [htree, set_enclosed_in_parens] at h
            | node ntype nt c0 c1 c2 children parens =>
              simp only [htree, set_enclosed_in_parens] at h
              obtain ⟨l5, hn5, hy5⟩ := lexer_yields_next l4 z rest1 hy4
              simp only [hn5] at h
              have hrest1 : ends_with_eof rest1 :=
                ends_with_eof_tail z rest1 hrest (by rw [hrp]; decide)
              cases hE : parser_parse_expression fuel { parser3 with lexer := l5 } with
              | none => simp [hE] at h
              | some y =>
                obtain ⟨r2, parser6⟩ := y
                simp only [hE] at h
                have hout := h2 { parser3 with lexer := l5 } rest1 r2 parser6 hrest1 hy5 hE
                rw [htree] at hb
                have hb1 := built_from_enclosed t z c ntype nt c0 c1 c2 children parens hlp
                  hrp hb
                have := attach_left_operand_outcome _
                  { result with
                    resulting_tree := ast_node.node ntype nt c0 c1 c2 children true }
                  r2 r parser6 parser1 (t :: (c ++ [z])) rest1 hb1 hok rfl hrest1 hout h
                rw [e]
                simpa using this
          · exfalso
            have := (operator_token_kind z.type type ho).2.1
            exact this hrp
        · simp only [ne_eq, hrp, not_false_eq_true, if_true] at h
          cases hloc : location_printable_text t.location with
          | none => simp [hloc] at h
          | some text =>
            simp only [hloc] at h
            cases h
            refine ⟨fun _ => ?_, fun hh => (by cases hh)⟩
            rcases hz with ⟨rest1, _, hy4⟩ | ⟨_, more, _, hy4⟩
            · exact Exists.intro rest hy4
            · exact Exists.intro (z :: more) hy4
  · rw [if_neg hlp] at h
    by_cases hid : t.type = TOKEN_IDENTIFIER
    · have hs1 : ends_with_eof s1 := ends_with_eof_tail t s1 hs (by rw [hid]; decide)
      rw [if_pos hid] at h
      simp only [hn2, set_token, ast_node_create] at h
      obtain ⟨after, s2, e⟩ := ends_with_eof_cons s1 hs1
      subst e
      obtain ⟨l3, hp3, hy3⟩ := lexer_yields_peek l2 after s2 hy2
      simp only [hp3] at h
      have hprim : primary_node_type t.type = some AST_IDENTIFIER := by
        simp [primary_node_type, hid]
      have hleaf := built_from_primary t AST_IDENTIFIER hprim
      by_cases hcall : after.type = TOKEN_LEFT_PAREN
      · rw [if_pos hcall] at h
        cases hcl : parser_parse_function_call_list fuel { parser with lexer := l3 } with
        | none => simp [hcl] at h
        | some x =>
          obtain ⟨parameters_result, parser4⟩ := x
          simp only [hcl] at h
          obtain ⟨hfail, hsucc⟩ := h3 { parser with lexer := l3 } (after :: s2)
            parameters_result parser4 hs1 hy3 hcl
          by_cases hres : parameters_result.success = false
          · simp only [hres, if_true] at h
            cases h
            exact ⟨fun _ => hfail hres, fun hh => (by rw [hres] at hh; cases hh)⟩
          · have hok : parameters_result.success = true := by simpa using hres
            rw [if_neg hres] at h
            obtain ⟨lp, args, rp, rest, children, e, hl, hr, hrest, hy4, htree, hargs⟩ :=
              hsucc hok
            cases hE : parser_parse_expression fuel parser4 with
            | none => simp [hE] at h
            | some y =>
              obtain ⟨r2, parser5⟩ := y
              simp only [hE, htree] at h
              have hout := h2 parser4 rest r2 parser5 hrest hy4 hE
              have hb1 := built_from_call t lp rp args children hid hl hr hargs
              have := attach_left_operand_outcome _ _ r2 r parser5 parser1
                (t :: lp :: (args ++ [rp])) rest hb1 rfl rfl hrest hout h
              rw [e]
              simpa using this
      · rw [if_neg hcall] at h
        cases hE : parser_parse_expression fuel { parser with lexer := l3 } with
        | none => simp [hE] at h
        | some y =>
          obtain ⟨r2, parser5⟩ := y
          simp only [hE] at h
          have hout := h2 { parser with lexer := l3 } (after :: s2) r2 parser5 hs1 hy3 hE
          have := attach_left_operand_outcome _ _ r2 r parser5 parser1 [t] (after :: s2)
            hleaf rfl rfl hs1 hout h
          simpa using this
    · rw [if_neg hid] at h
      cases hlit : literal_node_type t.type with
      | none =>
        simp only [hlit] at h
        cases h
        exact ⟨fun _ => Exists.intro (t :: s1) hy1, fun hh => (by cases hh)⟩
      | some node_type =>
        have hprim : primary_node_type t.type = some node_type := by
          simp [primary_node_type, hid, hlit]
        have hs1 : ends_with_eof s1 :=
          ends_with_eof_tail t s1 hs (primary_token_kind t.type node_type hprim).2.2.2.1
        simp only [hlit, hn2, set_token, ast_node_create] at h
        cases hE : parser_parse_expression fuel { parser with lexer := l2 } with
        | none => simp [hE] at h
        | some y =>
          obtain ⟨r2, parser5⟩ := y
          simp only [hE] at h
          have hout := h2 { parser with lexer := l2 } s1 r2 parser5 hs1 hy2 hE
          have := attach_left_operand_outcome _ _ r2 r parser5 parser1 [t] s1
            (built_from_primary t node_type hprim) rfl rfl hs1 hout h
          simpa using this

theorem function_call_list_built_step (fuel : Nat) (h1 : function_call_list_loop_built fuel) :
    function_call_list_built (fuel + 1) := by
  intro parser s r parser1 hs hy h
  obtain ⟨t, s1, e⟩ := ends_with_eof_cons s hs
  subst e
  obtain ⟨l1, hn1, hy1⟩ := lexer_yields_next parser.lexer t s1 hy
  rw [parser_parse_function_call_list] at h
  simp only [hn1] at h
  by_cases hlp : t.type = TOKEN_LEFT_PAREN
  · have hs1 : ends_with_eof s1 := ends_with_eof_tail t s1 hs (by rw [hlp]; decide)
    simp only [ne_eq, hlp, not_true_eq_false, if_false] at h
    obtain ⟨t2, s2, e⟩ := ends_with_eof_cons s1 hs1
    subst e
    obtain ⟨l2, hp2, hy2⟩ := lexer_yields_peek l1 t2 s2 hy1
    simp only [hp2] at h
    obtain ⟨hfail, hsucc⟩ := h1 { parser with lexer := l2 } node_list_create t2 [] (t2 :: s2) r
      parser1 hs1 hy2 (fun _ => ⟨s2, rfl⟩) list_built_from_nil h
    refine ⟨hfail, fun hok => ?_⟩
    obtain ⟨more, rp, rest, children, e, hrp, hrest, hy3, htree, hb⟩ := hsucc hok
    exact ⟨t, more, rp, rest, children, (by rw [e]), hlp, hrp, hrest, hy3, htree,
      (by simpa using hb)⟩
  · simp only [ne_eq, hlp, not_false_eq_true, if_true] at h
    cases h
    exact ⟨fun _ => Exists.intro s1 hy1, fun hh => (by cases hh)⟩

theorem function_call_list_loop_built_step (fuel : Nat) (h1 : expression_beginning_built fuel)
    (h2 : function_call_list_loop_built fuel) :
    function_call_list_loop_built (fuel + 1) := by
  intro parser children t acc s r parser1 hs hy ht hacc h
  rw [function_call_list_loop] at h
  by_cases hrp : t.type = TOKEN_RIGHT_PAREN
  · simp only [ne_eq, hrp, not_true_eq_false, if_false] at h
    obtain ⟨s1, e⟩ := ht hrp
    subst e
    obtain ⟨l1, hn1, hy1⟩ := lexer_yields_next parser.lexer t s1 hy
    simp only [hn1] at h
    cases h
    exact ⟨fun hh => (by cases hh), fun _ =>
      ⟨[], t, s1, children, rfl, hrp, ends_with_eof_tail t s1 hs (by rw [hrp]; decide), hy1,
        rfl, (by simpa using hacc)⟩⟩
  · simp only [ne_eq, hrp, not_false_eq_true, if_true] at h
    cases he : parser_parse_expression_beginning fuel parser with
    | none => simp [he] at h
    | some x =>
      obtain ⟨expr_result, parser2⟩ := x
      simp only [he] at h
      obtain ⟨hfail, hsucc⟩ := h1 parser s expr_result parser2 hs hy he
      by_cases hres : expr_result.success = false
      · simp only [hres, if_true] at h
        cases h
        exact ⟨fun _ => hfail hres, fun hh => (by rw [hres] at hh; cases hh)⟩
      · have hok : expr_result.success = true := by simpa using hres
        rw [if_neg hres] at h
        obtain ⟨c, rest0, e, hrest0, hb, hafter⟩ := hsucc hok
        obtain ⟨z, l3, hp3, hz⟩ := peek_after_expression parser2.lexer rest0 hafter hrest0
        simp only [hp3] at h
        have hsome : ∃ x, lexer_yields l3 x := by
          rcases hz with ⟨rest1, _, hy3⟩ | ⟨_, more, _, hy3⟩
          · exact Exists.intro rest0 hy3
          · exact Exists.intro (z :: more) hy3
        have hpush := list_built_from_push acc c children expr_result.resulting_tree hacc hb
        by_cases hzr : z.type = TOKEN_RIGHT_PAREN
        · rw [if_pos hzr] at h
          rcases hz with ⟨rest1, e1, hy3⟩ | ⟨type, more, ho, _⟩
          · subst e1
            obtain ⟨l4, hn4, hy4⟩ := lexer_yields_next l3 z rest1 hy3
            simp only [hn4] at h
            cases h
            exact ⟨fun hh => (by cases hh), fun _ =>
              ⟨c, z, rest1, _, e, hzr,
                ends_with_eof_tail z rest1 hrest0 (by rw [hzr]; decide), hy4, rfl, hpush⟩⟩
          · exact absurd hzr (operator_token_kind z.type type ho).2.1
        · rw [if_neg hzr] at h
          by_cases hze : z.type = TOKEN_EOF
          · rw [if_pos hze] at h
            cases h
            exact ⟨fun _ => hsome, fun hh => (by cases hh)⟩
          · rw [if_neg hze] at h
            by_cases hzc : z.type = TOKEN_COMMA
            · rw [if_pos hzc] at h
              rcases hz with ⟨rest1, e1, hy3⟩ | ⟨type, more, ho, _⟩
              · subst e1
                obtain ⟨l4, hn4, hy4⟩ := lexer_yields_next l3 z rest1 hy3
                simp only [hn4] at h
                have hcomma := list_built_from_comma (acc ++ c) z _ hpush hzc
                obtain ⟨hfail2, hsucc2⟩ := h2 { parser2 with lexer := l4 } _ z
                  (acc ++ c ++ [z]) rest1 r parser1
                  (ends_with_eof_tail z rest1 hrest0 hze) hy4
                  (fun hh => absurd hh hzr) hcomma h
                refine ⟨hfail2, fun hok2 => ?_⟩
                obtain ⟨more, rp, rest, children2, e2, hrp2, hrest, hy5, htree, hb2⟩ :=
                  hsucc2 hok2
                exact ⟨c ++ z :: more, rp, rest, children2, (by rw [e, e2]; simp), hrp2,
                  hrest, hy5, htree, (by simpa using hb2)⟩
              · exact absurd hzc (operator_token_kind z.type type ho).2.2.1
            · rw [if_neg hzc] at h
              cases h
              exact ⟨fun _ => hsome, fun hh => (by cases hh)⟩

theorem expressions_built :
    ∀ fuel : Nat, expression_beginning_built fuel ∧ expression_built fuel ∧
      binary_operator_built fuel ∧ function_call_list_built fuel ∧
      function_call_list_loop_built fuel := by
  intro fuel
  induction fuel with
  | zero =>
    refine ⟨?_, ?_, ?_, ?_, ?_⟩
    · intro parser s r parser1 _ _ h
      simp [parser_parse_expression_beginning] at h
    · intro parser s r parser1 _ _ h
      simp [parser_parse_expression] at h
    · intro parser type o s r parser1 _ _ _ h
      simp [parse_binary_operator] at h
    · intro parser s r parser1 _ _ h
      simp [parser_parse_function_call_list] at h
    · intro parser children t acc s r parser1 _ _ _ _ h
      simp [function_call_list_loop] at h
  | succ fuel ih =>
    obtain ⟨h1, h2, h3, h4, h5⟩ := ih
    exact ⟨expression_beginning_built_step fuel h1 h2 h4, expression_built_step fuel h3,
      binary_operator_built_step fuel h1, function_call_list_built_step fuel h5,
      function_call_list_loop_built_step fuel h1 h5⟩

theorem binary_operator_type_is_operator (t : token_type) (type : ast_node_type)
    (h : binary_operator_type t = some type) : is_binary_operator type = true := by
  simp only [binary_operator_type] at h
  split_ifs at h with h1 h2 h3 h4 h5 h6 h7 <;> cases h <;> rfl

theorem is_binary_operator_has_token (type : ast_node_type)
    (h : is_binary_operator type = true) : node_has_token type = true := by
  cases type <;> first | rfl | (simp [is_binary_operator] at h)

theorem parser_parse_expression_root (fuel : Nat) (parser parser1 : rouleaux_parser_t)
    (r : parse_result) (h : parser_parse_expression fuel parser = some (r, parser1))
    (hok : r.success = true) :
    ∃ type o right,
      r.resulting_tree = ast_node.node type o ast_node.null right ast_node.null node_list.nil
        false ∧
      is_binary_operator type = true ∧
      ∀ left fallback,
        attach_left_operand left fallback (r, parser1)
          = match fix_precedence (ast_node.node type o left right ast_node.null node_list.nil
              false) with
            | none => none
            | some (_, tree) => some ({ r with resulting_tree := tree }, parser1) := by
  cases fuel with
  | zero => simp [parser_parse_expression] at h
  | succ fuel =>
    rw [parser_parse_expression] at h
    cases hp : lexer_peek_token parser.lexer with
    | none => simp [hp] at h
    | some x =>
      obtain ⟨t, l1⟩ := x
      simp only [hp] at h
      cases ho : binary_operator_type t.type with
      | none =>
        simp only [ho] at h
        cases h
        cases hok
      | some type =>
        simp only [ho] at h
        cases fuel with
        | zero => simp [parse_binary_operator] at h
        | succ fuel =>
          rw [parse_binary_operator] at h
          cases hn : lexer_next_token l1 with
          | none => simp [hn] at h
          | some y =>
            obtain ⟨o, l2⟩ := y
            simp only [hn] at h
            cases he : parser_parse_expression_beginning fuel { parser with lexer := l2 } with
            | none => simp [he] at h
            | some z =>
              obtain ⟨expr_result, parser2⟩ := z
              simp only [he] at h
              by_cases hres : expr_result.success = false
              · rw [if_pos hres] at h
                cases hb : lexer_put_back_token parser2.lexer o with
                | none => simp [hb] at h
                | some w =>
                  simp only [hb] at h
                  cases h
                  rw [hres] at hok
                  cases hok
              · rw [if_neg hres] at h
                cases h
                refine ⟨type, o, expr_result.resulting_tree, rfl,
                  binary_operator_type_is_operator t.type type ho, fun left fallback => ?_⟩
                simp only [attach_left_operand, parse_result_success, Bool.true_eq_false,
                  if_false, set_left_child]
                try rfl

theorem flagged_subtrees_built (parser parser1 : rouleaux_parser_t)
    (s : List token) (r : parse_result) (fuel : Nat)
    (hs : ends_with_eof s) (hy : lexer_yields parser.lexer s)
    (h : parser_parse_expression_beginning fuel parser = some (r, parser1))
    (hok : r.success = true) :
    (∃ consumed rest, s = consumed ++ rest ∧
      tokens_in_order r.resulting_tree = without_brackets consumed ∧
      ∀ n, n ∈ flagged_subtrees r.resulting_tree → between_matched_parens consumed n) ∧
    (∀ fuel0 parser0 r0 parser2,
      parser_parse_expression fuel0 parser0 = some (r0, parser2) → r0.success = true →
      ∃ type o right,
        r0.resulting_tree = ast_node.node type o ast_node.null right ast_node.null
          node_list.nil false ∧
        is_binary_operator type = true ∧
        ∀ left fallback,
          attach_left_operand left fallback (r0, parser2)
            = match fix_precedence (ast_node.node type o left right ast_node.null
                node_list.nil false) with
              | none => none
              | some (_, tree) => some ({ r0 with resulting_tree := tree }, parser2)) ∧
    (∀ type o left right rotated tree, is_binary_operator type = true →
      fix_precedence (ast_node.node type o left right ast_node.null node_list.nil false)
        = some (rotated, tree) →
      flagged_subtrees tree = flagged_subtrees left ++ flagged_subtrees right) := by
  obtain ⟨_, hsucc⟩ := (expressions_built fuel).1 parser s r parser1 hs hy h
  obtain ⟨consumed, rest, e, _, hb, _⟩ := hsucc hok
  refine ⟨⟨consumed, rest, e, hb.1, hb.2.2⟩, ?_, ?_⟩
  · intro fuel0 parser0 r0 parser2 h0 hok0
    exact parser_parse_expression_root fuel0 parser0 parser2 r0 h0 hok0
  · intro type o left right rotated tree hop hfix
    exact (fix_precedence_unflagged type o left right rotated tree
      (is_binary_operator_has_token type hop) hfix).2

/-- C38 (the subtrees enclosed in parentheses), with the amendment that the
tokens of a flagged subtree are the tokens between its parentheses without the
parentheses and commas among them.  Let the lexer yield the tokens `s`, which
end with the end-of-file token, and let `parser_parse_expression_beginning`
succeed.  Then the tree was built from a prefix `consumed` of `s`: its tokens
in order are the tokens of `consumed` that are no parenthesis and no comma,
and every subtree with `enclosed_in_parens` set stands between a matched pair
of parentheses of `consumed`.  Every root handed to `fix_precedence` is the
node of a successful `parser_parse_expression`, which `parse_binary_operator`
created: an operator node without left child and with `enclosed_in_parens`
false; and `fix_precedence` on such a root leaves every flagged subtree of the
operands as it is and flags nothing. -/
theorem flagged_subtrees_are_parenthesised (parser parser1 : rouleaux_parser_t)
    (s : List token) (r : parse_result) (fuel : Nat)
    (hs : ends_with_eof s) (hy : lexer_yields parser.lexer s)
    (h : parser_parse_expression_beginning fuel parser = some (r, parser1))
    (hok : r.success = true) :
    (∃ consumed rest, s = consumed ++ rest ∧
      tokens_in_order r.resulting_tree = without_brackets consumed ∧
      ∀ n, n ∈ flagged_subtrees r.resulting_tree → between_matched_parens consumed n) ∧
    (∀ fuel0 parser0 r0 parser2,
      parser_parse_expression fuel0 parser0 = some (r0, parser2) → r0.success = true →
      ∃ type o right,
        r0.resulting_tree = ast_node.node type o ast_node.null right ast_node.null
          node_list.nil false ∧
        is_binary_operator type = true ∧
        ∀ left fallback,
          attach_left_operand left fallback (r0, parser2)
            = match fix_precedence (ast_node.node type o left right ast_node.null
                node_list.nil false) with
              | none => none
              | some (_, tree) => some ({ r0 with resulting_tree := tree }, parser2)) ∧
    (∀ type o left right rotated tree, is_binary_operator type = true →
      fix_precedence (ast_node.node type o left right ast_node.null node_list.nil false)
        = some (rotated, tree) →
      flagged_subtrees tree = flagged_subtrees left ++ flagged_subtrees right) :=
  flagged_subtrees_built parser parser1 s r fuel hs hy h hok

theorem flagged_subtrees_are_parenthesised_witness :
    ∃ consumed rest,
      [source_token "f" TOKEN_LEFT_PAREN 0 1 1 1 token_value.zero,
      source_token "f" TOKEN_INTEGER_LITERAL 1 1 1 2 (token_value.unsigned64 1),
      source_token "f" TOKEN_PLUS 3 1 1 4 token_value.zero,
      source_token "f" TOKEN_INTEGER_LITERAL 5 1 1 6 (token_value.unsigned64 2),
      source_token "f" TOKEN_RIGHT_PAREN 6 1 1 7 token_value.zero,
      source_token "f" TOKEN_ASTERISK 8 1 1 9 token_value.zero,
      source_token "f" TOKEN_INTEGER_LITERAL 10 1 1 11 (token_value.unsigned64 3),
      source_token "f" TOKEN_SEMICOLON 11 1 1 12 token_value.zero,
      source_token "f" TOKEN_EOF 12 0 1 13 token_value.zero]
        = consumed ++ rest ∧
      tokens_in_order
          (binary_node AST_BINARY_OPERATOR_MULTIPLY
            (source_token "f" TOKEN_ASTERISK 8 1 1 9 token_value.zero)
            (parenthesized_node AST_BINARY_OPERATOR_PLUS
              (source_token "f" TOKEN_PLUS 3 1 1 4 token_value.zero)
              (leaf_node AST_INTEGER_LITERAL
                (source_token "f" TOKEN_INTEGER_LITERAL 1 1 1 2 (token_value.unsigned64 1)))
              (leaf_node AST_INTEGER_LITERAL
                (source_token "f" TOKEN_INTEGER_LITERAL 5 1 1 6 (token_value.unsigned64 2))))
            (leaf_node AST_INTEGER_LITERAL
              (source_token "f" TOKEN_INTEGER_LITERAL 10 1 1 11 (token_value.unsigned64 3))))
        = without_brackets consumed ∧
      ∀ n, n ∈ flagged_subtrees
          (binary_node AST_BINARY_OPERATOR_MULTIPLY
            (source_token "f" TOKEN_ASTERISK 8 1 1 9 token_value.zero)
            (parenthesized_node AST_BINARY_OPERATOR_PLUS
              (source_token "f" TOKEN_PLUS 3 1 1 4 token_value.zero)
              (leaf_node AST_INTEGER_LITERAL
                (source_token "f" TOKEN_INTEGER_LITERAL 1 1 1 2 (token_value.unsigned64 1)))
              (leaf_node AST_INTEGER_LITERAL
                (source_token "f" TOKEN_INTEGER_LITERAL 5 1 1 6 (token_value.unsigned64 2))))
            (leaf_node AST_INTEGER_LITERAL
              (source_token "f" TOKEN_INTEGER_LITERAL 10 1 1 11 (token_value.unsigned64 3)))) →
        between_matched_parens consumed n := by
  have hr : lexer_next_tokens 9 (parser_create "f" (bytes "(1 + 2) * 3;")).lexer
      = some ([source_token "f" TOKEN_LEFT_PAREN 0 1 1 1 token_value.zero,
               source_token "f" TOKEN_INTEGER_LITERAL 1 1 1 2 (token_value.unsigned64 1),
               source_token "f" TOKEN_PLUS 3 1 1 4 token_value.zero,
               source_token "f" TOKEN_INTEGER_LITERAL 5 1 1 6 (token_value.unsigned64 2),
               source_token "f" TOKEN_RIGHT_PAREN 6 1 1 7 token_value.zero,
               source_token "f" TOKEN_ASTERISK 8 1 1 9 token_value.zero,
               source_token "f" TOKEN_INTEGER_LITERAL 10 1 1 11 (token_value.unsigned64 3),
               source_token "f" TOKEN_SEMICOLON 11 1 1 12 token_value.zero,
               source_token "f" TOKEN_EOF 12 0 1 13 token_value.zero],
          { (parser_create "f" (bytes "(1 + 2) * 3;")).lexer with
              head := 12, current_column := 13 }) := by
    decide
  have hy : lexer_yields (parser_create "f" (bytes "(1 + 2) * 3;")).lexer
      [source_token "f" TOKEN_LEFT_PAREN 0 1 1 1 token_value.zero,
       source_token "f" TOKEN_INTEGER_LITERAL 1 1 1 2 (token_value.unsigned64 1),
       source_token "f" TOKEN_PLUS 3 1 1 4 token_value.zero,
       source_token "f" TOKEN_INTEGER_LITERAL 5 1 1 6 (token_value.unsigned64 2),
       source_token "f" TOKEN_RIGHT_PAREN 6 1 1 7 token_value.zero,
       source_token "f" TOKEN_ASTERISK 8 1 1 9 token_value.zero,
       source_token "f" TOKEN_INTEGER_LITERAL 10 1 1 11 (token_value.unsigned64 3),
       source_token "f" TOKEN_SEMICOLON 11 1 1 12 token_value.zero,
       source_token "f" TOKEN_EOF 12 0 1 13 token_value.zero] :=
    ⟨by decide, _, hr⟩
  obtain ⟨lexer1, hp, _⟩ := parser_parse_parenthesized_left (parser_create "f" (bytes "(1 + 2) * 3;"))
    (source_token "f" TOKEN_LEFT_PAREN 0 1 1 1 token_value.zero)
    (source_token "f" TOKEN_INTEGER_LITERAL 1 1 1 2 (token_value.unsigned64 1))
    (source_token "f" TOKEN_PLUS 3 1 1 4 token_value.zero)
    (source_token "f" TOKEN_INTEGER_LITERAL 5 1 1 6 (token_value.unsigned64 2))
    (source_token "f" TOKEN_RIGHT_PAREN 6 1 1 7 token_value.zero)
    (source_token "f" TOKEN_ASTERISK 8 1 1 9 token_value.zero)
    (source_token "f" TOKEN_INTEGER_LITERAL 10 1 1 11 (token_value.unsigned64 3))
    (source_token "f" TOKEN_SEMICOLON 11 1 1 12 token_value.zero)
    [source_token "f" TOKEN_EOF 12 0 1 13 token_value.zero]
    AST_INTEGER_LITERAL AST_INTEGER_LITERAL AST_INTEGER_LITERAL
    AST_BINARY_OPERATOR_PLUS AST_BINARY_OPERATOR_MULTIPLY hy
    (by decide) (by decide) (by decide) (by decide) (by decide) (by decide) (by decide)
    (by decide) (by decide) 0
  exact (flagged_subtrees_are_parenthesised (parser_create "f" (bytes "(1 + 2) * 3;")) _
    [source_token "f" TOKEN_LEFT_PAREN 0 1 1 1 token_value.zero,
    source_token "f" TOKEN_INTEGER_LITERAL 1 1 1 2 (token_value.unsigned64 1),
    source_token "f" TOKEN_PLUS 3 1 1 4 token_value.zero,
    source_token "f" TOKEN_INTEGER_LITERAL 5 1 1 6 (token_value.unsigned64 2),
    source_token "f" TOKEN_RIGHT_PAREN 6 1 1 7 token_value.zero,
    source_token "f" TOKEN_ASTERISK 8 1 1 9 token_value.zero,
    source_token "f" TOKEN_INTEGER_LITERAL 10 1 1 11 (token_value.unsigned64 3),
    source_token "f" TOKEN_SEMICOLON 11 1 1 12 token_value.zero,
    source_token "f" TOKEN_EOF 12 0 1 13 token_value.zero]
    _ 6
    ⟨[source_token "f" TOKEN_LEFT_PAREN 0 1 1 1 token_value.zero,
      source_token "f" TOKEN_INTEGER_LITERAL 1 1 1 2 (token_value.unsigned64 1),
      source_token "f" TOKEN_PLUS 3 1 1 4 token_value.zero,
      source_token "f" TOKEN_INTEGER_LITERAL 5 1 1 6 (token_value.unsigned64 2),
      source_token "f" TOKEN_RIGHT_PAREN 6 1 1 7 token_value.zero,
      source_token "f" TOKEN_ASTERISK 8 1 1 9 token_value.zero,
      source_token "f" TOKEN_INTEGER_LITERAL 10 1 1 11 (token_value.unsigned64 3),
      source_token "f" TOKEN_SEMICOLON 11 1 1 12 token_value.zero],
      source_token "f" TOKEN_EOF 12 0 1 13 token_value.zero, rfl, rfl⟩ hy hp rfl).1

theorem nested_parentheses_tokens :
    ∃ parser1,
      parser_parse_expression_beginning 7 (parser_create "f" (bytes "((1 + 2) * 3);"))
        = some (parse_result_success
          (parenthesized_node AST_BINARY_OPERATOR_MULTIPLY
            (source_token "f" TOKEN_ASTERISK 9 1 1 10 token_value.zero)
            (parenthesized_node AST_BINARY_OPERATOR_PLUS
              (source_token "f" TOKEN_PLUS 4 1 1 5 token_value.zero)
              (leaf_node AST_INTEGER_LITERAL
                (source_token "f" TOKEN_INTEGER_LITERAL 2 1 1 3 (token_value.unsigned64 1)))
              (leaf_node AST_INTEGER_LITERAL
                (source_token "f" TOKEN_INTEGER_LITERAL 6 1 1 7 (token_value.unsigned64 2))))
            (leaf_node AST_INTEGER_LITERAL
              (source_token "f" TOKEN_INTEGER_LITERAL 11 1 1 12 (token_value.unsigned64 3)))), parser1) ∧
      (parenthesized_node AST_BINARY_OPERATOR_MULTIPLY
            (source_token "f" TOKEN_ASTERISK 9 1 1 10 token_value.zero)
            (parenthesized_node AST_BINARY_OPERATOR_PLUS
              (source_token "f" TOKEN_PLUS 4 1 1 5 token_value.zero)
              (leaf_node AST_INTEGER_LITERAL
                (source_token "f" TOKEN_INTEGER_LITERAL 2 1 1 3 (token_value.unsigned64 1)))
              (leaf_node AST_INTEGER_LITERAL
                (source_token "f" TOKEN_INTEGER_LITERAL 6 1 1 7 (token_value.unsigned64 2))))
            (leaf_node AST_INTEGER_LITERAL
              (source_token "f" TOKEN_INTEGER_LITERAL 11 1 1 12 (token_value.unsigned64 3))))
        ∈ flagged_subtrees
          (parenthesized_node AST_BINARY_OPERATOR_MULTIPLY
            (source_token "f" TOKEN_ASTERISK 9 1 1 10 token_value.zero)
            (parenthesized_node AST_BINARY_OPERATOR_PLUS
              (source_token "f" TOKEN_PLUS 4 1 1 5 token_value.zero)
              (leaf_node AST_INTEGER_LITERAL
                (source_token "f" TOKEN_INTEGER_LITERAL 2 1 1 3 (token_value.unsigned64 1)))
              (leaf_node AST_INTEGER_LITERAL
                (source_token "f" TOKEN_INTEGER_LITERAL 6 1 1 7 (token_value.unsigned64 2))))
            (leaf_node AST_INTEGER_LITERAL
              (source_token "f" TOKEN_INTEGER_LITERAL 11 1 1 12 (token_value.unsigned64 3)))) ∧
      tokens_in_order
          (parenthesized_node AST_BINARY_OPERATOR_MULTIPLY
            (source_token "f" TOKEN_ASTERISK 9 1 1 10 token_value.zero)
            (parenthesized_node AST_BINARY_OPERATOR_PLUS
              (source_token "f" TOKEN_PLUS 4 1 1 5 token_value.zero)
              (leaf_node AST_INTEGER_LITERAL
                (source_token "f" TOKEN_INTEGER_LITERAL 2 1 1 3 (token_value.unsigned64 1)))
              (leaf_node AST_INTEGER_LITERAL
                (source_token "f" TOKEN_INTEGER_LITERAL 6 1 1 7 (token_value.unsigned64 2))))
            (leaf_node AST_INTEGER_LITERAL
              (source_token "f" TOKEN_INTEGER_LITERAL 11 1 1 12 (token_value.unsigned64 3))))
        = [source_token "f" TOKEN_INTEGER_LITERAL 2 1 1 3 (token_value.unsigned64 1),
           source_token "f" TOKEN_PLUS 4 1 1 5 token_value.zero,
           source_token "f" TOKEN_INTEGER_LITERAL 6 1 1 7 (token_value.unsigned64 2),
           source_token "f" TOKEN_ASTERISK 9 1 1 10 token_value.zero,
           source_token "f" TOKEN_INTEGER_LITERAL 11 1 1 12 (token_value.unsigned64 3)] ∧
      ¬ ∃ before lp inner rp after,
        [source_token "f" TOKEN_LEFT_PAREN 0 1 1 1 token_value.zero,
        source_token "f" TOKEN_LEFT_PAREN 1 1 1 2 token_value.zero,
        source_token "f" TOKEN_INTEGER_LITERAL 2 1 1 3 (token_value.unsigned64 1),
        source_token "f" TOKEN_PLUS 4 1 1 5 token_value.zero,
        source_token "f" TOKEN_INTEGER_LITERAL 6 1 1 7 (token_value.unsigned64 2),
        source_token "f" TOKEN_RIGHT_PAREN 7 1 1 8 token_value.zero,
        source_token "f" TOKEN_ASTERISK 9 1 1 10 token_value.zero,
        source_token "f" TOKEN_INTEGER_LITERAL 11 1 1 12 (token_value.unsigned64 3),
        source_token "f" TOKEN_RIGHT_PAREN 12 1 1 13 token_value.zero,
        source_token "f" TOKEN_SEMICOLON 13 1 1 14 token_value.zero,
        source_token "f" TOKEN_EOF 14 0 1 15 token_value.zero]
          = before ++ lp :: (inner ++ rp :: after) ∧
        tokens_in_order
            (parenthesized_node AST_BINARY_OPERATOR_MULTIPLY
            (source_token "f" TOKEN_ASTERISK 9 1 1 10 token_value.zero)
            (parenthesized_node AST_BINARY_OPERATOR_PLUS
              (source_token "f" TOKEN_PLUS 4 1 1 5 token_value.zero)
              (leaf_node AST_INTEGER_LITERAL
                (source_token "f" TOKEN_INTEGER_LITERAL 2 1 1 3 (token_value.unsigned64 1)))
              (leaf_node AST_INTEGER_LITERAL
                (source_token "f" TOKEN_INTEGER_LITERAL 6 1 1 7 (token_value.unsigned64 2))))
            (leaf_node AST_INTEGER_LITERAL
              (source_token "f" TOKEN_INTEGER_LITERAL 11 1 1 12 (token_value.unsigned64 3))))
          = inner := by
  have hr : lexer_next_tokens 11 (parser_create "f" (bytes "((1 + 2) * 3);")).lexer
      = some ([source_token "f" TOKEN_LEFT_PAREN 0 1 1 1 token_value.zero,
               source_token "f" TOKEN_LEFT_PAREN 1 1 1 2 token_value.zero,
               source_token "f" TOKEN_INTEGER_LITERAL 2 1 1 3 (token_value.unsigned64 1),
               source_token "f" TOKEN_PLUS 4 1 1 5 token_value.zero,
               source_token "f" TOKEN_INTEGER_LITERAL 6 1 1 7 (token_value.unsigned64 2),
               source_token "f" TOKEN_RIGHT_PAREN 7 1 1 8 token_value.zero,
               source_token "f" TOKEN_ASTERISK 9 1 1 10 token_value.zero,
               source_token "f" TOKEN_INTEGER_LITERAL 11 1 1 12 (token_value.unsigned64 3),
               source_token "f" TOKEN_RIGHT_PAREN 12 1 1 13 token_value.zero,
               source_token "f" TOKEN_SEMICOLON 13 1 1 14 token_value.zero,
               source_token "f" TOKEN_EOF 14 0 1 15 token_value.zero],
          { (parser_create "f" (bytes "((1 + 2) * 3);")).lexer with
              head := 14, current_column := 15 }) := by
    decide
  have hy : lexer_yields (parser_create "f" (bytes "((1 + 2) * 3);")).lexer
      [source_token "f" TOKEN_LEFT_PAREN 0 1 1 1 token_value.zero,
       source_token "f" TOKEN_LEFT_PAREN 1 1 1 2 token_value.zero,
       source_token "f" TOKEN_INTEGER_LITERAL 2 1 1 3 (token_value.unsigned64 1),
       source_token "f" TOKEN_PLUS 4 1 1 5 token_value.zero,
       source_token "f" TOKEN_INTEGER_LITERAL 6 1 1 7 (token_value.unsigned64 2),
       source_token "f" TOKEN_RIGHT_PAREN 7 1 1 8 token_value.zero,
       source_token "f" TOKEN_ASTERISK 9 1 1 10 token_value.zero,
       source_token "f" TOKEN_INTEGER_LITERAL 11 1 1 12 (token_value.unsigned64 3),
       source_token "f" TOKEN_RIGHT_PAREN 12 1 1 13 token_value.zero,
       source_token "f" TOKEN_SEMICOLON 13 1 1 14 token_value.zero,
       source_token "f" TOKEN_EOF 14 0 1 15 token_value.zero] :=
    ⟨by decide, _, hr⟩
  have hin : tokens_in_order
      (parenthesized_node AST_BINARY_OPERATOR_MULTIPLY
            (source_token "f" TOKEN_ASTERISK 9 1 1 10 token_value.zero)
            (parenthesized_node AST_BINARY_OPERATOR_PLUS
              (source_token "f" TOKEN_PLUS 4 1 1 5 token_value.zero)
              (leaf_node AST_INTEGER_LITERAL
                (source_token "f" TOKEN_INTEGER_LITERAL 2 1 1 3 (token_value.unsigned64 1)))
              (leaf_node AST_INTEGER_LITERAL
                (source_token "f" TOKEN_INTEGER_LITERAL 6 1 1 7 (token_value.unsigned64 2))))
            (leaf_node AST_INTEGER_LITERAL
              (source_token "f" TOKEN_INTEGER_LITERAL 11 1 1 12 (token_value.unsigned64 3))))
      = [source_token "f" TOKEN_INTEGER_LITERAL 2 1 1 3 (token_value.unsigned64 1),
         source_token "f" TOKEN_PLUS 4 1 1 5 token_value.zero,
         source_token "f" TOKEN_INTEGER_LITERAL 6 1 1 7 (token_value.unsigned64 2),
         source_token "f" TOKEN_ASTERISK 9 1 1 10 token_value.zero,
         source_token "f" TOKEN_INTEGER_LITERAL 11 1 1 12 (token_value.unsigned64 3)] := by
    simp [parenthesized_node, leaf_node, tokens_in_order_node, tokens_in_order_null,
      tokens_in_order_list_nil, node_has_token]
  obtain ⟨lexer1, hp, _⟩ := parser_parse_parenthesized_last (parser_create "f" (bytes "((1 + 2) * 3);"))
    (parser_create "f" (bytes "((1 + 2) * 3);")).lexer
    (source_token "f" TOKEN_LEFT_PAREN 0 1 1 1 token_value.zero)
    (source_token "f" TOKEN_RIGHT_PAREN 12 1 1 13 token_value.zero)
    (source_token "f" TOKEN_SEMICOLON 13 1 1 14 token_value.zero)
    [source_token "f" TOKEN_LEFT_PAREN 1 1 1 2 token_value.zero,
    source_token "f" TOKEN_INTEGER_LITERAL 2 1 1 3 (token_value.unsigned64 1),
    source_token "f" TOKEN_PLUS 4 1 1 5 token_value.zero,
    source_token "f" TOKEN_INTEGER_LITERAL 6 1 1 7 (token_value.unsigned64 2),
    source_token "f" TOKEN_RIGHT_PAREN 7 1 1 8 token_value.zero,
    source_token "f" TOKEN_ASTERISK 9 1 1 10 token_value.zero,
    source_token "f" TOKEN_INTEGER_LITERAL 11 1 1 12 (token_value.unsigned64 3),
    source_token "f" TOKEN_RIGHT_PAREN 12 1 1 13 token_value.zero,
    source_token "f" TOKEN_SEMICOLON 13 1 1 14 token_value.zero,
    source_token "f" TOKEN_EOF 14 0 1 15 token_value.zero]
    [source_token "f" TOKEN_EOF 14 0 1 15 token_value.zero] 5
    (binary_node AST_BINARY_OPERATOR_MULTIPLY
            (source_token "f" TOKEN_ASTERISK 9 1 1 10 token_value.zero)
            (parenthesized_node AST_BINARY_OPERATOR_PLUS
              (source_token "f" TOKEN_PLUS 4 1 1 5 token_value.zero)
              (leaf_node AST_INTEGER_LITERAL
                (source_token "f" TOKEN_INTEGER_LITERAL 2 1 1 3 (token_value.unsigned64 1)))
              (leaf_node AST_INTEGER_LITERAL
                (source_token "f" TOKEN_INTEGER_LITERAL 6 1 1 7 (token_value.unsigned64 2))))
            (leaf_node AST_INTEGER_LITERAL
              (source_token "f" TOKEN_INTEGER_LITERAL 11 1 1 12 (token_value.unsigned64 3))))
    (parenthesized_node AST_BINARY_OPERATOR_MULTIPLY
            (source_token "f" TOKEN_ASTERISK 9 1 1 10 token_value.zero)
            (parenthesized_node AST_BINARY_OPERATOR_PLUS
              (source_token "f" TOKEN_PLUS 4 1 1 5 token_value.zero)
              (leaf_node AST_INTEGER_LITERAL
                (source_token "f" TOKEN_INTEGER_LITERAL 2 1 1 3 (token_value.unsigned64 1)))
              (leaf_node AST_INTEGER_LITERAL
                (source_token "f" TOKEN_INTEGER_LITERAL 6 1 1 7 (token_value.unsigned64 2))))
            (leaf_node AST_INTEGER_LITERAL
              (source_token "f" TOKEN_INTEGER_LITERAL 11 1 1 12 (token_value.unsigned64 3))))
    hy (by decide)
    (fun lexer1 hy1 => parser_parse_parenthesized_left
      { (parser_create "f" (bytes "((1 + 2) * 3);")) with lexer := lexer1 }
      (source_token "f" TOKEN_LEFT_PAREN 1 1 1 2 token_value.zero)
      (source_token "f" TOKEN_INTEGER_LITERAL 2 1 1 3 (token_value.unsigned64 1))
      (source_token "f" TOKEN_PLUS 4 1 1 5 token_value.zero)
      (source_token "f" TOKEN_INTEGER_LITERAL 6 1 1 7 (token_value.unsigned64 2))
      (source_token "f" TOKEN_RIGHT_PAREN 7 1 1 8 token_value.zero)
      (source_token "f" TOKEN_ASTERISK 9 1 1 10 token_value.zero)
      (source_token "f" TOKEN_INTEGER_LITERAL 11 1 1 12 (token_value.unsigned64 3))
      (source_token "f" TOKEN_RIGHT_PAREN 12 1 1 13 token_value.zero)
      [source_token "f" TOKEN_SEMICOLON 13 1 1 14 token_value.zero,
       source_token "f" TOKEN_EOF 14 0 1 15 token_value.zero]
      AST_INTEGER_LITERAL AST_INTEGER_LITERAL AST_INTEGER_LITERAL
      AST_BINARY_OPERATOR_PLUS AST_BINARY_OPERATOR_MULTIPLY hy1
      (by decide) (by decide) (by decide) (by decide) (by decide) (by decide) (by decide)
      (by decide) (by decide) 0)
    (by decide) (by decide) rfl
  refine ⟨_, hp, ?_, hin, ?_⟩
  · simp only [parenthesized_node]
    rw [flagged_subtrees_node]
    simp
  · rintro ⟨before, lp, inner, rp, after, e, e2⟩
    rw [hin] at e2
    have hsub : inner <:+: [source_token "f" TOKEN_LEFT_PAREN 0 1 1 1 token_value.zero,
        source_token "f" TOKEN_LEFT_PAREN 1 1 1 2 token_value.zero,
        source_token "f" TOKEN_INTEGER_LITERAL 2 1 1 3 (token_value.unsigned64 1),
        source_token "f" TOKEN_PLUS 4 1 1 5 token_value.zero,
        source_token "f" TOKEN_INTEGER_LITERAL 6 1 1 7 (token_value.unsigned64 2),
        source_token "f" TOKEN_RIGHT_PAREN 7 1 1 8 token_value.zero,
        source_token "f" TOKEN_ASTERISK 9 1 1 10 token_value.zero,
        source_token "f" TOKEN_INTEGER_LITERAL 11 1 1 12 (token_value.unsigned64 3),
        source_token "f" TOKEN_RIGHT_PAREN 12 1 1 13 token_value.zero,
        source_token "f" TOKEN_SEMICOLON 13 1 1 14 token_value.zero,
        source_token "f" TOKEN_EOF 14 0 1 15 token_value.zero] :=
      ⟨before ++ [lp], rp :: after, by rw [e]; simp⟩
    rw [← e2] at hsub
    revert hsub
    decide

theorem two_parameter_function_not_resolved (fuel : Nat) :
    resolve_types two_parameters_source fuel two_parameter_declaration fresh_symbol_table
      = none := by
  match fuel with
  | 0 | 1 | 2 | 3 | 4 | 5 => rfl
  | n + 6 =>
    have e1 := resolve_type_assignment_known two_parameters_source fresh_symbol_table
      (source_token "f" TOKEN_IDENTIFIER 6 1 1 7 token_value.zero)
      (source_token "f" TOKEN_IDENTIFIER 9 3 1 10 token_value.zero)
      (source_token "f" TOKEN_COLON 7 1 1 8 token_value.zero) 1 builtin_int rfl rfl rfl
    have e2 := resolve_type_assignment_known two_parameters_source
      (with_variable fresh_symbol_table
        (source_token "f" TOKEN_IDENTIFIER 6 1 1 7 token_value.zero) TYPE_INFO_INTEGER)
      (source_token "f" TOKEN_IDENTIFIER 14 1 1 15 token_value.zero)
      (source_token "f" TOKEN_IDENTIFIER 17 3 1 18 token_value.zero)
      (source_token "f" TOKEN_COLON 15 1 1 16 token_value.zero) 1 builtin_int rfl rfl rfl
    rw [if_neg (by decide)] at e1
    rw [if_pos (by decide)] at e2
    simp only [binary_node, leaf_node] at e1 e2
    simp only [two_parameter_declaration, binary_node, leaf_node, many_node]
    rw [resolve_types, resolve_types, resolve_types, resolve_types_children, resolve_types]
    simp only [e1, typing_result_success, Bool.true_eq_false, if_false, builtin_int]
    rw [resolve_types_children, resolve_types]
    simp only [e2]

/-! ## One flat scope, with the reads after the reallocation -/

theorem resolve_type_assignment_reading_none (mem : List Nat) (ast : ast_node)
    (table : symbol_table) :
    resolve_type_assignment_reading (fun _ _ => none) mem ast table
      = resolve_type_assignment mem ast table := by
  cases ast with
  | null => rfl
  | node type t left right c2 children parens =>
    cases right with
    | null => rfl
    | node rtype type_token r0 r1 r2 rchildren rparens =>
      simp only [resolve_type_assignment_reading, resolve_type_assignment]
      cases symbol_table_find mem table type_token with
      | none => rfl
      | some found =>
        cases found with
        | none => rfl
        | some i =>
          dsimp only
          cases table.buffer[i]? with
          | none => rfl
          | some sym =>
            cases left with
            | null => rfl
            | node ltype identifier_token l0 l1 l2 lchildren lparens =>
              dsimp only
              cases symbol_table_find mem table identifier_token with
              | none => rfl
              | some present =>
                cases present with
                | some j => rfl
                | none =>
                  dsimp only
                  cases symbol_table_add mem table identifier_token sym.type false with
                  | none => rfl
                  | some x =>
                    dsimp only
                    by_cases hre : symbol_table_add_reallocates table = true
                    · rw [if_pos hre, if_pos hre]
                    · rw [if_neg hre, if_neg hre]

theorem resolve_types_reading_none (mem : List Nat) :
    ∀ fuel : Nat,
      (∀ ast table, resolve_types_reading (fun _ _ => none) mem fuel ast table
        = resolve_types mem fuel ast table) ∧
      (∀ children table, resolve_types_children_reading (fun _ _ => none) mem fuel children table
        = resolve_types_children mem fuel children table) ∧
      (∀ declared passed table,
        resolve_call_parameters_reading (fun _ _ => none) mem fuel declared passed table
          = resolve_call_parameters mem fuel declared passed table) := by
  intro fuel
  induction fuel with
  | zero =>
    refine ⟨fun ast table => ?_, fun children table => ?_, fun declared passed table => ?_⟩
    · rw [resolve_types_reading, resolve_types]
    · rw [resolve_types_children_reading, resolve_types_children]
    · rw [resolve_call_parameters_reading, resolve_call_parameters]
  | succ fuel ih =>
    obtain ⟨ih1, ih2, ih3⟩ := ih
    refine ⟨fun ast table => ?_, fun children table => ?_, fun declared passed table => ?_⟩
    · cases ast with
      | null => rw [resolve_types_reading, resolve_types]
      | node type t c0 c1 c2 children parens =>
        cases type <;> rw [resolve_types_reading, resolve_types] <;>
          simp only [ih1, ih2, ih3, resolve_type_assignment_reading_none]
    · cases children with
      | nil => rw [resolve_types_children_reading, resolve_types_children]
      | cons first rest =>
        rw [resolve_types_children_reading, resolve_types_children]
        simp only [ih1, ih2]
        try rfl
    · cases declared with
      | nil => rw [resolve_call_parameters_reading, resolve_call_parameters]
      | cons d ds =>
        cases passed with
        | nil => rw [resolve_call_parameters_reading, resolve_call_parameters]
        | cons p ps =>
          rw [resolve_call_parameters_reading, resolve_call_parameters]
          simp only [ih1, ih3]
          try rfl

theorem resolve_type_assignment_keeps_reading (stale : stale_reads) (mem : List Nat)
    (ast ast1 : ast_node)
    (table table1 : symbol_table) (r : typing_result)
    (h : resolve_type_assignment_reading stale mem ast table = some (r, ast1, table1)) :
    keeps_symbols table table1 := by
  unfold resolve_type_assignment_reading at h
  repeat' split at h
  all_goals first
    | (cases h; done)
    | (cases h; exact keeps_symbols_refl _)
    | (cases h; exact symbol_table_add_keeps _ _ _ _ _ _ _ (by assumption))

theorem resolve_types_keeps_reading (stale : stale_reads) (mem : List Nat) :
    ∀ fuel : Nat,
      (∀ ast table r ast1 table1,
        resolve_types_reading stale mem fuel ast table = some (r, ast1, table1) →
        keeps_symbols table table1) ∧
      (∀ children table r children1 table1,
        resolve_types_children_reading stale mem fuel children table = some (r, children1, table1) →
        keeps_symbols table table1) ∧
      (∀ declared passed table early passed1 table1,
        resolve_call_parameters_reading stale mem fuel declared passed table
          = some (early, passed1, table1) →
        keeps_symbols table table1) := by
  intro fuel
  induction fuel with
  | zero =>
    exact ⟨fun ast table r ast1 table1 h => by simp [resolve_types_reading] at h,
      fun children table r children1 table1 h => by simp [resolve_types_children_reading] at h,
      fun declared passed table early passed1 table1 h => by
        simp [resolve_call_parameters_reading] at h⟩
  | succ fuel ih =>
    obtain ⟨ih1, ih2, ih3⟩ := ih
    refine ⟨?_, ?_, ?_⟩
    · intro ast table r ast1 table1 h
      cases ast with
      | null => simp [resolve_types_reading] at h
      | node type t c0 c1 c2 children parens =>
        cases type <;> rw [resolve_types_reading] at h <;> (try dsimp only at h) <;>
          repeat' split at h
        all_goals first
        | (cases h; done)
        | (cases h; exact keeps_symbols_refl _)
        | (cases h; exact ih1 _ _ _ _ _ (by assumption))
        | (cases h; exact ih2 _ _ _ _ _ (by assumption))
        | (cases h; exact keeps_symbols_trans _ _ _ (ih1 _ _ _ _ _ (by assumption))
            (ih1 _ _ _ _ _ (by assumption)))
        | (cases h; exact keeps_symbols_trans _ _ _ (ih1 _ _ _ _ _ (by assumption))
            (ih3 _ _ _ _ _ _ (by assumption)))
        | (cases h; exact keeps_symbols_trans _ _ _
            (keeps_symbols_trans _ _ _ (ih1 _ _ _ _ _ (by assumption))
              (ih1 _ _ _ _ _ (by assumption)))
            (ih1 _ _ _ _ _ (by assumption)))
        | exact resolve_type_assignment_keeps_reading _ _ _ _ _ _ _ h
        | exact keeps_symbols_of_eq _ _ (resolve_identifier_table _ _ _ _ _ _ h)
        | exact keeps_symbols_trans _ _ _
            (keeps_symbols_trans _ _ _ (ih1 _ _ _ _ _ (by assumption))
              (ih1 _ _ _ _ _ (by assumption)))
            (resolve_value_assignment_end_keeps _ _ _ _ _ _ _ _ h)
        | exact keeps_symbols_trans _ _ _
            (keeps_symbols_trans _ _ _ (ih1 _ _ _ _ _ (by assumption))
              (ih1 _ _ _ _ _ (by assumption)))
            (resolve_const_assignment_end_keeps _ _ _ _ _ _ _ _ h)
    · intro children table r children1 table1 h
      cases children with
      | nil =>
        rw [resolve_types_children_reading] at h
        cases h
        exact keeps_symbols_refl _
      | cons first rest =>
        rw [resolve_types_children_reading] at h
        repeat' split at h
        all_goals first
            | (cases h; done)
            | (cases h; exact ih1 _ _ _ _ _ (by assumption))
            | (cases h; exact keeps_symbols_trans _ _ _ (ih1 _ _ _ _ _ (by assumption))
                (ih2 _ _ _ _ _ (by assumption)))
    · intro declared passed table early passed1 table1 h
      cases declared with
      | nil =>
        rw [resolve_call_parameters_reading] at h
        cases h
        exact keeps_symbols_refl _
      | cons d ds =>
        cases passed with
        | nil => simp [resolve_call_parameters_reading] at h
        | cons p ps =>
          rw [resolve_call_parameters_reading] at h
          repeat' split at h
          all_goals first
            | (cases h; done)
            | (cases h; exact ih1 _ _ _ _ _ (by assumption))
            | (cases h; exact keeps_symbols_trans _ _ _ (ih1 _ _ _ _ _ (by assumption))
                (ih3 _ _ _ _ _ _ (by assumption)))

theorem resolve_type_assignment_declares_reading (stale : stale_reads) (mem : List Nat)
    (table table1 : symbol_table)
    (a T colon : token) (r : typing_result) (ast1 : ast_node)
    (h : resolve_type_assignment_reading stale mem
      (binary_node AST_TYPE_ASSIGNMENT colon (leaf_node AST_IDENTIFIER a)
        (leaf_node AST_IDENTIFIER T)) table = some (r, ast1, table1))
    (hs : r.success = true) (hr : readable mem a) :
    ∃ j s, symbol_table_find mem table1 a = some (some j) ∧ table1.buffer[j]? = some s ∧
      s.t = a := by
  simp only [resolve_type_assignment_reading, binary_node, leaf_node] at h
  cases hT : symbol_table_find mem table T with
  | none => simp [hT] at h
  | some found =>
    cases found with
    | none =>
      simp only [hT, Option.some.injEq, Prod.mk.injEq] at h
      rw [← h.1] at hs
      cases hs
    | some i =>
      simp only [hT] at h
      cases hi : table.buffer[i]? with
      | none => simp [hi] at h
      | some sym =>
        simp only [hi] at h
        cases hn : symbol_table_find mem table a with
        | none => simp [hn] at h
        | some present =>
          cases present with
          | some j =>
            simp only [hn] at h
            repeat' split at h
            all_goals first
              | (cases h; done)
              | (simp only [Option.some.injEq, Prod.mk.injEq] at h
                 rw [← h.1] at hs
                 cases hs)
          | none =>
            simp only [hn, symbol_table_add_absent_symbol mem table a sym.type false hn] at h
            split at h
            · cases h
            · simp only [Option.some.injEq, Prod.mk.injEq] at h
              obtain ⟨_, _, h3⟩ := h
              subst h3
              have hlen := symbol_table_find_absent_length mem table a hn
              exact ⟨table.size, _, symbol_table_find_added mem table a _ rfl rfl hn hr,
                with_symbol_getElem_size table _ hlen, rfl⟩

theorem resolve_children_member_reading (stale : stale_reads) (mem : List Nat) :
    ∀ (fuel : Nat) (children : node_list) (table : symbol_table) (r : typing_result)
      (children1 : node_list) (table1 : symbol_table),
      resolve_types_children_reading stale mem fuel children table = some (r, children1, table1) →
      r.success = true →
      ∀ x, x ∈ node_list_nodes children →
        ∃ fuel0 tableA rx x1 tableB,
          resolve_types_reading stale mem fuel0 x tableA = some (rx, x1, tableB) ∧ rx.success = true
            ∧
          keeps_symbols table tableA ∧ keeps_symbols tableB table1 := by
  intro fuel
  induction fuel with
  | zero => intro children table r children1 table1 h; simp [resolve_types_children_reading] at h
  | succ fuel ih =>
    intro children table r children1 table1 h hs x hx
    cases children with
    | nil => simp [node_list_nodes] at hx
    | cons first rest =>
      rw [resolve_types_children_reading] at h
      cases hf : resolve_types_reading stale mem fuel first table with
      | none => simp [hf] at h
      | some y =>
        obtain ⟨result, first1, tableF⟩ := y
        simp only [hf] at h
        by_cases hfail : result.success = false
        · simp only [hfail, if_true, Option.some.injEq, Prod.mk.injEq] at h
          rw [← h.1, hfail] at hs
          cases hs
        · simp only [hfail, if_false] at h
          cases hrest : resolve_types_children_reading stale mem fuel rest tableF with
          | none => simp [hrest] at h
          | some z =>
            obtain ⟨result1, rest1, tableR⟩ := z
            simp only [hrest] at h
            cases h
            simp only [node_list_nodes, List.mem_cons] at hx
            rcases hx with hx | hx
            · subst hx
              exact ⟨fuel, table, result, first1, tableF, hf, by simpa using hfail,
                keeps_symbols_refl _, (resolve_types_keeps_reading stale mem fuel).2.1 _ _ _ _ _
                  hrest⟩
            · obtain ⟨fuel0, tableA, rx, x1, tableB, hx1, hx2, hx3, hx4⟩ :=
                ih rest tableF _ rest1 _ hrest hs x hx
              exact ⟨fuel0, tableA, rx, x1, tableB, hx1, hx2,
                keeps_symbols_trans _ _ _ ((resolve_types_keeps_reading stale mem fuel).1 _ _ _ _ _
                  hf) hx3,
                hx4⟩

theorem resolve_children_declares_reading (stale : stale_reads) (mem : List Nat) (fuel : Nat)
    (children : node_list)
    (table : symbol_table) (r : typing_result) (children1 : node_list) (table1 : symbol_table)
    (a T colon : token)
    (h : resolve_types_children_reading stale mem fuel children table = some (r, children1, table1))
    (hs : r.success = true)
    (hx : binary_node AST_TYPE_ASSIGNMENT colon (leaf_node AST_IDENTIFIER a)
        (leaf_node AST_IDENTIFIER T) ∈ node_list_nodes children)
    (hr : readable mem a) :
    ∃ j s, symbol_table_find mem table1 a = some (some j) ∧ table1.buffer[j]? = some s ∧
      s.t = a := by
  obtain ⟨fuel0, tableA, rx, x1, tableB, hx1, hx2, _, hx4⟩ :=
    resolve_children_member_reading stale mem fuel children table r children1 table1 h hs _ hx
  cases fuel0 with
  | zero => simp [resolve_types_reading] at hx1
  | succ fuel0 =>
    simp only [binary_node] at hx1
    rw [resolve_types_reading] at hx1
    obtain ⟨j, s, hj, hsj, e⟩ := resolve_type_assignment_declares_reading stale mem tableA tableB a
      T colon rx
      x1 hx1 hx2 hr
    obtain ⟨hfind, s0, s1, h0, h1, e1, _⟩ := symbol_table_find_kept mem tableB table1 a j hx4 hj
    rw [hsj] at h0
    cases h0
    exact ⟨j, s1, hfind, h1, e1.trans e⟩

theorem resolve_function_declaration_parameters_reading (stale : stale_reads) (mem : List Nat)
    (fuel : Nat)
    (table table1 : symbol_table) (t : token) (parameters : node_list)
    (ret body ast1 : ast_node) (children : node_list) (parens : Bool) (r : typing_result)
    (h : resolve_types_reading stale mem fuel
      (ast_node.node AST_FUNCTION_DECLARATION t (many_node AST_PARAMETER_LIST parameters) ret
        body children parens) table = some (r, ast1, table1))
    (hs : r.success = true) :
    ∃ fuel0 rp parameters1 tableP,
      resolve_types_children_reading stale mem fuel0 parameters table = some (rp, parameters1,
        tableP) ∧
      rp.success = true ∧ keeps_symbols tableP table1 := by
  cases fuel with
  | zero => simp [resolve_types_reading] at h
  | succ fuel =>
    cases hp : resolve_types_reading stale mem fuel (many_node AST_PARAMETER_LIST parameters) table
      with
    | none => rw [resolve_types_reading] at h; simp [hp] at h
    | some y =>
      obtain ⟨rp, left, tableP⟩ := y
      have hk : keeps_symbols tableP table1 := by
        rw [resolve_types_reading] at h
        simp only [hp] at h
        repeat' split at h
        all_goals first
          | (cases h; done)
          | (cases h; exact keeps_symbols_refl _)
          | (cases h; exact (resolve_types_keeps_reading stale mem fuel).1 _ _ _ _ _ (by
            assumption))
          | (cases h; exact keeps_symbols_trans _ _ _
              ((resolve_types_keeps_reading stale mem fuel).1 _ _ _ _ _ (by assumption))
              ((resolve_types_keeps_reading stale mem fuel).1 _ _ _ _ _ (by assumption)))
      have hps : rp.success = true := by
        rw [resolve_types_reading] at h
        simp only [hp] at h
        by_cases hfail : rp.success = false
        · simp only [hfail, if_true, Option.some.injEq, Prod.mk.injEq] at h
          rw [← h.1, hfail] at hs
          cases hs
        · simpa using hfail
      cases fuel with
      | zero => simp [resolve_types_reading, many_node] at hp
      | succ fuel =>
        simp only [many_node] at hp
        rw [resolve_types_reading] at hp
        cases hc : resolve_types_children_reading stale mem fuel parameters table with
        | none => simp [hc] at hp
        | some z =>
          obtain ⟨rc, parameters1, tableC⟩ := z
          simp only [hc] at hp
          cases hp
          exact ⟨fuel, _, parameters1, _, hc, hps, hk⟩

theorem resolve_constant_right_reading (stale : stale_reads) (mem : List Nat) (fuel : Nat)
    (table table1 : symbol_table)
    (op : token) (left right ast1 : ast_node) (r : typing_result)
    (h : resolve_types_reading stale mem fuel (binary_node AST_CONST_ASSIGNMENT op left right) table
      = some (r, ast1, table1))
    (hs : r.success = true) :
    ∃ fuel0 rr right1 tableR,
      resolve_types_reading stale mem fuel0 right table = some (rr, right1, tableR) ∧ rr.success =
        true ∧
      keeps_symbols tableR table1 := by
  cases fuel with
  | zero => simp [resolve_types_reading] at h
  | succ fuel =>
    simp only [binary_node] at h
    rw [resolve_types_reading] at h
    cases hr : resolve_types_reading stale mem fuel right table with
    | none => simp [hr] at h
    | some y =>
      obtain ⟨rr, right1, tableR⟩ := y
      simp only [hr] at h
      by_cases hfail : rr.success = false
      · simp only [hfail, if_true, Option.some.injEq, Prod.mk.injEq] at h
        rw [← h.1, hfail] at hs
        cases hs
      · simp only [hfail, if_false] at h
        refine ⟨fuel, rr, right1, tableR, hr, by simpa using hfail, ?_⟩
        repeat' split at h
        all_goals first
          | contradiction
          | (cases h; done)
          | (cases h; exact (resolve_types_keeps_reading stale mem fuel).1 _ _ _ _ _ (by
            assumption))
          | exact keeps_symbols_trans _ _ _
              ((resolve_types_keeps_reading stale mem fuel).1 _ _ _ _ _ (by assumption))
              (resolve_const_assignment_end_keeps _ _ _ _ _ _ _ _ h)

theorem function_parameter_stays_reading (stale : stale_reads) (mem : List Nat) (fuel : Nat)
    (table table1 : symbol_table)
    (op t colon a T : token) (left ret body ast1 : ast_node) (parameters children : node_list)
    (parens : Bool) (r : typing_result)
    (h : resolve_types_reading stale mem fuel
      (binary_node AST_CONST_ASSIGNMENT op left
        (ast_node.node AST_FUNCTION_DECLARATION t (many_node AST_PARAMETER_LIST parameters) ret
          body children parens)) table = some (r, ast1, table1))
    (hs : r.success = true)
    (hx : binary_node AST_TYPE_ASSIGNMENT colon (leaf_node AST_IDENTIFIER a)
        (leaf_node AST_IDENTIFIER T) ∈ node_list_nodes parameters)
    (hr : readable mem a) :
    ∃ j s, symbol_table_find mem table1 a = some (some j) ∧ table1.buffer[j]? = some s ∧
      s.t = a := by
  obtain ⟨fuel0, rr, right1, tableR, h1, hs1, hk1⟩ :=
    resolve_constant_right_reading stale mem fuel table table1 op left _ ast1 r h hs
  obtain ⟨fuel1, rp, parameters1, tableP, h2, hs2, hk2⟩ :=
    resolve_function_declaration_parameters_reading stale mem fuel0 table tableR t parameters ret
      body right1
      children parens rr h1 hs1
  obtain ⟨j, s, hj, hsj, e⟩ := resolve_children_declares_reading stale mem fuel1 parameters table rp
    parameters1 tableP a T colon h2 hs2 hx hr
  obtain ⟨hfind, s0, s1, h0, h3, e1, _⟩ := symbol_table_find_kept mem tableP table1 a j
    (keeps_symbols_trans _ _ _ hk2 hk1) hj
  rw [hsj] at h0
  cases h0
  exact ⟨j, s1, hfind, h3, e1.trans e⟩

theorem resolve_type_assignment_redeclared_reading (stale : stale_reads) (mem : List Nat)
    (table : symbol_table)
    (name type_name colon : token) (i j : Nat) (sym original : symbol)
    (hT : symbol_table_find mem table type_name = some (some i))
    (hi : table.buffer[i]? = some sym)
    (hn : symbol_table_find mem table name = some (some j))
    (hj : table.buffer[j]? = some original) :
    resolve_type_assignment_reading stale mem
        (binary_node AST_TYPE_ASSIGNMENT colon (leaf_node AST_IDENTIFIER name)
          (leaf_node AST_IDENTIFIER type_name)) table
      = (location_printable_text original.t.location).map (fun text =>
          (typing_result_error name
            ("A variable with the name '" ++ printable mem name ++
              "' already exists! It was declared here [" ++ text ++ "]"),
            binary_node AST_TYPE_ASSIGNMENT colon (leaf_node AST_IDENTIFIER name)
              (leaf_node AST_IDENTIFIER type_name),
            table)) := by
  simp only [resolve_type_assignment_reading, binary_node, leaf_node, hT, hi, hn, hj]
  cases location_printable_text original.t.location <;> rfl

theorem resolve_declaration_right_fails_reading (stale : stale_reads) (mem : List Nat) (fuel : Nat)
    (table table1 : symbol_table) (type : ast_node_type) (op : token) (left e e1 : ast_node)
    (result : typing_result)
    (hd : type = AST_CONST_ASSIGNMENT ∨ type = AST_VALUE_ASSIGNMENT)
    (he : resolve_types_reading stale mem fuel e table = some (result, e1, table1))
    (hf : result.success = false) :
    resolve_types_reading stale mem (fuel + 1) (binary_node type op left e) table
      = some (result, binary_node type op left e1, table1) := by
  simp only [binary_node]
  rcases hd with ht | ht
  · subst ht
    rw [resolve_types_reading]
    simp only [he, hf, if_true]
  · subst ht
    rw [resolve_types_reading]
    simp only [he, hf, if_true]

theorem resolve_function_redeclared_parameter_reading (stale : stale_reads) (mem : List Nat)
    (fuel : Nat)
    (table : symbol_table) (op t colon a T : token) (left ret body : ast_node)
    (parameters children : node_list) (parens : Bool) (i j : Nat) (original : symbol)
    (text : String)
    (hT : symbol_table_find mem table T = some (some i))
    (hn : symbol_table_find mem table a = some (some j))
    (hj : table.buffer[j]? = some original)
    (hloc : location_printable_text original.t.location = some text) :
    resolve_types_reading stale mem (fuel + 5)
        (binary_node AST_CONST_ASSIGNMENT op left
          (ast_node.node AST_FUNCTION_DECLARATION t
            (many_node AST_PARAMETER_LIST
              (node_list.cons
                (binary_node AST_TYPE_ASSIGNMENT colon (leaf_node AST_IDENTIFIER a)
                  (leaf_node AST_IDENTIFIER T)) parameters))
            ret body children parens)) table
      = some (typing_result_error a
          ("A variable with the name '" ++ printable mem a ++
            "' already exists! It was declared here [" ++ text ++ "]"),
          binary_node AST_CONST_ASSIGNMENT op left
            (ast_node.node AST_FUNCTION_DECLARATION t
              (many_node AST_PARAMETER_LIST
                (node_list.cons
                  (binary_node AST_TYPE_ASSIGNMENT colon (leaf_node AST_IDENTIFIER a)
                    (leaf_node AST_IDENTIFIER T)) parameters))
              ret body children parens),
          table) := by
  obtain ⟨_, _, sym, hi, _⟩ := symbol_table_find_from_found mem table T table.size 0 i hT
  have h0 := resolve_type_assignment_redeclared_reading stale mem table a T colon i j sym original
    hT hi hn hj
  rw [hloc] at h0
  simp only [Option.map_some'] at h0
  have h1 : resolve_types_reading stale mem (fuel + 1)
      (binary_node AST_TYPE_ASSIGNMENT colon (leaf_node AST_IDENTIFIER a)
          (leaf_node AST_IDENTIFIER T)) table
      = some ((typing_result_error a
          ("A variable with the name '" ++ printable mem a ++
            "' already exists! It was declared here [" ++ text ++ "]")),
        (binary_node AST_TYPE_ASSIGNMENT colon (leaf_node AST_IDENTIFIER a)
          (leaf_node AST_IDENTIFIER T)), table) := by
    simp only [binary_node]
    rw [resolve_types_reading]
    simp only [binary_node] at h0
    exact h0
  have h2 : resolve_types_children_reading stale mem (fuel + 2)
      (node_list.cons
        (binary_node AST_TYPE_ASSIGNMENT colon (leaf_node AST_IDENTIFIER a)
          (leaf_node AST_IDENTIFIER T)) parameters) table
      = some ((typing_result_error a
          ("A variable with the name '" ++ printable mem a ++
            "' already exists! It was declared here [" ++ text ++ "]")),
        (node_list.cons
        (binary_node AST_TYPE_ASSIGNMENT colon (leaf_node AST_IDENTIFIER a)
          (leaf_node AST_IDENTIFIER T)) parameters), table) := by
    rw [resolve_types_children_reading]
    simp only [h1, typing_result_error, if_true]
  have h3 : resolve_types_reading stale mem (fuel + 3)
      (many_node AST_PARAMETER_LIST
        (node_list.cons
        (binary_node AST_TYPE_ASSIGNMENT colon (leaf_node AST_IDENTIFIER a)
          (leaf_node AST_IDENTIFIER T)) parameters)) table
      = some ((typing_result_error a
          ("A variable with the name '" ++ printable mem a ++
            "' already exists! It was declared here [" ++ text ++ "]")),
        (many_node AST_PARAMETER_LIST
        (node_list.cons
        (binary_node AST_TYPE_ASSIGNMENT colon (leaf_node AST_IDENTIFIER a)
          (leaf_node AST_IDENTIFIER T)) parameters)), table) := by
    simp only [many_node]
    rw [resolve_types_reading]
    simp only [h2]
  have h4 : resolve_types_reading stale mem (fuel + 4)
      (ast_node.node AST_FUNCTION_DECLARATION t
        (many_node AST_PARAMETER_LIST
        (node_list.cons
        (binary_node AST_TYPE_ASSIGNMENT colon (leaf_node AST_IDENTIFIER a)
          (leaf_node AST_IDENTIFIER T)) parameters))
        ret body children parens) table
      = some ((typing_result_error a
          ("A variable with the name '" ++ printable mem a ++
            "' already exists! It was declared here [" ++ text ++ "]")),
        (ast_node.node AST_FUNCTION_DECLARATION t
        (many_node AST_PARAMETER_LIST
        (node_list.cons
        (binary_node AST_TYPE_ASSIGNMENT colon (leaf_node AST_IDENTIFIER a)
          (leaf_node AST_IDENTIFIER T)) parameters))
        ret body children parens), table) := by
    rw [resolve_types_reading]
    simp only [h3, typing_result_error, if_true]
  exact resolve_declaration_right_fails_reading stale mem (fuel + 4) table table
    AST_CONST_ASSIGNMENT op left
    _ _ _ (Or.inl rfl) h4 rfl

theorem resolve_block_statement_reading (stale : stale_reads) (mem : List Nat) (fuel : Nat)
    (block : node_list)
    (tableA tableB : symbol_table) (r : typing_result) (block1 statement : ast_node)
    (h : resolve_types_reading stale mem fuel (many_node AST_SCOPE block) tableA = some (r, block1,
      tableB))
    (hs : r.success = true) (hx : statement ∈ node_list_nodes block) :
    ∃ fuel2 tableC rs statement1 tableD,
      resolve_types_reading stale mem fuel2 statement tableC = some (rs, statement1, tableD) ∧
      rs.success = true ∧
      ∀ name j, symbol_table_find mem tableD name = some (some j) →
        symbol_table_find mem tableB name = some (some j) := by
  cases fuel with
  | zero => simp [resolve_types_reading, many_node] at h
  | succ fuel =>
    simp only [many_node] at h
    rw [resolve_types_reading] at h
    cases hc : resolve_types_children_reading stale mem fuel block tableA with
    | none => simp [hc] at h
    | some z =>
      obtain ⟨rc, children1, tableC⟩ := z
      simp only [hc] at h
      cases h
      obtain ⟨fuel0, tA, rx, x1, tB, hx1, hx2, _, hx4⟩ :=
        resolve_children_member_reading stale mem fuel block tableA _ children1 _ hc hs statement hx
      exact ⟨fuel0, tA, rx, x1, tB, hx1, hx2, fun name j hj =>
        symbol_table_find_keeps mem tB _ name j hx4 hj⟩

theorem one_flat_scope_reading (stale : stale_reads) (mem : List Nat) (fuel fuel1 fuelb : Nat)
    (table table1 table2 : symbol_table) (op1 t1 colon1 a1 T1 op2 t2 colon2 a2 T2 : token)
    (left1 ret1 body1 first1 left2 ret2 body2 : ast_node)
    (parameters1 children1 between between1 parameters2 children2 : node_list)
    (parens1 parens2 : Bool) (r1 rb : typing_result) (i : Nat) (text : String)
    (h1 : resolve_types_reading stale mem fuel1
      (binary_node AST_CONST_ASSIGNMENT op1 left1
        (ast_node.node AST_FUNCTION_DECLARATION t1 (many_node AST_PARAMETER_LIST parameters1)
          ret1 body1 children1 parens1)) table = some (r1, first1, table1))
    (hs1 : r1.success = true)
    (hx : binary_node AST_TYPE_ASSIGNMENT colon1 (leaf_node AST_IDENTIFIER a1)
        (leaf_node AST_IDENTIFIER T1) ∈ node_list_nodes parameters1)
    (hr : readable mem a1)
    (hbetween : resolve_types_children_reading stale mem fuelb between table1 = some (rb, between1,
      table2))
    (hsame : same_name mem a2 a1)
    (hT : symbol_table_find mem table2 T2 = some (some i))
    (hloc : location_printable_text a1.location = some text) :
    resolve_types_reading stale mem (fuel + 5)
        (binary_node AST_CONST_ASSIGNMENT op2 left2
          (ast_node.node AST_FUNCTION_DECLARATION t2
            (many_node AST_PARAMETER_LIST
              (node_list.cons
                (binary_node AST_TYPE_ASSIGNMENT colon2 (leaf_node AST_IDENTIFIER a2)
                  (leaf_node AST_IDENTIFIER T2)) parameters2))
            ret2 body2 children2 parens2)) table2
      = some (typing_result_error a2
          ("A variable with the name '" ++ printable mem a2 ++
            "' already exists! It was declared here [" ++ text ++ "]"),
          (binary_node AST_CONST_ASSIGNMENT op2 left2
            (ast_node.node AST_FUNCTION_DECLARATION t2
              (many_node AST_PARAMETER_LIST
                (node_list.cons
                  (binary_node AST_TYPE_ASSIGNMENT colon2 (leaf_node AST_IDENTIFIER a2)
                    (leaf_node AST_IDENTIFIER T2)) parameters2))
              ret2 body2 children2 parens2)),
          table2) ∧
    (∀ fuel0 ast tableA r ast1 tableB name j,
      resolve_types_reading stale mem fuel0 ast tableA = some (r, ast1, tableB) →
      symbol_table_find mem tableA name = some (some j) →
      symbol_table_find mem tableB name = some (some j)) ∧
    (∀ fuel0 block tableA r block1 tableB statement,
      resolve_types_reading stale mem fuel0 (many_node AST_SCOPE block) tableA = some (r, block1,
        tableB) →
      r.success = true → statement ∈ node_list_nodes block →
      ∃ fuel2 tableC rs statement1 tableD,
        resolve_types_reading stale mem fuel2 statement tableC = some (rs, statement1, tableD) ∧
        rs.success = true ∧
        ∀ name j, symbol_table_find mem tableD name = some (some j) →
          symbol_table_find mem tableB name = some (some j)) := by
  obtain ⟨j, s, hj, hsj, e⟩ := function_parameter_stays_reading stale mem fuel1 table table1 op1 t1
    colon1 a1
    T1 left1 ret1 body1 first1 parameters1 children1 parens1 r1 h1 hs1 hx hr
  obtain ⟨hfind, s0, s2, h0, h2, e2, _⟩ := symbol_table_find_kept mem table1 table2 a1 j
    ((resolve_types_keeps_reading stale mem fuelb).2.1 _ _ _ _ _ hbetween) hj
  rw [hsj] at h0
  cases h0
  rw [← symbol_table_find_same_name mem table2 a2 a1 hsame] at hfind
  refine ⟨resolve_function_redeclared_parameter_reading stale mem fuel table2 op2 t2 colon2 a2 T2
    left2 ret2
    body2 parameters2 children2 parens2 i j s2 text hT hfind h2
    (by rw [e2, e]; exact hloc), ?_, ?_⟩
  · intro fuel0 ast tableA r ast1 tableB name j0 h hn
    exact symbol_table_find_keeps mem tableA tableB name j0
      ((resolve_types_keeps_reading stale mem fuel0).1 _ _ _ _ _ h) hn
  · intro fuel0 block tableA r block1 tableB statement h hs hx0
    exact resolve_block_statement_reading stale mem fuel0 block tableA tableB r block1 statement h
      hs hx0

theorem resolve_type_assignment_reading_known (stale : stale_reads) (mem : List Nat)
    (table : symbol_table) (name type colon : token) (i : Nat) (sym : symbol)
    (hT : symbol_table_find mem table type = some (some i))
    (hi : table.buffer[i]? = some sym)
    (hn : symbol_table_find mem table name = some none) :
    resolve_type_assignment_reading stale mem
        (binary_node AST_TYPE_ASSIGNMENT colon (leaf_node AST_IDENTIFIER name)
          (leaf_node AST_IDENTIFIER type)) table
      = match (if symbol_table_add_reallocates table then stale table name
               else some (sym.type, sym.type)) with
        | none => none
        | some (first_read, second_read) =>
          some (typing_result_success first_read,
            binary_node AST_TYPE_ASSIGNMENT { colon with typing_information := second_read }
              (leaf_node AST_IDENTIFIER { name with typing_information := first_read })
              (leaf_node AST_IDENTIFIER type),
            with_symbol table
              { t := name, type := sym.type, is_constant := false,
                function_decl_node := none }) := by
  simp only [resolve_type_assignment_reading, binary_node, leaf_node, hT, hi, hn,
    symbol_table_add_absent_symbol mem table name sym.type false hn]

theorem two_parameter_function_resolves (stale : stale_reads) (first_read second_read : type_info)
    (hv : stale (with_variable fresh_symbol_table
        (source_token "f" TOKEN_IDENTIFIER 6 1 1 7 token_value.zero) TYPE_INFO_INTEGER)
      (source_token "f" TOKEN_IDENTIFIER 14 1 1 15 token_value.zero)
      = some (first_read, second_read)) (fuel : Nat) :
    resolve_types_reading stale two_parameters_source (fuel + 6)
      two_parameter_declaration fresh_symbol_table
      = some (typing_result_success TYPE_INFO_FUNCTION,
          binary_node AST_CONST_ASSIGNMENT
            { source_token "f" TOKEN_COLON 3 1 1 4 token_value.zero with
              typing_information := TYPE_INFO_FUNCTION }
            (binary_node AST_TYPE_ASSIGNMENT
              { source_token "f" TOKEN_COLON 2 1 1 3 token_value.zero with
                typing_information := TYPE_INFO_FUNCTION }
              (leaf_node AST_IDENTIFIER
                { source_token "f" TOKEN_IDENTIFIER 0 1 1 1 token_value.zero with
                  typing_information := TYPE_INFO_FUNCTION })
              ast_node.null)
            (two_parameter_function_resolved first_read second_read),
          two_parameter_table first_read second_read) := by
  have e1 : resolve_type_assignment_reading stale two_parameters_source
      (binary_node AST_TYPE_ASSIGNMENT (source_token "f" TOKEN_COLON 7 1 1 8 token_value.zero)
        (leaf_node AST_IDENTIFIER (source_token "f" TOKEN_IDENTIFIER 6 1 1 7 token_value.zero))
        (leaf_node AST_IDENTIFIER (source_token "f" TOKEN_IDENTIFIER 9 3 1 10 token_value.zero)))
      fresh_symbol_table
      = some (typing_result_success TYPE_INFO_INTEGER,
          binary_node AST_TYPE_ASSIGNMENT
            { source_token "f" TOKEN_COLON 7 1 1 8 token_value.zero with
              typing_information := TYPE_INFO_INTEGER }
            (leaf_node AST_IDENTIFIER
              { source_token "f" TOKEN_IDENTIFIER 6 1 1 7 token_value.zero with
                typing_information := TYPE_INFO_INTEGER })
            (leaf_node AST_IDENTIFIER
              (source_token "f" TOKEN_IDENTIFIER 9 3 1 10 token_value.zero)),
          with_variable fresh_symbol_table
            (source_token "f" TOKEN_IDENTIFIER 6 1 1 7 token_value.zero) TYPE_INFO_INTEGER) := by
    rw [resolve_type_assignment_reading_known stale two_parameters_source fresh_symbol_table
      (source_token "f" TOKEN_IDENTIFIER 6 1 1 7 token_value.zero)
      (source_token "f" TOKEN_IDENTIFIER 9 3 1 10 token_value.zero)
      (source_token "f" TOKEN_COLON 7 1 1 8 token_value.zero) 1 builtin_int rfl rfl rfl,
      if_neg (by decide)]
    rfl
  have e2 : resolve_type_assignment_reading stale two_parameters_source
      (binary_node AST_TYPE_ASSIGNMENT (source_token "f" TOKEN_COLON 15 1 1 16 token_value.zero)
        (leaf_node AST_IDENTIFIER (source_token "f" TOKEN_IDENTIFIER 14 1 1 15 token_value.zero))
        (leaf_node AST_IDENTIFIER (source_token "f" TOKEN_IDENTIFIER 17 3 1 18 token_value.zero)))
      (with_variable fresh_symbol_table
        (source_token "f" TOKEN_IDENTIFIER 6 1 1 7 token_value.zero) TYPE_INFO_INTEGER)
      = some (typing_result_success first_read,
          binary_node AST_TYPE_ASSIGNMENT
            { source_token "f" TOKEN_COLON 15 1 1 16 token_value.zero with
              typing_information := second_read }
            (leaf_node AST_IDENTIFIER
              { source_token "f" TOKEN_IDENTIFIER 14 1 1 15 token_value.zero with
                typing_information := first_read })
            (leaf_node AST_IDENTIFIER
              (source_token "f" TOKEN_IDENTIFIER 17 3 1 18 token_value.zero)),
          with_symbol
            (with_variable fresh_symbol_table
              (source_token "f" TOKEN_IDENTIFIER 6 1 1 7 token_value.zero) TYPE_INFO_INTEGER)
            { t := source_token "f" TOKEN_IDENTIFIER 14 1 1 15 token_value.zero,
              type := TYPE_INFO_INTEGER, is_constant := false,
              function_decl_node := none }) := by
    rw [resolve_type_assignment_reading_known stale two_parameters_source
      (with_variable fresh_symbol_table
        (source_token "f" TOKEN_IDENTIFIER 6 1 1 7 token_value.zero) TYPE_INFO_INTEGER)
      (source_token "f" TOKEN_IDENTIFIER 14 1 1 15 token_value.zero)
      (source_token "f" TOKEN_IDENTIFIER 17 3 1 18 token_value.zero)
      (source_token "f" TOKEN_COLON 15 1 1 16 token_value.zero) 1 builtin_int rfl rfl rfl,
      if_pos (by decide), hv]
    rfl
  simp only [binary_node, leaf_node] at e1 e2
  simp only [two_parameter_declaration, binary_node, leaf_node, many_node]
  rw [resolve_types_reading, resolve_types_reading, resolve_types_reading,
    resolve_types_children_reading, resolve_types_reading]
  simp only [e1, typing_result_success, Bool.true_eq_false, if_false]
  rw [resolve_types_children_reading, resolve_types_reading]
  simp only [e2, typing_result_success, Bool.true_eq_false, if_false]
  rw [resolve_types_children_reading]
  simp only [typing_result_success, Bool.true_eq_false, if_false]
  rfl

theorem two_parameters_file_parses :
    ∃ parser1, parser_parse_file 8 (parser_create "f" two_parameters_source)
      = some (parse_result_success two_parameters_file, parser1) := by
  have hr : lexer_next_tokens 31 (parser_create "f" two_parameters_source).lexer
      = some ([source_token "f" TOKEN_IDENTIFIER 0 1 1 1 token_value.zero,
               source_token "f" TOKEN_COLON 2 1 1 3 token_value.zero,
               source_token "f" TOKEN_COLON 3 1 1 4 token_value.zero,
               source_token "f" TOKEN_LEFT_PAREN 5 1 1 6 token_value.zero,
               source_token "f" TOKEN_IDENTIFIER 6 1 1 7 token_value.zero,
               source_token "f" TOKEN_COLON 7 1 1 8 token_value.zero,
               source_token "f" TOKEN_IDENTIFIER 9 3 1 10 token_value.zero,
               source_token "f" TOKEN_COMMA 12 1 1 13 token_value.zero,
               source_token "f" TOKEN_IDENTIFIER 14 1 1 15 token_value.zero,
               source_token "f" TOKEN_COLON 15 1 1 16 token_value.zero,
               source_token "f" TOKEN_IDENTIFIER 17 3 1 18 token_value.zero,
               source_token "f" TOKEN_RIGHT_PAREN 20 1 1 21 token_value.zero,
               source_token "f" TOKEN_ARROW 22 2 1 23 token_value.zero,
               source_token "f" TOKEN_IDENTIFIER 25 3 1 26 token_value.zero,
               source_token "f" TOKEN_LEFT_CURLY 29 1 1 30 token_value.zero,
               source_token "f" TOKEN_RIGHT_CURLY 30 1 1 31 token_value.zero,
               source_token "f" TOKEN_SEMICOLON 31 1 1 32 token_value.zero,
               source_token "f" TOKEN_IDENTIFIER 33 1 1 34 token_value.zero,
               source_token "f" TOKEN_COLON 35 1 1 36 token_value.zero,
               source_token "f" TOKEN_COLON 36 1 1 37 token_value.zero,
               source_token "f" TOKEN_LEFT_PAREN 38 1 1 39 token_value.zero,
               source_token "f" TOKEN_IDENTIFIER 39 1 1 40 token_value.zero,
               source_token "f" TOKEN_COLON 40 1 1 41 token_value.zero,
               source_token "f" TOKEN_IDENTIFIER 42 3 1 43 token_value.zero,
               source_token "f" TOKEN_RIGHT_PAREN 45 1 1 46 token_value.zero,
               source_token "f" TOKEN_ARROW 47 2 1 48 token_value.zero,
               source_token "f" TOKEN_IDENTIFIER 50 3 1 51 token_value.zero,
               source_token "f" TOKEN_LEFT_CURLY 54 1 1 55 token_value.zero,
               source_token "f" TOKEN_RIGHT_CURLY 55 1 1 56 token_value.zero,
               source_token "f" TOKEN_SEMICOLON 56 1 1 57 token_value.zero,
               source_token "f" TOKEN_EOF 57 0 1 58 token_value.zero],
          { (parser_create "f" two_parameters_source).lexer with
              head := 57, current_column := 58 }) := by
    decide
  have hy : lexer_yields (parser_create "f" two_parameters_source).lexer
      [source_token "f" TOKEN_IDENTIFIER 0 1 1 1 token_value.zero,
       source_token "f" TOKEN_COLON 2 1 1 3 token_value.zero,
       source_token "f" TOKEN_COLON 3 1 1 4 token_value.zero,
       source_token "f" TOKEN_LEFT_PAREN 5 1 1 6 token_value.zero,
       source_token "f" TOKEN_IDENTIFIER 6 1 1 7 token_value.zero,
       source_token "f" TOKEN_COLON 7 1 1 8 token_value.zero,
       source_token "f" TOKEN_IDENTIFIER 9 3 1 10 token_value.zero,
       source_token "f" TOKEN_COMMA 12 1 1 13 token_value.zero,
       source_token "f" TOKEN_IDENTIFIER 14 1 1 15 token_value.zero,
       source_token "f" TOKEN_COLON 15 1 1 16 token_value.zero,
       source_token "f" TOKEN_IDENTIFIER 17 3 1 18 token_value.zero,
       source_token "f" TOKEN_RIGHT_PAREN 20 1 1 21 token_value.zero,
       source_token "f" TOKEN_ARROW 22 2 1 23 token_value.zero,
       source_token "f" TOKEN_IDENTIFIER 25 3 1 26 token_value.zero,
       source_token "f" TOKEN_LEFT_CURLY 29 1 1 30 token_value.zero,
       source_token "f" TOKEN_RIGHT_CURLY 30 1 1 31 token_value.zero,
       source_token "f" TOKEN_SEMICOLON 31 1 1 32 token_value.zero,
       source_token "f" TOKEN_IDENTIFIER 33 1 1 34 token_value.zero,
       source_token "f" TOKEN_COLON 35 1 1 36 token_value.zero,
       source_token "f" TOKEN_COLON 36 1 1 37 token_value.zero,
       source_token "f" TOKEN_LEFT_PAREN 38 1 1 39 token_value.zero,
       source_token "f" TOKEN_IDENTIFIER 39 1 1 40 token_value.zero,
       source_token "f" TOKEN_COLON 40 1 1 41 token_value.zero,
       source_token "f" TOKEN_IDENTIFIER 42 3 1 43 token_value.zero,
       source_token "f" TOKEN_RIGHT_PAREN 45 1 1 46 token_value.zero,
       source_token "f" TOKEN_ARROW 47 2 1 48 token_value.zero,
       source_token "f" TOKEN_IDENTIFIER 50 3 1 51 token_value.zero,
       source_token "f" TOKEN_LEFT_CURLY 54 1 1 55 token_value.zero,
       source_token "f" TOKEN_RIGHT_CURLY 55 1 1 56 token_value.zero,
       source_token "f" TOKEN_SEMICOLON 56 1 1 57 token_value.zero,
       source_token "f" TOKEN_EOF 57 0 1 58 token_value.zero] :=
    ⟨by decide, _, hr⟩
  have hfirst : parses (parser_parse_statement 8) (parser_create "f" two_parameters_source)
      [source_token "f" TOKEN_IDENTIFIER 0 1 1 1 token_value.zero,
       source_token "f" TOKEN_COLON 2 1 1 3 token_value.zero,
       source_token "f" TOKEN_COLON 3 1 1 4 token_value.zero,
       source_token "f" TOKEN_LEFT_PAREN 5 1 1 6 token_value.zero,
       source_token "f" TOKEN_IDENTIFIER 6 1 1 7 token_value.zero,
       source_token "f" TOKEN_COLON 7 1 1 8 token_value.zero,
       source_token "f" TOKEN_IDENTIFIER 9 3 1 10 token_value.zero,
       source_token "f" TOKEN_COMMA 12 1 1 13 token_value.zero,
       source_token "f" TOKEN_IDENTIFIER 14 1 1 15 token_value.zero,
       source_token "f" TOKEN_COLON 15 1 1 16 token_value.zero,
       source_token "f" TOKEN_IDENTIFIER 17 3 1 18 token_value.zero,
       source_token "f" TOKEN_RIGHT_PAREN 20 1 1 21 token_value.zero,
       source_token "f" TOKEN_ARROW 22 2 1 23 token_value.zero,
       source_token "f" TOKEN_IDENTIFIER 25 3 1 26 token_value.zero,
       source_token "f" TOKEN_LEFT_CURLY 29 1 1 30 token_value.zero,
       source_token "f" TOKEN_RIGHT_CURLY 30 1 1 31 token_value.zero,
       source_token "f" TOKEN_SEMICOLON 31 1 1 32 token_value.zero,
       source_token "f" TOKEN_IDENTIFIER 33 1 1 34 token_value.zero,
       source_token "f" TOKEN_COLON 35 1 1 36 token_value.zero,
       source_token "f" TOKEN_COLON 36 1 1 37 token_value.zero,
       source_token "f" TOKEN_LEFT_PAREN 38 1 1 39 token_value.zero,
       source_token "f" TOKEN_IDENTIFIER 39 1 1 40 token_value.zero,
       source_token "f" TOKEN_COLON 40 1 1 41 token_value.zero,
       source_token "f" TOKEN_IDENTIFIER 42 3 1 43 token_value.zero,
       source_token "f" TOKEN_RIGHT_PAREN 45 1 1 46 token_value.zero,
       source_token "f" TOKEN_ARROW 47 2 1 48 token_value.zero,
       source_token "f" TOKEN_IDENTIFIER 50 3 1 51 token_value.zero,
       source_token "f" TOKEN_LEFT_CURLY 54 1 1 55 token_value.zero,
       source_token "f" TOKEN_RIGHT_CURLY 55 1 1 56 token_value.zero,
       source_token "f" TOKEN_SEMICOLON 56 1 1 57 token_value.zero,
       source_token "f" TOKEN_EOF 57 0 1 58 token_value.zero]
      (parse_result_success two_parameter_declaration)
      [source_token "f" TOKEN_IDENTIFIER 33 1 1 34 token_value.zero,
       source_token "f" TOKEN_COLON 35 1 1 36 token_value.zero,
       source_token "f" TOKEN_COLON 36 1 1 37 token_value.zero,
       source_token "f" TOKEN_LEFT_PAREN 38 1 1 39 token_value.zero,
       source_token "f" TOKEN_IDENTIFIER 39 1 1 40 token_value.zero,
       source_token "f" TOKEN_COLON 40 1 1 41 token_value.zero,
       source_token "f" TOKEN_IDENTIFIER 42 3 1 43 token_value.zero,
       source_token "f" TOKEN_RIGHT_PAREN 45 1 1 46 token_value.zero,
       source_token "f" TOKEN_ARROW 47 2 1 48 token_value.zero,
       source_token "f" TOKEN_IDENTIFIER 50 3 1 51 token_value.zero,
       source_token "f" TOKEN_LEFT_CURLY 54 1 1 55 token_value.zero,
       source_token "f" TOKEN_RIGHT_CURLY 55 1 1 56 token_value.zero,
       source_token "f" TOKEN_SEMICOLON 56 1 1 57 token_value.zero,
       source_token "f" TOKEN_EOF 57 0 1 58 token_value.zero] :=
    statement_identifier_first _ _ _ _ _ 7 (by decide)
      (declaration_untyped_tokens _ _ (source_token "f" TOKEN_COLON 2 1 1 3 token_value.zero)
        (source_token "f" TOKEN_COLON 3 1 1 4 token_value.zero)
        (source_token "f" TOKEN_SEMICOLON 31 1 1 32 token_value.zero) _ _
        (parse_result_success
          (ast_node.node AST_FUNCTION_DECLARATION token_zero
            (many_node AST_PARAMETER_LIST
              (node_list.cons
                (binary_node AST_TYPE_ASSIGNMENT
                  (source_token "f" TOKEN_COLON 7 1 1 8 token_value.zero)
                  (leaf_node AST_IDENTIFIER (source_token "f" TOKEN_IDENTIFIER 6 1 1 7
                    token_value.zero))
                  (leaf_node AST_IDENTIFIER (source_token "f" TOKEN_IDENTIFIER 9 3 1 10
                    token_value.zero)))
                (node_list.cons
                  (binary_node AST_TYPE_ASSIGNMENT
                    (source_token "f" TOKEN_COLON 15 1 1 16 token_value.zero)
                    (leaf_node AST_IDENTIFIER (source_token "f" TOKEN_IDENTIFIER 14 1 1 15
                      token_value.zero))
                    (leaf_node AST_IDENTIFIER (source_token "f" TOKEN_IDENTIFIER 17 3 1 18
                      token_value.zero)))
                  node_list.nil)))
            (leaf_node AST_IDENTIFIER (source_token "f" TOKEN_IDENTIFIER 25 3 1 26
              token_value.zero))
            (many_node AST_SCOPE node_list_create) node_list.nil false)) 4 AST_CONST_ASSIGNMENT (by
              decide)
        (Or.inl ⟨by decide, rfl⟩) (by decide) rfl
        (function_or_expression_identifier _ _ _ _ _ _ _ 5 (by decide) (by decide)
          (parser_parse_function_declaration_tokens _ _ _ _ _ _ _ _ 4
            (parses_two_parameters _
              (source_token "f" TOKEN_LEFT_PAREN 5 1 1 6 token_value.zero)
              (source_token "f" TOKEN_IDENTIFIER 6 1 1 7 token_value.zero)
              (source_token "f" TOKEN_COLON 7 1 1 8 token_value.zero)
              (source_token "f" TOKEN_IDENTIFIER 9 3 1 10 token_value.zero)
              (source_token "f" TOKEN_COMMA 12 1 1 13 token_value.zero)
              (source_token "f" TOKEN_IDENTIFIER 14 1 1 15 token_value.zero)
              (source_token "f" TOKEN_COLON 15 1 1 16 token_value.zero)
              (source_token "f" TOKEN_IDENTIFIER 17 3 1 18 token_value.zero)
              (source_token "f" TOKEN_RIGHT_PAREN 20 1 1 21 token_value.zero) _ 1
              (by decide) (by decide) (by decide) (by decide) (by decide) (by decide)
              (by decide) (by decide) (by decide))
            (by decide) (by decide)
            (parses_empty_scope _ _ _ _ 2 (by decide) (by decide)))))
  have hsecond : parses (parser_parse_statement 8) (parser_create "f" two_parameters_source)
      [source_token "f" TOKEN_IDENTIFIER 33 1 1 34 token_value.zero,
       source_token "f" TOKEN_COLON 35 1 1 36 token_value.zero,
       source_token "f" TOKEN_COLON 36 1 1 37 token_value.zero,
       source_token "f" TOKEN_LEFT_PAREN 38 1 1 39 token_value.zero,
       source_token "f" TOKEN_IDENTIFIER 39 1 1 40 token_value.zero,
       source_token "f" TOKEN_COLON 40 1 1 41 token_value.zero,
       source_token "f" TOKEN_IDENTIFIER 42 3 1 43 token_value.zero,
       source_token "f" TOKEN_RIGHT_PAREN 45 1 1 46 token_value.zero,
       source_token "f" TOKEN_ARROW 47 2 1 48 token_value.zero,
       source_token "f" TOKEN_IDENTIFIER 50 3 1 51 token_value.zero,
       source_token "f" TOKEN_LEFT_CURLY 54 1 1 55 token_value.zero,
       source_token "f" TOKEN_RIGHT_CURLY 55 1 1 56 token_value.zero,
       source_token "f" TOKEN_SEMICOLON 56 1 1 57 token_value.zero,
       source_token "f" TOKEN_EOF 57 0 1 58 token_value.zero]
      (parse_result_success second_declaration_after_two_parameters)
      [source_token "f" TOKEN_EOF 57 0 1 58 token_value.zero] :=
    statement_identifier_first _ _ _ _ _ 7 (by decide)
      (declaration_untyped_tokens _ _ (source_token "f" TOKEN_COLON 35 1 1 36 token_value.zero)
        (source_token "f" TOKEN_COLON 36 1 1 37 token_value.zero)
        (source_token "f" TOKEN_SEMICOLON 56 1 1 57 token_value.zero) _ _
        (parse_result_success
          (ast_node.node AST_FUNCTION_DECLARATION token_zero
            (many_node AST_PARAMETER_LIST
              (node_list.cons
                (binary_node AST_TYPE_ASSIGNMENT
                  (source_token "f" TOKEN_COLON 40 1 1 41 token_value.zero)
                  (leaf_node AST_IDENTIFIER (source_token "f" TOKEN_IDENTIFIER 39 1 1 40
                    token_value.zero))
                  (leaf_node AST_IDENTIFIER (source_token "f" TOKEN_IDENTIFIER 42 3 1 43
                    token_value.zero)))
                node_list.nil))
            (leaf_node AST_IDENTIFIER (source_token "f" TOKEN_IDENTIFIER 50 3 1 51
              token_value.zero))
            (many_node AST_SCOPE node_list_create) node_list.nil false)) 4 AST_CONST_ASSIGNMENT (by
              decide)
        (Or.inl ⟨by decide, rfl⟩) (by decide) rfl
        (function_or_expression_identifier _ _ _ _ _ _ _ 5 (by decide) (by decide)
          (parser_parse_function_declaration_tokens _ _ _ _ _ _ _ _ 4
            (parses_one_parameter _ _ _ _ _
              (source_token "f" TOKEN_RIGHT_PAREN 45 1 1 46 token_value.zero) _ 2
              (by decide) (by decide) (by decide) (by decide) (by decide))
            (by decide) (by decide)
            (parses_empty_scope _ _ _ _ 2 (by decide) (by decide)))))
  exact parser_parse_file_two_statements _ _ _ [] _ 5 _ _ rfl hy hfirst hsecond
    (by decide)

theorem two_parameters_file_rejected (stale : stale_reads) (first_read second_read : type_info)
    (hv : stale (with_variable fresh_symbol_table
        (source_token "f" TOKEN_IDENTIFIER 6 1 1 7 token_value.zero) TYPE_INFO_INTEGER)
      (source_token "f" TOKEN_IDENTIFIER 14 1 1 15 token_value.zero)
      = some (first_read, second_read)) (fuel : Nat) :
    (resolve_types_reading stale two_parameters_source (fuel + 8) two_parameters_file
        fresh_symbol_table).map (fun r => (r.1, r.2.2))
      = some (typing_result_error (source_token "f" TOKEN_IDENTIFIER 39 1 1 40 token_value.zero)
          "A variable with the name 'a' already exists! It was declared here [f:1:7]",
          two_parameter_table first_read second_read) := by
  have h1 := two_parameter_function_resolves stale first_read second_read hv fuel
  have h2 := (one_flat_scope_reading stale two_parameters_source fuel (fuel + 6) 1
    fresh_symbol_table (two_parameter_table first_read second_read)
    (two_parameter_table first_read second_read)
    (source_token "f" TOKEN_COLON 3 1 1 4 token_value.zero) token_zero
    (source_token "f" TOKEN_COLON 7 1 1 8 token_value.zero)
    (source_token "f" TOKEN_IDENTIFIER 6 1 1 7 token_value.zero)
    (source_token "f" TOKEN_IDENTIFIER 9 3 1 10 token_value.zero)
    (source_token "f" TOKEN_COLON 36 1 1 37 token_value.zero) token_zero
    (source_token "f" TOKEN_COLON 40 1 1 41 token_value.zero)
    (source_token "f" TOKEN_IDENTIFIER 39 1 1 40 token_value.zero)
    (source_token "f" TOKEN_IDENTIFIER 42 3 1 43 token_value.zero)
    (binary_node AST_TYPE_ASSIGNMENT (source_token "f" TOKEN_COLON 2 1 1 3 token_value.zero)
      (leaf_node AST_IDENTIFIER (source_token "f" TOKEN_IDENTIFIER 0 1 1 1 token_value.zero))
      ast_node.null)
    (leaf_node AST_IDENTIFIER (source_token "f" TOKEN_IDENTIFIER 25 3 1 26 token_value.zero))
    (many_node AST_SCOPE node_list_create) _
    (binary_node AST_TYPE_ASSIGNMENT (source_token "f" TOKEN_COLON 35 1 1 36 token_value.zero)
      (leaf_node AST_IDENTIFIER (source_token "f" TOKEN_IDENTIFIER 33 1 1 34 token_value.zero))
      ast_node.null)
    (leaf_node AST_IDENTIFIER (source_token "f" TOKEN_IDENTIFIER 50 3 1 51 token_value.zero))
    (many_node AST_SCOPE node_list_create)
    (node_list.cons
      (binary_node AST_TYPE_ASSIGNMENT (source_token "f" TOKEN_COLON 7 1 1 8 token_value.zero)
        (leaf_node AST_IDENTIFIER (source_token "f" TOKEN_IDENTIFIER 6 1 1 7 token_value.zero))
        (leaf_node AST_IDENTIFIER (source_token "f" TOKEN_IDENTIFIER 9 3 1 10 token_value.zero)))
      (node_list.cons
        (binary_node AST_TYPE_ASSIGNMENT (source_token "f" TOKEN_COLON 15 1 1 16 token_value.zero)
          (leaf_node AST_IDENTIFIER (source_token "f" TOKEN_IDENTIFIER 14 1 1 15 token_value.zero))
          (leaf_node AST_IDENTIFIER (source_token "f" TOKEN_IDENTIFIER 17 3 1 18 token_value.zero)))
        node_list.nil))
    node_list.nil node_list.nil node_list.nil node_list.nil node_list.nil false false
    (typing_result_success TYPE_INFO_FUNCTION) (typing_result_success TYPE_INFO_UNKNOWN) 1
    "f:1:7" h1 rfl (List.Mem.head _) (by decide) rfl (by decide) rfl rfl).1
  simp only [two_parameters_file, many_node]
  rw [resolve_types_reading, resolve_types_children_reading]
  simp only [h1, typing_result_success, Bool.true_eq_false, if_false]
  rw [resolve_types_children_reading]
  simp only [second_declaration_after_two_parameters] at h2
  simp only [second_declaration_after_two_parameters, h2, typing_result_error, if_true,
    Option.map_some']
  rfl

/-! ## A number that ends the file -/

theorem scan_while_overrun (base : rouleaux_lexer) :
    ∀ (k fuel : Nat) (lexer : rouleaux_lexer) (p length : Nat),
      at_pos base lexer p → p + k = base.file_content.length →
      (∀ i, i < k → ∃ c, base.file_content[p + i]? = some c ∧
        is_numeric_character c = true) →
      scan_while cond_numeric fuel lexer length = none
  | _, 0, _, _, _, _, _, _ => rfl
  | 0, fuel + 1, lexer, p, length, h, he, _ => by
    have hc0 : cond_numeric lexer.file_content lexer.head = none := by
      rw [h.2.1, h.2.2.2.1]
      simp only [cond_numeric]
      rw [List.getElem?_eq_none (by omega)]
    simp only [scan_while, hc0]
  | k + 1, fuel + 1, lexer, p, length, h, he, hgo => by
    obtain ⟨c, hc, hcn⟩ := hgo 0 (Nat.succ_pos k)
    have hc0 : cond_numeric lexer.file_content lexer.head = some true := by
      rw [h.2.1, h.2.2.2.1]
      rw [Nat.add_zero] at hc
      simp only [cond_numeric, hc, hcn]
    obtain ⟨l1, hl1, ha1, _⟩ := skip_char_one base lexer p h (by omega)
    have := scan_while_overrun base k fuel l1 (p + 1) (length + 1) ha1 (by omega)
      (fun i hi => by
        have := hgo (i + 1) (by omega)
        rw [Nat.add_assoc, Nat.add_comm 1 i]
        exact this)
    simp only [scan_while, hc0, hl1, this]

theorem lex_number_at_end (base lexer : rouleaux_lexer) (p n : Nat) (t0 : token)
    (h : at_pos base lexer p) (hn : 0 < n)
    (hdig : ∀ i, i < n → ∃ c, base.file_content[p + i]? = some c ∧
      is_numeric_character c = true)
    (hend : p + n = base.file_content.length) :
    lex_number lexer t0 = none := by
  obtain ⟨l1, hl1, ha1, _⟩ := skip_char_one base lexer p h (by omega)
  have := scan_while_overrun base (n - 1) (l1.file_content.length + 1) l1 (p + 1)
    (t0.length + 1) ha1 (by omega)
    (fun i hi => by
      obtain ⟨c1, hc1, hc2⟩ := hdig (i + 1) (by omega)
      have e : p + 1 + i = p + (i + 1) := by omega
      exact ⟨c1, by rw [e]; exact hc1, hc2⟩)
  simp only [lex_number, hl1, this]

theorem lex_number_at_period_end (base lexer : rouleaux_lexer) (p n : Nat) (t0 : token)
    (h : at_pos base lexer p) (h0 : t0.length = 0) (hn : 0 < n)
    (hdig : ∀ i, i < n → ∃ c, base.file_content[p + i]? = some c ∧
      is_numeric_character c = true)
    (hc : base.file_content[p + n]? = some 46)
    (hend : p + n + 1 = base.file_content.length) :
    lex_number lexer t0 = none := by
  obtain ⟨l1, l2, hl1, hl2, ha2, hpk, _⟩ := lex_number_digits base lexer p n t0 h h0 hn hdig
    46 hc (by decide)
  have hpk1 : peek_byte l2 1 = none := by
    simp only [peek_byte, ha2.2.1, ha2.2.2.2.1]
    exact List.getElem?_eq_none (by omega)
  simp only [lex_number, hl1, hl2, hpk, if_true, hpk1]

theorem lex_number_fraction_at_end (base lexer : rouleaux_lexer) (p n m : Nat) (t0 : token)
    (h : at_pos base lexer p) (h0 : t0.length = 0) (hn : 0 < n)
    (hdig : ∀ i, i < n → ∃ c, base.file_content[p + i]? = some c ∧
      is_numeric_character c = true)
    (hc : base.file_content[p + n]? = some 46) (hm : 0 < m)
    (hfrac : ∀ j, j < m → ∃ d, base.file_content[p + n + 1 + j]? = some d ∧
      is_numeric_character d = true)
    (hend : p + n + 1 + m = base.file_content.length) :
    lex_number lexer t0 = none := by
  obtain ⟨l1, l2, hl1, hl2, ha2, hpk, _⟩ := lex_number_digits base lexer p n t0 h h0 hn hdig
    46 hc (by decide)
  obtain ⟨d0, hd0, hd0n⟩ := hfrac 0 hm
  have hpk1 : peek_byte l2 1 = some d0 := by
    simp only [peek_byte, ha2.2.1, ha2.2.2.2.1]
    exact hd0
  obtain ⟨l3, hl3, ha3, _⟩ := skip_char_one base l2 (p + n) ha2 (by omega)
  have := scan_while_overrun base m (l3.file_content.length + 1) l3 (p + n + 1) (n + 1) ha3
    hend hfrac
  simp only [lex_number, hl1, hl2, hpk, if_true, hpk1, hd0n, hl3, this]

theorem number_at_end_of_input (filename : String) (ds : List Nat) (hne : ds ≠ [])
    (hds : ∀ c, c ∈ ds → is_numeric_character c = true) :
    lexer_next_token (lexer_create filename ds) = none ∧
    lexer_next_token (lexer_create filename (ds ++ [46])) = none ∧
    ∀ fs, fs ≠ [] → (∀ d, d ∈ fs → is_numeric_character d = true) →
      lexer_next_token (lexer_create filename (ds ++ 46 :: fs)) = none := by
  have hlen : 0 < ds.length := List.length_pos.mpr hne
  refine ⟨?_, ?_, fun fs hfne hfs => ?_⟩
  · have hcontent := lexer_create_content filename ds
    have hdig := append_digits_index ds [] hds
    rw [List.append_nil] at hdig
    obtain ⟨d0, hd0, hd0n⟩ := hdig 0 hlen
    obtain ⟨l1, ha1, _, hint⟩ := lexer_next_token_internal_at_digit
      (lexer_create filename ds) _ 0 d0 (at_pos_self _ _) (by rw [hcontent]; exact hd0) hd0n
    rw [lexer_next_token_size_zero _ (lexer_create_size _ _), hint]
    exact lex_number_at_end (lexer_create filename ds) l1 0 ds.length _ ha1 hlen
      (by rw [hcontent]; exact hdig) (by rw [hcontent, Nat.zero_add])
  · have hcontent := lexer_create_content filename (ds ++ [46])
    obtain ⟨d0, hd0, hd0n⟩ := append_digits_index ds [46] hds 0 hlen
    obtain ⟨l1, ha1, _, hint⟩ := lexer_next_token_internal_at_digit
      (lexer_create filename (ds ++ [46])) _ 0 d0 (at_pos_self _ _)
      (by rw [hcontent]; exact hd0) hd0n
    rw [lexer_next_token_size_zero _ (lexer_create_size _ _), hint]
    exact lex_number_at_period_end (lexer_create filename (ds ++ [46])) l1 0 ds.length _ ha1
      rfl hlen (by rw [hcontent]; exact append_digits_index ds [46] hds)
      (by rw [hcontent, Nat.zero_add, List.getElem?_append_right (Nat.le_refl _)]; simp)
      (by rw [hcontent]; simp)
  · have hflen : 0 < fs.length := List.length_pos.mpr hfne
    have hcontent := lexer_create_content filename (ds ++ 46 :: fs)
    obtain ⟨d0, hd0, hd0n⟩ := append_digits_index ds (46 :: fs) hds 0 hlen
    obtain ⟨l1, ha1, _, hint⟩ := lexer_next_token_internal_at_digit
      (lexer_create filename (ds ++ 46 :: fs)) _ 0 d0 (at_pos_self _ _)
      (by rw [hcontent]; exact hd0) hd0n
    rw [lexer_next_token_size_zero _ (lexer_create_size _ _), hint]
    exact lex_number_fraction_at_end (lexer_create filename (ds ++ 46 :: fs)) l1 0 ds.length
      fs.length _ ha1 rfl hlen (by rw [hcontent]; exact append_digits_index ds _ hds)
      (by rw [hcontent, Nat.zero_add, List.getElem?_append_right (Nat.le_refl _)]; simp)
      hflen
      (by
        intro j hj
        refine ⟨fs[j], ?_, hfs _ (List.getElem_mem hj)⟩
        rw [hcontent, Nat.zero_add, List.getElem?_append_right (by omega)]
        have e1 : ds.length + 1 + j - ds.length = j + 1 := by omega
        rw [e1, List.getElem?_cons_succ, List.getElem?_eq_getElem hj])
      (by rw [hcontent]; simp; omega)

theorem number_ending_the_file_not_lexed :
    lexer_next_token (lexer_create "f" (bytes "12")) = none ∧
    lexer_next_token (lexer_create "f" (bytes "1.")) = none ∧
    lexer_next_token (lexer_create "f" (bytes "1.5")) = none ∧
    lexer_next_tokens 3 (lexer_create "f" (bytes "x = 12")) = none :=
  ⟨(number_at_end_of_input "f" [49, 50] (by decide) (by decide)).1,
    (number_at_end_of_input "f" [49] (by decide) (by decide)).2.1,
    (number_at_end_of_input "f" [49] (by decide) (by decide)).2.2 [53] (by decide) (by decide),
    by decide⟩

/-! ## One scope for the parameters of every function -/

theorem resolve_types_reading_more (stale : stale_reads) (mem : List Nat) :
    ∀ fuel : Nat,
      (∀ ast table, (resolve_types_reading stale mem fuel ast table).isSome = true →
        resolve_types_reading stale mem (fuel + 1) ast table
          = resolve_types_reading stale mem fuel ast table) ∧
      (∀ children table,
        (resolve_types_children_reading stale mem fuel children table).isSome = true →
        resolve_types_children_reading stale mem (fuel + 1) children table
          = resolve_types_children_reading stale mem fuel children table) ∧
      (∀ declared passed table,
        (resolve_call_parameters_reading stale mem fuel declared passed table).isSome = true →
        resolve_call_parameters_reading stale mem (fuel + 1) declared passed table
          = resolve_call_parameters_reading stale mem fuel declared passed table) := by
  intro fuel
  induction fuel with
  | zero =>
    refine ⟨fun ast table h => ?_, fun children table h => ?_,
      fun declared passed table h => ?_⟩
    · rw [resolve_types_reading] at h
      cases h
    · rw [resolve_types_children_reading] at h
      cases h
    · rw [resolve_call_parameters_reading] at h
      cases h
  | succ fuel ih =>
    obtain ⟨ih1, ih2, ih3⟩ := ih
    refine ⟨fun ast table h => ?_, fun children table h => ?_,
      fun declared passed table h => ?_⟩
    · cases ast with
      | null => rw [resolve_types_reading, resolve_types_reading]
      | node type t c0 c1 c2 children parens =>
        cases type <;> rw [resolve_types_reading] at h <;>
          rw [resolve_types_reading, resolve_types_reading] <;>
          (try dsimp only at h ⊢) <;> repeat' split at h
        all_goals first
          | (cases h; done)
          | (simp only [*, ih1, ih2, ih3, Option.isSome_some, if_true, if_false, ne_eq,
              not_false_eq_true, not_true_eq_false])
    · cases children with
      | nil => rw [resolve_types_children_reading, resolve_types_children_reading]
      | cons first rest =>
        rw [resolve_types_children_reading] at h
        rw [resolve_types_children_reading, resolve_types_children_reading]
        repeat' split at h
        all_goals first
          | (cases h; done)
          | (simp only [*, ih1, ih2, ih3, Option.isSome_some, if_true, if_false, ne_eq,
              not_false_eq_true, not_true_eq_false])
    · cases declared with
      | nil => rw [resolve_call_parameters_reading, resolve_call_parameters_reading]
      | cons d ds =>
        cases passed with
        | nil => rw [resolve_call_parameters_reading, resolve_call_parameters_reading]
        | cons p ps =>
          rw [resolve_call_parameters_reading] at h
          rw [resolve_call_parameters_reading, resolve_call_parameters_reading]
          repeat' split at h
          all_goals first
            | (cases h; done)
            | (simp only [*, ih1, ih2, ih3, Option.isSome_some, if_true, if_false, ne_eq,
                not_false_eq_true, not_true_eq_false])

theorem resolve_types_reading_fuel (stale : stale_reads) (mem : List Nat) (fuel : Nat)
    (ast : ast_node) (table : symbol_table) (x : typing_result × ast_node × symbol_table)
    (h : resolve_types_reading stale mem fuel ast table = some x) :
    ∀ k, resolve_types_reading stale mem (fuel + k) ast table = some x
  | 0 => h
  | k + 1 => by
    have := resolve_types_reading_fuel stale mem fuel ast table x h k
    rw [← Nat.add_assoc, (resolve_types_reading_more stale mem (fuel + k)).1 ast table
      (by rw [this]; rfl)]
    exact this

theorem resolve_types_children_reading_fuel (stale : stale_reads) (mem : List Nat) (fuel : Nat)
    (children : node_list) (table : symbol_table)
    (x : typing_result × node_list × symbol_table)
    (h : resolve_types_children_reading stale mem fuel children table = some x) :
    ∀ k, resolve_types_children_reading stale mem (fuel + k) children table = some x
  | 0 => h
  | k + 1 => by
    have := resolve_types_children_reading_fuel stale mem fuel children table x h k
    rw [← Nat.add_assoc, (resolve_types_reading_more stale mem (fuel + k)).2.1 children table
      (by rw [this]; rfl)]
    exact this

theorem node_list_append_nil (b : node_list) : node_list_append node_list.nil b = b := by
  rw [node_list_append]

theorem node_list_append_cons (first : ast_node) (rest b : node_list) :
    node_list_append (node_list.cons first rest) b
      = node_list.cons first (node_list_append rest b) := by
  rw [node_list_append]

theorem resolve_children_prefix (stale : stale_reads) (mem : List Nat) :
    ∀ (fuelp : Nat) (pre pre1 : node_list) (table2 table3 : symbol_table) (rp : typing_result),
      resolve_types_children_reading stale mem fuelp pre table2 = some (rp, pre1, table3) →
      rp.success = true →
      ∀ (fuel : Nat) (rest rest1 : node_list) (r : typing_result) (table4 : symbol_table),
        resolve_types_children_reading stale mem fuel rest table3 = some (r, rest1, table4) →
        resolve_types_children_reading stale mem (fuelp + fuel) (node_list_append pre rest) table2
          = some (r, node_list_append pre1 rest1, table4) := by
  intro fuelp
  induction fuelp with
  | zero =>
    intro pre pre1 table2 table3 rp h
    rw [resolve_types_children_reading] at h
    cases h
  | succ fuelp ih =>
    intro pre pre1 table2 table3 rp h hs fuel rest rest1 r table4 hrest
    cases pre with
    | nil =>
      rw [resolve_types_children_reading] at h
      cases h
      rw [node_list_append_nil, node_list_append_nil, Nat.add_comm]
      exact resolve_types_children_reading_fuel stale mem fuel rest table2 _ hrest (fuelp + 1)
    | cons p ps =>
      rw [resolve_types_children_reading] at h
      cases hp : resolve_types_reading stale mem fuelp p table2 with
      | none => simp [hp] at h
      | some y =>
        obtain ⟨r1, p1, t1⟩ := y
        simp only [hp] at h
        by_cases hfail : r1.success = false
        · simp only [hfail, if_true, Option.some.injEq, Prod.mk.injEq] at h
          rw [← h.1, hfail] at hs
          cases hs
        · rw [if_neg hfail] at h
          cases hps : resolve_types_children_reading stale mem fuelp ps t1 with
          | none => simp [hps] at h
          | some z =>
            obtain ⟨r2, ps1, t2⟩ := z
            simp only [hps, Option.some.injEq, Prod.mk.injEq] at h
            obtain ⟨e1, e2, e3⟩ := h
            subst e1 e2 e3
            have h1 := ih ps ps1 t1 t2 r2 hps hs fuel rest rest1 r table4 hrest
            have h2 := resolve_types_reading_fuel stale mem fuelp p table2 _ hp fuel
            rw [node_list_append_cons, node_list_append_cons,
              show fuelp + 1 + fuel = fuelp + fuel + 1 by omega, resolve_types_children_reading]
            simp only [h2, h1]
            rw [if_neg hfail]

theorem resolve_function_redeclared_later_parameter (stale : stale_reads) (mem : List Nat)
    (fuel fuelp : Nat) (table table3 : symbol_table) (type : ast_node_type)
    (op t colon a T : token)
    (left ret body : ast_node) (pre pre1 post children : node_list) (parens : Bool)
    (rp : typing_result) (i j : Nat) (original : symbol) (text : String)
    (hd : type = AST_CONST_ASSIGNMENT ∨ type = AST_VALUE_ASSIGNMENT)
    (hpre : resolve_types_children_reading stale mem fuelp pre table = some (rp, pre1, table3))
    (hps : rp.success = true)
    (hT : symbol_table_find mem table3 T = some (some i))
    (hn : symbol_table_find mem table3 a = some (some j))
    (hj : table3.buffer[j]? = some original)
    (hloc : location_printable_text original.t.location = some text) :
    resolve_types_reading stale mem (fuelp + fuel + 5)
        (binary_node type op left
          (ast_node.node AST_FUNCTION_DECLARATION t
            (many_node AST_PARAMETER_LIST
              (node_list_append pre
                (node_list.cons
                  (binary_node AST_TYPE_ASSIGNMENT colon (leaf_node AST_IDENTIFIER a)
                    (leaf_node AST_IDENTIFIER T)) post)))
            ret body children parens)) table
      = some (typing_result_error a
          ("A variable with the name '" ++ printable mem a ++
            "' already exists! It was declared here [" ++ text ++ "]"),
          binary_node type op left
            (ast_node.node AST_FUNCTION_DECLARATION t
              (many_node AST_PARAMETER_LIST
                (node_list_append pre1
                  (node_list.cons
                    (binary_node AST_TYPE_ASSIGNMENT colon (leaf_node AST_IDENTIFIER a)
                      (leaf_node AST_IDENTIFIER T)) post)))
              ret body children parens),
          table3) := by
  obtain ⟨_, _, sym, hi, _⟩ := symbol_table_find_from_found mem table3 T table3.size 0 i hT
  have h0 := resolve_type_assignment_redeclared_reading stale mem table3 a T colon i j sym
    original hT hi hn hj
  rw [hloc] at h0
  simp only [Option.map_some'] at h0
  have h1 : resolve_types_reading stale mem (fuel + 1)
      (binary_node AST_TYPE_ASSIGNMENT colon (leaf_node AST_IDENTIFIER a)
          (leaf_node AST_IDENTIFIER T)) table3
      = some ((typing_result_error a
          ("A variable with the name '" ++ printable mem a ++
            "' already exists! It was declared here [" ++ text ++ "]")),
        (binary_node AST_TYPE_ASSIGNMENT colon (leaf_node AST_IDENTIFIER a)
          (leaf_node AST_IDENTIFIER T)), table3) := by
    simp only [binary_node]
    rw [resolve_types_reading]
    simp only [binary_node] at h0
    exact h0
  have h2 : resolve_types_children_reading stale mem (fuel + 2)
      (node_list.cons
        (binary_node AST_TYPE_ASSIGNMENT colon (leaf_node AST_IDENTIFIER a)
          (leaf_node AST_IDENTIFIER T)) post) table3
      = some ((typing_result_error a
          ("A variable with the name '" ++ printable mem a ++
            "' already exists! It was declared here [" ++ text ++ "]")),
        (node_list.cons
        (binary_node AST_TYPE_ASSIGNMENT colon (leaf_node AST_IDENTIFIER a)
          (leaf_node AST_IDENTIFIER T)) post), table3) := by
    rw [resolve_types_children_reading]
    simp only [h1, typing_result_error, if_true]
  have h2a := resolve_children_prefix stale mem fuelp pre pre1 table table3 rp hpre hps
    (fuel + 2) _ _ _ _ h2
  have h3 : resolve_types_reading stale mem (fuelp + (fuel + 2) + 1)
      (many_node AST_PARAMETER_LIST
        (node_list_append pre
          (node_list.cons
            (binary_node AST_TYPE_ASSIGNMENT colon (leaf_node AST_IDENTIFIER a)
              (leaf_node AST_IDENTIFIER T)) post))) table
      = some ((typing_result_error a
          ("A variable with the name '" ++ printable mem a ++
            "' already exists! It was declared here [" ++ text ++ "]")),
        (many_node AST_PARAMETER_LIST
          (node_list_append pre1
            (node_list.cons
              (binary_node AST_TYPE_ASSIGNMENT colon (leaf_node AST_IDENTIFIER a)
                (leaf_node AST_IDENTIFIER T)) post))), table3) := by
    simp only [many_node]
    rw [resolve_types_reading]
    simp only [h2a]
  have h4 : resolve_types_reading stale mem (fuelp + (fuel + 2) + 1 + 1)
      (ast_node.node AST_FUNCTION_DECLARATION t
        (many_node AST_PARAMETER_LIST
          (node_list_append pre
            (node_list.cons
              (binary_node AST_TYPE_ASSIGNMENT colon (leaf_node AST_IDENTIFIER a)
                (leaf_node AST_IDENTIFIER T)) post)))
        ret body children parens) table
      = some ((typing_result_error a
          ("A variable with the name '" ++ printable mem a ++
            "' already exists! It was declared here [" ++ text ++ "]")),
        (ast_node.node AST_FUNCTION_DECLARATION t
          (many_node AST_PARAMETER_LIST
            (node_list_append pre1
              (node_list.cons
                (binary_node AST_TYPE_ASSIGNMENT colon (leaf_node AST_IDENTIFIER a)
                  (leaf_node AST_IDENTIFIER T)) post)))
          ret body children parens), table3) := by
    rw [resolve_types_reading]
    simp only [h3, typing_result_error, if_true]
  rw [show fuelp + fuel + 5 = fuelp + (fuel + 2) + 1 + 1 + 1 by omega]
  exact resolve_declaration_right_fails_reading stale mem (fuelp + (fuel + 2) + 1 + 1) table
    table3 type op left _ _ _ hd h4 rfl

theorem resolve_declaration_right_reading (stale : stale_reads) (mem : List Nat) (fuel : Nat)
    (table table1 : symbol_table) (type : ast_node_type) (op : token)
    (left right ast1 : ast_node) (r : typing_result)
    (hd : type = AST_CONST_ASSIGNMENT ∨ type = AST_VALUE_ASSIGNMENT)
    (h : resolve_types_reading stale mem fuel (binary_node type op left right) table
      = some (r, ast1, table1))
    (hs : r.success = true) :
    ∃ fuel0 rr right1 tableR,
      resolve_types_reading stale mem fuel0 right table = some (rr, right1, tableR) ∧
      rr.success = true ∧ keeps_symbols tableR table1 := by
  rcases hd with hd | hd
  · subst hd
    exact resolve_constant_right_reading stale mem fuel table table1 op left right ast1 r h hs
  · subst hd
    cases fuel with
    | zero => simp [resolve_types_reading] at h
    | succ fuel =>
      simp only [binary_node] at h
      rw [resolve_types_reading] at h
      cases hr : resolve_types_reading stale mem fuel right table with
      | none => simp [hr] at h
      | some y =>
        obtain ⟨rr, right1, tableR⟩ := y
        simp only [hr] at h
        by_cases hfail : rr.success = false
        · simp only [hfail, if_true, Option.some.injEq, Prod.mk.injEq] at h
          rw [← h.1, hfail] at hs
          cases hs
        · simp only [hfail, if_false] at h
          refine ⟨fuel, rr, right1, tableR, hr, by simpa using hfail, ?_⟩
          repeat' split at h
          all_goals first
            | contradiction
            | (cases h; done)
            | (cases h; exact (resolve_types_keeps_reading stale mem fuel).1 _ _ _ _ _
                (by assumption))
            | exact keeps_symbols_trans _ _ _
                ((resolve_types_keeps_reading stale mem fuel).1 _ _ _ _ _ (by assumption))
                (resolve_value_assignment_end_keeps _ _ _ _ _ _ _ _ h)

theorem declared_parameter_stays (stale : stale_reads) (mem : List Nat) (fuel : Nat)
    (table table1 : symbol_table) (type : ast_node_type) (op t colon a T : token)
    (left ret body ast1 : ast_node) (parameters children : node_list) (parens : Bool)
    (r : typing_result)
    (hd : type = AST_CONST_ASSIGNMENT ∨ type = AST_VALUE_ASSIGNMENT)
    (h : resolve_types_reading stale mem fuel
      (binary_node type op left
        (ast_node.node AST_FUNCTION_DECLARATION t (many_node AST_PARAMETER_LIST parameters) ret
          body children parens)) table = some (r, ast1, table1))
    (hs : r.success = true)
    (hx : binary_node AST_TYPE_ASSIGNMENT colon (leaf_node AST_IDENTIFIER a)
        (leaf_node AST_IDENTIFIER T) ∈ node_list_nodes parameters)
    (hr : readable mem a) :
    ∃ j s, symbol_table_find mem table1 a = some (some j) ∧ table1.buffer[j]? = some s ∧
      s.t = a := by
  obtain ⟨fuel0, rr, right1, tableR, h1, hs1, hk1⟩ :=
    resolve_declaration_right_reading stale mem fuel table table1 type op left _ ast1 r hd h hs
  obtain ⟨fuel1, rp, parameters1, tableP, h2, hs2, hk2⟩ :=
    resolve_function_declaration_parameters_reading stale mem fuel0 table tableR t parameters
      ret body right1 children parens rr h1 hs1
  obtain ⟨j, s, hj, hsj, e⟩ := resolve_children_declares_reading stale mem fuel1 parameters
    table rp parameters1 tableP a T colon h2 hs2 hx hr
  obtain ⟨hfind, s0, s1, h0, h3, e1, _⟩ := symbol_table_find_kept mem tableP table1 a j
    (keeps_symbols_trans _ _ _ hk2 hk1) hj
  rw [hsj] at h0
  cases h0
  exact ⟨j, s1, hfind, h3, e1.trans e⟩

theorem one_scope_for_parameters (stale : stale_reads) (mem : List Nat)
    (fuel fuel1 fuelb fuelp : Nat) (table table1 table2 table3 : symbol_table)
    (type1 type2 : ast_node_type) (op1 t1 colon1 a1 T1 op2 t2 colon2 a2 T2 : token)
    (left1 ret1 body1 first1 left2 ret2 body2 : ast_node)
    (parameters1 children1 between between1 pre pre1 post children2 : node_list)
    (parens1 parens2 : Bool) (r1 rb rp : typing_result) (i : Nat) (text : String)
    (hd1 : type1 = AST_CONST_ASSIGNMENT ∨ type1 = AST_VALUE_ASSIGNMENT)
    (hd2 : type2 = AST_CONST_ASSIGNMENT ∨ type2 = AST_VALUE_ASSIGNMENT)
    (h1 : resolve_types_reading stale mem fuel1
      (binary_node type1 op1 left1
        (ast_node.node AST_FUNCTION_DECLARATION t1 (many_node AST_PARAMETER_LIST parameters1)
          ret1 body1 children1 parens1)) table = some (r1, first1, table1))
    (hs1 : r1.success = true)
    (hx : binary_node AST_TYPE_ASSIGNMENT colon1 (leaf_node AST_IDENTIFIER a1)
        (leaf_node AST_IDENTIFIER T1) ∈ node_list_nodes parameters1)
    (hr : readable mem a1)
    (hbetween : resolve_types_children_reading stale mem fuelb between table1
      = some (rb, between1, table2))
    (hpre : resolve_types_children_reading stale mem fuelp pre table2 = some (rp, pre1, table3))
    (hps : rp.success = true)
    (hsame : same_name mem a2 a1)
    (hT : symbol_table_find mem table3 T2 = some (some i))
    (hloc : location_printable_text a1.location = some text) :
    resolve_types_reading stale mem (fuelp + fuel + 5)
        (binary_node type2 op2 left2
          (ast_node.node AST_FUNCTION_DECLARATION t2
            (many_node AST_PARAMETER_LIST
              (node_list_append pre
                (node_list.cons
                  (binary_node AST_TYPE_ASSIGNMENT colon2 (leaf_node AST_IDENTIFIER a2)
                    (leaf_node AST_IDENTIFIER T2)) post)))
            ret2 body2 children2 parens2)) table2
      = some (typing_result_error a2
          ("A variable with the name '" ++ printable mem a2 ++
            "' already exists! It was declared here [" ++ text ++ "]"),
          (binary_node type2 op2 left2
            (ast_node.node AST_FUNCTION_DECLARATION t2
              (many_node AST_PARAMETER_LIST
                (node_list_append pre1
                  (node_list.cons
                    (binary_node AST_TYPE_ASSIGNMENT colon2 (leaf_node AST_IDENTIFIER a2)
                      (leaf_node AST_IDENTIFIER T2)) post)))
              ret2 body2 children2 parens2)),
          table3) ∧
    (∀ fuel0 ast tableA r ast1 tableB name j,
      resolve_types_reading stale mem fuel0 ast tableA = some (r, ast1, tableB) →
      symbol_table_find mem tableA name = some (some j) →
      symbol_table_find mem tableB name = some (some j)) ∧
    (∀ fuel0 block tableA r block1 tableB statement,
      resolve_types_reading stale mem fuel0 (many_node AST_SCOPE block) tableA
        = some (r, block1, tableB) →
      r.success = true → statement ∈ node_list_nodes block →
      ∃ fuel2 tableC rs statement1 tableD,
        resolve_types_reading stale mem fuel2 statement tableC = some (rs, statement1, tableD) ∧
        rs.success = true ∧
        ∀ name j, symbol_table_find mem tableD name = some (some j) →
          symbol_table_find mem tableB name = some (some j)) := by
  obtain ⟨j, s, hj, hsj, e⟩ := declared_parameter_stays stale mem fuel1 table table1 type1 op1
    t1 colon1 a1 T1 left1 ret1 body1 first1 parameters1 children1 parens1 r1 hd1 h1 hs1 hx hr
  obtain ⟨hfind, s0, s2, h0, h2, e2, _⟩ := symbol_table_find_kept mem table1 table3 a1 j
    (keeps_symbols_trans _ _ _
      ((resolve_types_keeps_reading stale mem fuelb).2.1 _ _ _ _ _ hbetween)
      ((resolve_types_keeps_reading stale mem fuelp).2.1 _ _ _ _ _ hpre)) hj
  rw [hsj] at h0
  cases h0
  rw [← symbol_table_find_same_name mem table3 a2 a1 hsame] at hfind
  refine ⟨resolve_function_redeclared_later_parameter stale mem fuel fuelp table2 table3 type2
    op2 t2 colon2 a2 T2 left2 ret2 body2 pre pre1 post children2 parens2 rp i j s2 text hd2 hpre
    hps hT hfind h2 (by rw [e2, e]; exact hloc), ?_, ?_⟩
  · intro fuel0 ast tableA r ast1 tableB name j0 h hn
    exact symbol_table_find_keeps mem tableA tableB name j0
      ((resolve_types_keeps_reading stale mem fuel0).1 _ _ _ _ _ h) hn
  · intro fuel0 block tableA r block1 tableB statement h hs hx0
    exact resolve_block_statement_reading stale mem fuel0 block tableA tableB r block1 statement
      h hs hx0

/-- C40 (function parameters live in the single flat scope).  The resolver is
taken with the reads of `sym->type` that follow a reallocating
`symbol_table_add` delivering whatever `stale` names, so the statement holds
for every value they deliver.  Let the declaration of a first function
(with `::` or `:=`) resolve successfully, from `table` to `table1`, and let
`a1 : T1` be one of its parameters; let any statements `between` be resolved
from `table1`, leaving `table2`.  Take the declaration of a second function
one of whose parameters, `a2 : T2`, carries the name of `a1`, where the
parameters `pre` before it resolve, from `table2` to `table3`, and the type
`T2` is known.  The resolver fails on it at `a2` with
"A variable with the name '<a2>' already exists! It was declared here [...]",
naming the location of `a1`, and leaves the table as the parameters before
`a2` left it.  No call removes a name: a name found in the table a call is
given is found at the same index in the table it leaves; and the table a block
leaves holds every name of the table that each of its statements left. -/
theorem parameters_share_one_scope (stale : stale_reads) (mem : List Nat)
    (fuel fuel1 fuelb fuelp : Nat) (table table1 table2 table3 : symbol_table)
    (type1 type2 : ast_node_type) (op1 t1 colon1 a1 T1 op2 t2 colon2 a2 T2 : token)
    (left1 ret1 body1 first1 left2 ret2 body2 : ast_node)
    (parameters1 children1 between between1 pre pre1 post children2 : node_list)
    (parens1 parens2 : Bool) (r1 rb rp : typing_result) (i : Nat) (text : String)
    (hd1 : type1 = AST_CONST_ASSIGNMENT ∨ type1 = AST_VALUE_ASSIGNMENT)
    (hd2 : type2 = AST_CONST_ASSIGNMENT ∨ type2 = AST_VALUE_ASSIGNMENT)
    (h1 : resolve_types_reading stale mem fuel1
      (binary_node type1 op1 left1
        (ast_node.node AST_FUNCTION_DECLARATION t1 (many_node AST_PARAMETER_LIST parameters1)
          ret1 body1 children1 parens1)) table = some (r1, first1, table1))
    (hs1 : r1.success = true)
    (hx : binary_node AST_TYPE_ASSIGNMENT colon1 (leaf_node AST_IDENTIFIER a1)
        (leaf_node AST_IDENTIFIER T1) ∈ node_list_nodes parameters1)
    (hr : readable mem a1)
    (hbetween : resolve_types_children_reading stale mem fuelb between table1
      = some (rb, between1, table2))
    (hpre : resolve_types_children_reading stale mem fuelp pre table2 = some (rp, pre1, table3))
    (hps : rp.success = true)
    (hsame : same_name mem a2 a1)
    (hT : symbol_table_find mem table3 T2 = some (some i))
    (hloc : location_printable_text a1.location = some text) :
    resolve_types_reading stale mem (fuelp + fuel + 5)
        (binary_node type2 op2 left2
          (ast_node.node AST_FUNCTION_DECLARATION t2
            (many_node AST_PARAMETER_LIST
              (node_list_append pre
                (node_list.cons
                  (binary_node AST_TYPE_ASSIGNMENT colon2 (leaf_node AST_IDENTIFIER a2)
                    (leaf_node AST_IDENTIFIER T2)) post)))
            ret2 body2 children2 parens2)) table2
      = some (typing_result_error a2
          ("A variable with the name '" ++ printable mem a2 ++
            "' already exists! It was declared here [" ++ text ++ "]"),
          (binary_node type2 op2 left2
            (ast_node.node AST_FUNCTION_DECLARATION t2
              (many_node AST_PARAMETER_LIST
                (node_list_append pre1
                  (node_list.cons
                    (binary_node AST_TYPE_ASSIGNMENT colon2 (leaf_node AST_IDENTIFIER a2)
                      (leaf_node AST_IDENTIFIER T2)) post)))
              ret2 body2 children2 parens2)),
          table3) ∧
    (∀ fuel0 ast tableA r ast1 tableB name j,
      resolve_types_reading stale mem fuel0 ast tableA = some (r, ast1, tableB) →
      symbol_table_find mem tableA name = some (some j) →
      symbol_table_find mem tableB name = some (some j)) ∧
    (∀ fuel0 block tableA r block1 tableB statement,
      resolve_types_reading stale mem fuel0 (many_node AST_SCOPE block) tableA
        = some (r, block1, tableB) →
      r.success = true → statement ∈ node_list_nodes block →
      ∃ fuel2 tableC rs statement1 tableD,
        resolve_types_reading stale mem fuel2 statement tableC = some (rs, statement1, tableD) ∧
        rs.success = true ∧
        ∀ name j, symbol_table_find mem tableD name = some (some j) →
          symbol_table_find mem tableB name = some (some j)) :=
  one_scope_for_parameters stale mem fuel fuel1 fuelb fuelp table table1 table2 table3 type1 type2
    op1 t1 colon1 a1 T1 op2 t2 colon2 a2 T2 left1 ret1 body1 first1 left2 ret2 body2 parameters1
    children1 between between1 pre pre1 post children2 parens1 parens2 r1 rb rp i text hd1 hd2 h1
    hs1 hx hr hbetween hpre hps hsame hT hloc

theorem parameters_share_one_scope_witness :
    resolve_types_reading (fun _ _ => some ((-572662307), (-17891602))) two_parameters_source 6
        second_declaration_after_two_parameters (two_parameter_table (-572662307) (-17891602))
      = some (typing_result_error (source_token "f" TOKEN_IDENTIFIER 39 1 1 40 token_value.zero)
          "A variable with the name 'a' already exists! It was declared here [f:1:7]",
          second_declaration_after_two_parameters, two_parameter_table (-572662307) (-17891602)) :=
  (parameters_share_one_scope (fun _ _ => some ((-572662307), (-17891602)))
    two_parameters_source 0 6 1 1
    fresh_symbol_table (two_parameter_table (-572662307) (-17891602))
    (two_parameter_table (-572662307) (-17891602)) (two_parameter_table (-572662307) (-17891602))
    AST_CONST_ASSIGNMENT AST_CONST_ASSIGNMENT
    (source_token "f" TOKEN_COLON 3 1 1 4 token_value.zero) token_zero
    (source_token "f" TOKEN_COLON 7 1 1 8 token_value.zero)
    (source_token "f" TOKEN_IDENTIFIER 6 1 1 7 token_value.zero)
    (source_token "f" TOKEN_IDENTIFIER 9 3 1 10 token_value.zero)
    (source_token "f" TOKEN_COLON 36 1 1 37 token_value.zero) token_zero
    (source_token "f" TOKEN_COLON 40 1 1 41 token_value.zero)
    (source_token "f" TOKEN_IDENTIFIER 39 1 1 40 token_value.zero)
    (source_token "f" TOKEN_IDENTIFIER 42 3 1 43 token_value.zero)
    (binary_node AST_TYPE_ASSIGNMENT (source_token "f" TOKEN_COLON 2 1 1 3 token_value.zero)
      (leaf_node AST_IDENTIFIER (source_token "f" TOKEN_IDENTIFIER 0 1 1 1 token_value.zero))
      ast_node.null)
    (leaf_node AST_IDENTIFIER (source_token "f" TOKEN_IDENTIFIER 25 3 1 26 token_value.zero))
    (many_node AST_SCOPE node_list_create) _
    (binary_node AST_TYPE_ASSIGNMENT (source_token "f" TOKEN_COLON 35 1 1 36 token_value.zero)
      (leaf_node AST_IDENTIFIER (source_token "f" TOKEN_IDENTIFIER 33 1 1 34 token_value.zero))
      ast_node.null)
    (leaf_node AST_IDENTIFIER (source_token "f" TOKEN_IDENTIFIER 50 3 1 51 token_value.zero))
    (many_node AST_SCOPE node_list_create)
    (node_list.cons
      (binary_node AST_TYPE_ASSIGNMENT (source_token "f" TOKEN_COLON 7 1 1 8 token_value.zero)
        (leaf_node AST_IDENTIFIER (source_token "f" TOKEN_IDENTIFIER 6 1 1 7 token_value.zero))
        (leaf_node AST_IDENTIFIER (source_token "f" TOKEN_IDENTIFIER 9 3 1 10 token_value.zero)))
      (node_list.cons
        (binary_node AST_TYPE_ASSIGNMENT (source_token "f" TOKEN_COLON 15 1 1 16 token_value.zero)
          (leaf_node AST_IDENTIFIER (source_token "f" TOKEN_IDENTIFIER 14 1 1 15 token_value.zero))
          (leaf_node AST_IDENTIFIER (source_token "f" TOKEN_IDENTIFIER 17 3 1 18 token_value.zero)))
        node_list.nil))
    node_list.nil node_list.nil node_list.nil node_list.nil node_list.nil node_list.nil
    node_list.nil false false
    (typing_result_success TYPE_INFO_FUNCTION) (typing_result_success TYPE_INFO_UNKNOWN)
    (typing_result_success TYPE_INFO_UNKNOWN) 1
    "f:1:7" (Or.inl rfl) (Or.inl rfl) rfl rfl (List.Mem.head _) (by decide) rfl rfl rfl
    (by decide) rfl rfl).1

/-- The second statement of `g :: (a: int) -> int {}; h :: (b: int, a: int) -> int {};`
is rejected at its second parameter `a`, whatever the reads after a
reallocation deliver. -/
theorem later_parameter_rejected (stale : stale_reads) :
    (resolve_types_reading stale later_parameter_source 7 later_parameter_declaration
      one_parameter_table).map (fun r => r.1)
      = some (typing_result_error (source_token "f" TOKEN_IDENTIFIER 39 1 1 40 token_value.zero)
          "A variable with the name 'a' already exists! It was declared here [f:1:7]") := by
  rfl

end Rouleaux
